import Mathlib

/-!
# SOFS15: free-space allocators and cluster addressing

A shallow embedding of the metadata engine of the SOFS15 file system
(`mkfs_sofs15.c`, `sofs_ifuncs_1`, `sofs_ifuncs_2`, `sofs_ifuncs_3`).

Conventions of the embedding.

* `uint32_t` values are natural numbers; an increment or decrement that the C code performs
  on a stored field is reduced modulo `2^32`.
* Every C function that returns an `int` status and works on the global storage areas becomes
  a function from the volume to a status and the volume it leaves behind; values written
  through an output pointer are returned as a further component.
* The block layer (`soLoadSuperBlock`, `soLoadBlockFCT`, `soLoadBlockInT`,
  `soLoadDirRefClust`, ... and the matching store operations) is embedded on the path where
  it succeeds: a load followed by updates through the returned pointer and a store is an
  update of the addressed element of the volume.
* The whole-volume checks `soQCheckSuperBlock`, `soQCheckInT` and `soQCheckDZ` are library
  code outside the sources; the embedding follows the path on which they return `0`.
-/

namespace SOFS15

/-! ## Constants -/

/-- `NULL_CLUSTER` of `sofs_datacluster.h`: `(uint32_t)(~0UL)`. -/
def NULL_CLUSTER : Nat := 4294967295

/-- `NULL_BLOCK` of `sofs_superblock.h`: `(uint32_t)(~0UL)`. -/
def NULL_BLOCK : Nat := 4294967295

/-- Modelled from the spec: `NULL_INODE` is declared in `sofs_inode.h`, which is not among the
sources; the data model gives `NULL_INODE = 2^32 - 1`. -/
def NULL_INODE : Nat := 4294967295

/-- `DZONE_CACHE_SIZE` of `sofs_superblock.h`. -/
def DZONE_CACHE_SIZE : Nat := 50

/-- `ALLOC_CLT` of `sofs_basicconsist.h`. -/
def ALLOC_CLT : Nat := 0

/-- `FREE_CLT` of `sofs_basicconsist.h`. -/
def FREE_CLT : Nat := 1

/-- `GET` of `soHandleFileCluster.c`. -/
def GET : Nat := 0

/-- `ALLOC` of `soHandleFileCluster.c`. -/
def ALLOC : Nat := 1

/-- `FREE` of `soHandleFileCluster.c`. -/
def FREE : Nat := 2

/-- `EIO` of `errno.h`. -/
def EIO : Int := 5

/-- `EINVAL` of `errno.h`. -/
def EINVAL : Int := 22

/-- `ENOSPC` of `errno.h`. -/
def ENOSPC : Int := 28

/-- `ELIBBAD` of `errno.h`. -/
def ELIBBAD : Int := 80

/-- `EIUININVAL` of `sofs_basicconsist.h`. -/
def EIUININVAL : Int := 519

/-- `EDCNALINVAL` of `sofs_basicconsist.h`. -/
def EDCNALINVAL : Int := 520

/-- `EDCARDYIL` of `sofs_basicconsist.h`. -/
def EDCARDYIL : Int := 524

/-- `EDCNOTIL` of `sofs_basicconsist.h`. -/
def EDCNOTIL : Int := 525

/-- Increment of a `uint32_t` field. -/
def inc32 (x : Nat) : Nat := (x + 1) % 4294967296

/-- Decrement of a `uint32_t` field. -/
def dec32 (x : Nat) : Nat := (4294967295 + x) % 4294967296

/-- Constants of `sofs_const.h`, `sofs_inode.h` and `sofs_direntry.h`, and the size of a
pointer. None of the headers is among the sources, so the values the code refers to by name
are parameters of the embedding. -/
structure SOConst where
  /-- number of direct references of an inode -/
  N_DIRECT : Nat
  /-- number of references per data cluster -/
  RPC : Nat
  /-- flag of `mode`: the inode is free -/
  INODE_FREE : Nat
  /-- flag of `mode`: the inode describes a directory -/
  INODE_DIR : Nat
  /-- flag of `mode`: the inode describes a regular file -/
  INODE_FILE : Nat
  /-- flag of `mode`: the inode describes a symbolic link -/
  INODE_SYMLINK : Nat
  /-- the nine permission flags of `mode`, or-ed together -/
  INODE_PERM : Nat
  /-- size of a data cluster in bytes -/
  CLUSTER_SIZE : Nat
  /-- number of directory entries per data cluster -/
  DPC : Nat
  /-- maximum length of the name of a directory entry -/
  MAX_NAME : Nat
  /-- maximum length of a path -/
  MAX_PATH : Nat
  /-- `sizeof (const char *)`, the size of a pointer on the platform -/
  SIZEOF_PTR : Nat
deriving DecidableEq

/-- Values the process environment supplies: `getuid ()`, `getgid ()` and `time (NULL)`. -/
structure SOEnv where
  /-- result of `getuid ()` -/
  uid : Nat
  /-- result of `getgid ()` -/
  gid : Nat
  /-- result of `time (NULL)` -/
  now : Nat
deriving DecidableEq

/-! ## Data model -/

/-- `struct fCNode` of `sofs_superblock.h`. -/
structure fCNode where
  /-- index of the first filled/free array element -/
  cache_idx : Nat
  /-- storage area of `DZONE_CACHE_SIZE` references -/
  cache : List Nat
deriving DecidableEq

/-- `SOSuperBlock` of `sofs_superblock.h`: the inode-table and data-zone metadata. -/
structure SOSuperBlock where
  /-- total number of inodes -/
  itotal : Nat
  /-- number of free inodes -/
  ifree : Nat
  /-- head / tail of the double-linked list of free inodes -/
  ihdtl : Nat
  /-- retrieval cache of references to free data clusters -/
  dzone_retriev : fCNode
  /-- insertion cache of references to free data clusters -/
  dzone_insert : fCNode
  /-- point of retrieval of the table of references to free data clusters -/
  tbfreeclust_head : Nat
  /-- point of insertion of the table of references to free data clusters -/
  tbfreeclust_tail : Nat
  /-- total number of data clusters -/
  dzone_total : Nat
  /-- number of free data clusters -/
  dzone_free : Nat
deriving DecidableEq

/-- `SOInode` of `sofs_inode.h` as the code uses it: `vD1` is `prev` / `atime`, `vD2` is
`next` / `mtime`. -/
structure SOInode where
  /-- type, permissions and free flag -/
  mode : Nat
  /-- number of directory entries that refer to the inode -/
  refcount : Nat
  /-- user id of the owner -/
  owner : Nat
  /-- group id of the owner -/
  group : Nat
  /-- size of the file in bytes -/
  size : Nat
  /-- number of data clusters attached to the inode -/
  clucount : Nat
  /-- `prev` when the inode is free, `atime` when it is in use -/
  vD1 : Nat
  /-- `next` when the inode is free, `mtime` when it is in use -/
  vD2 : Nat
  /-- direct references -/
  d : List Nat
  /-- reference to the cluster of direct references -/
  i1 : Nat
  /-- reference to the cluster of single indirect references -/
  i2 : Nat
deriving DecidableEq

instance : Inhabited SOInode :=
  ⟨{ mode := 0, refcount := 0, owner := 0, group := 0, size := 0, clucount := 0,
     vD1 := 0, vD2 := 0, d := [], i1 := 0, i2 := 0 }⟩

/-- `SODirEntry` of `sofs_direntry.h`, as the code uses it: the name, of `MAX_NAME + 1`
characters, and the number of the inode. -/
structure SODirEntry where
  /-- the name of the entry, an array of `MAX_NAME + 1` characters -/
  name : List Nat
  /-- the number of the inode the entry refers to -/
  nInode : Nat
deriving DecidableEq

/-- `SODataClust` of `sofs_datacluster.h`. The three interpretations of the union are kept
side by side: an assignment through one of them leaves the other two as they were, and a
buffer that is copied to or from a cluster carries the three. The embedding therefore says
what a cluster holds only under the interpretation it was last written through. -/
structure SODataClust where
  /-- sub-array of data cluster references -/
  ref : List Nat
  /-- sub-array of directory entries -/
  de : List SODirEntry := []
  /-- byte stream -/
  data : List Nat := []
deriving DecidableEq

instance : Inhabited SODataClust := ⟨{ ref := [] }⟩

/-- The storage device: superblock, table of inodes, table of references to free data
clusters (addressed by slot, `soConvertRefFCT` splitting a slot into block and offset) and
data zone (addressed by logical cluster number). -/
structure Volume where
  /-- the superblock -/
  sb : SOSuperBlock
  /-- the table of inodes -/
  itable : List SOInode
  /-- the table of references to free data clusters -/
  fct : List Nat
  /-- the data zone -/
  dzone : List SODataClust
deriving DecidableEq

/-! ## Free data clusters: `soFreeDataCluster.c` and `soAllocDataCluster.c` -/

/-- The `for` loop of `soDeplete`: `k` iterations remain, `cycle` is the loop counter and
`index` the running point of insertion. Returns `index`, the insertion cache and the table. -/
def depleteLoop (total : Nat) : Nat → Nat → Nat → List Nat → List Nat → Nat × List Nat × List Nat
  | 0, _, index, cache, fct => (index, cache, fct)
  | k + 1, cycle, index, cache, fct =>
      depleteLoop total k (cycle + 1) ((index + 1) % total)
        (cache.set cycle NULL_CLUSTER) (fct.set index (cache.getD cycle 0))

/-- `soDeplete` of `soFreeDataCluster.c`. -/
def soDeplete (v : Volume) : Int × Volume :=
  let r := depleteLoop v.sb.dzone_total v.sb.dzone_insert.cache_idx 0 v.sb.tbfreeclust_tail
    v.sb.dzone_insert.cache v.fct
  (0, { v with
        sb := { v.sb with
                dzone_insert := { cache_idx := 0, cache := r.2.1 }
                tbfreeclust_tail := r.1 }
        fct := r.2.2 })

/-- First `for` loop of `soReplenish`, which leaves at `index == tbfreeclust_tail`: `k`
iterations remain. Returns `n`, `index`, the retrieval cache and the table. -/
def replenishWalk (tail total : Nat) :
    Nat → Nat → Nat → List Nat → List Nat → Nat × Nat × List Nat × List Nat
  | 0, n, index, cache, fct => (n, index, cache, fct)
  | k + 1, n, index, cache, fct =>
      if index = tail then (n, index, cache, fct)
      else replenishWalk tail total k (n + 1) ((index + 1) % total)
        (cache.set n (fct.getD index 0)) (fct.set index NULL_CLUSTER)

/-- Second `for` loop of `soReplenish`, after the insertion cache was depleted: `k`
iterations remain. Returns `index`, the retrieval cache and the table. -/
def replenishTake (total : Nat) : Nat → Nat → Nat → List Nat → List Nat → Nat × List Nat × List Nat
  | 0, _, index, cache, fct => (index, cache, fct)
  | k + 1, n, index, cache, fct =>
      replenishTake total k (n + 1) ((index + 1) % total)
        (cache.set n (fct.getD index 0)) (fct.set index NULL_CLUSTER)

/-- `soReplenish` of `soAllocDataCluster.c`. -/
def soReplenish (v : Volume) : Int × Volume :=
  let nclustt := if v.sb.dzone_free < DZONE_CACHE_SIZE then v.sb.dzone_free else DZONE_CACHE_SIZE
  let r := replenishWalk v.sb.tbfreeclust_tail v.sb.dzone_total nclustt
    (DZONE_CACHE_SIZE - nclustt) v.sb.tbfreeclust_head v.sb.dzone_retriev.cache v.fct
  let v1 : Volume :=
    { v with sb := { v.sb with dzone_retriev := { v.sb.dzone_retriev with cache := r.2.2.1 } }
             fct := r.2.2.2 }
  if r.1 ≠ DZONE_CACHE_SIZE then
    let e := soDeplete v1
    if e.1 ≠ 0 then e
    else
      let v2 := e.2
      let t := replenishTake v2.sb.dzone_total (DZONE_CACHE_SIZE - r.1) r.1 r.2.1
        v2.sb.dzone_retriev.cache v2.fct
      (0, { v2 with
            sb := { v2.sb with
                    dzone_retriev := { cache_idx := DZONE_CACHE_SIZE - nclustt, cache := t.2.1 }
                    tbfreeclust_head := t.1 }
            fct := t.2.2 })
  else
    (0, { v1 with
          sb := { v1.sb with
                  dzone_retriev := { cache_idx := DZONE_CACHE_SIZE - nclustt, cache := r.2.2.1 }
                  tbfreeclust_head := r.2.1 } })

/-- `soAllocDataCluster` of `soAllocDataCluster.c`, called with a non-null pointer. The third
component is the value stored in `*p_nClust` (`0` when nothing is stored). -/
def soAllocDataCluster (v : Volume) : Int × Volume × Nat :=
  if v.sb.dzone_free = 0 then (-ENOSPC, v, 0)
  else
    let e : Int × Volume :=
      if v.sb.dzone_retriev.cache_idx = DZONE_CACHE_SIZE then soReplenish v else (0, v)
    if e.1 ≠ 0 then (e.1, e.2, 0)
    else
      let v1 := e.2
      let nClust := v1.sb.dzone_retriev.cache.getD v1.sb.dzone_retriev.cache_idx 0
      (0, { v1 with
            sb := { v1.sb with
                    dzone_retriev := { v1.sb.dzone_retriev with
                                       cache_idx := inc32 v1.sb.dzone_retriev.cache_idx }
                    dzone_free := dec32 v1.sb.dzone_free } }, nClust)

/-- Number of slots of the table of references between `head` and `tail`, counted
circularly modulo `total`. -/
def fifoCount (total head tail : Nat) : Nat := (tail + total - head) % total

/-- The references stored in `n` consecutive slots of the table, starting at slot `head` and
advancing circularly modulo `total`. -/
def fifoRefs (fct : List Nat) (total : Nat) : Nat → Nat → List Nat
  | _, 0 => []
  | head, n + 1 => fct.getD head 0 :: fifoRefs fct total ((head + 1) % total) n

/-- The live part of the retrieval cache: slots `cache_idx .. DZONE_CACHE_SIZE - 1`. -/
def retrievLive (sb : SOSuperBlock) : List Nat :=
  (sb.dzone_retriev.cache.take DZONE_CACHE_SIZE).drop sb.dzone_retriev.cache_idx

/-- The live part of the insertion cache: slots `0 .. cache_idx - 1`. -/
def insertLive (sb : SOSuperBlock) : List Nat :=
  sb.dzone_insert.cache.take sb.dzone_insert.cache_idx

/-- The references in the slots of the table from `tbfreeclust_head` up to
`tbfreeclust_tail`. -/
def fifoLive (v : Volume) : List Nat :=
  fifoRefs v.fct v.sb.dzone_total v.sb.tbfreeclust_head
    (fifoCount v.sb.dzone_total v.sb.tbfreeclust_head v.sb.tbfreeclust_tail)

/-- All free references of the volume: retrieval cache, table, insertion cache. -/
def freeRefs (v : Volume) : List Nat :=
  retrievLive v.sb ++ fifoLive v ++ insertLive v.sb

/-- Modelled from the spec: `soQCheckStatDC` is declared in `sofs_basicconsist.h` and its
implementation is not among the sources. Its documentation reads: the caches and the table
of references to free data clusters are searched to check if they include the reference to
the data cluster; if the reference is there, the data cluster is marked as free, otherwise it
is marked as allocated. The second component is the value stored in `*p_stat`. -/
def soQCheckStatDC (v : Volume) (nClust : Nat) : Int × Nat :=
  if nClust ∈ freeRefs v then (0, FREE_CLT) else (0, ALLOC_CLT)

/-- `soFreeDataCluster` of `soFreeDataCluster.c`. -/
def soFreeDataCluster (v : Volume) (nClust : Nat) : Int × Volume :=
  if nClust < 1 ∨ nClust > dec32 v.sb.dzone_total then (-EINVAL, v)
  else
    let c := soQCheckStatDC v nClust
    if c.1 ≠ 0 then (c.1, v)
    else if c.2 = FREE_CLT then (-EDCNALINVAL, v)
    else
      let e : Int × Volume :=
        if v.sb.dzone_insert.cache_idx = DZONE_CACHE_SIZE then soDeplete v else (0, v)
      if e.1 ≠ 0 then e
      else
        let v1 := e.2
        (0, { v1 with
              sb := { v1.sb with
                      dzone_insert :=
                        { cache_idx := inc32 v1.sb.dzone_insert.cache_idx
                          cache := v1.sb.dzone_insert.cache.set v1.sb.dzone_insert.cache_idx nClust }
                      dzone_free := inc32 v1.sb.dzone_free } })

/-! ## Formatting: `mkfs_sofs15.c` -/

/-- `fillInSuperBlock` of `mkfs_sofs15.c`, for the inode-table and data-zone metadata. -/
def fillInSuperBlock (itotal nclusttotal : Nat) : SOSuperBlock :=
  { itotal := itotal
    ifree := dec32 itotal
    ihdtl := (4294967296 + itotal - dec32 itotal) % 4294967296
    dzone_total := nclusttotal
    dzone_free := dec32 nclusttotal
    dzone_retriev := { cache_idx := DZONE_CACHE_SIZE, cache := List.replicate DZONE_CACHE_SIZE NULL_BLOCK }
    dzone_insert := { cache_idx := 0, cache := List.replicate DZONE_CACHE_SIZE NULL_BLOCK }
    tbfreeclust_head := 1
    tbfreeclust_tail := 0 }

/-- The element `n` of a table of inodes. -/
def getI (t : List SOInode) (n : Nat) : SOInode := t.getD n default

/-- `fillInINT` of `mkfs_sofs15.c`. The two nested loops over blocks and over the `IPB` inodes
of a block visit the inodes `0 .. itable_size * IPB - 1`, that is `0 .. itotal - 1`. -/
def fillInINT (k : SOConst) (env : SOEnv) (sb : SOSuperBlock) : List SOInode :=
  let t0 : List SOInode := (List.range sb.itotal).map fun n =>
    { mode := k.INODE_FREE, refcount := 0, owner := 0, group := 0, size := 0, clucount := 0
      vD1 := dec32 n, vD2 := inc32 n
      d := List.replicate k.N_DIRECT NULL_CLUSTER, i1 := NULL_CLUSTER, i2 := NULL_CLUSTER }
  let t1 := t0.set 0
    { getI t0 0 with
      mode := k.INODE_PERM ||| k.INODE_DIR
      refcount := 2, owner := env.uid, group := env.gid, size := k.CLUSTER_SIZE, clucount := 1
      vD1 := env.now, vD2 := env.now
      d := (getI t0 0).d.set 0 0 }
  let t2 := t1.set 1 { getI t1 1 with vD1 := dec32 sb.itotal }
  t2.set (sb.itotal - 1) { getI t2 (sb.itotal - 1) with vD2 := 1 }

/-- `fillInTRefFDC` of `mkfs_sofs15.c`: slot `k = i * RPB + j` of the table, for the
`nslots = tbfreeclust_size * RPB` slots the blocks of the table hold. -/
def fillInTRefFDC (nslots : Nat) (sb : SOSuperBlock) : List Nat :=
  (List.range nslots).map fun k =>
    if k = 0 then NULL_CLUSTER else if k ≤ sb.dzone_free then k else 4294967294

/-- The freshly formatted volume with `itotal` inodes, `nclusttotal` data clusters and a table
of references of `nslots` slots. The data zone `dz` is what the formatter leaves in the data
clusters. -/
def mkfs (k : SOConst) (env : SOEnv) (itotal nclusttotal nslots : Nat) (dz : List SODataClust) :
    Volume :=
  let sb := fillInSuperBlock itotal nclusttotal
  { sb := sb, itable := fillInINT k env sb, fct := fillInTRefFDC nslots sb, dzone := dz }

/-! ## Invariants of the data-zone metadata -/

/-- Well-formedness of the data-zone metadata: legal indices, caches of `DZONE_CACHE_SIZE`
slots, and `dzone_free` counting the free references. -/
structure DZWf (v : Volume) : Prop where
  total_lt : v.sb.dzone_total < 4294967296
  fct_len : v.sb.dzone_total ≤ v.fct.length
  rlen : v.sb.dzone_retriev.cache.length = DZONE_CACHE_SIZE
  ilen : v.sb.dzone_insert.cache.length = DZONE_CACHE_SIZE
  ridx : v.sb.dzone_retriev.cache_idx ≤ DZONE_CACHE_SIZE
  iidx : v.sb.dzone_insert.cache_idx ≤ DZONE_CACHE_SIZE
  head_lt : v.sb.tbfreeclust_head < v.sb.dzone_total
  tail_lt : v.sb.tbfreeclust_tail < v.sb.dzone_total
  free_eq : v.sb.dzone_free = (freeRefs v).length
  free_lt : (freeRefs v).length < v.sb.dzone_total


/-! ## Sequences of calls of the data-cluster allocator -/

/-- A call of `soAllocDataCluster` or of `soFreeDataCluster`. -/
inductive DCOp where
  | alloc : DCOp
  | free : Nat → DCOp
deriving DecidableEq

/-- One call on a volume. The second component lists the clusters that were returned by
`soAllocDataCluster` and not freed since. -/
def dcStep (s : Volume × List Nat) : DCOp → Volume × List Nat
  | DCOp.alloc =>
      let r := soAllocDataCluster s.1
      if r.1 = 0 then (r.2.1, r.2.2 :: s.2) else (r.2.1, s.2)
  | DCOp.free n =>
      let r := soFreeDataCluster s.1 n
      if r.1 = 0 then (r.2, s.2.erase n) else (r.2, s.2)

/-- A sequence of calls, starting with no cluster allocated. -/
def dcRun (v : Volume) (ops : List DCOp) : Volume × List Nat :=
  ops.foldl dcStep (v, [])

/-- Invariant of a sequence of calls: the metadata are well formed and the free references
together with the allocated clusters are the clusters `1 .. dzone_total - 1`, each once. -/
def DCInv (s : Volume × List Nat) : Prop :=
  DZWf s.1 ∧ (freeRefs s.1 ++ s.2).Perm (List.range' 1 (s.1.sb.dzone_total - 1))

/-- `soAllocDataCluster` called until it fails, `fuel` times at most. Returns the clusters
obtained, the status of the call that failed (`0` if none did) and the volume. -/
def allocAll : Nat → Volume → List Nat × Int × Volume
  | 0, v => ([], 0, v)
  | fuel + 1, v =>
      let r := soAllocDataCluster v
      if r.1 ≠ 0 then ([], r.1, r.2.1)
      else
        let q := allocAll fuel r.2.1
        (r.2.2 :: q.1, q.2)

/-- `soFreeDataCluster` called on each cluster of a list in turn. Returns the statuses and
the volume. -/
def freeSeq : List Nat → Volume → List Int × Volume
  | [], v => ([], v)
  | n :: l, v =>
      let r := soFreeDataCluster v n
      let q := freeSeq l r.2
      (r.1 :: q.1, q.2)

/-- Allocate every data cluster until `soAllocDataCluster` fails, then free the clusters
obtained in the reverse order of allocation. Returns the statuses of the frees and the
volume. -/
def allocFreeAll (fuel : Nat) (v : Volume) : List Int × Volume :=
  let a := allocAll fuel v
  freeSeq a.1.reverse a.2.2

/-! ## A concrete configuration, used to instantiate the theorems -/

/-- A choice of the constants of `sofs_const.h` and `sofs_inode.h`, with small clusters. -/
def exampleConst : SOConst :=
  { N_DIRECT := 2, RPC := 2, INODE_FREE := 4096, INODE_DIR := 2048, INODE_FILE := 1024
    INODE_SYMLINK := 512, INODE_PERM := 511, CLUSTER_SIZE := 8, DPC := 1, MAX_NAME := 3
    MAX_PATH := 15, SIZEOF_PTR := 4 }

/-- A process environment. -/
def exampleEnv : SOEnv := { uid := 1000, gid := 1000, now := 1446336000 }

/-! ## Free inodes: `soAllocInode.c` and `soFreeInode.c` -/

/-- Modelled from the spec: `soConvertRefInT` belongs to `sofs_basicoper`, which is not among
the sources. The layout component translates an inode number into a block of the table of
inodes and an offset, and rejects `nInode ≥ itotal`. Only the status is of interest here,
the table being addressed by inode number. -/
def soConvertRefInT (v : Volume) (nInode : Nat) : Int :=
  if nInode ≥ v.sb.itotal then -EINVAL else 0

/-- Modelled from the spec: `soQCheckInodeIU` is declared in `sofs_basicconsist.h` and its
implementation is not among the sources. It is the quick check of an inode in use: the
fields of the inode are checked for consistency and only legal values are allowed, that is,
the free flag of `mode` is clear and `mode` carries one of the legal file types. The check of
the list of references (`-ELDCININVAL`) is followed on the path where it passes. -/
def soQCheckInodeIU (k : SOConst) (p_inode : SOInode) : Int :=
  if p_inode.mode &&& k.INODE_FREE ≠ 0 then -EIUININVAL
  else if p_inode.mode &&& (k.INODE_DIR ||| k.INODE_FILE ||| k.INODE_SYMLINK) = k.INODE_DIR
      ∨ p_inode.mode &&& (k.INODE_DIR ||| k.INODE_FILE ||| k.INODE_SYMLINK) = k.INODE_FILE
      ∨ p_inode.mode &&& (k.INODE_DIR ||| k.INODE_FILE ||| k.INODE_SYMLINK) = k.INODE_SYMLINK
    then 0
  else -EIUININVAL

/-- The part of `soAllocInode` that takes the head of the list of free inodes out of the
list (lines 88 to 133). -/
def allocInodeUnlink (v : Volume) : Int × Volume :=
  let head := getI v.itable v.sb.ihdtl
  if head.vD1 = head.vD2 then
    if head.vD1 = v.sb.ihdtl then
      (0, { v with sb := { v.sb with ihdtl := NULL_INODE } })
    else
      let next := head.vD2
      if soConvertRefInT v next ≠ 0 then (soConvertRefInT v next, v)
      else
        (0, { v with
              itable := v.itable.set next { getI v.itable next with vD1 := next, vD2 := next }
              sb := { v.sb with ihdtl := next } })
  else
    let prev := head.vD1
    let next := head.vD2
    if soConvertRefInT v next ≠ 0 then (soConvertRefInT v next, v)
    else
      let t1 := v.itable.set next { getI v.itable next with vD1 := prev }
      if soConvertRefInT v prev ≠ 0 then (soConvertRefInT v prev, { v with itable := t1 })
      else
        let t2 := t1.set prev { getI t1 prev with vD2 := next }
        (0, { v with itable := t2, sb := { v.sb with ihdtl := next } })

/-- `soAllocInode` of `soAllocInode.c`, called with a non-null pointer. The third component
is the value stored in `*p_nInode` (`0` when nothing is stored). -/
def soAllocInode (k : SOConst) (env : SOEnv) (v : Volume) (type : Nat) : Int × Volume × Nat :=
  if type ≠ k.INODE_DIR ∧ type ≠ k.INODE_FILE ∧ type ≠ k.INODE_SYMLINK then (-EINVAL, v, 0)
  else if v.sb.ifree = 0 then (-ENOSPC, v, 0)
  else
    let nInode := v.sb.ihdtl
    if soConvertRefInT v v.sb.ihdtl ≠ 0 then (soConvertRefInT v v.sb.ihdtl, v, nInode)
    else
      let r := allocInodeUnlink v
      if r.1 ≠ 0 then (r.1, r.2, nInode)
      else
        let v1 : Volume := { r.2 with sb := { r.2.sb with ifree := dec32 r.2.sb.ifree } }
        if soConvertRefInT v1 nInode ≠ 0 then (soConvertRefInT v1 nInode, v1, nInode)
        else
          let p := getI v1.itable nInode
          (0, { v1 with
                itable := v1.itable.set nInode
                  { p with
                    mode := (p.mode &&& 0) ||| type
                    refcount := 0
                    owner := env.uid
                    group := env.gid
                    size := 0
                    clucount := 0
                    vD1 := env.now
                    vD2 := env.now
                    i1 := NULL_CLUSTER
                    i2 := NULL_CLUSTER
                    d := List.replicate k.N_DIRECT NULL_CLUSTER } }, nInode)

/-- The part of `soFreeInode` that inserts the inode at the tail of the list of free inodes
(lines 88 to 145), on the table `t0` in which the inode already carries the free flag. -/
def freeInodeLink (v : Volume) (t0 : List SOInode) (nInode : Nat) : Int × Volume :=
  if v.sb.ihdtl = NULL_INODE then
    let t1 := t0.set nInode { getI t0 nInode with vD1 := nInode, vD2 := nInode }
    (0, { v with itable := t1, sb := { v.sb with ihdtl := nInode } })
  else if soConvertRefInT v v.sb.ihdtl ≠ 0 then
    (soConvertRefInT v v.sb.ihdtl, { v with itable := t0 })
  else if (getI t0 v.sb.ihdtl).vD1 = v.sb.ihdtl then
    let t1 := t0.set v.sb.ihdtl { getI t0 v.sb.ihdtl with vD1 := nInode, vD2 := nInode }
    let t2 := t1.set nInode { getI t1 nInode with vD1 := v.sb.ihdtl, vD2 := v.sb.ihdtl }
    (0, { v with itable := t2 })
  else
    let prev := (getI t0 v.sb.ihdtl).vD1
    let t1 := t0.set v.sb.ihdtl { getI t0 v.sb.ihdtl with vD1 := nInode }
    if soConvertRefInT v prev ≠ 0 then (soConvertRefInT v prev, { v with itable := t1 })
    else
      let t2 := t1.set prev { getI t1 prev with vD2 := nInode }
      let t3 := t2.set nInode { getI t2 nInode with vD1 := prev, vD2 := v.sb.ihdtl }
      (0, { v with itable := t3 })

/-- `soFreeInode` of `soFreeInode.c`. -/
def soFreeInode (k : SOConst) (v : Volume) (nInode : Nat) : Int × Volume :=
  if nInode < 1 ∨ nInode ≥ v.sb.itotal then (-EINVAL, v)
  else if soConvertRefInT v nInode ≠ 0 then (soConvertRefInT v nInode, v)
  else if (getI v.itable nInode).refcount ≠ 0 then (-EINVAL, v)
  else if (getI v.itable nInode).mode = k.INODE_FREE then (-EIUININVAL, v)
  else if soQCheckInodeIU k (getI v.itable nInode) ≠ 0 then
    (soQCheckInodeIU k (getI v.itable nInode), v)
  else
    let t0 := v.itable.set nInode
      { getI v.itable nInode with mode := (getI v.itable nInode).mode ||| k.INODE_FREE }
    if nInode = 0 then (-EINVAL, { v with itable := t0 })
    else
      let r := freeInodeLink v t0 nInode
      if r.1 ≠ 0 then r
      else (0, { r.2 with sb := { r.2.sb with ifree := inc32 r.2.sb.ifree } })

/-- A call of `soAllocInode`, with the process environment of the call, or of
`soFreeInode`. -/
inductive INOp where
  | alloc : SOEnv → Nat → INOp
  | free : Nat → INOp
deriving DecidableEq

/-- One call on a volume. -/
def inoStep (k : SOConst) (v : Volume) : INOp → Volume
  | INOp.alloc env type => (soAllocInode k env v type).2.1
  | INOp.free n => (soFreeInode k v n).2

/-- A sequence of calls. -/
def inoRun (k : SOConst) (v : Volume) (ops : List INOp) : Volume :=
  ops.foldl (inoStep k) v

/-- Walk along the `next` fields from `cur` until the inode `stop` comes next, `fuel` steps
at most. -/
def walkNext (t : List SOInode) (stop : Nat) : Nat → Nat → List Nat
  | 0, _ => []
  | fuel + 1, cur =>
      cur :: (if (getI t cur).vD2 = stop then [] else walkNext t stop fuel (getI t cur).vD2)

/-- The inodes reachable from `ihdtl` through the `next` fields. -/
def freeInodes (v : Volume) : List Nat :=
  if v.sb.ihdtl = NULL_INODE then [] else walkNext v.itable v.sb.ihdtl v.sb.itotal v.sb.ihdtl

/-- The free flag of the inode is set. -/
def isFreeInode (k : SOConst) (p_inode : SOInode) : Prop :=
  p_inode.mode &&& k.INODE_FREE ≠ 0

instance (k : SOConst) (p_inode : SOInode) : Decidable (isFreeInode k p_inode) := by
  unfold isFreeInode; exact inferInstance

/-- The flags of `mode` are laid out as the data model says: the free flag is a flag of its
own, which neither a file type nor a permission contains. -/
def SOConst.Wf (k : SOConst) : Prop :=
  k.INODE_FREE ≠ 0 ∧ k.INODE_DIR &&& k.INODE_FREE = 0 ∧ k.INODE_FILE &&& k.INODE_FREE = 0 ∧
  k.INODE_SYMLINK &&& k.INODE_FREE = 0 ∧ k.INODE_PERM &&& k.INODE_FREE = 0

instance (k : SOConst) : Decidable k.Wf := by
  unfold SOConst.Wf; exact inferInstance

/-- The inodes of `l` are linked in this order: `next` of each is the one that follows, whose
`prev` it is. -/
def Path (t : List SOInode) : List Nat → Prop
  | [] => True
  | [_] => True
  | a :: b :: l => (getI t a).vD2 = b ∧ (getI t b).vD1 = a ∧ Path t (b :: l)

/-- The last inode of the list is linked to the first one. -/
def Closed (t : List SOInode) : List Nat → Prop
  | [] => True
  | h :: r => (getI t (r.getLastD h)).vD2 = h ∧ (getI t h).vD1 = r.getLastD h

/-- The list `l` is the list of free inodes of the volume: it holds the inodes with the free
flag, each once, `ifree` is its length, its inodes are linked in a circle and `ihdtl` is its
first inode (`NULL_INODE` when the list is empty). -/
def FreeList (k : SOConst) (v : Volume) (l : List Nat) : Prop :=
  l.Nodup ∧ (∀ n, n ∈ l ↔ n < v.sb.itotal ∧ isFreeInode k (getI v.itable n)) ∧
  v.sb.ifree = l.length ∧ Path v.itable l ∧ Closed v.itable l ∧
  v.sb.ihdtl = l.headD NULL_INODE

/-- Invariant of the table of inodes. -/
def IInv (k : SOConst) (v : Volume) : Prop :=
  v.itable.length = v.sb.itotal ∧ v.sb.itotal < 4294967296 ∧ ∃ l, FreeList k v l

/-- The inodes reachable from `ihdtl` through the `next` fields form the circular
double-linked list of the free inodes: `prev (next x) = x` and `next (prev x) = x` for every
node, `next` and `prev` stay in the list, the list holds exactly the inodes whose free flag is
set, each once, its length is `ifree`, and `ihdtl` is `NULL_INODE` exactly when `ifree = 0`. -/
def CircularFreeList (k : SOConst) (v : Volume) : Prop :=
  (∀ x ∈ freeInodes v,
    (getI v.itable (getI v.itable x).vD2).vD1 = x ∧
    (getI v.itable (getI v.itable x).vD1).vD2 = x ∧
    (getI v.itable x).vD2 ∈ freeInodes v ∧ (getI v.itable x).vD1 ∈ freeInodes v) ∧
  (∀ n, n ∈ freeInodes v ↔ n < v.sb.itotal ∧ isFreeInode k (getI v.itable n)) ∧
  (freeInodes v).Nodup ∧ (freeInodes v).length = v.sb.ifree ∧
  (v.sb.ihdtl = NULL_INODE ↔ v.sb.ifree = 0)

/-! ## Inode I/O: `soReadInode.c` and `soWriteInode.c` -/

/-- `EACCES` of `errno.h`. -/
def EACCES : Int := 13

/-- `ESBTINPINVAL` of `sofs_basicconsist.h`. -/
def ESBTINPINVAL : Int := 513

/-- `ESBDZINVAL` of `sofs_basicconsist.h`. -/
def ESBDZINVAL : Int := 516

/-- `MAX_FILE_CLUSTERS`: `N_DIRECT + RPC + RPC * RPC`. -/
def MAX_FILE_CLUSTERS (k : SOConst) : Nat := k.N_DIRECT + k.RPC + k.RPC * k.RPC

/-- `soReadInode` of `soReadInode.c`, called with a non-null buffer. The third component is
the record copied into `*p_inode` (the default record when nothing is copied). The clock is
read as `env.now`. -/
def soReadInode (k : SOConst) (env : SOEnv) (v : Volume) (nInode : Nat) :
    Int × Volume × SOInode :=
  if nInode ≥ v.sb.itotal then (-EINVAL, v, default)
  else if soConvertRefInT v nInode ≠ 0 then (soConvertRefInT v nInode, v, default)
  else if soQCheckInodeIU k (getI v.itable nInode) ≠ 0 then
    (soQCheckInodeIU k (getI v.itable nInode), v, default)
  else
    let p_read : SOInode := { getI v.itable nInode with vD1 := env.now }
    (0, { v with itable := v.itable.set nInode p_read }, p_read)

/-- `soWriteInode` of `soWriteInode.c`, called with a non-null buffer. The consistency check
of line 68 is applied to the record of the caller, `p_inode`. -/
def soWriteInode (k : SOConst) (env : SOEnv) (v : Volume) (p_inode : SOInode) (nInode : Nat) :
    Int × Volume :=
  if nInode ≥ v.sb.itotal then (-EINVAL, v)
  else if soConvertRefInT v nInode ≠ 0 then (soConvertRefInT v nInode, v)
  else if soQCheckInodeIU k p_inode ≠ 0 then (soQCheckInodeIU k p_inode, v)
  else
    (0, { v with itable := v.itable.set nInode { p_inode with vD1 := env.now, vD2 := env.now } })

/-! ## Clusters of references -/

/-- The data cluster `n` of a data zone. -/
def getDC (dz : List SODataClust) (n : Nat) : SODataClust := dz.getD n default

/-- The element `ref[i]` of a cluster of references. -/
def getRef (c : SODataClust) (i : Nat) : Nat := c.ref.getD i 0

/-- The assignment `ref[i] = val` on a cluster of references. -/
def setRef (c : SODataClust) (i val : Nat) : SODataClust := { c with ref := c.ref.set i val }

/-- The loop `for (i = 0; i < RPC; i++) ref[i] = NULL_CLUSTER`, on the `RPC` references a
cluster holds. -/
def clearRefs (k : SOConst) (c : SODataClust) : SODataClust :=
  { c with ref := List.replicate k.RPC NULL_CLUSTER }

/-- The loop `for (i = 0; i < RPC; i++) if (ref[i] != NULL_CLUSTER) break;` followed by the
test `i == RPC`: no reference of the cluster is in use. -/
def allNull (k : SOConst) (c : SODataClust) : Bool :=
  (List.range k.RPC).all fun i => decide (getRef c i = NULL_CLUSTER)

/-- Modelled from the spec: `soLoadDirRefClust` and `soGetDirRefClust` belong to
`sofs_basicoper`, which is not among the sources. The load reads the cluster into the storage
area of direct references and the pointer it gives is the view of that cluster; a cluster
outside the data zone is out of range. The data zone being addressed by logical cluster
number, the argument is the logical number `n` of the physical address
`dzone_start + n * BLOCKS_PER_CLUSTER` the code passes. -/
def soLoadDirRefClust (v : Volume) (nClust : Nat) : Int × SODataClust :=
  if nClust < v.dzone.length then (0, getDC v.dzone nClust) else (-EINVAL, default)

/-- Modelled from the spec: `soStoreDirRefClust` belongs to `sofs_basicoper`, which is not
among the sources. The store that is paired with a load flushes the storage area, holding
`c`, to the cluster that was loaded. -/
def soStoreDirRefClust (v : Volume) (nClust : Nat) (c : SODataClust) : Volume :=
  { v with dzone := v.dzone.set nClust c }

/-- Modelled from the spec: `soLoadSngIndRefClust` and `soGetSngIndRefClust` belong to
`sofs_basicoper`, which is not among the sources. They are to the storage area of single
indirect references what `soLoadDirRefClust` and `soGetDirRefClust` are to the storage area
of direct references. -/
def soLoadSngIndRefClust (v : Volume) (nClust : Nat) : Int × SODataClust :=
  if nClust < v.dzone.length then (0, getDC v.dzone nClust) else (-EINVAL, default)

/-- Modelled from the spec: `soStoreSngIndRefClust` belongs to `sofs_basicoper`, which is not
among the sources. The store that is paired with a load flushes the storage area, holding
`c`, to the cluster that was loaded. -/
def soStoreSngIndRefClust (v : Volume) (nClust : Nat) (c : SODataClust) : Volume :=
  { v with dzone := v.dzone.set nClust c }

/-- Modelled from the spec: `soReadCacheCluster` belongs to `sofs_buffercache`, which is not
among the sources. It reads a cluster of the device; a cluster outside the data zone is out
of range. The argument is the logical number of the cluster. -/
def soReadCacheCluster (v : Volume) (nClust : Nat) : Int × SODataClust :=
  if nClust < v.dzone.length then (0, getDC v.dzone nClust) else (-EINVAL, default)

/-- Modelled from the spec: `soWriteCacheCluster` belongs to `sofs_buffercache`, which is not
among the sources. It writes a cluster of the device; a cluster outside the data zone is out
of range. The argument is the logical number of the cluster. -/
def soWriteCacheCluster (v : Volume) (nClust : Nat) (c : SODataClust) : Int × Volume :=
  if nClust < v.dzone.length then (0, { v with dzone := v.dzone.set nClust c }) else (-EINVAL, v)

/-- Modelled from the spec: `soQCheckInT` is declared in `sofs_basicconsist.h` and its
implementation is not among the sources. Its documentation reads: both the associated fields
in the superblock and the table of inodes are checked for consistency; in particular, the
number of free inodes computed through inspection of the list of free inodes must match the
value stored in the related field of the superblock. -/
def soQCheckInT (k : SOConst) (v : Volume) : Int :=
  if v.itable.length = v.sb.itotal ∧ (freeInodes v).length = v.sb.ifree ∧
      ∀ n ∈ freeInodes v, n < v.sb.itotal ∧ isFreeInode k (getI v.itable n) then 0
  else -ESBTINPINVAL

/-- Modelled from the spec: `soQCheckDZ` is declared in `sofs_basicconsist.h` and its
implementation is not among the sources. Its documentation reads: the number of free data
clusters computed through inspection of the two caches and the table of references to free
data clusters must match the value stored in the related field of the superblock; the
references stored there must be legal. -/
def soQCheckDZ (v : Volume) : Int :=
  if (freeRefs v).length = v.sb.dzone_free ∧ v.sb.dzone_free < v.sb.dzone_total ∧
      ∀ n ∈ freeRefs v, 1 ≤ n ∧ n < v.sb.dzone_total then 0
  else -ESBDZINVAL

/-! ## Cluster addressing: `soHandleFileCluster.c` -/

/-- `soHandleDirect` of `soHandleFileCluster.c`, called with non-null pointers. The
components of the result are the status, the volume, the record `*p_inode` and the value
stored in `*p_outVal` (`0` when nothing is stored). -/
def soHandleDirect (v : Volume) (p_inode : SOInode) (clustInd op : Nat) :
    Int × Volume × SOInode × Nat :=
  if op = ALLOC then
    if p_inode.d.getD clustInd 0 = NULL_CLUSTER then
      if v.sb.dzone_free = 0 then (-ELIBBAD, v, p_inode, 0)
      else
        let a := soAllocDataCluster v
        if a.1 ≠ 0 then (a.1, a.2.1, p_inode, a.2.2)
        else
          (0, a.2.1,
            { p_inode with d := p_inode.d.set clustInd a.2.2, clucount := inc32 p_inode.clucount },
            a.2.2)
    else (-EDCARDYIL, v, p_inode, 0)
  else if op = GET then (0, v, p_inode, p_inode.d.getD clustInd 0)
  else if op = FREE then
    if p_inode.d.getD clustInd 0 = NULL_CLUSTER then (-EDCNOTIL, v, p_inode, 0)
    else
      let f := soFreeDataCluster v (p_inode.d.getD clustInd 0)
      if f.1 ≠ 0 then (f.1, f.2, p_inode, 0)
      else
        (0, f.2,
          { p_inode with d := p_inode.d.set clustInd NULL_CLUSTER
                         clucount := dec32 p_inode.clucount }, 0)
  else (-EINVAL, v, p_inode, 0)

/-- The case `ALLOC` of `soHandleSIndirect` when `i1` is `NULL_CLUSTER` (lines 238 to
258). -/
def sIndirectAllocNew (k : SOConst) (v : Volume) (p_inode : SOInode) (rel_position : Nat) :
    Int × Volume × SOInode × Nat :=
  if v.sb.dzone_free ≤ 1 then (-ENOSPC, v, p_inode, 0)
  else
    let a1 := soAllocDataCluster v
    if a1.1 ≠ 0 then (a1.1, a1.2.1, p_inode, a1.2.2)
    else
      let in1 : SOInode := { p_inode with i1 := a1.2.2, clucount := inc32 p_inode.clucount }
      let l1 := soLoadDirRefClust a1.2.1 in1.i1
      if l1.1 ≠ 0 then (l1.1, a1.2.1, in1, a1.2.2)
      else
        let v2 := soStoreDirRefClust a1.2.1 in1.i1 (clearRefs k l1.2)
        let a2 := soAllocDataCluster v2
        if a2.1 ≠ 0 then (a2.1, a2.2.1, in1, a1.2.2)
        else
          let l2 := soLoadDirRefClust a2.2.1 in1.i1
          if l2.1 ≠ 0 then (l2.1, a2.2.1, in1, a2.2.2)
          else
            (0, soStoreDirRefClust a2.2.1 in1.i1 (setRef l2.2 rel_position a2.2.2),
              { in1 with clucount := inc32 in1.clucount }, a2.2.2)

/-- `soHandleSIndirect` of `soHandleFileCluster.c`, called with non-null pointers. The
components of the result are those of `soHandleDirect`. -/
def soHandleSIndirect (k : SOConst) (v : Volume) (p_inode : SOInode) (clustInd op : Nat) :
    Int × Volume × SOInode × Nat :=
  let rel_position := clustInd - k.N_DIRECT
  if op = GET then
    if p_inode.i1 = NULL_CLUSTER then (0, v, p_inode, NULL_CLUSTER)
    else
      let l := soLoadDirRefClust v p_inode.i1
      if l.1 ≠ 0 then (l.1, v, p_inode, 0)
      else (0, v, p_inode, getRef l.2 rel_position)
  else if op = ALLOC then
    if p_inode.i1 = NULL_CLUSTER then sIndirectAllocNew k v p_inode rel_position
    else
      if v.sb.dzone_free ≤ 0 then (-ENOSPC, v, p_inode, 0)
      else
        let l := soLoadDirRefClust v p_inode.i1
        if l.1 ≠ 0 then (l.1, v, p_inode, 0)
        else if getRef l.2 rel_position = NULL_CLUSTER then
          let a := soAllocDataCluster v
          if a.1 ≠ 0 then (a.1, a.2.1, p_inode, a.2.2)
          else
            (0, soStoreDirRefClust a.2.1 p_inode.i1 (setRef l.2 rel_position a.2.2),
              { p_inode with clucount := inc32 p_inode.clucount }, a.2.2)
        else (-EDCARDYIL, v, p_inode, 0)
  else if op = FREE then
    if p_inode.i1 ≠ NULL_CLUSTER then
      let l := soLoadDirRefClust v p_inode.i1
      if l.1 ≠ 0 then (l.1, v, p_inode, 0)
      else if getRef l.2 rel_position = NULL_CLUSTER then (-EDCNOTIL, v, p_inode, 0)
      else
        let f := soFreeDataCluster v (getRef l.2 rel_position)
        if f.1 ≠ 0 then (f.1, f.2, p_inode, 0)
        else
          let p_dc := setRef l.2 rel_position NULL_CLUSTER
          let in1 : SOInode := { p_inode with clucount := dec32 p_inode.clucount }
          let v1 := soStoreDirRefClust f.2 p_inode.i1 p_dc
          if allNull k p_dc then
            let f2 := soFreeDataCluster v1 in1.i1
            if f2.1 ≠ 0 then (f2.1, f2.2, in1, 0)
            else (0, f2.2, { in1 with i1 := NULL_CLUSTER, clucount := dec32 in1.clucount }, 0)
          else (0, v1, in1, 0)
    else (-EDCNOTIL, v, p_inode, 0)
  else (-EINVAL, v, p_inode, 0)

/-- The end of every `ALLOC` path of `soHandleDIndirect`: the cluster of single indirect
references `i2` and the cluster of direct references `tmp_clust` are loaded,
`ref[indSInd] = outVal` is assigned in the latter, and both storage areas are stored, the
one of direct references first (lines 453 to 471, 527 to 540 and 563 to 576). -/
def dIndirectLink (v : Volume) (p_inode : SOInode) (tmp_clust indSInd outVal : Nat) :
    Int × Volume × SOInode × Nat :=
  let ld := soLoadSngIndRefClust v p_inode.i2
  if ld.1 ≠ 0 then (ld.1, v, p_inode, outVal)
  else
    let ls := soLoadDirRefClust v tmp_clust
    if ls.1 ≠ 0 then (ls.1, v, p_inode, outVal)
    else
      let v1 := soStoreDirRefClust v tmp_clust (setRef ls.2 indSInd outVal)
      (0, soStoreSngIndRefClust v1 p_inode.i2 ld.2, p_inode, outVal)

/-- The part that the two `ALLOC` paths of `soHandleDIndirect` which create the cluster of
direct references share, from the point where `tmp_clust` is known: `clucount++`,
`ref[indDInd] = tmp_clust` in the cluster `i2`, all the references of the cluster
`tmp_clust` set to `NULL_CLUSTER`, the allocation of the data cluster, `clucount++` and the
link (lines 420 to 471 and 494 to 540). -/
def dIndirectNewSInd (k : SOConst) (v : Volume) (p_inode : SOInode)
    (tmp_clust indDInd indSInd out : Nat) : Int × Volume × SOInode × Nat :=
  let in1 : SOInode := { p_inode with clucount := inc32 p_inode.clucount }
  let ld := soLoadSngIndRefClust v in1.i2
  if ld.1 ≠ 0 then (ld.1, v, in1, out)
  else
    let v1 := soStoreSngIndRefClust v in1.i2 (setRef ld.2 indDInd tmp_clust)
    let ls := soLoadDirRefClust v1 tmp_clust
    if ls.1 ≠ 0 then (ls.1, v1, in1, out)
    else
      let v2 := soStoreDirRefClust v1 tmp_clust (clearRefs k ls.2)
      let a := soAllocDataCluster v2
      if a.1 ≠ 0 then (a.1, a.2.1, in1, out)
      else
        dIndirectLink a.2.1 { in1 with clucount := inc32 in1.clucount } tmp_clust indSInd a.2.2

/-- The case `ALLOC` of `soHandleDIndirect` when `i2` is `NULL_CLUSTER` (lines 388 to 473).
The status of the allocation of `tmp_clust` ends the call only when it is `-ENOSPC`. -/
def dIndirectAllocNew (k : SOConst) (v : Volume) (p_inode : SOInode) (indDInd indSInd : Nat) :
    Int × Volume × SOInode × Nat :=
  if v.sb.dzone_free ≤ 2 then (-ENOSPC, v, p_inode, 0)
  else
    let a1 := soAllocDataCluster v
    if a1.1 ≠ 0 then (a1.1, a1.2.1, p_inode, a1.2.2)
    else
      let in1 : SOInode := { p_inode with i2 := a1.2.2, clucount := inc32 p_inode.clucount }
      let l1 := soLoadSngIndRefClust a1.2.1 in1.i2
      if l1.1 ≠ 0 then (l1.1, a1.2.1, in1, a1.2.2)
      else
        let v2 := soStoreSngIndRefClust a1.2.1 in1.i2 (clearRefs k l1.2)
        let a2 := soAllocDataCluster v2
        if a2.1 ≠ 0 ∧ a2.1 = -ENOSPC then (a2.1, a2.2.1, in1, a1.2.2)
        else dIndirectNewSInd k a2.2.1 in1 a2.2.2 indDInd indSInd a1.2.2

/-- The case `ALLOC` of `soHandleDIndirect` when `i2` is not `NULL_CLUSTER` (lines 475 to
578). -/
def dIndirectAllocOld (k : SOConst) (v : Volume) (p_inode : SOInode) (indDInd indSInd : Nat) :
    Int × Volume × SOInode × Nat :=
  if v.sb.dzone_free ≤ 1 then (-ENOSPC, v, p_inode, 0)
  else
    let ld := soLoadSngIndRefClust v p_inode.i2
    if ld.1 ≠ 0 then (ld.1, v, p_inode, 0)
    else
      let tmp_clust := getRef ld.2 indDInd
      if tmp_clust = NULL_CLUSTER then
        let v1 := soStoreSngIndRefClust v p_inode.i2 ld.2
        let a := soAllocDataCluster v1
        if a.1 ≠ 0 then (a.1, a.2.1, p_inode, a.2.2)
        else dIndirectNewSInd k a.2.1 p_inode a.2.2 indDInd indSInd a.2.2
      else
        let ls := soLoadDirRefClust v tmp_clust
        if ls.1 ≠ 0 then (ls.1, v, p_inode, 0)
        else if getRef ls.2 indSInd ≠ NULL_CLUSTER then (-EDCARDYIL, v, p_inode, 0)
        else
          let v1 := soStoreDirRefClust v tmp_clust ls.2
          let v2 := soStoreSngIndRefClust v1 p_inode.i2 ld.2
          let a := soAllocDataCluster v2
          if a.1 ≠ 0 then (a.1, a.2.1, p_inode, a.2.2)
          else
            dIndirectLink a.2.1 { p_inode with clucount := inc32 p_inode.clucount } tmp_clust
              indSInd a.2.2

/-- The end of the case `FREE` of `soHandleDIndirect`: the storage area of single indirect
references, holding `p_dInd`, is stored and loaded again, and the cluster `i2` is freed when
none of its references is in use (lines 635 to 656). -/
def dIndirectFreeTop (k : SOConst) (v : Volume) (p_inode : SOInode) (p_dInd : SODataClust) :
    Int × Volume × SOInode × Nat :=
  let v1 := soStoreSngIndRefClust v p_inode.i2 p_dInd
  let ld := soLoadSngIndRefClust v1 p_inode.i2
  if ld.1 ≠ 0 then (ld.1, v1, p_inode, 0)
  else if allNull k ld.2 then
    let f := soFreeDataCluster v1 p_inode.i2
    if f.1 ≠ 0 then (f.1, f.2, p_inode, 0)
    else (0, f.2, { p_inode with i2 := NULL_CLUSTER, clucount := dec32 p_inode.clucount }, 0)
  else (0, v1, p_inode, 0)

/-- The case `FREE` of `soHandleDIndirect` (lines 583 to 663). -/
def dIndirectFree (k : SOConst) (v : Volume) (p_inode : SOInode) (indDInd indSInd : Nat) :
    Int × Volume × SOInode × Nat :=
  if p_inode.i2 ≠ NULL_CLUSTER then
    let ld := soLoadSngIndRefClust v p_inode.i2
    if ld.1 ≠ 0 then (ld.1, v, p_inode, 0)
    else
      let tmp_clust := getRef ld.2 indDInd
      if tmp_clust ≠ NULL_CLUSTER then
        let ls := soLoadDirRefClust v tmp_clust
        if ls.1 ≠ 0 then (ls.1, v, p_inode, 0)
        else if getRef ls.2 indSInd = NULL_CLUSTER then (-EDCNOTIL, v, p_inode, 0)
        else
          let f := soFreeDataCluster v (getRef ls.2 indSInd)
          if f.1 ≠ 0 then (f.1, f.2, p_inode, 0)
          else
            let in1 : SOInode := { p_inode with clucount := dec32 p_inode.clucount }
            let v1 := soStoreDirRefClust f.2 tmp_clust (setRef ls.2 indSInd NULL_CLUSTER)
            let ls2 := soLoadDirRefClust v1 tmp_clust
            if ls2.1 ≠ 0 then (ls2.1, v1, in1, 0)
            else if allNull k ls2.2 then
              let f2 := soFreeDataCluster v1 (getRef ld.2 indDInd)
              if f2.1 ≠ 0 then (f2.1, f2.2, in1, 0)
              else
                dIndirectFreeTop k f2.2 { in1 with clucount := dec32 in1.clucount }
                  (setRef ld.2 indDInd NULL_CLUSTER)
            else dIndirectFreeTop k v1 in1 ld.2
      else (-EDCNOTIL, v, p_inode, 0)
  else (-EDCNOTIL, v, p_inode, 0)

/-- `soHandleDIndirect` of `soHandleFileCluster.c`, called with non-null pointers. The
components of the result are those of `soHandleDirect`. -/
def soHandleDIndirect (k : SOConst) (v : Volume) (p_inode : SOInode) (clustInd op : Nat) :
    Int × Volume × SOInode × Nat :=
  let indDInd := (clustInd - k.N_DIRECT - k.RPC) / k.RPC
  let indSInd := (clustInd - k.N_DIRECT - k.RPC) % k.RPC
  if op = GET then
    if p_inode.i2 = NULL_CLUSTER then (0, v, p_inode, NULL_CLUSTER)
    else
      let ld := soLoadSngIndRefClust v p_inode.i2
      if ld.1 ≠ 0 then (ld.1, v, p_inode, 0)
      else
        let tmp_clust := getRef ld.2 indDInd
        if tmp_clust = NULL_CLUSTER then (0, v, p_inode, NULL_CLUSTER)
        else
          let ls := soLoadDirRefClust v tmp_clust
          if ls.1 ≠ 0 then (ls.1, v, p_inode, 0)
          else (0, v, p_inode, getRef ls.2 indSInd)
  else if op = ALLOC then
    if p_inode.i2 = NULL_CLUSTER then dIndirectAllocNew k v p_inode indDInd indSInd
    else dIndirectAllocOld k v p_inode indDInd indSInd
  else if op = FREE then dIndirectFree k v p_inode indDInd indSInd
  else (-EINVAL, v, p_inode, 0)

/-- `soHandleFileCluster` of `soHandleFileCluster.c`, called with a pointer `p_outVal` that
is not null. The components of the result are the status, the volume and the value stored in
`*p_outVal` (`0` when nothing is stored). The record of the inode is a local variable, which
`soWriteInode` writes when the handler of the reference succeeded. -/
def soHandleFileCluster (k : SOConst) (env : SOEnv) (v : Volume) (nInode clustInd op : Nat) :
    Int × Volume × Nat :=
  if nInode > dec32 v.sb.itotal then (-EINVAL, v, 0)
  else
    let r := soReadInode k env v nInode
    if r.1 ≠ 0 then (r.1, r.2.1, 0)
    else if clustInd > k.N_DIRECT + k.RPC + k.RPC * k.RPC then (-EINVAL, r.2.1, 0)
    else if op ≠ GET ∧ op ≠ ALLOC ∧ op ≠ FREE then (-EINVAL, r.2.1, 0)
    else if soQCheckInT k r.2.1 ≠ 0 then (soQCheckInT k r.2.1, r.2.1, 0)
    else if soQCheckDZ r.2.1 ≠ 0 then (soQCheckDZ r.2.1, r.2.1, 0)
    else
      let h :=
        if clustInd < k.N_DIRECT then soHandleDirect r.2.1 r.2.2 clustInd op
        else if clustInd < k.N_DIRECT + k.RPC then soHandleSIndirect k r.2.1 r.2.2 clustInd op
        else soHandleDIndirect k r.2.1 r.2.2 clustInd op
      if h.1 ≠ 0 then (h.1, h.2.1, h.2.2.2)
      else
        let w := soWriteInode k env h.2.1 h.2.2.1 nInode
        if w.1 ≠ 0 then (w.1, w.2, h.2.2.2) else (0, w.2, h.2.2.2)

/-! ## All the clusters of a file: `soHandleFileClusters.c` -/

/-- A loop `for (; dirRefindex < bound; dirRefindex++)` of `soHandleFileClusters` over the
references `refs` that were copied before the loop: `soHandleFileCluster (nInode,
base + dirRefindex, FREE, NULL)` is called for every reference that is not `NULL_CLUSTER`,
and the first status that is not zero ends the call. The first argument counts the
iterations that remain. -/
def fileClustersLoop (k : SOConst) (env : SOEnv) (nInode base : Nat) (refs : List Nat) :
    Nat → Nat → Volume → Int × Volume
  | 0, _, v => (0, v)
  | n + 1, dirRefindex, v =>
      if refs.getD dirRefindex 0 ≠ NULL_CLUSTER then
        let h := soHandleFileCluster k env v nInode (base + dirRefindex) FREE
        if h.1 ≠ 0 then (h.1, h.2.1)
        else fileClustersLoop k env nInode base refs n (dirRefindex + 1) h.2.1
      else fileClustersLoop k env nInode base refs n (dirRefindex + 1) v

/-- The loop `for (; smpIndRefindex < RPC; smpIndRefindex++)` of `soHandleFileClusters`
(lines 100 to 116) over the copy `smpIndRefClust` of the cluster `i2`. The first argument
counts the iterations that remain. -/
def fileClustersSngLoop (k : SOConst) (env : SOEnv) (nInode clustIndIn : Nat)
    (smpIndRefClust : SODataClust) : Nat → Nat → Volume → Int × Volume
  | 0, _, v => (0, v)
  | n + 1, smpIndRefindex, v =>
      if getRef smpIndRefClust smpIndRefindex ≠ NULL_CLUSTER then
        let l := soLoadDirRefClust v (getRef smpIndRefClust smpIndRefindex)
        if l.1 ≠ 0 then (l.1, v)
        else
          let dirRefindex :=
            if clustIndIn < k.N_DIRECT + k.RPC then 0
            else (clustIndIn - k.N_DIRECT - k.RPC) % k.RPC
          let e := fileClustersLoop k env nInode (k.N_DIRECT + k.RPC * (smpIndRefindex + 1))
            l.2.ref (k.RPC - dirRefindex) dirRefindex v
          if e.1 ≠ 0 then e
          else fileClustersSngLoop k env nInode clustIndIn smpIndRefClust n (smpIndRefindex + 1) e.2
      else fileClustersSngLoop k env nInode clustIndIn smpIndRefClust n (smpIndRefindex + 1) v

/-- `soHandleFileClusters` of `soHandleFileClusters.c`. -/
def soHandleFileClusters (k : SOConst) (env : SOEnv) (v : Volume) (nInode clustIndIn : Nat) :
    Int × Volume :=
  if nInode ≥ v.sb.itotal then (-EINVAL, v)
  else
    let r := soReadInode k env v nInode
    if r.1 ≠ 0 then (r.1, r.2.1)
    else if clustIndIn ≥ MAX_FILE_CLUSTERS k then (-EINVAL, r.2.1)
    else
      let p_inode := r.2.2
      let e2 : Int × Volume :=
        if p_inode.i2 ≠ NULL_CLUSTER then
          let l := soLoadSngIndRefClust r.2.1 p_inode.i2
          if l.1 ≠ 0 then (l.1, r.2.1)
          else
            let smpIndRefindex :=
              if clustIndIn < k.N_DIRECT + k.RPC then 0
              else (clustIndIn - k.N_DIRECT - k.RPC) / k.RPC
            fileClustersSngLoop k env nInode clustIndIn l.2 (k.RPC - smpIndRefindex)
              smpIndRefindex r.2.1
        else (0, r.2.1)
      if e2.1 ≠ 0 then e2
      else
        let e1 : Int × Volume :=
          if p_inode.i1 ≠ NULL_CLUSTER ∧ clustIndIn < k.N_DIRECT + k.RPC then
            let l := soLoadDirRefClust e2.2 p_inode.i1
            if l.1 ≠ 0 then (l.1, e2.2)
            else
              let dirRefindex := if clustIndIn < k.N_DIRECT then 0 else clustIndIn - k.N_DIRECT
              fileClustersLoop k env nInode k.N_DIRECT l.2.ref (k.RPC - dirRefindex) dirRefindex
                e2.2
          else (0, e2.2)
        if e1.1 ≠ 0 then e1
        else if clustIndIn < k.N_DIRECT then
          fileClustersLoop k env nInode 0 p_inode.d (k.N_DIRECT - clustIndIn) clustIndIn e1.2
        else (0, e1.2)

/-! ## Contents of the clusters of a file: `soReadFileCluster.c` and `soWriteFileCluster.c`

A buffer of `BSLPC` bytes is held as the cluster it fills, `BSLPC` being the size of a
cluster. -/

/-- The buffer `memset (buff, 0, BSLPC)` leaves: the `RPC` references, the `DPC` directory
entries and the `BSLPC` bytes of a cluster all zero. -/
def zeroCluster (k : SOConst) : SODataClust :=
  { ref := List.replicate k.RPC 0
    de := List.replicate k.DPC { name := List.replicate (k.MAX_NAME + 1) 0, nInode := 0 }
    data := List.replicate k.CLUSTER_SIZE 0 }

/-- `soReadFileCluster` of `soReadFileCluster.c`, called with the buffer `buff`. The third
component is the buffer after the call. -/
def soReadFileCluster (k : SOConst) (env : SOEnv) (v : Volume) (nInode clustInd : Nat)
    (buff : SODataClust) : Int × Volume × SODataClust :=
  if nInode ≥ v.sb.itotal ∨ clustInd ≥ MAX_FILE_CLUSTERS k then (-EINVAL, v, buff)
  else
    let r := soReadInode k env v nInode
    if r.1 ≠ 0 then (r.1, r.2.1, buff)
    else
      let g := soHandleFileCluster k env r.2.1 nInode clustInd GET
      if g.1 ≠ 0 then (g.1, g.2.1, buff)
      else if g.2.2 = NULL_CLUSTER then (0, g.2.1, zeroCluster k)
      else
        let c := soReadCacheCluster g.2.1 g.2.2
        if c.1 ≠ 0 then (c.1, g.2.1, buff) else (0, g.2.1, c.2)

/-- `soWriteFileCluster` of `soWriteFileCluster.c`, called with the buffer `buff`. The
statuses of `soReadInode` and `soWriteInode` of lines 93 and 94 are compared with zero before
they are assigned, so that `1` is returned when one of them fails. -/
def soWriteFileCluster (k : SOConst) (env : SOEnv) (v : Volume) (nInode clustInd : Nat)
    (buff : SODataClust) : Int × Volume :=
  if nInode ≥ v.sb.itotal ∨ clustInd ≥ MAX_FILE_CLUSTERS k then (-EINVAL, v)
  else
    let g := soHandleFileCluster k env v nInode clustInd GET
    if g.1 < 0 then (g.1, g.2.1)
    else
      let a : Int × Volume × Nat :=
        if g.2.2 = NULL_CLUSTER then soHandleFileCluster k env g.2.1 nInode clustInd ALLOC
        else (0, g.2.1, g.2.2)
      if a.1 < 0 then (a.1, a.2.1)
      else
        let c := soReadCacheCluster a.2.1 a.2.2
        if c.1 < 0 then (c.1, a.2.1)
        else
          let w := soWriteCacheCluster a.2.1 a.2.2 buff
          if w.1 < 0 then (w.1, w.2)
          else
            let r := soReadInode k env w.2 nInode
            if r.1 ≠ 0 then (1, r.2.1)
            else
              let s := soWriteInode k env r.2.1 r.2.2 nInode
              if s.1 ≠ 0 then (1, s.2) else (0, s.2)

/-! ## Access rights: `soAccessGranted.c` -/

/-- `R` of `soAccessGranted.c`. -/
def R : Nat := 4

/-- `W` of `soAccessGranted.c`. -/
def W : Nat := 2

/-- `X` of `soAccessGranted.c`. -/
def X : Nat := 1

/-- `soAccessGranted` of `soAccessGranted.c`; `getuid ()` and `getgid ()` are `env.uid` and
`env.gid`. -/
def soAccessGranted (k : SOConst) (env : SOEnv) (v : Volume) (nInode opRequested : Nat) :
    Int × Volume :=
  if (opRequested ||| (R ||| W ||| X)) ≠ (R ||| W ||| X) ∨ opRequested = 0 then (-EINVAL, v)
  else if nInode > dec32 v.sb.itotal then (-EINVAL, v)
  else
    let r := soReadInode k env v nInode
    if r.1 ≠ 0 then (r.1, r.2.1)
    else if env.uid = 0 ∧ env.gid = 0 then
      if opRequested = R ∨ opRequested = W then (0, r.2.1)
      else if r.2.2.mode &&& (X <<< 6 ||| X <<< 3 ||| X) = (X <<< 6 ||| X <<< 3 ||| X) then
        (0, r.2.1)
      else (-EACCES, r.2.1)
    else if r.2.2.owner = env.uid then
      if r.2.2.mode &&& (opRequested <<< 6) ≠ opRequested <<< 6 then (-EACCES, r.2.1)
      else (0, r.2.1)
    else if r.2.2.group = env.gid then
      if r.2.2.mode &&& (opRequested <<< 3) ≠ opRequested <<< 3 then (-EACCES, r.2.1)
      else (0, r.2.1)
    else
      if r.2.2.mode &&& opRequested ≠ opRequested then (-EACCES, r.2.1)
      else (0, r.2.1)

/-- The freshly formatted volume of 4 inodes and `n` data clusters of `exampleConst`, the
data zone filled with zeros. -/
def exampleVolume (n : Nat) : Volume :=
  mkfs exampleConst exampleEnv 4 n n (List.replicate n { ref := [0, 0] })

/-- `soHandleFileCluster (nInode, c, ALLOC, &outVal)` called for each index `c` of a list in
turn. -/
def allocClusters (k : SOConst) (env : SOEnv) (v : Volume) (nInode : Nat) (l : List Nat) :
    Volume :=
  l.foldl (fun u c => (soHandleFileCluster k env u nInode c ALLOC).2.1) v

/-- A process environment of the user `root`. -/
def rootEnv : SOEnv := { uid := 0, gid := 0, now := 1446336000 }

/-- The record of a regular file with permissions `rw-r--r--` and no data cluster. -/
def exampleFile : SOInode :=
  { mode := 1024 ||| 420, refcount := 1, owner := 1000, group := 1000, size := 0, clucount := 0
    vD1 := 7, vD2 := 7, d := [NULL_CLUSTER, NULL_CLUSTER], i1 := NULL_CLUSTER
    i2 := NULL_CLUSTER }

/-- The formatted volume of 3 data clusters on which `root` allocated the inode 1 as a
regular file and wrote it with the permissions `--x------`. -/
def userExecVolume : Volume :=
  (soWriteInode exampleConst rootEnv (soAllocInode exampleConst rootEnv (exampleVolume 3) 1024).2.1
    { exampleFile with mode := 1024 ||| 64, owner := 0, group := 0 } 1).2

/-- The record of the inode as `soReadInode` gives it. -/
def readRecord (env : SOEnv) (v : Volume) (nInode : Nat) : SOInode :=
  { getI v.itable nInode with vD1 := env.now }

/-- The volume `soReadInode` leaves. -/
def readVolume (env : SOEnv) (v : Volume) (nInode : Nat) : Volume :=
  { v with itable := v.itable.set nInode (readRecord env v nInode) }

/-- The handler `soHandleFileCluster` chooses for the index. -/
def handleRef (k : SOConst) (v : Volume) (p_inode : SOInode) (clustInd op : Nat) :
    Int × Volume × SOInode × Nat :=
  if clustInd < k.N_DIRECT then soHandleDirect v p_inode clustInd op
  else if clustInd < k.N_DIRECT + k.RPC then soHandleSIndirect k v p_inode clustInd op
  else soHandleDIndirect k v p_inode clustInd op


/-- The end of `soHandleFileCluster` (lines 104 to 113): the status of the handler when it
is not zero, otherwise `soWriteInode` of the record. -/
def writeBack (k : SOConst) (env : SOEnv) (nInode : Nat) (h : Int × Volume × SOInode × Nat) :
    Int × Volume × Nat :=
  if h.1 ≠ 0 then (h.1, h.2.1, h.2.2.2)
  else
    let w := soWriteInode k env h.2.1 h.2.2.1 nInode
    if w.1 ≠ 0 then (w.1, w.2, h.2.2.2) else (0, w.2, h.2.2.2)

/-- The reference that the index `c` of a file designates, as the mapping of the indices
reads: `d[c]` when `c < N_DIRECT`; slot `c - N_DIRECT` of the cluster `i1` when
`c < N_DIRECT + RPC`; otherwise slot `(c - N_DIRECT - RPC) mod RPC` of the cluster stored in
slot `(c - N_DIRECT - RPC) div RPC` of the cluster `i2`; `NULL_CLUSTER` when a cluster of
the path is absent. -/
def refOfIndex (k : SOConst) (dz : List SODataClust) (p : SOInode) (c : Nat) : Nat :=
  if c < k.N_DIRECT then p.d.getD c 0
  else if c < k.N_DIRECT + k.RPC then
    if p.i1 = NULL_CLUSTER then NULL_CLUSTER else getRef (getDC dz p.i1) (c - k.N_DIRECT)
  else
    if p.i2 = NULL_CLUSTER then NULL_CLUSTER
    else if getRef (getDC dz p.i2) ((c - k.N_DIRECT - k.RPC) / k.RPC) = NULL_CLUSTER then
      NULL_CLUSTER
    else
      getRef (getDC dz (getRef (getDC dz p.i2) ((c - k.N_DIRECT - k.RPC) / k.RPC)))
        ((c - k.N_DIRECT - k.RPC) % k.RPC)

/-- The clusters of references of the inode lie in the data zone: `i1`, `i2` and the
references of the cluster `i2`, when they are not `NULL_CLUSTER`. -/
def RefsInZone (k : SOConst) (dz : List SODataClust) (p : SOInode) : Prop :=
  (p.i1 ≠ NULL_CLUSTER → p.i1 < dz.length) ∧
  (p.i2 ≠ NULL_CLUSTER → p.i2 < dz.length ∧
    ∀ q, q < k.RPC → getRef (getDC dz p.i2) q ≠ NULL_CLUSTER →
      getRef (getDC dz p.i2) q < dz.length)

/-! ## Directories: `soGetDirEntryByName.c`

A string argument is the list of its characters, none of which is the null character; the
characters are held as their codes. -/

/-- `ENOENT` of `errno.h`. -/
def ENOENT : Int := 2

/-- `EPERM` of `errno.h`. -/
def EPERM : Int := 1

/-- `EEXIST` of `errno.h`. -/
def EEXIST : Int := 17

/-- `ENOTDIR` of `errno.h`. -/
def ENOTDIR : Int := 20

/-- `EISDIR` of `errno.h`. -/
def EISDIR : Int := 21

/-- `EFBIG` of `errno.h`. -/
def EFBIG : Int := 27

/-- `EMLINK` of `errno.h`. -/
def EMLINK : Int := 31

/-- `ENAMETOOLONG` of `errno.h`. -/
def ENAMETOOLONG : Int := 36

/-- `ENOTEMPTY` of `errno.h`. -/
def ENOTEMPTY : Int := 39

/-- `ELOOP` of `errno.h`. -/
def ELOOP : Int := 40

/-- `EDIRINVAL` of `sofs_basicconsist.h`. -/
def EDIRINVAL : Int := 522

/-- `ERELPATH` of `sofs_basicconsist.h`. -/
def ERELPATH : Int := 526

/-- `ADD` of `soAddAttDirEntry.c`. -/
def ADD : Nat := 0

/-- `ATTACH` of `soAddAttDirEntry.c`. -/
def ATTACH : Nat := 1

/-- `REM` of `soRemDetachDirEntry.c`. -/
def REM : Nat := 0

/-- `DETACH` of `soRemDetachDirEntry.c`. -/
def DETACH : Nat := 1

/-- The character `/`. -/
def SLASH : Nat := 47

/-- The character `.`. -/
def DOT : Nat := 46

/-- `MAX_FILE_SIZE`: `MAX_FILE_CLUSTERS * CLUSTER_SIZE`. -/
def MAX_FILE_SIZE (k : SOConst) : Nat := MAX_FILE_CLUSTERS k * k.CLUSTER_SIZE

instance : Inhabited SODirEntry := ⟨{ name := [], nInode := 0 }⟩

/-- The string an array of characters holds: the characters before the first null
character. -/
def cstr (a : List Nat) : List Nat := a.takeWhile fun c => c ≠ 0

/-- The array of `MAX_NAME + 1` characters that holds the string `s` followed by null
characters. -/
def nameField (k : SOConst) (s : List Nat) : List Nat :=
  s ++ List.replicate (k.MAX_NAME + 1 - s.length) 0

/-- The `for (tdir = 0; tdir < DPC; tdir++)` loop of `soGetDirEntryByName` (lines 106 to
118) on the cluster `trd` of the directory, `n` iterations remaining. The state is `flag`,
`tdir_index` and `count`; the first component is the inode and the index of the entry whose
name is `eName`, when the loop finds one and the function returns. -/
def dirEntryLoop (k : SOConst) (eName : List Nat) (de : List SODirEntry) (trd : Nat) :
    Nat → Nat → Bool → Nat → Nat → Option (Nat × Nat) × Bool × Nat × Nat
  | 0, _, flag, tdir_index, count => (none, flag, tdir_index, count)
  | n + 1, tdir, flag, tdir_index, count =>
      if ((de.getD tdir default).name.getD 0 0 = 0 ∧ flag = false) then
        dirEntryLoop k eName de trd n (tdir + 1) true (k.DPC * trd + tdir)
          (count + k.CLUSTER_SIZE / k.DPC)
      else if cstr (de.getD tdir default).name = eName then
        (some ((de.getD tdir default).nInode, k.DPC * trd + tdir), flag, tdir_index, count)
      else
        dirEntryLoop k eName de trd n (tdir + 1) flag tdir_index
          (count + k.CLUSTER_SIZE / k.DPC)

/-- The `while (count <= p_Inode->size)` loop of `soGetDirEntryByName` (lines 102 to 127)
and the end of the function. The first argument bounds the number of iterations: the loop
reads the cluster `trd` in each, and `soReadFileCluster` fails from `trd =
MAX_FILE_CLUSTERS` on. The components of the result are the status, the volume, the value
stored in `*p_nInodeEnt` and the value stored in `*p_idx` (`0` when nothing is stored). -/
def dirClusterLoop (k : SOConst) (env : SOEnv) (nInodeDir : Nat) (eName : List Nat)
    (size : Nat) : Nat → Nat → Bool → Nat → Nat → Volume → Int × Volume × Nat × Nat
  | 0, _, _, _, _, v => (-EINVAL, v, 0, 0)
  | fuel + 1, trd, flag, tdir_index, count, v =>
      if count ≤ size then
        let r := soReadFileCluster k env v nInodeDir trd default
        if r.1 ≠ 0 then (r.1, r.2.1, 0, 0)
        else
          let s := dirEntryLoop k eName r.2.2.de trd k.DPC 0 flag tdir_index count
          match s.1 with
          | some e => (0, r.2.1, e.1, e.2)
          | none =>
              dirClusterLoop k env nInodeDir eName size fuel (trd + 1) s.2.1 s.2.2.1 s.2.2.2
                r.2.1
      else (-ENOENT, v, 0, if flag = false then trd * k.DPC else tdir_index)

/-- `soGetDirEntryByName` of `soGetDirEntryByName.c`, called with a string and with
pointers that are not null. The test of line 89 compares `sizeof (eName)`, the size of a
pointer, with `MAX_NAME + 1`. The components of the result are the status, the volume, the
value stored in `*p_nInodeEnt` and the value stored in `*p_idx`. -/
def soGetDirEntryByName (k : SOConst) (env : SOEnv) (v : Volume) (nInodeDir : Nat)
    (eName : List Nat) : Int × Volume × Nat × Nat :=
  if nInodeDir ≥ v.sb.itotal then (-EINVAL, v, 0, 0)
  else if k.SIZEOF_PTR > k.MAX_NAME + 1 then (-ENAMETOOLONG, v, 0, 0)
  else
    let r := soReadInode k env v nInodeDir
    if r.1 ≠ 0 then (r.1, r.2.1, 0, 0)
    else
      let a := soAccessGranted k env r.2.1 nInodeDir X
      if a.1 ≠ 0 then (a.1, a.2, 0, 0)
      else if r.2.2.mode &&& k.INODE_DIR ≠ k.INODE_DIR then (-ENOTDIR, a.2, 0, 0)
      else
        dirClusterLoop k env nInodeDir eName r.2.2.size (MAX_FILE_CLUSTERS k + 1) 0 false 0 0
          a.2

/-! ## Directories: the formatter and the checks -/

/-- The cluster `fillInRootDir` of `mkfs_sofs15.c` writes as data cluster 0: the entries `.`
and `..` of the root directory, both with inode 0, and `DPC - 2` free entries. -/
def fillInRootDir (k : SOConst) : SODataClust :=
  { zeroCluster k with
    de := (((List.replicate k.DPC
          { name := List.replicate (k.MAX_NAME + 1) 0, nInode := NULL_INODE }).set 0
        { name := nameField k [DOT], nInode := 0 }).set 1
        { name := nameField k [DOT, DOT], nInode := 0 }) }

/-- Modelled from the spec: `soQCheckDirCont` is declared in `sofs_basicconsist.h` and its
implementation is not among the sources. Its documentation reads: the inode should be in use
and represent a directory; the first two entries must have names `.` and `..`. The entries
are read in the first data cluster of the directory. -/
def soQCheckDirCont (k : SOConst) (v : Volume) (p_inode : SOInode) : Int :=
  if p_inode.mode &&& k.INODE_DIR ≠ k.INODE_DIR then -ENOTDIR
  else if cstr ((getDC v.dzone (p_inode.d.getD 0 0)).de.getD 0 default).name = [DOT] ∧
      cstr ((getDC v.dzone (p_inode.d.getD 0 0)).de.getD 1 default).name = [DOT, DOT] then 0
  else -EDIRINVAL

/-- Modelled from the spec: `soCheckDirectoryEmptiness` is declared in
`soRemDetachDirEntry.c` and its implementation is not among the sources. The spec reads: it
returns success iff every entry other than slots 0 and 1 has a NUL first byte; a directory
that is not empty is reported as `NotEmpty`. The entries are those of the clusters that the
size of the directory covers. -/
def soCheckDirectoryEmptiness (k : SOConst) (v : Volume) (nInodeDir : Nat) : Int :=
  if nInodeDir ≥ v.sb.itotal then -EINVAL
  else if soQCheckInodeIU k (getI v.itable nInodeDir) ≠ 0 then
    soQCheckInodeIU k (getI v.itable nInodeDir)
  else if (getI v.itable nInodeDir).mode &&& k.INODE_DIR ≠ k.INODE_DIR then -ENOTDIR
  else if (List.range ((getI v.itable nInodeDir).size / k.CLUSTER_SIZE)).all fun c =>
      (List.range k.DPC).all fun j =>
        decide (c * k.DPC + j < 2 ∨
          refOfIndex k v.dzone (getI v.itable nInodeDir) c = NULL_CLUSTER ∨
          ((getDC v.dzone (refOfIndex k v.dzone (getI v.itable nInodeDir) c)).de.getD j
            default).name.getD 0 0 = 0)
    then 0
  else -ENOTEMPTY

/-- A choice of the constants with 4 directory entries of 8 bytes per cluster, on a
platform with pointers of 4 bytes. -/
def dirConst : SOConst :=
  { N_DIRECT := 2, RPC := 8, INODE_FREE := 4096, INODE_DIR := 2048, INODE_FILE := 1024
    INODE_SYMLINK := 512, INODE_PERM := 511, CLUSTER_SIZE := 32, DPC := 4, MAX_NAME := 3
    MAX_PATH := 15, SIZEOF_PTR := 4 }

/-- The freshly formatted volume of 8 inodes and `n` data clusters of `dirConst`, with the
root directory in data cluster 0 and the other clusters filled with zeros. -/
def dirVolume (n : Nat) : Volume :=
  mkfs dirConst exampleEnv 8 n n
    (fillInRootDir dirConst :: List.replicate (n - 1) (zeroCluster dirConst))

/-! ## Directories: `soAddAttDirEntry.c`, `soRemDetachDirEntry.c` and `soRenameDirEntry.c`

An assignment to the element `index` of a buffer of `DPC` entries with `index >= DPC` falls
outside the buffer and leaves the `DPC` entries as they were. -/

/-- Increment of the `refcount` field, of 16 bits (the code compares it with `0xFFFF`). -/
def inc16 (x : Nat) : Nat := (x + 1) % 65536

/-- Decrement of the `refcount` field, of 16 bits. -/
def dec16 (x : Nat) : Nat := (65535 + x) % 65536

/-- The buffer `vazia` of `soAddAttDirEntry` (lines 141 to 160): the contents of an empty
directory, with the entries `.` and `..`. -/
def vazia (k : SOConst) (nInodeDir nInodeEnt : Nat) : SODataClust :=
  { ref := []
    de := (((List.replicate k.DPC
          { name := List.replicate (k.MAX_NAME + 1) 0, nInode := NULL_INODE }).set 0
        { name := DOT :: List.replicate k.MAX_NAME 0, nInode := nInodeEnt }).set 1
        { name := DOT :: DOT :: List.replicate (k.MAX_NAME - 1) 0, nInode := nInodeDir }) }

/-- The case `ADD` of `soAddAttDirEntry` (lines 139 to 189). The array `tmp` has `DPC`
entries and line 180 assigns `tmp[index]`: with `index >= DPC` the assignment is outside the
array, which C leaves undefined; it leaves the array as it is here. -/
def addDirEntry (k : SOConst) (env : SOEnv) (v : Volume) (nInodeDir : Nat) (eName : List Nat)
    (nInodeEnt : Nat) (p_dir p_ent : SOInode) (index : Nat) : Int × Volume :=
  let clustInd := index / k.DPC
  let e : Int × Volume :=
    if p_ent.mode &&& k.INODE_DIR ≠ 0 then
      let p_dir1 : SOInode := { p_dir with refcount := inc16 p_dir.refcount }
      let p_ent1 : SOInode :=
        { p_ent with refcount := inc16 (inc16 p_ent.refcount), size := k.CLUSTER_SIZE }
      let w1 := soWriteInode k env v p_ent1 nInodeEnt
      if w1.1 ≠ 0 then w1
      else
        let w2 := soWriteInode k env w1.2 p_dir1 nInodeDir
        if w2.1 ≠ 0 then w2
        else soWriteFileCluster k env w2.2 nInodeEnt 0 (vazia k nInodeDir nInodeEnt)
    else soWriteInode k env v { p_ent with refcount := inc16 p_ent.refcount } nInodeEnt
  if e.1 ≠ 0 then e
  else
    let r := soReadFileCluster k env e.2 nInodeDir clustInd default
    if r.1 ≠ 0 then (r.1, r.2.1)
    else
      let tmp : SODataClust :=
        { r.2.2 with de := r.2.2.de.set index { name := nameField k eName, nInode := nInodeEnt } }
      soWriteFileCluster k env r.2.1 nInodeDir clustInd tmp

/-- The case `ATTACH` of `soAddAttDirEntry` (lines 192 to 223). As in the case `ADD`, the
assignment of `tmp[index]` with `index >= DPC`, which C leaves undefined, leaves the array as
it is here. -/
def attachDirEntry (k : SOConst) (env : SOEnv) (v : Volume) (nInodeDir : Nat)
    (eName : List Nat) (nInodeEnt : Nat) (p_dir p_ent : SOInode) (index : Nat) :
    Int × Volume :=
  if p_ent.mode &&& k.INODE_DIR = 0 then (-ENOTDIR, v)
  else
    let r := soReadFileCluster k env v nInodeDir (index / k.DPC) default
    if r.1 ≠ 0 then (r.1, r.2.1)
    else
      let tmp : SODataClust :=
        { r.2.2 with de := r.2.2.de.set index { name := nameField k eName, nInode := nInodeEnt } }
      let p_ent1 : SOInode := { p_ent with refcount := inc16 p_ent.refcount }
      let w := soWriteFileCluster k env r.2.1 nInodeDir (index / k.DPC) tmp
      if w.1 ≠ 0 then w
      else
        let g := soGetDirEntryByName k env w.2 nInodeEnt [DOT, DOT]
        if g.1 ≠ 0 then (g.1, g.2.1)
        else
          let index2 := g.2.2.2
          let r2 := soReadFileCluster k env g.2.1 nInodeEnt (index2 / k.DPC) tmp
          if r2.1 ≠ 0 then (r2.1, r2.2.1)
          else
            let tmp2 : SODataClust :=
              { r2.2.2 with
                de := r2.2.2.de.set index2
                  { r2.2.2.de.getD index2 default with nInode := nInodeDir } }
            let p_dir1 : SOInode := { p_dir with refcount := inc16 p_dir.refcount }
            let w1 := soWriteInode k env r2.2.1 p_dir1 nInodeDir
            if w1.1 ≠ 0 then w1
            else
              let w2 := soWriteInode k env w1.2 p_ent1 nInodeEnt
              if w2.1 ≠ 0 then w2
              else soWriteFileCluster k env w2.2 nInodeEnt (index2 / k.DPC) tmp2

/-- `soAddAttDirEntry` of `soAddAttDirEntry.c`, called with a string. Line 129 returns
`ENAMETOOLONG`, without the sign. -/
def soAddAttDirEntry (k : SOConst) (env : SOEnv) (v : Volume) (nInodeDir : Nat)
    (eName : List Nat) (nInodeEnt op : Nat) : Int × Volume :=
  let a1 := soAccessGranted k env v nInodeDir X
  if a1.1 ≠ 0 then a1
  else
    let a2 := soAccessGranted k env a1.2 nInodeDir W
    if a2.1 ≠ 0 then a2
    else
      let rd := soReadInode k env a2.2 nInodeDir
      if rd.1 ≠ 0 then (rd.1, rd.2.1)
      else
        let re := soReadInode k env rd.2.1 nInodeEnt
        if re.1 ≠ 0 then (re.1, re.2.1)
        else if rd.2.2.mode &&& k.INODE_DIR = 0 then (-ENOTDIR, re.2.1)
        else if rd.2.2.size ≥ MAX_FILE_SIZE k then (-EFBIG, re.2.1)
        else if rd.2.2.refcount ≥ 65535 ∨ re.2.2.refcount ≥ 65535 then (-EMLINK, re.2.1)
        else if eName.length > k.MAX_NAME then (ENAMETOOLONG, re.2.1)
        else
          let g := soGetDirEntryByName k env re.2.1 nInodeDir eName
          if g.1 = 0 then (-EEXIST, g.2.1)
          else if g.1 ≠ -ENOENT then (g.1, g.2.1)
          else if op = ADD then
            addDirEntry k env g.2.1 nInodeDir eName nInodeEnt rd.2.2 re.2.2 g.2.2.2
          else if op = ATTACH then
            attachDirEntry k env g.2.1 nInodeDir eName nInodeEnt rd.2.2 re.2.2 g.2.2.2
          else (-EINVAL, g.2.1)

/-- The end of `soRemDetachDirEntry` (lines 142 to 161): the reference counts are updated
and, when the count of the entry reaches zero in a removal, the clusters of the file and the
inode are freed. -/
def remDetachCounts (k : SOConst) (env : SOEnv) (v : Volume) (nInodeDir nInodeEntry op : Nat)
    (inodeDir inodeEntry : SOInode) : Int × Volume :=
  let c : Int × Volume × SOInode :=
    if inodeEntry.mode &&& k.INODE_DIR = k.INODE_DIR then
      let w := soWriteInode k env v { inodeDir with refcount := dec16 inodeDir.refcount }
        nInodeDir
      (w.1, w.2, { inodeEntry with refcount := dec16 (dec16 inodeEntry.refcount) })
    else (0, v, { inodeEntry with refcount := dec16 inodeEntry.refcount })
  if c.1 ≠ 0 then (c.1, c.2.1)
  else
    let w := soWriteInode k env c.2.1 c.2.2 nInodeEntry
    if w.1 ≠ 0 then w
    else if c.2.2.refcount = 0 ∧ op ≠ DETACH then
      let h := soHandleFileClusters k env w.2 nInodeEntry 0
      if h.1 ≠ 0 then h
      else
        let f := soFreeInode k h.2 nInodeEntry
        if f.1 ≠ 0 then f else (0, f.2)
    else (0, w.2)

/-- `soRemDetachDirEntry` of `soRemDetachDirEntry.c`, called with a string. -/
def soRemDetachDirEntry (k : SOConst) (env : SOEnv) (v : Volume) (nInodeDir : Nat)
    (eName : List Nat) (op : Nat) : Int × Volume :=
  if op ≠ 0 ∧ op ≠ 1 then (-EINVAL, v)
  else if eName.length > k.MAX_NAME then (-ENAMETOOLONG, v)
  else if SLASH ∈ eName then (-EINVAL, v)
  else
    let rd := soReadInode k env v nInodeDir
    if rd.1 ≠ 0 then (rd.1, rd.2.1)
    else if rd.2.2.mode &&& k.INODE_DIR ≠ k.INODE_DIR then (-ENOTDIR, rd.2.1)
    else if soQCheckDirCont k rd.2.1 rd.2.2 ≠ 0 then (soQCheckDirCont k rd.2.1 rd.2.2, rd.2.1)
    else
      let a1 := soAccessGranted k env rd.2.1 nInodeDir X
      if a1.1 ≠ 0 then (-EACCES, a1.2)
      else
        let a2 := soAccessGranted k env a1.2 nInodeDir W
        if a2.1 ≠ 0 then (-EPERM, a2.2)
        else
          let g := soGetDirEntryByName k env a2.2 nInodeDir eName
          if g.1 ≠ 0 then (g.1, g.2.1)
          else
            let nInodeEntry := g.2.2.1
            let index := g.2.2.2
            let re := soReadInode k env g.2.1 nInodeEntry
            if re.1 ≠ 0 then (re.1, re.2.1)
            else
              let rc := soReadFileCluster k env re.2.1 nInodeDir (index / k.DPC) default
              if rc.1 ≠ 0 then (rc.1, rc.2.1)
              else
                let offset := index % k.DPC
                let old := rc.2.2.de.getD offset default
                let e : Int × SODirEntry :=
                  if op = REM then
                    if re.2.2.mode &&& k.INODE_DIR = k.INODE_DIR ∧
                        soCheckDirectoryEmptiness k rc.2.1 nInodeEntry ≠ 0 then
                      (soCheckDirectoryEmptiness k rc.2.1 nInodeEntry, old)
                    else
                      (0, { old with
                            name := (old.name.set k.MAX_NAME (old.name.getD 0 0)).set 0 0 })
                  else (0, { name := List.replicate (k.MAX_NAME + 1) 0, nInode := NULL_INODE })
                if e.1 ≠ 0 then (e.1, rc.2.1)
                else
                  let w := soWriteFileCluster k env rc.2.1 nInodeDir (index / k.DPC)
                    { rc.2.2 with de := rc.2.2.de.set offset e.2 }
                  if w.1 ≠ 0 then w
                  else remDetachCounts k env w.2 nInodeDir nInodeEntry op rd.2.2 re.2.2

/-- The name `strcpy (name, newName)` and `memset (&name[strlen (newName)], 0, MAX_NAME -
strlen (newName) - 1)` of `soRenameDirEntry` leave in the field `old` of `MAX_NAME + 1`
characters: the characters of `newName`, the null character that ends the string, null
characters up to position `MAX_NAME - 2`, and the characters of `old` after them. The count
of `memset` is of type `size_t`: it is taken as zero here when `strlen (newName)` is
`MAX_NAME - 1`, and the embedding does not follow the call when it is `MAX_NAME`, where the
count wraps around. -/
def renamedField (k : SOConst) (old newName : List Nat) : List Nat :=
  (List.range (k.MAX_NAME + 1)).map fun i =>
    if i < newName.length then newName.getD i 0
    else if i = newName.length then 0
    else if i < k.MAX_NAME - 1 then 0
    else old.getD i 0

/-- `soRenameDirEntry` of `soRenameDirEntry.c`, called with strings. The test of line 83 is
`Inode.mode && INODE_DIR == 0`. The entry of an index that is not below `DPC` is outside the
array of the entries of the cluster, which C leaves undefined; the assignment leaves the array
as it is here. -/
def soRenameDirEntry (k : SOConst) (env : SOEnv) (v : Volume) (nInodeDir : Nat)
    (oldName newName : List Nat) : Int × Volume :=
  if oldName.length > k.MAX_NAME ∨ newName.length > k.MAX_NAME then (-ENAMETOOLONG, v)
  else if oldName = [DOT] ∨ oldName = [DOT, DOT] ∨ newName = [DOT] ∨ newName = [DOT, DOT] then
    (-EINVAL, v)
  else if SLASH ∈ oldName ∨ SLASH ∈ newName then (-EINVAL, v)
  else
    let r := soReadInode k env v nInodeDir
    if r.1 ≠ 0 then (r.1, r.2.1)
    else if r.2.2.mode ≠ 0 ∧ k.INODE_DIR = 0 then (-ENOTDIR, r.2.1)
    else if r.2.2.clucount = 0 then (-ELIBBAD, r.2.1)
    else
      let a1 := soAccessGranted k env r.2.1 nInodeDir X
      if a1.1 ≠ 0 then (-EACCES, a1.2)
      else
        let a2 := soAccessGranted k env a1.2 nInodeDir W
        if a2.1 ≠ 0 then (-EPERM, a2.2)
        else
          let g := soGetDirEntryByName k env a2.2 nInodeDir oldName
          if g.1 ≠ 0 then (g.1, g.2.1)
          else
            let index := g.2.2.2
            let g2 := soGetDirEntryByName k env g.2.1 nInodeDir newName
            if g2.1 = 0 then (-EEXIST, g2.2.1)
            else if g2.1 ≠ -ENOENT then (g2.1, g2.2.1)
            else
              let rc := soReadFileCluster k env g2.2.1 nInodeDir (index / k.DPC) default
              if rc.1 ≠ 0 then (rc.1, rc.2.1)
              else
                soWriteFileCluster k env rc.2.1 nInodeDir (index / k.DPC)
                  { rc.2.2 with
                    de := rc.2.2.de.set index
                      { rc.2.2.de.getD index default with
                        name := renamedField k (rc.2.2.de.getD index default).name newName } }

/-! ## Paths: `soGetDirEntryByPath.c` and `soRename.c` -/

/-- The string without the characters `/` that end it. -/
def stripSlashes (p : List Nat) : List Nat :=
  (p.reverse.dropWhile fun c => c = SLASH).reverse

/-- `basename` of `libgen.h`, as POSIX specifies it: the last component of the path, `/`
for a path of slashes only and `.` for the empty string. -/
def basename (p : List Nat) : List Nat :=
  if p = [] then [DOT]
  else if stripSlashes p = [] then [SLASH]
  else ((stripSlashes p).reverse.takeWhile fun c => c ≠ SLASH).reverse

/-- `dirname` of `libgen.h`, as POSIX specifies it: the path without its last component and
the slashes before it, `/` when nothing but the root is left and `.` when the path has no
slash. For a path that begins with exactly two slashes POSIX lets the result be `//`; it is
`/` here. -/
def dirname (p : List Nat) : List Nat :=
  if p = [] then [DOT]
  else if stripSlashes p = [] then [SLASH]
  else if ((stripSlashes p).reverse.dropWhile fun c => c ≠ SLASH) = [] then [DOT]
  else if stripSlashes ((stripSlashes p).reverse.dropWhile fun c => c ≠ SLASH).reverse = [] then
    [SLASH]
  else stripSlashes ((stripSlashes p).reverse.dropWhile fun c => c ≠ SLASH).reverse

/-- `soTraversePath` of `soGetDirEntryByPath.c`. The static variable `nSymLinks` is a
component of the state: the third argument is its value at the call and the third component
of the result its value at the return. The first argument bounds the depth of the
recursion. The other components of the result are the status, the volume, and the values
stored in `*p_nInodeDir` and `*p_nInodeEnt`. -/
def soTraversePath (k : SOConst) (env : SOEnv) :
    Nat → Volume → Nat → List Nat → Int × Volume × Nat × Nat × Nat
  | 0, v, nSymLinks, _ => (-ELIBBAD, v, nSymLinks, 0, 0)
  | fuel + 1, v, nSymLinks, ePath =>
      let name := basename ePath
      let path := dirname ePath
      let first : Int × Volume × Nat × Nat × Nat :=
        if path = [SLASH] then
          let g := soGetDirEntryByName k env v 0 (if name = [SLASH] then [DOT] else name)
          (g.1, g.2.1, nSymLinks, 0, g.2.2.1)
        else
          let t := soTraversePath k env fuel v nSymLinks path
          if t.1 ≠ 0 then t
          else
            let g := soGetDirEntryByName k env t.2.1 t.2.2.2.2 name
            (g.1, g.2.1, t.2.2.1, t.2.2.2.2, g.2.2.1)
      if first.1 ≠ 0 then first
      else
        let nInodeDir := first.2.2.2.1
        let nInodeEnt := first.2.2.2.2
        let ri := soReadInode k env first.2.1 nInodeEnt
        if ri.1 ≠ 0 then (ri.1, ri.2.1, first.2.2.1, 0, 0)
        else if ri.2.2.mode &&& k.INODE_SYMLINK ≠ k.INODE_SYMLINK then
          (0, ri.2.1, first.2.2.1, nInodeDir, nInodeEnt)
        else if first.2.2.1 ≥ 1 then (-ELOOP, ri.2.1, 0, 0, 0)
        else
          let rc := soReadFileCluster k env ri.2.1 nInodeEnt 0 default
          if rc.1 ≠ 0 then (rc.1, rc.2.1, first.2.2.1, 0, 0)
          else
            let data := cstr rc.2.2.data
            let path1 :=
              if data.getD 0 0 ≠ SLASH then
                (if path.getLastD 0 ≠ SLASH then path ++ [SLASH] else path) ++
                  data.take (k.MAX_PATH + 1)
              else data.take (k.MAX_PATH + 1)
            let t := soTraversePath k env fuel rc.2.1 1 path1
            if t.1 ≠ 0 then (t.1, t.2.1, t.2.2.1, 0, 0)
            else (0, t.2.1, 0, t.2.2.2.1, t.2.2.2.2)

/-- `soGetDirEntryByPath` of `soGetDirEntryByPath.c`, called with a string and with
pointers that are not null. The components of the result are those of `soTraversePath`. The
recursion of `soTraversePath` is no deeper than the components of the path and of one path
a symbolic link gives. -/
def soGetDirEntryByPath (k : SOConst) (env : SOEnv) (v : Volume) (nSymLinks : Nat)
    (ePath : List Nat) : Int × Volume × Nat × Nat × Nat :=
  if ePath.length = 0 then (-EINVAL, v, nSymLinks, 0, 0)
  else if ePath.length > k.MAX_PATH then (-ENAMETOOLONG, v, nSymLinks, 0, 0)
  else if ePath.getD 0 0 ≠ SLASH then (-ERELPATH, v, nSymLinks, 0, 0)
  else soTraversePath k env (4 * k.MAX_PATH + 8) v nSymLinks ePath

/-- The part of `soRename` for a new path that exists (lines 112 to 140 and 171 to 204),
`sameDir` telling the two cases apart. -/
def renameOver (k : SOConst) (env : SOEnv) (v : Volume) (sameDir : Bool)
    (oldInodeDir oldInodeEnt newInodeDir newInodeEnt : Nat) (oldEntName newEntName : List Nat) :
    Int × Volume :=
  let ro := soReadInode k env v oldInodeEnt
  if ro.1 ≠ 0 then (ro.1, ro.2.1)
  else
    let rn := soReadInode k env ro.2.1 newInodeEnt
    if rn.1 ≠ 0 then (rn.1, rn.2.1)
    else if ro.2.2.mode &&& k.INODE_DIR ≠ 0 ∧ rn.2.2.mode &&& k.INODE_DIR = 0 then
      (-ENOTDIR, rn.2.1)
    else if ro.2.2.mode &&& k.INODE_DIR ≠ 0 ∧
        soCheckDirectoryEmptiness k rn.2.1 newInodeEnt ≠ 0 then
      (soCheckDirectoryEmptiness k rn.2.1 newInodeEnt, rn.2.1)
    else if rn.2.2.mode &&& k.INODE_DIR ≠ 0 then (-EISDIR, rn.2.1)
    else
      let d := soRemDetachDirEntry k env rn.2.1 newInodeDir newEntName DETACH
      if d.1 ≠ 0 then d
      else if sameDir then soRenameDirEntry k env d.2 oldInodeDir oldEntName newEntName
      else
        let a := soAddAttDirEntry k env d.2 newInodeDir newEntName oldInodeEnt
          (if ro.2.2.mode &&& k.INODE_DIR ≠ 0 then ATTACH else ADD)
        if a.1 ≠ 0 then a
        else soRemDetachDirEntry k env a.2 oldInodeDir oldEntName DETACH

/-- `soRename` of `soRename.c`, called with strings. The second argument and the third
component of the result are the values of the static variable `nSymLinks` of
`soGetDirEntryByPath.c`. -/
def soRename (k : SOConst) (env : SOEnv) (v : Volume) (nSymLinks : Nat)
    (oldPath newPath : List Nat) : Int × Volume × Nat :=
  let po := soGetDirEntryByPath k env v nSymLinks oldPath
  if po.1 ≠ 0 then (po.1, po.2.1, po.2.2.1)
  else
    let oldInodeDir := po.2.2.2.1
    let oldInodeEnt := po.2.2.2.2
    if dirname oldPath = dirname newPath then
      let pn := soGetDirEntryByPath k env po.2.1 po.2.2.1 newPath
      if pn.1 = -ENOENT then
        let r := soRenameDirEntry k env pn.2.1 oldInodeDir (basename oldPath) (basename newPath)
        (r.1, r.2, pn.2.2.1)
      else if pn.1 ≠ 0 then (pn.1, pn.2.1, pn.2.2.1)
      else
        let r := renameOver k env pn.2.1 true oldInodeDir oldInodeEnt pn.2.2.2.1 pn.2.2.2.2
          (basename oldPath) (basename newPath)
        (r.1, r.2, pn.2.2.1)
    else
      let pd := soGetDirEntryByPath k env po.2.1 po.2.2.1 (dirname newPath)
      if pd.1 ≠ 0 then (pd.1, pd.2.1, pd.2.2.1)
      else
        let newInodeDir := pd.2.2.2.2
        let g := soGetDirEntryByName k env pd.2.1 newInodeDir (basename newPath)
        if g.1 = -ENOENT then
          let ro := soReadInode k env g.2.1 oldInodeEnt
          if ro.1 ≠ 0 then (ro.1, ro.2.1, pd.2.2.1)
          else
            let a := soAddAttDirEntry k env ro.2.1 newInodeDir (basename newPath) oldInodeEnt
              (if ro.2.2.mode &&& k.INODE_DIR ≠ 0 then ATTACH else ADD)
            if a.1 ≠ 0 then (a.1, a.2, pd.2.2.1)
            else
              let d := soRemDetachDirEntry k env a.2 oldInodeDir (basename oldPath) DETACH
              (d.1, d.2, pd.2.2.1)
        else if g.1 ≠ 0 then (g.1, g.2.1, pd.2.2.1)
        else
          let r := renameOver k env g.2.1 false oldInodeDir oldInodeEnt newInodeDir g.2.2.1
            (basename oldPath) (basename newPath)
          (r.1, r.2, pd.2.2.1)

/-- A new inode of the given type with the permissions `perm`: `soAllocInode` followed by
`soWriteInode` of the record with the permissions. -/
def newNode (k : SOConst) (env : SOEnv) (v : Volume) (type perm : Nat) : Volume :=
  (soWriteInode k env (soAllocInode k env v type).2.1
    { getI (soAllocInode k env v type).2.1.itable (soAllocInode k env v type).2.2 with
      mode := type ||| perm }
    (soAllocInode k env v type).2.2).2

/-- The buffer that holds the string `s` followed by null characters. -/
def stringCluster (k : SOConst) (s : List Nat) : SODataClust :=
  { zeroCluster k with data := s ++ List.replicate (k.CLUSTER_SIZE - s.length) 0 }

/-- The volume `dirVolume 8` with the regular files `/a` (inode 1) and `/b` (inode 2), which
fill the first cluster of the root directory, and the inode 3, a regular file that is in no
directory yet. -/
def fullRootVolume : Volume :=
  newNode dirConst exampleEnv
    (soAddAttDirEntry dirConst exampleEnv
      (newNode dirConst exampleEnv
        (soAddAttDirEntry dirConst exampleEnv
          (newNode dirConst exampleEnv (dirVolume 8) 1024 420) 0 [97] 1 ADD).2
        1024 420) 0 [98] 2 ADD).2
    1024 420

/-- The volume `dirVolume 8` with the directory `/d` (inode 1), the symbolic link `/l1`
(inode 2) to `/d` and the symbolic link `/d/l2` (inode 3) to `/`. -/
def twoLinksVolume : Volume :=
  (soAddAttDirEntry dirConst exampleEnv
    (soWriteFileCluster dirConst exampleEnv
      (newNode dirConst exampleEnv
        (soAddAttDirEntry dirConst exampleEnv
          (soWriteFileCluster dirConst exampleEnv
            (newNode dirConst exampleEnv
              (soAddAttDirEntry dirConst exampleEnv
                (newNode dirConst exampleEnv (dirVolume 8) 2048 511) 0 [100] 1 ADD).2
              512 511)
            2 0 (stringCluster dirConst [SLASH, 100])).2
          0 [108, 49] 2 ADD).2
        512 511)
      3 0 (stringCluster dirConst [SLASH])).2
    1 [108, 50] 3 ADD).2

/-- The volume `dirVolume 8` with the regular file `/a` (inode 1). -/
def oneFileVolume : Volume :=
  (soAddAttDirEntry dirConst exampleEnv
    (newNode dirConst exampleEnv (dirVolume 8) 1024 420) 0 [97] 1 ADD).2

/-- The volume `dirVolume 8` with the inode 1, a regular file, whose entry `e` is the first
entry of the second cluster of the root directory, index `DPC`. -/
def secondClusterVolume : Volume :=
  (soWriteFileCluster dirConst exampleEnv
    (soWriteInode dirConst exampleEnv
      (newNode dirConst exampleEnv (dirVolume 8) 1024 420)
      { getI (newNode dirConst exampleEnv (dirVolume 8) 1024 420).itable 1 with refcount := 1 }
      1).2
    0 1
    { zeroCluster dirConst with
      de := (zeroCluster dirConst).de.set 0 { name := nameField dirConst [101], nInode := 1 } }).2

/-- Invariant of the data-zone metadata: they are well formed and the free references are
legal cluster numbers, each once. -/
def DZInv (v : Volume) : Prop :=
  DZWf v ∧ (freeRefs v).Nodup ∧ ∀ n ∈ freeRefs v, 1 ≤ n ∧ n < v.sb.dzone_total

/-- The references of the cluster `i2` of the inode that are in use. -/
def sngClusters (k : SOConst) (dz : List SODataClust) (p : SOInode) : List Nat :=
  ((List.range k.RPC).map fun q => getRef (getDC dz p.i2) q).filter fun n => n ≠ NULL_CLUSTER

/-- The clusters of references of the inode: `i1`, `i2` and the references of the cluster
`i2` that are in use. -/
def indClusters (k : SOConst) (dz : List SODataClust) (p : SOInode) : List Nat :=
  (if p.i1 = NULL_CLUSTER then [] else [p.i1]) ++
  (if p.i2 = NULL_CLUSTER then [] else p.i2 :: sngClusters k dz p)

/-- The number of references of a cluster that are in use. -/
def usedRefs (k : SOConst) (c : SODataClust) : Nat :=
  (List.range k.RPC).countP fun j => decide (getRef c j ≠ NULL_CLUSTER)

/-- The number of clusters a reference to a cluster of direct references stands for: none
when the reference is `NULL_CLUSTER`, otherwise the cluster and the data clusters it refers
to. -/
def cluCountS (k : SOConst) (dz : List SODataClust) (s : Nat) : Nat :=
  if s = NULL_CLUSTER then 0 else 1 + usedRefs k (getDC dz s)

/-- The number of clusters a reference to a cluster of single indirect references stands
for: none when the reference is `NULL_CLUSTER`, otherwise the cluster and what each of its
references stands for. -/
def cluCountD (k : SOConst) (dz : List SODataClust) (t : Nat) : Nat :=
  if t = NULL_CLUSTER then 0
  else 1 + ((List.range k.RPC).map fun q => cluCountS k dz (getRef (getDC dz t) q)).sum

/-- The number of clusters the references of an inode stand for: the entries of `d[]` in
use, plus, if `i1` is in use, 1 and the references of the cluster `i1` in use, plus, if
`i2` is in use, 1 and, for each reference of the cluster `i2` in use, 1 and the references
in use of the cluster it refers to. -/
def cluCount (k : SOConst) (dz : List SODataClust) (p : SOInode) : Nat :=
  p.d.countP (fun n => decide (n ≠ NULL_CLUSTER)) + cluCountS k dz p.i1 + cluCountD k dz p.i2

/-- The references of the inode are consistent with the data zone: `d[]` has `N_DIRECT`
entries, every cluster of references of the inode has `RPC` references, the data zone holds
`dzone_total` clusters, and the clusters of references of the inode are distinct clusters of
the data zone that are not free. -/
def TreeWf (k : SOConst) (v : Volume) (p : SOInode) : Prop :=
  p.d.length = k.N_DIRECT ∧
  (∀ n ∈ indClusters k v.dzone p, (getDC v.dzone n).ref.length = k.RPC) ∧
  v.sb.dzone_total ≤ v.dzone.length ∧
  (indClusters k v.dzone p).Nodup ∧
  ∀ n ∈ indClusters k v.dzone p, n < v.sb.dzone_total ∧ n ∉ freeRefs v

/-- What a successful `FREE` of the index `c` leaves, `v` and `p` being the volume and the
record of the inode before and `v'` and `p'` after: the invariant of the data zone; the
clusters of references in the data zone; the table of inodes and its metadata untouched; the
index without a reference; the data cluster among the free references; the cluster of
direct references freed, and its holder cleared, when the index held its only reference in
use; the cluster `i2` freed, and `i2` cleared, when that leaves it without a reference in
use; and `clucount` in step with the references. -/
def FreeOutcome (k : SOConst) (v : Volume) (p : SOInode) (c : Nat) (v' : Volume)
    (p' : SOInode) : Prop :=
  DZInv v' ∧ RefsInZone k v'.dzone p' ∧
  v'.itable = v.itable ∧ v'.sb.itotal = v.sb.itotal ∧ v'.sb.ifree = v.sb.ifree ∧
  v'.sb.ihdtl = v.sb.ihdtl ∧ p'.mode = p.mode ∧
  refOfIndex k v'.dzone p' c = NULL_CLUSTER ∧
  refOfIndex k v.dzone p c ∈ freeRefs v' ∧
  (k.N_DIRECT ≤ c → c < k.N_DIRECT + k.RPC →
    (∀ j, j < k.RPC → j ≠ c - k.N_DIRECT → getRef (getDC v.dzone p.i1) j = NULL_CLUSTER) →
    p.i1 ∈ freeRefs v' ∧ p'.i1 = NULL_CLUSTER) ∧
  (k.N_DIRECT + k.RPC ≤ c →
    (∀ j, j < k.RPC → j ≠ (c - k.N_DIRECT - k.RPC) % k.RPC →
      getRef (getDC v.dzone (getRef (getDC v.dzone p.i2) ((c - k.N_DIRECT - k.RPC) / k.RPC))) j
        = NULL_CLUSTER) →
    getRef (getDC v.dzone p.i2) ((c - k.N_DIRECT - k.RPC) / k.RPC) ∈ freeRefs v' ∧
    getRef (getDC v'.dzone p.i2) ((c - k.N_DIRECT - k.RPC) / k.RPC) = NULL_CLUSTER ∧
    ((∀ j, j < k.RPC → j ≠ (c - k.N_DIRECT - k.RPC) / k.RPC →
        getRef (getDC v.dzone p.i2) j = NULL_CLUSTER) →
      p.i2 ∈ freeRefs v' ∧ p'.i2 = NULL_CLUSTER)) ∧
  (p.clucount < 4294967296 → p.clucount = cluCount k v.dzone p →
    p'.clucount = cluCount k v'.dzone p')

/-- What a successful `ALLOC` of the index `c` leaves, `v` and `p` being the volume and the
record of the inode before, `v'` and `p'` after, and `n` the value stored in `*p_outVal`: the
invariant of the data zone; the clusters of references in the data zone; the table of inodes
and its metadata untouched; the data zone of the same length; the index, which had no
reference, with the reference `n`; `n` taken from the free references and not one of the
clusters of references of the inode; `clucount` in step with the references; `refcount` and
`size` untouched; and every cluster that was neither free nor a cluster of references of the
inode as it was. -/
def AllocOutcome (k : SOConst) (v : Volume) (p : SOInode) (c : Nat) (v' : Volume)
    (p' : SOInode) (n : Nat) : Prop :=
  DZInv v' ∧ RefsInZone k v'.dzone p' ∧
  v'.itable = v.itable ∧ v'.sb.itotal = v.sb.itotal ∧ v'.sb.ifree = v.sb.ifree ∧
  v'.sb.ihdtl = v.sb.ihdtl ∧ p'.mode = p.mode ∧
  v'.dzone.length = v.dzone.length ∧
  refOfIndex k v.dzone p c = NULL_CLUSTER ∧
  refOfIndex k v'.dzone p' c = n ∧
  n ∈ freeRefs v ∧ n ∉ freeRefs v' ∧ n ∉ indClusters k v'.dzone p' ∧
  (p.clucount + 3 < 4294967296 → p.clucount = cluCount k v.dzone p →
    p'.clucount = cluCount k v'.dzone p') ∧
  p'.refcount = p.refcount ∧ p'.size = p.size ∧
  (∀ m, m ∉ freeRefs v → m ∉ indClusters k v.dzone p → getDC v'.dzone m = getDC v.dzone m)

/-- The end of `soWriteFileCluster` (lines 88 to 96), from the point where the logical number
of the data cluster is known: the cluster is read, the buffer is copied over it, the cluster
is written, and the inode is read and written. -/
def writeCluster (k : SOConst) (env : SOEnv) (v : Volume) (nInode logicalNum : Nat)
    (buff : SODataClust) : Int × Volume :=
  let c := soReadCacheCluster v logicalNum
  if c.1 < 0 then (c.1, v)
  else
    let w := soWriteCacheCluster v logicalNum buff
    if w.1 < 0 then (w.1, w.2)
    else
      let r := soReadInode k env w.2 nInode
      if r.1 ≠ 0 then (1, r.2.1)
      else
        let s := soWriteInode k env r.2.1 r.2.2 nInode
        if s.1 ≠ 0 then (1, s.2) else (0, s.2)

/-! ## What the directory layer relies on -/

/-- The two records of an inode agree but for the times. -/
def SameButTimes (p q : SOInode) : Prop :=
  q.mode = p.mode ∧ q.refcount = p.refcount ∧ q.owner = p.owner ∧ q.group = p.group ∧
  q.size = p.size ∧ q.clucount = p.clucount ∧ q.d = p.d ∧ q.i1 = p.i1 ∧ q.i2 = p.i2

/-- The two volumes agree but for the times of the inodes in use. -/
def TimesEq (k : SOConst) (v v' : Volume) : Prop :=
  v'.sb = v.sb ∧ v'.fct = v.fct ∧ v'.dzone = v.dzone ∧ v'.itable.length = v.itable.length ∧
  ∀ m, SameButTimes (getI v.itable m) (getI v'.itable m) ∧
    (isFreeInode k (getI v.itable m) → getI v'.itable m = getI v.itable m)

/-- The metadata of the volume are consistent and the inode `n` is in use, with its clusters
of references in the data zone. -/
def Good (k : SOConst) (v : Volume) (n : Nat) : Prop :=
  IInv k v ∧ soQCheckDZ v = 0 ∧ n < v.sb.itotal ∧ soQCheckInodeIU k (getI v.itable n) = 0 ∧
  RefsInZone k v.dzone (getI v.itable n)

/-- The cluster `soReadFileCluster` gives for the index `c` of a file: zeros when the index
has no reference, otherwise the data cluster the index refers to. -/
def fileCluster (k : SOConst) (dz : List SODataClust) (p : SOInode) (c : Nat) : SODataClust :=
  if refOfIndex k dz p c = NULL_CLUSTER then zeroCluster k
  else getDC dz (refOfIndex k dz p c)

/-- The entry `i` of a directory: the entry `i mod DPC` of its cluster `i div DPC`. -/
def dirEntry (k : SOConst) (dz : List SODataClust) (p : SOInode) (i : Nat) : SODirEntry :=
  (fileCluster k dz p (i / k.DPC)).de.getD (i % k.DPC) default

/-- The number of entries `soGetDirEntryByName` goes through when it finds no entry with the
name: the loop of line 102 reads a cluster as long as `count <= size`, and `count` grows by
`DPC * (CLUSTER_SIZE / DPC)` with each cluster. -/
def scanned (k : SOConst) (p : SOInode) : Nat :=
  (p.size / (k.DPC * (k.CLUSTER_SIZE / k.DPC)) + 1) * k.DPC

/-! ## System calls: `soTruncate.c` and `soRmdir.c` -/

/-- `soTruncate` of `soTruncate.c`, called with a string and a length that is not negative.
The second argument and the third component of the result are the values of the static
variable `nSymLinks` of `soGetDirEntryByPath.c`. The buffer `dc` holds the `BSLPC` bytes of a
cluster; the loop of lines 93 to 95 assigns the bytes from `offset` on. The record `inode`
that line 107 writes is the one line 78 read, with the new size. -/
def soTruncate (k : SOConst) (env : SOEnv) (v : Volume) (nSymLinks : Nat) (ePath : List Nat)
    (length : Nat) : Int × Volume × Nat :=
  let g := soGetDirEntryByPath k env v nSymLinks ePath
  if g.1 ≠ 0 then (g.1, g.2.1, g.2.2.1)
  else
    let nInodeEnt := g.2.2.2.2
    let r := soReadInode k env g.2.1 nInodeEnt
    if r.1 ≠ 0 then (r.1, r.2.1, g.2.2.1)
    else if r.2.2.mode &&& k.INODE_DIR = k.INODE_DIR then (-EISDIR, r.2.1, g.2.2.1)
    else if length > MAX_FILE_SIZE k then (-EFBIG, r.2.1, g.2.2.1)
    else
      let a := soAccessGranted k env r.2.1 nInodeEnt W
      if a.1 ≠ 0 then (a.1, a.2, g.2.2.1)
      else
        let nClust := (length / k.CLUSTER_SIZE) % 4294967296
        let offset := (length % k.CLUSTER_SIZE) % 4294967296
        let h : Int × Volume :=
          if length < r.2.2.size then
            if offset ≠ 0 then
              let rc := soReadFileCluster k env a.2 nInodeEnt nClust default
              if rc.1 ≠ 0 then (rc.1, rc.2.1)
              else
                let w := soWriteFileCluster k env rc.2.1 nInodeEnt nClust
                  { rc.2.2 with
                    data := rc.2.2.data.take offset ++ List.replicate (k.CLUSTER_SIZE - offset) 0 }
                if w.1 ≠ 0 then w
                else soHandleFileClusters k env w.2 nInodeEnt (inc32 nClust)
            else soHandleFileClusters k env a.2 nInodeEnt nClust
          else (0, a.2)
        if h.1 ≠ 0 then (h.1, h.2, g.2.2.1)
        else
          let w := soWriteInode k env h.2 { r.2.2 with size := length % 4294967296 } nInodeEnt
          if w.1 ≠ 0 then (w.1, w.2, g.2.2.1) else (0, w.2, g.2.2.1)

/-- `soRmdir` of `soRmdir.c`: the body is the call of `soColorProbe` and `return 0`. -/
def soRmdir (v : Volume) (_ePath : List Nat) : Int × Volume := (0, v)

/-- The volume `dirVolume 8` with the directories `/a` (inode 1) and `/b` (inode 2) and the
directory `/a/d` (inode 3). -/
def mvVolume : Volume :=
  (soAddAttDirEntry dirConst exampleEnv
    (newNode dirConst exampleEnv
      (soAddAttDirEntry dirConst exampleEnv
        (newNode dirConst exampleEnv
          (soAddAttDirEntry dirConst exampleEnv
            (newNode dirConst exampleEnv (dirVolume 8) 2048 511) 0 [97] 1 ADD).2
          2048 511) 0 [98] 2 ADD).2
      2048 511) 1 [100] 3 ADD).2

/-- The volume `oneFileVolume` after the bytes `hello` were written to the cluster 0 of the
file `/a` (inode 1) and its size was set to 5. -/
def truncVolume : Volume :=
  (soWriteInode dirConst exampleEnv
    (soWriteFileCluster dirConst exampleEnv oneFileVolume 1 0
      (stringCluster dirConst [104, 101, 108, 108, 111])).2
    { getI (soWriteFileCluster dirConst exampleEnv oneFileVolume 1 0
        (stringCluster dirConst [104, 101, 108, 108, 111])).2.itable 1 with size := 5 }
    1).2

/-- The volume `dirVolume 8` with the directory `/d` (inode 1) and the regular file `/d/x`
(inode 2). -/
def nonEmptyDirVolume : Volume :=
  (soAddAttDirEntry dirConst exampleEnv
    (newNode dirConst exampleEnv
      (soAddAttDirEntry dirConst exampleEnv
        (newNode dirConst exampleEnv (dirVolume 8) 2048 511) 0 [100] 1 ADD).2
      1024 420) 1 [120] 2 ADD).2

/-- The volume `dirVolume 8` with the symbolic link `/l` (inode 1) to `/x`, a path that names
no entry, and the symbolic link `/m` (inode 2) to `/`. -/
def danglingLinkVolume : Volume :=
  (soAddAttDirEntry dirConst exampleEnv
    (soWriteFileCluster dirConst exampleEnv
      (newNode dirConst exampleEnv
        (soAddAttDirEntry dirConst exampleEnv
          (soWriteFileCluster dirConst exampleEnv
            (newNode dirConst exampleEnv (dirVolume 8) 512 511)
            1 0 (stringCluster dirConst [SLASH, 120])).2
          0 [108] 1 ADD).2
        512 511)
      2 0 (stringCluster dirConst [SLASH])).2
    0 [109] 2 ADD).2

/-- The volume `dirVolume 8` with the regular file `/abc` (inode 1), whose name has
`MAX_NAME` characters. -/
def longNameVolume : Volume :=
  (soAddAttDirEntry dirConst exampleEnv
    (newNode dirConst exampleEnv (dirVolume 8) 1024 420) 0 [97, 98, 99] 1 ADD).2

/-! ## The layout of the volume: `main` of `mkfs_sofs15.c`

`IPB` (inodes per block), `RPB` (references per block) and `BLOCKS_PER_CLUSTER` are constants
of `sofs_const.h`, parameters here. The variables are of type `uint32_t`. -/

/-- Subtraction of `uint32_t` values. -/
def sub32 (a b : Nat) : Nat := (4294967296 + a - b) % 4294967296

/-- The pattern `if ((x % P) == 0) y = x / P; else y = x / P + 1;` of lines 145 to 157. -/
def blocksFor (x P : Nat) : Nat := if x % P = 0 then x / P else inc32 (x / P)

/-- The number of inodes the layout starts from (lines 144): the value of the option `-i`,
or `ntotal >> 3` when it is zero. -/
def requestedInodes (ntotal itotal : Nat) : Nat := if itotal = 0 then ntotal >>> 3 else itotal

/-- The computation of the layout in `main` of `mkfs_sofs15.c` (lines 144 to 172), for a
device of `ntotal` blocks and the value `itotal` of the option `-i`. The components of the
result are the final `iblktotal`, `fcblktotal`, `nclusttotal` and `itotal`. -/
def mkfsLayout (IPB RPB BLOCKS_PER_CLUSTER ntotal itotal : Nat) : Nat × Nat × Nat × Nat :=
  let iblktotal := blocksFor (requestedInodes ntotal itotal) IPB
  let tmp := sub32 (sub32 ntotal 1) iblktotal / BLOCKS_PER_CLUSTER
  let fcblktotal1 := blocksFor tmp RPB
  let nclusttotal := sub32 (sub32 (sub32 ntotal 1) iblktotal) fcblktotal1 / BLOCKS_PER_CLUSTER
  let fcblktotal := blocksFor nclusttotal RPB
  let nclusttotal1 :=
    if nclusttotal % RPB ≠ 0 ∧
        sub32 (sub32 (sub32 (sub32 ntotal 1) iblktotal) fcblktotal)
          ((nclusttotal * BLOCKS_PER_CLUSTER) % 4294967296) ≥ BLOCKS_PER_CLUSTER then
      inc32 nclusttotal
    else nclusttotal
  let iblktotal1 :=
    sub32 (sub32 (sub32 ntotal 1) fcblktotal) ((nclusttotal1 * BLOCKS_PER_CLUSTER) % 4294967296)
  (iblktotal1, fcblktotal, nclusttotal1, (iblktotal1 * IPB) % 4294967296)

/-- A volume of 6 data clusters whose retrieval cache is empty, whose table holds the
references 3 and 4 between head and tail, and whose insertion cache holds the references 1
and 2; the cluster 5 is allocated. -/
def drainedVolume : Volume :=
  { exampleVolume 6 with
    sb := { (exampleVolume 6).sb with
            dzone_retriev := { cache_idx := 50, cache := List.replicate 50 NULL_CLUSTER }
            dzone_insert := { cache_idx := 2, cache := 1 :: 2 :: List.replicate 48 NULL_CLUSTER }
            tbfreeclust_head := 3
            tbfreeclust_tail := 5
            dzone_free := 4 }
    fct := [NULL_CLUSTER, NULL_CLUSTER, NULL_CLUSTER, 3, 4, NULL_CLUSTER] }

/-! ## The entries of a directory, by index -/

/-- The entry `i` of the directory has the name `eName`. -/
def entryNamed (k : SOConst) (dz : List SODataClust) (p : SOInode) (eName : List Nat)
    (i : Nat) : Prop :=
  cstr (dirEntry k dz p i).name = eName

instance (k : SOConst) (dz : List SODataClust) (p : SOInode) (eName : List Nat) (i : Nat) :
    Decidable (entryNamed k dz p eName i) := by
  unfold entryNamed; exact inferInstance

/-- The entry `i` of the directory is free for `soGetDirEntryByName`: the first byte of its
name is the null character. -/
def entryFree (k : SOConst) (dz : List SODataClust) (p : SOInode) (i : Nat) : Prop :=
  (dirEntry k dz p i).name.getD 0 0 = 0

instance (k : SOConst) (dz : List SODataClust) (p : SOInode) (i : Nat) :
    Decidable (entryFree k dz p i) := by
  unfold entryFree; exact inferInstance

/-- The part of `soRemDetachDirEntry` that follows the search of the entry (lines 120 to
162), `nInodeEntry` and `index` being what `soGetDirEntryByName` stored and `inodeDir` the
record of the directory read at line 106. -/
def remDetachEntry (k : SOConst) (env : SOEnv) (v : Volume)
    (nInodeDir nInodeEntry index op : Nat) (inodeDir : SOInode) : Int × Volume :=
  let re := soReadInode k env v nInodeEntry
  if re.1 ≠ 0 then (re.1, re.2.1)
  else
    let rc := soReadFileCluster k env re.2.1 nInodeDir (index / k.DPC) default
    if rc.1 ≠ 0 then (rc.1, rc.2.1)
    else
      let offset := index % k.DPC
      let old := rc.2.2.de.getD offset default
      let e : Int × SODirEntry :=
        if op = REM then
          if re.2.2.mode &&& k.INODE_DIR = k.INODE_DIR ∧
              soCheckDirectoryEmptiness k rc.2.1 nInodeEntry ≠ 0 then
            (soCheckDirectoryEmptiness k rc.2.1 nInodeEntry, old)
          else
            (0, { old with
                  name := (old.name.set k.MAX_NAME (old.name.getD 0 0)).set 0 0 })
        else (0, { name := List.replicate (k.MAX_NAME + 1) 0, nInode := NULL_INODE })
      if e.1 ≠ 0 then (e.1, rc.2.1)
      else
        let w := soWriteFileCluster k env rc.2.1 nInodeDir (index / k.DPC)
          { rc.2.2 with de := rc.2.2.de.set offset e.2 }
        if w.1 ≠ 0 then w
        else remDetachCounts k env w.2 nInodeDir nInodeEntry op inodeDir re.2.2

/-- The volume `dirVolume 8` with the inode 1 allocated as a directory, in no directory
yet. -/
def freshDirVolume : Volume := newNode dirConst exampleEnv (dirVolume 8) 2048 511

/-! ## Frames of the operation `FREE` and counters of the operation `ALLOC` -/

/-- No cluster of references of the inode is empty: the cluster `i1`, the cluster `i2` and
every cluster of direct references the cluster `i2` refers to hold a reference in use. -/
def Tight (k : SOConst) (dz : List SODataClust) (p : SOInode) : Prop :=
  (p.i1 ≠ NULL_CLUSTER → allNull k (getDC dz p.i1) = false) ∧
  (p.i2 ≠ NULL_CLUSTER → allNull k (getDC dz p.i2) = false ∧
    ∀ q, q < k.RPC → getRef (getDC dz p.i2) q ≠ NULL_CLUSTER →
      allNull k (getDC dz (getRef (getDC dz p.i2) q)) = false)

/-- No index of the file refers to one of the clusters of references of the inode. -/
def Leaves (k : SOConst) (dz : List SODataClust) (p : SOInode) : Prop :=
  ∀ c, c < MAX_FILE_CLUSTERS k → refOfIndex k dz p c ∉ indClusters k dz p

/-- The references of `dz'` and `p'` are those of `dz` and `p` or `NULL_CLUSTER`: the data
zones have the same length, the clusters the same number of references, and each reference
of a cluster, each of `i1` and `i2` and each entry of `d[]` is as it was or is
`NULL_CLUSTER`. -/
def Shrinks (dz : List SODataClust) (p : SOInode) (dz' : List SODataClust) (p' : SOInode) :
    Prop :=
  dz'.length = dz.length ∧ p'.d.length = p.d.length ∧
  (∀ m, (getDC dz' m).ref.length = (getDC dz m).ref.length) ∧
  (∀ m j, getRef (getDC dz' m) j = getRef (getDC dz m) j ∨
    getRef (getDC dz' m) j = NULL_CLUSTER) ∧
  (p'.i1 = p.i1 ∨ p'.i1 = NULL_CLUSTER) ∧ (p'.i2 = p.i2 ∨ p'.i2 = NULL_CLUSTER) ∧
  (∀ j, p'.d.getD j 0 = p.d.getD j 0 ∨ p'.d.getD j 0 = NULL_CLUSTER)

/-- What a successful `FREE` leaves besides `FreeOutcome`, `v` and `p` being the volume and
the record of the inode before and `v'` and `p'` after: no reference but the ones that were
there; the clusters that are not clusters of references of the inode as they were; the
references consistent with the data zone; no empty cluster of references; `refcount`
untouched; `clucount` a `uint32_t`; and, when `clucount` was in step with the references, as
many clusters more in `dzone_free` as `clucount` lost; and `dzone_total` untouched. -/
def FreeFrame (k : SOConst) (v : Volume) (p : SOInode) (v' : Volume) (p' : SOInode) : Prop :=
  Shrinks v.dzone p v'.dzone p' ∧
  (∀ m, m ∉ indClusters k v.dzone p → getDC v'.dzone m = getDC v.dzone m) ∧
  TreeWf k v' p' ∧ Tight k v'.dzone p' ∧
  p'.refcount = p.refcount ∧ p'.clucount < 4294967296 ∧
  (p.clucount < 4294967296 → p.clucount = cluCount k v.dzone p →
    v'.sb.dzone_free + p'.clucount = v.sb.dzone_free + p.clucount) ∧
  v'.sb.dzone_total = v.sb.dzone_total

/-- The metadata of the volume are consistent and the inode `n` is in use, with references
that are consistent with the data zone, none of them to one of its clusters of references,
no cluster of references empty, and `clucount` in step with the references. -/
def FileInv (k : SOConst) (v : Volume) (n : Nat) : Prop :=
  IInv k v ∧ DZInv v ∧ n < v.sb.itotal ∧ soQCheckInodeIU k (getI v.itable n) = 0 ∧
  TreeWf k v (getI v.itable n) ∧ Leaves k v.dzone (getI v.itable n) ∧
  Tight k v.dzone (getI v.itable n) ∧ (getI v.itable n).clucount < 4294967296 ∧
  (getI v.itable n).clucount = cluCount k v.dzone (getI v.itable n)

/-- The volume `v'` is the volume `v` after clusters of the inode `n` were freed: the inode
has no reference but the ones it had; the clusters that were not clusters of references of
the inode are as they were; `dzone_free` grew by what `clucount` lost; `refcount` and `mode`
of the inode, the other inodes, the metadata of the table of inodes and `dzone_total` are as
they were. -/
def FreedFrom (k : SOConst) (n : Nat) (v v' : Volume) : Prop :=
  Shrinks v.dzone (getI v.itable n) v'.dzone (getI v'.itable n) ∧
  (∀ m, m ∉ indClusters k v.dzone (getI v.itable n) → getDC v'.dzone m = getDC v.dzone m) ∧
  v'.sb.dzone_free + (getI v'.itable n).clucount
    = v.sb.dzone_free + (getI v.itable n).clucount ∧
  (getI v'.itable n).refcount = (getI v.itable n).refcount ∧
  (getI v'.itable n).mode = (getI v.itable n).mode ∧
  (∀ m, m ≠ n → getI v'.itable m = getI v.itable m) ∧
  v'.itable.length = v.itable.length ∧
  v'.sb.itotal = v.sb.itotal ∧ v'.sb.ifree = v.sb.ifree ∧ v'.sb.ihdtl = v.sb.ihdtl ∧
  v'.sb.dzone_total = v.sb.dzone_total


/-- The part of `soHandleFileClusters` for the double indirect references (lines 90 to 117),
`p_inode` being the record read at line 83. -/
def fileClustersDInd (k : SOConst) (env : SOEnv) (nInode clustIndIn : Nat) (p_inode : SOInode)
    (v : Volume) : Int × Volume :=
  if p_inode.i2 ≠ NULL_CLUSTER then
    let l := soLoadSngIndRefClust v p_inode.i2
    if l.1 ≠ 0 then (l.1, v)
    else
      let smpIndRefindex :=
        if clustIndIn < k.N_DIRECT + k.RPC then 0
        else (clustIndIn - k.N_DIRECT - k.RPC) / k.RPC
      fileClustersSngLoop k env nInode clustIndIn l.2 (k.RPC - smpIndRefindex)
        smpIndRefindex v
  else (0, v)

/-- The part of `soHandleFileClusters` for the single indirect references (lines 120 to
135), `p_inode` being the record read at line 83. -/
def fileClustersSInd (k : SOConst) (env : SOEnv) (nInode clustIndIn : Nat) (p_inode : SOInode)
    (v : Volume) : Int × Volume :=
  if p_inode.i1 ≠ NULL_CLUSTER ∧ clustIndIn < k.N_DIRECT + k.RPC then
    let l := soLoadDirRefClust v p_inode.i1
    if l.1 ≠ 0 then (l.1, v)
    else
      let dirRefindex := if clustIndIn < k.N_DIRECT then 0 else clustIndIn - k.N_DIRECT
      fileClustersLoop k env nInode k.N_DIRECT l.2.ref (k.RPC - dirRefindex) dirRefindex v
  else (0, v)

theorem succ_mod_eq {i total : Nat} (h : i < total) :
    (i + 1) % total = if i + 1 = total then 0 else i + 1 := by
  split
  · next h1 => rw [h1]; exact Nat.mod_self _
  · next h1 => exact Nat.mod_eq_of_lt (by omega)

theorem fifoCount_eq {total head tail : Nat} (hh : head < total) (ht : tail < total) :
    fifoCount total head tail = if head ≤ tail then tail - head else tail + total - head := by
  unfold fifoCount
  split
  · next h1 =>
    have : tail + total - head = (tail - head) + total := by omega
    rw [this, Nat.add_mod_right]
    exact Nat.mod_eq_of_lt (by omega)
  · next h1 => exact Nat.mod_eq_of_lt (by omega)

theorem fifoCount_lt {total head tail : Nat} (hh : head < total) (ht : tail < total) :
    fifoCount total head tail < total := by
  rw [fifoCount_eq hh ht]; split <;> omega

theorem fifoCount_zero_iff {total head tail : Nat} (hh : head < total) (ht : tail < total) :
    fifoCount total head tail = 0 ↔ head = tail := by
  rw [fifoCount_eq hh ht]; split <;> omega

theorem succ_mod_lt {i total : Nat} (h : i < total) : (i + 1) % total < total :=
  Nat.mod_lt _ (by omega)

theorem fifoCount_advance_head {total head tail : Nat} (hh : head < total) (ht : tail < total)
    (hne : head ≠ tail) :
    fifoCount total ((head + 1) % total) tail + 1 = fifoCount total head tail := by
  rw [fifoCount_eq hh ht, fifoCount_eq (succ_mod_lt hh) ht, succ_mod_eq hh]
  split <;> split <;> split <;> omega

theorem fifoCount_advance_tail {total head tail : Nat} (hh : head < total) (ht : tail < total)
    (hc : fifoCount total head tail + 1 < total) :
    fifoCount total head ((tail + 1) % total) = fifoCount total head tail + 1 := by
  rw [fifoCount_eq hh ht] at hc
  rw [fifoCount_eq hh ht, fifoCount_eq hh (succ_mod_lt ht), succ_mod_eq ht]
  split_ifs at hc ⊢ <;> omega

/-! ## The references held in the table -/

theorem fifoRefs_length (fct : List Nat) (total : Nat) (head n : Nat) :
    (fifoRefs fct total head n).length = n := by
  induction n generalizing head with
  | zero => simp [fifoRefs]
  | succ n ih => simp [fifoRefs, ih]

theorem getD_set_ne (l : List Nat) {i j : Nat} (x : Nat) (h : i ≠ j) :
    (l.set i x).getD j 0 = l.getD j 0 := by
  simp [List.getD_eq_getElem?_getD, List.getElem?_set, h]

theorem getD_set_eq (l : List Nat) {i : Nat} (x : Nat) (h : i < l.length) :
    (l.set i x).getD i 0 = x := by
  simp [List.getD_eq_getElem?_getD, List.getElem?_set, h]

/-- Writing the slot at distance at least `n` behind `head` does not change the `n`
references read from `head` on. -/
theorem fifoRefs_set_of_count {total : Nat} (fct : List Nat) (x : Nat) :
    ∀ (n head j : Nat), head < total → j < total → n ≤ fifoCount total head j →
      fifoRefs (fct.set j x) total head n = fifoRefs fct total head n := by
  intro n
  induction n with
  | zero => intro head j _ _ _; simp [fifoRefs]
  | succ n ih =>
    intro head j hh hj hc
    have hne : head ≠ j := by
      intro h
      have := (fifoCount_zero_iff hh hj).2 h
      omega
    have hadv := fifoCount_advance_head hh hj hne
    simp only [fifoRefs]
    rw [getD_set_ne _ _ (Ne.symm hne), ih _ _ (succ_mod_lt hh) hj (by omega)]

/-- Writing the slot `tail` appends the written reference to the references of the table. -/
theorem fifoRefs_set_tail {total : Nat} (fct : List Nat) (x : Nat) :
    ∀ (n head tail : Nat), head < total → tail < total → tail < fct.length →
      fifoCount total head tail = n →
      fifoRefs (fct.set tail x) total head (n + 1) = fifoRefs fct total head n ++ [x] := by
  intro n
  induction n with
  | zero =>
    intro head tail hh ht hl hc
    have := (fifoCount_zero_iff hh ht).1 hc
    subst this
    simp only [fifoRefs, getD_set_eq _ _ hl, List.nil_append]
  | succ n ih =>
    intro head tail hh ht hl hc
    have hne : head ≠ tail := by
      intro h
      have := (fifoCount_zero_iff hh ht).2 h
      omega
    have hadv := fifoCount_advance_head hh ht hne
    have e1 : fifoRefs (fct.set tail x) total head (n + 1 + 1) =
        (fct.set tail x).getD head 0 ::
          fifoRefs (fct.set tail x) total ((head + 1) % total) (n + 1) := rfl
    have e2 : fifoRefs fct total head (n + 1) =
        fct.getD head 0 :: fifoRefs fct total ((head + 1) % total) n := rfl
    rw [e1, e2, getD_set_ne _ _ (Ne.symm hne), ih _ _ (succ_mod_lt hh) ht hl (by omega)]
    simp

/-- Reading `a + b` references is reading `a` and then `b` from where the first reading
stopped. -/
theorem fifoRefs_add (fct : List Nat) (total : Nat) :
    ∀ (a b head : Nat), ∃ mid, fifoRefs fct total head (a + b) =
      fifoRefs fct total head a ++ fifoRefs fct total mid b := by
  intro a
  induction a with
  | zero => intro b head; exact ⟨head, by simp [fifoRefs]⟩
  | succ a ih =>
    intro b head
    obtain ⟨mid, hmid⟩ := ih b ((head + 1) % total)
    refine ⟨mid, ?_⟩
    have : a + 1 + b = (a + b) + 1 := by omega
    rw [this]
    simp only [fifoRefs, hmid, List.cons_append]

/-! ## List facts used for the caches -/

theorem take_succ_set (l : List Nat) (n x : Nat) (h : n < l.length) :
    (l.set n x).take (n + 1) = l.take n ++ [x] := by
  induction l generalizing n with
  | nil => simp at h
  | cons a l ih =>
    cases n with
    | zero => simp
    | succ n =>
      have : n < l.length := by simpa using h
      simp [ih n this]

theorem drop_succ_set (l : List Nat) (n x : Nat) (m : Nat) (h : n < m) :
    (l.set n x).drop m = l.drop m := List.drop_set_of_lt x l h

theorem take_succ_drop (l : List Nat) (n k : Nat) (h : n < l.length) :
    (l.drop n).take (k + 1) = l.getD n 0 :: (l.drop (n + 1)).take k := by
  rw [List.drop_eq_getElem_cons h, List.take_succ_cons, List.getD_eq_getElem _ _ h]

theorem fifoCount_succ_self {total index : Nat} (h : index < total) :
    fifoCount total ((index + 1) % total) index = total - 1 := by
  rw [fifoCount_eq (succ_mod_lt h) h, succ_mod_eq h]
  split_ifs <;> omega

/-! ## The loops of `soReplenish` and `soDeplete` -/

theorem replenishTake_spec (total tail : Nat) :
    ∀ (k n index : Nat) (cache fct : List Nat),
      index < total → tail < total → k ≤ fifoCount total index tail →
      n + k ≤ cache.length → total ≤ fct.length →
      (replenishTake total k n index cache fct).1 < total ∧
      fifoCount total (replenishTake total k n index cache fct).1 tail + k
        = fifoCount total index tail ∧
      (replenishTake total k n index cache fct).2.1
        = cache.take n ++ fifoRefs fct total index k ++ cache.drop (n + k) ∧
      (∀ m, m + k ≤ fifoCount total index tail →
        fifoRefs fct total index (k + m) = fifoRefs fct total index k ++
          fifoRefs (replenishTake total k n index cache fct).2.2 total
            (replenishTake total k n index cache fct).1 m) ∧
      (replenishTake total k n index cache fct).2.2.length = fct.length := by
  intro k
  induction k with
  | zero =>
    intro n index cache fct hi ht hk hn hf
    simp [replenishTake, fifoRefs, hi]
  | succ k ih =>
    intro n index cache fct hi ht hk hn hf
    have hne : index ≠ tail := by
      intro h
      have := (fifoCount_zero_iff hi ht).2 h
      omega
    have hadv := fifoCount_advance_head hi ht hne
    have hlt := fifoCount_lt hi ht
    have hi1 := succ_mod_lt hi
    have hself := fifoCount_succ_self hi
    obtain ⟨h1, h2, h3, h4, h5⟩ := ih (n + 1) ((index + 1) % total)
      (cache.set n (fct.getD index 0)) (fct.set index NULL_CLUSTER) hi1 ht (by omega)
      (by rw [List.length_set]; omega) (by rw [List.length_set]; exact hf)
    have hset : ∀ j, j ≤ fifoCount total ((index + 1) % total) tail →
        fifoRefs (fct.set index NULL_CLUSTER) total ((index + 1) % total) j
          = fifoRefs fct total ((index + 1) % total) j := by
      intro j hj
      exact fifoRefs_set_of_count fct NULL_CLUSTER j _ index hi1 hi (by omega)
    simp only [replenishTake]
    refine ⟨h1, by omega, ?_, ?_, ?_⟩
    · rw [h3, take_succ_set _ _ _ (by omega), drop_succ_set _ _ _ _ (by omega),
        hset k (by omega)]
      have : n + 1 + k = n + (k + 1) := by omega
      rw [this]
      simp [fifoRefs]
    · intro m hm
      have e : k + 1 + m = (k + m) + 1 := by omega
      rw [e]
      simp only [fifoRefs, List.cons_append]
      rw [← hset (k + m) (by omega), h4 m (by omega), hset k (by omega)]
    · rw [h5, List.length_set]

theorem replenishWalk_eq (total tail : Nat) :
    ∀ (k n index : Nat) (cache fct : List Nat), index < total → tail < total →
      replenishWalk tail total k n index cache fct
        = (n + min k (fifoCount total index tail),
            replenishTake total (min k (fifoCount total index tail)) n index cache fct) := by
  intro k
  induction k with
  | zero => intro n index cache fct _ _; simp [replenishWalk, replenishTake]
  | succ k ih =>
    intro n index cache fct hi ht
    by_cases h : index = tail
    · have h0 := (fifoCount_zero_iff hi ht).2 h
      simp only [replenishWalk, if_pos h, h0, Nat.min_zero, Nat.add_zero, replenishTake]
    · have hadv := fifoCount_advance_head hi ht h
      have hm : min (k + 1) (fifoCount total index tail)
          = min k (fifoCount total ((index + 1) % total) tail) + 1 := by
        rw [← hadv]; omega
      simp only [replenishWalk, if_neg h]
      rw [ih _ _ _ _ (succ_mod_lt hi) ht, hm]
      simp only [replenishTake]
      congr 1
      omega

theorem depleteLoop_spec (total head : Nat) :
    ∀ (k cycle index : Nat) (cache fct : List Nat),
      head < total → index < total → fifoCount total head index + k < total →
      cycle + k ≤ cache.length → total ≤ fct.length →
      (depleteLoop total k cycle index cache fct).1 < total ∧
      fifoCount total head (depleteLoop total k cycle index cache fct).1
        = fifoCount total head index + k ∧
      fifoRefs (depleteLoop total k cycle index cache fct).2.2 total head
          (fifoCount total head index + k)
        = fifoRefs fct total head (fifoCount total head index) ++ (cache.drop cycle).take k ∧
      (depleteLoop total k cycle index cache fct).2.1.length = cache.length ∧
      (depleteLoop total k cycle index cache fct).2.2.length = fct.length := by
  intro k
  induction k with
  | zero =>
    intro cycle index cache fct hh hi hc hn hf
    simp [depleteLoop, hi]
  | succ k ih =>
    intro cycle index cache fct hh hi hc hn hf
    have hadv := fifoCount_advance_tail hh hi (by omega)
    have hi1 := succ_mod_lt hi
    obtain ⟨h1, h2, h3, h4, h5⟩ := ih (cycle + 1) ((index + 1) % total)
      (cache.set cycle NULL_CLUSTER) (fct.set index (cache.getD cycle 0)) hh hi1 (by omega)
      (by rw [List.length_set]; omega) (by rw [List.length_set]; exact hf)
    simp only [depleteLoop]
    refine ⟨h1, by omega, ?_, by rw [h4, List.length_set], by rw [h5, List.length_set]⟩
    have e : fifoCount total head index + (k + 1)
        = fifoCount total head ((index + 1) % total) + k := by omega
    rw [e, h3, hadv, fifoRefs_set_tail fct _ _ head index hh hi (by omega) rfl,
      drop_succ_set _ _ _ _ (by omega), take_succ_drop _ _ _ (by omega)]
    simp

/-! ## `soReplenish` keeps the free references -/

theorem mid_of_take_drop (a b c : List Nat) (i n : Nat) (ha : a.length = i)
    (hb : i + b.length = n) : ((a ++ b ++ c).take n).drop i = b := by
  subst ha; subst hb
  rw [List.append_assoc, List.take_append, List.drop_left, List.take_left]

theorem retrievLive_length {v : Volume} (h : DZWf v) :
    (retrievLive v.sb).length = DZONE_CACHE_SIZE - v.sb.dzone_retriev.cache_idx := by
  simp [retrievLive, h.rlen]

theorem insertLive_length {v : Volume} (h : DZWf v) :
    (insertLive v.sb).length = v.sb.dzone_insert.cache_idx := by
  have := h.iidx
  have := h.ilen
  simp [insertLive]; omega

theorem fifoLive_length (v : Volume) :
    (fifoLive v).length = fifoCount v.sb.dzone_total v.sb.tbfreeclust_head v.sb.tbfreeclust_tail := by
  simp [fifoLive, fifoRefs_length]

theorem freeRefs_length {v : Volume} (h : DZWf v) :
    (freeRefs v).length = (DZONE_CACHE_SIZE - v.sb.dzone_retriev.cache_idx)
      + fifoCount v.sb.dzone_total v.sb.tbfreeclust_head v.sb.tbfreeclust_tail
      + v.sb.dzone_insert.cache_idx := by
  simp only [freeRefs, List.length_append, retrievLive_length h, insertLive_length h,
    fifoLive_length]

/-- What `soReplenish` does when the retrieval cache is empty and some data cluster is free:
it succeeds, leaves the sequence of free references as it was and the retrieval cache
non-empty. -/
theorem soReplenish_spec {v : Volume} (h : DZWf v)
    (hr : v.sb.dzone_retriev.cache_idx = DZONE_CACHE_SIZE) (hf : v.sb.dzone_free ≠ 0) :
    (soReplenish v).1 = 0 ∧ DZWf (soReplenish v).2 ∧
    freeRefs (soReplenish v).2 = freeRefs v ∧
    (soReplenish v).2.sb.dzone_retriev.cache_idx < DZONE_CACHE_SIZE ∧
    (soReplenish v).2.sb.dzone_free = v.sb.dzone_free ∧
    (soReplenish v).2.sb.dzone_total = v.sb.dzone_total ∧
    (soReplenish v).2.sb.itotal = v.sb.itotal ∧
    (soReplenish v).2.sb.ifree = v.sb.ifree ∧
    (soReplenish v).2.sb.ihdtl = v.sb.ihdtl ∧
    (soReplenish v).2.itable = v.itable ∧
    (soReplenish v).2.dzone = v.dzone := by
  obtain ⟨total_lt, fct_len, rlen, ilen, ridx, iidx, head_lt, tail_lt, free_eq, free_lt⟩ := h
  have hlen := freeRefs_length ⟨total_lt, fct_len, rlen, ilen, ridx, iidx, head_lt, tail_lt, free_eq, free_lt⟩
  have hrl : retrievLive v.sb = [] := by
    simp [retrievLive, hr, rlen]
  simp only [DZONE_CACHE_SIZE] at *
  have hw := replenishWalk_eq v.sb.dzone_total v.sb.tbfreeclust_tail (if v.sb.dzone_free < 50 then v.sb.dzone_free else 50)
    (50 - (if v.sb.dzone_free < 50 then v.sb.dzone_free else 50))
    v.sb.tbfreeclust_head v.sb.dzone_retriev.cache v.fct head_lt tail_lt
  generalize hnc : (if v.sb.dzone_free < 50 then v.sb.dzone_free else 50) = nc at hw
  have hnc1 : nc ≤ 50 ∧ nc ≤ v.sb.dzone_free ∧ 0 < nc := by
    rw [← hnc]; split <;> omega
  generalize hcnt : fifoCount v.sb.dzone_total v.sb.tbfreeclust_head v.sb.tbfreeclust_tail = cnt
    at hw hlen
  have hfl : fifoLive v = fifoRefs v.fct v.sb.dzone_total v.sb.tbfreeclust_head cnt := by
    simp [fifoLive, hcnt]
  by_cases hA : nc ≤ cnt
  · have hmin : min nc cnt = nc := by omega
    rw [hmin] at hw
    obtain ⟨t1, t2, t3, t4, t5⟩ := replenishTake_spec v.sb.dzone_total v.sb.tbfreeclust_tail nc (50 - nc) v.sb.tbfreeclust_head
      v.sb.dzone_retriev.cache v.fct head_lt tail_lt (by omega) (by omega) fct_len
    generalize replenishTake v.sb.dzone_total nc (50 - nc) v.sb.tbfreeclust_head
      v.sb.dzone_retriev.cache v.fct = rt at hw t1 t2 t3 t4 t5
    have hres : soReplenish v = (0, { v with
        sb := { v.sb with
                dzone_retriev := { cache_idx := 50 - nc, cache := rt.2.1 }
                tbfreeclust_head := rt.1 }
        fct := rt.2.2 }) := by
      have e : 50 - nc + nc = 50 := by omega
      simp only [soReplenish, DZONE_CACHE_SIZE, hnc, hw, e, ne_eq, not_true_eq_false, if_false]
    rw [hres]
    have hfr : freeRefs { v with
        sb := { v.sb with
                dzone_retriev := { cache_idx := 50 - nc, cache := rt.2.1 }
                tbfreeclust_head := rt.1 }
        fct := rt.2.2 } = freeRefs v := by
      have hc2 : fifoCount v.sb.dzone_total rt.1 v.sb.tbfreeclust_tail = cnt - nc := by omega
      have h4 := t4 (cnt - nc) (by omega)
      have e : nc + (cnt - nc) = cnt := by omega
      rw [e] at h4
      simp only [freeRefs, retrievLive, fifoLive, insertLive, DZONE_CACHE_SIZE, hc2, hcnt]
      rw [t3, mid_of_take_drop _ _ _ _ _ (by simp; omega) (by simp [fifoRefs_length]; omega),
        h4, hr]
      simp [rlen]
    refine ⟨rfl, ?_, hfr, ?_, rfl, rfl, rfl, rfl, rfl, rfl, rfl⟩
    · refine ⟨total_lt, ?_, ?_, ilen, ?_, iidx, t1, tail_lt, ?_, ?_⟩
      · show v.sb.dzone_total ≤ rt.2.2.length
        omega
      · show rt.2.1.length = DZONE_CACHE_SIZE
        rw [t3]; simp [fifoRefs_length, DZONE_CACHE_SIZE]; omega
      · show 50 - nc ≤ DZONE_CACHE_SIZE
        simp [DZONE_CACHE_SIZE]
      · rw [hfr]; exact free_eq
      · rw [hfr]; exact free_lt
    · show 50 - nc < DZONE_CACHE_SIZE
      simp [DZONE_CACHE_SIZE]; omega
  · have hmin : min nc cnt = cnt := by omega
    rw [hmin] at hw
    obtain ⟨t1, t2, t3, -, t5⟩ := replenishTake_spec v.sb.dzone_total v.sb.tbfreeclust_tail cnt (50 - nc) v.sb.tbfreeclust_head
      v.sb.dzone_retriev.cache v.fct head_lt tail_lt (by omega) (by omega) fct_len
    generalize replenishTake v.sb.dzone_total cnt (50 - nc) v.sb.tbfreeclust_head
      v.sb.dzone_retriev.cache v.fct = rt at hw t1 t2 t3 t5
    have hrt1 : rt.1 = v.sb.tbfreeclust_tail :=
      (fifoCount_zero_iff t1 tail_lt).1 (by omega)
    have hz : fifoCount v.sb.dzone_total v.sb.tbfreeclust_tail v.sb.tbfreeclust_tail = 0 :=
      (fifoCount_zero_iff tail_lt tail_lt).2 rfl
    obtain ⟨d1, d2, d3, d4, d5⟩ := depleteLoop_spec v.sb.dzone_total v.sb.tbfreeclust_tail v.sb.dzone_insert.cache_idx 0 v.sb.tbfreeclust_tail
      v.sb.dzone_insert.cache rt.2.2 tail_lt tail_lt (by omega) (by omega) (by omega)
    generalize hdl : depleteLoop v.sb.dzone_total v.sb.dzone_insert.cache_idx 0
      v.sb.tbfreeclust_tail v.sb.dzone_insert.cache rt.2.2 = dl at d1 d2 d3 d4 d5
    rw [hz] at d2 d3
    simp only [Nat.zero_add, fifoRefs, List.nil_append, List.drop_zero] at d2 d3
    have hrtl : rt.2.1.length = 50 := by
      rw [t3]; simp [fifoRefs_length]; omega
    obtain ⟨u1, u2, u3, u4, u5⟩ := replenishTake_spec v.sb.dzone_total dl.1 (nc - cnt) (50 - nc + cnt) v.sb.tbfreeclust_tail
      rt.2.1 dl.2.2 tail_lt d1 (by omega) (by omega) (by omega)
    generalize hrt2 : replenishTake v.sb.dzone_total (nc - cnt) (50 - nc + cnt)
      v.sb.tbfreeclust_tail rt.2.1 dl.2.2 = rt2 at u1 u2 u3 u4 u5
    have hres : soReplenish v = (0, { v with
        sb := { v.sb with
                dzone_retriev := { cache_idx := 50 - nc, cache := rt2.2.1 }
                dzone_insert := { cache_idx := 0, cache := dl.2.1 }
                tbfreeclust_tail := dl.1
                tbfreeclust_head := rt2.1 }
        fct := rt2.2.2 }) := by
      have e : 50 - nc + cnt ≠ 50 := by omega
      have e2 : 50 - (50 - nc + cnt) = nc - cnt := by omega
      simp only [soReplenish, soDeplete, DZONE_CACHE_SIZE, hnc, hw, ne_eq, e, not_false_eq_true,
        if_true, not_true_eq_false, if_false, e2, hrt1, hdl, hrt2]
    rw [hres]
    have hfr : freeRefs { v with
        sb := { v.sb with
                dzone_retriev := { cache_idx := 50 - nc, cache := rt2.2.1 }
                dzone_insert := { cache_idx := 0, cache := dl.2.1 }
                tbfreeclust_tail := dl.1
                tbfreeclust_head := rt2.1 }
        fct := rt2.2.2 } = freeRefs v := by
      have hc2 : fifoCount v.sb.dzone_total rt2.1 dl.1
          = v.sb.dzone_insert.cache_idx - (nc - cnt) := by omega
      have h4 := u4 (v.sb.dzone_insert.cache_idx - (nc - cnt)) (by omega)
      have e : nc - cnt + (v.sb.dzone_insert.cache_idx - (nc - cnt))
          = v.sb.dzone_insert.cache_idx := by omega
      rw [e, d3] at h4
      have ht : List.take (50 - nc + cnt) rt.2.1
          = List.take (50 - nc) v.sb.dzone_retriev.cache
            ++ fifoRefs v.fct v.sb.dzone_total v.sb.tbfreeclust_head cnt := by
        rw [t3]
        have hl : (List.take (50 - nc) v.sb.dzone_retriev.cache
            ++ fifoRefs v.fct v.sb.dzone_total v.sb.tbfreeclust_head cnt).length
            = 50 - nc + cnt := by
          simp [fifoRefs_length]; omega
        rw [← hl, List.take_left]
      simp only [freeRefs, retrievLive, fifoLive, insertLive, DZONE_CACHE_SIZE, hc2, hcnt]
      rw [u3, ht, List.append_assoc (List.take (50 - nc) v.sb.dzone_retriev.cache),
        mid_of_take_drop _ _ _ _ _ (by simp; omega) (by simp [fifoRefs_length]; omega), hr]
      simp only [List.take_zero, List.append_nil, List.append_assoc]
      rw [← h4]
      simp [rlen]
    refine ⟨rfl, ?_, hfr, ?_, rfl, rfl, rfl, rfl, rfl, rfl, rfl⟩
    · refine ⟨total_lt, ?_, ?_, ?_, ?_, ?_, u1, d1, ?_, ?_⟩
      · show v.sb.dzone_total ≤ rt2.2.2.length
        omega
      · show rt2.2.1.length = DZONE_CACHE_SIZE
        rw [u3]; simp [fifoRefs_length, DZONE_CACHE_SIZE]; omega
      · show dl.2.1.length = DZONE_CACHE_SIZE
        simp [DZONE_CACHE_SIZE]; omega
      · show 50 - nc ≤ DZONE_CACHE_SIZE
        simp [DZONE_CACHE_SIZE]
      · show 0 ≤ DZONE_CACHE_SIZE
        simp
      · rw [hfr]; exact free_eq
      · rw [hfr]; exact free_lt
    · show 50 - nc < DZONE_CACHE_SIZE
      simp [DZONE_CACHE_SIZE]; omega

/-! ## `soDeplete`, `soAllocDataCluster` and `soFreeDataCluster` on a well-formed volume -/

theorem soDeplete_spec {v : Volume} (h : DZWf v) :
    (soDeplete v).1 = 0 ∧ DZWf (soDeplete v).2 ∧
    freeRefs (soDeplete v).2 = freeRefs v ∧
    (soDeplete v).2.sb.dzone_insert.cache_idx = 0 ∧
    (soDeplete v).2.sb.dzone_free = v.sb.dzone_free ∧
    (soDeplete v).2.sb.dzone_total = v.sb.dzone_total ∧
    (soDeplete v).2.sb.itotal = v.sb.itotal ∧
    (soDeplete v).2.sb.ifree = v.sb.ifree ∧
    (soDeplete v).2.sb.ihdtl = v.sb.ihdtl ∧
    (soDeplete v).2.itable = v.itable ∧
    (soDeplete v).2.dzone = v.dzone := by
  have hlen := freeRefs_length h
  obtain ⟨total_lt, fct_len, rlen, ilen, ridx, iidx, head_lt, tail_lt, free_eq, free_lt⟩ := h
  simp only [DZONE_CACHE_SIZE] at *
  obtain ⟨d1, d2, d3, d4, d5⟩ := depleteLoop_spec v.sb.dzone_total v.sb.tbfreeclust_head v.sb.dzone_insert.cache_idx 0 v.sb.tbfreeclust_tail
    v.sb.dzone_insert.cache v.fct head_lt tail_lt (by omega) (by omega) fct_len
  generalize hdl : depleteLoop v.sb.dzone_total v.sb.dzone_insert.cache_idx 0
    v.sb.tbfreeclust_tail v.sb.dzone_insert.cache v.fct = dl at d1 d2 d3 d4 d5
  have hres : soDeplete v = (0, { v with
      sb := { v.sb with
              dzone_insert := { cache_idx := 0, cache := dl.2.1 }
              tbfreeclust_tail := dl.1 }
      fct := dl.2.2 }) := by
    simp only [soDeplete, hdl]
  rw [hres]
  have hfr : freeRefs { v with
      sb := { v.sb with
              dzone_insert := { cache_idx := 0, cache := dl.2.1 }
              tbfreeclust_tail := dl.1 }
      fct := dl.2.2 } = freeRefs v := by
    simp only [freeRefs, retrievLive, fifoLive, insertLive, d2, d3]
    simp
  refine ⟨rfl, ?_, hfr, rfl, rfl, rfl, rfl, rfl, rfl, rfl, rfl⟩
  refine ⟨total_lt, ?_, rlen, ?_, ridx, ?_, head_lt, d1, ?_, ?_⟩
  · show v.sb.dzone_total ≤ dl.2.2.length
    omega
  · show dl.2.1.length = DZONE_CACHE_SIZE
    simp [DZONE_CACHE_SIZE]; omega
  · show 0 ≤ DZONE_CACHE_SIZE
    simp
  · rw [hfr]; exact free_eq
  · rw [hfr]; exact free_lt

/-- On a well-formed volume with a free data cluster `soAllocDataCluster` succeeds and
returns the first of the free references, which it removes. -/
theorem soAllocDataCluster_spec {v : Volume} (h : DZWf v) (hf : v.sb.dzone_free ≠ 0) :
    (soAllocDataCluster v).1 = 0 ∧ DZWf (soAllocDataCluster v).2.1 ∧
    freeRefs v = (soAllocDataCluster v).2.2 :: freeRefs (soAllocDataCluster v).2.1 ∧
    (soAllocDataCluster v).2.1.sb.dzone_free + 1 = v.sb.dzone_free ∧
    (soAllocDataCluster v).2.1.sb.dzone_total = v.sb.dzone_total ∧
    (soAllocDataCluster v).2.1.sb.itotal = v.sb.itotal ∧
    (soAllocDataCluster v).2.1.sb.ifree = v.sb.ifree ∧
    (soAllocDataCluster v).2.1.sb.ihdtl = v.sb.ihdtl ∧
    (soAllocDataCluster v).2.1.itable = v.itable ∧
    (soAllocDataCluster v).2.1.dzone = v.dzone := by
  have key : ∃ e : Int × Volume,
      (if v.sb.dzone_retriev.cache_idx = DZONE_CACHE_SIZE then soReplenish v else (0, v)) = e ∧
      e.1 = 0 ∧ DZWf e.2 ∧ freeRefs e.2 = freeRefs v ∧
      e.2.sb.dzone_retriev.cache_idx < DZONE_CACHE_SIZE ∧
      e.2.sb.dzone_free = v.sb.dzone_free ∧ e.2.sb.dzone_total = v.sb.dzone_total ∧
      e.2.sb.itotal = v.sb.itotal ∧ e.2.sb.ifree = v.sb.ifree ∧ e.2.sb.ihdtl = v.sb.ihdtl ∧
      e.2.itable = v.itable ∧ e.2.dzone = v.dzone := by
    by_cases hr : v.sb.dzone_retriev.cache_idx = DZONE_CACHE_SIZE
    · exact ⟨soReplenish v, by rw [if_pos hr], soReplenish_spec h hr hf⟩
    · refine ⟨(0, v), by rw [if_neg hr], rfl, h, rfl, ?_, rfl, rfl, rfl, rfl, rfl, rfl, rfl⟩
      have := h.ridx
      show v.sb.dzone_retriev.cache_idx < DZONE_CACHE_SIZE
      omega
  obtain ⟨e, he, e1, e2, e3, e4, e5, e6, e7, e8, e9, e10, e11⟩ := key
  obtain ⟨total_lt, fct_len, rlen, ilen, ridx, iidx, head_lt, tail_lt, free_eq, free_lt⟩ := e2
  simp only [DZONE_CACHE_SIZE] at total_lt fct_len rlen ilen ridx iidx e4
  have hinc : inc32 e.2.sb.dzone_retriev.cache_idx = e.2.sb.dzone_retriev.cache_idx + 1 := by
    simp only [inc32]; omega
  have hdec : dec32 e.2.sb.dzone_free + 1 = e.2.sb.dzone_free := by
    simp only [dec32]; omega
  obtain ⟨v', hv'⟩ : ∃ v' : Volume, v' = { e.2 with
      sb := { e.2.sb with
              dzone_retriev := { e.2.sb.dzone_retriev with
                                 cache_idx := inc32 e.2.sb.dzone_retriev.cache_idx }
              dzone_free := dec32 e.2.sb.dzone_free } } := ⟨_, rfl⟩
  have hres : soAllocDataCluster v
      = (0, v', e.2.sb.dzone_retriev.cache.getD e.2.sb.dzone_retriev.cache_idx 0) := by
    rw [hv']
    simp only [soAllocDataCluster, if_neg hf, he, e1, ne_eq, not_true_eq_false, if_false]
  rw [hres]
  have hfr : freeRefs e.2
      = e.2.sb.dzone_retriev.cache.getD e.2.sb.dzone_retriev.cache_idx 0 :: freeRefs v' := by
    rw [hv']
    simp only [freeRefs, retrievLive, fifoLive, insertLive, hinc, DZONE_CACHE_SIZE]
    rw [List.drop_eq_getElem_cons (by simp [rlen]; omega)]
    simp [List.getD_eq_getElem?_getD, List.getElem?_eq_getElem, rlen, e4,
      List.getElem_take]
  have hl : (freeRefs e.2).length = (freeRefs v').length + 1 := by
    rw [hfr]; simp
  refine ⟨rfl, ?_, by rw [← e3]; exact hfr, ?_, ?_, ?_, ?_, ?_, ?_, ?_⟩
  · refine ⟨?_, ?_, ?_, ?_, ?_, ?_, ?_, ?_, ?_, ?_⟩ <;> (try rw [hv']) <;>
      simp only [DZONE_CACHE_SIZE] <;> (try rw [← hv']) <;> omega
  · simp only [hv']; omega
  · simp only [hv']; exact e6
  · simp only [hv']; exact e7
  · simp only [hv']; exact e8
  · simp only [hv']; exact e9
  · simp only [hv']; exact e10
  · simp only [hv']; exact e11

theorem soAllocDataCluster_nospace (v : Volume) (hf : v.sb.dzone_free = 0) :
    soAllocDataCluster v = (-ENOSPC, v, 0) := by
  simp [soAllocDataCluster, hf]

theorem soFreeDataCluster_range (v : Volume) (nClust : Nat) (hT : 1 ≤ v.sb.dzone_total)
    (hT2 : v.sb.dzone_total < 4294967296) (h : nClust = 0 ∨ v.sb.dzone_total ≤ nClust) :
    soFreeDataCluster v nClust = (-EINVAL, v) := by
  have : nClust < 1 ∨ nClust > dec32 v.sb.dzone_total := by
    simp only [dec32]; omega
  simp only [soFreeDataCluster, if_pos this]

theorem soFreeDataCluster_isfree (v : Volume) (nClust : Nat) (h : nClust ∈ freeRefs v)
    (h1 : 1 ≤ nClust) (h2 : nClust ≤ dec32 v.sb.dzone_total) :
    soFreeDataCluster v nClust = (-EDCNALINVAL, v) := by
  have : ¬ (nClust < 1 ∨ nClust > dec32 v.sb.dzone_total) := by omega
  simp only [soFreeDataCluster, if_neg this, soQCheckStatDC, if_pos h, ne_eq,
    not_true_eq_false, if_false, if_true]

/-- On a well-formed volume `soFreeDataCluster` of a cluster in range that is not free
succeeds and appends the cluster to the free references. -/
theorem soFreeDataCluster_spec {v : Volume} (h : DZWf v) (nClust : Nat) (h1 : 1 ≤ nClust)
    (h2 : nClust < v.sb.dzone_total) (h3 : nClust ∉ freeRefs v)
    (hroom : (freeRefs v).length + 1 < v.sb.dzone_total) :
    (soFreeDataCluster v nClust).1 = 0 ∧ DZWf (soFreeDataCluster v nClust).2 ∧
    freeRefs (soFreeDataCluster v nClust).2 = freeRefs v ++ [nClust] ∧
    (soFreeDataCluster v nClust).2.sb.dzone_free = v.sb.dzone_free + 1 ∧
    (soFreeDataCluster v nClust).2.sb.dzone_total = v.sb.dzone_total ∧
    (soFreeDataCluster v nClust).2.sb.itotal = v.sb.itotal ∧
    (soFreeDataCluster v nClust).2.sb.ifree = v.sb.ifree ∧
    (soFreeDataCluster v nClust).2.sb.ihdtl = v.sb.ihdtl ∧
    (soFreeDataCluster v nClust).2.itable = v.itable ∧
    (soFreeDataCluster v nClust).2.dzone = v.dzone := by
  have key : ∃ e : Int × Volume,
      (if v.sb.dzone_insert.cache_idx = DZONE_CACHE_SIZE then soDeplete v else (0, v)) = e ∧
      e.1 = 0 ∧ DZWf e.2 ∧ freeRefs e.2 = freeRefs v ∧
      e.2.sb.dzone_insert.cache_idx < DZONE_CACHE_SIZE ∧
      e.2.sb.dzone_free = v.sb.dzone_free ∧ e.2.sb.dzone_total = v.sb.dzone_total ∧
      e.2.sb.itotal = v.sb.itotal ∧ e.2.sb.ifree = v.sb.ifree ∧ e.2.sb.ihdtl = v.sb.ihdtl ∧
      e.2.itable = v.itable ∧ e.2.dzone = v.dzone := by
    by_cases hr : v.sb.dzone_insert.cache_idx = DZONE_CACHE_SIZE
    · obtain ⟨a1, a2, a3, a4, a5⟩ := soDeplete_spec h
      refine ⟨soDeplete v, by rw [if_pos hr], a1, a2, a3, ?_, a5⟩
      rw [a4]; simp [DZONE_CACHE_SIZE]
    · refine ⟨(0, v), by rw [if_neg hr], rfl, h, rfl, ?_, rfl, rfl, rfl, rfl, rfl, rfl, rfl⟩
      have := h.iidx
      show v.sb.dzone_insert.cache_idx < DZONE_CACHE_SIZE
      omega
  obtain ⟨e, he, e1, e2, e3, e4, e5, e6, e7, e8, e9, e10, e11⟩ := key
  have hrange : ¬ (nClust < 1 ∨ nClust > dec32 v.sb.dzone_total) := by
    have := h.total_lt
    simp only [dec32]; omega
  obtain ⟨total_lt, fct_len, rlen, ilen, ridx, iidx, head_lt, tail_lt, free_eq, free_lt⟩ := e2
  simp only [DZONE_CACHE_SIZE] at total_lt fct_len rlen ilen ridx iidx e4
  have hinc : inc32 e.2.sb.dzone_insert.cache_idx = e.2.sb.dzone_insert.cache_idx + 1 := by
    simp only [inc32]; omega
  have hinc2 : inc32 e.2.sb.dzone_free = e.2.sb.dzone_free + 1 := by
    simp only [inc32]; omega
  obtain ⟨v', hv'⟩ : ∃ v' : Volume, v' = { e.2 with
      sb := { e.2.sb with
              dzone_insert :=
                { cache_idx := inc32 e.2.sb.dzone_insert.cache_idx
                  cache := e.2.sb.dzone_insert.cache.set e.2.sb.dzone_insert.cache_idx nClust }
              dzone_free := inc32 e.2.sb.dzone_free } } := ⟨_, rfl⟩
  have hres : soFreeDataCluster v nClust = (0, v') := by
    rw [hv']
    simp only [soFreeDataCluster, if_neg hrange, soQCheckStatDC, if_neg h3, he, e1, ne_eq,
      not_true_eq_false, if_false, ALLOC_CLT, FREE_CLT]
    simp
  rw [hres]
  have hfr : freeRefs v' = freeRefs e.2 ++ [nClust] := by
    rw [hv']
    simp only [freeRefs, retrievLive, fifoLive, insertLive, hinc, DZONE_CACHE_SIZE]
    rw [take_succ_set _ _ _ (by omega)]
    simp
  have hl : (freeRefs v').length = (freeRefs e.2).length + 1 := by
    rw [hfr]; simp
  have hl2 : (freeRefs e.2).length = (freeRefs v).length := by rw [e3]
  have hsl : (e.2.sb.dzone_insert.cache.set e.2.sb.dzone_insert.cache_idx nClust).length = 50 := by
    rw [List.length_set]; exact ilen
  refine ⟨rfl, ?_, by rw [hfr, e3], ?_, ?_, ?_, ?_, ?_, ?_, ?_⟩
  · refine ⟨?_, ?_, ?_, ?_, ?_, ?_, ?_, ?_, ?_, ?_⟩ <;> (try rw [hv']) <;>
      simp only [DZONE_CACHE_SIZE] <;> (try rw [← hv']) <;> omega
  · simp only [hv']; omega
  · simp only [hv']; exact e6
  · simp only [hv']; exact e7
  · simp only [hv']; exact e8
  · simp only [hv']; exact e9
  · simp only [hv']; exact e10
  · simp only [hv']; exact e11

/-! ## The freshly formatted volume -/

theorem getD_fillInTRefFDC (nslots : Nat) (sb : SOSuperBlock) (i : Nat) (h0 : 0 < i)
    (h1 : i ≤ sb.dzone_free) (h2 : i < nslots) : (fillInTRefFDC nslots sb).getD i 0 = i := by
  have h3 : i ≠ 0 := by omega
  simp [fillInTRefFDC, List.getD_eq_getElem?_getD, List.getElem?_map, List.getElem?_range h2,
    h3, h1]

theorem fifoRefs_fillInTRefFDC (nslots : Nat) (sb : SOSuperBlock) (total : Nat)
    (hf : sb.dzone_free + 1 = total) (hs : total ≤ nslots) :
    ∀ (n head : Nat), 0 < head → head + n ≤ total →
      fifoRefs (fillInTRefFDC nslots sb) total head n = List.range' head n := by
  intro n
  induction n with
  | zero => intro head _ _; simp [fifoRefs]
  | succ n ih =>
    intro head h0 h1
    simp only [fifoRefs, List.range'_succ]
    rw [getD_fillInTRefFDC _ _ _ h0 (by omega) (by omega)]
    cases n with
    | zero => simp [fifoRefs]
    | succ n =>
      rw [succ_mod_eq (by omega), if_neg (by omega)]
      rw [ih (head + 1) (by omega) (by omega)]

theorem freeRefs_mkfs (k : SOConst) (env : SOEnv) (itotal total nslots : Nat)
    (dz : List SODataClust) (h1 : 1 ≤ total) (h2 : total < 4294967296) (h3 : total ≤ nslots) :
    freeRefs (mkfs k env itotal total nslots dz) = List.range' 1 (total - 1) := by
  have hd : dec32 total = total - 1 := by simp only [dec32]; omega
  have hc : fifoCount total 1 0 = total - 1 := by
    by_cases h : total = 1
    · subst h; simp [fifoCount]
    · rw [fifoCount_eq (by omega) (by omega)]; simp
  simp only [freeRefs, retrievLive, fifoLive, insertLive, mkfs, fillInSuperBlock, hc,
    DZONE_CACHE_SIZE]
  rw [fifoRefs_fillInTRefFDC _ _ total (by simp only [hd]; omega) h3 _ _ (by omega) (by omega)]
  simp

theorem DZWf_mkfs (k : SOConst) (env : SOEnv) (itotal total nslots : Nat)
    (dz : List SODataClust) (h1 : 2 ≤ total) (h2 : total < 4294967296) (h3 : total ≤ nslots) :
    DZWf (mkfs k env itotal total nslots dz) := by
  have hfr := freeRefs_mkfs k env itotal total nslots dz (by omega) h2 h3
  have hd : dec32 total = total - 1 := by simp only [dec32]; omega
  refine ⟨?_, ?_, ?_, ?_, ?_, ?_, ?_, ?_, ?_, ?_⟩
  · exact h2
  · show total ≤ (fillInTRefFDC nslots _).length
    simp [fillInTRefFDC, h3]
  · simp [mkfs, fillInSuperBlock]
  · simp [mkfs, fillInSuperBlock]
  · simp [mkfs, fillInSuperBlock]
  · simp [mkfs, fillInSuperBlock, DZONE_CACHE_SIZE]
  · show 1 < total
    omega
  · show 0 < total
    omega
  · rw [hfr]
    show dec32 total = _
    simp [hd]
  · rw [hfr]
    show _ < total
    simp; omega

theorem DCInv_mkfs (k : SOConst) (env : SOEnv) (itotal total nslots : Nat)
    (dz : List SODataClust) (h1 : 2 ≤ total) (h2 : total < 4294967296) (h3 : total ≤ nslots) :
    DCInv (mkfs k env itotal total nslots dz, []) := by
  refine ⟨DZWf_mkfs k env itotal total nslots dz h1 h2 h3, ?_⟩
  rw [freeRefs_mkfs k env itotal total nslots dz (by omega) h2 h3]
  simp only [List.append_nil]
  exact List.Perm.refl _

/-! ## Sequences of calls keep the invariant -/

theorem DCInv_length {s : Volume × List Nat} (h : DCInv s) :
    (freeRefs s.1).length + s.2.length = s.1.sb.dzone_total - 1 := by
  have := h.2.length_eq
  simpa using this

theorem DCInv_step {s : Volume × List Nat} (h : DCInv s) (op : DCOp) :
    DCInv (dcStep s op) ∧ (dcStep s op).1.sb.dzone_total = s.1.sb.dzone_total := by
  obtain ⟨hw, hp⟩ := h
  cases op with
  | alloc =>
    by_cases hf : s.1.sb.dzone_free = 0
    · have e := soAllocDataCluster_nospace s.1 hf
      have : dcStep s DCOp.alloc = (s.1, s.2) := by
        simp [dcStep, e, ENOSPC]
      rw [this]; exact ⟨⟨hw, hp⟩, rfl⟩
    · obtain ⟨a1, a2, a3, a4, a5, -⟩ := soAllocDataCluster_spec hw hf
      have : dcStep s DCOp.alloc
          = ((soAllocDataCluster s.1).2.1, (soAllocDataCluster s.1).2.2 :: s.2) := by
        simp [dcStep, a1]
      rw [this]
      refine ⟨⟨a2, ?_⟩, a5⟩
      show (freeRefs (soAllocDataCluster s.1).2.1 ++ (soAllocDataCluster s.1).2.2 :: s.2).Perm _
      rw [a5]
      refine List.Perm.trans ?_ hp
      rw [a3]
      exact List.perm_middle
  | free n =>
    by_cases hr : n = 0 ∨ s.1.sb.dzone_total ≤ n
    · have e := soFreeDataCluster_range s.1 n (by have := hw.head_lt; omega) hw.total_lt hr
      have : dcStep s (DCOp.free n) = (s.1, s.2) := by
        simp [dcStep, e, EINVAL]
      rw [this]; exact ⟨⟨hw, hp⟩, rfl⟩
    · have hd : dec32 s.1.sb.dzone_total = s.1.sb.dzone_total - 1 := by
        have := hw.total_lt
        have := hw.head_lt
        simp only [dec32]; omega
      by_cases hm : n ∈ freeRefs s.1
      · have e := soFreeDataCluster_isfree s.1 n hm (by omega) (by omega)
        have : dcStep s (DCOp.free n) = (s.1, s.2) := by
          simp [dcStep, e, EDCNALINVAL]
        rw [this]; exact ⟨⟨hw, hp⟩, rfl⟩
      · have hnr : n ∈ List.range' 1 (s.1.sb.dzone_total - 1) := by
          rw [List.mem_range'_1]; omega
        have hnA : n ∈ s.2 := by
          have hmem := (hp.mem_iff (a := n)).2 hnr
          rcases List.mem_append.1 hmem with h | h
          · exact absurd h hm
          · exact h
        have hlen := DCInv_length ⟨hw, hp⟩
        have hApos : 0 < s.2.length := List.length_pos_of_mem hnA
        obtain ⟨a1, a2, a3, a4, a5, -⟩ := soFreeDataCluster_spec hw n (by omega) (by omega) hm
          (by omega)
        have : dcStep s (DCOp.free n) = ((soFreeDataCluster s.1 n).2, s.2.erase n) := by
          simp [dcStep, a1]
        rw [this]
        refine ⟨⟨a2, ?_⟩, a5⟩
        show (freeRefs (soFreeDataCluster s.1 n).2 ++ s.2.erase n).Perm _
        rw [a5, a3]
        refine List.Perm.trans ?_ hp
        rw [List.append_assoc]
        exact List.Perm.append_left _ (List.perm_cons_erase hnA).symm

theorem DCInv_foldl (ops : List DCOp) :
    ∀ s : Volume × List Nat, DCInv s →
      DCInv (ops.foldl dcStep s) ∧ (ops.foldl dcStep s).1.sb.dzone_total = s.1.sb.dzone_total := by
  induction ops with
  | nil => intro s h; exact ⟨h, rfl⟩
  | cons op ops ih =>
    intro s h
    obtain ⟨h1, h2⟩ := DCInv_step h op
    obtain ⟨h3, h4⟩ := ih _ h1
    exact ⟨h3, by rw [List.foldl_cons, h4, h2]⟩

/-- A volume with a single data cluster, the one of the root directory, never changes. -/
theorem dcStep_single {s : Volume × List Nat} (h1 : s.1.sb.dzone_total = 1)
    (h2 : s.1.sb.dzone_free = 0) (op : DCOp) : dcStep s op = s := by
  cases op with
  | alloc =>
    have e := soAllocDataCluster_nospace s.1 h2
    simp [dcStep, e, ENOSPC]
  | free n =>
    have e := soFreeDataCluster_range s.1 n (by omega) (by omega) (by omega)
    simp [dcStep, e, EINVAL]

theorem dcRun_single (ops : List DCOp) (s : Volume × List Nat) (h1 : s.1.sb.dzone_total = 1)
    (h2 : s.1.sb.dzone_free = 0) : ops.foldl dcStep s = s := by
  induction ops with
  | nil => rfl
  | cons op ops ih => rw [List.foldl_cons, dcStep_single h1 h2, ih]

/-! ## Allocating all data clusters, and freeing them again -/

theorem allocAll_spec :
    ∀ (fuel : Nat) (v : Volume), DZWf v → v.sb.dzone_free < fuel →
      (allocAll fuel v).1 = freeRefs v ∧ (allocAll fuel v).2.1 = -ENOSPC ∧
      DZWf (allocAll fuel v).2.2 ∧ freeRefs (allocAll fuel v).2.2 = [] ∧
      (allocAll fuel v).2.2.sb.dzone_free = 0 ∧
      (allocAll fuel v).2.2.sb.dzone_total = v.sb.dzone_total := by
  intro fuel
  induction fuel with
  | zero => intro v _ h; omega
  | succ fuel ih =>
    intro v hw hf
    by_cases h0 : v.sb.dzone_free = 0
    · have e := soAllocDataCluster_nospace v h0
      have hnil : freeRefs v = [] := by
        apply List.eq_nil_of_length_eq_zero
        rw [← hw.free_eq]; exact h0
      simp [allocAll, e, ENOSPC, hnil, hw, h0]
    · obtain ⟨a1, a2, a3, a4, a5, -⟩ := soAllocDataCluster_spec hw h0
      obtain ⟨b1, b2, b3, b4, b5, b6⟩ := ih (soAllocDataCluster v).2.1 a2 (by omega)
      simp only [allocAll, a1, ne_eq, not_true_eq_false, if_false]
      exact ⟨by rw [b1, a3], b2, b3, b4, b5, by rw [b6, a5]⟩

theorem freeSeq_spec :
    ∀ (l : List Nat) (v : Volume), DZWf v → l.Nodup →
      (∀ x ∈ l, 1 ≤ x ∧ x < v.sb.dzone_total) → (∀ x ∈ l, x ∉ freeRefs v) →
      (freeRefs v).length + l.length < v.sb.dzone_total →
      (∀ c ∈ (freeSeq l v).1, c = 0) ∧ (freeSeq l v).1.length = l.length ∧
      DZWf (freeSeq l v).2 ∧ freeRefs (freeSeq l v).2 = freeRefs v ++ l ∧
      (freeSeq l v).2.sb.dzone_free = v.sb.dzone_free + l.length ∧
      (freeSeq l v).2.sb.dzone_total = v.sb.dzone_total := by
  intro l
  induction l with
  | nil => intro v hw _ _ _ _; simp [freeSeq, hw]
  | cons n l ih =>
    intro v hw hnd hr hd hlen
    have hn := hr n (List.mem_cons_self _ _)
    simp only [List.length_cons] at hlen
    obtain ⟨a1, a2, a3, a4, a5, -⟩ := soFreeDataCluster_spec hw n hn.1 hn.2
      (hd n (List.mem_cons_self _ _)) (by omega)
    have hnd' := List.nodup_cons.1 hnd
    obtain ⟨b1, b2, b3, b4, b5, b6⟩ := ih (soFreeDataCluster v n).2 a2 hnd'.2
      (fun x hx => by rw [a5]; exact hr x (List.mem_cons_of_mem _ hx))
      (fun x hx => by
        rw [a3]
        intro hmem
        rcases List.mem_append.1 hmem with h | h
        · exact hd x (List.mem_cons_of_mem _ hx) h
        · have : x = n := by simpa using h
          subst this
          exact hnd'.1 hx)
      (by rw [a3, a5]; simp; omega)
    simp only [freeSeq]
    refine ⟨?_, by simp [b2], b3, by rw [b4, a3]; simp, by rw [b5, a4]; simp; omega,
      by rw [b6, a5]⟩
    intro c hc
    rcases List.mem_cons.1 hc with h | h
    · rw [h, a1]
    · exact b1 c h

theorem range'_one_mem {total x : Nat} (h : x ∈ List.range' 1 (total - 1)) :
    1 ≤ x ∧ x < total := by
  rw [List.mem_range'_1] at h; omega

theorem mkfs_single (k : SOConst) (env : SOEnv) (itotal nslots : Nat) (dz : List SODataClust) :
    (mkfs k env itotal 1 nslots dz).sb.dzone_total = 1 ∧
    (mkfs k env itotal 1 nslots dz).sb.dzone_free = 0 := by
  simp [mkfs, fillInSuperBlock, dec32]

/-! ## Claims on the data-cluster allocator -/

/-- C1: starting from a freshly formatted volume, after every sequence of
`soAllocDataCluster` / `soFreeDataCluster` calls the free references held in the live part of
the retrieval cache, in the live part of the insertion cache and in the slots of the table
from `tbfreeclust_head` up to `tbfreeclust_tail` are pairwise distinct, all lie in
`[1, dzone_total)`, and none of them is a cluster that was returned by `soAllocDataCluster`
and not freed since. -/
theorem C1_free_references_distinct (k : SOConst) (env : SOEnv) (itotal total nslots : Nat)
    (dz : List SODataClust) (ops : List DCOp)
    (h1 : 1 ≤ total) (h2 : total < 4294967296) (h3 : total ≤ nslots) :
    (freeRefs (dcRun (mkfs k env itotal total nslots dz) ops).1).Nodup ∧
    (∀ x ∈ freeRefs (dcRun (mkfs k env itotal total nslots dz) ops).1,
      1 ≤ x ∧ x < (dcRun (mkfs k env itotal total nslots dz) ops).1.sb.dzone_total) ∧
    (∀ x ∈ (dcRun (mkfs k env itotal total nslots dz) ops).2,
      x ∉ freeRefs (dcRun (mkfs k env itotal total nslots dz) ops).1) ∧
    (dcRun (mkfs k env itotal total nslots dz) ops).1.sb.dzone_total = total := by
  by_cases hT : total = 1
  · subst hT
    obtain ⟨e1, e2⟩ := mkfs_single k env itotal nslots dz
    have hrun : dcRun (mkfs k env itotal 1 nslots dz) ops = (mkfs k env itotal 1 nslots dz, []) :=
      dcRun_single ops (mkfs k env itotal 1 nslots dz, []) e1 e2
    have hfr := freeRefs_mkfs k env itotal 1 nslots dz h1 h2 h3
    rw [hrun, hfr]
    simp [e1]
  · obtain ⟨⟨hw, hp⟩, ht⟩ := DCInv_foldl ops (mkfs k env itotal total nslots dz, [])
      (DCInv_mkfs k env itotal total nslots dz (by omega) h2 h3)
    have hnd : (freeRefs (dcRun (mkfs k env itotal total nslots dz) ops).1 ++
        (dcRun (mkfs k env itotal total nslots dz) ops).2).Nodup :=
      hp.nodup_iff.2 (List.nodup_range' _ _)
    refine ⟨(List.nodup_append.1 hnd).1, ?_, ?_, ht⟩
    · intro x hx
      exact range'_one_mem ((hp.mem_iff).1 (List.mem_append_left _ hx))
    · intro x hx hx'
      exact (List.nodup_append.1 hnd).2.2 hx' hx

/-- C1, on a volume of 3 data clusters after two allocations, one release and one more
allocation. -/
theorem C1_free_references_distinct_witness :
    (1 ≤ 3 ∧ 3 < 4294967296 ∧ 3 ≤ 4) ∧
    ((freeRefs (dcRun (mkfs exampleConst exampleEnv 8 3 4 [])
        [DCOp.alloc, DCOp.alloc, DCOp.free 1, DCOp.alloc]).1).Nodup ∧
    (∀ x ∈ freeRefs (dcRun (mkfs exampleConst exampleEnv 8 3 4 [])
        [DCOp.alloc, DCOp.alloc, DCOp.free 1, DCOp.alloc]).1,
      1 ≤ x ∧ x < (dcRun (mkfs exampleConst exampleEnv 8 3 4 [])
        [DCOp.alloc, DCOp.alloc, DCOp.free 1, DCOp.alloc]).1.sb.dzone_total) ∧
    (∀ x ∈ (dcRun (mkfs exampleConst exampleEnv 8 3 4 [])
        [DCOp.alloc, DCOp.alloc, DCOp.free 1, DCOp.alloc]).2,
      x ∉ freeRefs (dcRun (mkfs exampleConst exampleEnv 8 3 4 [])
        [DCOp.alloc, DCOp.alloc, DCOp.free 1, DCOp.alloc]).1) ∧
    (dcRun (mkfs exampleConst exampleEnv 8 3 4 [])
        [DCOp.alloc, DCOp.alloc, DCOp.free 1, DCOp.alloc]).1.sb.dzone_total = 3) :=
  ⟨by decide, C1_free_references_distinct exampleConst exampleEnv 8 3 4 []
    [DCOp.alloc, DCOp.alloc, DCOp.free 1, DCOp.alloc] (by decide) (by decide) (by decide)⟩

/-- C2: starting from a freshly formatted volume, after every sequence of
`soAllocDataCluster` / `soFreeDataCluster` calls `dzone_free` equals
`(DZONE_CACHE_SIZE - dzone_retriev.cache_idx) + dzone_insert.cache_idx` plus the number of
slots of the table between `tbfreeclust_head` and `tbfreeclust_tail`, counted circularly
modulo `dzone_total`. -/
theorem C2_dzone_free_counts_references (k : SOConst) (env : SOEnv)
    (itotal total nslots : Nat) (dz : List SODataClust) (ops : List DCOp)
    (h1 : 1 ≤ total) (h2 : total < 4294967296) (h3 : total ≤ nslots) :
    (dcRun (mkfs k env itotal total nslots dz) ops).1.sb.dzone_free
      = (DZONE_CACHE_SIZE - (dcRun (mkfs k env itotal total nslots dz) ops).1.sb.dzone_retriev.cache_idx)
        + (dcRun (mkfs k env itotal total nslots dz) ops).1.sb.dzone_insert.cache_idx
        + ((dcRun (mkfs k env itotal total nslots dz) ops).1.sb.tbfreeclust_tail
            + (dcRun (mkfs k env itotal total nslots dz) ops).1.sb.dzone_total
            - (dcRun (mkfs k env itotal total nslots dz) ops).1.sb.tbfreeclust_head)
          % (dcRun (mkfs k env itotal total nslots dz) ops).1.sb.dzone_total := by
  by_cases hT : total = 1
  · subst hT
    obtain ⟨e1, e2⟩ := mkfs_single k env itotal nslots dz
    have hrun : dcRun (mkfs k env itotal 1 nslots dz) ops = (mkfs k env itotal 1 nslots dz, []) :=
      dcRun_single ops (mkfs k env itotal 1 nslots dz, []) e1 e2
    rw [hrun]
    simp [mkfs, fillInSuperBlock, dec32, DZONE_CACHE_SIZE]
  · obtain ⟨⟨hw, -⟩, -⟩ := DCInv_foldl ops (mkfs k env itotal total nslots dz, [])
      (DCInv_mkfs k env itotal total nslots dz (by omega) h2 h3)
    unfold dcRun
    rw [hw.free_eq, freeRefs_length hw]
    simp only [fifoCount]
    omega

/-- C2, on a volume of 3 data clusters after two allocations, one release and one more
allocation. -/
theorem C2_dzone_free_counts_references_witness :
    (1 ≤ 3 ∧ 3 < 4294967296 ∧ 3 ≤ 4) ∧
    (dcRun (mkfs exampleConst exampleEnv 8 3 4 [])
        [DCOp.alloc, DCOp.alloc, DCOp.free 1, DCOp.alloc]).1.sb.dzone_free
      = (DZONE_CACHE_SIZE - (dcRun (mkfs exampleConst exampleEnv 8 3 4 [])
          [DCOp.alloc, DCOp.alloc, DCOp.free 1, DCOp.alloc]).1.sb.dzone_retriev.cache_idx)
        + (dcRun (mkfs exampleConst exampleEnv 8 3 4 [])
          [DCOp.alloc, DCOp.alloc, DCOp.free 1, DCOp.alloc]).1.sb.dzone_insert.cache_idx
        + ((dcRun (mkfs exampleConst exampleEnv 8 3 4 [])
            [DCOp.alloc, DCOp.alloc, DCOp.free 1, DCOp.alloc]).1.sb.tbfreeclust_tail
            + (dcRun (mkfs exampleConst exampleEnv 8 3 4 [])
              [DCOp.alloc, DCOp.alloc, DCOp.free 1, DCOp.alloc]).1.sb.dzone_total
            - (dcRun (mkfs exampleConst exampleEnv 8 3 4 [])
              [DCOp.alloc, DCOp.alloc, DCOp.free 1, DCOp.alloc]).1.sb.tbfreeclust_head)
          % (dcRun (mkfs exampleConst exampleEnv 8 3 4 [])
              [DCOp.alloc, DCOp.alloc, DCOp.free 1, DCOp.alloc]).1.sb.dzone_total :=
  ⟨by decide, C2_dzone_free_counts_references exampleConst exampleEnv 8 3 4 []
    [DCOp.alloc, DCOp.alloc, DCOp.free 1, DCOp.alloc] (by decide) (by decide) (by decide)⟩

/-- C4: on a freshly formatted volume with `dzone_total = total`, `soAllocDataCluster` called
repeatedly succeeds exactly `total - 1` times before it returns `-ENOSPC`, and the cluster
numbers returned are pairwise distinct and each lies in `[1, total)`. -/
theorem C4_alloc_until_no_space (k : SOConst) (env : SOEnv) (itotal total nslots fuel : Nat)
    (dz : List SODataClust)
    (h1 : 1 ≤ total) (h2 : total < 4294967296) (h3 : total ≤ nslots) (h4 : total ≤ fuel) :
    (allocAll fuel (mkfs k env itotal total nslots dz)).1.length = total - 1 ∧
    (allocAll fuel (mkfs k env itotal total nslots dz)).2.1 = -ENOSPC ∧
    (allocAll fuel (mkfs k env itotal total nslots dz)).1.Nodup ∧
    (∀ x ∈ (allocAll fuel (mkfs k env itotal total nslots dz)).1, 1 ≤ x ∧ x < total) := by
  have hfr := freeRefs_mkfs k env itotal total nslots dz h1 h2 h3
  have hall : (allocAll fuel (mkfs k env itotal total nslots dz)).1 = List.range' 1 (total - 1) ∧
      (allocAll fuel (mkfs k env itotal total nslots dz)).2.1 = -ENOSPC := by
    by_cases hT : total = 1
    · subst hT
      obtain ⟨e1, e2⟩ := mkfs_single k env itotal nslots dz
      have e := soAllocDataCluster_nospace _ e2
      obtain ⟨f, rfl⟩ : ∃ f, fuel = f + 1 := ⟨fuel - 1, by omega⟩
      simp [allocAll, e, ENOSPC]
    · have hw := DZWf_mkfs k env itotal total nslots dz (by omega) h2 h3
      have hf : (mkfs k env itotal total nslots dz).sb.dzone_free < fuel := by
        rw [hw.free_eq, hfr]; simp; omega
      obtain ⟨a1, a2, -⟩ := allocAll_spec fuel _ hw hf
      exact ⟨by rw [a1, hfr], a2⟩
  rw [hall.1]
  exact ⟨by simp, hall.2, List.nodup_range' _ _, fun x hx => range'_one_mem hx⟩

/-- C4, on a volume of 3 data clusters. -/
theorem C4_alloc_until_no_space_witness :
    (1 ≤ 3 ∧ 3 < 4294967296 ∧ 3 ≤ 4 ∧ 3 ≤ 5) ∧
    ((allocAll 5 (mkfs exampleConst exampleEnv 8 3 4 [])).1.length = 3 - 1 ∧
    (allocAll 5 (mkfs exampleConst exampleEnv 8 3 4 [])).2.1 = -ENOSPC ∧
    (allocAll 5 (mkfs exampleConst exampleEnv 8 3 4 [])).1.Nodup ∧
    (∀ x ∈ (allocAll 5 (mkfs exampleConst exampleEnv 8 3 4 [])).1, 1 ≤ x ∧ x < 3)) :=
  ⟨by decide, C4_alloc_until_no_space exampleConst exampleEnv 8 3 4 5 []
    (by decide) (by decide) (by decide) (by decide)⟩

/-- C5, as stated, fails on a volume of 2 data clusters: after allocating the only free data
cluster and freeing it again the superblock and the table of references are not those of the
freshly formatted volume. -/
theorem C5_counterexample :
    ¬ ((allocFreeAll 2 (mkfs exampleConst exampleEnv 8 2 2 [])).2.sb
          = (mkfs exampleConst exampleEnv 8 2 2 []).sb ∧
        (allocFreeAll 2 (mkfs exampleConst exampleEnv 8 2 2 [])).2.fct
          = (mkfs exampleConst exampleEnv 8 2 2 []).fct) := by
  decide

/-- C5, amended: on a freshly formatted volume, allocating every data cluster with
`soAllocDataCluster` until `-ENOSPC` and then freeing all of them with `soFreeDataCluster` in
the reverse order of allocation succeeds at every release and yields the `dzone_free` of the
freshly formatted volume and the same free references, each once, in the reverse order. -/
theorem C5_alloc_all_free_all (k : SOConst) (env : SOEnv) (itotal total nslots fuel : Nat)
    (dz : List SODataClust)
    (h1 : 1 ≤ total) (h2 : total < 4294967296) (h3 : total ≤ nslots) (h4 : total ≤ fuel) :
    (∀ c ∈ (allocFreeAll fuel (mkfs k env itotal total nslots dz)).1, c = 0) ∧
    (allocFreeAll fuel (mkfs k env itotal total nslots dz)).1.length = total - 1 ∧
    (allocFreeAll fuel (mkfs k env itotal total nslots dz)).2.sb.dzone_free
      = (mkfs k env itotal total nslots dz).sb.dzone_free ∧
    freeRefs (allocFreeAll fuel (mkfs k env itotal total nslots dz)).2
      = (freeRefs (mkfs k env itotal total nslots dz)).reverse ∧
    (∀ x, x ∈ freeRefs (allocFreeAll fuel (mkfs k env itotal total nslots dz)).2 ↔
      1 ≤ x ∧ x < total) ∧
    (freeRefs (allocFreeAll fuel (mkfs k env itotal total nslots dz)).2).Nodup := by
  have hfr := freeRefs_mkfs k env itotal total nslots dz h1 h2 h3
  have hmain : (∀ c ∈ (allocFreeAll fuel (mkfs k env itotal total nslots dz)).1, c = 0) ∧
      (allocFreeAll fuel (mkfs k env itotal total nslots dz)).1.length = total - 1 ∧
      (allocFreeAll fuel (mkfs k env itotal total nslots dz)).2.sb.dzone_free
        = (mkfs k env itotal total nslots dz).sb.dzone_free ∧
      freeRefs (allocFreeAll fuel (mkfs k env itotal total nslots dz)).2
        = (List.range' 1 (total - 1)).reverse := by
    by_cases hT : total = 1
    · subst hT
      obtain ⟨e1, e2⟩ := mkfs_single k env itotal nslots dz
      have e := soAllocDataCluster_nospace _ e2
      obtain ⟨f, rfl⟩ : ∃ f, fuel = f + 1 := ⟨fuel - 1, by omega⟩
      simp [allocFreeAll, allocAll, e, ENOSPC, freeSeq, hfr]
    · have hw := DZWf_mkfs k env itotal total nslots dz (by omega) h2 h3
      have hf : (mkfs k env itotal total nslots dz).sb.dzone_free < fuel := by
        rw [hw.free_eq, hfr]; simp; omega
      have hfree : (mkfs k env itotal total nslots dz).sb.dzone_free = total - 1 := by
        rw [hw.free_eq, hfr]; simp
      obtain ⟨a1, -, a3, a4, a5, a6⟩ := allocAll_spec fuel _ hw hf
      have ht : (mkfs k env itotal total nslots dz).sb.dzone_total = total := rfl
      rw [ht] at a6
      obtain ⟨b1, b2, -, b4, b5, -⟩ := freeSeq_spec
        (allocAll fuel (mkfs k env itotal total nslots dz)).1.reverse
        (allocAll fuel (mkfs k env itotal total nslots dz)).2.2 a3
        (by rw [a1, hfr]; exact List.nodup_reverse.2 (List.nodup_range' _ _))
        (by
          intro x hx
          rw [a1, hfr] at hx
          rw [a6]
          exact range'_one_mem (List.mem_reverse.1 hx))
        (by rw [a4]; simp)
        (by rw [a4, a1, hfr, a6]; simp; omega)
      simp only [allocFreeAll]
      refine ⟨b1, ?_, ?_, ?_⟩
      · rw [b2, a1, hfr]; simp
      · rw [b5, a5, a1, hfr, hfree]; simp
      · rw [b4, a4, a1, hfr]; simp
  obtain ⟨m1, m2, m3, m4⟩ := hmain
  refine ⟨m1, m2, m3, by rw [m4, hfr], ?_, ?_⟩
  · intro x
    rw [m4, List.mem_reverse, List.mem_range'_1]
    omega
  · rw [m4]
    exact List.nodup_reverse.2 (List.nodup_range' _ _)

/-- C5 amended, on a volume of 3 data clusters. -/
theorem C5_alloc_all_free_all_witness :
    (1 ≤ 3 ∧ 3 < 4294967296 ∧ 3 ≤ 4 ∧ 3 ≤ 5) ∧
    ((∀ c ∈ (allocFreeAll 5 (mkfs exampleConst exampleEnv 8 3 4 [])).1, c = 0) ∧
    (allocFreeAll 5 (mkfs exampleConst exampleEnv 8 3 4 [])).1.length = 3 - 1 ∧
    (allocFreeAll 5 (mkfs exampleConst exampleEnv 8 3 4 [])).2.sb.dzone_free
      = (mkfs exampleConst exampleEnv 8 3 4 []).sb.dzone_free ∧
    freeRefs (allocFreeAll 5 (mkfs exampleConst exampleEnv 8 3 4 [])).2
      = (freeRefs (mkfs exampleConst exampleEnv 8 3 4 [])).reverse ∧
    (∀ x, x ∈ freeRefs (allocFreeAll 5 (mkfs exampleConst exampleEnv 8 3 4 [])).2 ↔
      1 ≤ x ∧ x < 3) ∧
    (freeRefs (allocFreeAll 5 (mkfs exampleConst exampleEnv 8 3 4 [])).2).Nodup) :=
  ⟨by decide, C5_alloc_all_free_all exampleConst exampleEnv 8 3 4 5 []
    (by decide) (by decide) (by decide) (by decide)⟩

/-- C7: on a volume whose free references all lie in `[1, dzone_total)`,
`soFreeDataCluster (nClust)` fails with `-EINVAL` when `nClust = 0` or
`nClust >= dzone_total`, and with `-EDCNALINVAL` when `nClust` is a free reference of either
cache or of the table; in both cases the volume, hence `dzone_free`, both caches, the table
and its head and tail, is left as it was. -/
theorem C7_free_rejects (v : Volume) (nClust : Nat)
    (h1 : 1 ≤ v.sb.dzone_total) (h2 : v.sb.dzone_total < 4294967296)
    (h3 : ∀ x ∈ freeRefs v, 1 ≤ x ∧ x < v.sb.dzone_total) :
    ((nClust = 0 ∨ v.sb.dzone_total ≤ nClust) → soFreeDataCluster v nClust = (-EINVAL, v)) ∧
    (nClust ∈ freeRefs v → soFreeDataCluster v nClust = (-EDCNALINVAL, v)) := by
  refine ⟨soFreeDataCluster_range v nClust h1 h2, ?_⟩
  intro hm
  have hr := h3 nClust hm
  have hd : dec32 v.sb.dzone_total = v.sb.dzone_total - 1 := by simp only [dec32]; omega
  exact soFreeDataCluster_isfree v nClust hm hr.1 (by omega)

/-- C7, on the freshly formatted volume of 3 data clusters, whose free references are the
clusters 1 and 2, for the cluster 2. -/
theorem C7_free_rejects_witness :
    (1 ≤ (mkfs exampleConst exampleEnv 8 3 4 []).sb.dzone_total ∧
      (mkfs exampleConst exampleEnv 8 3 4 []).sb.dzone_total < 4294967296 ∧
      (∀ x ∈ freeRefs (mkfs exampleConst exampleEnv 8 3 4 []),
        1 ≤ x ∧ x < (mkfs exampleConst exampleEnv 8 3 4 []).sb.dzone_total)) ∧
    (((2 = 0 ∨ (mkfs exampleConst exampleEnv 8 3 4 []).sb.dzone_total ≤ 2) →
        soFreeDataCluster (mkfs exampleConst exampleEnv 8 3 4 []) 2
          = (-EINVAL, mkfs exampleConst exampleEnv 8 3 4 [])) ∧
      (2 ∈ freeRefs (mkfs exampleConst exampleEnv 8 3 4 []) →
        soFreeDataCluster (mkfs exampleConst exampleEnv 8 3 4 []) 2
          = (-EDCNALINVAL, mkfs exampleConst exampleEnv 8 3 4 []))) :=
  ⟨by decide, C7_free_rejects (mkfs exampleConst exampleEnv 8 3 4 []) 2
    (by decide) (by decide) (by decide)⟩

/-! ## The table of inodes as a list -/

theorem getI_set_eq (t : List SOInode) (i : Nat) (x : SOInode) (h : i < t.length) :
    getI (t.set i x) i = x := by
  simp [getI, List.getD_eq_getElem?_getD, List.getElem?_set, h]

theorem getI_set_ne (t : List SOInode) {i j : Nat} (x : SOInode) (h : i ≠ j) :
    getI (t.set i x) j = getI t j := by
  simp [getI, List.getD_eq_getElem?_getD, List.getElem?_set, h]

theorem lor_and_self_ne_zero (m f : Nat) (hf : f ≠ 0) : (m ||| f) &&& f ≠ 0 := by
  have : (m ||| f) &&& f = f := by
    apply Nat.eq_of_testBit_eq
    intro i
    simp only [Nat.testBit_and, Nat.testBit_or]
    cases m.testBit i <;> cases f.testBit i <;> rfl
  rw [this]; exact hf

theorem and_zero_or (m type : Nat) : (m &&& 0) ||| type = type := by
  simp

theorem nodup_length_le {l : List Nat} {n : Nat} (hd : l.Nodup) (hl : ∀ x ∈ l, x < n) :
    l.length ≤ n := by
  have hs : l ⊆ List.range n := fun x hx => List.mem_range.2 (hl x hx)
  have := (List.subperm_of_subset hd hs).length_le
  simpa using this

theorem getLastD_mem (l : List Nat) (a : Nat) : l.getLastD a ∈ a :: l := by
  induction l generalizing a with
  | nil => simp
  | cons b l ih =>
    have := ih b
    simp only [List.getLastD_cons]
    exact List.mem_cons_of_mem _ this

theorem getLastD_ne_of_nodup {a b : Nat} {l : List Nat} (h : (a :: b :: l).Nodup) :
    (b :: l).getLastD a ≠ a := by
  intro he
  have hm := getLastD_mem l b
  rw [List.getLastD_cons] at he
  rw [he] at hm
  exact (List.nodup_cons.1 h).1 hm

theorem mem_dropLast_ne_getLastD {a : Nat} {l : List Nat} (h : (a :: l).Nodup) :
    ∀ x ∈ (a :: l).dropLast, x ≠ l.getLastD a := by
  induction l generalizing a with
  | nil => intro x hx; simp at hx
  | cons b l ih =>
    intro x hx
    rw [List.dropLast_cons₂, List.mem_cons] at hx
    rw [List.getLastD_cons]
    rcases hx with rfl | hx
    · have := getLastD_mem l b
      intro he
      rw [← he] at this
      exact (List.nodup_cons.1 h).1 this
    · exact ih (List.nodup_cons.1 h).2 x hx

/-! ## Linked inodes -/

theorem Path_tail {t : List SOInode} {a : Nat} {l : List Nat} (h : Path t (a :: l)) :
    Path t l := by
  cases l with
  | nil => trivial
  | cons b l => exact h.2.2

theorem Path_congr {t t' : List SOInode} :
    ∀ (l : List Nat), (∀ x ∈ l.dropLast, (getI t' x).vD2 = (getI t x).vD2) →
      (∀ x ∈ l.tail, (getI t' x).vD1 = (getI t x).vD1) → Path t l → Path t' l := by
  intro l
  induction l with
  | nil => intro _ _ _; trivial
  | cons a l ih =>
    cases l with
    | nil => intro _ _ _; trivial
    | cons b l =>
      intro h1 h2 hp
      obtain ⟨p1, p2, p3⟩ := hp
      refine ⟨?_, ?_, ?_⟩
      · rw [h1 a (by simp), p1]
      · rw [h2 b (by simp), p2]
      · apply ih
        · intro x hx
          exact h1 x (by rw [List.dropLast_cons₂]; exact List.mem_cons_of_mem _ hx)
        · intro x hx
          exact h2 x (by
            simp only [List.tail_cons] at hx ⊢
            exact List.mem_cons_of_mem _ hx)
        · exact p3

theorem Path_snoc {t : List SOInode} (n : Nat) :
    ∀ (l : List Nat) (a : Nat), Path t (a :: l ++ [n]) ↔
      Path t (a :: l) ∧ (getI t (l.getLastD a)).vD2 = n ∧ (getI t n).vD1 = l.getLastD a := by
  intro l
  induction l with
  | nil => intro a; simp [Path]
  | cons b l ih =>
    intro a
    have := ih b
    simp only [List.cons_append] at this ⊢
    simp only [Path, this, List.getLastD_cons]
    tauto

/-- In a circle of linked inodes every inode is the `prev` of its `next` and the `next` of
its `prev`, and both belong to the circle. -/
theorem Path_succ {t : List SOInode} :
    ∀ (l : List Nat) (z : Nat), Path t (l ++ [z]) →
      ∀ x ∈ l, (getI t (getI t x).vD2).vD1 = x ∧ (getI t x).vD2 ∈ l.tail ++ [z] := by
  intro l
  induction l with
  | nil => intro z _ x hx; simp at hx
  | cons a l ih =>
    intro z hp x hx
    cases l with
    | nil =>
      simp only [List.mem_singleton] at hx
      subst hx
      obtain ⟨p1, p2, -⟩ := hp
      simp [p1, p2]
    | cons b l =>
      obtain ⟨p1, p2, p3⟩ := hp
      rcases List.mem_cons.1 hx with rfl | hx
      · simp [p1, p2]
      · obtain ⟨q1, q2⟩ := ih z p3 x hx
        exact ⟨q1, by
          simp only [List.tail_cons] at q2 ⊢
          exact List.mem_cons_of_mem _ q2⟩

theorem Path_pred {t : List SOInode} :
    ∀ (l : List Nat) (a : Nat), Path t (a :: l) →
      ∀ x ∈ l, (getI t (getI t x).vD1).vD2 = x ∧ (getI t x).vD1 ∈ (a :: l).dropLast := by
  intro l
  induction l with
  | nil => intro a _ x hx; simp at hx
  | cons b l ih =>
    intro a hp x hx
    obtain ⟨p1, p2, p3⟩ := hp
    rw [List.dropLast_cons₂]
    rcases List.mem_cons.1 hx with rfl | hx
    · rw [p2]; exact ⟨p1, List.mem_cons_self _ _⟩
    · obtain ⟨q1, q2⟩ := ih b p3 x hx
      exact ⟨q1, List.mem_cons_of_mem _ q2⟩

/-! ## `soAllocInode` keeps the list of free inodes -/

theorem getI_set (t : List SOInode) (i j : Nat) (x : SOInode) :
    getI (t.set i x) j = if i = j ∧ i < t.length then x else getI t j := by
  by_cases h : i = j
  · subst h
    by_cases h2 : i < t.length
    · simp [getI_set_eq _ _ _ h2, h2]
    · have h3 : t.length ≤ i := by omega
      simp [h2, getI, List.getD_eq_getElem?_getD, List.getElem?_set, List.getElem?_eq_none h3]
  · simp [getI_set_ne _ _ h, h]

theorem getI_set_mode (t : List SOInode) (i j : Nat) (x : SOInode)
    (hx : x.mode = (getI t i).mode) : (getI (t.set i x) j).mode = (getI t j).mode := by
  rw [getI_set]; split_ifs with hc
  · rw [hx, hc.1]
  · rfl

theorem getI_set_vD1 (t : List SOInode) (i j : Nat) (x : SOInode)
    (hx : x.vD1 = (getI t i).vD1) : (getI (t.set i x) j).vD1 = (getI t j).vD1 := by
  rw [getI_set]; split_ifs with hc
  · rw [hx, hc.1]
  · rfl

theorem getI_set_vD2 (t : List SOInode) (i j : Nat) (x : SOInode)
    (hx : x.vD2 = (getI t i).vD2) : (getI (t.set i x) j).vD2 = (getI t j).vD2 := by
  rw [getI_set]; split_ifs with hc
  · rw [hx, hc.1]
  · rfl

theorem FreeList_lt {k : SOConst} {v : Volume} {l : List Nat} (h : FreeList k v l) :
    ∀ x ∈ l, x < v.sb.itotal := fun x hx => ((h.2.1 x).1 hx).1

theorem soConvertRefInT_ok {v : Volume} {n : Nat} (h : n < v.sb.itotal) :
    soConvertRefInT v n = 0 := by
  simp [soConvertRefInT, h]

/-- Taking the head out of the list of free inodes leaves the rest of the list linked in a
circle; only `prev` and `next` of inodes of the rest change. -/
theorem allocInodeUnlink_spec {k : SOConst} {v : Volume} {h : Nat} {tl : List Nat}
    (hlen : v.itable.length = v.sb.itotal) (hfl : FreeList k v (h :: tl)) :
    ∃ t', allocInodeUnlink v
        = (0, { v with itable := t', sb := { v.sb with ihdtl := tl.headD NULL_INODE } }) ∧
      t'.length = v.itable.length ∧
      (∀ n, (getI t' n).mode = (getI v.itable n).mode) ∧
      (∀ n, n ∉ tl → getI t' n = getI v.itable n) ∧
      Path t' tl ∧ Closed t' tl := by
  obtain ⟨hnd, hmem, -, hpath, ⟨hcl1, hcl2⟩, hhd⟩ := hfl
  simp only [List.headD_cons] at hhd
  have hlt := fun x hx => ((hmem x).1 hx).1
  cases tl with
  | nil =>
    simp only [List.getLastD_nil] at hcl1 hcl2
    refine ⟨v.itable, ?_, rfl, fun _ => rfl, fun _ _ => rfl, trivial, trivial⟩
    simp [allocInodeUnlink, hhd, hcl1, hcl2]
  | cons b r =>
    have hb : b < v.sb.itotal := hlt b (by simp)
    have hbh : b ≠ h := by
      intro e; subst e
      have := (List.nodup_cons.1 hnd).1
      simp at this
    have hnx : (getI v.itable h).vD2 = b := hpath.1
    have hpb : (getI v.itable b).vD1 = h := hpath.2.1
    have hptl : Path v.itable (b :: r) := hpath.2.2
    cases r with
    | nil =>
      simp only [List.getLastD_cons, List.getLastD_nil] at hcl1 hcl2
      simp only [Closed, List.getLastD_nil]
      refine ⟨v.itable.set b { getI v.itable b with vD1 := b, vD2 := b }, ?_, by simp, ?_, ?_,
        trivial, ?_⟩
      · simp [allocInodeUnlink, hhd, hnx, hcl2, hbh, soConvertRefInT_ok hb]
      · intro n
        exact getI_set_mode _ _ _ _ (by rfl)
      · intro n hn
        rw [getI_set_ne]
        intro e; subst e; simp at hn
      · simp [getI_set_eq _ _ _ (by rw [hlen]; exact hb)]
    | cons c r =>
      simp only [List.getLastD_cons] at hcl1 hcl2
      have hlast_mem : r.getLastD c ∈ c :: r := getLastD_mem r c
      have hnd' : (b :: c :: r).Nodup := (List.nodup_cons.1 hnd).2
      have hlb : r.getLastD c ≠ b := by
        have := getLastD_ne_of_nodup hnd'
        simpa only [List.getLastD_cons] using this
      have hdl : ∀ x ∈ (b :: c :: r).dropLast, x ≠ r.getLastD c := by
        intro x hx
        have := mem_dropLast_ne_getLastD hnd' x hx
        simpa only [List.getLastD_cons] using this
      simp only [Closed, List.getLastD_cons]
      generalize r.getLastD c = last at hcl1 hcl2 hlast_mem hlb hdl
      have hlast : last < v.sb.itotal := hlt _ (by
        simp only [List.mem_cons] at hlast_mem ⊢; tauto)
      have hne : (getI v.itable h).vD1 ≠ (getI v.itable h).vD2 := by
        rw [hcl2, hnx]; exact hlb
      refine ⟨(v.itable.set b { getI v.itable b with vD1 := last }).set last
          { getI (v.itable.set b { getI v.itable b with vD1 := last }) last
            with vD2 := b }, ?_, by simp, ?_, ?_, ?_, ?_⟩
      · simp [allocInodeUnlink, hhd, hne, hnx, hcl2, soConvertRefInT_ok hb,
          soConvertRefInT_ok hlast, hlb]
      · intro n
        exact (getI_set_mode _ _ _ _ (by rfl)).trans (getI_set_mode _ _ _ _ (by rfl))
      · intro n hn
        have h1 : last ≠ n := by
          intro e; rw [← e] at hn
          exact hn (List.mem_cons_of_mem _ hlast_mem)
        have h2 : b ≠ n := by
          intro e; rw [← e] at hn; simp at hn
        rw [getI_set_ne _ _ h1, getI_set_ne _ _ h2]
      · apply Path_congr _ _ _ hptl
        · intro x hx
          have hxl : x ≠ last := hdl x hx
          rw [getI_set_ne _ _ (Ne.symm hxl)]
          exact getI_set_vD2 _ _ _ _ (by rfl)
        · intro x hx
          simp only [List.tail_cons] at hx
          have hxb : b ≠ x := by
            intro e; subst e
            exact (List.nodup_cons.1 hnd').1 hx
          refine (getI_set_vD1 _ _ _ _ (by rfl)).trans ?_
          rw [getI_set_ne _ _ hxb]
      · have hl1 : last < v.itable.length := by rw [hlen]; exact hlast
        have hl2 : b < v.itable.length := by rw [hlen]; exact hb
        constructor
        · rw [getI_set_eq _ _ _ (by simpa using hl1)]
        · rw [getI_set_ne _ _ hlb, getI_set_eq _ _ _ hl2]

theorem Path_congr_mem {t t' : List SOInode} (l : List Nat)
    (h : ∀ x ∈ l, getI t' x = getI t x) (hp : Path t l) : Path t' l := by
  apply Path_congr l _ _ hp
  · intro x hx; rw [h x (List.mem_of_mem_dropLast hx)]
  · intro x hx; rw [h x (List.mem_of_mem_tail hx)]

theorem Closed_congr_mem {t t' : List SOInode} (l : List Nat)
    (h : ∀ x ∈ l, getI t' x = getI t x) (hc : Closed t l) : Closed t' l := by
  cases l with
  | nil => trivial
  | cons b r =>
    have h1 := h b (List.mem_cons_self _ _)
    have h2 := h _ (getLastD_mem r b)
    simp only [Closed] at hc ⊢
    rw [h1, h2]; exact hc

theorem type_not_free {k : SOConst} (hk : k.Wf) {type : Nat}
    (ht : type = k.INODE_DIR ∨ type = k.INODE_FILE ∨ type = k.INODE_SYMLINK) :
    type &&& k.INODE_FREE = 0 := by
  obtain ⟨-, h1, h2, h3, -⟩ := hk
  rcases ht with rfl | rfl | rfl <;> assumption

/-- On a consistent table of inodes with a free inode, `soAllocInode` of a legal type
succeeds, returns the former `ihdtl`, initialises that inode and keeps the table
consistent. -/
theorem soAllocInode_spec {k : SOConst} {env : SOEnv} {v : Volume} {type : Nat} (hk : k.Wf)
    (hi : IInv k v)
    (ht : type = k.INODE_DIR ∨ type = k.INODE_FILE ∨ type = k.INODE_SYMLINK)
    (hf : v.sb.ifree ≠ 0) :
    (soAllocInode k env v type).1 = 0 ∧
    (soAllocInode k env v type).2.2 = v.sb.ihdtl ∧
    (soAllocInode k env v type).2.1.sb.ifree + 1 = v.sb.ifree ∧
    getI (soAllocInode k env v type).2.1.itable v.sb.ihdtl =
      { mode := type, refcount := 0, owner := env.uid, group := env.gid, size := 0,
        clucount := 0, vD1 := env.now, vD2 := env.now,
        d := List.replicate k.N_DIRECT NULL_CLUSTER, i1 := NULL_CLUSTER, i2 := NULL_CLUSTER } ∧
    IInv k (soAllocInode k env v type).2.1 ∧
    (soAllocInode k env v type).2.1.sb.itotal = v.sb.itotal ∧
    (soAllocInode k env v type).2.1.fct = v.fct ∧
    (soAllocInode k env v type).2.1.dzone = v.dzone := by
  obtain ⟨hlen, hN, l, hfl⟩ := hi
  cases l with
  | nil => exact absurd hfl.2.2.1 hf
  | cons h tl =>
    obtain ⟨t', hun, hl', hmode, hsame, hpath', hclosed'⟩ := allocInodeUnlink_spec hlen hfl
    obtain ⟨hnd, hmem, hifree, -, -, hhd⟩ := hfl
    simp only [List.headD_cons] at hhd
    have hh : h < v.sb.itotal := ((hmem h).1 (List.mem_cons_self _ _)).1
    have hhtl : h ∉ tl := (List.nodup_cons.1 hnd).1
    have hty : ¬ (type ≠ k.INODE_DIR ∧ type ≠ k.INODE_FILE ∧ type ≠ k.INODE_SYMLINK) := by
      tauto
    have hll : (h :: tl).length ≤ v.sb.itotal :=
      nodup_length_le hnd (fun x hx => ((hmem x).1 hx).1)
    simp only [List.length_cons] at hll hifree
    have hdec : dec32 v.sb.ifree = tl.length := by
      simp only [dec32]; omega
    have hc1 : soConvertRefInT v h = 0 := soConvertRefInT_ok hh
    obtain ⟨v', hv'⟩ : ∃ v' : Volume, v' = { v with
        itable := t'.set h
          { mode := type, refcount := 0, owner := env.uid, group := env.gid, size := 0,
            clucount := 0, vD1 := env.now, vD2 := env.now,
            d := List.replicate k.N_DIRECT NULL_CLUSTER, i1 := NULL_CLUSTER,
            i2 := NULL_CLUSTER }
        sb := { v.sb with ihdtl := tl.headD NULL_INODE, ifree := tl.length } } := ⟨_, rfl⟩
    have hres : soAllocInode k env v type = (0, v', h) := by
      rw [hv']
      simp only [soAllocInode, if_neg hty, if_neg hf, hhd, hc1, hun, ne_eq, not_true_eq_false,
        if_false, soConvertRefInT, ge_iff_le, Nat.not_le.2 hh, hdec, and_zero_or]
    have hht' : h < t'.length := by rw [hl', hlen]; exact hh
    rw [hres]
    refine ⟨rfl, hhd.symm, ?_, ?_, ?_, ?_, ?_, ?_⟩
    · rw [hv']; simp only []; omega
    · rw [hv', hhd]; exact getI_set_eq _ _ _ hht'
    · refine ⟨?_, ?_, tl, ?_⟩
      · rw [hv']; simp [hl', hlen]
      · rw [hv']; exact hN
      · have hne : ∀ x ∈ tl, h ≠ x := fun x hx e => hhtl (e ▸ hx)
        refine ⟨(List.nodup_cons.1 hnd).2, ?_, ?_, ?_, ?_, ?_⟩
        · intro n
          rw [hv']
          show n ∈ tl ↔ n < v.sb.itotal ∧ isFreeInode k (getI (t'.set h _) n)
          by_cases hn : h = n
          · subst hn
            rw [getI_set_eq _ _ _ hht']
            simp [isFreeInode, hhtl, type_not_free hk ht]
          · rw [getI_set_ne _ _ hn]
            have := hmem n
            simp only [List.mem_cons, isFreeInode, hmode n] at this ⊢
            rw [← this]
            constructor
            · intro hx; exact Or.inr hx
            · intro hx
              rcases hx with hx | hx
              · exact absurd hx.symm hn
              · exact hx
        · rw [hv']
        · rw [hv']
          exact Path_congr_mem tl (fun x hx => getI_set_ne _ _ (hne x hx)) hpath'
        · rw [hv']
          exact Closed_congr_mem tl (fun x hx => getI_set_ne _ _ (hne x hx)) hclosed'
        · rw [hv']
    · rw [hv']
    · rw [hv']
    · rw [hv']

/-! ## `soFreeInode` keeps the list of free inodes -/

theorem getLastD_append_singleton (l : List Nat) (a n : Nat) : (l ++ [n]).getLastD a = n := by
  induction l generalizing a with
  | nil => rfl
  | cons b l ih => simp only [List.cons_append, List.getLastD_cons]; exact ih b

theorem sb_ihdtl_eta (sb : SOSuperBlock) (h : Nat) (e : sb.ihdtl = h) :
    sb = { sb with ihdtl := h } := by
  cases sb; simp only at e; subst e; rfl

/-- Inserting an inode that is in use at the tail of the list of free inodes: the list,
extended by the inode, is linked in a circle; the modes are those of the table `t0`. -/
theorem freeInodeLink_spec {k : SOConst} {v : Volume} {l : List Nat} {n : Nat}
    (t0 : List SOInode) (x0 : SOInode)
    (hlen : v.itable.length = v.sb.itotal) (hN : v.sb.itotal < 4294967296)
    (hfl : FreeList k v l) (hn : n < v.sb.itotal) (hnl : n ∉ l)
    (ht0 : t0 = v.itable.set n x0)
    (hv1 : x0.vD1 = (getI v.itable n).vD1) (hv2 : x0.vD2 = (getI v.itable n).vD2) :
    ∃ t', freeInodeLink v t0 n
        = (0, { v with itable := t', sb := { v.sb with ihdtl := (l ++ [n]).headD NULL_INODE } }) ∧
      t'.length = v.itable.length ∧
      (∀ x, (getI t' x).mode = (getI t0 x).mode) ∧
      Path t' (l ++ [n]) ∧ Closed t' (l ++ [n]) := by
  obtain ⟨hnd, hmem, -, hpath, hcl, hhd⟩ := hfl
  have hlt := fun x hx => ((hmem x).1 hx).1
  have hl0 : t0.length = v.itable.length := by rw [ht0]; simp
  have hn0 : n < t0.length := by rw [hl0, hlen]; exact hn
  have h0v1 : ∀ x, (getI t0 x).vD1 = (getI v.itable x).vD1 := by
    intro x; rw [ht0]; exact getI_set_vD1 _ _ _ _ hv1
  have h0v2 : ∀ x, (getI t0 x).vD2 = (getI v.itable x).vD2 := by
    intro x; rw [ht0]; exact getI_set_vD2 _ _ _ _ hv2
  cases l with
  | nil =>
    simp only [List.headD_nil] at hhd
    refine ⟨t0.set n { getI t0 n with vD1 := n, vD2 := n }, ?_, by simp [hl0], ?_, trivial, ?_⟩
    · simp [freeInodeLink, hhd]
    · intro x; exact getI_set_mode _ _ _ _ (by rfl)
    · simp only [List.nil_append, Closed, List.getLastD_nil]
      rw [getI_set_eq _ _ _ hn0]
      exact ⟨rfl, rfl⟩
  | cons h tl =>
    simp only [List.headD_cons] at hhd
    obtain ⟨hcl1, hcl2⟩ := hcl
    have hh : h < v.sb.itotal := hlt h (List.mem_cons_self _ _)
    have hhn : h ≠ n := fun e => hnl (e ▸ List.mem_cons_self _ _)
    have hnull : ¬ h = NULL_INODE := by
      simp only [NULL_INODE]; omega
    have hc1 : soConvertRefInT v h = 0 := soConvertRefInT_ok hh
    have hh0 : h < t0.length := by rw [hl0, hlen]; exact hh
    have hsb : v.sb = { v.sb with ihdtl := h } := sb_ihdtl_eta _ _ hhd
    cases tl with
    | nil =>
      simp only [List.getLastD_nil] at hcl1 hcl2
      have hb : (getI t0 h).vD1 = h := by rw [h0v1, hcl2]
      refine ⟨(t0.set h { getI t0 h with vD1 := n, vD2 := n }).set n
          { getI (t0.set h { getI t0 h with vD1 := n, vD2 := n }) n with vD1 := h, vD2 := h },
        ?_, by simp [hl0], ?_, ?_, ?_⟩
      · simp only [freeInodeLink, hhd, if_neg hnull, hc1, ne_eq, not_true_eq_false, if_false, hb,
          if_true, List.cons_append, List.headD_cons]
        rw [← hsb]
      · intro x
        exact (getI_set_mode _ _ _ _ (by rfl)).trans (getI_set_mode _ _ _ _ (by rfl))
      · simp only [List.cons_append, List.nil_append, Path, and_true]
        rw [getI_set_ne _ _ (Ne.symm hhn), getI_set_eq _ _ _ hh0,
          getI_set_eq _ _ _ (by simpa using hn0)]
        exact ⟨rfl, rfl⟩
      · simp only [List.cons_append, List.nil_append, Closed, List.getLastD_cons,
          List.getLastD_nil]
        rw [getI_set_ne _ _ (Ne.symm hhn), getI_set_eq _ _ _ hh0,
          getI_set_eq _ _ _ (by simpa using hn0)]
        exact ⟨rfl, rfl⟩
    | cons b r =>
      have hlast_mem : (b :: r).getLastD h ∈ b :: r := by
        rw [List.getLastD_cons]; exact getLastD_mem r b
      have hlh : (b :: r).getLastD h ≠ h := getLastD_ne_of_nodup hnd
      have hdl : ∀ x ∈ (h :: b :: r).dropLast, x ≠ (b :: r).getLastD h :=
        mem_dropLast_ne_getLastD hnd
      have hsn : ∀ t : List SOInode, Path t (h :: (b :: r) ++ [n]) ↔
          Path t (h :: b :: r) ∧ (getI t ((b :: r).getLastD h)).vD2 = n ∧
            (getI t n).vD1 = (b :: r).getLastD h := fun t => Path_snoc n (b :: r) h
      have hgl : ((b :: r) ++ [n]).getLastD h = n := getLastD_append_singleton _ _ _
      generalize (b :: r).getLastD h = last at hcl1 hcl2 hlast_mem hlh hdl hsn
      have hlast : last < v.sb.itotal := hlt _ (List.mem_cons_of_mem _ hlast_mem)
      have hln : last ≠ n := fun e => hnl (e ▸ List.mem_cons_of_mem _ hlast_mem)
      have hprev : (getI t0 h).vD1 = last := by rw [h0v1, hcl2]
      have hc2 : soConvertRefInT v last = 0 := soConvertRefInT_ok hlast
      obtain ⟨t1, ht1⟩ : ∃ t1, t1 = t0.set h { getI t0 h with vD1 := n } := ⟨_, rfl⟩
      obtain ⟨t2, ht2⟩ : ∃ t2, t2 = t1.set last { getI t1 last with vD2 := n } := ⟨_, rfl⟩
      obtain ⟨t3, ht3⟩ : ∃ t3, t3 = t2.set n { getI t2 n with vD1 := last, vD2 := h } :=
        ⟨_, rfl⟩
      have hl1 : t1.length = t0.length := by rw [ht1]; simp
      have hl2 : t2.length = t0.length := by rw [ht2]; simp [hl1]
      have hl3 : t3.length = t0.length := by rw [ht3]; simp [hl2]
      refine ⟨t3, ?_, by rw [hl3, hl0], ?_, ?_, ?_⟩
      · simp only [freeInodeLink, hhd, if_neg hnull, hc1, ne_eq, not_true_eq_false, if_false,
          hprev, if_neg hlh, hc2, List.cons_append, List.headD_cons, ← ht1, ← ht2, ← ht3]
        rw [← hsb]
      · intro x
        rw [ht3, ht2, ht1]
        exact (getI_set_mode _ _ _ _ (by rfl)).trans
          ((getI_set_mode _ _ _ _ (by rfl)).trans (getI_set_mode _ _ _ _ (by rfl)))
      · have h3n : getI t3 n = { getI t2 n with vD1 := last, vD2 := h } := by
          rw [ht3]; exact getI_set_eq _ _ _ (by rw [hl2]; exact hn0)
        have h3l : (getI t3 last).vD2 = n := by
          rw [ht3, getI_set_ne _ _ (Ne.symm hln), ht2,
            getI_set_eq _ _ _ (by rw [hl1, hl0, hlen]; exact hlast)]
        have hp3 : Path t3 (h :: b :: r) := by
          apply Path_congr _ _ _ hpath
          · intro x hx
            have hxl : x ≠ last := hdl x hx
            have hxn : x ≠ n := fun e => hnl (e ▸ List.mem_of_mem_dropLast hx)
            rw [ht3, getI_set_ne _ _ (Ne.symm hxn), ht2, getI_set_ne _ _ (Ne.symm hxl), ht1,
              ← h0v2 x]
            exact getI_set_vD2 _ _ _ _ (by rfl)
          · intro x hx
            simp only [List.tail_cons] at hx
            have hxh : x ≠ h := fun e => (List.nodup_cons.1 hnd).1 (e ▸ hx)
            have hxn : x ≠ n := fun e => hnl (e ▸ List.mem_cons_of_mem _ hx)
            rw [ht3, getI_set_ne _ _ (Ne.symm hxn), ht2, ← h0v1 x]
            refine (getI_set_vD1 _ _ _ _ (by rfl)).trans ?_
            rw [ht1, getI_set_ne _ _ (Ne.symm hxh)]
        exact (hsn t3).2 ⟨hp3, h3l, by rw [h3n]⟩
      · show Closed t3 (h :: ((b :: r) ++ [n]))
        simp only [Closed, hgl]
        constructor
        · rw [ht3, getI_set_eq _ _ _ (by rw [hl2]; exact hn0)]
        · rw [ht3, getI_set_ne _ _ (Ne.symm hhn), ht2]
          refine (getI_set_vD1 _ _ _ _ (by rfl)).trans ?_
          rw [ht1, getI_set_eq _ _ _ hh0]

theorem soQCheckInodeIU_not_free {k : SOConst} {p : SOInode} (h : soQCheckInodeIU k p = 0) :
    ¬ isFreeInode k p := by
  intro hf
  unfold isFreeInode at hf
  simp [soQCheckInodeIU, if_pos hf, EIUININVAL] at h

/-- What `soFreeInode` does when it succeeds, and that it keeps the table of inodes
consistent whether it succeeds or not. -/
theorem soFreeInode_spec {k : SOConst} {v : Volume} (hk : k.Wf) (hi : IInv k v) (n : Nat) :
    IInv k (soFreeInode k v n).2 ∧
    (soFreeInode k v n).2.sb.itotal = v.sb.itotal ∧
    (soFreeInode k v n).2.fct = v.fct ∧ (soFreeInode k v n).2.dzone = v.dzone ∧
    ((soFreeInode k v n).1 ≠ 0 → (soFreeInode k v n).2 = v) ∧
    ((1 ≤ n ∧ n < v.sb.itotal ∧ (getI v.itable n).refcount = 0 ∧
        (getI v.itable n).mode ≠ k.INODE_FREE ∧ soQCheckInodeIU k (getI v.itable n) = 0) →
      (soFreeInode k v n).1 = 0 ∧ (soFreeInode k v n).2.sb.ifree = v.sb.ifree + 1 ∧
      (getI (soFreeInode k v n).2.itable n).mode = (getI v.itable n).mode ||| k.INODE_FREE) := by
  by_cases h1 : n < 1 ∨ n ≥ v.sb.itotal
  · have e : soFreeInode k v n = (-EINVAL, v) := by simp only [soFreeInode, if_pos h1]
    rw [e]; exact ⟨hi, rfl, rfl, rfl, fun _ => rfl, fun h => by omega⟩
  have hn : n < v.sb.itotal := by omega
  have hc : soConvertRefInT v n = 0 := soConvertRefInT_ok hn
  by_cases h2 : (getI v.itable n).refcount ≠ 0
  · have e : soFreeInode k v n = (-EINVAL, v) := by
      simp only [soFreeInode, if_neg h1, hc, ne_eq, not_true_eq_false, if_false, if_pos h2]
    rw [e]; exact ⟨hi, rfl, rfl, rfl, fun _ => rfl, fun h => absurd h.2.2.1 h2⟩
  by_cases h3 : (getI v.itable n).mode = k.INODE_FREE
  · have e : soFreeInode k v n = (-EIUININVAL, v) := by
      simp only [soFreeInode, if_neg h1, hc, ne_eq, not_true_eq_false, if_false, if_neg h2,
        if_pos h3]
    rw [e]; exact ⟨hi, rfl, rfl, rfl, fun _ => rfl, fun h => absurd h3 h.2.2.2.1⟩
  by_cases h4 : soQCheckInodeIU k (getI v.itable n) ≠ 0
  · have e : soFreeInode k v n = (soQCheckInodeIU k (getI v.itable n), v) := by
      simp only [soFreeInode, if_neg h1, hc, ne_eq, not_true_eq_false, if_false, if_neg h2,
        if_neg h3, if_pos h4]
    rw [e]; exact ⟨hi, rfl, rfl, rfl, fun _ => rfl, fun h => absurd h.2.2.2.2 h4⟩
  have h4' : soQCheckInodeIU k (getI v.itable n) = 0 := not_not.1 h4
  have hn0 : ¬ n = 0 := by omega
  obtain ⟨hlen, hN, l, hfl⟩ := hi
  have hnl : n ∉ l := fun hm => soQCheckInodeIU_not_free h4' ((hfl.2.1 n).1 hm).2
  obtain ⟨t', hlk, hl', hmode, hpath', hclosed'⟩ := freeInodeLink_spec
    (v.itable.set n
      { getI v.itable n with mode := (getI v.itable n).mode ||| k.INODE_FREE })
    { getI v.itable n with mode := (getI v.itable n).mode ||| k.INODE_FREE }
    hlen hN hfl hn hnl rfl rfl rfl
  obtain ⟨hnd, hmem, hifree, -, -, hhd⟩ := hfl
  have hll : (n :: l).length ≤ v.sb.itotal :=
    nodup_length_le (List.nodup_cons.2 ⟨hnl, hnd⟩) (by
      intro x hx
      rcases List.mem_cons.1 hx with rfl | hx
      · exact hn
      · exact ((hmem x).1 hx).1)
  simp only [List.length_cons] at hll
  have hinc : inc32 v.sb.ifree = l.length + 1 := by
    simp only [inc32]; omega
  obtain ⟨v', hv'⟩ : ∃ v' : Volume, v' = { v with
      itable := t'
      sb := { v.sb with ihdtl := (l ++ [n]).headD NULL_INODE, ifree := l.length + 1 } } :=
    ⟨_, rfl⟩
  have e : soFreeInode k v n = (0, v') := by
    rw [hv']
    simp only [soFreeInode, if_neg h1, hc, ne_eq, not_true_eq_false, if_false, if_neg h2,
      if_neg h3, if_neg h4, if_neg hn0, hlk, hinc]
  have hnt : n < v.itable.length := by rw [hlen]; exact hn
  have hmn : (getI t' n).mode = (getI v.itable n).mode ||| k.INODE_FREE := by
    rw [hmode n, getI_set_eq _ _ _ hnt]
  rw [e]
  refine ⟨⟨?_, ?_, l ++ [n], ?_⟩, ?_, ?_, ?_, fun h => absurd rfl h, fun _ => ⟨rfl, ?_, ?_⟩⟩
  · rw [hv']; show t'.length = v.sb.itotal; rw [hl', hlen]
  · rw [hv']; exact hN
  · refine ⟨?_, ?_, ?_, ?_, ?_, ?_⟩
    · exact List.nodup_append.2 ⟨hnd, List.nodup_singleton n, by
        intro x hx hx'
        rw [List.mem_singleton] at hx'
        exact hnl (hx' ▸ hx)⟩
    · intro x
      rw [hv']
      show x ∈ l ++ [n] ↔ x < v.sb.itotal ∧ isFreeInode k (getI t' x)
      by_cases hx : x = n
      · subst hx
        simp only [isFreeInode, hmn]
        simp [hn, lor_and_self_ne_zero _ _ hk.1]
      · have hm := hmem x
        simp only [isFreeInode] at hm ⊢
        rw [hmode x, getI_set_ne _ _ (Ne.symm hx), ← hm]
        simp [hx]
    · rw [hv']; simp
    · rw [hv']; exact hpath'
    · rw [hv']; exact hclosed'
    · rw [hv']
  · rw [hv']
  · rw [hv']
  · rw [hv']
  · rw [hv']; show l.length + 1 = v.sb.ifree + 1; rw [hifree]
  · rw [hv']; exact hmn

/-! ## The freshly formatted table of inodes -/

theorem getI_map_range (f : Nat → SOInode) (N n : Nat) (h : n < N) :
    getI ((List.range N).map f) n = f n := by
  simp [getI, List.getD_eq_getElem?_getD, List.getElem?_range h]

theorem lor_and_eq_zero {a b f : Nat} (ha : a &&& f = 0) (hb : b &&& f = 0) :
    (a ||| b) &&& f = 0 := by
  apply Nat.eq_of_testBit_eq
  intro i
  have h1 := congrArg (fun x => x.testBit i) ha
  have h2 := congrArg (fun x => x.testBit i) hb
  simp only [Nat.testBit_and, Nat.zero_testBit] at h1 h2
  simp only [Nat.testBit_and, Nat.testBit_or, Nat.zero_testBit]
  cases hA : a.testBit i <;> cases hB : b.testBit i <;> cases hF : f.testBit i <;>
    simp_all

theorem fillInINT_length (k : SOConst) (env : SOEnv) (sb : SOSuperBlock) :
    (fillInINT k env sb).length = sb.itotal := by
  simp [fillInINT]

theorem fillInINT_get (k : SOConst) (env : SOEnv) (sb : SOSuperBlock) (n : Nat)
    (h1 : 1 ≤ n) (h2 : n < sb.itotal) (h3 : sb.itotal < 4294967296) :
    (getI (fillInINT k env sb) n).mode = k.INODE_FREE ∧
    (getI (fillInINT k env sb) n).vD1 = (if n = 1 then sb.itotal - 1 else n - 1) ∧
    (getI (fillInINT k env sb) n).vD2 = (if n = sb.itotal - 1 then 1 else n + 1) := by
  have hd : dec32 sb.itotal = sb.itotal - 1 := by simp only [dec32]; omega
  have hdn : dec32 n = n - 1 := by simp only [dec32]; omega
  have hin : inc32 n = n + 1 := by simp only [inc32]; omega
  obtain ⟨t0, ht0⟩ : ∃ t0 : List SOInode, t0 = (List.range sb.itotal).map fun n =>
    { mode := k.INODE_FREE, refcount := 0, owner := 0, group := 0, size := 0, clucount := 0
      vD1 := dec32 n, vD2 := inc32 n
      d := List.replicate k.N_DIRECT NULL_CLUSTER, i1 := NULL_CLUSTER, i2 := NULL_CLUSTER } :=
    ⟨_, rfl⟩
  obtain ⟨t1, ht1⟩ : ∃ t1 : List SOInode, t1 = t0.set 0
    { getI t0 0 with
      mode := k.INODE_PERM ||| k.INODE_DIR
      refcount := 2, owner := env.uid, group := env.gid, size := k.CLUSTER_SIZE, clucount := 1
      vD1 := env.now, vD2 := env.now
      d := (getI t0 0).d.set 0 0 } := ⟨_, rfl⟩
  obtain ⟨t2, ht2⟩ : ∃ t2 : List SOInode,
    t2 = t1.set 1 { getI t1 1 with vD1 := dec32 sb.itotal } := ⟨_, rfl⟩
  have hF : fillInINT k env sb
      = t2.set (sb.itotal - 1) { getI t2 (sb.itotal - 1) with vD2 := 1 } := by
    rw [ht2, ht1, ht0]; rfl
  have hl0 : t0.length = sb.itotal := by rw [ht0]; simp
  have hl1 : t1.length = sb.itotal := by rw [ht1]; simp [hl0]
  have hl2 : t2.length = sb.itotal := by rw [ht2]; simp [hl1]
  have g0 : (getI t0 n).mode = k.INODE_FREE ∧ (getI t0 n).vD1 = dec32 n ∧
      (getI t0 n).vD2 = inc32 n := by
    rw [ht0, getI_map_range _ _ _ h2]
    exact ⟨rfl, rfl, rfl⟩
  have g1 : getI t1 n = getI t0 n := by
    rw [ht1]; exact getI_set_ne _ _ (by omega)
  rw [hF]
  refine ⟨?_, ?_, ?_⟩
  · refine (getI_set_mode _ _ _ _ (by rfl)).trans ?_
    rw [ht2]
    refine (getI_set_mode _ _ _ _ (by rfl)).trans ?_
    rw [g1, g0.1]
  · refine (getI_set_vD1 _ _ _ _ (by rfl)).trans ?_
    by_cases e : n = 1
    · subst e
      rw [ht2, getI_set_eq _ _ _ (by rw [hl1]; exact h2), if_pos rfl]
      exact hd
    · rw [ht2, getI_set_ne _ _ (Ne.symm e), g1, g0.2.1, if_neg e]
      exact hdn
  · by_cases e : n = sb.itotal - 1
    · rw [if_pos e, ← e, getI_set_eq _ _ _ (by rw [hl2]; exact h2)]
    · rw [if_neg e, getI_set_ne _ _ (Ne.symm e), ht2]
      refine (getI_set_vD2 _ _ _ _ (by rfl)).trans ?_
      rw [g1, g0.2.2]
      exact hin

theorem fillInINT_root (k : SOConst) (env : SOEnv) (sb : SOSuperBlock) (h2 : 2 ≤ sb.itotal) :
    (getI (fillInINT k env sb) 0).mode = k.INODE_PERM ||| k.INODE_DIR := by
  obtain ⟨t0, ht0⟩ : ∃ t0 : List SOInode, t0 = (List.range sb.itotal).map fun n =>
    { mode := k.INODE_FREE, refcount := 0, owner := 0, group := 0, size := 0, clucount := 0
      vD1 := dec32 n, vD2 := inc32 n
      d := List.replicate k.N_DIRECT NULL_CLUSTER, i1 := NULL_CLUSTER, i2 := NULL_CLUSTER } :=
    ⟨_, rfl⟩
  obtain ⟨t1, ht1⟩ : ∃ t1 : List SOInode, t1 = t0.set 0
    { getI t0 0 with
      mode := k.INODE_PERM ||| k.INODE_DIR
      refcount := 2, owner := env.uid, group := env.gid, size := k.CLUSTER_SIZE, clucount := 1
      vD1 := env.now, vD2 := env.now
      d := (getI t0 0).d.set 0 0 } := ⟨_, rfl⟩
  obtain ⟨t2, ht2⟩ : ∃ t2 : List SOInode,
    t2 = t1.set 1 { getI t1 1 with vD1 := dec32 sb.itotal } := ⟨_, rfl⟩
  have hF : fillInINT k env sb
      = t2.set (sb.itotal - 1) { getI t2 (sb.itotal - 1) with vD2 := 1 } := by
    rw [ht2, ht1, ht0]; rfl
  have hl0 : t0.length = sb.itotal := by rw [ht0]; simp
  rw [hF]
  refine (getI_set_mode _ _ _ _ (by rfl)).trans ?_
  rw [ht2]
  refine (getI_set_mode _ _ _ _ (by rfl)).trans ?_
  rw [ht1, getI_set_eq _ _ _ (by rw [hl0]; omega)]

theorem Path_fillInINT (k : SOConst) (env : SOEnv) (sb : SOSuperBlock)
    (h3 : sb.itotal < 4294967296) :
    ∀ (m s : Nat), 1 ≤ s → s + m ≤ sb.itotal → Path (fillInINT k env sb) (List.range' s m) := by
  intro m
  induction m with
  | zero => intro s _ _; trivial
  | succ m ih =>
    intro s hs hm
    cases m with
    | zero => trivial
    | succ m =>
      have ih' := ih (s + 1) (by omega) (by omega)
      simp only [List.range'_succ] at ih' ⊢
      obtain ⟨-, -, a3⟩ := fillInINT_get k env sb s hs (by omega) h3
      obtain ⟨-, b2, -⟩ := fillInINT_get k env sb (s + 1) (by omega) (by omega) h3
      refine ⟨?_, ?_, ih'⟩
      · rw [a3, if_neg (by omega)]
      · rw [b2, if_neg (by omega)]; omega

theorem getLastD_range' (m s a : Nat) (hm : 0 < m) :
    (List.range' s m).getLastD a = s + m - 1 := by
  induction m generalizing s a with
  | zero => omega
  | succ m ih =>
    rw [List.range'_succ, List.getLastD_cons]
    cases m with
    | zero => simp
    | succ m => rw [ih (s + 1) s (by omega)]; omega

theorem IInv_mkfs (k : SOConst) (env : SOEnv) (itotal total nslots : Nat)
    (dz : List SODataClust) (hk : k.Wf) (h1 : 2 ≤ itotal) (h2 : itotal < 4294967296) :
    IInv k (mkfs k env itotal total nslots dz) := by
  have hd : dec32 itotal = itotal - 1 := by simp only [dec32]; omega
  have hit : (mkfs k env itotal total nslots dz).sb.itotal = itotal := rfl
  have htab : (mkfs k env itotal total nslots dz).itable
      = fillInINT k env (fillInSuperBlock itotal total) := rfl
  have hsi : (fillInSuperBlock itotal total).itotal = itotal := rfl
  refine ⟨?_, h2, List.range' 1 (itotal - 1), ?_, ?_, ?_, ?_, ?_, ?_⟩
  · rw [htab, fillInINT_length]; rfl
  · exact List.nodup_range' _ _
  · intro n
    rw [hit, htab, List.mem_range'_1]
    by_cases hn : n = 0
    · subst hn
      have := fillInINT_root k env (fillInSuperBlock itotal total) (by rw [hsi]; exact h1)
      simp only [isFreeInode, this, lor_and_eq_zero hk.2.2.2.2 hk.2.1]
      simp
    · by_cases hn2 : n < itotal
      · obtain ⟨a1, -, -⟩ := fillInINT_get k env (fillInSuperBlock itotal total) n (by omega)
          (by rw [hsi]; exact hn2) (by rw [hsi]; exact h2)
        simp only [isFreeInode, a1, Nat.and_self]
        have := hk.1
        constructor
        · intro _; exact ⟨hn2, this⟩
        · intro _; omega
      · constructor
        · intro h; omega
        · intro h; exact absurd h.1 hn2
  · show dec32 itotal = _
    rw [hd]; simp
  · rw [htab]
    exact Path_fillInINT k env _ (by rw [hsi]; exact h2) _ _ (by omega) (by rw [hsi]; omega)
  · rw [htab]
    obtain ⟨m, hm⟩ : ∃ m, itotal - 1 = m + 1 := ⟨itotal - 2, by omega⟩
    rw [hm, List.range'_succ]
    simp only [Closed]
    have hl : (List.range' (1 + 1) m).getLastD 1 = itotal - 1 := by
      cases m with
      | zero => simp; omega
      | succ m => rw [getLastD_range' _ _ _ (by omega)]; omega
    rw [hl]
    obtain ⟨-, a2, -⟩ := fillInINT_get k env (fillInSuperBlock itotal total) 1 (by omega)
      (by rw [hsi]; omega) (by rw [hsi]; exact h2)
    obtain ⟨-, -, b3⟩ := fillInINT_get k env (fillInSuperBlock itotal total) (itotal - 1)
      (by omega) (by rw [hsi]; omega) (by rw [hsi]; exact h2)
    rw [hsi] at a2 b3
    exact ⟨by rw [b3, if_pos rfl], by rw [a2, if_pos rfl]⟩
  · show (4294967296 + itotal - dec32 itotal) % 4294967296 = _
    obtain ⟨m, hm⟩ : ∃ m, itotal - 1 = m + 1 := ⟨itotal - 2, by omega⟩
    rw [hm, List.range'_succ, List.headD_cons, hd]
    omega

/-! ## Sequences of calls of the inode allocator -/

theorem soAllocInode_badtype (k : SOConst) (env : SOEnv) (v : Volume) (type : Nat)
    (h : type ≠ k.INODE_DIR ∧ type ≠ k.INODE_FILE ∧ type ≠ k.INODE_SYMLINK) :
    soAllocInode k env v type = (-EINVAL, v, 0) := by
  simp only [soAllocInode, if_pos h]

theorem soAllocInode_nospace (k : SOConst) (env : SOEnv) (v : Volume) (type : Nat)
    (h : ¬ (type ≠ k.INODE_DIR ∧ type ≠ k.INODE_FILE ∧ type ≠ k.INODE_SYMLINK))
    (hf : v.sb.ifree = 0) : soAllocInode k env v type = (-ENOSPC, v, 0) := by
  simp only [soAllocInode, if_neg h, if_pos hf]

theorem IInv_step {k : SOConst} {v : Volume} (hk : k.Wf) (hi : IInv k v) (op : INOp) :
    IInv k (inoStep k v op) := by
  cases op with
  | alloc env type =>
    by_cases h : type ≠ k.INODE_DIR ∧ type ≠ k.INODE_FILE ∧ type ≠ k.INODE_SYMLINK
    · simp only [inoStep, soAllocInode_badtype k env v type h]; exact hi
    · by_cases hf : v.sb.ifree = 0
      · simp only [inoStep, soAllocInode_nospace k env v type h hf]; exact hi
      · exact (soAllocInode_spec hk hi (by tauto) hf).2.2.2.2.1
  | free n => exact (soFreeInode_spec hk hi n).1

theorem IInv_run {k : SOConst} (hk : k.Wf) (ops : List INOp) :
    ∀ v : Volume, IInv k v → IInv k (inoRun k v ops) := by
  induction ops with
  | nil => intro v h; exact h
  | cons op ops ih => intro v h; exact ih _ (IInv_step hk h op)

theorem walkNext_eq {t : List SOInode} {stop : Nat} :
    ∀ (l : List Nat) (a fuel : Nat), Path t (a :: l) → (getI t (l.getLastD a)).vD2 = stop →
      stop ∉ l → l.length < fuel → walkNext t stop fuel a = a :: l := by
  intro l
  induction l with
  | nil =>
    intro a fuel _ hc _ hf
    obtain ⟨f, rfl⟩ : ∃ f, fuel = f + 1 := ⟨fuel - 1, by simp at hf; omega⟩
    simp only [List.getLastD_nil] at hc
    simp [walkNext, hc]
  | cons b r ih =>
    intro a fuel hp hc hs hf
    obtain ⟨f, rfl⟩ : ∃ f, fuel = f + 1 := ⟨fuel - 1, by omega⟩
    have hbs : b ≠ stop := fun e => hs (e ▸ List.mem_cons_self _ _)
    rw [List.getLastD_cons] at hc
    have hrec := ih b f hp.2.2 hc (fun h => hs (List.mem_cons_of_mem _ h))
      (by simp only [List.length_cons] at hf; omega)
    simp only [walkNext, hp.1, if_neg hbs, hrec]

theorem freeInodes_eq {k : SOConst} {v : Volume} {l : List Nat}
    (hN : v.sb.itotal < 4294967296) (hfl : FreeList k v l) : freeInodes v = l := by
  obtain ⟨hnd, hmem, -, hpath, hcl, hhd⟩ := hfl
  cases l with
  | nil =>
    simp only [List.headD_nil] at hhd
    simp [freeInodes, hhd]
  | cons h tl =>
    simp only [List.headD_cons] at hhd
    have hh : h < v.sb.itotal := ((hmem h).1 (List.mem_cons_self _ _)).1
    have hnull : ¬ h = NULL_INODE := by simp only [NULL_INODE]; omega
    have hll : (h :: tl).length ≤ v.sb.itotal :=
      nodup_length_le hnd (fun x hx => ((hmem x).1 hx).1)
    simp only [List.length_cons] at hll
    simp only [freeInodes, hhd, if_neg hnull]
    exact walkNext_eq tl h _ hpath hcl.1 (List.nodup_cons.1 hnd).1 (by omega)

theorem CircularFreeList_of_IInv {k : SOConst} {v : Volume} (hi : IInv k v) :
    CircularFreeList k v := by
  obtain ⟨hlen, hN, l, hfl⟩ := hi
  have he := freeInodes_eq hN hfl
  obtain ⟨hnd, hmem, hifree, hpath, hcl, hhd⟩ := hfl
  unfold CircularFreeList
  rw [he]
  refine ⟨?_, hmem, hnd, hifree.symm, ?_⟩
  · cases l with
    | nil => intro x hx; simp at hx
    | cons h tl =>
      have hcyc : Path v.itable (h :: tl ++ [h]) := (Path_snoc h tl h).2 ⟨hpath, hcl.1, hcl.2⟩
      intro x hx
      have hx' : x ∈ tl ++ [h] := by
        rcases List.mem_cons.1 hx with rfl | hx
        · simp
        · exact List.mem_append_left _ hx
      obtain ⟨a1, a2⟩ := Path_succ (h :: tl) h hcyc x hx
      obtain ⟨b1, b2⟩ := Path_pred (tl ++ [h]) h hcyc x hx'
      refine ⟨a1, b1, ?_, ?_⟩
      · simp only [List.tail_cons, List.mem_append, List.mem_singleton] at a2
        rcases a2 with a2 | a2
        · exact List.mem_cons_of_mem _ a2
        · rw [a2]; exact List.mem_cons_self _ _
      · have hdl : (h :: (tl ++ [h])).dropLast = h :: tl := by
          rw [← List.cons_append, List.dropLast_concat]
        rw [hdl] at b2
        exact b2
  · cases l with
    | nil =>
      simp only [List.headD_nil] at hhd
      simp [hhd, hifree]
    | cons h tl =>
      simp only [List.headD_cons] at hhd
      have hh : h < v.sb.itotal := ((hmem h).1 (List.mem_cons_self _ _)).1
      have hnull : ¬ h = NULL_INODE := by simp only [NULL_INODE]; omega
      simp [hhd, hnull, hifree]

/-! ## Claims on the inode allocator -/

/-- C3: starting from a freshly formatted volume, after every sequence of `soAllocInode` /
`soFreeInode` calls the inodes reachable from `ihdtl` through the `next` fields form a
circular double-linked list (`prev (next x) = x` and `next (prev x) = x` for every node) that
contains exactly the inodes whose free flag is set, each exactly once, whose length equals
`ifree`, and `ihdtl = NULL_INODE` exactly when `ifree = 0`. -/
theorem C3_free_inodes_circular_list (k : SOConst) (env : SOEnv) (itotal total nslots : Nat)
    (dz : List SODataClust) (ops : List INOp)
    (hk : k.Wf) (h1 : 2 ≤ itotal) (h2 : itotal < 4294967296) :
    CircularFreeList k (inoRun k (mkfs k env itotal total nslots dz) ops) :=
  CircularFreeList_of_IInv (IInv_run hk ops _ (IInv_mkfs k env itotal total nslots dz hk h1 h2))

/-- C3, on a volume of 4 inodes after three allocations, two releases and a release that is
refused. -/
theorem C3_free_inodes_circular_list_witness :
    (exampleConst.Wf ∧ 2 ≤ 4 ∧ 4 < 4294967296) ∧
    CircularFreeList exampleConst (inoRun exampleConst (mkfs exampleConst exampleEnv 4 3 4 [])
      [INOp.alloc exampleEnv 1024, INOp.alloc exampleEnv 2048, INOp.alloc exampleEnv 512,
        INOp.free 2, INOp.free 1, INOp.free 2]) :=
  ⟨by decide, C3_free_inodes_circular_list exampleConst exampleEnv 4 3 4 []
    [INOp.alloc exampleEnv 1024, INOp.alloc exampleEnv 2048, INOp.alloc exampleEnv 512,
      INOp.free 2, INOp.free 1, INOp.free 2] (by decide) (by decide) (by decide)⟩

/-- C6: for every type among `INODE_DIR`, `INODE_FILE` and `INODE_SYMLINK` and every
consistent state with `ifree > 0`, `soAllocInode` succeeds, returns the inode number that was
in `ihdtl` before the call, decrements `ifree` by one, and leaves that inode with `mode`
equal to exactly the type (free flag clear), `refcount = 0`, `size = 0`, `clucount = 0`,
`atime = mtime =` current time, owner and group the ids of the caller, and `d[]`, `i1`, `i2`
all `NULL_CLUSTER`. -/
theorem C6_alloc_inode_initialises (k : SOConst) (env : SOEnv) (v : Volume) (type : Nat)
    (hk : k.Wf) (hi : IInv k v)
    (ht : type = k.INODE_DIR ∨ type = k.INODE_FILE ∨ type = k.INODE_SYMLINK)
    (hf : 0 < v.sb.ifree) :
    (soAllocInode k env v type).1 = 0 ∧
    (soAllocInode k env v type).2.2 = v.sb.ihdtl ∧
    (soAllocInode k env v type).2.1.sb.ifree + 1 = v.sb.ifree ∧
    getI (soAllocInode k env v type).2.1.itable v.sb.ihdtl =
      { mode := type, refcount := 0, owner := env.uid, group := env.gid, size := 0,
        clucount := 0, vD1 := env.now, vD2 := env.now,
        d := List.replicate k.N_DIRECT NULL_CLUSTER, i1 := NULL_CLUSTER, i2 := NULL_CLUSTER } ∧
    ¬ isFreeInode k (getI (soAllocInode k env v type).2.1.itable v.sb.ihdtl) := by
  obtain ⟨a1, a2, a3, a4, -⟩ := @soAllocInode_spec k env v type hk hi ht (by omega)
  refine ⟨a1, a2, a3, a4, ?_⟩
  rw [a4]
  simp [isFreeInode, type_not_free hk ht]

/-- C6, on the freshly formatted volume of 4 inodes, for a regular file. -/
theorem C6_alloc_inode_initialises_witness :
    (exampleConst.Wf ∧
      (1024 = exampleConst.INODE_DIR ∨ 1024 = exampleConst.INODE_FILE ∨
        1024 = exampleConst.INODE_SYMLINK) ∧
      0 < (mkfs exampleConst exampleEnv 4 3 4 []).sb.ifree) ∧
    ((soAllocInode exampleConst exampleEnv (mkfs exampleConst exampleEnv 4 3 4 []) 1024).1 = 0 ∧
    (soAllocInode exampleConst exampleEnv (mkfs exampleConst exampleEnv 4 3 4 []) 1024).2.2
      = (mkfs exampleConst exampleEnv 4 3 4 []).sb.ihdtl ∧
    (soAllocInode exampleConst exampleEnv (mkfs exampleConst exampleEnv 4 3 4 []) 1024).2.1.sb.ifree
      + 1 = (mkfs exampleConst exampleEnv 4 3 4 []).sb.ifree ∧
    getI (soAllocInode exampleConst exampleEnv (mkfs exampleConst exampleEnv 4 3 4 []) 1024).2.1.itable
        (mkfs exampleConst exampleEnv 4 3 4 []).sb.ihdtl =
      { mode := 1024, refcount := 0, owner := exampleEnv.uid, group := exampleEnv.gid, size := 0,
        clucount := 0, vD1 := exampleEnv.now, vD2 := exampleEnv.now,
        d := List.replicate exampleConst.N_DIRECT NULL_CLUSTER, i1 := NULL_CLUSTER,
        i2 := NULL_CLUSTER } ∧
    ¬ isFreeInode exampleConst
      (getI (soAllocInode exampleConst exampleEnv (mkfs exampleConst exampleEnv 4 3 4 []) 1024).2.1.itable
        (mkfs exampleConst exampleEnv 4 3 4 []).sb.ihdtl)) :=
  ⟨by decide, C6_alloc_inode_initialises exampleConst exampleEnv
    (mkfs exampleConst exampleEnv 4 3 4 []) 1024 (by decide)
    (IInv_mkfs exampleConst exampleEnv 4 3 4 [] (by decide) (by decide) (by decide))
    (by decide) (by decide)⟩

/-! ## Claims on `soHandleFileCluster`, `soHandleFileClusters`, `soWriteInode` and
`soAccessGranted` that the code does not meet -/

/-- C9 (the code diverges): on the formatted volume of 3 data clusters, after index 2 of the
root directory was allocated, the slot of index 2 holds the reference 2 and `dzone_free` is
0; `soHandleFileCluster (0, 2, ALLOC)` then returns `-ENOSPC`, not `-EDCARDYIL`: the case
`ALLOC` of `soHandleSIndirect` tests `dzone_free` before it looks at the slot, whereas
`soHandleDirect` on an occupied slot returns `-EDCARDYIL` with `dzone_free = 0`. -/
theorem C9_alloc_occupied_slot_reports_no_space :
    (soHandleFileCluster exampleConst exampleEnv
      (allocClusters exampleConst exampleEnv (exampleVolume 3) 0 [2]) 0 2 GET).1 = 0 ∧
    (soHandleFileCluster exampleConst exampleEnv
      (allocClusters exampleConst exampleEnv (exampleVolume 3) 0 [2]) 0 2 GET).2.2 = 2 ∧
    (allocClusters exampleConst exampleEnv (exampleVolume 3) 0 [2]).sb.dzone_free = 0 ∧
    (soHandleFileCluster exampleConst exampleEnv
      (allocClusters exampleConst exampleEnv (exampleVolume 3) 0 [2]) 0 2 ALLOC).1 = -ENOSPC ∧
    (soHandleFileCluster exampleConst exampleEnv
      (allocClusters exampleConst exampleEnv (exampleVolume 3) 0 [2]) 0 0 ALLOC).1
      = -EDCARDYIL := by
  decide

/-- C10 (the code diverges): on the formatted volume of 1 data cluster `dzone_free` is 0 and
the direct slot `d[1]` of the root directory is `NULL_CLUSTER`;
`soHandleFileCluster (0, 1, ALLOC)` returns `-ELIBBAD`, not `-ENOSPC`, whereas on the single
indirect slot of index 2 and on the double indirect slot of index 4 it returns `-ENOSPC`. No
reference, `clucount` or `dzone_free` changes. -/
theorem C10_direct_alloc_no_space_reports_libbad :
    (exampleVolume 1).sb.dzone_free = 0 ∧
    (getI (exampleVolume 1).itable 0).d.getD 1 0 = NULL_CLUSTER ∧
    (soHandleFileCluster exampleConst exampleEnv (exampleVolume 1) 0 1 ALLOC).1 = -ELIBBAD ∧
    (soHandleFileCluster exampleConst exampleEnv (exampleVolume 1) 0 2 ALLOC).1 = -ENOSPC ∧
    (soHandleFileCluster exampleConst exampleEnv (exampleVolume 1) 0 4 ALLOC).1 = -ENOSPC ∧
    (soHandleFileCluster exampleConst exampleEnv (exampleVolume 1) 0 1 ALLOC).2.1.sb
      = (exampleVolume 1).sb ∧
    (getI (soHandleFileCluster exampleConst exampleEnv (exampleVolume 1) 0 1 ALLOC).2.1.itable 0).d
      = (getI (exampleVolume 1).itable 0).d ∧
    (getI (soHandleFileCluster exampleConst exampleEnv (exampleVolume 1) 0 1 ALLOC).2.1.itable
      0).clucount = (getI (exampleVolume 1).itable 0).clucount := by
  decide

/-- C11 (the code diverges): on the formatted volume of 5 data clusters, after index 4 of the
root directory was allocated, the clusters `i2` and slot 0 of `i2` exist, the slot of index 5
is `NULL_CLUSTER` and `dzone_free` is 1, the one cluster the allocation of index 5 needs;
`soHandleFileCluster (0, 5, ALLOC)` returns `-ENOSPC`: the case `ALLOC` of
`soHandleDIndirect` asks for two free clusters whenever `i2` exists. -/
theorem C11_double_indirect_alloc_needs_two :
    (getI (allocClusters exampleConst exampleEnv (exampleVolume 5) 0 [4]).itable 0).i2 = 1 ∧
    getRef (getDC (allocClusters exampleConst exampleEnv (exampleVolume 5) 0 [4]).dzone 1) 0
      = 2 ∧
    (soHandleFileCluster exampleConst exampleEnv
      (allocClusters exampleConst exampleEnv (exampleVolume 5) 0 [4]) 0 5 GET).1 = 0 ∧
    (soHandleFileCluster exampleConst exampleEnv
      (allocClusters exampleConst exampleEnv (exampleVolume 5) 0 [4]) 0 5 GET).2.2
      = NULL_CLUSTER ∧
    (allocClusters exampleConst exampleEnv (exampleVolume 5) 0 [4]).sb.dzone_free = 1 ∧
    (soHandleFileCluster exampleConst exampleEnv
      (allocClusters exampleConst exampleEnv (exampleVolume 5) 0 [4]) 0 5 ALLOC).1
      = -ENOSPC := by
  decide

/-- C14 (the code diverges): with `N_DIRECT = 2` and `RPC = 2`, `MAX_FILE_CLUSTERS` is 8. On
the formatted volume of 3 data clusters `soHandleFileCluster (0, 8, GET)` returns 0 and
stores `NULL_CLUSTER`, not `-EINVAL`: the test of line 91 is `clustInd > N_DIRECT + RPC +
RPC * RPC`. The index 9 is rejected with `-EINVAL`. -/
theorem C14_index_max_file_clusters_accepted :
    MAX_FILE_CLUSTERS exampleConst = 8 ∧
    (soHandleFileCluster exampleConst exampleEnv (exampleVolume 3) 0 8 GET).1 = 0 ∧
    (soHandleFileCluster exampleConst exampleEnv (exampleVolume 3) 0 8 GET).2.2
      = NULL_CLUSTER ∧
    (soHandleFileCluster exampleConst exampleEnv (exampleVolume 3) 0 9 GET).1 = -EINVAL := by
  decide

/-- C15 (the code diverges): with `N_DIRECT = 2` and `RPC = 2`, on the formatted volume of 16
data clusters, after the indices 4, 5, 6 and 7 of the root directory were allocated,
`soHandleFileClusters (0, 5)` returns 0 and `soHandleFileCluster (0, 6, GET)` still gives
the data cluster 6 that it gave before, not `NULL_CLUSTER`: for every cluster of direct
references the inner loop starts at `(clustIndIn - N_DIRECT - RPC) % RPC`, here 1, and
not only for the first one. The indices 5 and 7 are freed. -/
theorem C15_handle_file_clusters_skips_references :
    (soHandleFileCluster exampleConst exampleEnv
      (allocClusters exampleConst exampleEnv (exampleVolume 16) 0 [4, 5, 6, 7]) 0 6 GET).2.2
      = 6 ∧
    (soHandleFileClusters exampleConst exampleEnv
      (allocClusters exampleConst exampleEnv (exampleVolume 16) 0 [4, 5, 6, 7]) 0 5).1 = 0 ∧
    (soHandleFileCluster exampleConst exampleEnv
      (soHandleFileClusters exampleConst exampleEnv
        (allocClusters exampleConst exampleEnv (exampleVolume 16) 0 [4, 5, 6, 7]) 0 5).2
      0 6 GET).1 = 0 ∧
    (soHandleFileCluster exampleConst exampleEnv
      (soHandleFileClusters exampleConst exampleEnv
        (allocClusters exampleConst exampleEnv (exampleVolume 16) 0 [4, 5, 6, 7]) 0 5).2
      0 6 GET).2.2 = 6 ∧
    (soHandleFileCluster exampleConst exampleEnv
      (soHandleFileClusters exampleConst exampleEnv
        (allocClusters exampleConst exampleEnv (exampleVolume 16) 0 [4, 5, 6, 7]) 0 5).2
      0 5 GET).2.2 = NULL_CLUSTER ∧
    (soHandleFileCluster exampleConst exampleEnv
      (soHandleFileClusters exampleConst exampleEnv
        (allocClusters exampleConst exampleEnv (exampleVolume 16) 0 [4, 5, 6, 7]) 0 5).2
      0 7 GET).2.2 = NULL_CLUSTER := by
  decide

/-- C17 (the code diverges): on the formatted volume the inode 1 is free, its `next` is 2
and it is in the list of free inodes; `soWriteInode (&exampleFile, 1)` returns 0 and stores
the record of the caller with the two times set, so that the free flag and the links of the
inode are lost while `ifree` and `ihdtl` still count it: the check of line 68 is applied to
the record of the caller, whereas `soReadInode` applies it to the inode of the table. -/
theorem C17_write_inode_overwrites_free_inode :
    isFreeInode exampleConst (getI (exampleVolume 3).itable 1) ∧
    1 ∈ freeInodes (exampleVolume 3) ∧
    (getI (exampleVolume 3).itable 1).vD2 = 2 ∧
    (soReadInode exampleConst exampleEnv (exampleVolume 3) 1).1 = -EIUININVAL ∧
    (soWriteInode exampleConst exampleEnv (exampleVolume 3) exampleFile 1).1 = 0 ∧
    getI (soWriteInode exampleConst exampleEnv (exampleVolume 3) exampleFile 1).2.itable 1
      = { exampleFile with vD1 := exampleEnv.now, vD2 := exampleEnv.now } ∧
    (soWriteInode exampleConst exampleEnv (exampleVolume 3) exampleFile 1).2.sb.ihdtl = 1 ∧
    (soWriteInode exampleConst exampleEnv (exampleVolume 3) exampleFile 1).2.sb.ifree = 3 := by
  decide

/-- C18 (the code diverges): for the user `root`, on an inode in use whose permissions are
`--x------` (only the execute bit of the user), `soAccessGranted (1, X)` returns `-EACCES`
and so does `soAccessGranted (1, R | W)`: the test of line 82 asks for the three execute
bits together, and it is reached by every request other than `R` alone and `W` alone. -/
theorem C18_root_access_denied :
    soQCheckInodeIU exampleConst (getI userExecVolume.itable 1) = 0 ∧
    (getI userExecVolume.itable 1).mode &&& (X <<< 6) ≠ 0 ∧
    (soAccessGranted exampleConst rootEnv userExecVolume 1 X).1 = -EACCES ∧
    (soAccessGranted exampleConst rootEnv userExecVolume 1 (R ||| W)).1 = -EACCES ∧
    (soAccessGranted exampleConst rootEnv userExecVolume 1 R).1 = 0 ∧
    (soAccessGranted exampleConst rootEnv userExecVolume 1 W).1 = 0 := by
  decide

/-! ## Access rights of a process that is not `root` -/

theorem and_eq_right_iff_testBit (m b : Nat) :
    m &&& b = b ↔ ∀ i, b.testBit i = true → m.testBit i = true := by
  constructor
  · intro h i hb
    have := congrArg (fun x => x.testBit i) h
    simp only [Nat.testBit_and, hb, Bool.and_true] at this
    exact this
  · intro h
    apply Nat.eq_of_testBit_eq
    intro i
    rw [Nat.testBit_and]
    cases hb : b.testBit i
    · simp
    · simp [h i hb]

theorem testBit_false_of_le_seven {op : Nat} (h : op ≤ 7) {i : Nat} (hi : 3 ≤ i) :
    op.testBit i = false :=
  Nat.testBit_eq_false_of_lt (lt_of_lt_of_le (by omega : op < 2 ^ 3)
    (Nat.pow_le_pow_right (by decide) hi))

theorem and_shift_eq_iff (m op s : Nat) (h : op ≤ 7) :
    m &&& (op <<< s) = op <<< s ↔ ∀ i, i < 3 → op.testBit i = true → m.testBit (i + s) = true := by
  rw [and_eq_right_iff_testBit]
  constructor
  · intro hh i _ hb
    apply hh (i + s)
    rw [Nat.testBit_shiftLeft]
    simp [hb]
  · intro hh j hj
    rw [Nat.testBit_shiftLeft] at hj
    simp only [ge_iff_le, Bool.and_eq_true, decide_eq_true_eq] at hj
    have h3 : j - s < 3 := by
      by_contra hc
      rw [testBit_false_of_le_seven h (by omega)] at hj
      exact absurd hj.2 (by simp)
    have := hh (j - s) h3 hj.2
    rwa [Nat.sub_add_cancel hj.1] at this

theorem or_seven_eq_iff (op : Nat) : op ||| (R ||| W ||| X) = (R ||| W ||| X) ↔ op ≤ 7 := by
  show op ||| 7 = 7 ↔ op ≤ 7
  constructor
  · intro h
    by_contra hc
    have hex : ∃ i, 3 ≤ i ∧ op.testBit i = true := by
      by_contra hne
      have hall : ∀ i, i ≥ 3 → op.testBit i = false := by
        intro i hi
        cases hb : op.testBit i
        · rfl
        · exact absurd ⟨i, hi, hb⟩ hne
      have := Nat.lt_pow_two_of_testBit op hall
      omega
    obtain ⟨i, hi, hb⟩ := hex
    have h1 := congrArg (fun x => x.testBit i) h
    simp only [Nat.testBit_or, hb, Bool.true_or] at h1
    rw [testBit_false_of_le_seven (le_refl 7) hi] at h1
    exact absurd h1 (by simp)
  · intro h
    interval_cases op <;> rfl

theorem soReadInode_ok (k : SOConst) (env : SOEnv) (v : Volume) (nInode : Nat)
    (hn : nInode < v.sb.itotal) (hiu : soQCheckInodeIU k (getI v.itable nInode) = 0) :
    soReadInode k env v nInode =
      (0, { v with itable := v.itable.set nInode { getI v.itable nInode with vD1 := env.now } },
        { getI v.itable nInode with vD1 := env.now }) := by
  have h1 : ¬ nInode ≥ v.sb.itotal := by omega
  have h2 : soConvertRefInT v nInode = 0 := by simp [soConvertRefInT, h1]
  simp [soReadInode, h1, h2, hiu]

theorem soAccessGranted_user (k : SOConst) (env : SOEnv) (v : Volume) (nInode op : Nat)
    (hroot : ¬ (env.uid = 0 ∧ env.gid = 0)) (hn : nInode < v.sb.itotal)
    (hN : v.sb.itotal < 4294967296)
    (hiu : soQCheckInodeIU k (getI v.itable nInode) = 0) (h0 : op ≠ 0) (h7 : op ≤ 7) :
    (soAccessGranted k env v nInode op).1 =
      if (getI v.itable nInode).mode &&&
          (op <<< (if (getI v.itable nInode).owner = env.uid then 6
                   else if (getI v.itable nInode).group = env.gid then 3 else 0))
          = op <<< (if (getI v.itable nInode).owner = env.uid then 6
                   else if (getI v.itable nInode).group = env.gid then 3 else 0)
      then 0 else -EACCES := by
  have hop : ¬ ((op ||| (R ||| W ||| X)) ≠ (R ||| W ||| X) ∨ op = 0) := by
    rw [not_or, not_not]
    exact ⟨(or_seven_eq_iff op).2 h7, h0⟩
  have hr : ¬ nInode > dec32 v.sb.itotal := by
    unfold dec32; omega
  unfold soAccessGranted
  rw [if_neg hop, if_neg hr]
  simp only [soReadInode_ok k env v nInode hn hiu]
  rw [if_neg (by simp), if_neg hroot]
  by_cases ho : (getI v.itable nInode).owner = env.uid
  · simp only [ho, if_true]
    by_cases hc : (getI v.itable nInode).mode &&& (op <<< 6) = op <<< 6
    · simp [hc]
    · simp [hc]
  · simp only [ho, if_false]
    by_cases hg : (getI v.itable nInode).group = env.gid
    · simp only [hg, if_true]
      by_cases hc : (getI v.itable nInode).mode &&& (op <<< 3) = op <<< 3
      · simp [hc]
      · simp [hc]
    · simp only [hg, if_false, Nat.shiftLeft_zero]
      by_cases hc : (getI v.itable nInode).mode &&& op = op
      · simp [hc]
      · simp [hc]

/-- C19: when the caller is not `root`, for every inode in use and every request `op` that
is a non-empty subset of `{R, W, X}`, `soAccessGranted` returns 0 exactly when every bit of
`op` is set in the permission triple of the matching class (bits 6 to 8 of `mode` if
`owner = uid`, else bits 3 to 5 if `group = gid`, else bits 0 to 2) and `-EACCES` otherwise;
a request that is 0 or has a bit outside `R | W | X` yields `-EINVAL`. -/
theorem C19_access_granted_non_root (k : SOConst) (env : SOEnv) (v : Volume) (nInode op : Nat)
    (hroot : ¬ (env.uid = 0 ∧ env.gid = 0)) (hn : nInode < v.sb.itotal)
    (hN : v.sb.itotal < 4294967296)
    (hiu : soQCheckInodeIU k (getI v.itable nInode) = 0) :
    ((op = 0 ∨ ∃ i, 3 ≤ i ∧ op.testBit i = true) →
      (soAccessGranted k env v nInode op).1 = -EINVAL) ∧
    (op ≠ 0 → (∀ i, 3 ≤ i → op.testBit i = false) →
      ((soAccessGranted k env v nInode op).1 = 0 ↔
        ∀ i, i < 3 → op.testBit i = true →
          (getI v.itable nInode).mode.testBit
            (i + (if (getI v.itable nInode).owner = env.uid then 6
                  else if (getI v.itable nInode).group = env.gid then 3 else 0)) = true) ∧
      ((soAccessGranted k env v nInode op).1 ≠ 0 →
        (soAccessGranted k env v nInode op).1 = -EACCES)) := by
  constructor
  · intro h
    have hop : (op ||| (R ||| W ||| X)) ≠ (R ||| W ||| X) ∨ op = 0 := by
      rcases h with h | ⟨i, hi, hb⟩
      · exact Or.inr h
      · left
        rw [Ne, or_seven_eq_iff]
        intro h7
        rw [testBit_false_of_le_seven h7 hi] at hb
        exact absurd hb (by simp)
    simp only [soAccessGranted, if_pos hop]
  · intro h0 hb
    have h7 : op ≤ 7 := by
      have := Nat.lt_pow_two_of_testBit op (n := 3) (fun i hi => hb i hi)
      omega
    rw [soAccessGranted_user k env v nInode op hroot hn hN hiu h0 h7,
      ← and_shift_eq_iff _ _ _ h7]
    constructor
    · constructor
      · intro h
        by_contra hc
        rw [if_neg hc] at h
        exact absurd h (by decide)
      · intro h
        rw [if_pos h]
    · intro h
      by_cases hc : (getI v.itable nInode).mode &&&
          (op <<< (if (getI v.itable nInode).owner = env.uid then 6
                   else if (getI v.itable nInode).group = env.gid then 3 else 0))
          = op <<< (if (getI v.itable nInode).owner = env.uid then 6
                   else if (getI v.itable nInode).group = env.gid then 3 else 0)
      · rw [if_pos hc] at h
        exact absurd rfl h
      · rw [if_neg hc]

/-- C19, for a process that belongs to the group of the root directory of the formatted
volume and asks for `R | X`. -/
theorem C19_access_granted_non_root_witness :
    (¬ (1001 = 0 ∧ 1000 = 0) ∧ 0 < (exampleVolume 3).sb.itotal ∧
      (exampleVolume 3).sb.itotal < 4294967296 ∧
      soQCheckInodeIU exampleConst (getI (exampleVolume 3).itable 0) = 0) ∧
    (((5 = 0 ∨ ∃ i, 3 ≤ i ∧ Nat.testBit 5 i = true) →
      (soAccessGranted exampleConst { uid := 1001, gid := 1000, now := 0 } (exampleVolume 3) 0
        5).1 = -EINVAL) ∧
    (5 ≠ 0 → (∀ i, 3 ≤ i → Nat.testBit 5 i = false) →
      ((soAccessGranted exampleConst { uid := 1001, gid := 1000, now := 0 } (exampleVolume 3) 0
          5).1 = 0 ↔
        ∀ i, i < 3 → Nat.testBit 5 i = true →
          (getI (exampleVolume 3).itable 0).mode.testBit
            (i + (if (getI (exampleVolume 3).itable 0).owner = 1001 then 6
                  else if (getI (exampleVolume 3).itable 0).group = 1000 then 3 else 0)) = true) ∧
      ((soAccessGranted exampleConst { uid := 1001, gid := 1000, now := 0 } (exampleVolume 3) 0
          5).1 ≠ 0 →
        (soAccessGranted exampleConst { uid := 1001, gid := 1000, now := 0 } (exampleVolume 3) 0
          5).1 = -EACCES))) :=
  ⟨by decide, C19_access_granted_non_root exampleConst { uid := 1001, gid := 1000, now := 0 }
    (exampleVolume 3) 0 5 (by decide) (by decide) (by decide) (by decide)⟩

/-! ## `soHandleFileCluster`: the frame of the three handlers -/

theorem IInv_set_inuse {k : SOConst} {v : Volume} (hi : IInv k v) (n : Nat) (p : SOInode)
    (hnf : ¬ isFreeInode k (getI v.itable n)) (hp : ¬ isFreeInode k p) :
    IInv k { v with itable := v.itable.set n p } := by
  obtain ⟨hlen, hN, l, hnd, hmem, hifree, hpath, hcl, hhd⟩ := hi
  have hnl : n < v.sb.itotal → n ∉ l := fun hlt hx => hnf ((hmem n).1 hx).2
  have hsame : ∀ x ∈ l, getI (v.itable.set n p) x = getI v.itable x := by
    intro x hx
    rw [getI_set]
    split_ifs with hc
    · exfalso
      obtain ⟨rfl, hlt⟩ := hc
      exact hnl (hlen ▸ hlt) hx
    · rfl
  refine ⟨by simp [hlen], hN, l, hnd, ?_, hifree, Path_congr_mem l hsame hpath,
    Closed_congr_mem l hsame hcl, hhd⟩
  intro x
  show x ∈ l ↔ x < v.sb.itotal ∧ isFreeInode k (getI (v.itable.set n p) x)
  rw [hmem x, getI_set]
  split_ifs with hc
  · obtain ⟨rfl, _⟩ := hc
    exact ⟨fun h => absurd h.2 hnf, fun h => absurd h.2 hp⟩
  · rfl

theorem soQCheckInT_of_IInv {k : SOConst} {v : Volume} (hi : IInv k v) :
    soQCheckInT k v = 0 := by
  obtain ⟨-, hmem, -, hlen, -⟩ := CircularFreeList_of_IInv hi
  unfold soQCheckInT
  rw [if_pos ⟨hi.1, hlen, fun n hn => (hmem n).1 hn⟩]

theorem soQCheckDZ_set_itable (v : Volume) (t : List SOInode) :
    soQCheckDZ { v with itable := t } = soQCheckDZ v := rfl

theorem soWriteInode_ok (k : SOConst) (env : SOEnv) (v : Volume) (p : SOInode) (nInode : Nat)
    (hn : nInode < v.sb.itotal) (hiu : soQCheckInodeIU k p = 0) :
    soWriteInode k env v p nInode =
      (0, { v with itable := v.itable.set nInode { p with vD1 := env.now, vD2 := env.now } }) := by
  have h1 : ¬ nInode ≥ v.sb.itotal := by omega
  have h2 : soConvertRefInT v nInode = 0 := by simp [soConvertRefInT, h1]
  simp [soWriteInode, h1, h2, hiu]

theorem soQCheckInodeIU_congr (k : SOConst) {p q : SOInode} (h : p.mode = q.mode) :
    soQCheckInodeIU k p = soQCheckInodeIU k q := by
  simp only [soQCheckInodeIU, h]

theorem soHandleFileCluster_eq {k : SOConst} (env : SOEnv) {v : Volume} {nInode : Nat}
    (clustInd : Nat) {op : Nat} (hi : IInv k v) (hdz : soQCheckDZ v = 0)
    (hn : nInode < v.sb.itotal) (hiu : soQCheckInodeIU k (getI v.itable nInode) = 0)
    (hc : clustInd ≤ MAX_FILE_CLUSTERS k) (hop : op = GET ∨ op = ALLOC ∨ op = FREE) :
    soHandleFileCluster k env v nInode clustInd op =
      writeBack k env nInode
        (handleRef k (readVolume env v nInode) (readRecord env v nInode) clustInd op) := by
  have hN := hi.2.1
  have hr : ¬ nInode > dec32 v.sb.itotal := by unfold dec32; omega
  have hnf := soQCheckInodeIU_not_free hiu
  have hiu' : soQCheckInodeIU k (readRecord env v nInode) = 0 :=
    (soQCheckInodeIU_congr k (by rfl)).trans hiu
  have hi' : IInv k (readVolume env v nInode) :=
    IInv_set_inuse hi nInode _ hnf (soQCheckInodeIU_not_free hiu')
  have hc' : ¬ clustInd > k.N_DIRECT + k.RPC + k.RPC * k.RPC := by
    unfold MAX_FILE_CLUSTERS at hc; omega
  have hop' : ¬ (op ≠ GET ∧ op ≠ ALLOC ∧ op ≠ FREE) := by tauto
  have hq1 : soQCheckInT k (readVolume env v nInode) = 0 := soQCheckInT_of_IInv hi'
  have hq2 : soQCheckDZ (readVolume env v nInode) = 0 := hdz
  unfold soHandleFileCluster
  rw [if_neg hr]
  simp only [soReadInode_ok k env v nInode hn hiu]
  rw [if_neg (by simp), if_neg hc', if_neg hop']
  change (if soQCheckInT k (readVolume env v nInode) ≠ 0 then _ else _) = _
  rw [if_neg (by rw [hq1]; simp)]
  change (if soQCheckDZ (readVolume env v nInode) ≠ 0 then _ else _) = _
  rw [if_neg (by rw [hq2]; simp)]
  rfl

/-! ## `soHandleFileCluster`: the operation `GET` -/

theorem div_rpc_lt {k : SOConst} {c : Nat} (hc : c < MAX_FILE_CLUSTERS k)
    (h2 : ¬ c < k.N_DIRECT + k.RPC) : (c - k.N_DIRECT - k.RPC) / k.RPC < k.RPC := by
  unfold MAX_FILE_CLUSTERS at hc
  have hpos : 0 < k.RPC := by
    rcases Nat.eq_zero_or_pos k.RPC with h | h
    · rw [h] at hc h2; omega
    · exact h
  rw [Nat.div_lt_iff_lt_mul hpos]
  omega

theorem handleRef_get {k : SOConst} {v : Volume} {p : SOInode} {c : Nat}
    (hc : c < MAX_FILE_CLUSTERS k) (hz : RefsInZone k v.dzone p) :
    handleRef k v p c GET = (0, v, p, refOfIndex k v.dzone p c) := by
  obtain ⟨hz1, hz2⟩ := hz
  unfold handleRef refOfIndex
  by_cases h1 : c < k.N_DIRECT
  · simp [h1, soHandleDirect, GET, ALLOC]
  · rw [if_neg h1, if_neg h1]
    by_cases h2 : c < k.N_DIRECT + k.RPC
    · rw [if_pos h2, if_pos h2]
      by_cases hn : p.i1 = NULL_CLUSTER
      · simp [soHandleSIndirect, hn]
      · have := hz1 hn
        simp [soHandleSIndirect, hn, soLoadDirRefClust, this]
    · rw [if_neg h2, if_neg h2]
      by_cases hn : p.i2 = NULL_CLUSTER
      · simp [soHandleDIndirect, hn]
      · obtain ⟨hl, hq⟩ := hz2 hn
        by_cases ht : getRef (getDC v.dzone p.i2) ((c - k.N_DIRECT - k.RPC) / k.RPC)
            = NULL_CLUSTER
        · simp [soHandleDIndirect, hn, soLoadSngIndRefClust, hl, ht]
        · have := hq _ (div_rpc_lt hc h2) ht
          simp [soHandleDIndirect, hn, soLoadSngIndRefClust, hl, ht, soLoadDirRefClust, this]

theorem soHandleFileCluster_get {k : SOConst} (env : SOEnv) {v : Volume} {nInode c : Nat}
    (hi : IInv k v) (hdz : soQCheckDZ v = 0)
    (hn : nInode < v.sb.itotal) (hiu : soQCheckInodeIU k (getI v.itable nInode) = 0)
    (hc : c < MAX_FILE_CLUSTERS k) (hz : RefsInZone k v.dzone (getI v.itable nInode)) :
    soHandleFileCluster k env v nInode c GET =
      (0, { v with itable := v.itable.set nInode
                               { getI v.itable nInode with vD1 := env.now, vD2 := env.now } },
        refOfIndex k v.dzone (getI v.itable nInode) c) := by
  rw [soHandleFileCluster_eq env c hi hdz hn hiu (le_of_lt hc) (Or.inl rfl),
    handleRef_get hc (show RefsInZone k (readVolume env v nInode).dzone
      (readRecord env v nInode) from hz)]
  have hiu' : soQCheckInodeIU k (readRecord env v nInode) = 0 :=
    (soQCheckInodeIU_congr k (by rfl)).trans hiu
  unfold writeBack
  simp only [soWriteInode_ok k env (readVolume env v nInode) (readRecord env v nInode) nInode hn
    hiu']
  simp [readVolume, readRecord, refOfIndex]

/-- C8: for every inode in use and every index `c` in `[0, MAX_FILE_CLUSTERS)`,
`soHandleFileCluster (nInode, c, GET)` returns 0 and gives `d[c]` when `c < N_DIRECT`; when
`N_DIRECT <= c < N_DIRECT + RPC`, `NULL_CLUSTER` if `i1` is `NULL_CLUSTER` and otherwise slot
`c - N_DIRECT` of the cluster `i1`; otherwise, with `q = (c - N_DIRECT - RPC) div RPC` and
`r = (c - N_DIRECT - RPC) mod RPC`, `NULL_CLUSTER` if `i2` is `NULL_CLUSTER` or slot `q` of
the cluster `i2` is `NULL_CLUSTER`, and otherwise slot `r` of the cluster that slot refers
to; and `GET` changes neither `d[]`, `i1`, `i2`, `clucount` nor the superblock nor the data
zone. -/
theorem C8_get_reference (k : SOConst) (env : SOEnv) (v : Volume) (nInode c : Nat)
    (hi : IInv k v) (hdz : soQCheckDZ v = 0)
    (hn : nInode < v.sb.itotal) (hiu : soQCheckInodeIU k (getI v.itable nInode) = 0)
    (hc : c < MAX_FILE_CLUSTERS k) (hz : RefsInZone k v.dzone (getI v.itable nInode)) :
    (soHandleFileCluster k env v nInode c GET).1 = 0 ∧
    (soHandleFileCluster k env v nInode c GET).2.2 =
      (if c < k.N_DIRECT then (getI v.itable nInode).d.getD c 0
       else if c < k.N_DIRECT + k.RPC then
         if (getI v.itable nInode).i1 = NULL_CLUSTER then NULL_CLUSTER
         else getRef (getDC v.dzone (getI v.itable nInode).i1) (c - k.N_DIRECT)
       else
         if (getI v.itable nInode).i2 = NULL_CLUSTER then NULL_CLUSTER
         else if getRef (getDC v.dzone (getI v.itable nInode).i2)
             ((c - k.N_DIRECT - k.RPC) / k.RPC) = NULL_CLUSTER then NULL_CLUSTER
         else
           getRef (getDC v.dzone (getRef (getDC v.dzone (getI v.itable nInode).i2)
             ((c - k.N_DIRECT - k.RPC) / k.RPC))) ((c - k.N_DIRECT - k.RPC) % k.RPC)) ∧
    (getI (soHandleFileCluster k env v nInode c GET).2.1.itable nInode).d
      = (getI v.itable nInode).d ∧
    (getI (soHandleFileCluster k env v nInode c GET).2.1.itable nInode).i1
      = (getI v.itable nInode).i1 ∧
    (getI (soHandleFileCluster k env v nInode c GET).2.1.itable nInode).i2
      = (getI v.itable nInode).i2 ∧
    (getI (soHandleFileCluster k env v nInode c GET).2.1.itable nInode).clucount
      = (getI v.itable nInode).clucount ∧
    (soHandleFileCluster k env v nInode c GET).2.1.sb.dzone_free = v.sb.dzone_free ∧
    (soHandleFileCluster k env v nInode c GET).2.1.sb = v.sb ∧
    (soHandleFileCluster k env v nInode c GET).2.1.dzone = v.dzone := by
  rw [soHandleFileCluster_get env hi hdz hn hiu hc hz]
  have hlen : nInode < v.itable.length := by rw [hi.1]; exact hn
  refine ⟨rfl, rfl, ?_, ?_, ?_, ?_, rfl, rfl, rfl⟩ <;>
    simp only [getI_set_eq _ _ _ hlen]

/-- C8, on the root directory of the formatted volume of 8 data clusters, for the index
0. -/
theorem C8_get_reference_witness :
    (soQCheckDZ (exampleVolume 8) = 0 ∧ 0 < (exampleVolume 8).sb.itotal ∧
      soQCheckInodeIU exampleConst (getI (exampleVolume 8).itable 0) = 0 ∧
      0 < MAX_FILE_CLUSTERS exampleConst) ∧
    (soHandleFileCluster exampleConst exampleEnv (exampleVolume 8) 0 0 GET).1 = 0 ∧
    (soHandleFileCluster exampleConst exampleEnv (exampleVolume 8) 0 0 GET).2.2 = 0 :=
  ⟨by decide,
    (C8_get_reference exampleConst exampleEnv (exampleVolume 8) 0 0
      (IInv_mkfs exampleConst exampleEnv 4 8 8 _ (by decide) (by decide) (by decide))
      (by decide) (by decide) (by decide) (by decide)
      ⟨fun h => absurd rfl h, fun h => absurd rfl h⟩).1,
    by decide⟩

/-! ## Claims on the directory layer that the code does not meet -/

/-- C20 (the code diverges): on the root directory of the formatted volume, with
`MAX_NAME = 3`, `soGetDirEntryByName` returns `-ENOENT` and reports the free index 2 both
for the name `a/b`, which contains the character `/`, and for the name `abcdef`, of 6
characters: no test of the function looks for `/`, and the test of line 89 compares
`sizeof (eName)`, the size of a pointer, with `MAX_NAME + 1`, not the length of the name. -/
theorem C20_get_dir_entry_accepts_bad_names :
    dirConst.MAX_NAME = 3 ∧
    (soGetDirEntryByName dirConst exampleEnv (dirVolume 8) 0 [97, SLASH, 98]).1 = -ENOENT ∧
    (soGetDirEntryByName dirConst exampleEnv (dirVolume 8) 0 [97, SLASH, 98]).2.2.2 = 2 ∧
    (soGetDirEntryByName dirConst exampleEnv (dirVolume 8) 0
      [97, 98, 99, 100, 101, 102]).1 = -ENOENT ∧
    (soGetDirEntryByName dirConst exampleEnv (dirVolume 8) 0
      [97, 98, 99, 100, 101, 102]).2.2.2 = 2 := by
  decide

/-- C23 (the code diverges): on the volume with the directory `/d`, the symbolic link `/l1`
to `/d` and the symbolic link `/d/l2` to `/`, the resolution of `/l1/l2` reads the targets
of the two symbolic links and returns 0 with the root directory as entry, not `-ELOOP`:
`nSymLinks` is set back to 0 when the resolution of the first link returns (line 204), so a
link that is a later component of the path is followed. -/
theorem C23_second_symbolic_link_followed :
    (getI twoLinksVolume.itable 2).mode &&& dirConst.INODE_SYMLINK = dirConst.INODE_SYMLINK ∧
    (getI twoLinksVolume.itable 3).mode &&& dirConst.INODE_SYMLINK = dirConst.INODE_SYMLINK ∧
    (soGetDirEntryByName dirConst exampleEnv twoLinksVolume 0 [108, 49]).2.2.1 = 2 ∧
    (soGetDirEntryByName dirConst exampleEnv twoLinksVolume 1 [108, 50]).2.2.1 = 3 ∧
    (soGetDirEntryByPath dirConst exampleEnv twoLinksVolume 0
      [SLASH, 108, 49, SLASH, 108, 50]).1 = 0 ∧
    (soGetDirEntryByPath dirConst exampleEnv twoLinksVolume 0
      [SLASH, 108, 49, SLASH, 108, 50]).2.2.2.2 = 0 := by
  decide

/-- C24 (the code diverges): with `DPC = 4`, on the volume whose root directory holds `.`,
`..`, `a` and `b`, `soGetDirEntryByName` reports the free index 4 for the name `c`, and
`soAddAttDirEntry (0, "c", 3, ADD)` returns 0; afterwards the entry 0 of the cluster 1 of the
directory has the null name, and `soGetDirEntryByName (0, "c")` returns `-ENOENT`: line 180
assigns `tmp[index]`, not `tmp[index % DPC]`, in the buffer of `DPC` entries. -/
theorem C24_add_entry_beyond_first_cluster :
    (soGetDirEntryByName dirConst exampleEnv fullRootVolume 0 [99]).1 = -ENOENT ∧
    (soGetDirEntryByName dirConst exampleEnv fullRootVolume 0 [99]).2.2.2 = 4 ∧
    (soAddAttDirEntry dirConst exampleEnv fullRootVolume 0 [99] 3 ADD).1 = 0 ∧
    ((soReadFileCluster dirConst exampleEnv
      (soAddAttDirEntry dirConst exampleEnv fullRootVolume 0 [99] 3 ADD).2 0 1
      default).2.2.de.getD 0 default).name = [0, 0, 0, 0] ∧
    (soGetDirEntryByName dirConst exampleEnv
      (soAddAttDirEntry dirConst exampleEnv fullRootVolume 0 [99] 3 ADD).2 0 [99]).1
      = -ENOENT := by
  decide

/-- C26 (the code diverges): with `MAX_NAME = 3`, `soAddAttDirEntry (0, "abcd", 3, ADD)`
returns `ENAMETOOLONG`, a positive value, not `-ENAMETOOLONG`: line 129 is
`return ENAMETOOLONG`. The entries of the directory and the reference counts are
unchanged. -/
theorem C26_add_entry_name_too_long_positive :
    (soAddAttDirEntry dirConst exampleEnv fullRootVolume 0 [97, 98, 99, 100] 3 ADD).1
      = ENAMETOOLONG ∧
    0 < (soAddAttDirEntry dirConst exampleEnv fullRootVolume 0 [97, 98, 99, 100] 3 ADD).1 ∧
    (soAddAttDirEntry dirConst exampleEnv fullRootVolume 0 [97, 98, 99, 100] 3 ADD).2.dzone
      = fullRootVolume.dzone ∧
    (getI (soAddAttDirEntry dirConst exampleEnv fullRootVolume 0 [97, 98, 99, 100] 3
      ADD).2.itable 3).refcount = (getI fullRootVolume.itable 3).refcount := by
  decide

/-- C29 (the code diverges): with `DPC = 4`, on the volume whose root directory holds the
entry `e` at index 4, `soRenameDirEntry (0, "e", "g")` returns 0; afterwards
`soGetDirEntryByName (0, "g")` returns `-ENOENT` and `soGetDirEntryByName (0, "e")` still
gives the inode 1 at index 4: lines 98 and 99 write `entrys[index]`, not
`entrys[index % DPC]`, in the buffer of `DPC` entries. -/
theorem C29_rename_entry_beyond_first_cluster :
    (soGetDirEntryByName dirConst exampleEnv secondClusterVolume 0 [101]).1 = 0 ∧
    (soGetDirEntryByName dirConst exampleEnv secondClusterVolume 0 [101]).2.2 = (1, 4) ∧
    (soRenameDirEntry dirConst exampleEnv secondClusterVolume 0 [101] [103]).1 = 0 ∧
    (soGetDirEntryByName dirConst exampleEnv
      (soRenameDirEntry dirConst exampleEnv secondClusterVolume 0 [101] [103]).2 0 [103]).1
      = -ENOENT ∧
    (soGetDirEntryByName dirConst exampleEnv
      (soRenameDirEntry dirConst exampleEnv secondClusterVolume 0 [101] [103]).2 0 [101]).1
      = 0 ∧
    (soGetDirEntryByName dirConst exampleEnv
      (soRenameDirEntry dirConst exampleEnv secondClusterVolume 0 [101] [103]).2 0 [101]).2.2
      = (1, 4) := by
  decide

/-- C30 (the code diverges): on the volume with the regular file `/a`, of reference count 1,
`soRename ("/a", "/a")` returns `-ENOENT`; afterwards the entry of the file is free (null
name, `NULL_INODE`), the reference count of its inode is 0 and
`soGetDirEntryByPath ("/a")` returns `-ENOENT`: the entry the new path names is detached
(line 134) before `soRenameDirEntry` looks for the old name (line 137). -/
theorem C30_rename_to_itself_detaches :
    (soGetDirEntryByPath dirConst exampleEnv oneFileVolume 0 [SLASH, 97]).1 = 0 ∧
    (soGetDirEntryByPath dirConst exampleEnv oneFileVolume 0 [SLASH, 97]).2.2.2.2 = 1 ∧
    (getI oneFileVolume.itable 1).refcount = 1 ∧
    (soRename dirConst exampleEnv oneFileVolume 0 [SLASH, 97] [SLASH, 97]).1 = -ENOENT ∧
    (getDC (soRename dirConst exampleEnv oneFileVolume 0 [SLASH, 97] [SLASH, 97]).2.1.dzone
      0).de.getD 2 default = { name := [0, 0, 0, 0], nInode := NULL_INODE } ∧
    (getI (soRename dirConst exampleEnv oneFileVolume 0 [SLASH, 97] [SLASH, 97]).2.1.itable
      1).refcount = 0 ∧
    (soGetDirEntryByPath dirConst exampleEnv
      (soRename dirConst exampleEnv oneFileVolume 0 [SLASH, 97] [SLASH, 97]).2.1 0
      [SLASH, 97]).1 = -ENOENT := by
  decide

/-! ## The allocator of data clusters under the invariant -/

theorem soQCheckDZ_of_DZInv {v : Volume} (h : DZInv v) : soQCheckDZ v = 0 := by
  obtain ⟨hw, -, hr⟩ := h
  unfold soQCheckDZ
  rw [if_pos ⟨hw.free_eq.symm, by rw [hw.free_eq]; exact hw.free_lt, hr⟩]

theorem IInv_congr {k : SOConst} {v v' : Volume} (hi : IInv k v) (ht : v'.itable = v.itable)
    (h1 : v'.sb.itotal = v.sb.itotal) (h2 : v'.sb.ifree = v.sb.ifree)
    (h3 : v'.sb.ihdtl = v.sb.ihdtl) : IInv k v' := by
  obtain ⟨hlen, hN, l, hnd, hmem, hifree, hpath, hcl, hhd⟩ := hi
  refine ⟨by rw [ht, h1]; exact hlen, by rw [h1]; exact hN, l, hnd, ?_, by rw [h2]; exact hifree,
    by rw [ht]; exact hpath, by rw [ht]; exact hcl, by rw [h3]; exact hhd⟩
  intro n
  rw [ht, h1]
  exact hmem n

theorem alloc_ok {v : Volume} (h : DZInv v) (hs : (soAllocDataCluster v).1 = 0) :
    DZInv (soAllocDataCluster v).2.1 ∧
    freeRefs v = (soAllocDataCluster v).2.2 :: freeRefs (soAllocDataCluster v).2.1 ∧
    (soAllocDataCluster v).2.1.sb.dzone_free + 1 = v.sb.dzone_free ∧
    (soAllocDataCluster v).2.1.sb.dzone_total = v.sb.dzone_total ∧
    (soAllocDataCluster v).2.1.sb.itotal = v.sb.itotal ∧
    (soAllocDataCluster v).2.1.sb.ifree = v.sb.ifree ∧
    (soAllocDataCluster v).2.1.sb.ihdtl = v.sb.ihdtl ∧
    (soAllocDataCluster v).2.1.itable = v.itable ∧
    (soAllocDataCluster v).2.1.dzone = v.dzone := by
  obtain ⟨hw, hnd, hr⟩ := h
  have hf : v.sb.dzone_free ≠ 0 := by
    intro h0
    rw [soAllocDataCluster_nospace v h0] at hs
    simp [ENOSPC] at hs
  obtain ⟨-, a2, a3, a4, a5, a6, a7, a8, a9, a10⟩ := soAllocDataCluster_spec hw hf
  rw [a3] at hnd hr
  refine ⟨⟨a2, (List.nodup_cons.1 hnd).2, ?_⟩, a3, a4, a5, a6, a7, a8, a9, a10⟩
  intro n hn
  rw [a5]
  exact hr n (List.mem_cons_of_mem _ hn)

theorem free_ok {v : Volume} (h : DZInv v) (n : Nat) (hs : (soFreeDataCluster v n).1 = 0) :
    DZInv (soFreeDataCluster v n).2 ∧
    freeRefs (soFreeDataCluster v n).2 = freeRefs v ++ [n] ∧
    n ∉ freeRefs v ∧ 1 ≤ n ∧ n < v.sb.dzone_total ∧
    (soFreeDataCluster v n).2.sb.dzone_free = v.sb.dzone_free + 1 ∧
    (soFreeDataCluster v n).2.sb.dzone_total = v.sb.dzone_total ∧
    (soFreeDataCluster v n).2.sb.itotal = v.sb.itotal ∧
    (soFreeDataCluster v n).2.sb.ifree = v.sb.ifree ∧
    (soFreeDataCluster v n).2.sb.ihdtl = v.sb.ihdtl ∧
    (soFreeDataCluster v n).2.itable = v.itable ∧
    (soFreeDataCluster v n).2.dzone = v.dzone := by
  obtain ⟨hw, hnd, hr⟩ := h
  have hT : 1 ≤ v.sb.dzone_total := by have := hw.free_lt; omega
  have hrange : 1 ≤ n ∧ n < v.sb.dzone_total := by
    by_contra hc
    rw [soFreeDataCluster_range v n hT hw.total_lt (by omega)] at hs
    simp [EINVAL] at hs
  have hd : dec32 v.sb.dzone_total = v.sb.dzone_total - 1 := by
    have := hw.total_lt
    simp only [dec32]; omega
  have hnf : n ∉ freeRefs v := by
    intro hc
    rw [soFreeDataCluster_isfree v n hc hrange.1 (by rw [hd]; omega)] at hs
    simp [EDCNALINVAL] at hs
  have hroom : (freeRefs v).length + 1 < v.sb.dzone_total := by
    have hnd2 : (0 :: n :: freeRefs v).Nodup := by
      refine List.nodup_cons.2 ⟨?_, List.nodup_cons.2 ⟨hnf, hnd⟩⟩
      intro h0
      rcases List.mem_cons.1 h0 with h0 | h0
      · omega
      · have := (hr 0 h0).1; omega
    have := nodup_length_le hnd2 (n := v.sb.dzone_total) (by
      intro x hx
      rcases List.mem_cons.1 hx with rfl | hx
      · omega
      · rcases List.mem_cons.1 hx with rfl | hx
        · exact hrange.2
        · exact (hr x hx).2)
    simp only [List.length_cons] at this
    omega
  obtain ⟨-, f2, f3, f4, f5, f6, f7, f8, f9, f10⟩ :=
    soFreeDataCluster_spec hw n hrange.1 hrange.2 hnf hroom
  refine ⟨⟨f2, ?_, ?_⟩, f3, hnf, hrange.1, hrange.2, f4, f5, f6, f7, f8, f9, f10⟩
  · rw [f3]
    exact List.Nodup.append hnd (List.nodup_singleton n) (by
      intro x hx hx2
      rw [List.mem_singleton] at hx2
      exact hnf (hx2 ▸ hx))
  · intro x hx
    rw [f3] at hx
    rw [f5]
    rcases List.mem_append.1 hx with hx | hx
    · exact hr x hx
    · rw [List.mem_singleton] at hx
      rw [hx]; exact hrange

/-! ## Clusters of references -/

theorem getDC_set (dz : List SODataClust) (n m : Nat) (c : SODataClust) :
    getDC (dz.set n c) m = if n = m ∧ n < dz.length then c else getDC dz m := by
  unfold getDC
  by_cases h : n = m
  · subst h
    by_cases h2 : n < dz.length
    · simp [List.getD_eq_getElem?_getD, List.getElem?_set, h2]
    · have h3 : dz.length ≤ n := by omega
      simp [List.getD_eq_getElem?_getD, List.getElem?_set, h2, List.getElem?_eq_none h3]
  · simp [List.getD_eq_getElem?_getD, List.getElem?_set, h]

theorem getRef_setRef (c : SODataClust) (i j x : Nat) :
    getRef (setRef c i x) j = if i = j ∧ i < c.ref.length then x else getRef c j := by
  unfold getRef setRef
  by_cases h : i = j
  · subst h
    by_cases h2 : i < c.ref.length
    · simp [List.getD_eq_getElem?_getD, List.getElem?_set, h2]
    · have h3 : c.ref.length ≤ i := by omega
      simp [List.getD_eq_getElem?_getD, List.getElem?_set, h2, List.getElem?_eq_none h3]
  · simp [List.getD_eq_getElem?_getD, List.getElem?_set, h]

theorem getRef_clearRefs (k : SOConst) (c : SODataClust) (j : Nat) (hj : j < k.RPC) :
    getRef (clearRefs k c) j = NULL_CLUSTER := by
  simp [getRef, clearRefs, List.getD_eq_getElem?_getD, List.getElem?_replicate, hj]

theorem setRef_length (c : SODataClust) (i x : Nat) :
    (setRef c i x).ref.length = c.ref.length := by
  simp [setRef]

theorem clearRefs_length (k : SOConst) (c : SODataClust) :
    (clearRefs k c).ref.length = k.RPC := by
  simp [clearRefs]

theorem allNull_iff (k : SOConst) (c : SODataClust) :
    allNull k c = true ↔ ∀ j, j < k.RPC → getRef c j = NULL_CLUSTER := by
  simp [allNull, List.all_eq_true]

/-! ## Counting references -/

theorem countP_range_update (f g : Nat → Bool) (n i : Nat) (hi : i < n)
    (h : ∀ j, j ≠ i → g j = f j) :
    (List.range n).countP g + (if f i then 1 else 0)
      = (List.range n).countP f + (if g i then 1 else 0) := by
  induction n with
  | zero => omega
  | succ n ih =>
    rw [List.range_succ, List.countP_append, List.countP_append]
    simp only [List.countP_cons, List.countP_nil, Nat.zero_add]
    by_cases hin : i = n
    · subst hin
      have hsame : (List.range i).countP g = (List.range i).countP f := by
        apply List.countP_congr
        intro x hx
        rw [List.mem_range] at hx
        rw [h x (by omega)]
      rw [hsame]
      omega
    · have := ih (by omega)
      rw [h n (fun e => hin e.symm)]
      omega

theorem countP_range_same (f g : Nat → Bool) (n : Nat) (h : ∀ j, j < n → g j = f j) :
    (List.range n).countP g = (List.range n).countP f := by
  apply List.countP_congr
  intro x hx
  rw [List.mem_range] at hx
  rw [h x hx]

theorem sum_range_update (f g : Nat → Nat) (n i : Nat) (hi : i < n)
    (h : ∀ j, j ≠ i → g j = f j) :
    ((List.range n).map g).sum + f i = ((List.range n).map f).sum + g i := by
  induction n with
  | zero => omega
  | succ n ih =>
    rw [List.range_succ, List.map_append, List.map_append, List.sum_append, List.sum_append]
    simp only [List.map_cons, List.map_nil, List.sum_cons, List.sum_nil, Nat.add_zero]
    by_cases hin : i = n
    · subst hin
      have hsame : (List.range i).map g = (List.range i).map f := by
        apply List.map_congr_left
        intro x hx
        rw [List.mem_range] at hx
        exact h x (by omega)
      rw [hsame]
      omega
    · have := ih (by omega)
      rw [h n (fun e => hin e.symm)]
      omega

theorem sum_range_same (f g : Nat → Nat) (n : Nat) (h : ∀ j, j < n → g j = f j) :
    ((List.range n).map g).sum = ((List.range n).map f).sum := by
  congr 1
  apply List.map_congr_left
  intro x hx
  rw [List.mem_range] at hx
  exact h x hx

theorem countP_set (l : List Nat) (i x : Nat) (hi : i < l.length) (P : Nat → Bool) :
    (l.set i x).countP P + (if P (l.getD i 0) then 1 else 0)
      = l.countP P + (if P x then 1 else 0) := by
  induction l generalizing i with
  | nil => simp at hi
  | cons a l ih =>
    cases i with
    | zero =>
      simp only [List.set_cons_zero, List.countP_cons, List.getD_cons_zero]
      omega
    | succ i =>
      simp only [List.set_cons_succ, List.countP_cons, List.getD_cons_succ]
      have := ih i (by simpa using hi)
      omega

theorem usedRefs_setRef (k : SOConst) (c : SODataClust) (i x : Nat) (hi : i < k.RPC)
    (hl : c.ref.length = k.RPC) :
    usedRefs k (setRef c i x) + (if getRef c i ≠ NULL_CLUSTER then 1 else 0)
      = usedRefs k c + (if x ≠ NULL_CLUSTER then 1 else 0) := by
  unfold usedRefs
  have h := countP_range_update (fun j => decide (getRef c j ≠ NULL_CLUSTER))
    (fun j => decide (getRef (setRef c i x) j ≠ NULL_CLUSTER)) k.RPC i hi (by
      intro j hj
      show decide (getRef (setRef c i x) j ≠ NULL_CLUSTER) = decide (getRef c j ≠ NULL_CLUSTER)
      rw [getRef_setRef, if_neg (fun e => hj e.1.symm)])
  have hx : getRef (setRef c i x) i = x := by
    rw [getRef_setRef, if_pos ⟨rfl, by rw [hl]; exact hi⟩]
  simp only [hx, decide_eq_true_eq] at h
  exact h

theorem usedRefs_clearRefs (k : SOConst) (c : SODataClust) : usedRefs k (clearRefs k c) = 0 := by
  unfold usedRefs
  rw [List.countP_eq_zero]
  intro j hj
  rw [List.mem_range] at hj
  simp [getRef_clearRefs k c j hj]

theorem usedRefs_eq_zero_iff (k : SOConst) (c : SODataClust) :
    usedRefs k c = 0 ↔ allNull k c = true := by
  unfold usedRefs
  rw [List.countP_eq_zero, allNull_iff]
  constructor
  · intro h j hj
    have := h j (List.mem_range.2 hj)
    simpa using this
  · intro h j hj
    rw [List.mem_range] at hj
    simp [h j hj]

theorem usedRefs_pos_of_ref (k : SOConst) (c : SODataClust) (i : Nat) (hi : i < k.RPC)
    (h : getRef c i ≠ NULL_CLUSTER) : 0 < usedRefs k c := by
  rcases Nat.eq_zero_or_pos (usedRefs k c) with h0 | h0
  · rw [usedRefs_eq_zero_iff, allNull_iff] at h0
    exact absurd (h0 i hi) h
  · exact h0

/-! ## The clusters of references of an inode -/

theorem mem_sngClusters {k : SOConst} {dz : List SODataClust} {p : SOInode} {q : Nat}
    (hq : q < k.RPC) (h : getRef (getDC dz p.i2) q ≠ NULL_CLUSTER) :
    getRef (getDC dz p.i2) q ∈ sngClusters k dz p := by
  unfold sngClusters
  rw [List.mem_filter]
  exact ⟨List.mem_map.2 ⟨q, List.mem_range.2 hq, rfl⟩, by simpa using h⟩

theorem i1_mem_indClusters {k : SOConst} {dz : List SODataClust} {p : SOInode}
    (h : p.i1 ≠ NULL_CLUSTER) : p.i1 ∈ indClusters k dz p := by
  unfold indClusters
  rw [if_neg h]
  simp

theorem i2_mem_indClusters {k : SOConst} {dz : List SODataClust} {p : SOInode}
    (h : p.i2 ≠ NULL_CLUSTER) : p.i2 ∈ indClusters k dz p := by
  unfold indClusters
  rw [if_neg h]
  simp

theorem sng_mem_indClusters {k : SOConst} {dz : List SODataClust} {p : SOInode} {q : Nat}
    (h2 : p.i2 ≠ NULL_CLUSTER) (hq : q < k.RPC) (h : getRef (getDC dz p.i2) q ≠ NULL_CLUSTER) :
    getRef (getDC dz p.i2) q ∈ indClusters k dz p := by
  unfold indClusters
  rw [if_neg h2]
  exact List.mem_append_right _ (List.mem_cons_of_mem _ (mem_sngClusters hq h))

theorem nodup_map_filter_ne {f : Nat → Nat} {n : Nat} {P : Nat → Bool}
    (h : (((List.range n).map f).filter P).Nodup) {a b : Nat} (ha : a < n) (hb : b < n)
    (hab : a ≠ b) (hPa : P (f a) = true) : f a ≠ f b := by
  induction n with
  | zero => omega
  | succ n ih =>
    rw [List.range_succ, List.map_append, List.filter_append] at h
    have h1 := (List.nodup_append.1 h).1
    have h3 := (List.nodup_append.1 h).2.2
    intro e
    by_cases han : a = n
    · by_cases hbn : b = n
      · omega
      · subst han
        have hb' : b < a := by omega
        have m1 : f b ∈ ((List.range a).map f).filter P :=
          List.mem_filter.2 ⟨List.mem_map.2 ⟨b, List.mem_range.2 hb', rfl⟩, e ▸ hPa⟩
        have m2 : f b ∈ ([f a].filter P) := by
          rw [← e]; simp [hPa]
        exact h3 m1 (by simpa using m2)
    · by_cases hbn : b = n
      · subst hbn
        have ha' : a < b := by omega
        have m1 : f a ∈ ((List.range b).map f).filter P :=
          List.mem_filter.2 ⟨List.mem_map.2 ⟨a, List.mem_range.2 ha', rfl⟩, hPa⟩
        have m2 : f a ∈ ([f b].filter P) := by
          rw [← e]; simp [hPa]
        exact h3 m1 (by simpa using m2)
      · exact ih h1 (by omega) (by omega) e

theorem TreeWf_i1_ne_i2 {k : SOConst} {v : Volume} {p : SOInode} (h : TreeWf k v p)
    (h1 : p.i1 ≠ NULL_CLUSTER) (h2 : p.i2 ≠ NULL_CLUSTER) : p.i1 ≠ p.i2 := by
  have hn := h.2.2.2.1
  unfold indClusters at hn
  rw [if_neg h1, if_neg h2] at hn
  simp only [List.singleton_append, List.nodup_cons, List.mem_cons, not_or] at hn
  exact hn.1.1

theorem TreeWf_i1_ne_sng {k : SOConst} {v : Volume} {p : SOInode} (h : TreeWf k v p)
    (h1 : p.i1 ≠ NULL_CLUSTER) (h2 : p.i2 ≠ NULL_CLUSTER) {q : Nat} (hq : q < k.RPC)
    (hs : getRef (getDC v.dzone p.i2) q ≠ NULL_CLUSTER) :
    p.i1 ≠ getRef (getDC v.dzone p.i2) q := by
  have hn := h.2.2.2.1
  unfold indClusters at hn
  rw [if_neg h1, if_neg h2] at hn
  simp only [List.singleton_append, List.nodup_cons, List.mem_cons, not_or] at hn
  intro e
  exact hn.1.2 (e ▸ mem_sngClusters hq hs)

theorem TreeWf_i2_ne_sng {k : SOConst} {v : Volume} {p : SOInode} (h : TreeWf k v p)
    (h2 : p.i2 ≠ NULL_CLUSTER) {q : Nat} (hq : q < k.RPC)
    (hs : getRef (getDC v.dzone p.i2) q ≠ NULL_CLUSTER) :
    p.i2 ≠ getRef (getDC v.dzone p.i2) q := by
  have hn := h.2.2.2.1
  unfold indClusters at hn
  rw [if_neg h2] at hn
  have hn2 := (List.nodup_append.1 hn).2.1
  simp only [List.nodup_cons] at hn2
  intro e
  exact hn2.1 (e ▸ mem_sngClusters hq hs)

theorem TreeWf_sng_ne_sng {k : SOConst} {v : Volume} {p : SOInode} (h : TreeWf k v p)
    (h2 : p.i2 ≠ NULL_CLUSTER) {q q' : Nat} (hq : q < k.RPC) (hq' : q' < k.RPC) (hne : q ≠ q')
    (hs : getRef (getDC v.dzone p.i2) q ≠ NULL_CLUSTER) :
    getRef (getDC v.dzone p.i2) q ≠ getRef (getDC v.dzone p.i2) q' := by
  have hn := h.2.2.2.1
  unfold indClusters at hn
  rw [if_neg h2] at hn
  have hn2 := (List.nodup_append.1 hn).2.1
  simp only [List.nodup_cons] at hn2
  exact nodup_map_filter_ne (f := fun q => getRef (getDC v.dzone p.i2) q) hn2.2 hq hq' hne
    (by simpa using hs)

theorem TreeWf_RefsInZone {k : SOConst} {v : Volume} {p : SOInode} (h : TreeWf k v p) :
    RefsInZone k v.dzone p := by
  obtain ⟨-, -, hz, -, hr⟩ := h
  refine ⟨fun h1 => lt_of_lt_of_le (hr _ (i1_mem_indClusters h1)).1 hz, fun h2 =>
    ⟨lt_of_lt_of_le (hr _ (i2_mem_indClusters h2)).1 hz, fun q hq hs =>
      lt_of_lt_of_le (hr _ (sng_mem_indClusters h2 hq hs)).1 hz⟩⟩

/-! ## `soHandleFileCluster`: the operation `FREE` -/

theorem dec32_pos {x : Nat} (h1 : 0 < x) (h2 : x < 4294967296) : dec32 x = x - 1 := by
  unfold dec32; omega

theorem countP_set_null (l : List Nat) (i : Nat) (hi : i < l.length)
    (h : l.getD i 0 ≠ NULL_CLUSTER) :
    (l.set i NULL_CLUSTER).countP (fun n => decide (n ≠ NULL_CLUSTER)) + 1
      = l.countP (fun n => decide (n ≠ NULL_CLUSTER)) := by
  have := countP_set l i NULL_CLUSTER hi (fun n => decide (n ≠ NULL_CLUSTER))
  have e1 : decide (l.getD i 0 ≠ NULL_CLUSTER) = true := decide_eq_true h
  have e2 : decide (NULL_CLUSTER ≠ NULL_CLUSTER) = false := decide_eq_false (by simp)
  rw [e1, e2] at this
  simpa using this

theorem countP_set_new (l : List Nat) (i x : Nat) (hi : i < l.length)
    (h : l.getD i 0 = NULL_CLUSTER) (hx : x ≠ NULL_CLUSTER) :
    (l.set i x).countP (fun n => decide (n ≠ NULL_CLUSTER))
      = l.countP (fun n => decide (n ≠ NULL_CLUSTER)) + 1 := by
  have := countP_set l i x hi (fun n => decide (n ≠ NULL_CLUSTER))
  have e1 : decide (l.getD i 0 ≠ NULL_CLUSTER) = false := decide_eq_false (not_not.2 h)
  have e2 : decide (x ≠ NULL_CLUSTER) = true := decide_eq_true hx
  rw [e1, e2] at this
  simpa using this

theorem soHandleDirect_FREE_eq (v : Volume) (p : SOInode) (c : Nat) :
    soHandleDirect v p c FREE =
      if p.d.getD c 0 = NULL_CLUSTER then (-EDCNOTIL, v, p, 0)
      else
        if (soFreeDataCluster v (p.d.getD c 0)).1 ≠ 0 then
          ((soFreeDataCluster v (p.d.getD c 0)).1, (soFreeDataCluster v (p.d.getD c 0)).2, p, 0)
        else
          (0, (soFreeDataCluster v (p.d.getD c 0)).2,
            { p with d := p.d.set c NULL_CLUSTER, clucount := dec32 p.clucount }, 0) := by
  unfold soHandleDirect
  rw [if_neg (by decide), if_neg (by decide), if_pos rfl]

theorem soHandleDirect_free {k : SOConst} {v : Volume} {p : SOInode} {c : Nat}
    (hdz : DZInv v) (ht : TreeWf k v p) (hc : c < k.N_DIRECT)
    (hs : (soHandleDirect v p c FREE).1 = 0) :
    FreeOutcome k v p c (soHandleDirect v p c FREE).2.1 (soHandleDirect v p c FREE).2.2.1 := by
  rw [soHandleDirect_FREE_eq] at hs ⊢
  have hL : p.d.getD c 0 ≠ NULL_CLUSTER := by
    intro h
    rw [if_pos h] at hs
    simp [EDCNOTIL] at hs
  rw [if_neg hL] at hs ⊢
  have hf : (soFreeDataCluster v (p.d.getD c 0)).1 = 0 := by
    by_contra h
    rw [if_pos h] at hs
    exact h hs
  rw [if_neg (not_not.2 hf)]
  obtain ⟨f1, f2, f3, f4, f5, f6, f7, f8, f9, f10, f11, f12⟩ := free_ok hdz _ hf
  have hz := TreeWf_RefsInZone ht
  have hcl : c < p.d.length := by rw [ht.1]; exact hc
  refine ⟨f1, ?_, f11, f8, f9, f10, rfl, ?_, ?_, ?_, ?_, ?_⟩
  · show RefsInZone k (soFreeDataCluster v (p.d.getD c 0)).2.dzone _
    rw [f12]; exact hz
  · simp [refOfIndex, hc, List.getD_eq_getElem?_getD, hcl]
  · rw [f2]
    simp [refOfIndex, hc]
  · intro h1; omega
  · intro h1; omega
  · intro hlt heq
    show dec32 p.clucount =
      (p.d.set c NULL_CLUSTER).countP (fun n => decide (n ≠ NULL_CLUSTER)) +
        cluCountS k (soFreeDataCluster v (p.d.getD c 0)).2.dzone p.i1 +
        cluCountD k (soFreeDataCluster v (p.d.getD c 0)).2.dzone p.i2
    rw [f12]
    have hcnt := countP_set_null p.d c hcl hL
    have heq' : p.clucount = p.d.countP (fun n => decide (n ≠ NULL_CLUSTER)) +
        cluCountS k v.dzone p.i1 + cluCountD k v.dzone p.i2 := heq
    rw [dec32_pos (by omega) hlt]
    omega

theorem soHandleSIndirect_FREE_eq (k : SOConst) (v : Volume) (p : SOInode) (c : Nat)
    (hi1 : p.i1 ≠ NULL_CLUSTER) (hlen : p.i1 < v.dzone.length) :
    soHandleSIndirect k v p c FREE =
      if getRef (getDC v.dzone p.i1) (c - k.N_DIRECT) = NULL_CLUSTER then (-EDCNOTIL, v, p, 0)
      else if (soFreeDataCluster v (getRef (getDC v.dzone p.i1) (c - k.N_DIRECT))).1 ≠ 0 then
        ((soFreeDataCluster v (getRef (getDC v.dzone p.i1) (c - k.N_DIRECT))).1,
         (soFreeDataCluster v (getRef (getDC v.dzone p.i1) (c - k.N_DIRECT))).2, p, 0)
      else if allNull k (setRef (getDC v.dzone p.i1) (c - k.N_DIRECT) NULL_CLUSTER) = true then
        if (soFreeDataCluster
            (soStoreDirRefClust
              (soFreeDataCluster v (getRef (getDC v.dzone p.i1) (c - k.N_DIRECT))).2 p.i1
              (setRef (getDC v.dzone p.i1) (c - k.N_DIRECT) NULL_CLUSTER)) p.i1).1 ≠ 0 then
          ((soFreeDataCluster
            (soStoreDirRefClust
              (soFreeDataCluster v (getRef (getDC v.dzone p.i1) (c - k.N_DIRECT))).2 p.i1
              (setRef (getDC v.dzone p.i1) (c - k.N_DIRECT) NULL_CLUSTER)) p.i1).1,
           (soFreeDataCluster
            (soStoreDirRefClust
              (soFreeDataCluster v (getRef (getDC v.dzone p.i1) (c - k.N_DIRECT))).2 p.i1
              (setRef (getDC v.dzone p.i1) (c - k.N_DIRECT) NULL_CLUSTER)) p.i1).2,
           { p with clucount := dec32 p.clucount }, 0)
        else
          (0, (soFreeDataCluster
            (soStoreDirRefClust
              (soFreeDataCluster v (getRef (getDC v.dzone p.i1) (c - k.N_DIRECT))).2 p.i1
              (setRef (getDC v.dzone p.i1) (c - k.N_DIRECT) NULL_CLUSTER)) p.i1).2,
           { p with i1 := NULL_CLUSTER, clucount := dec32 (dec32 p.clucount) }, 0)
      else
        (0, soStoreDirRefClust
            (soFreeDataCluster v (getRef (getDC v.dzone p.i1) (c - k.N_DIRECT))).2 p.i1
            (setRef (getDC v.dzone p.i1) (c - k.N_DIRECT) NULL_CLUSTER),
          { p with clucount := dec32 p.clucount }, 0) := by
  unfold soHandleSIndirect
  dsimp only
  rw [if_neg (by decide), if_neg (by decide), if_pos rfl, if_pos hi1]
  unfold soLoadDirRefClust
  rw [if_pos hlen]
  dsimp only
  rw [if_neg (by simp)]

theorem freeRefs_set_dzone (v : Volume) (d : List SODataClust) :
    freeRefs { v with dzone := d } = freeRefs v := rfl

theorem DZInv_set_dzone {v : Volume} (h : DZInv v) (d : List SODataClust) :
    DZInv { v with dzone := d } := by
  obtain ⟨⟨a1, a2, a3, a4, a5, a6, a7, a8, a9, a10⟩, hn, hr⟩ := h
  exact ⟨⟨a1, a2, a3, a4, a5, a6, a7, a8, a9, a10⟩, hn, hr⟩

theorem cluCountS_set (k : SOConst) (dz : List SODataClust) (n : Nat) (c' : SODataClust)
    (s : Nat) (h : s = NULL_CLUSTER ∨ s ≠ n) :
    cluCountS k (dz.set n c') s = cluCountS k dz s := by
  unfold cluCountS
  by_cases hs : s = NULL_CLUSTER
  · rw [if_pos hs, if_pos hs]
  · rw [if_neg hs, if_neg hs, getDC_set, if_neg]
    rcases h with h | h
    · exact absurd h hs
    · exact fun e => h e.1.symm

theorem cluCountD_set (k : SOConst) (dz : List SODataClust) (n : Nat) (c' : SODataClust)
    (t : Nat) (ht : t = NULL_CLUSTER ∨ t ≠ n)
    (hs : t ≠ NULL_CLUSTER → ∀ q, q < k.RPC → getRef (getDC dz t) q ≠ NULL_CLUSTER →
      getRef (getDC dz t) q ≠ n) :
    cluCountD k (dz.set n c') t = cluCountD k dz t := by
  unfold cluCountD
  by_cases h0 : t = NULL_CLUSTER
  · rw [if_pos h0, if_pos h0]
  · rw [if_neg h0, if_neg h0]
    have htn : t ≠ n := by
      rcases ht with h | h
      · exact absurd h h0
      · exact h
    have hg : getDC (dz.set n c') t = getDC dz t := by
      rw [getDC_set, if_neg (fun e => htn e.1.symm)]
    rw [hg]
    congr 1
    apply sum_range_same
    intro q hq
    apply cluCountS_set
    by_cases hnull : getRef (getDC dz t) q = NULL_CLUSTER
    · exact Or.inl hnull
    · exact Or.inr (hs h0 q hq hnull)

theorem TreeWf_i1_lt {k : SOConst} {v : Volume} {p : SOInode} (h : TreeWf k v p)
    (h1 : p.i1 ≠ NULL_CLUSTER) : p.i1 < v.dzone.length :=
  (TreeWf_RefsInZone h).1 h1

theorem soHandleSIndirect_FREE_null (k : SOConst) (v : Volume) (p : SOInode) (c : Nat)
    (hi1 : p.i1 = NULL_CLUSTER) :
    soHandleSIndirect k v p c FREE = (-EDCNOTIL, v, p, 0) := by
  unfold soHandleSIndirect
  dsimp only
  rw [if_neg (by decide), if_neg (by decide), if_pos rfl, if_neg (not_not.2 hi1)]

theorem RefsInZone_set_other {k : SOConst} {dz : List SODataClust} {p p' : SOInode}
    (hz : RefsInZone k dz p) (n : Nat) (c' : SODataClust)
    (h1 : p'.i1 = p.i1 ∨ p'.i1 = NULL_CLUSTER) (h2 : p'.i2 = p.i2)
    (hne : p.i2 ≠ n) : RefsInZone k (dz.set n c') p' := by
  obtain ⟨z1, z2⟩ := hz
  constructor
  · intro hh
    rw [List.length_set]
    rcases h1 with h1 | h1
    · rw [h1] at hh ⊢; exact z1 hh
    · exact absurd h1 hh
  · intro hh
    rw [h2] at hh ⊢
    rw [List.length_set, getDC_set, if_neg (fun e => hne e.1.symm)]
    exact z2 hh

theorem soHandleSIndirect_free {k : SOConst} {v : Volume} {p : SOInode} {c : Nat}
    (hdz : DZInv v) (ht : TreeWf k v p) (hc1 : k.N_DIRECT ≤ c) (hc2 : c < k.N_DIRECT + k.RPC)
    (hs : (soHandleSIndirect k v p c FREE).1 = 0) :
    FreeOutcome k v p c (soHandleSIndirect k v p c FREE).2.1
      (soHandleSIndirect k v p c FREE).2.2.1 := by
  have hi1 : p.i1 ≠ NULL_CLUSTER := by
    intro h
    rw [soHandleSIndirect_FREE_null k v p c h] at hs
    simp [EDCNOTIL] at hs
  have hlen := TreeWf_i1_lt ht hi1
  have hrel : c - k.N_DIRECT < k.RPC := by omega
  have hreflen : (getDC v.dzone p.i1).ref.length = k.RPC := ht.2.1 _ (i1_mem_indClusters hi1)
  have hz := TreeWf_RefsInZone ht
  rw [soHandleSIndirect_FREE_eq k v p c hi1 hlen] at hs ⊢
  have hL : getRef (getDC v.dzone p.i1) (c - k.N_DIRECT) ≠ NULL_CLUSTER := by
    intro h
    rw [if_pos h] at hs
    simp [EDCNOTIL] at hs
  rw [if_neg hL] at hs ⊢
  have hf : (soFreeDataCluster v (getRef (getDC v.dzone p.i1) (c - k.N_DIRECT))).1 = 0 := by
    by_contra h
    rw [if_pos h] at hs
    exact h hs
  rw [if_neg (not_not.2 hf)] at hs ⊢
  obtain ⟨f1, f2, f3, f4, f5, f6, f7, f8, f9, f10, f11, f12⟩ := free_ok hdz _ hf
  have href : refOfIndex k v.dzone p c = getRef (getDC v.dzone p.i1) (c - k.N_DIRECT) := by
    unfold refOfIndex
    rw [if_neg (by omega), if_pos hc2, if_neg hi1]
  have hused := usedRefs_setRef k (getDC v.dzone p.i1) (c - k.N_DIRECT) NULL_CLUSTER hrel hreflen
  rw [if_pos hL, if_neg (by simp)] at hused
  have hne2 : p.i2 ≠ NULL_CLUSTER → p.i2 ≠ p.i1 := fun h2 => (TreeWf_i1_ne_i2 ht hi1 h2).symm
  have hD : cluCountD k (v.dzone.set p.i1
      (setRef (getDC v.dzone p.i1) (c - k.N_DIRECT) NULL_CLUSTER)) p.i2 = cluCountD k v.dzone p.i2 := by
    apply cluCountD_set
    · by_cases h2 : p.i2 = NULL_CLUSTER
      · exact Or.inl h2
      · exact Or.inr (hne2 h2)
    · intro h2 q hq hq2
      exact (TreeWf_i1_ne_sng ht hi1 h2 hq hq2).symm
  have hgetS : getDC (v.dzone.set p.i1
      (setRef (getDC v.dzone p.i1) (c - k.N_DIRECT) NULL_CLUSTER)) p.i1
      = setRef (getDC v.dzone p.i1) (c - k.N_DIRECT) NULL_CLUSTER := by
    rw [getDC_set, if_pos ⟨rfl, hlen⟩]
  by_cases hall : allNull k (setRef (getDC v.dzone p.i1) (c - k.N_DIRECT) NULL_CLUSTER) = true
  · rw [if_pos hall] at hs ⊢
    have hdz1 : DZInv (soStoreDirRefClust
        (soFreeDataCluster v (getRef (getDC v.dzone p.i1) (c - k.N_DIRECT))).2 p.i1
        (setRef (getDC v.dzone p.i1) (c - k.N_DIRECT) NULL_CLUSTER)) := DZInv_set_dzone f1 _
    have hf2 : (soFreeDataCluster (soStoreDirRefClust
        (soFreeDataCluster v (getRef (getDC v.dzone p.i1) (c - k.N_DIRECT))).2 p.i1
        (setRef (getDC v.dzone p.i1) (c - k.N_DIRECT) NULL_CLUSTER)) p.i1).1 = 0 := by
      by_contra h
      rw [if_pos h] at hs
      exact h hs
    rw [if_neg (not_not.2 hf2)]
    obtain ⟨g1, g2, g3, g4, g5, g6, g7, g8, g9, g10, g11, g12⟩ := free_ok hdz1 _ hf2
    have hdzeq : (soFreeDataCluster (soStoreDirRefClust
        (soFreeDataCluster v (getRef (getDC v.dzone p.i1) (c - k.N_DIRECT))).2 p.i1
        (setRef (getDC v.dzone p.i1) (c - k.N_DIRECT) NULL_CLUSTER)) p.i1).2.dzone
        = v.dzone.set p.i1 (setRef (getDC v.dzone p.i1) (c - k.N_DIRECT) NULL_CLUSTER) := by
      rw [g12]
      show (soFreeDataCluster v _).2.dzone.set _ _ = _
      rw [f12]
    have hfr : freeRefs (soFreeDataCluster (soStoreDirRefClust
        (soFreeDataCluster v (getRef (getDC v.dzone p.i1) (c - k.N_DIRECT))).2 p.i1
        (setRef (getDC v.dzone p.i1) (c - k.N_DIRECT) NULL_CLUSTER)) p.i1).2
        = freeRefs v ++ [getRef (getDC v.dzone p.i1) (c - k.N_DIRECT)] ++ [p.i1] := by
      rw [g2]
      show freeRefs (soFreeDataCluster v _).2 ++ _ = _
      rw [f2]
    refine ⟨g1, ?_, g11.trans f11, g8.trans f8, g9.trans f9, g10.trans f10, rfl, ?_, ?_, ?_, ?_, ?_⟩
    · rw [hdzeq]
      by_cases h2 : p.i2 = NULL_CLUSTER
      · exact ⟨fun h => absurd rfl h, fun h => absurd h2 h⟩
      · exact RefsInZone_set_other hz _ _ (Or.inr rfl) rfl (hne2 h2)
    · unfold refOfIndex
      rw [if_neg (by omega), if_pos hc2, if_pos rfl]
    · rw [href, hfr]
      simp
    · intro _ _ _
      exact ⟨by rw [hfr]; simp, rfl⟩
    · intro h; omega
    · intro hlt heq
      show dec32 (dec32 p.clucount) = _
      rw [hdzeq]
      unfold cluCount at heq ⊢
      show _ = p.d.countP (fun n => decide (n ≠ NULL_CLUSTER)) +
        cluCountS k _ NULL_CLUSTER + cluCountD k _ p.i2
      rw [hD]
      have hS : cluCountS k v.dzone p.i1 = 1 + usedRefs k (getDC v.dzone p.i1) := by
        unfold cluCountS; rw [if_neg hi1]
      have hS' : cluCountS k (v.dzone.set p.i1
          (setRef (getDC v.dzone p.i1) (c - k.N_DIRECT) NULL_CLUSTER)) NULL_CLUSTER = 0 := by
        unfold cluCountS; rw [if_pos rfl]
      have h0 := (usedRefs_eq_zero_iff k _).2 hall
      rw [hS'] 
      rw [hS] at heq
      rw [dec32_pos (by omega) hlt, dec32_pos (by omega) (by omega)]
      omega
  · rw [if_neg hall]
    refine ⟨DZInv_set_dzone f1 _, ?_, f11, f8, f9, f10, rfl, ?_, ?_, ?_, ?_, ?_⟩
    · show RefsInZone k ((soFreeDataCluster v _).2.dzone.set _ _) _
      rw [f12]
      by_cases h2 : p.i2 = NULL_CLUSTER
      · refine ⟨fun _ => by rw [List.length_set]; exact hlen, fun h => absurd h2 h⟩
      · exact RefsInZone_set_other hz _ _ (Or.inl rfl) rfl (hne2 h2)
    · show refOfIndex k ((soFreeDataCluster v _).2.dzone.set _ _) _ c = _
      rw [f12]
      unfold refOfIndex
      rw [if_neg (by omega), if_pos hc2]
      show (if p.i1 = NULL_CLUSTER then _ else _) = _
      rw [if_neg hi1, hgetS, getRef_setRef, if_pos ⟨rfl, by rw [hreflen]; exact hrel⟩]
    · rw [href]
      show _ ∈ freeRefs (soFreeDataCluster v _).2
      rw [f2]
      simp
    · intro _ _ hother
      exfalso
      apply hall
      rw [allNull_iff]
      intro j hj
      rw [getRef_setRef]
      split_ifs with hc
      · rfl
      · apply hother j hj
        intro e
        exact hc ⟨e.symm, by rw [hreflen]; exact hrel⟩
    · intro h; omega
    · intro hlt heq
      show dec32 p.clucount = cluCount k ((soFreeDataCluster v _).2.dzone.set _ _) _
      rw [f12]
      unfold cluCount at heq ⊢
      show _ = p.d.countP (fun n => decide (n ≠ NULL_CLUSTER)) +
        cluCountS k _ p.i1 + cluCountD k _ p.i2
      rw [hD]
      have hS : cluCountS k v.dzone p.i1 = 1 + usedRefs k (getDC v.dzone p.i1) := by
        unfold cluCountS; rw [if_neg hi1]
      have hS' : cluCountS k (v.dzone.set p.i1
          (setRef (getDC v.dzone p.i1) (c - k.N_DIRECT) NULL_CLUSTER)) p.i1
          = 1 + usedRefs k (setRef (getDC v.dzone p.i1) (c - k.N_DIRECT) NULL_CLUSTER) := by
        unfold cluCountS; rw [if_neg hi1, hgetS]
      rw [hS']
      rw [hS] at heq
      rw [dec32_pos (by omega) hlt]
      omega

theorem soDeplete_dzone (v : Volume) : (soDeplete v).2.dzone = v.dzone := rfl

theorem soFreeDataCluster_dzone (v : Volume) (n : Nat) :
    (soFreeDataCluster v n).2.dzone = v.dzone := by
  unfold soFreeDataCluster
  dsimp only
  split_ifs <;> rfl

theorem dIndirectFreeTop_eq (k : SOConst) (v : Volume) (p : SOInode) (dI : SODataClust)
    (hlen : p.i2 < v.dzone.length) :
    dIndirectFreeTop k v p dI =
      if allNull k dI = true then
        if (soFreeDataCluster (soStoreSngIndRefClust v p.i2 dI) p.i2).1 ≠ 0 then
          ((soFreeDataCluster (soStoreSngIndRefClust v p.i2 dI) p.i2).1,
           (soFreeDataCluster (soStoreSngIndRefClust v p.i2 dI) p.i2).2, p, 0)
        else
          (0, (soFreeDataCluster (soStoreSngIndRefClust v p.i2 dI) p.i2).2,
            { p with i2 := NULL_CLUSTER, clucount := dec32 p.clucount }, 0)
      else (0, soStoreSngIndRefClust v p.i2 dI, p, 0) := by
  unfold dIndirectFreeTop
  dsimp only
  have h1 : p.i2 < (soStoreSngIndRefClust v p.i2 dI).dzone.length := by
    show p.i2 < (v.dzone.set p.i2 dI).length
    rw [List.length_set]; exact hlen
  have h2 : getDC (soStoreSngIndRefClust v p.i2 dI).dzone p.i2 = dI := by
    show getDC (v.dzone.set p.i2 dI) p.i2 = dI
    rw [getDC_set, if_pos ⟨rfl, hlen⟩]
  unfold soLoadSngIndRefClust
  rw [if_pos h1]
  dsimp only
  rw [if_neg (by simp), h2]

theorem dIndirectFree_eq (k : SOConst) (v : Volume) (p : SOInode) (q r : Nat)
    (hi2 : p.i2 ≠ NULL_CLUSTER) (hlen : p.i2 < v.dzone.length)
    (hT : getRef (getDC v.dzone p.i2) q ≠ NULL_CLUSTER)
    (hlenT : getRef (getDC v.dzone p.i2) q < v.dzone.length) :
    dIndirectFree k v p q r =
      if getRef (getDC v.dzone (getRef (getDC v.dzone p.i2) q)) r = NULL_CLUSTER then
        (-EDCNOTIL, v, p, 0)
      else if (soFreeDataCluster v
          (getRef (getDC v.dzone (getRef (getDC v.dzone p.i2) q)) r)).1 ≠ 0 then
        ((soFreeDataCluster v (getRef (getDC v.dzone (getRef (getDC v.dzone p.i2) q)) r)).1,
         (soFreeDataCluster v (getRef (getDC v.dzone (getRef (getDC v.dzone p.i2) q)) r)).2,
         p, 0)
      else if allNull k
          (setRef (getDC v.dzone (getRef (getDC v.dzone p.i2) q)) r NULL_CLUSTER) = true then
        if (soFreeDataCluster
            (soStoreDirRefClust
              (soFreeDataCluster v
                (getRef (getDC v.dzone (getRef (getDC v.dzone p.i2) q)) r)).2
              (getRef (getDC v.dzone p.i2) q)
              (setRef (getDC v.dzone (getRef (getDC v.dzone p.i2) q)) r NULL_CLUSTER))
            (getRef (getDC v.dzone p.i2) q)).1 ≠ 0 then
          ((soFreeDataCluster
            (soStoreDirRefClust
              (soFreeDataCluster v
                (getRef (getDC v.dzone (getRef (getDC v.dzone p.i2) q)) r)).2
              (getRef (getDC v.dzone p.i2) q)
              (setRef (getDC v.dzone (getRef (getDC v.dzone p.i2) q)) r NULL_CLUSTER))
            (getRef (getDC v.dzone p.i2) q)).1,
           (soFreeDataCluster
            (soStoreDirRefClust
              (soFreeDataCluster v
                (getRef (getDC v.dzone (getRef (getDC v.dzone p.i2) q)) r)).2
              (getRef (getDC v.dzone p.i2) q)
              (setRef (getDC v.dzone (getRef (getDC v.dzone p.i2) q)) r NULL_CLUSTER))
            (getRef (getDC v.dzone p.i2) q)).2,
           { p with clucount := dec32 p.clucount }, 0)
        else
          dIndirectFreeTop k
            (soFreeDataCluster
              (soStoreDirRefClust
                (soFreeDataCluster v
                  (getRef (getDC v.dzone (getRef (getDC v.dzone p.i2) q)) r)).2
                (getRef (getDC v.dzone p.i2) q)
                (setRef (getDC v.dzone (getRef (getDC v.dzone p.i2) q)) r NULL_CLUSTER))
              (getRef (getDC v.dzone p.i2) q)).2
            { p with clucount := dec32 (dec32 p.clucount) }
            (setRef (getDC v.dzone p.i2) q NULL_CLUSTER)
      else
        dIndirectFreeTop k
          (soStoreDirRefClust
            (soFreeDataCluster v
              (getRef (getDC v.dzone (getRef (getDC v.dzone p.i2) q)) r)).2
            (getRef (getDC v.dzone p.i2) q)
            (setRef (getDC v.dzone (getRef (getDC v.dzone p.i2) q)) r NULL_CLUSTER))
          { p with clucount := dec32 p.clucount } (getDC v.dzone p.i2) := by
  unfold dIndirectFree
  rw [if_pos hi2]
  unfold soLoadSngIndRefClust
  rw [if_pos hlen]
  dsimp only
  rw [if_neg (by simp), if_pos hT]
  unfold soLoadDirRefClust
  rw [if_pos hlenT]
  dsimp only
  rw [if_neg (by simp)]
  have h1 : getRef (getDC v.dzone p.i2) q <
      (soStoreDirRefClust
        (soFreeDataCluster v (getRef (getDC v.dzone (getRef (getDC v.dzone p.i2) q)) r)).2
        (getRef (getDC v.dzone p.i2) q)
        (setRef (getDC v.dzone (getRef (getDC v.dzone p.i2) q)) r NULL_CLUSTER)).dzone.length := by
    show _ < ((soFreeDataCluster v _).2.dzone.set _ _).length
    rw [List.length_set, soFreeDataCluster_dzone]; exact hlenT
  have h2 : getDC (soStoreDirRefClust
        (soFreeDataCluster v (getRef (getDC v.dzone (getRef (getDC v.dzone p.i2) q)) r)).2
        (getRef (getDC v.dzone p.i2) q)
        (setRef (getDC v.dzone (getRef (getDC v.dzone p.i2) q)) r NULL_CLUSTER)).dzone
        (getRef (getDC v.dzone p.i2) q)
      = setRef (getDC v.dzone (getRef (getDC v.dzone p.i2) q)) r NULL_CLUSTER := by
    show getDC ((soFreeDataCluster v _).2.dzone.set _ _) _ = _
    rw [soFreeDataCluster_dzone, getDC_set, if_pos ⟨rfl, hlenT⟩]
  rw [if_pos h1]
  dsimp only
  rw [h2]
  simp only [ne_eq, not_true_eq_false, if_false]

theorem soHandleDIndirect_FREE_eq (k : SOConst) (v : Volume) (p : SOInode) (c : Nat) :
    soHandleDIndirect k v p c FREE =
      dIndirectFree k v p ((c - k.N_DIRECT - k.RPC) / k.RPC)
        ((c - k.N_DIRECT - k.RPC) % k.RPC) := by
  unfold soHandleDIndirect
  dsimp only
  rw [if_neg (by decide), if_neg (by decide), if_pos rfl]

theorem dIndirectFree_null2 (k : SOConst) (v : Volume) (p : SOInode) (q r : Nat)
    (hi2 : p.i2 = NULL_CLUSTER) : dIndirectFree k v p q r = (-EDCNOTIL, v, p, 0) := by
  unfold dIndirectFree
  rw [if_neg (not_not.2 hi2)]

theorem dIndirectFree_nullT (k : SOConst) (v : Volume) (p : SOInode) (q r : Nat)
    (hi2 : p.i2 ≠ NULL_CLUSTER) (hlen : p.i2 < v.dzone.length)
    (hT : getRef (getDC v.dzone p.i2) q = NULL_CLUSTER) :
    dIndirectFree k v p q r = (-EDCNOTIL, v, p, 0) := by
  unfold dIndirectFree
  rw [if_pos hi2]
  unfold soLoadSngIndRefClust
  rw [if_pos hlen]
  dsimp only
  rw [if_neg (by simp), if_neg (not_not.2 hT)]

theorem cluCountS_set_set (k : SOConst) (dz : List SODataClust) (a b : Nat)
    (x y : SODataClust) (s : Nat) (h : s = NULL_CLUSTER ∨ (s ≠ a ∧ s ≠ b)) :
    cluCountS k ((dz.set a x).set b y) s = cluCountS k dz s := by
  rw [cluCountS_set, cluCountS_set]
  · rcases h with h | h
    · exact Or.inl h
    · exact Or.inr h.1
  · rcases h with h | h
    · exact Or.inl h
    · exact Or.inr h.2

theorem getDC_set_set_snd (dz : List SODataClust) (a b : Nat) (x y : SODataClust)
    (hb : b < dz.length) : getDC ((dz.set a x).set b y) b = y := by
  rw [getDC_set, if_pos ⟨rfl, by rw [List.length_set]; exact hb⟩]

theorem getDC_set_set_fst (dz : List SODataClust) (a b : Nat) (x y : SODataClust)
    (ha : a < dz.length) (hne : b ≠ a) : getDC ((dz.set a x).set b y) a = x := by
  rw [getDC_set, if_neg (fun e => hne e.1), getDC_set, if_pos ⟨rfl, ha⟩]

theorem sum_range_update_lt (f g : Nat → Nat) (n i : Nat) (hi : i < n)
    (h : ∀ j, j < n → j ≠ i → g j = f j) :
    ((List.range n).map g).sum + f i = ((List.range n).map f).sum + g i := by
  have h1 := sum_range_update f (fun j => if j < n then g j else f j) n i hi (by
    intro j hj
    by_cases hjn : j < n
    · simp only [if_pos hjn]; exact h j hjn hj
    · simp only [if_neg hjn])
  have h2 := sum_range_same (fun j => if j < n then g j else f j) g n (by
    intro j hj
    simp only [if_pos hj])
  simp only [if_pos hi] at h1
  omega

theorem dIndirectFree_free {k : SOConst} {v : Volume} {p : SOInode} {c : Nat}
    (hdz : DZInv v) (ht : TreeWf k v p) (hc1 : k.N_DIRECT + k.RPC ≤ c)
    (hc2 : c < k.N_DIRECT + k.RPC + k.RPC * k.RPC)
    (hs : (soHandleDIndirect k v p c FREE).1 = 0) :
    FreeOutcome k v p c (soHandleDIndirect k v p c FREE).2.1
      (soHandleDIndirect k v p c FREE).2.2.1 := by
  rw [soHandleDIndirect_FREE_eq] at hs ⊢
  have hpos : 0 < k.RPC := by
    rcases Nat.eq_zero_or_pos k.RPC with h | h
    · rw [h] at hc2; omega
    · exact h
  have hq : (c - k.N_DIRECT - k.RPC) / k.RPC < k.RPC := by
    rw [Nat.div_lt_iff_lt_mul hpos]
    omega
  have hr : (c - k.N_DIRECT - k.RPC) % k.RPC < k.RPC := Nat.mod_lt _ hpos
  unfold FreeOutcome refOfIndex
  simp only [if_neg (show ¬ c < k.N_DIRECT by omega),
    if_neg (show ¬ c < k.N_DIRECT + k.RPC by omega)]
  generalize (c - k.N_DIRECT - k.RPC) / k.RPC = q at *
  generalize (c - k.N_DIRECT - k.RPC) % k.RPC = r at *
  have hi2 : p.i2 ≠ NULL_CLUSTER := by
    intro h
    rw [dIndirectFree_null2 k v p q r h] at hs
    simp [EDCNOTIL] at hs
  have hz := TreeWf_RefsInZone ht
  have hlen2 := (hz.2 hi2).1
  have hT : getRef (getDC v.dzone p.i2) q ≠ NULL_CLUSTER := by
    intro h
    rw [dIndirectFree_nullT k v p q r hi2 hlen2 h] at hs
    simp [EDCNOTIL] at hs
  have hlenT := (hz.2 hi2).2 q hq hT
  have hzall := (hz.2 hi2).2
  have hne2T := TreeWf_i2_ne_sng ht hi2 hq hT
  have hTother : ∀ q', q' < k.RPC → q' ≠ q →
      getRef (getDC v.dzone p.i2) q' ≠ getRef (getDC v.dzone p.i2) q := fun q' hq' hne =>
    (TreeWf_sng_ne_sng ht hi2 hq hq' (Ne.symm hne) hT).symm
  have h2other : ∀ q', q' < k.RPC → getRef (getDC v.dzone p.i2) q' ≠ NULL_CLUSTER →
      getRef (getDC v.dzone p.i2) q' ≠ p.i2 := fun q' hq' hn =>
    (TreeWf_i2_ne_sng ht hi2 hq' hn).symm
  have hi1ne2 : p.i1 ≠ NULL_CLUSTER → p.i1 ≠ p.i2 := fun h1 => TreeWf_i1_ne_i2 ht h1 hi2
  have hi1neT : p.i1 ≠ NULL_CLUSTER → p.i1 ≠ getRef (getDC v.dzone p.i2) q := fun h1 =>
    TreeWf_i1_ne_sng ht h1 hi2 hq hT
  have hdIlen : (getDC v.dzone p.i2).ref.length = k.RPC := ht.2.1 _ (i2_mem_indClusters hi2)
  have hsIlen : (getDC v.dzone (getRef (getDC v.dzone p.i2) q)).ref.length = k.RPC :=
    ht.2.1 _ (sng_mem_indClusters hi2 hq hT)
  have hz1 := hz.1
  clear hz ht
  rw [dIndirectFree_eq k v p q r hi2 hlen2 hT hlenT] at hs ⊢
  generalize hdI : getDC v.dzone p.i2 = dI at *
  generalize hTe : getRef dI q = T at *
  generalize hsI : getDC v.dzone T = sI at *
  generalize hLe : getRef sI r = L at *
  have hL : L ≠ NULL_CLUSTER := by
    intro h
    rw [if_pos h] at hs
    simp [EDCNOTIL] at hs
  rw [if_neg hL] at hs ⊢
  have hf : (soFreeDataCluster v L).1 = 0 := by
    by_contra h
    rw [if_pos h] at hs
    exact h hs
  rw [if_neg (not_not.2 hf)] at hs ⊢
  obtain ⟨f1, f2, f3, f4, f5, f6, f7, f8, f9, f10, f11, f12⟩ := free_ok hdz _ hf
  have hused := usedRefs_setRef k sI r NULL_CLUSTER hr hsIlen
  rw [hLe, if_pos hL, if_neg (by simp)] at hused
  have hS : cluCountS k v.dzone T = 1 + usedRefs k sI := by
    unfold cluCountS; rw [if_neg hT, hsI]
  by_cases hall : allNull k (setRef sI r NULL_CLUSTER) = true
  · rw [if_pos hall] at hs ⊢
    have hu0 := (usedRefs_eq_zero_iff k _).2 hall
    have hv1inv : DZInv (soStoreDirRefClust (soFreeDataCluster v L).2 T
        (setRef sI r NULL_CLUSTER)) := DZInv_set_dzone f1 _
    have hv1dz : (soStoreDirRefClust (soFreeDataCluster v L).2 T
        (setRef sI r NULL_CLUSTER)).dzone = v.dzone.set T (setRef sI r NULL_CLUSTER) := by
      show (soFreeDataCluster v L).2.dzone.set _ _ = _
      rw [f12]
    have hv1fr : freeRefs (soStoreDirRefClust (soFreeDataCluster v L).2 T
        (setRef sI r NULL_CLUSTER)) = freeRefs v ++ [L] := f2
    have hv1it : (soStoreDirRefClust (soFreeDataCluster v L).2 T
        (setRef sI r NULL_CLUSTER)).itable = v.itable := f11
    have hv1a : (soStoreDirRefClust (soFreeDataCluster v L).2 T
        (setRef sI r NULL_CLUSTER)).sb.itotal = v.sb.itotal := f8
    have hv1b : (soStoreDirRefClust (soFreeDataCluster v L).2 T
        (setRef sI r NULL_CLUSTER)).sb.ifree = v.sb.ifree := f9
    have hv1c : (soStoreDirRefClust (soFreeDataCluster v L).2 T
        (setRef sI r NULL_CLUSTER)).sb.ihdtl = v.sb.ihdtl := f10
    generalize soStoreDirRefClust (soFreeDataCluster v L).2 T (setRef sI r NULL_CLUSTER) = v1 at *
    have hf2 : (soFreeDataCluster v1 T).1 = 0 := by
      by_contra h
      rw [if_pos h] at hs
      exact h hs
    rw [if_neg (not_not.2 hf2)] at hs ⊢
    obtain ⟨g1, g2, g3, g4, g5, g6, g7, g8, g9, g10, g11, g12⟩ := free_ok hv1inv _ hf2
    have hv2dz := g12.trans hv1dz
    have hv2fr : freeRefs (soFreeDataCluster v1 T).2 = freeRefs v ++ [L] ++ [T] := by
      rw [g2, hv1fr]
    have hv2it := g11.trans hv1it
    have hv2a := g8.trans hv1a
    have hv2b := g9.trans hv1b
    have hv2c := g10.trans hv1c
    clear g2 g3 g4 g5 g6 g7 g8 g9 g10 g11 g12
    generalize (soFreeDataCluster v1 T).2 = v2 at *
    have hlen2' : p.i2 < v2.dzone.length := by
      rw [hv2dz, List.length_set]; exact hlen2
    rw [dIndirectFreeTop_eq k v2 { p with clucount := dec32 (dec32 p.clucount) }
      (setRef dI q NULL_CLUSTER) hlen2'] at hs ⊢
    dsimp only at hs ⊢
    have hv3inv : DZInv (soStoreSngIndRefClust v2 p.i2 (setRef dI q NULL_CLUSTER)) :=
      DZInv_set_dzone g1 _
    have hdz' : (soStoreSngIndRefClust v2 p.i2 (setRef dI q NULL_CLUSTER)).dzone
        = (v.dzone.set T (setRef sI r NULL_CLUSTER)).set p.i2 (setRef dI q NULL_CLUSTER) := by
      show v2.dzone.set _ _ = _
      rw [hv2dz]
    have hfr' : freeRefs (soStoreSngIndRefClust v2 p.i2 (setRef dI q NULL_CLUSTER))
        = freeRefs v ++ [L] ++ [T] := hv2fr
    have hv3it : (soStoreSngIndRefClust v2 p.i2 (setRef dI q NULL_CLUSTER)).itable
        = v.itable := hv2it
    have hv3a : (soStoreSngIndRefClust v2 p.i2 (setRef dI q NULL_CLUSTER)).sb.itotal
        = v.sb.itotal := hv2a
    have hv3b : (soStoreSngIndRefClust v2 p.i2 (setRef dI q NULL_CLUSTER)).sb.ifree
        = v.sb.ifree := hv2b
    have hv3c : (soStoreSngIndRefClust v2 p.i2 (setRef dI q NULL_CLUSTER)).sb.ihdtl
        = v.sb.ihdtl := hv2c
    generalize soStoreSngIndRefClust v2 p.i2 (setRef dI q NULL_CLUSTER) = v3 at *
    have hg2 : getDC v3.dzone p.i2 = setRef dI q NULL_CLUSTER := by
      rw [hdz']; exact getDC_set_set_snd _ _ _ _ _ hlen2
    have hS1 : cluCountS k v3.dzone p.i1 = cluCountS k v.dzone p.i1 := by
      rw [hdz']
      apply cluCountS_set_set
      by_cases h1 : p.i1 = NULL_CLUSTER
      · exact Or.inl h1
      · exact Or.inr ⟨hi1neT h1, hi1ne2 h1⟩
    have hD0 : cluCountD k v.dzone p.i2
        = 1 + ((List.range k.RPC).map fun q' => cluCountS k v.dzone (getRef dI q')).sum := by
      unfold cluCountD; rw [if_neg hi2, hdI]
    have hFq : cluCountS k v.dzone (getRef dI q) = 1 + usedRefs k sI := by
      rw [hTe]; exact hS
    have hq' : q < dI.ref.length := by rw [hdIlen]; exact hq
    have hqq : q = q ∧ q < dI.ref.length := ⟨rfl, hq'⟩
    by_cases hall2 : allNull k (setRef dI q NULL_CLUSTER) = true
    · rw [if_pos hall2] at hs ⊢
      have hf3 : (soFreeDataCluster v3 p.i2).1 = 0 := by
        by_contra h
        rw [if_pos h] at hs
        exact h hs
      rw [if_neg (not_not.2 hf3)]
      dsimp only
      obtain ⟨e1, e2, e3, e4, e5, e6, e7, e8, e9, e10, e11, e12⟩ := free_ok hv3inv _ hf3
      refine ⟨e1, ?_, e11.trans hv3it, e8.trans hv3a, e9.trans hv3b, e10.trans hv3c, rfl,
        ?_, ?_, ?_, ?_, ?_⟩
      · refine ⟨fun h1 => ?_, fun h => absurd rfl h⟩
        rw [e12, hdz', List.length_set, List.length_set]; exact hz1 h1
      · rw [if_pos rfl]
      · rw [if_neg hi2, if_neg hT, e2, hfr']
        simp
      · intro h1 h2; omega
      · intro _ _
        refine ⟨?_, ?_, fun _ => ⟨?_, rfl⟩⟩
        · rw [e2, hfr']; simp
        · rw [e12, hg2, getRef_setRef, if_pos hqq]
        · rw [e2]; simp
      · intro hlt heq
        show dec32 (dec32 (dec32 p.clucount)) = _
        unfold cluCount at heq ⊢
        show _ = p.d.countP (fun n => decide (n ≠ NULL_CLUSTER)) +
          cluCountS k _ p.i1 + cluCountD k _ NULL_CLUSTER
        have hDn : cluCountD k (soFreeDataCluster v3 p.i2).2.dzone NULL_CLUSTER = 0 := by
          unfold cluCountD; rw [if_pos rfl]
        rw [hDn, e12, hS1]
        rw [hD0] at heq
        have hsum := sum_range_update_lt (fun q' => cluCountS k v.dzone (getRef dI q'))
          (fun _ => 0) k.RPC q hq (by
            intro j hjr hj
            show 0 = cluCountS k v.dzone (getRef dI j)
            have := (allNull_iff k _).1 hall2 j hjr
            rw [getRef_setRef, if_neg (fun e => hj e.1.symm)] at this
            unfold cluCountS
            rw [if_pos this])
        dsimp only at hsum
        rw [hFq] at hsum
        have hz0 : ((List.range k.RPC).map fun _ => 0).sum = 0 := by simp
        rw [hz0] at hsum
        have d1 : dec32 p.clucount = p.clucount - 1 := dec32_pos (by omega) hlt
        have d2 : dec32 (p.clucount - 1) = p.clucount - 1 - 1 :=
          dec32_pos (by omega) (by omega)
        have d3 : dec32 (p.clucount - 1 - 1) = p.clucount - 1 - 1 - 1 :=
          dec32_pos (by omega) (by omega)
        rw [d1, d2, d3]
        omega
    · rw [if_neg hall2]
      dsimp only
      refine ⟨hv3inv, ?_, hv3it, hv3a, hv3b, hv3c, rfl, ?_, ?_, ?_, ?_, ?_⟩
      · refine ⟨fun h1 => ?_, fun _ => ⟨?_, ?_⟩⟩
        · rw [hdz', List.length_set, List.length_set]; exact hz1 h1
        · rw [hdz', List.length_set, List.length_set]; exact hlen2
        · intro q' hq1 hn
          rw [hg2] at hn ⊢
          rw [hdz', List.length_set, List.length_set]
          rw [getRef_setRef] at hn ⊢
          by_cases hc : q = q' ∧ q < dI.ref.length
          · rw [if_pos hc] at hn; exact absurd rfl hn
          · rw [if_neg hc] at hn ⊢
            exact hzall q' hq1 hn
      · rw [if_neg hi2, hg2, getRef_setRef, if_pos hqq, if_pos rfl]
      · rw [if_neg hi2, if_neg hT, hfr']
        simp
      · intro h1 h2; omega
      · intro _ _
        refine ⟨?_, ?_, fun hoth => ?_⟩
        · rw [hfr']; simp
        · rw [hg2, getRef_setRef, if_pos hqq]
        · exfalso
          apply hall2
          rw [allNull_iff]
          intro j hj
          rw [getRef_setRef]
          split_ifs with hc
          · rfl
          · apply hoth j hj
            intro e
            exact hc ⟨e.symm, hq'⟩
      · intro hlt heq
        show dec32 (dec32 p.clucount) = _
        unfold cluCount at heq ⊢
        show _ = p.d.countP (fun n => decide (n ≠ NULL_CLUSTER)) +
          cluCountS k _ p.i1 + cluCountD k _ p.i2
        have hD1 : cluCountD k v3.dzone p.i2
            = 1 + ((List.range k.RPC).map fun q' =>
                cluCountS k v3.dzone (getRef (setRef dI q NULL_CLUSTER) q')).sum := by
          unfold cluCountD; rw [if_neg hi2, hg2]
        rw [hS1, hD1]
        rw [hD0] at heq
        have hsum := sum_range_update_lt (fun q' => cluCountS k v.dzone (getRef dI q'))
          (fun q' => cluCountS k v3.dzone (getRef (setRef dI q NULL_CLUSTER) q'))
          k.RPC q hq (by
            intro j hjr hj
            show cluCountS k _ (getRef (setRef dI q NULL_CLUSTER) j)
              = cluCountS k _ (getRef dI j)
            rw [getRef_setRef, if_neg (fun e => hj e.1.symm), hdz']
            apply cluCountS_set_set
            by_cases hn : getRef dI j = NULL_CLUSTER
            · exact Or.inl hn
            · exact Or.inr ⟨hTother j hjr hj, h2other j hjr hn⟩)
        have hGq : cluCountS k v3.dzone (getRef (setRef dI q NULL_CLUSTER) q) = 0 := by
          unfold cluCountS
          rw [getRef_setRef, if_pos hqq, if_pos rfl]
        dsimp only at hsum
        rw [hFq, hGq] at hsum
        rw [dec32_pos (by omega) hlt, dec32_pos (by omega) (by omega)]
        omega
  · rw [if_neg hall] at hs ⊢
    have hv1inv : DZInv (soStoreDirRefClust (soFreeDataCluster v L).2 T
        (setRef sI r NULL_CLUSTER)) := DZInv_set_dzone f1 _
    have hv1dz : (soStoreDirRefClust (soFreeDataCluster v L).2 T
        (setRef sI r NULL_CLUSTER)).dzone = v.dzone.set T (setRef sI r NULL_CLUSTER) := by
      show (soFreeDataCluster v L).2.dzone.set _ _ = _
      rw [f12]
    have hv1fr : freeRefs (soStoreDirRefClust (soFreeDataCluster v L).2 T
        (setRef sI r NULL_CLUSTER)) = freeRefs v ++ [L] := f2
    have hv1it : (soStoreDirRefClust (soFreeDataCluster v L).2 T
        (setRef sI r NULL_CLUSTER)).itable = v.itable := f11
    have hv1a : (soStoreDirRefClust (soFreeDataCluster v L).2 T
        (setRef sI r NULL_CLUSTER)).sb.itotal = v.sb.itotal := f8
    have hv1b : (soStoreDirRefClust (soFreeDataCluster v L).2 T
        (setRef sI r NULL_CLUSTER)).sb.ifree = v.sb.ifree := f9
    have hv1c : (soStoreDirRefClust (soFreeDataCluster v L).2 T
        (setRef sI r NULL_CLUSTER)).sb.ihdtl = v.sb.ihdtl := f10
    generalize soStoreDirRefClust (soFreeDataCluster v L).2 T (setRef sI r NULL_CLUSTER) = v1 at *
    have hlen2' : p.i2 < v1.dzone.length := by
      rw [hv1dz, List.length_set]; exact hlen2
    rw [dIndirectFreeTop_eq k v1 { p with clucount := dec32 p.clucount } dI hlen2'] at hs ⊢
    have hnall : ¬ allNull k dI = true := by
      rw [allNull_iff]
      intro h
      exact hT (hTe ▸ h q hq)
    rw [if_neg hnall]
    dsimp only
    have hdz' : (soStoreSngIndRefClust v1 p.i2 dI).dzone
        = (v.dzone.set T (setRef sI r NULL_CLUSTER)).set p.i2 dI := by
      show v1.dzone.set _ _ = _
      rw [hv1dz]
    have hg2 : getDC (soStoreSngIndRefClust v1 p.i2 dI).dzone p.i2 = dI := by
      rw [hdz']; exact getDC_set_set_snd _ _ _ _ _ hlen2
    have hgT : getDC (soStoreSngIndRefClust v1 p.i2 dI).dzone T = setRef sI r NULL_CLUSTER := by
      rw [hdz']; exact getDC_set_set_fst _ _ _ _ _ hlenT hne2T
    have hfr' : freeRefs (soStoreSngIndRefClust v1 p.i2 dI) = freeRefs v ++ [L] := hv1fr
    refine ⟨DZInv_set_dzone hv1inv _, ?_, hv1it, hv1a, hv1b, hv1c, rfl, ?_, ?_, ?_, ?_, ?_⟩
    · refine ⟨fun h1 => ?_, fun _ => ⟨?_, ?_⟩⟩
      · rw [hdz', List.length_set, List.length_set]; exact hz1 h1
      · rw [hdz', List.length_set, List.length_set]; exact hlen2
      · intro q' hq' hn
        rw [hg2] at hn ⊢
        rw [hdz', List.length_set, List.length_set]
        exact hzall q' hq' hn
    · rw [if_neg hi2, hg2, hTe, if_neg hT, hgT, getRef_setRef,
        if_pos ⟨rfl, by rw [hsIlen]; exact hr⟩]
    · rw [if_neg hi2, if_neg hT, hfr']
      simp
    · intro h1 h2; omega
    · intro _ hother
      exfalso
      apply hall
      rw [allNull_iff]
      intro j hj
      rw [getRef_setRef]
      split_ifs with hc
      · rfl
      · apply hother j hj
        intro e
        exact hc ⟨e.symm, by rw [hsIlen]; exact hr⟩
    · intro hlt heq
      show dec32 p.clucount = cluCount k (soStoreSngIndRefClust v1 p.i2 dI).dzone
        { p with clucount := dec32 p.clucount }
      unfold cluCount at heq ⊢
      show _ = p.d.countP (fun n => decide (n ≠ NULL_CLUSTER)) +
        cluCountS k _ p.i1 + cluCountD k _ p.i2
      have hS1 : cluCountS k (soStoreSngIndRefClust v1 p.i2 dI).dzone p.i1
          = cluCountS k v.dzone p.i1 := by
        rw [hdz']
        apply cluCountS_set_set
        by_cases h1 : p.i1 = NULL_CLUSTER
        · exact Or.inl h1
        · exact Or.inr ⟨hi1neT h1, hi1ne2 h1⟩
      have hD0 : cluCountD k v.dzone p.i2
          = 1 + ((List.range k.RPC).map fun q' => cluCountS k v.dzone (getRef dI q')).sum := by
        unfold cluCountD; rw [if_neg hi2, hdI]
      have hD1 : cluCountD k (soStoreSngIndRefClust v1 p.i2 dI).dzone p.i2
          = 1 + ((List.range k.RPC).map fun q' =>
              cluCountS k (soStoreSngIndRefClust v1 p.i2 dI).dzone (getRef dI q')).sum := by
        unfold cluCountD; rw [if_neg hi2, hg2]
      have hsum := sum_range_update_lt (fun q' => cluCountS k v.dzone (getRef dI q'))
        (fun q' => cluCountS k (soStoreSngIndRefClust v1 p.i2 dI).dzone (getRef dI q'))
        k.RPC q hq (by
          intro j hjr hj
          show cluCountS k _ (getRef dI j) = cluCountS k _ (getRef dI j)
          rw [hdz']
          apply cluCountS_set_set
          by_cases hn : getRef dI j = NULL_CLUSTER
          · exact Or.inl hn
          · exact Or.inr ⟨hTother j hjr hj, h2other j hjr hn⟩)
      have hGq : cluCountS k (soStoreSngIndRefClust v1 p.i2 dI).dzone (getRef dI q)
          = 1 + usedRefs k (setRef sI r NULL_CLUSTER) := by
        unfold cluCountS; rw [hTe, if_neg hT, hgT]
      have hFq : cluCountS k v.dzone (getRef dI q) = 1 + usedRefs k sI := by
        rw [hTe]; exact hS
      dsimp only at hsum
      rw [hGq, hFq] at hsum
      rw [hS1, hD1]
      rw [hD0] at heq
      rw [dec32_pos (by omega) hlt]
      omega

theorem DZInv_set_itable {v : Volume} (h : DZInv v) (t : List SOInode) :
    DZInv { v with itable := t } := by
  obtain ⟨⟨a1, a2, a3, a4, a5, a6, a7, a8, a9, a10⟩, hn, hr⟩ := h
  exact ⟨⟨a1, a2, a3, a4, a5, a6, a7, a8, a9, a10⟩, hn, hr⟩

theorem handleRef_free {k : SOConst} {v : Volume} {p : SOInode} {c : Nat}
    (hdz : DZInv v) (ht : TreeWf k v p) (hc : c < MAX_FILE_CLUSTERS k)
    (hs : (handleRef k v p c FREE).1 = 0) :
    FreeOutcome k v p c (handleRef k v p c FREE).2.1 (handleRef k v p c FREE).2.2.1 := by
  unfold MAX_FILE_CLUSTERS at hc
  unfold handleRef at hs ⊢
  by_cases h1 : c < k.N_DIRECT
  · rw [if_pos h1] at hs ⊢
    exact soHandleDirect_free hdz ht h1 hs
  · rw [if_neg h1] at hs ⊢
    by_cases h2 : c < k.N_DIRECT + k.RPC
    · rw [if_pos h2] at hs ⊢
      exact soHandleSIndirect_free hdz ht (by omega) h2 hs
    · rw [if_neg h2] at hs ⊢
      exact dIndirectFree_free hdz ht (by omega) hc hs

theorem handleRef_free_null {k : SOConst} {v : Volume} {p : SOInode} {c : Nat}
    (hz : RefsInZone k v.dzone p) (hc : c < MAX_FILE_CLUSTERS k)
    (h : refOfIndex k v.dzone p c = NULL_CLUSTER) :
    handleRef k v p c FREE = (-EDCNOTIL, v, p, 0) := by
  unfold MAX_FILE_CLUSTERS at hc
  unfold handleRef
  unfold refOfIndex at h
  by_cases h1 : c < k.N_DIRECT
  · rw [if_pos h1] at h ⊢
    rw [soHandleDirect_FREE_eq, if_pos h]
  · rw [if_neg h1] at h ⊢
    by_cases h2 : c < k.N_DIRECT + k.RPC
    · rw [if_pos h2] at h ⊢
      by_cases hi1 : p.i1 = NULL_CLUSTER
      · exact soHandleSIndirect_FREE_null k v p c hi1
      · rw [if_neg hi1] at h
        rw [soHandleSIndirect_FREE_eq k v p c hi1 (hz.1 hi1), if_pos h]
    · rw [if_neg h2] at h ⊢
      rw [soHandleDIndirect_FREE_eq]
      by_cases hi2 : p.i2 = NULL_CLUSTER
      · exact dIndirectFree_null2 k v p _ _ hi2
      · rw [if_neg hi2] at h
        have hlen2 := (hz.2 hi2).1
        by_cases hT : getRef (getDC v.dzone p.i2) ((c - k.N_DIRECT - k.RPC) / k.RPC)
            = NULL_CLUSTER
        · exact dIndirectFree_nullT k v p _ _ hi2 hlen2 hT
        · rw [if_neg hT] at h
          have hpos : 0 < k.RPC := by
            rcases Nat.eq_zero_or_pos k.RPC with h0 | h0
            · rw [h0] at hc; omega
            · exact h0
          have hq : (c - k.N_DIRECT - k.RPC) / k.RPC < k.RPC := by
            rw [Nat.div_lt_iff_lt_mul hpos]
            omega
          rw [dIndirectFree_eq k v p _ _ hi2 hlen2 hT ((hz.2 hi2).2 _ hq hT), if_pos h]

theorem writeBack_fst_eq_zero {k : SOConst} {env : SOEnv} {nInode : Nat}
    {h : Int × Volume × SOInode × Nat} (hs : (writeBack k env nInode h).1 = 0) : h.1 = 0 := by
  unfold writeBack at hs
  by_contra hne
  rw [if_pos hne] at hs
  exact hne hs

theorem writeBack_ok {k : SOConst} {env : SOEnv} {nInode : Nat}
    {h : Int × Volume × SOInode × Nat} (h0 : h.1 = 0) (hn : nInode < h.2.1.sb.itotal)
    (hiu : soQCheckInodeIU k h.2.2.1 = 0) :
    writeBack k env nInode h =
      (0, { h.2.1 with
              itable := h.2.1.itable.set nInode
                          { h.2.2.1 with vD1 := env.now, vD2 := env.now } }, h.2.2.2) := by
  unfold writeBack
  rw [if_neg (not_not.2 h0)]
  simp only [soWriteInode_ok k env h.2.1 h.2.2.1 nInode hn hiu]
  rw [if_neg (by simp)]

theorem IInv_writeBack {k : SOConst} {env : SOEnv} {v hv : Volume} {nInode : Nat} {p' : SOInode}
    (hi : IInv k v) (hiu : soQCheckInodeIU k (getI v.itable nInode) = 0)
    (hit : hv.itable = (readVolume env v nInode).itable)
    (h1 : hv.sb.itotal = v.sb.itotal) (h2 : hv.sb.ifree = v.sb.ifree)
    (h3 : hv.sb.ihdtl = v.sb.ihdtl) (hiu' : soQCheckInodeIU k p' = 0) :
    IInv k { hv with itable := hv.itable.set nInode p' } := by
  have hnf := soQCheckInodeIU_not_free hiu
  have hr : soQCheckInodeIU k (readRecord env v nInode) = 0 :=
    (soQCheckInodeIU_congr k (by rfl)).trans hiu
  have hi' : IInv k (readVolume env v nInode) :=
    IInv_set_inuse hi nInode _ hnf (soQCheckInodeIU_not_free hr)
  have hi2 : IInv k hv := IInv_congr hi' hit h1 h2 h3
  apply IInv_set_inuse hi2 nInode _ _ (soQCheckInodeIU_not_free hiu')
  rw [hit]
  by_cases hlt : nInode < v.itable.length
  · show ¬ isFreeInode k (getI (v.itable.set nInode _) nInode)
    rw [getI_set_eq _ _ _ hlt]
    exact soQCheckInodeIU_not_free hr
  · show ¬ isFreeInode k (getI (v.itable.set nInode _) nInode)
    rw [List.set_eq_of_length_le (by omega)]
    exact hnf

theorem soHandleFileCluster_free {k : SOConst} (env : SOEnv) {v : Volume} {nInode c : Nat}
    (hi : IInv k v) (hdz : DZInv v) (hn : nInode < v.sb.itotal)
    (hiu : soQCheckInodeIU k (getI v.itable nInode) = 0)
    (hc : c < MAX_FILE_CLUSTERS k) (ht : TreeWf k v (getI v.itable nInode))
    (hs : (soHandleFileCluster k env v nInode c FREE).1 = 0) :
    ∃ hv p' out, FreeOutcome k (readVolume env v nInode) (readRecord env v nInode) c hv p' ∧
      soHandleFileCluster k env v nInode c FREE =
        (0, { hv with itable := hv.itable.set nInode { p' with vD1 := env.now, vD2 := env.now } },
          out) ∧
      IInv k { hv with itable := hv.itable.set nInode { p' with vD1 := env.now, vD2 := env.now } } ∧
      DZInv { hv with itable := hv.itable.set nInode { p' with vD1 := env.now, vD2 := env.now } } ∧
      getI (hv.itable.set nInode { p' with vD1 := env.now, vD2 := env.now }) nInode
        = { p' with vD1 := env.now, vD2 := env.now } ∧
      soQCheckInodeIU k { p' with vD1 := env.now, vD2 := env.now } = 0 := by
  have heq := soHandleFileCluster_eq env c hi (soQCheckDZ_of_DZInv hdz) hn hiu (le_of_lt hc)
    (Or.inr (Or.inr rfl))
  rw [heq] at hs ⊢
  have h0 := writeBack_fst_eq_zero hs
  have ht' : TreeWf k (readVolume env v nInode) (readRecord env v nInode) := ht
  have hdz' : DZInv (readVolume env v nInode) := DZInv_set_itable hdz _
  have hF := handleRef_free hdz' ht' hc h0
  generalize handleRef k (readVolume env v nInode) (readRecord env v nInode) c FREE = H at *
  obtain ⟨o1, o2, o3, o4, o5, o6, o7, o8⟩ := hF
  have hiu' : soQCheckInodeIU k H.2.2.1 = 0 :=
    (soQCheckInodeIU_congr k o7).trans ((soQCheckInodeIU_congr k (by rfl)).trans hiu)
  have hiu'' : soQCheckInodeIU k { H.2.2.1 with vD1 := env.now, vD2 := env.now } = 0 :=
    (soQCheckInodeIU_congr k (by rfl)).trans hiu'
  refine ⟨H.2.1, H.2.2.1, H.2.2.2, ⟨o1, o2, o3, o4, o5, o6, o7, o8⟩, ?_, ?_,
    DZInv_set_itable o1 _, ?_, hiu''⟩
  · rw [writeBack_ok h0 (by rw [o4]; exact hn) hiu']
  · exact IInv_writeBack hi hiu o3 o4 o5 o6 hiu''
  · apply getI_set_eq
    rw [o3]
    show nInode < (v.itable.set nInode _).length
    rw [List.length_set, hi.1]
    exact hn

/-! ## `soHandleFileCluster`: the operation `ALLOC` -/

theorem alloc_succeeds {v : Volume} (h : DZInv v) (hf : v.sb.dzone_free ≠ 0) :
    (soAllocDataCluster v).1 = 0 :=
  (soAllocDataCluster_spec h.1 hf).1

theorem alloc_fresh {v : Volume} (h : DZInv v) (hs : (soAllocDataCluster v).1 = 0) :
    (soAllocDataCluster v).2.2 ∈ freeRefs v ∧
    (soAllocDataCluster v).2.2 ∉ freeRefs (soAllocDataCluster v).2.1 ∧
    (soAllocDataCluster v).2.2 < v.sb.dzone_total ∧
    (soAllocDataCluster v).2.2 ≠ NULL_CLUSTER ∧
    (∀ m ∈ freeRefs (soAllocDataCluster v).2.1, m ∈ freeRefs v) := by
  obtain ⟨-, a2, -⟩ := alloc_ok h hs
  obtain ⟨hw, hnd, hr⟩ := h
  have hmem : (soAllocDataCluster v).2.2 ∈ freeRefs v := by rw [a2]; exact List.mem_cons_self _ _
  have hlt := (hr _ hmem).2
  have := hw.total_lt
  refine ⟨hmem, ?_, hlt, ?_, ?_⟩
  · rw [a2] at hnd
    exact (List.nodup_cons.1 hnd).1
  · unfold NULL_CLUSTER; omega
  · intro m hm
    rw [a2]
    exact List.mem_cons_of_mem _ hm

theorem sngClusters_congr {k : SOConst} {dz dz' : List SODataClust} {p p' : SOInode}
    (h : getDC dz' p'.i2 = getDC dz p.i2) : sngClusters k dz' p' = sngClusters k dz p := by
  unfold sngClusters
  rw [h]

theorem indClusters_congr {k : SOConst} {dz dz' : List SODataClust} {p p' : SOInode}
    (h1 : p'.i1 = p.i1) (h2 : p'.i2 = p.i2)
    (h : p.i2 ≠ NULL_CLUSTER → getDC dz' p'.i2 = getDC dz p.i2) :
    indClusters k dz' p' = indClusters k dz p := by
  unfold indClusters
  rw [h1, h2]
  by_cases hn : p.i2 = NULL_CLUSTER
  · rw [if_pos hn, if_pos hn]
  · rw [if_neg hn, if_neg hn, sngClusters_congr (h hn)]

theorem soHandleDirect_ALLOC_eq (v : Volume) (p : SOInode) (c : Nat) :
    soHandleDirect v p c ALLOC =
      if p.d.getD c 0 = NULL_CLUSTER then
        if v.sb.dzone_free = 0 then (-ELIBBAD, v, p, 0)
        else
          if (soAllocDataCluster v).1 ≠ 0 then
            ((soAllocDataCluster v).1, (soAllocDataCluster v).2.1, p, (soAllocDataCluster v).2.2)
          else
            (0, (soAllocDataCluster v).2.1,
              { p with d := p.d.set c (soAllocDataCluster v).2.2, clucount := inc32 p.clucount },
              (soAllocDataCluster v).2.2)
      else (-EDCARDYIL, v, p, 0) := by
  unfold soHandleDirect
  rw [if_pos rfl]

theorem inc32_lt {x : Nat} (h : x + 1 < 4294967296) : inc32 x = x + 1 := by
  unfold inc32; omega

theorem soHandleDirect_alloc {k : SOConst} {v : Volume} {p : SOInode} {c : Nat}
    (hdz : DZInv v) (ht : TreeWf k v p) (hc : c < k.N_DIRECT)
    (hs : (soHandleDirect v p c ALLOC).1 = 0) :
    AllocOutcome k v p c (soHandleDirect v p c ALLOC).2.1 (soHandleDirect v p c ALLOC).2.2.1
      (soHandleDirect v p c ALLOC).2.2.2 := by
  rw [soHandleDirect_ALLOC_eq] at hs ⊢
  have hL : p.d.getD c 0 = NULL_CLUSTER := by
    by_contra h
    rw [if_neg h] at hs
    simp [EDCARDYIL] at hs
  rw [if_pos hL] at hs ⊢
  have hfree : ¬ v.sb.dzone_free = 0 := by
    intro h
    rw [if_pos h] at hs
    simp [ELIBBAD] at hs
  rw [if_neg hfree] at hs ⊢
  have ha : (soAllocDataCluster v).1 = 0 := alloc_succeeds hdz hfree
  rw [if_neg (not_not.2 ha)]
  obtain ⟨a1, a2, a3, a4, a5, a6, a7, a8, a9⟩ := alloc_ok hdz ha
  obtain ⟨b1, b2, b3, b4, b5⟩ := alloc_fresh hdz ha
  have hz := TreeWf_RefsInZone ht
  have hind : indClusters k (soAllocDataCluster v).2.1.dzone
      { p with d := p.d.set c (soAllocDataCluster v).2.2, clucount := inc32 p.clucount }
      = indClusters k v.dzone p := by
    apply indClusters_congr rfl rfl
    intro _
    rw [a9]
  refine ⟨a1, ?_, a8, a5, a6, a7, rfl, by rw [a9], ?_, ?_, b1, b2, ?_, ?_, rfl, rfl, ?_⟩
  · rw [a9]; exact hz
  · unfold refOfIndex
    rw [if_pos hc]
    exact hL
  · unfold refOfIndex
    rw [if_pos hc]
    show (p.d.set c _).getD c 0 = _
    rw [List.getD_eq_getElem?_getD, List.getElem?_set_self (by rw [ht.1]; exact hc)]
    rfl
  · rw [hind]
    intro hmem
    exact (ht.2.2.2.2 _ hmem).2 b1
  · intro hlt heq
    show inc32 p.clucount = _
    unfold cluCount at heq ⊢
    show _ = (p.d.set c _).countP (fun n => decide (n ≠ NULL_CLUSTER)) +
      cluCountS k _ p.i1 + cluCountD k _ p.i2
    rw [a9, countP_set_new p.d c _ (by rw [ht.1]; exact hc) hL b4, inc32_lt (by omega)]
    omega
  · intro m _ _
    rw [a9]

theorem soHandleSIndirect_ALLOC_eq (k : SOConst) (v : Volume) (p : SOInode) (c : Nat)
    (hi1 : p.i1 ≠ NULL_CLUSTER) (hlen : p.i1 < v.dzone.length) :
    soHandleSIndirect k v p c ALLOC =
      if v.sb.dzone_free ≤ 0 then (-ENOSPC, v, p, 0)
      else if getRef (getDC v.dzone p.i1) (c - k.N_DIRECT) = NULL_CLUSTER then
        if (soAllocDataCluster v).1 ≠ 0 then
          ((soAllocDataCluster v).1, (soAllocDataCluster v).2.1, p, (soAllocDataCluster v).2.2)
        else
          (0, soStoreDirRefClust (soAllocDataCluster v).2.1 p.i1
                (setRef (getDC v.dzone p.i1) (c - k.N_DIRECT) (soAllocDataCluster v).2.2),
            { p with clucount := inc32 p.clucount }, (soAllocDataCluster v).2.2)
      else (-EDCARDYIL, v, p, 0) := by
  unfold soHandleSIndirect
  dsimp only
  rw [if_neg (by decide), if_pos rfl, if_neg hi1]
  unfold soLoadDirRefClust
  rw [if_pos hlen]
  dsimp only
  rw [if_neg (show ¬ ((0 : Int) ≠ 0) by simp)]

theorem soHandleSIndirect_ALLOC_new (k : SOConst) (v : Volume) (p : SOInode) (c : Nat)
    (hi1 : p.i1 = NULL_CLUSTER) :
    soHandleSIndirect k v p c ALLOC = sIndirectAllocNew k v p (c - k.N_DIRECT) := by
  unfold soHandleSIndirect
  dsimp only
  rw [if_neg (by decide), if_pos rfl, if_pos hi1]

theorem usedRefs_set_new (k : SOConst) (c : SODataClust) (i x : Nat) (hi : i < k.RPC)
    (hl : c.ref.length = k.RPC) (h : getRef c i = NULL_CLUSTER) (hx : x ≠ NULL_CLUSTER) :
    usedRefs k (setRef c i x) = usedRefs k c + 1 := by
  have := usedRefs_setRef k c i x hi hl
  rw [if_neg (not_not.2 h), if_pos hx] at this
  omega

theorem soHandleSIndirect_alloc_old {k : SOConst} {v : Volume} {p : SOInode} {c : Nat}
    (hdz : DZInv v) (ht : TreeWf k v p) (hc1 : k.N_DIRECT ≤ c) (hc2 : c < k.N_DIRECT + k.RPC)
    (hi1 : p.i1 ≠ NULL_CLUSTER)
    (hs : (soHandleSIndirect k v p c ALLOC).1 = 0) :
    AllocOutcome k v p c (soHandleSIndirect k v p c ALLOC).2.1
      (soHandleSIndirect k v p c ALLOC).2.2.1 (soHandleSIndirect k v p c ALLOC).2.2.2 := by
  have hlen := TreeWf_i1_lt ht hi1
  have hrel : c - k.N_DIRECT < k.RPC := by omega
  have hreflen : (getDC v.dzone p.i1).ref.length = k.RPC := ht.2.1 _ (i1_mem_indClusters hi1)
  have hz := TreeWf_RefsInZone ht
  rw [soHandleSIndirect_ALLOC_eq k v p c hi1 hlen] at hs ⊢
  have hfree : ¬ v.sb.dzone_free ≤ 0 := by
    intro h
    rw [if_pos h] at hs
    simp [ENOSPC] at hs
  rw [if_neg hfree] at hs ⊢
  have hL : getRef (getDC v.dzone p.i1) (c - k.N_DIRECT) = NULL_CLUSTER := by
    by_contra h
    rw [if_neg h] at hs
    simp [EDCARDYIL] at hs
  rw [if_pos hL] at hs ⊢
  have ha : (soAllocDataCluster v).1 = 0 := alloc_succeeds hdz (by omega)
  rw [if_neg (not_not.2 ha)]
  obtain ⟨a1, a2, a3, a4, a5, a6, a7, a8, a9⟩ := alloc_ok hdz ha
  obtain ⟨b1, b2, b3, b4, b5⟩ := alloc_fresh hdz ha
  have hne2 : p.i2 ≠ NULL_CLUSTER → p.i2 ≠ p.i1 := fun h2 => (TreeWf_i1_ne_i2 ht hi1 h2).symm
  have hdz' : (soStoreDirRefClust (soAllocDataCluster v).2.1 p.i1
      (setRef (getDC v.dzone p.i1) (c - k.N_DIRECT) (soAllocDataCluster v).2.2)).dzone
      = v.dzone.set p.i1
          (setRef (getDC v.dzone p.i1) (c - k.N_DIRECT) (soAllocDataCluster v).2.2) := by
    show (soAllocDataCluster v).2.1.dzone.set _ _ = _
    rw [a9]
  generalize (soAllocDataCluster v).2.2 = n at *
  have hgetS : getDC (v.dzone.set p.i1 (setRef (getDC v.dzone p.i1) (c - k.N_DIRECT) n)) p.i1
      = setRef (getDC v.dzone p.i1) (c - k.N_DIRECT) n := by
    rw [getDC_set, if_pos ⟨rfl, hlen⟩]
  have hind : indClusters k (v.dzone.set p.i1
      (setRef (getDC v.dzone p.i1) (c - k.N_DIRECT) n)) { p with clucount := inc32 p.clucount }
      = indClusters k v.dzone p := by
    apply indClusters_congr rfl rfl
    intro h2
    show getDC _ p.i2 = _
    rw [getDC_set, if_neg (fun e => hne2 h2 e.1.symm)]
  refine ⟨DZInv_set_dzone a1 _, ?_, a8, a5, a6, a7, rfl, ?_, ?_, ?_, b1, b2, ?_, ?_, rfl, rfl,
    ?_⟩
  · rw [hdz']
    by_cases h2 : p.i2 = NULL_CLUSTER
    · refine ⟨fun _ => by rw [List.length_set]; exact hlen, fun h => absurd h2 h⟩
    · exact RefsInZone_set_other hz _ _ (Or.inl rfl) rfl (hne2 h2)
  · rw [hdz', List.length_set]
  · unfold refOfIndex
    rw [if_neg (by omega), if_pos hc2, if_neg hi1]
    exact hL
  · rw [hdz']
    unfold refOfIndex
    rw [if_neg (by omega), if_pos hc2]
    show (if p.i1 = NULL_CLUSTER then _ else _) = _
    rw [if_neg hi1, hgetS, getRef_setRef, if_pos ⟨rfl, by rw [hreflen]; exact hrel⟩]
  · rw [hdz', hind]
    intro hmem
    exact (ht.2.2.2.2 _ hmem).2 b1
  · intro hlt heq
    show inc32 p.clucount = cluCount k _ _
    rw [hdz']
    unfold cluCount at heq ⊢
    show _ = p.d.countP (fun n => decide (n ≠ NULL_CLUSTER)) +
      cluCountS k _ p.i1 + cluCountD k _ p.i2
    have hD : cluCountD k (v.dzone.set p.i1
        (setRef (getDC v.dzone p.i1) (c - k.N_DIRECT) n)) p.i2 = cluCountD k v.dzone p.i2 := by
      apply cluCountD_set
      · by_cases h2 : p.i2 = NULL_CLUSTER
        · exact Or.inl h2
        · exact Or.inr (hne2 h2)
      · intro h2 q hq hq2
        exact (TreeWf_i1_ne_sng ht hi1 h2 hq hq2).symm
    have hS : cluCountS k v.dzone p.i1 = 1 + usedRefs k (getDC v.dzone p.i1) := by
      unfold cluCountS; rw [if_neg hi1]
    have hS' : cluCountS k (v.dzone.set p.i1
        (setRef (getDC v.dzone p.i1) (c - k.N_DIRECT) n)) p.i1
        = 1 + usedRefs k (setRef (getDC v.dzone p.i1) (c - k.N_DIRECT) n) := by
      unfold cluCountS; rw [if_neg hi1, hgetS]
    rw [hD, hS', usedRefs_set_new k _ _ _ hrel hreflen hL b4, inc32_lt (by omega)]
    rw [hS] at heq
    omega
  · intro m _ hm2
    rw [hdz', getDC_set, if_neg]
    intro e
    have hmem := @i1_mem_indClusters k v.dzone p hi1
    rw [e.1] at hmem
    exact hm2 hmem

theorem soHandleSIndirect_alloc_new {k : SOConst} {v : Volume} {p : SOInode} {c : Nat}
    (hdz : DZInv v) (ht : TreeWf k v p) (hc1 : k.N_DIRECT ≤ c) (hc2 : c < k.N_DIRECT + k.RPC)
    (hi1 : p.i1 = NULL_CLUSTER)
    (hs : (soHandleSIndirect k v p c ALLOC).1 = 0) :
    AllocOutcome k v p c (soHandleSIndirect k v p c ALLOC).2.1
      (soHandleSIndirect k v p c ALLOC).2.2.1 (soHandleSIndirect k v p c ALLOC).2.2.2 := by
  have hrel : c - k.N_DIRECT < k.RPC := by omega
  have hz := TreeWf_RefsInZone ht
  rw [soHandleSIndirect_ALLOC_new k v p c hi1] at hs ⊢
  unfold sIndirectAllocNew at hs ⊢
  dsimp only at hs ⊢
  have hfree : ¬ v.sb.dzone_free ≤ 1 := by
    intro h
    rw [if_pos h] at hs
    simp [ENOSPC] at hs
  rw [if_neg hfree] at hs ⊢
  have ha : (soAllocDataCluster v).1 = 0 := alloc_succeeds hdz (by omega)
  rw [if_neg (not_not.2 ha)] at hs ⊢
  obtain ⟨a1, a2, a3, a4, a5, a6, a7, a8, a9⟩ := alloc_ok hdz ha
  obtain ⟨b1, b2, b3, b4, b5⟩ := alloc_fresh hdz ha
  have hn1len : (soAllocDataCluster v).2.2 < (soAllocDataCluster v).2.1.dzone.length := by
    rw [a9]; exact lt_of_lt_of_le b3 ht.2.2.1
  unfold soLoadDirRefClust at hs ⊢
  rw [if_pos hn1len] at hs ⊢
  dsimp only at hs ⊢
  rw [if_neg (show ¬ ((0 : Int) ≠ 0) by simp)] at hs ⊢
  have hv2inv : DZInv (soStoreDirRefClust (soAllocDataCluster v).2.1 (soAllocDataCluster v).2.2
      (clearRefs k (getDC (soAllocDataCluster v).2.1.dzone (soAllocDataCluster v).2.2))) :=
    DZInv_set_dzone a1 _
  have hv2dz : (soStoreDirRefClust (soAllocDataCluster v).2.1 (soAllocDataCluster v).2.2
      (clearRefs k (getDC (soAllocDataCluster v).2.1.dzone (soAllocDataCluster v).2.2))).dzone
      = v.dzone.set (soAllocDataCluster v).2.2
          (clearRefs k (getDC v.dzone (soAllocDataCluster v).2.2)) := by
    show (soAllocDataCluster v).2.1.dzone.set _ _ = _
    rw [a9]
  have hv2fr : freeRefs (soStoreDirRefClust (soAllocDataCluster v).2.1 (soAllocDataCluster v).2.2
      (clearRefs k (getDC (soAllocDataCluster v).2.1.dzone (soAllocDataCluster v).2.2)))
      = freeRefs (soAllocDataCluster v).2.1 := rfl
  have hv2f : (soStoreDirRefClust (soAllocDataCluster v).2.1 (soAllocDataCluster v).2.2
      (clearRefs k (getDC (soAllocDataCluster v).2.1.dzone (soAllocDataCluster v).2.2))).sb.dzone_free
      + 1 = v.sb.dzone_free := a3
  have hv2it : (soStoreDirRefClust (soAllocDataCluster v).2.1 (soAllocDataCluster v).2.2
      (clearRefs k (getDC (soAllocDataCluster v).2.1.dzone (soAllocDataCluster v).2.2))).itable
      = v.itable := a8
  have hv2a : (soStoreDirRefClust (soAllocDataCluster v).2.1 (soAllocDataCluster v).2.2
      (clearRefs k (getDC (soAllocDataCluster v).2.1.dzone (soAllocDataCluster v).2.2))).sb.itotal
      = v.sb.itotal := a5
  have hv2b : (soStoreDirRefClust (soAllocDataCluster v).2.1 (soAllocDataCluster v).2.2
      (clearRefs k (getDC (soAllocDataCluster v).2.1.dzone (soAllocDataCluster v).2.2))).sb.ifree
      = v.sb.ifree := a6
  have hv2c : (soStoreDirRefClust (soAllocDataCluster v).2.1 (soAllocDataCluster v).2.2
      (clearRefs k (getDC (soAllocDataCluster v).2.1.dzone (soAllocDataCluster v).2.2))).sb.ihdtl
      = v.sb.ihdtl := a7
  generalize soStoreDirRefClust (soAllocDataCluster v).2.1 (soAllocDataCluster v).2.2
      (clearRefs k (getDC (soAllocDataCluster v).2.1.dzone (soAllocDataCluster v).2.2)) = v2 at *
  have hn1len0 : (soAllocDataCluster v).2.2 < v.dzone.length := by rw [← a9]; exact hn1len
  clear a1 a3 a4 a5 a6 a7 a8 a9 hn1len
  generalize hn1 : (soAllocDataCluster v).2.2 = n1 at *
  generalize (soAllocDataCluster v).2.1 = v1 at *
  have ha2 : (soAllocDataCluster v2).1 = 0 := alloc_succeeds hv2inv (by omega)
  rw [if_neg (not_not.2 ha2)] at hs ⊢
  obtain ⟨e1, e2, e3, e4, e5, e6, e7, e8, e9⟩ := alloc_ok hv2inv ha2
  obtain ⟨g1, g2, g3, g4, g5⟩ := alloc_fresh hv2inv ha2
  have hn1len3 : n1 < (soAllocDataCluster v2).2.1.dzone.length := by
    rw [e9, hv2dz, List.length_set]; exact hn1len0
  rw [if_pos hn1len3] at hs ⊢
  dsimp only at hs ⊢
  rw [if_neg (show ¬ ((0 : Int) ≠ 0) by simp)]
  have hg3 : getDC (soAllocDataCluster v2).2.1.dzone n1 = clearRefs k (getDC v.dzone n1) := by
    rw [e9, hv2dz, getDC_set, if_pos ⟨rfl, hn1len0⟩]
  rw [hg3]
  have hfin : (soStoreDirRefClust (soAllocDataCluster v2).2.1 n1
      (setRef (clearRefs k (getDC v.dzone n1)) (c - k.N_DIRECT) (soAllocDataCluster v2).2.2)).dzone
      = v.dzone.set n1
          (setRef (clearRefs k (getDC v.dzone n1)) (c - k.N_DIRECT)
            (soAllocDataCluster v2).2.2) := by
    show (soAllocDataCluster v2).2.1.dzone.set _ _ = _
    rw [e9, hv2dz, List.set_set]
  have hn12 : (soAllocDataCluster v2).2.2 ≠ n1 := by
    intro e
    rw [hv2fr] at g1
    exact b2 (e ▸ g1)
  have hn2free : (soAllocDataCluster v2).2.2 ∈ freeRefs v := b5 _ (hv2fr ▸ g1)
  generalize (soAllocDataCluster v2).2.2 = n2 at *
  have hgetS : getDC (v.dzone.set n1 (setRef (clearRefs k (getDC v.dzone n1)) (c - k.N_DIRECT) n2))
      n1 = setRef (clearRefs k (getDC v.dzone n1)) (c - k.N_DIRECT) n2 := by
    rw [getDC_set, if_pos ⟨rfl, hn1len0⟩]
  have hn1ind : n1 ∉ indClusters k v.dzone p := fun hmem => (ht.2.2.2.2 _ hmem).2 b1
  have hn2ind : n2 ∉ indClusters k v.dzone p := fun hmem => (ht.2.2.2.2 _ hmem).2 hn2free
  have hn1i2 : p.i2 ≠ NULL_CLUSTER → p.i2 ≠ n1 := fun h2 e =>
    hn1ind (e ▸ i2_mem_indClusters h2)
  have hn1sng : p.i2 ≠ NULL_CLUSTER → ∀ q, q < k.RPC →
      getRef (getDC v.dzone p.i2) q ≠ NULL_CLUSTER → getRef (getDC v.dzone p.i2) q ≠ n1 :=
    fun h2 q hq hq2 e => hn1ind (e ▸ sng_mem_indClusters h2 hq hq2)
  have hg2' : p.i2 ≠ NULL_CLUSTER →
      getDC (v.dzone.set n1 (setRef (clearRefs k (getDC v.dzone n1)) (c - k.N_DIRECT) n2)) p.i2
        = getDC v.dzone p.i2 := by
    intro h2
    rw [getDC_set, if_neg (fun e => hn1i2 h2 e.1.symm)]
  refine ⟨DZInv_set_dzone e1 _, ?_, e8.trans hv2it, e5.trans hv2a, e6.trans hv2b,
    e7.trans hv2c, rfl, ?_, ?_, ?_, hn2free, g2, ?_, ?_, rfl, rfl, ?_⟩
  · rw [hfin]
    refine ⟨fun _ => by rw [List.length_set]; exact hn1len0, fun h2 => ?_⟩
    rw [List.length_set]
    show p.i2 < _ ∧ ∀ q, q < k.RPC → getRef (getDC _ p.i2) q ≠ NULL_CLUSTER →
      getRef (getDC _ p.i2) q < _
    rw [hg2' h2]
    exact hz.2 h2
  · rw [hfin, List.length_set]
  · unfold refOfIndex
    rw [if_neg (by omega), if_pos hc2, if_pos hi1]
  · rw [hfin]
    unfold refOfIndex
    rw [if_neg (by omega), if_pos hc2]
    show (if n1 = NULL_CLUSTER then _ else _) = _
    rw [if_neg b4, hgetS, getRef_setRef,
      if_pos ⟨rfl, by rw [clearRefs_length]; exact hrel⟩]
  · rw [hfin]
    unfold indClusters
    show n2 ∉ (if n1 = NULL_CLUSTER then [] else [n1]) ++
      (if p.i2 = NULL_CLUSTER then [] else p.i2 :: sngClusters k _ _)
    rw [if_neg b4]
    unfold indClusters at hn2ind
    rw [if_pos hi1] at hn2ind
    by_cases h2 : p.i2 = NULL_CLUSTER
    · rw [if_pos h2]
      simpa using hn12
    · rw [if_neg h2] at hn2ind ⊢
      have hsng : sngClusters k (v.dzone.set n1
          (setRef (clearRefs k (getDC v.dzone n1)) (c - k.N_DIRECT) n2))
          { p with i1 := n1, clucount := inc32 (inc32 p.clucount) }
          = sngClusters k v.dzone p := sngClusters_congr (hg2' h2)
      rw [hsng]
      simp only [List.nil_append] at hn2ind
      simp only [List.singleton_append, List.mem_cons, not_or]
      exact ⟨hn12, by simpa using hn2ind⟩
  · intro hlt heq
    show inc32 (inc32 p.clucount) = cluCount k _ _
    rw [hfin]
    unfold cluCount at heq ⊢
    show _ = p.d.countP (fun n => decide (n ≠ NULL_CLUSTER)) +
      cluCountS k _ n1 + cluCountD k _ p.i2
    have hD : cluCountD k (v.dzone.set n1
        (setRef (clearRefs k (getDC v.dzone n1)) (c - k.N_DIRECT) n2)) p.i2
        = cluCountD k v.dzone p.i2 := by
      apply cluCountD_set
      · by_cases h2 : p.i2 = NULL_CLUSTER
        · exact Or.inl h2
        · exact Or.inr (hn1i2 h2)
      · exact hn1sng
    have hS : cluCountS k v.dzone p.i1 = 0 := by
      unfold cluCountS; rw [if_pos hi1]
    have hS' : cluCountS k (v.dzone.set n1
        (setRef (clearRefs k (getDC v.dzone n1)) (c - k.N_DIRECT) n2)) n1
        = 1 + usedRefs k (setRef (clearRefs k (getDC v.dzone n1)) (c - k.N_DIRECT) n2) := by
      unfold cluCountS; rw [if_neg b4, hgetS]
    rw [hD, hS', usedRefs_set_new k _ _ _ hrel (clearRefs_length k _)
      (getRef_clearRefs k _ _ hrel) g4, usedRefs_clearRefs]
    rw [hS] at heq
    have i1 : inc32 p.clucount = p.clucount + 1 := inc32_lt (by omega)
    have i2 : inc32 (p.clucount + 1) = p.clucount + 1 + 1 := inc32_lt (by omega)
    rw [i1, i2]
    omega
  · intro m hm1 _
    rw [hfin, getDC_set, if_neg]
    intro e
    rw [e.1] at b1
    exact hm1 b1

theorem soHandleSIndirect_alloc {k : SOConst} {v : Volume} {p : SOInode} {c : Nat}
    (hdz : DZInv v) (ht : TreeWf k v p) (hc1 : k.N_DIRECT ≤ c) (hc2 : c < k.N_DIRECT + k.RPC)
    (hs : (soHandleSIndirect k v p c ALLOC).1 = 0) :
    AllocOutcome k v p c (soHandleSIndirect k v p c ALLOC).2.1
      (soHandleSIndirect k v p c ALLOC).2.2.1 (soHandleSIndirect k v p c ALLOC).2.2.2 := by
  by_cases hi1 : p.i1 = NULL_CLUSTER
  · exact soHandleSIndirect_alloc_new hdz ht hc1 hc2 hi1 hs
  · exact soHandleSIndirect_alloc_old hdz ht hc1 hc2 hi1 hs

theorem cluCountS_congr (k : SOConst) {dz dz' : List SODataClust} {s : Nat}
    (h : s ≠ NULL_CLUSTER → getDC dz' s = getDC dz s) :
    cluCountS k dz' s = cluCountS k dz s := by
  unfold cluCountS
  by_cases hs : s = NULL_CLUSTER
  · rw [if_pos hs, if_pos hs]
  · rw [if_neg hs, if_neg hs, h hs]

theorem dIndirectLink_eq (v : Volume) (p : SOInode) (T r n : Nat)
    (h2 : p.i2 < v.dzone.length) (hT : T < v.dzone.length) :
    dIndirectLink v p T r n =
      (0, soStoreSngIndRefClust (soStoreDirRefClust v T (setRef (getDC v.dzone T) r n)) p.i2
            (getDC v.dzone p.i2), p, n) := by
  unfold dIndirectLink soLoadSngIndRefClust soLoadDirRefClust
  rw [if_pos h2, if_pos hT]
  dsimp only
  rw [if_neg (show ¬ ((0 : Int) ≠ 0) by simp), if_neg (show ¬ ((0 : Int) ≠ 0) by simp)]

theorem dIndirectLink_ok {v : Volume} {p : SOInode} {T r n : Nat}
    (h2 : p.i2 < v.dzone.length) (hT : T < v.dzone.length) (hne : T ≠ p.i2) :
    (dIndirectLink v p T r n).2.1.dzone.length = v.dzone.length ∧
    getDC (dIndirectLink v p T r n).2.1.dzone p.i2 = getDC v.dzone p.i2 ∧
    getDC (dIndirectLink v p T r n).2.1.dzone T = setRef (getDC v.dzone T) r n ∧
    (∀ m, m ≠ p.i2 → m ≠ T →
      getDC (dIndirectLink v p T r n).2.1.dzone m = getDC v.dzone m) := by
  rw [dIndirectLink_eq v p T r n h2 hT]
  show ((v.dzone.set T _).set p.i2 _).length = _ ∧ getDC ((v.dzone.set T _).set p.i2 _) p.i2 = _ ∧
    getDC ((v.dzone.set T _).set p.i2 _) T = _ ∧
    ∀ m, m ≠ p.i2 → m ≠ T → getDC ((v.dzone.set T _).set p.i2 _) m = _
  refine ⟨by rw [List.length_set, List.length_set], getDC_set_set_snd _ _ _ _ _ h2,
    getDC_set_set_fst _ _ _ _ _ hT (Ne.symm hne), ?_⟩
  intro m hm1 hm2
  rw [getDC_set, if_neg (fun e => hm1 e.1.symm), getDC_set, if_neg (fun e => hm2 e.1.symm)]

theorem dIndirectNewSInd_ok {k : SOConst} {v : Volume} {p : SOInode} {tmp q r out : Nat}
    (hdz : DZInv v) (hfree : v.sb.dzone_free ≠ 0) (h2 : p.i2 < v.dzone.length)
    (hT : tmp < v.dzone.length) (hne : tmp ≠ p.i2) :
    ∃ v' n, dIndirectNewSInd k v p tmp q r out
        = (0, v', { p with clucount := inc32 (inc32 p.clucount) }, n) ∧
      DZInv v' ∧ freeRefs v = n :: freeRefs v' ∧
      v'.itable = v.itable ∧ v'.sb.itotal = v.sb.itotal ∧ v'.sb.ifree = v.sb.ifree ∧
      v'.sb.ihdtl = v.sb.ihdtl ∧ v'.sb.dzone_total = v.sb.dzone_total ∧
      v'.dzone.length = v.dzone.length ∧
      getDC v'.dzone p.i2 = setRef (getDC v.dzone p.i2) q tmp ∧
      getDC v'.dzone tmp = setRef (clearRefs k (getDC v.dzone tmp)) r n ∧
      (∀ m, m ≠ p.i2 → m ≠ tmp → getDC v'.dzone m = getDC v.dzone m) ∧
      n ≠ NULL_CLUSTER := by
  unfold dIndirectNewSInd soLoadSngIndRefClust
  dsimp only
  rw [if_pos h2]
  dsimp only
  rw [if_neg (show ¬ ((0 : Int) ≠ 0) by simp)]
  unfold soLoadDirRefClust
  have hT1 : tmp < (soStoreSngIndRefClust v p.i2 (setRef (getDC v.dzone p.i2) q tmp)).dzone.length := by
    show tmp < (v.dzone.set _ _).length
    rw [List.length_set]; exact hT
  rw [if_pos hT1]
  dsimp only
  rw [if_neg (show ¬ ((0 : Int) ≠ 0) by simp)]
  have hX : getDC (soStoreSngIndRefClust v p.i2 (setRef (getDC v.dzone p.i2) q tmp)).dzone tmp
      = getDC v.dzone tmp := by
    show getDC (v.dzone.set _ _) tmp = _
    rw [getDC_set, if_neg (fun e => hne e.1.symm)]
  rw [hX]
  have hinv2 : DZInv (soStoreDirRefClust
      (soStoreSngIndRefClust v p.i2 (setRef (getDC v.dzone p.i2) q tmp)) tmp
      (clearRefs k (getDC v.dzone tmp))) := DZInv_set_dzone (DZInv_set_dzone hdz _) _
  have hdz2 : (soStoreDirRefClust
      (soStoreSngIndRefClust v p.i2 (setRef (getDC v.dzone p.i2) q tmp)) tmp
      (clearRefs k (getDC v.dzone tmp))).dzone
      = (v.dzone.set p.i2 (setRef (getDC v.dzone p.i2) q tmp)).set tmp
          (clearRefs k (getDC v.dzone tmp)) := rfl
  have hfr2 : freeRefs (soStoreDirRefClust
      (soStoreSngIndRefClust v p.i2 (setRef (getDC v.dzone p.i2) q tmp)) tmp
      (clearRefs k (getDC v.dzone tmp))) = freeRefs v := rfl
  have hsb2 : (soStoreDirRefClust
      (soStoreSngIndRefClust v p.i2 (setRef (getDC v.dzone p.i2) q tmp)) tmp
      (clearRefs k (getDC v.dzone tmp))).sb = v.sb := rfl
  have hit2 : (soStoreDirRefClust
      (soStoreSngIndRefClust v p.i2 (setRef (getDC v.dzone p.i2) q tmp)) tmp
      (clearRefs k (getDC v.dzone tmp))).itable = v.itable := rfl
  generalize soStoreDirRefClust
      (soStoreSngIndRefClust v p.i2 (setRef (getDC v.dzone p.i2) q tmp)) tmp
      (clearRefs k (getDC v.dzone tmp)) = v2 at *
  have ha : (soAllocDataCluster v2).1 = 0 := alloc_succeeds hinv2 (by rw [hsb2]; exact hfree)
  rw [if_neg (not_not.2 ha)]
  obtain ⟨a1, a2, a3, a4, a5, a6, a7, a8, a9⟩ := alloc_ok hinv2 ha
  obtain ⟨b1, b2, b3, b4, b5⟩ := alloc_fresh hinv2 ha
  have h2' : p.i2 < (soAllocDataCluster v2).2.1.dzone.length := by
    rw [a9, hdz2, List.length_set, List.length_set]; exact h2
  have hT' : tmp < (soAllocDataCluster v2).2.1.dzone.length := by
    rw [a9, hdz2, List.length_set, List.length_set]; exact hT
  obtain ⟨l1, l2, l3, l4⟩ := @dIndirectLink_ok (soAllocDataCluster v2).2.1
    { p with clucount := inc32 (inc32 p.clucount) } tmp r (soAllocDataCluster v2).2.2 h2' hT' hne
  have leq := dIndirectLink_eq (soAllocDataCluster v2).2.1
    { p with clucount := inc32 (inc32 p.clucount) } tmp r (soAllocDataCluster v2).2.2 h2' hT'
  refine ⟨_, _, leq, DZInv_set_dzone (DZInv_set_dzone a1 _) _, ?_, a8.trans hit2, ?_, ?_, ?_, ?_,
    ?_, ?_, ?_, ?_, b4⟩
  · rw [← hfr2]; exact a2
  · rw [← hsb2]; exact a5
  · rw [← hsb2]; exact a6
  · rw [← hsb2]; exact a7
  · rw [← hsb2]; exact a4
  · rw [leq] at l1
    rw [l1, a9, hdz2, List.length_set, List.length_set]
  · rw [leq] at l2
    rw [l2, a9, hdz2]
    exact getDC_set_set_fst _ _ _ _ _ h2 hne
  · rw [leq] at l3
    rw [l3, a9, hdz2, getDC_set_set_snd _ _ _ _ _ hT]
  · intro m hm1 hm2
    rw [leq] at l4
    rw [l4 m hm1 hm2, a9, hdz2, getDC_set, if_neg (fun e => hm2 e.1.symm), getDC_set,
      if_neg (fun e => hm1 e.1.symm)]

theorem dAlloc_final {k : SOConst} {v : Volume} {p : SOInode} {c : Nat} {v' : Volume}
    {n cc I T : Nat} {dI' sI' : SODataClust}
    (ht : TreeWf k v p) (hc1 : k.N_DIRECT + k.RPC ≤ c)
    (hc2 : c < k.N_DIRECT + k.RPC + k.RPC * k.RPC)
    (hinv : DZInv v') (hit : v'.itable = v.itable) (hsa : v'.sb.itotal = v.sb.itotal)
    (hsb : v'.sb.ifree = v.sb.ifree) (hsc : v'.sb.ihdtl = v.sb.ihdtl)
    (hlen : v'.dzone.length = v.dzone.length)
    (hold : refOfIndex k v.dzone p c = NULL_CLUSTER)
    (hI : I ≠ NULL_CLUSTER) (hIlen : I < v.dzone.length)
    (hT : T ≠ NULL_CLUSTER) (hTlen : T < v.dzone.length)
    (hgI : getDC v'.dzone I = dI') (hgT : getDC v'.dzone T = sI')
    (hgo : ∀ m, m ≠ I → m ≠ T → getDC v'.dzone m = getDC v.dzone m)
    (hdq : getRef dI' ((c - k.N_DIRECT - k.RPC) / k.RPC) = T)
    (hdo : ∀ j, j < k.RPC → j ≠ (c - k.N_DIRECT - k.RPC) / k.RPC →
      getRef dI' j = if p.i2 = NULL_CLUSTER then NULL_CLUSTER else getRef (getDC v.dzone p.i2) j)
    (hsr : getRef sI' ((c - k.N_DIRECT - k.RPC) % k.RPC) = n)
    (hIold : p.i2 ≠ NULL_CLUSTER → I = p.i2) (hInew : p.i2 = NULL_CLUSTER → I ∈ freeRefs v)
    (hTcase : (p.i2 ≠ NULL_CLUSTER ∧
        T = getRef (getDC v.dzone p.i2) ((c - k.N_DIRECT - k.RPC) / k.RPC)) ∨ T ∈ freeRefs v)
    (hn1 : n ∈ freeRefs v) (hn2 : n ∉ freeRefs v') (hnI : n ≠ I) (hnT : n ≠ T)
    (hcc : p.clucount + 3 < 4294967296 →
      cc + (if p.i2 = NULL_CLUSTER then 0
            else 1 + cluCountS k v.dzone
              (getRef (getDC v.dzone p.i2) ((c - k.N_DIRECT - k.RPC) / k.RPC)))
        = p.clucount + 1 + (1 + usedRefs k sI')) :
    AllocOutcome k v p c v' { p with i2 := I, clucount := cc } n := by
  have hpos : 0 < k.RPC := by
    rcases Nat.eq_zero_or_pos k.RPC with h | h
    · rw [h] at hc2; omega
    · exact h
  have hq : (c - k.N_DIRECT - k.RPC) / k.RPC < k.RPC := by
    rw [Nat.div_lt_iff_lt_mul hpos]
    omega
  have hz := TreeWf_RefsInZone ht
  unfold AllocOutcome refOfIndex
  unfold refOfIndex at hold
  simp only [if_neg (show ¬ c < k.N_DIRECT by omega),
    if_neg (show ¬ c < k.N_DIRECT + k.RPC by omega)] at hold ⊢
  generalize (c - k.N_DIRECT - k.RPC) / k.RPC = q at *
  generalize (c - k.N_DIRECT - k.RPC) % k.RPC = r at *
  have hnotfree : ∀ m ∈ indClusters k v.dzone p, m ∉ freeRefs v := fun m hm =>
    (ht.2.2.2.2 m hm).2
  -- the old cluster `i1` is neither `I` nor `T`
  have hi1I : p.i1 ≠ NULL_CLUSTER → p.i1 ≠ I := by
    intro h1 e
    by_cases h2 : p.i2 = NULL_CLUSTER
    · exact hnotfree _ (i1_mem_indClusters h1) (e ▸ hInew h2)
    · exact TreeWf_i1_ne_i2 ht h1 h2 (e.trans (hIold h2))
  have hi1T : p.i1 ≠ NULL_CLUSTER → p.i1 ≠ T := by
    intro h1 e
    rcases hTcase with ⟨h2, hTe⟩ | hTf
    · exact TreeWf_i1_ne_sng ht h1 h2 hq (hTe ▸ hT) (e.trans hTe)
    · exact hnotfree _ (i1_mem_indClusters h1) (e ▸ hTf)
  -- the old references of the cluster `i2` are neither `I` nor `T`
  have hsI : p.i2 ≠ NULL_CLUSTER → ∀ j, j < k.RPC → j ≠ q →
      getRef (getDC v.dzone p.i2) j ≠ NULL_CLUSTER → getRef (getDC v.dzone p.i2) j ≠ I := by
    intro h2 j hj _ hn e
    exact TreeWf_i2_ne_sng ht h2 hj hn ((hIold h2).symm.trans e.symm)
  have hsT : p.i2 ≠ NULL_CLUSTER → ∀ j, j < k.RPC → j ≠ q →
      getRef (getDC v.dzone p.i2) j ≠ NULL_CLUSTER → getRef (getDC v.dzone p.i2) j ≠ T := by
    intro h2 j hj hjq hn e
    rcases hTcase with ⟨_, hTe⟩ | hTf
    · exact TreeWf_sng_ne_sng ht h2 hj hq hjq hn (e.trans hTe)
    · exact hnotfree _ (sng_mem_indClusters h2 hj hn) (e ▸ hTf)
  have hS1 : cluCountS k v'.dzone p.i1 = cluCountS k v.dzone p.i1 :=
    cluCountS_congr k (fun h1 => hgo _ (hi1I h1) (hi1T h1))
  refine ⟨hinv, ?_, hit, hsa, hsb, hsc, trivial, hlen, hold, ?_, hn1, hn2, ?_, ?_, trivial,
    trivial, ?_⟩
  · refine ⟨fun h1 => by rw [hlen]; exact hz.1 h1, fun _ => ⟨by rw [hlen]; exact hIlen, ?_⟩⟩
    intro j hj hn
    show getRef (getDC v'.dzone I) j < _
    change getRef (getDC v'.dzone I) j ≠ NULL_CLUSTER at hn
    rw [hgI] at hn ⊢
    rw [hlen]
    by_cases hjq : j = q
    · rw [hjq, hdq]; exact hTlen
    · rw [hdo j hj hjq] at hn ⊢
      by_cases h2 : p.i2 = NULL_CLUSTER
      · rw [if_pos h2] at hn; exact absurd rfl hn
      · rw [if_neg h2] at hn ⊢
        exact (hz.2 h2).2 j hj hn
  · show (if I = NULL_CLUSTER then _ else if getRef (getDC v'.dzone I) q = NULL_CLUSTER then _
      else getRef (getDC v'.dzone (getRef (getDC v'.dzone I) q)) r) = n
    rw [if_neg hI, hgI, hdq, if_neg hT, hgT, hsr]
  · unfold indClusters sngClusters
    show n ∉ (if p.i1 = NULL_CLUSTER then [] else [p.i1]) ++
      (if I = NULL_CLUSTER then [] else I :: ((List.range k.RPC).map fun q =>
        getRef (getDC v'.dzone I) q).filter fun n => n ≠ NULL_CLUSTER)
    rw [if_neg hI, hgI]
    intro hmem
    rw [List.mem_append] at hmem
    rcases hmem with hmem | hmem
    · by_cases h1 : p.i1 = NULL_CLUSTER
      · rw [if_pos h1] at hmem; simp at hmem
      · rw [if_neg h1] at hmem
        simp only [List.mem_singleton] at hmem
        exact hnotfree _ (i1_mem_indClusters h1) (hmem ▸ hn1)
    · rw [List.mem_cons] at hmem
      rcases hmem with hmem | hmem
      · exact hnI hmem
      · rw [List.mem_filter, List.mem_map] at hmem
        obtain ⟨⟨j, hj, hje⟩, hnn⟩ := hmem
        rw [List.mem_range] at hj
        by_cases hjq : j = q
        · rw [hjq, hdq] at hje; exact hnT hje.symm
        · rw [hdo j hj hjq] at hje
          by_cases h2 : p.i2 = NULL_CLUSTER
          · rw [if_pos h2] at hje
            rw [← hje] at hnn
            simp at hnn
          · rw [if_neg h2] at hje
            have hne : getRef (getDC v.dzone p.i2) j ≠ NULL_CLUSTER := by
              rw [hje]; simpa using hnn
            exact hnotfree _ (sng_mem_indClusters h2 hj hne) (hje ▸ hn1)
  · intro hlt heq
    have hcc' := hcc hlt
    show cc = cluCount k v'.dzone { p with i2 := I, clucount := cc }
    unfold cluCount at heq ⊢
    show cc = p.d.countP (fun n => decide (n ≠ NULL_CLUSTER)) +
      cluCountS k v'.dzone p.i1 + cluCountD k v'.dzone I
    have hD' : cluCountD k v'.dzone I
        = 1 + ((List.range k.RPC).map fun j => cluCountS k v'.dzone (getRef dI' j)).sum := by
      unfold cluCountD; rw [if_neg hI, hgI]
    have hGq : cluCountS k v'.dzone (getRef dI' q) = 1 + usedRefs k sI' := by
      unfold cluCountS; rw [hdq, if_neg hT, hgT]
    rw [hS1, hD']
    by_cases h2 : p.i2 = NULL_CLUSTER
    · rw [if_pos h2] at hcc'
      have hD0 : cluCountD k v.dzone p.i2 = 0 := by unfold cluCountD; rw [if_pos h2]
      have hsum := sum_range_update_lt (fun _ => 0)
        (fun j => cluCountS k v'.dzone (getRef dI' j)) k.RPC q hq (by
          intro j hj hjq
          show cluCountS k v'.dzone (getRef dI' j) = 0
          rw [hdo j hj hjq, if_pos h2]
          unfold cluCountS
          rw [if_pos rfl])
      dsimp only at hsum
      have hz0 : ((List.range k.RPC).map fun _ => 0).sum = 0 := by simp
      rw [hz0, hGq] at hsum
      rw [hD0] at heq
      omega
    · rw [if_neg h2] at hcc'
      have hD0 : cluCountD k v.dzone p.i2
          = 1 + ((List.range k.RPC).map fun j =>
              cluCountS k v.dzone (getRef (getDC v.dzone p.i2) j)).sum := by
        unfold cluCountD; rw [if_neg h2]
      have hsum := sum_range_update_lt
        (fun j => cluCountS k v.dzone (getRef (getDC v.dzone p.i2) j))
        (fun j => cluCountS k v'.dzone (getRef dI' j)) k.RPC q hq (by
          intro j hj hjq
          show cluCountS k v'.dzone (getRef dI' j)
            = cluCountS k v.dzone (getRef (getDC v.dzone p.i2) j)
          rw [hdo j hj hjq, if_neg h2]
          exact cluCountS_congr k (fun hn => hgo _ (hsI h2 j hj hjq hn) (hsT h2 j hj hjq hn)))
      dsimp only at hsum
      rw [hGq] at hsum
      rw [hD0] at heq
      omega
  · intro m hm1 hm2
    apply hgo
    · intro e
      by_cases h2 : p.i2 = NULL_CLUSTER
      · exact hm1 (e ▸ hInew h2)
      · exact hm2 (e ▸ (hIold h2) ▸ i2_mem_indClusters h2)
    · intro e
      rcases hTcase with ⟨h2, hTe⟩ | hTf
      · exact hm2 (e ▸ hTe ▸ sng_mem_indClusters h2 hq (hTe ▸ hT))
      · exact hm1 (e ▸ hTf)

theorem getDC_set_self (dz : List SODataClust) (i m : Nat) :
    getDC (dz.set i (getDC dz i)) m = getDC dz m := by
  rw [getDC_set]
  split_ifs with h
  · rw [h.1]
  · rfl

theorem soHandleDIndirect_ALLOC_eq (k : SOConst) (v : Volume) (p : SOInode) (c : Nat) :
    soHandleDIndirect k v p c ALLOC =
      if p.i2 = NULL_CLUSTER then
        dIndirectAllocNew k v p ((c - k.N_DIRECT - k.RPC) / k.RPC)
          ((c - k.N_DIRECT - k.RPC) % k.RPC)
      else
        dIndirectAllocOld k v p ((c - k.N_DIRECT - k.RPC) / k.RPC)
          ((c - k.N_DIRECT - k.RPC) % k.RPC) := by
  unfold soHandleDIndirect
  dsimp only
  rw [if_neg (by decide), if_pos rfl]

theorem dIndirectAllocOld_eq (k : SOConst) (v : Volume) (p : SOInode) (q r : Nat)
    (hlen : p.i2 < v.dzone.length)
    (hTlen : getRef (getDC v.dzone p.i2) q ≠ NULL_CLUSTER →
      getRef (getDC v.dzone p.i2) q < v.dzone.length) :
    dIndirectAllocOld k v p q r =
      if v.sb.dzone_free ≤ 1 then (-ENOSPC, v, p, 0)
      else if getRef (getDC v.dzone p.i2) q = NULL_CLUSTER then
        if (soAllocDataCluster (soStoreSngIndRefClust v p.i2 (getDC v.dzone p.i2))).1 ≠ 0 then
          ((soAllocDataCluster (soStoreSngIndRefClust v p.i2 (getDC v.dzone p.i2))).1,
           (soAllocDataCluster (soStoreSngIndRefClust v p.i2 (getDC v.dzone p.i2))).2.1, p,
           (soAllocDataCluster (soStoreSngIndRefClust v p.i2 (getDC v.dzone p.i2))).2.2)
        else
          dIndirectNewSInd k
            (soAllocDataCluster (soStoreSngIndRefClust v p.i2 (getDC v.dzone p.i2))).2.1 p
            (soAllocDataCluster (soStoreSngIndRefClust v p.i2 (getDC v.dzone p.i2))).2.2 q r
            (soAllocDataCluster (soStoreSngIndRefClust v p.i2 (getDC v.dzone p.i2))).2.2
      else if getRef (getDC v.dzone (getRef (getDC v.dzone p.i2) q)) r ≠ NULL_CLUSTER then
        (-EDCARDYIL, v, p, 0)
      else
        if (soAllocDataCluster (soStoreSngIndRefClust
            (soStoreDirRefClust v (getRef (getDC v.dzone p.i2) q)
              (getDC v.dzone (getRef (getDC v.dzone p.i2) q))) p.i2 (getDC v.dzone p.i2))).1 ≠ 0
        then
          ((soAllocDataCluster (soStoreSngIndRefClust
            (soStoreDirRefClust v (getRef (getDC v.dzone p.i2) q)
              (getDC v.dzone (getRef (getDC v.dzone p.i2) q))) p.i2 (getDC v.dzone p.i2))).1,
           (soAllocDataCluster (soStoreSngIndRefClust
            (soStoreDirRefClust v (getRef (getDC v.dzone p.i2) q)
              (getDC v.dzone (getRef (getDC v.dzone p.i2) q))) p.i2 (getDC v.dzone p.i2))).2.1,
           p,
           (soAllocDataCluster (soStoreSngIndRefClust
            (soStoreDirRefClust v (getRef (getDC v.dzone p.i2) q)
              (getDC v.dzone (getRef (getDC v.dzone p.i2) q))) p.i2 (getDC v.dzone p.i2))).2.2)
        else
          dIndirectLink
            (soAllocDataCluster (soStoreSngIndRefClust
              (soStoreDirRefClust v (getRef (getDC v.dzone p.i2) q)
                (getDC v.dzone (getRef (getDC v.dzone p.i2) q))) p.i2
                (getDC v.dzone p.i2))).2.1
            { p with clucount := inc32 p.clucount } (getRef (getDC v.dzone p.i2) q) r
            (soAllocDataCluster (soStoreSngIndRefClust
              (soStoreDirRefClust v (getRef (getDC v.dzone p.i2) q)
                (getDC v.dzone (getRef (getDC v.dzone p.i2) q))) p.i2
                (getDC v.dzone p.i2))).2.2 := by
  unfold dIndirectAllocOld soLoadSngIndRefClust
  rw [if_pos hlen]
  dsimp only
  rw [if_neg (show ¬ ((0 : Int) ≠ 0) by simp)]
  by_cases hf : v.sb.dzone_free ≤ 1
  · rw [if_pos hf, if_pos hf]
  · rw [if_neg hf, if_neg hf]
    by_cases hT : getRef (getDC v.dzone p.i2) q = NULL_CLUSTER
    · rw [if_pos hT, if_pos hT]
    · rw [if_neg hT, if_neg hT]
      unfold soLoadDirRefClust
      rw [if_pos (hTlen hT)]
      dsimp only
      rw [if_neg (show ¬ ((0 : Int) ≠ 0) by simp)]

theorem dIndirectAllocOld_alloc {k : SOConst} {v : Volume} {p : SOInode} {c : Nat}
    (hdz : DZInv v) (ht : TreeWf k v p) (hc1 : k.N_DIRECT + k.RPC ≤ c)
    (hc2 : c < k.N_DIRECT + k.RPC + k.RPC * k.RPC) (hi2 : p.i2 ≠ NULL_CLUSTER)
    (hs : (dIndirectAllocOld k v p ((c - k.N_DIRECT - k.RPC) / k.RPC)
      ((c - k.N_DIRECT - k.RPC) % k.RPC)).1 = 0) :
    AllocOutcome k v p c
      (dIndirectAllocOld k v p ((c - k.N_DIRECT - k.RPC) / k.RPC)
        ((c - k.N_DIRECT - k.RPC) % k.RPC)).2.1
      (dIndirectAllocOld k v p ((c - k.N_DIRECT - k.RPC) / k.RPC)
        ((c - k.N_DIRECT - k.RPC) % k.RPC)).2.2.1
      (dIndirectAllocOld k v p ((c - k.N_DIRECT - k.RPC) / k.RPC)
        ((c - k.N_DIRECT - k.RPC) % k.RPC)).2.2.2 := by
  have hpos : 0 < k.RPC := by
    rcases Nat.eq_zero_or_pos k.RPC with h | h
    · rw [h] at hc2; omega
    · exact h
  have hq : (c - k.N_DIRECT - k.RPC) / k.RPC < k.RPC := by
    rw [Nat.div_lt_iff_lt_mul hpos]
    omega
  have hr : (c - k.N_DIRECT - k.RPC) % k.RPC < k.RPC := Nat.mod_lt _ hpos
  have hz := TreeWf_RefsInZone ht
  have hlen2 := (hz.2 hi2).1
  have hnotfree : ∀ m ∈ indClusters k v.dzone p, m ∉ freeRefs v := fun m hm =>
    (ht.2.2.2.2 m hm).2
  have hdIlen : (getDC v.dzone p.i2).ref.length = k.RPC := ht.2.1 _ (i2_mem_indClusters hi2)
  have hrefold : refOfIndex k v.dzone p c =
      if getRef (getDC v.dzone p.i2) ((c - k.N_DIRECT - k.RPC) / k.RPC) = NULL_CLUSTER then
        NULL_CLUSTER
      else getRef (getDC v.dzone (getRef (getDC v.dzone p.i2)
        ((c - k.N_DIRECT - k.RPC) / k.RPC))) ((c - k.N_DIRECT - k.RPC) % k.RPC) := by
    unfold refOfIndex
    rw [if_neg (by omega), if_neg (by omega), if_neg hi2]
  obtain ⟨q, hqe⟩ : ∃ q, q = (c - k.N_DIRECT - k.RPC) / k.RPC := ⟨_, rfl⟩
  obtain ⟨r, hre⟩ : ∃ r, r = (c - k.N_DIRECT - k.RPC) % k.RPC := ⟨_, rfl⟩
  rw [← hqe] at hs hq hrefold ⊢
  rw [← hre] at hs hr hrefold ⊢
  rw [dIndirectAllocOld_eq k v p q r hlen2 ((hz.2 hi2).2 q hq)] at hs ⊢
  have hfree : ¬ v.sb.dzone_free ≤ 1 := by
    intro h
    rw [if_pos h] at hs
    simp [ENOSPC] at hs
  rw [if_neg hfree] at hs ⊢
  by_cases hT : getRef (getDC v.dzone p.i2) q = NULL_CLUSTER
  · rw [if_pos hT] at hs ⊢
    have hinv1 : DZInv (soStoreSngIndRefClust v p.i2 (getDC v.dzone p.i2)) :=
      DZInv_set_dzone hdz _
    have hg1 : ∀ m, getDC (soStoreSngIndRefClust v p.i2 (getDC v.dzone p.i2)).dzone m
        = getDC v.dzone m := fun m => getDC_set_self _ _ _
    have hlen1 : (soStoreSngIndRefClust v p.i2 (getDC v.dzone p.i2)).dzone.length
        = v.dzone.length := by
      show (v.dzone.set _ _).length = _
      rw [List.length_set]
    have hfr1 : freeRefs (soStoreSngIndRefClust v p.i2 (getDC v.dzone p.i2)) = freeRefs v := rfl
    have hsb1 : (soStoreSngIndRefClust v p.i2 (getDC v.dzone p.i2)).sb = v.sb := rfl
    have hit1 : (soStoreSngIndRefClust v p.i2 (getDC v.dzone p.i2)).itable = v.itable := rfl
    generalize soStoreSngIndRefClust v p.i2 (getDC v.dzone p.i2) = v1 at *
    have ha : (soAllocDataCluster v1).1 = 0 :=
      alloc_succeeds hinv1 (by rw [hsb1]; omega)
    rw [if_neg (not_not.2 ha)]
    obtain ⟨a1, a2, a3, a4, a5, a6, a7, a8, a9⟩ := alloc_ok hinv1 ha
    obtain ⟨b1, b2, b3, b4, b5⟩ := alloc_fresh hinv1 ha
    rw [hfr1] at b1 b5
    rw [hsb1] at b3 a3
    have hn1len : (soAllocDataCluster v1).2.2 < v.dzone.length := lt_of_lt_of_le b3 ht.2.2.1
    have hn1ne : (soAllocDataCluster v1).2.2 ≠ p.i2 := by
      intro e
      exact hnotfree _ (i2_mem_indClusters hi2) (e ▸ b1)
    obtain ⟨v', n, heq, w1, w2, w3, w4, w5, w6, w7, w8, w9, w10, w11, w12⟩ :=
      @dIndirectNewSInd_ok k (soAllocDataCluster v1).2.1 p (soAllocDataCluster v1).2.2 q r
        (soAllocDataCluster v1).2.2 a1 (by omega) (by rw [a9, hlen1]; exact hlen2)
        (by rw [a9, hlen1]; exact hn1len) hn1ne
    rw [heq]
    have hnmem : n ∈ freeRefs (soAllocDataCluster v1).2.1 := by
      rw [w2]; exact List.mem_cons_self _ _
    have hnd := a1.2.1
    rw [w2] at hnd
    subst hqe hre
    refine dAlloc_final ht hc1 hc2 w1 (w3.trans (a8.trans hit1))
      (by rw [w4, a5, hsb1]) (by rw [w5, a6, hsb1]) (by rw [w6, a7, hsb1])
      (by rw [w8, a9, hlen1]) (by rw [hrefold, if_pos hT])
      hi2 hlen2 b4 hn1len w9 w10 ?_ ?_ ?_ ?_ (fun _ => rfl) (fun h => absurd h hi2)
      (Or.inr b1) (b5 _ hnmem) (List.nodup_cons.1 hnd).1 ?_ ?_ ?_
    · intro m hm1 hm2
      rw [w11 m hm1 hm2, a9, hg1]
    · rw [a9, hg1, getRef_setRef, if_pos ⟨rfl, by rw [hdIlen]; exact hq⟩]
    · intro j _ hjq
      rw [a9, hg1, getRef_setRef, if_neg (fun e => hjq e.1.symm), if_neg hi2]
    · rw [getRef_setRef, if_pos ⟨rfl, by rw [clearRefs_length]; exact hr⟩]
    · show n ≠ p.i2
      intro e
      exact hnotfree _ (i2_mem_indClusters hi2) (e ▸ b5 _ hnmem)
    · show n ≠ (soAllocDataCluster v1).2.2
      intro e
      exact b2 (e ▸ hnmem)
    · intro hlt
      rw [if_neg hi2, hT, usedRefs_set_new k _ _ _ hr (clearRefs_length k _)
        (getRef_clearRefs k _ _ hr) w12, usedRefs_clearRefs]
      have i1 : inc32 p.clucount = p.clucount + 1 := inc32_lt (by omega)
      have i2 : inc32 (p.clucount + 1) = p.clucount + 1 + 1 := inc32_lt (by omega)
      rw [i1, i2]
      unfold cluCountS
      rw [if_pos rfl]
  · rw [if_neg hT] at hs ⊢
    have hTlen := (hz.2 hi2).2 q hq hT
    have hL : getRef (getDC v.dzone (getRef (getDC v.dzone p.i2) q)) r = NULL_CLUSTER := by
      by_contra h
      rw [if_pos h] at hs
      simp [EDCARDYIL] at hs
    rw [if_neg (not_not.2 hL)] at hs ⊢
    have hne2T := TreeWf_i2_ne_sng ht hi2 hq hT
    have hsIlen : (getDC v.dzone (getRef (getDC v.dzone p.i2) q)).ref.length = k.RPC :=
      ht.2.1 _ (sng_mem_indClusters hi2 hq hT)
    have hTind := sng_mem_indClusters hi2 hq hT
    have hinv2 : DZInv (soStoreSngIndRefClust
        (soStoreDirRefClust v (getRef (getDC v.dzone p.i2) q)
          (getDC v.dzone (getRef (getDC v.dzone p.i2) q))) p.i2 (getDC v.dzone p.i2)) :=
      DZInv_set_dzone (DZInv_set_dzone hdz _) _
    have hg2 : ∀ m, getDC (soStoreSngIndRefClust
        (soStoreDirRefClust v (getRef (getDC v.dzone p.i2) q)
          (getDC v.dzone (getRef (getDC v.dzone p.i2) q))) p.i2 (getDC v.dzone p.i2)).dzone m
        = getDC v.dzone m := by
      intro m
      show getDC ((v.dzone.set _ _).set _ _) m = _
      rw [getDC_set]
      split_ifs with h
      · rw [h.1]
      · exact getDC_set_self _ _ _
    have hlen2' : (soStoreSngIndRefClust
        (soStoreDirRefClust v (getRef (getDC v.dzone p.i2) q)
          (getDC v.dzone (getRef (getDC v.dzone p.i2) q))) p.i2 (getDC v.dzone p.i2)).dzone.length
        = v.dzone.length := by
      show ((v.dzone.set _ _).set _ _).length = _
      rw [List.length_set, List.length_set]
    have hfr2 : freeRefs (soStoreSngIndRefClust
        (soStoreDirRefClust v (getRef (getDC v.dzone p.i2) q)
          (getDC v.dzone (getRef (getDC v.dzone p.i2) q))) p.i2 (getDC v.dzone p.i2))
        = freeRefs v := rfl
    have hsb2 : (soStoreSngIndRefClust
        (soStoreDirRefClust v (getRef (getDC v.dzone p.i2) q)
          (getDC v.dzone (getRef (getDC v.dzone p.i2) q))) p.i2 (getDC v.dzone p.i2)).sb
        = v.sb := rfl
    have hit2 : (soStoreSngIndRefClust
        (soStoreDirRefClust v (getRef (getDC v.dzone p.i2) q)
          (getDC v.dzone (getRef (getDC v.dzone p.i2) q))) p.i2 (getDC v.dzone p.i2)).itable
        = v.itable := rfl
    generalize soStoreSngIndRefClust
        (soStoreDirRefClust v (getRef (getDC v.dzone p.i2) q)
          (getDC v.dzone (getRef (getDC v.dzone p.i2) q))) p.i2 (getDC v.dzone p.i2) = v2 at *
    have ha : (soAllocDataCluster v2).1 = 0 :=
      alloc_succeeds hinv2 (by rw [hsb2]; omega)
    rw [if_neg (not_not.2 ha)]
    obtain ⟨a1, a2, a3, a4, a5, a6, a7, a8, a9⟩ := alloc_ok hinv2 ha
    obtain ⟨b1, b2, b3, b4, b5⟩ := alloc_fresh hinv2 ha
    rw [hfr2] at b1
    have h2' : p.i2 < (soAllocDataCluster v2).2.1.dzone.length := by
      rw [a9, hlen2']; exact hlen2
    have hT' : getRef (getDC v.dzone p.i2) q < (soAllocDataCluster v2).2.1.dzone.length := by
      rw [a9, hlen2']; exact hTlen
    obtain ⟨l1, l2, l3, l4⟩ := @dIndirectLink_ok (soAllocDataCluster v2).2.1
      { p with clucount := inc32 p.clucount } (getRef (getDC v.dzone p.i2) q) r
      (soAllocDataCluster v2).2.2 h2' hT' hne2T.symm
    have leq := dIndirectLink_eq (soAllocDataCluster v2).2.1
      { p with clucount := inc32 p.clucount } (getRef (getDC v.dzone p.i2) q) r
      (soAllocDataCluster v2).2.2 h2' hT'
    rw [leq] at l1 l2 l3 l4 ⊢
    subst hqe hre
    refine dAlloc_final ht hc1 hc2 (DZInv_set_dzone (DZInv_set_dzone a1 _) _)
      (a8.trans hit2) (by rw [← hsb2]; exact a5) (by rw [← hsb2]; exact a6)
      (by rw [← hsb2]; exact a7) (by rw [l1, a9, hlen2']) (by rw [hrefold, if_neg hT]; exact hL)
      hi2 hlen2 hT hTlen l2 l3 ?_ ?_ ?_ ?_ (fun _ => rfl) (fun h => absurd h hi2)
      (Or.inl ⟨hi2, rfl⟩) b1 b2 ?_ ?_ ?_
    · intro m hm1 hm2
      rw [l4 m hm1 hm2, a9, hg2]
    · rw [a9, hg2]
    · intro j _ _
      rw [a9, hg2, if_neg hi2]
    · rw [a9, hg2, getRef_setRef, if_pos ⟨rfl, by rw [hsIlen]; exact hr⟩]
    · intro e
      exact hnotfree _ (i2_mem_indClusters hi2) (e ▸ b1)
    · intro e
      exact hnotfree _ hTind (e ▸ b1)
    · intro hlt
      rw [if_neg hi2, a9, hg2, usedRefs_set_new k _ _ _ hr hsIlen hL b4, inc32_lt (by omega)]
      unfold cluCountS
      rw [if_neg hT]
      omega

theorem dIndirectAllocNew_alloc {k : SOConst} {v : Volume} {p : SOInode} {c : Nat}
    (hdz : DZInv v) (ht : TreeWf k v p) (hc1 : k.N_DIRECT + k.RPC ≤ c)
    (hc2 : c < k.N_DIRECT + k.RPC + k.RPC * k.RPC) (hi2 : p.i2 = NULL_CLUSTER)
    (hs : (dIndirectAllocNew k v p ((c - k.N_DIRECT - k.RPC) / k.RPC)
      ((c - k.N_DIRECT - k.RPC) % k.RPC)).1 = 0) :
    AllocOutcome k v p c
      (dIndirectAllocNew k v p ((c - k.N_DIRECT - k.RPC) / k.RPC)
        ((c - k.N_DIRECT - k.RPC) % k.RPC)).2.1
      (dIndirectAllocNew k v p ((c - k.N_DIRECT - k.RPC) / k.RPC)
        ((c - k.N_DIRECT - k.RPC) % k.RPC)).2.2.1
      (dIndirectAllocNew k v p ((c - k.N_DIRECT - k.RPC) / k.RPC)
        ((c - k.N_DIRECT - k.RPC) % k.RPC)).2.2.2 := by
  have hpos : 0 < k.RPC := by
    rcases Nat.eq_zero_or_pos k.RPC with h | h
    · rw [h] at hc2; omega
    · exact h
  have hq : (c - k.N_DIRECT - k.RPC) / k.RPC < k.RPC := by
    rw [Nat.div_lt_iff_lt_mul hpos]
    omega
  have hr : (c - k.N_DIRECT - k.RPC) % k.RPC < k.RPC := Nat.mod_lt _ hpos
  have hrefold : refOfIndex k v.dzone p c = NULL_CLUSTER := by
    unfold refOfIndex
    rw [if_neg (by omega), if_neg (by omega), if_pos hi2]
  obtain ⟨q, hqe⟩ : ∃ q, q = (c - k.N_DIRECT - k.RPC) / k.RPC := ⟨_, rfl⟩
  obtain ⟨r, hre⟩ : ∃ r, r = (c - k.N_DIRECT - k.RPC) % k.RPC := ⟨_, rfl⟩
  rw [← hqe] at hs hq ⊢
  rw [← hre] at hs hr ⊢
  unfold dIndirectAllocNew at hs ⊢
  dsimp only at hs ⊢
  have hfree : ¬ v.sb.dzone_free ≤ 2 := by
    intro h
    rw [if_pos h] at hs
    simp [ENOSPC] at hs
  rw [if_neg hfree] at hs ⊢
  have ha : (soAllocDataCluster v).1 = 0 := alloc_succeeds hdz (by omega)
  rw [if_neg (not_not.2 ha)] at hs ⊢
  obtain ⟨a1, a2, a3, a4, a5, a6, a7, a8, a9⟩ := alloc_ok hdz ha
  obtain ⟨b1, b2, b3, b4, b5⟩ := alloc_fresh hdz ha
  have hn1len0 : (soAllocDataCluster v).2.2 < v.dzone.length := lt_of_lt_of_le b3 ht.2.2.1
  have hn1len : (soAllocDataCluster v).2.2 < (soAllocDataCluster v).2.1.dzone.length := by
    rw [a9]; exact hn1len0
  unfold soLoadSngIndRefClust at hs ⊢
  rw [if_pos hn1len] at hs ⊢
  dsimp only at hs ⊢
  rw [if_neg (show ¬ ((0 : Int) ≠ 0) by simp)] at hs ⊢
  have hv2inv : DZInv (soStoreSngIndRefClust (soAllocDataCluster v).2.1 (soAllocDataCluster v).2.2
      (clearRefs k (getDC (soAllocDataCluster v).2.1.dzone (soAllocDataCluster v).2.2))) :=
    DZInv_set_dzone a1 _
  have hv2dz : (soStoreSngIndRefClust (soAllocDataCluster v).2.1 (soAllocDataCluster v).2.2
      (clearRefs k (getDC (soAllocDataCluster v).2.1.dzone (soAllocDataCluster v).2.2))).dzone
      = v.dzone.set (soAllocDataCluster v).2.2
          (clearRefs k (getDC v.dzone (soAllocDataCluster v).2.2)) := by
    show (soAllocDataCluster v).2.1.dzone.set _ _ = _
    rw [a9]
  have hv2fr : freeRefs (soStoreSngIndRefClust (soAllocDataCluster v).2.1 (soAllocDataCluster v).2.2
      (clearRefs k (getDC (soAllocDataCluster v).2.1.dzone (soAllocDataCluster v).2.2)))
      = freeRefs (soAllocDataCluster v).2.1 := rfl
  have hv2f : (soStoreSngIndRefClust (soAllocDataCluster v).2.1 (soAllocDataCluster v).2.2
      (clearRefs k (getDC (soAllocDataCluster v).2.1.dzone (soAllocDataCluster v).2.2))).sb.dzone_free
      + 1 = v.sb.dzone_free := a3
  have hv2t : (soStoreSngIndRefClust (soAllocDataCluster v).2.1 (soAllocDataCluster v).2.2
      (clearRefs k (getDC (soAllocDataCluster v).2.1.dzone (soAllocDataCluster v).2.2))).sb.dzone_total
      = v.sb.dzone_total := a4
  have hv2it : (soStoreSngIndRefClust (soAllocDataCluster v).2.1 (soAllocDataCluster v).2.2
      (clearRefs k (getDC (soAllocDataCluster v).2.1.dzone (soAllocDataCluster v).2.2))).itable
      = v.itable := a8
  have hv2a : (soStoreSngIndRefClust (soAllocDataCluster v).2.1 (soAllocDataCluster v).2.2
      (clearRefs k (getDC (soAllocDataCluster v).2.1.dzone (soAllocDataCluster v).2.2))).sb.itotal
      = v.sb.itotal := a5
  have hv2b : (soStoreSngIndRefClust (soAllocDataCluster v).2.1 (soAllocDataCluster v).2.2
      (clearRefs k (getDC (soAllocDataCluster v).2.1.dzone (soAllocDataCluster v).2.2))).sb.ifree
      = v.sb.ifree := a6
  have hv2c : (soStoreSngIndRefClust (soAllocDataCluster v).2.1 (soAllocDataCluster v).2.2
      (clearRefs k (getDC (soAllocDataCluster v).2.1.dzone (soAllocDataCluster v).2.2))).sb.ihdtl
      = v.sb.ihdtl := a7
  generalize soStoreSngIndRefClust (soAllocDataCluster v).2.1 (soAllocDataCluster v).2.2
      (clearRefs k (getDC (soAllocDataCluster v).2.1.dzone (soAllocDataCluster v).2.2)) = v2 at *
  clear a1 a3 a4 a5 a6 a7 a8 a9 hn1len
  generalize (soAllocDataCluster v).2.2 = n1 at *
  generalize (soAllocDataCluster v).2.1 = v1 at *
  have ha2 : (soAllocDataCluster v2).1 = 0 := alloc_succeeds hv2inv (by omega)
  rw [if_neg (fun h => (not_not.2 ha2) h.1)] at hs ⊢
  obtain ⟨e1, e2, e3, e4, e5, e6, e7, e8, e9⟩ := alloc_ok hv2inv ha2
  obtain ⟨g1, g2, g3, g4, g5⟩ := alloc_fresh hv2inv ha2
  rw [hv2t] at g3
  have hn2len0 : (soAllocDataCluster v2).2.2 < v.dzone.length := lt_of_lt_of_le g3 ht.2.2.1
  have hlen3 : (soAllocDataCluster v2).2.1.dzone.length = v.dzone.length := by
    rw [e9, hv2dz, List.length_set]
  have hn21 : (soAllocDataCluster v2).2.2 ≠ n1 := by
    intro e
    rw [hv2fr] at g1
    exact b2 (e ▸ g1)
  obtain ⟨v', n, heq, w1, w2, w3, w4, w5, w6, w7, w8, w9, w10, w11, w12⟩ :=
    @dIndirectNewSInd_ok k (soAllocDataCluster v2).2.1
      { p with i2 := n1, clucount := inc32 p.clucount } (soAllocDataCluster v2).2.2 q r n1
      e1 (by omega) (by rw [hlen3]; exact hn1len0) (by rw [hlen3]; exact hn2len0) hn21
  rw [heq]
  have hn2free : (soAllocDataCluster v2).2.2 ∈ freeRefs v := b5 _ (hv2fr ▸ g1)
  have hnmem : n ∈ freeRefs (soAllocDataCluster v2).2.1 := by
    rw [w2]; exact List.mem_cons_self _ _
  have hnd := e1.2.1
  rw [w2] at hnd
  have hnfree1 : n ∈ freeRefs v1 := hv2fr ▸ g5 _ hnmem
  have hX1 : getDC (soAllocDataCluster v2).2.1.dzone n1 = clearRefs k (getDC v.dzone n1) := by
    rw [e9, hv2dz, getDC_set, if_pos ⟨rfl, hn1len0⟩]
  subst hqe hre
  refine dAlloc_final ht hc1 hc2 w1 (w3.trans (e8.trans hv2it))
    (by rw [w4, e5, hv2a]) (by rw [w5, e6, hv2b]) (by rw [w6, e7, hv2c])
    (by rw [w8, hlen3]) hrefold
    b4 hn1len0 g4 hn2len0 w9 w10 ?_ ?_ ?_ ?_ (fun h => absurd hi2 h) (fun _ => b1)
    (Or.inr hn2free) (b5 _ hnfree1) (List.nodup_cons.1 hnd).1 ?_ ?_ ?_
  · intro m hm1 hm2
    rw [w11 m hm1 hm2, e9, hv2dz, getDC_set, if_neg (fun e => hm1 e.1.symm)]
  · show getRef (setRef (getDC (soAllocDataCluster v2).2.1.dzone n1) _ _) _ = _
    rw [hX1, getRef_setRef, if_pos ⟨rfl, by rw [clearRefs_length]; exact hq⟩]
  · intro j hj hjq
    show getRef (setRef (getDC (soAllocDataCluster v2).2.1.dzone n1) _ _) _ = _
    rw [hX1, getRef_setRef, if_neg (fun e => hjq e.1.symm), if_pos hi2,
      getRef_clearRefs k _ _ hj]
  · rw [getRef_setRef, if_pos ⟨rfl, by rw [clearRefs_length]; exact hr⟩]
  · show n ≠ n1
    intro e
    exact b2 (e ▸ hnfree1)
  · show n ≠ (soAllocDataCluster v2).2.2
    intro e
    exact g2 (e ▸ hnmem)
  · intro hlt
    rw [if_pos hi2, usedRefs_set_new k _ _ _ hr (clearRefs_length k _)
      (getRef_clearRefs k _ _ hr) w12, usedRefs_clearRefs]
    show inc32 (inc32 (inc32 p.clucount)) + 0 = _
    have i1 : inc32 p.clucount = p.clucount + 1 := inc32_lt (by omega)
    have i2 : inc32 (p.clucount + 1) = p.clucount + 1 + 1 := inc32_lt (by omega)
    have i3 : inc32 (p.clucount + 1 + 1) = p.clucount + 1 + 1 + 1 := inc32_lt (by omega)
    rw [i1, i2, i3]

theorem handleRef_alloc {k : SOConst} {v : Volume} {p : SOInode} {c : Nat}
    (hdz : DZInv v) (ht : TreeWf k v p) (hc : c < MAX_FILE_CLUSTERS k)
    (hs : (handleRef k v p c ALLOC).1 = 0) :
    AllocOutcome k v p c (handleRef k v p c ALLOC).2.1 (handleRef k v p c ALLOC).2.2.1
      (handleRef k v p c ALLOC).2.2.2 := by
  unfold MAX_FILE_CLUSTERS at hc
  unfold handleRef at hs ⊢
  by_cases h1 : c < k.N_DIRECT
  · rw [if_pos h1] at hs ⊢
    exact soHandleDirect_alloc hdz ht h1 hs
  · rw [if_neg h1] at hs ⊢
    by_cases h2 : c < k.N_DIRECT + k.RPC
    · rw [if_pos h2] at hs ⊢
      exact soHandleSIndirect_alloc hdz ht (by omega) h2 hs
    · rw [if_neg h2] at hs ⊢
      rw [soHandleDIndirect_ALLOC_eq] at hs ⊢
      by_cases hi2 : p.i2 = NULL_CLUSTER
      · rw [if_pos hi2] at hs ⊢
        exact dIndirectAllocNew_alloc hdz ht (by omega) hc hi2 hs
      · rw [if_neg hi2] at hs ⊢
        exact dIndirectAllocOld_alloc hdz ht (by omega) hc hi2 hs

theorem soHandleFileCluster_alloc {k : SOConst} (env : SOEnv) {v : Volume} {nInode c : Nat}
    (hi : IInv k v) (hdz : DZInv v) (hn : nInode < v.sb.itotal)
    (hiu : soQCheckInodeIU k (getI v.itable nInode) = 0)
    (hc : c < MAX_FILE_CLUSTERS k) (ht : TreeWf k v (getI v.itable nInode))
    (hs : (soHandleFileCluster k env v nInode c ALLOC).1 = 0) :
    ∃ hv p' n, AllocOutcome k (readVolume env v nInode) (readRecord env v nInode) c hv p' n ∧
      soHandleFileCluster k env v nInode c ALLOC =
        (0, { hv with itable := hv.itable.set nInode { p' with vD1 := env.now, vD2 := env.now } },
          n) ∧
      IInv k { hv with itable := hv.itable.set nInode { p' with vD1 := env.now, vD2 := env.now } } ∧
      DZInv { hv with itable := hv.itable.set nInode { p' with vD1 := env.now, vD2 := env.now } } ∧
      getI (hv.itable.set nInode { p' with vD1 := env.now, vD2 := env.now }) nInode
        = { p' with vD1 := env.now, vD2 := env.now } ∧
      soQCheckInodeIU k { p' with vD1 := env.now, vD2 := env.now } = 0 := by
  have heq := soHandleFileCluster_eq env c hi (soQCheckDZ_of_DZInv hdz) hn hiu (le_of_lt hc)
    (Or.inr (Or.inl rfl))
  rw [heq] at hs ⊢
  have h0 := writeBack_fst_eq_zero hs
  have ht' : TreeWf k (readVolume env v nInode) (readRecord env v nInode) := ht
  have hdz' : DZInv (readVolume env v nInode) := DZInv_set_itable hdz _
  have hF := handleRef_alloc hdz' ht' hc h0
  generalize handleRef k (readVolume env v nInode) (readRecord env v nInode) c ALLOC = H at *
  obtain ⟨o1, o2, o3, o4, o5, o6, o7, o8⟩ := hF
  have hiu' : soQCheckInodeIU k H.2.2.1 = 0 :=
    (soQCheckInodeIU_congr k o7).trans ((soQCheckInodeIU_congr k (by rfl)).trans hiu)
  have hiu'' : soQCheckInodeIU k { H.2.2.1 with vD1 := env.now, vD2 := env.now } = 0 :=
    (soQCheckInodeIU_congr k (by rfl)).trans hiu'
  refine ⟨H.2.1, H.2.2.1, H.2.2.2, ⟨o1, o2, o3, o4, o5, o6, o7, o8⟩, ?_, ?_,
    DZInv_set_itable o1 _, ?_, hiu''⟩
  · rw [writeBack_ok h0 (by rw [o4]; exact hn) hiu']
  · exact IInv_writeBack hi hiu o3 o4 o5 o6 hiu''
  · apply getI_set_eq
    rw [o3]
    show nInode < (v.itable.set nInode _).length
    rw [List.length_set, hi.1]
    exact hn

theorem usedRefs_le (k : SOConst) (c : SODataClust) : usedRefs k c ≤ k.RPC := by
  unfold usedRefs
  have := List.countP_le_length (fun j => decide (getRef c j ≠ NULL_CLUSTER)) (l := List.range k.RPC)
  rwa [List.length_range] at this

theorem cluCountS_le (k : SOConst) (dz : List SODataClust) (s : Nat) :
    cluCountS k dz s ≤ 1 + k.RPC := by
  unfold cluCountS
  split_ifs
  · omega
  · have := usedRefs_le k (getDC dz s); omega

theorem sum_range_le (f : Nat → Nat) (n b : Nat) (h : ∀ j, f j ≤ b) :
    ((List.range n).map f).sum ≤ n * b := by
  induction n with
  | zero => simp
  | succ n ih =>
    rw [List.range_succ, List.map_append, List.sum_append]
    simp only [List.map_cons, List.map_nil, List.sum_cons, List.sum_nil, Nat.add_zero]
    have := h n
    rw [Nat.succ_mul]
    omega

theorem cluCountD_le (k : SOConst) (dz : List SODataClust) (t : Nat) :
    cluCountD k dz t ≤ 1 + k.RPC * (1 + k.RPC) := by
  unfold cluCountD
  split_ifs
  · omega
  · have := sum_range_le (fun q => cluCountS k dz (getRef (getDC dz t) q)) k.RPC (1 + k.RPC)
      (fun j => cluCountS_le k dz _)
    omega

theorem cluCount_le (k : SOConst) (dz : List SODataClust) (p : SOInode) :
    cluCount k dz p ≤ p.d.length + (1 + k.RPC) + (1 + k.RPC * (1 + k.RPC)) := by
  unfold cluCount
  have h1 := List.countP_le_length (fun n => decide (n ≠ NULL_CLUSTER)) (l := p.d)
  have h2 := cluCountS_le k dz p.i1
  have h3 := cluCountD_le k dz p.i2
  omega

theorem DZInv_mkfs (k : SOConst) (env : SOEnv) (itotal total nslots : Nat)
    (dz : List SODataClust) (h1 : 2 ≤ total) (h2 : total < 4294967296) (h3 : total ≤ nslots) :
    DZInv (mkfs k env itotal total nslots dz) := by
  have hfr := freeRefs_mkfs k env itotal total nslots dz (by omega) h2 h3
  refine ⟨DZWf_mkfs k env itotal total nslots dz h1 h2 h3, ?_, ?_⟩
  · rw [hfr]; exact List.nodup_range' _ _
  · intro n hn
    rw [hfr, List.mem_range'_1] at hn
    show 1 ≤ n ∧ n < total
    omega

/-- C12: on a volume whose metadata are consistent, for every inode in use whose clusters of
references are distinct clusters in use, and every index `c` in `[0, MAX_FILE_CLUSTERS)`: if
`clucount` equals the number of entries of `d[]` in use plus, if `i1` is in use, 1 and the
references of the cluster `i1` in use, plus, if `i2` is in use, 1 and, for each reference of
the cluster `i2` in use, 1 and the references in use of the cluster it refers to, then the
same equality holds after a successful `soHandleFileCluster (nInode, c, ALLOC)` and after a
successful `soHandleFileCluster (nInode, c, FREE)`. The constants are such that the count
fits `uint32_t`. -/
theorem C12_clucount_counts_references (k : SOConst) (env : SOEnv) (v : Volume)
    (nInode c op : Nat) (hi : IInv k v) (hdz : DZInv v) (hn : nInode < v.sb.itotal)
    (hiu : soQCheckInodeIU k (getI v.itable nInode) = 0)
    (hc : c < MAX_FILE_CLUSTERS k) (ht : TreeWf k v (getI v.itable nInode))
    (hk : MAX_FILE_CLUSTERS k + k.RPC + 5 < 4294967296)
    (hop : op = ALLOC ∨ op = FREE)
    (hcnt : (getI v.itable nInode).clucount = cluCount k v.dzone (getI v.itable nInode))
    (hs : (soHandleFileCluster k env v nInode c op).1 = 0) :
    (getI (soHandleFileCluster k env v nInode c op).2.1.itable nInode).clucount
      = cluCount k (soHandleFileCluster k env v nInode c op).2.1.dzone
          (getI (soHandleFileCluster k env v nInode c op).2.1.itable nInode) := by
  have hb := cluCount_le k v.dzone (getI v.itable nInode)
  rw [ht.1] at hb
  unfold MAX_FILE_CLUSTERS at hk
  have hlt : (getI v.itable nInode).clucount + 3 < 4294967296 := by
    rw [hcnt]
    have : k.RPC * (1 + k.RPC) = k.RPC + k.RPC * k.RPC := by ring
    omega
  rcases hop with hop | hop
  · subst hop
    obtain ⟨hv, p', n, ho, heq, -, -, hget, -⟩ :=
      soHandleFileCluster_alloc env hi hdz hn hiu hc ht hs
    rw [heq]
    show (getI (hv.itable.set nInode _) nInode).clucount
      = cluCount k hv.dzone (getI (hv.itable.set nInode _) nInode)
    rw [hget]
    exact ho.2.2.2.2.2.2.2.2.2.2.2.2.2.1 hlt hcnt
  · subst hop
    obtain ⟨hv, p', n, ho, heq, -, -, hget, -⟩ :=
      soHandleFileCluster_free env hi hdz hn hiu hc ht hs
    rw [heq]
    show (getI (hv.itable.set nInode _) nInode).clucount
      = cluCount k hv.dzone (getI (hv.itable.set nInode _) nInode)
    rw [hget]
    exact ho.2.2.2.2.2.2.2.2.2.2.2 (lt_of_le_of_lt (Nat.le_add_right _ 3) hlt) hcnt

/-- C12, on the root directory of the formatted volume of 8 data clusters: the index 1 is
allocated. -/
theorem C12_clucount_counts_references_witness :
    ((getI (exampleVolume 8).itable 0).clucount
        = cluCount exampleConst (exampleVolume 8).dzone (getI (exampleVolume 8).itable 0) ∧
      (soHandleFileCluster exampleConst exampleEnv (exampleVolume 8) 0 1 ALLOC).1 = 0) ∧
    (getI (soHandleFileCluster exampleConst exampleEnv (exampleVolume 8) 0 1 ALLOC).2.1.itable
        0).clucount
      = cluCount exampleConst
          (soHandleFileCluster exampleConst exampleEnv (exampleVolume 8) 0 1 ALLOC).2.1.dzone
          (getI (soHandleFileCluster exampleConst exampleEnv (exampleVolume 8) 0 1
            ALLOC).2.1.itable 0) :=
  ⟨by decide,
    C12_clucount_counts_references exampleConst exampleEnv (exampleVolume 8) 0 1 ALLOC
      (IInv_mkfs exampleConst exampleEnv 4 8 8 _ (by decide) (by decide) (by decide))
      (DZInv_mkfs exampleConst exampleEnv 4 8 8 _ (by decide) (by decide) (by decide))
      (by decide) (by decide) (by decide) (by unfold TreeWf; decide) (by decide)
      (Or.inl rfl) (by decide) (by decide)⟩

theorem soHandleFileCluster_alloc_inv {k : SOConst} (env : SOEnv) {v : Volume} {nInode c : Nat}
    (hi : IInv k v) (hdz : DZInv v) (hn : nInode < v.sb.itotal)
    (hiu : soQCheckInodeIU k (getI v.itable nInode) = 0)
    (hc : c < MAX_FILE_CLUSTERS k) (ht : TreeWf k v (getI v.itable nInode))
    (hs : (soHandleFileCluster k env v nInode c ALLOC).1 = 0) :
    IInv k (soHandleFileCluster k env v nInode c ALLOC).2.1 ∧
    DZInv (soHandleFileCluster k env v nInode c ALLOC).2.1 := by
  obtain ⟨hv, p', n, -, heq, h1, h2, -, -⟩ :=
    soHandleFileCluster_alloc env hi hdz hn hiu hc ht hs
  rw [heq]
  exact ⟨h1, h2⟩

/-- C13: on a volume whose metadata are consistent, for every inode in use whose clusters of
references are distinct clusters in use, and every index `c` in `[0, MAX_FILE_CLUSTERS)`:
`soHandleFileCluster (nInode, c, FREE)` returns `-EDCNOTIL` when the index has no
reference, be it that a cluster of the path is absent; and when it returns 0, the index had
a reference, `GET` at `c` then returns 0 and gives `NULL_CLUSTER`, and the data cluster is
among the free references; if, for `N_DIRECT <= c < N_DIRECT + RPC`,
no other reference of the cluster `i1` was in use, the cluster `i1` is among the free
references and `i1` is `NULL_CLUSTER`; if, for `c >= N_DIRECT + RPC`, no other reference of
the cluster of direct references was in use, that cluster is among the free references and
its slot in the cluster `i2` is `NULL_CLUSTER`, and if moreover no other reference of the
cluster `i2` was in use, the cluster `i2` is among the free references and `i2` is
`NULL_CLUSTER`. -/
theorem C13_free_reference (k : SOConst) (env : SOEnv) (v : Volume) (nInode c : Nat)
    (hi : IInv k v) (hdz : DZInv v) (hn : nInode < v.sb.itotal)
    (hiu : soQCheckInodeIU k (getI v.itable nInode) = 0)
    (hc : c < MAX_FILE_CLUSTERS k) (ht : TreeWf k v (getI v.itable nInode)) :
    (refOfIndex k v.dzone (getI v.itable nInode) c = NULL_CLUSTER →
      (soHandleFileCluster k env v nInode c FREE).1 = -EDCNOTIL) ∧
    ((soHandleFileCluster k env v nInode c FREE).1 = 0 →
      refOfIndex k v.dzone (getI v.itable nInode) c ≠ NULL_CLUSTER ∧
      (soHandleFileCluster k env (soHandleFileCluster k env v nInode c FREE).2.1 nInode c
        GET).1 = 0 ∧
      (soHandleFileCluster k env (soHandleFileCluster k env v nInode c FREE).2.1 nInode c
        GET).2.2 = NULL_CLUSTER ∧
      refOfIndex k v.dzone (getI v.itable nInode) c
        ∈ freeRefs (soHandleFileCluster k env v nInode c FREE).2.1 ∧
      (k.N_DIRECT ≤ c → c < k.N_DIRECT + k.RPC →
        (∀ j, j < k.RPC → j ≠ c - k.N_DIRECT →
          getRef (getDC v.dzone (getI v.itable nInode).i1) j = NULL_CLUSTER) →
        (getI v.itable nInode).i1 ∈ freeRefs (soHandleFileCluster k env v nInode c FREE).2.1 ∧
        (getI (soHandleFileCluster k env v nInode c FREE).2.1.itable nInode).i1
          = NULL_CLUSTER) ∧
      (k.N_DIRECT + k.RPC ≤ c →
        (∀ j, j < k.RPC → j ≠ (c - k.N_DIRECT - k.RPC) % k.RPC →
          getRef (getDC v.dzone (getRef (getDC v.dzone (getI v.itable nInode).i2)
            ((c - k.N_DIRECT - k.RPC) / k.RPC))) j = NULL_CLUSTER) →
        getRef (getDC v.dzone (getI v.itable nInode).i2) ((c - k.N_DIRECT - k.RPC) / k.RPC)
          ∈ freeRefs (soHandleFileCluster k env v nInode c FREE).2.1 ∧
        getRef (getDC (soHandleFileCluster k env v nInode c FREE).2.1.dzone
          (getI v.itable nInode).i2) ((c - k.N_DIRECT - k.RPC) / k.RPC) = NULL_CLUSTER ∧
        ((∀ j, j < k.RPC → j ≠ (c - k.N_DIRECT - k.RPC) / k.RPC →
            getRef (getDC v.dzone (getI v.itable nInode).i2) j = NULL_CLUSTER) →
          (getI v.itable nInode).i2
            ∈ freeRefs (soHandleFileCluster k env v nInode c FREE).2.1 ∧
          (getI (soHandleFileCluster k env v nInode c FREE).2.1.itable nInode).i2
            = NULL_CLUSTER))) := by
  have hnull : refOfIndex k v.dzone (getI v.itable nInode) c = NULL_CLUSTER →
      (soHandleFileCluster k env v nInode c FREE).1 = -EDCNOTIL := by
    intro h
    rw [soHandleFileCluster_eq env c hi (soQCheckDZ_of_DZInv hdz) hn hiu (le_of_lt hc)
      (Or.inr (Or.inr rfl))]
    have hz : RefsInZone k (readVolume env v nInode).dzone (readRecord env v nInode) :=
      TreeWf_RefsInZone ht
    rw [handleRef_free_null hz hc h]
    unfold writeBack
    rw [if_pos (by simp [EDCNOTIL])]
  refine ⟨hnull, fun hs => ?_⟩
  have hnn : refOfIndex k v.dzone (getI v.itable nInode) c ≠ NULL_CLUSTER := by
    intro h
    rw [hnull h] at hs
    simp [EDCNOTIL] at hs
  obtain ⟨hv, p', n, ho, heq, hi', hdz', hget, hiu'⟩ :=
    soHandleFileCluster_free env hi hdz hn hiu hc ht hs
  obtain ⟨o1, o2, o3, o4, o5, o6, o7, o8, o9, o10, o11, o12⟩ := ho
  rw [heq]
  have hG := @soHandleFileCluster_get k env _ nInode c hi' (soQCheckDZ_of_DZInv hdz')
      (show nInode < hv.sb.itotal from lt_of_lt_of_eq hn (Eq.symm o4))
      (by show soQCheckInodeIU k (getI (hv.itable.set nInode _) nInode) = 0
          rw [hget]; exact hiu') hc
      (by show RefsInZone k hv.dzone (getI (hv.itable.set nInode _) nInode)
          rw [hget]; exact o2)
  have hG2 : (soHandleFileCluster k env _ nInode c GET).2.2
      = refOfIndex k hv.dzone (getI (hv.itable.set nInode _) nInode) c :=
    congrArg (fun x => x.2.2) hG
  rw [hget] at hG2
  refine ⟨hnn, ?_, ?_, o9, ?_, ?_⟩
  · rw [hG]
  · rw [hG2]; exact o8
  · intro h1 h2 h3
    obtain ⟨x1, x2⟩ := o10 h1 h2 h3
    refine ⟨x1, ?_⟩
    show (getI (hv.itable.set nInode _) nInode).i1 = NULL_CLUSTER
    rw [hget]; exact x2
  · intro h1 h2
    obtain ⟨x1, x2, x3⟩ := o11 h1 h2
    refine ⟨x1, x2, fun h3 => ?_⟩
    obtain ⟨y1, y2⟩ := x3 h3
    refine ⟨y1, ?_⟩
    show (getI (hv.itable.set nInode _) nInode).i2 = NULL_CLUSTER
    rw [hget]; exact y2

/-- C13, on the root directory of the formatted volume of 8 data clusters after the index 2,
the first of the cluster `i1`, was allocated: the index is freed, and the cluster `i1` with
it. -/
theorem C13_free_reference_witness :
    ((soHandleFileCluster exampleConst exampleEnv (exampleVolume 8) 0 2 ALLOC).1 = 0 ∧
      (soHandleFileCluster exampleConst exampleEnv
        (soHandleFileCluster exampleConst exampleEnv (exampleVolume 8) 0 2 ALLOC).2.1 0 2
        FREE).1 = 0) ∧
    (soHandleFileCluster exampleConst exampleEnv
      (soHandleFileCluster exampleConst exampleEnv
        (soHandleFileCluster exampleConst exampleEnv (exampleVolume 8) 0 2 ALLOC).2.1 0 2
        FREE).2.1 0 2 GET).2.2 = NULL_CLUSTER ∧
    (getI (soHandleFileCluster exampleConst exampleEnv
      (soHandleFileCluster exampleConst exampleEnv (exampleVolume 8) 0 2 ALLOC).2.1 0 2
      FREE).2.1.itable 0).i1 = NULL_CLUSTER :=
  ⟨by decide,
    ((C13_free_reference exampleConst exampleEnv
      (soHandleFileCluster exampleConst exampleEnv (exampleVolume 8) 0 2 ALLOC).2.1 0 2
      (soHandleFileCluster_alloc_inv exampleEnv
        (IInv_mkfs exampleConst exampleEnv 4 8 8 _ (by decide) (by decide) (by decide))
        (DZInv_mkfs exampleConst exampleEnv 4 8 8 _ (by decide) (by decide) (by decide))
        (by decide) (by decide) (by decide) (by unfold TreeWf; decide) (by decide)).1
      (soHandleFileCluster_alloc_inv exampleEnv
        (IInv_mkfs exampleConst exampleEnv 4 8 8 _ (by decide) (by decide) (by decide))
        (DZInv_mkfs exampleConst exampleEnv 4 8 8 _ (by decide) (by decide) (by decide))
        (by decide) (by decide) (by decide) (by unfold TreeWf; decide) (by decide)).2
      (by decide) (by decide) (by decide) (by unfold TreeWf; decide)).2 (by decide)).2.2.1,
    by decide⟩

/-! ## The statuses are zero or negative -/

theorem soReplenish_nonpos (v : Volume) : (soReplenish v).1 ≤ 0 := by
  unfold soReplenish soDeplete
  dsimp only
  split_ifs <;> simp

theorem soAllocDataCluster_nonpos (v : Volume) : (soAllocDataCluster v).1 ≤ 0 := by
  unfold soAllocDataCluster
  dsimp only
  split_ifs with h1 h2 h3 h4
  · simp [ENOSPC]
  · exact soReplenish_nonpos v
  · simp
  · simp
  · simp

theorem soLoadDirRefClust_nonpos (v : Volume) (n : Nat) : (soLoadDirRefClust v n).1 ≤ 0 := by
  unfold soLoadDirRefClust
  split_ifs <;> simp [EINVAL]

theorem soLoadSngIndRefClust_nonpos (v : Volume) (n : Nat) :
    (soLoadSngIndRefClust v n).1 ≤ 0 := by
  unfold soLoadSngIndRefClust
  split_ifs <;> simp [EINVAL]

theorem soHandleDirect_ALLOC_nonpos (v : Volume) (p : SOInode) (c : Nat) :
    (soHandleDirect v p c ALLOC).1 ≤ 0 := by
  rw [soHandleDirect_ALLOC_eq]
  split_ifs
  · simp [ELIBBAD]
  · exact soAllocDataCluster_nonpos v
  · simp
  · simp [EDCARDYIL]

theorem sIndirectAllocNew_nonpos (k : SOConst) (v : Volume) (p : SOInode) (r : Nat) :
    (sIndirectAllocNew k v p r).1 ≤ 0 := by
  unfold sIndirectAllocNew
  dsimp only
  split_ifs
  · simp [ENOSPC]
  · exact soAllocDataCluster_nonpos _
  · exact soLoadDirRefClust_nonpos _ _
  · exact soAllocDataCluster_nonpos _
  · exact soLoadDirRefClust_nonpos _ _
  · simp

theorem soHandleSIndirect_ALLOC_nonpos (k : SOConst) (v : Volume) (p : SOInode) (c : Nat) :
    (soHandleSIndirect k v p c ALLOC).1 ≤ 0 := by
  unfold soHandleSIndirect
  dsimp only
  rw [if_neg (by decide), if_pos rfl]
  split_ifs
  · exact sIndirectAllocNew_nonpos _ _ _ _
  · simp [ENOSPC]
  · exact soLoadDirRefClust_nonpos _ _
  · exact soAllocDataCluster_nonpos _
  · simp
  · simp [EDCARDYIL]

theorem dIndirectLink_nonpos (v : Volume) (p : SOInode) (T r n : Nat) :
    (dIndirectLink v p T r n).1 ≤ 0 := by
  unfold dIndirectLink
  dsimp only
  split_ifs
  · exact soLoadSngIndRefClust_nonpos _ _
  · exact soLoadDirRefClust_nonpos _ _
  · simp

theorem dIndirectNewSInd_nonpos (k : SOConst) (v : Volume) (p : SOInode) (T q r out : Nat) :
    (dIndirectNewSInd k v p T q r out).1 ≤ 0 := by
  unfold dIndirectNewSInd
  dsimp only
  split_ifs
  · exact soLoadSngIndRefClust_nonpos _ _
  · exact soLoadDirRefClust_nonpos _ _
  · exact soAllocDataCluster_nonpos _
  · exact dIndirectLink_nonpos _ _ _ _ _

theorem dIndirectAllocNew_nonpos (k : SOConst) (v : Volume) (p : SOInode) (q r : Nat) :
    (dIndirectAllocNew k v p q r).1 ≤ 0 := by
  unfold dIndirectAllocNew
  dsimp only
  split_ifs
  · simp [ENOSPC]
  · exact soAllocDataCluster_nonpos _
  · exact soLoadSngIndRefClust_nonpos _ _
  · exact soAllocDataCluster_nonpos _
  · exact dIndirectNewSInd_nonpos _ _ _ _ _ _ _

theorem dIndirectAllocOld_nonpos (k : SOConst) (v : Volume) (p : SOInode) (q r : Nat) :
    (dIndirectAllocOld k v p q r).1 ≤ 0 := by
  unfold dIndirectAllocOld
  dsimp only
  split_ifs
  · simp [ENOSPC]
  · exact soLoadSngIndRefClust_nonpos _ _
  · exact soAllocDataCluster_nonpos _
  · exact dIndirectNewSInd_nonpos _ _ _ _ _ _ _
  · exact soLoadDirRefClust_nonpos _ _
  · simp [EDCARDYIL]
  · exact soAllocDataCluster_nonpos _
  · exact dIndirectLink_nonpos _ _ _ _ _

theorem handleRef_ALLOC_nonpos (k : SOConst) (v : Volume) (p : SOInode) (c : Nat) :
    (handleRef k v p c ALLOC).1 ≤ 0 := by
  unfold handleRef
  split_ifs
  · exact soHandleDirect_ALLOC_nonpos _ _ _
  · exact soHandleSIndirect_ALLOC_nonpos _ _ _ _
  · rw [soHandleDIndirect_ALLOC_eq]
    split_ifs
    · exact dIndirectAllocNew_nonpos _ _ _ _ _
    · exact dIndirectAllocOld_nonpos _ _ _ _ _

theorem soQCheckInodeIU_nonpos (k : SOConst) (p : SOInode) : soQCheckInodeIU k p ≤ 0 := by
  unfold soQCheckInodeIU
  split_ifs <;> simp [EIUININVAL]

theorem soWriteInode_nonpos (k : SOConst) (env : SOEnv) (v : Volume) (p : SOInode) (n : Nat) :
    (soWriteInode k env v p n).1 ≤ 0 := by
  unfold soWriteInode soConvertRefInT
  split_ifs <;> first | exact soQCheckInodeIU_nonpos _ _ | simp [EINVAL]

theorem writeBack_nonpos (k : SOConst) (env : SOEnv) (n : Nat)
    (h : Int × Volume × SOInode × Nat) (hh : h.1 ≤ 0) : (writeBack k env n h).1 ≤ 0 := by
  unfold writeBack
  dsimp only
  split_ifs
  · exact hh
  · exact soWriteInode_nonpos _ _ _ _ _
  · simp

/-! ## `soReadFileCluster` and `soWriteFileCluster` -/

theorem DZInv_congr {v v' : Volume} (h : DZInv v) (hsb : v'.sb = v.sb) (hfct : v'.fct = v.fct) :
    DZInv v' := by
  cases v
  cases v'
  simp only at hsb hfct
  subst hsb hfct
  exact DZInv_set_dzone (DZInv_set_itable h _) _

theorem soReadFileCluster_eq {k : SOConst} (env : SOEnv) {v : Volume} {nInode c : Nat}
    (R : SODataClust) (hi : IInv k v) (hdz : soQCheckDZ v = 0) (hn : nInode < v.sb.itotal)
    (hiu : soQCheckInodeIU k (getI v.itable nInode) = 0)
    (hc : c < MAX_FILE_CLUSTERS k) (hz : RefsInZone k v.dzone (getI v.itable nInode)) :
    (soReadFileCluster k env v nInode c R).1
      = (if refOfIndex k v.dzone (getI v.itable nInode) c = NULL_CLUSTER then 0
         else if refOfIndex k v.dzone (getI v.itable nInode) c < v.dzone.length then 0
         else -EINVAL) ∧
    (soReadFileCluster k env v nInode c R).2.2
      = (if refOfIndex k v.dzone (getI v.itable nInode) c = NULL_CLUSTER then zeroCluster k
         else if refOfIndex k v.dzone (getI v.itable nInode) c < v.dzone.length then
           getDC v.dzone (refOfIndex k v.dzone (getI v.itable nInode) c)
         else R) ∧
    (soReadFileCluster k env v nInode c R).2.1.sb = v.sb ∧
    (soReadFileCluster k env v nInode c R).2.1.fct = v.fct ∧
    (soReadFileCluster k env v nInode c R).2.1.dzone = v.dzone := by
  have hlen : nInode < v.itable.length := by rw [hi.1]; exact hn
  have hnf := soQCheckInodeIU_not_free hiu
  have hiu' : soQCheckInodeIU k (readRecord env v nInode) = 0 :=
    (soQCheckInodeIU_congr k (by rfl)).trans hiu
  have hi' : IInv k (readVolume env v nInode) :=
    IInv_set_inuse hi nInode _ hnf (soQCheckInodeIU_not_free hiu')
  have hgetr : getI (readVolume env v nInode).itable nInode = readRecord env v nInode :=
    getI_set_eq _ _ _ hlen
  have hG := @soHandleFileCluster_get k env (readVolume env v nInode) nInode c hi' hdz hn
    (by rw [hgetr]; exact hiu') hc (by rw [hgetr]; exact hz)
  rw [hgetr] at hG
  have href : refOfIndex k (readVolume env v nInode).dzone (readRecord env v nInode) c
      = refOfIndex k v.dzone (getI v.itable nInode) c := rfl
  rw [href] at hG
  have hro : soReadInode k env v nInode
      = (0, readVolume env v nInode, readRecord env v nInode) :=
    soReadInode_ok k env v nInode hn hiu
  unfold soReadFileCluster
  rw [if_neg (by omega)]
  simp only [hro, hG]
  rw [if_neg (by simp), if_neg (by simp)]
  unfold soReadCacheCluster
  by_cases h0 : refOfIndex k v.dzone (getI v.itable nInode) c = NULL_CLUSTER
  · rw [if_pos h0, if_pos h0, if_pos h0]
    exact ⟨rfl, rfl, rfl, rfl, rfl⟩
  · rw [if_neg h0, if_neg h0, if_neg h0]
    by_cases h1 : refOfIndex k v.dzone (getI v.itable nInode) c < v.dzone.length
    · rw [if_pos h1, if_pos h1]
      have h1' : refOfIndex k v.dzone (getI v.itable nInode) c
          < (readVolume env v nInode).dzone.length := h1
      simp only [if_pos h1']
      rw [if_neg (by simp)]
      exact ⟨rfl, rfl, rfl, rfl, rfl⟩
    · rw [if_neg h1, if_neg h1]
      have h1' : ¬ refOfIndex k v.dzone (getI v.itable nInode) c
          < (readVolume env v nInode).dzone.length := h1
      simp only [if_neg h1']
      rw [if_pos (by simp [EINVAL])]
      exact ⟨rfl, rfl, rfl, rfl, rfl⟩

theorem soWriteFileCluster_eq (k : SOConst) (env : SOEnv) (v : Volume) (nInode clustInd : Nat)
    (buff : SODataClust) :
    soWriteFileCluster k env v nInode clustInd buff =
      if nInode ≥ v.sb.itotal ∨ clustInd ≥ MAX_FILE_CLUSTERS k then (-EINVAL, v)
      else if (soHandleFileCluster k env v nInode clustInd GET).1 < 0 then
        ((soHandleFileCluster k env v nInode clustInd GET).1,
          (soHandleFileCluster k env v nInode clustInd GET).2.1)
      else if (soHandleFileCluster k env v nInode clustInd GET).2.2 = NULL_CLUSTER then
        if (soHandleFileCluster k env (soHandleFileCluster k env v nInode clustInd GET).2.1
            nInode clustInd ALLOC).1 < 0 then
          ((soHandleFileCluster k env (soHandleFileCluster k env v nInode clustInd GET).2.1
            nInode clustInd ALLOC).1,
           (soHandleFileCluster k env (soHandleFileCluster k env v nInode clustInd GET).2.1
            nInode clustInd ALLOC).2.1)
        else
          writeCluster k env
            (soHandleFileCluster k env (soHandleFileCluster k env v nInode clustInd GET).2.1
              nInode clustInd ALLOC).2.1 nInode
            (soHandleFileCluster k env (soHandleFileCluster k env v nInode clustInd GET).2.1
              nInode clustInd ALLOC).2.2 buff
      else
        writeCluster k env (soHandleFileCluster k env v nInode clustInd GET).2.1 nInode
          (soHandleFileCluster k env v nInode clustInd GET).2.2 buff := by
  unfold soWriteFileCluster writeCluster
  dsimp only
  by_cases h0 : nInode ≥ v.sb.itotal ∨ clustInd ≥ MAX_FILE_CLUSTERS k
  · rw [if_pos h0, if_pos h0]
  · rw [if_neg h0, if_neg h0]
    by_cases h1 : (soHandleFileCluster k env v nInode clustInd GET).1 < 0
    · rw [if_pos h1, if_pos h1]
    · rw [if_neg h1, if_neg h1]
      by_cases h2 : (soHandleFileCluster k env v nInode clustInd GET).2.2 = NULL_CLUSTER
      · simp only [if_pos h2]
      · simp only [if_neg h2]
        rw [if_neg (by simp)]

theorem refOfIndex_set_leaf {k : SOConst} {dz : List SODataClust} {p : SOInode} {c n : Nat}
    (B : SODataClust) (hc : c < MAX_FILE_CLUSTERS k) (hn : n ∉ indClusters k dz p) :
    refOfIndex k (dz.set n B) p c = refOfIndex k dz p c := by
  unfold MAX_FILE_CLUSTERS at hc
  unfold refOfIndex
  by_cases h1 : c < k.N_DIRECT
  · rw [if_pos h1, if_pos h1]
  · rw [if_neg h1, if_neg h1]
    by_cases h2 : c < k.N_DIRECT + k.RPC
    · rw [if_pos h2, if_pos h2]
      by_cases hi1 : p.i1 = NULL_CLUSTER
      · rw [if_pos hi1, if_pos hi1]
      · rw [if_neg hi1, if_neg hi1, getDC_set,
          if_neg (fun e : n = p.i1 ∧ n < dz.length => hn (e.1 ▸ i1_mem_indClusters hi1))]
    · rw [if_neg h2, if_neg h2]
      by_cases hi2 : p.i2 = NULL_CLUSTER
      · rw [if_pos hi2, if_pos hi2]
      · have hpos : 0 < k.RPC := by
          rcases Nat.eq_zero_or_pos k.RPC with h0 | h0
          · rw [h0] at hc; omega
          · exact h0
        have hq : (c - k.N_DIRECT - k.RPC) / k.RPC < k.RPC := by
          rw [Nat.div_lt_iff_lt_mul hpos]
          omega
        have e2 : getDC (dz.set n B) p.i2 = getDC dz p.i2 := by
          rw [getDC_set, if_neg (fun e : n = p.i2 ∧ n < dz.length => hn (e.1 ▸ i2_mem_indClusters hi2))]
        rw [if_neg hi2, if_neg hi2, e2]
        by_cases hT : getRef (getDC dz p.i2) ((c - k.N_DIRECT - k.RPC) / k.RPC) = NULL_CLUSTER
        · rw [if_pos hT, if_pos hT]
        · rw [if_neg hT, if_neg hT, getDC_set,
            if_neg (fun e : n = getRef (getDC dz p.i2) ((c - k.N_DIRECT - k.RPC) / k.RPC) ∧ n < dz.length =>
              hn (e.1 ▸ sng_mem_indClusters hi2 hq hT))]

theorem RefsInZone_set_leaf {k : SOConst} {dz : List SODataClust} {p : SOInode} {n : Nat}
    (B : SODataClust) (hz : RefsInZone k dz p) (hn : n ∉ indClusters k dz p) :
    RefsInZone k (dz.set n B) p := by
  refine ⟨fun h1 => by rw [List.length_set]; exact hz.1 h1, fun h2 => ?_⟩
  have e2 : getDC (dz.set n B) p.i2 = getDC dz p.i2 := by
    rw [getDC_set, if_neg (fun e : n = p.i2 ∧ n < dz.length => hn (e.1 ▸ i2_mem_indClusters h2))]
  rw [List.length_set, e2]
  exact hz.2 h2

theorem writeCluster_read {k : SOConst} (env : SOEnv) {u : Volume} {nInode c : Nat}
    (B R : SODataClust) (hi : IInv k u) (hdz : DZInv u) (hn : nInode < u.sb.itotal)
    (hiu : soQCheckInodeIU k (getI u.itable nInode) = 0)
    (hc : c < MAX_FILE_CLUSTERS k) (hz : RefsInZone k u.dzone (getI u.itable nInode))
    (hnn : refOfIndex k u.dzone (getI u.itable nInode) c ≠ NULL_CLUSTER)
    (hleaf : refOfIndex k u.dzone (getI u.itable nInode) c
      ∉ indClusters k u.dzone (getI u.itable nInode))
    (hs : (writeCluster k env u nInode (refOfIndex k u.dzone (getI u.itable nInode) c) B).1
      = 0) :
    (soReadFileCluster k env
      (writeCluster k env u nInode (refOfIndex k u.dzone (getI u.itable nInode) c) B).2
      nInode c R).1 = 0 ∧
    (soReadFileCluster k env
      (writeCluster k env u nInode (refOfIndex k u.dzone (getI u.itable nInode) c) B).2
      nInode c R).2.2 = B := by
  have hlenI : nInode < u.itable.length := by rw [hi.1]; exact hn
  have hnf := soQCheckInodeIU_not_free hiu
  generalize hne : refOfIndex k u.dzone (getI u.itable nInode) c = n at *
  generalize hp : getI u.itable nInode = p at *
  have hlen : n < u.dzone.length := by
    by_contra h
    unfold writeCluster soReadCacheCluster at hs
    rw [if_neg h] at hs
    dsimp only at hs
    rw [if_pos (by simp [EINVAL])] at hs
    simp [EINVAL] at hs
  have hiu1 : soQCheckInodeIU k { p with vD1 := env.now } = 0 :=
    (soQCheckInodeIU_congr k (by rfl)).trans hiu
  have hiu2 : soQCheckInodeIU k { p with vD1 := env.now, vD2 := env.now } = 0 :=
    (soQCheckInodeIU_congr k (by rfl)).trans hiu
  have hw : soWriteCacheCluster u n B = (0, { u with dzone := u.dzone.set n B }) := by
    unfold soWriteCacheCluster
    rw [if_pos hlen]
  have h1 : soReadInode k env { u with dzone := u.dzone.set n B } nInode
      = (0, { u with itable := u.itable.set nInode { p with vD1 := env.now }, dzone := u.dzone.set n B },
          { p with vD1 := env.now }) := by
    have := soReadInode_ok k env { u with dzone := u.dzone.set n B } nInode hn
      (by show soQCheckInodeIU k (getI u.itable nInode) = 0
          rw [hp]; exact hiu)
    rw [this]
    show ((0 : Int), ({ u with itable := u.itable.set nInode { getI u.itable nInode with vD1 := env.now }, dzone := u.dzone.set n B } : Volume), ({ getI u.itable nInode with vD1 := env.now } : SOInode)) = _
    rw [hp]
  have h2 : soWriteInode k env
      { u with itable := u.itable.set nInode { p with vD1 := env.now }, dzone := u.dzone.set n B }
      { p with vD1 := env.now } nInode
      = (0, { u with itable := u.itable.set nInode { p with vD1 := env.now, vD2 := env.now }, dzone := u.dzone.set n B }) := by
    have := soWriteInode_ok k env
      { u with itable := u.itable.set nInode { p with vD1 := env.now }, dzone := u.dzone.set n B }
      { p with vD1 := env.now } nInode hn hiu1
    rw [this]
    show ((0 : Int), ({ u with itable := (u.itable.set nInode { p with vD1 := env.now }).set nInode { p with vD1 := env.now, vD2 := env.now }, dzone := u.dzone.set n B } : Volume)) = _
    rw [List.set_set]
  have hev : writeCluster k env u nInode n B
      = (0, { u with itable := u.itable.set nInode { p with vD1 := env.now, vD2 := env.now }, dzone := u.dzone.set n B }) := by
    unfold writeCluster soReadCacheCluster
    rw [if_pos hlen]
    dsimp only
    rw [if_neg (by simp)]
    simp only [hw]
    rw [if_neg (by simp)]
    simp only [h1]
    rw [if_neg (by simp)]
    simp only [h2]
    rw [if_neg (by simp)]
  rw [hev]
  dsimp only
  have hi1 : IInv k { u with itable := u.itable.set nInode { p with vD1 := env.now, vD2 := env.now } } :=
    IInv_set_inuse hi nInode _ (by rw [hp]; exact hnf) (soQCheckInodeIU_not_free hiu2)
  have hi2 : IInv k { u with itable := u.itable.set nInode { p with vD1 := env.now, vD2 := env.now }, dzone := u.dzone.set n B } :=
    IInv_congr hi1 rfl rfl rfl rfl
  have hdz2 : DZInv { u with itable := u.itable.set nInode { p with vD1 := env.now, vD2 := env.now }, dzone := u.dzone.set n B } :=
    DZInv_congr hdz rfl rfl
  have hget : getI (u.itable.set nInode { p with vD1 := env.now, vD2 := env.now }) nInode
      = { p with vD1 := env.now, vD2 := env.now } :=
    getI_set_eq _ _ _ hlenI
  have hz' : RefsInZone k (u.dzone.set n B) { p with vD1 := env.now, vD2 := env.now } :=
    RefsInZone_set_leaf B hz hleaf
  have href : refOfIndex k (u.dzone.set n B) { p with vD1 := env.now, vD2 := env.now } c = n :=
    (refOfIndex_set_leaf B hc hleaf).trans hne
  obtain ⟨r1, r2, -⟩ := @soReadFileCluster_eq k env _ nInode c R hi2 (soQCheckDZ_of_DZInv hdz2) hn
    (by show soQCheckInodeIU k (getI (u.itable.set nInode _) nInode) = 0
        rw [hget]; exact hiu2) hc
    (by show RefsInZone k (u.dzone.set n B) (getI (u.itable.set nInode _) nInode)
        rw [hget]; exact hz')
  have href' : refOfIndex k (u.dzone.set n B)
      (getI (u.itable.set nInode { p with vD1 := env.now, vD2 := env.now }) nInode) c = n := by
    rw [hget]; exact href
  have hlen' : n < (u.dzone.set n B).length := by rw [List.length_set]; exact hlen
  constructor
  · rw [r1]
    show (if refOfIndex k (u.dzone.set n B) (getI (u.itable.set nInode _) nInode) c
        = NULL_CLUSTER then (0 : Int)
      else if refOfIndex k (u.dzone.set n B) (getI (u.itable.set nInode _) nInode) c
        < (u.dzone.set n B).length then 0 else -EINVAL) = 0
    rw [href', if_neg hnn, if_pos hlen']
  · rw [r2]
    show (if refOfIndex k (u.dzone.set n B) (getI (u.itable.set nInode _) nInode) c
        = NULL_CLUSTER then zeroCluster k
      else if refOfIndex k (u.dzone.set n B) (getI (u.itable.set nInode _) nInode) c
        < (u.dzone.set n B).length then
        getDC (u.dzone.set n B)
          (refOfIndex k (u.dzone.set n B) (getI (u.itable.set nInode _) nInode) c)
      else R) = B
    rw [href', if_neg hnn, if_pos hlen', getDC_set, if_pos ⟨rfl, hlen⟩]

theorem soHandleFileCluster_ALLOC_nonpos {k : SOConst} (env : SOEnv) {v : Volume}
    {nInode c : Nat} (hi : IInv k v) (hdz : soQCheckDZ v = 0) (hn : nInode < v.sb.itotal)
    (hiu : soQCheckInodeIU k (getI v.itable nInode) = 0) (hc : c < MAX_FILE_CLUSTERS k) :
    (soHandleFileCluster k env v nInode c ALLOC).1 ≤ 0 := by
  rw [soHandleFileCluster_eq env c hi hdz hn hiu (le_of_lt hc) (Or.inr (Or.inl rfl))]
  exact writeBack_nonpos _ _ _ _ (handleRef_ALLOC_nonpos _ _ _ _)

/-- C16: on a volume whose metadata are consistent, for every inode in use whose clusters of
references are distinct clusters in use, every index `c` in `[0, MAX_FILE_CLUSTERS)` whose
data cluster is not one of the clusters of references of the inode, and all buffers `B` and
`R`: if `soWriteFileCluster (nInode, c, B)` returns 0, then `soReadFileCluster (nInode, c, R)`
called next returns 0 and leaves `B` in `R`; and if the index has no reference,
`soReadFileCluster (nInode, c, R)` returns 0, leaves the cluster of zeros in `R` and changes
neither the superblock nor the table of references to free data clusters nor the data
zone. -/
theorem C16_write_read_round_trip (k : SOConst) (env : SOEnv) (v : Volume) (nInode c : Nat)
    (B R : SODataClust) (hi : IInv k v) (hdz : DZInv v) (hn : nInode < v.sb.itotal)
    (hiu : soQCheckInodeIU k (getI v.itable nInode) = 0)
    (hc : c < MAX_FILE_CLUSTERS k) (ht : TreeWf k v (getI v.itable nInode))
    (hleaf : refOfIndex k v.dzone (getI v.itable nInode) c
      ∉ indClusters k v.dzone (getI v.itable nInode)) :
    ((soWriteFileCluster k env v nInode c B).1 = 0 →
      (soReadFileCluster k env (soWriteFileCluster k env v nInode c B).2 nInode c R).1 = 0 ∧
      (soReadFileCluster k env (soWriteFileCluster k env v nInode c B).2 nInode c R).2.2 = B) ∧
    (refOfIndex k v.dzone (getI v.itable nInode) c = NULL_CLUSTER →
      (soReadFileCluster k env v nInode c R).1 = 0 ∧
      (soReadFileCluster k env v nInode c R).2.2 = zeroCluster k ∧
      (soReadFileCluster k env v nInode c R).2.1.sb = v.sb ∧
      (soReadFileCluster k env v nInode c R).2.1.fct = v.fct ∧
      (soReadFileCluster k env v nInode c R).2.1.dzone = v.dzone) := by
  have hz := TreeWf_RefsInZone ht
  have hqdz := soQCheckDZ_of_DZInv hdz
  constructor
  · intro hs
    have hlenI : nInode < v.itable.length := by rw [hi.1]; exact hn
    have hnf := soQCheckInodeIU_not_free hiu
    have hG := soHandleFileCluster_get env hi hqdz hn hiu hc hz
    rw [soWriteFileCluster_eq, if_neg (by omega)] at hs ⊢
    generalize hp : getI v.itable nInode = p at *
    have hiu2 : soQCheckInodeIU k { p with vD1 := env.now, vD2 := env.now } = 0 :=
      (soQCheckInodeIU_congr k (by rfl)).trans hiu
    have hig : IInv k { v with itable := v.itable.set nInode { p with vD1 := env.now, vD2 := env.now } } :=
      IInv_set_inuse hi nInode _ (by rw [hp]; exact hnf) (soQCheckInodeIU_not_free hiu2)
    have hdg : DZInv { v with itable := v.itable.set nInode { p with vD1 := env.now, vD2 := env.now } } :=
      DZInv_set_itable hdz _
    have hgetg : getI (v.itable.set nInode { p with vD1 := env.now, vD2 := env.now }) nInode
        = { p with vD1 := env.now, vD2 := env.now } := getI_set_eq _ _ _ hlenI
    rw [hG] at hs ⊢
    dsimp only at hs ⊢
    rw [if_neg (by simp)] at hs ⊢
    by_cases h0 : refOfIndex k v.dzone p c = NULL_CLUSTER
    · rw [if_pos h0] at hs ⊢
      have hnp := @soHandleFileCluster_ALLOC_nonpos k env
        { v with itable := v.itable.set nInode { p with vD1 := env.now, vD2 := env.now } }
        nInode c hig (soQCheckDZ_of_DZInv hdg) hn
        (by show soQCheckInodeIU k (getI (v.itable.set nInode _) nInode) = 0
            rw [hgetg]; exact hiu2) hc
      have hA : (soHandleFileCluster k env
          { v with itable := v.itable.set nInode { p with vD1 := env.now, vD2 := env.now } }
          nInode c ALLOC).1 = 0 := by
        by_contra hne
        have hlt : (soHandleFileCluster k env
          { v with itable := v.itable.set nInode { p with vD1 := env.now, vD2 := env.now } }
          nInode c ALLOC).1 < 0 := lt_of_le_of_ne hnp hne
        rw [if_pos hlt] at hs
        exact hne hs
      rw [if_neg (by rw [hA]; simp)] at hs ⊢
      obtain ⟨hv, p', n, ho, heqA, hiA, hdA, hgetA, hiuA⟩ :=
        @soHandleFileCluster_alloc k env
          { v with itable := v.itable.set nInode { p with vD1 := env.now, vD2 := env.now } }
          nInode c hig hdg hn
          (by show soQCheckInodeIU k (getI (v.itable.set nInode _) nInode) = 0
              rw [hgetg]; exact hiu2) hc
          (by show TreeWf k _ (getI (v.itable.set nInode _) nInode)
              rw [hgetg]; exact ht) hA
      obtain ⟨o1, o2, o3, o4, o5, o6, o7, o8, o9, o10, o11, o12, o13, o14⟩ := ho
      rw [heqA] at hs ⊢
      dsimp only at hs ⊢
      have hnnull : n ≠ NULL_CLUSTER := by
        have h1 := (hdz.2.2 n o11).2
        have h2 := hdz.1.total_lt
        unfold NULL_CLUSTER
        omega
      have href : refOfIndex k hv.dzone (getI (hv.itable.set nInode
          { p' with vD1 := env.now, vD2 := env.now }) nInode) c = n := by
        rw [hgetA]; exact o10
      have hW := @writeCluster_read k env
        { hv with itable := hv.itable.set nInode { p' with vD1 := env.now, vD2 := env.now } }
        nInode c B R hiA hdA (lt_of_lt_of_eq hn (Eq.symm o4))
        (by show soQCheckInodeIU k (getI (hv.itable.set nInode _) nInode) = 0
            rw [hgetA]; exact hiuA) hc
        (by show RefsInZone k hv.dzone (getI (hv.itable.set nInode _) nInode)
            rw [hgetA]; exact o2)
        (by show refOfIndex k hv.dzone (getI (hv.itable.set nInode _) nInode) c ≠ NULL_CLUSTER
            rw [href]; exact hnnull)
        (by show refOfIndex k hv.dzone (getI (hv.itable.set nInode _) nInode) c
              ∉ indClusters k hv.dzone (getI (hv.itable.set nInode _) nInode)
            rw [href, hgetA]; exact o13)
      have href2 : refOfIndex k
          ({ hv with itable := hv.itable.set nInode { p' with vD1 := env.now, vD2 := env.now } } : Volume).dzone
          (getI ({ hv with itable := hv.itable.set nInode { p' with vD1 := env.now, vD2 := env.now } } : Volume).itable nInode) c = n := href
      rw [href2] at hW
      exact hW hs
    · rw [if_neg h0] at hs ⊢
      have href : refOfIndex k v.dzone (getI (v.itable.set nInode
          { p with vD1 := env.now, vD2 := env.now }) nInode) c = refOfIndex k v.dzone p c := by
        rw [hgetg]; rfl
      have hW := @writeCluster_read k env
        { v with itable := v.itable.set nInode { p with vD1 := env.now, vD2 := env.now } }
        nInode c B R hig hdg hn
        (by show soQCheckInodeIU k (getI (v.itable.set nInode _) nInode) = 0
            rw [hgetg]; exact hiu2) hc
        (by show RefsInZone k v.dzone (getI (v.itable.set nInode _) nInode)
            rw [hgetg]; exact hz)
        (by show refOfIndex k v.dzone (getI (v.itable.set nInode _) nInode) c ≠ NULL_CLUSTER
            rw [href]; exact h0)
        (by show refOfIndex k v.dzone (getI (v.itable.set nInode _) nInode) c
              ∉ indClusters k v.dzone (getI (v.itable.set nInode _) nInode)
            rw [href, hgetg]; exact hleaf)
      have href2 : refOfIndex k
          ({ v with itable := v.itable.set nInode { p with vD1 := env.now, vD2 := env.now } } : Volume).dzone
          (getI ({ v with itable := v.itable.set nInode { p with vD1 := env.now, vD2 := env.now } } : Volume).itable nInode) c
          = refOfIndex k v.dzone p c := href
      rw [href2] at hW
      exact hW hs
  · intro h0
    obtain ⟨r1, r2, r3, r4, r5⟩ := soReadFileCluster_eq env R hi hqdz hn hiu hc hz
    rw [if_pos h0] at r1 r2
    exact ⟨r1, r2, r3, r4, r5⟩

/-- C16, on the root directory of the formatted volume of 8 data clusters: the index 1, which
has no reference, is written and read. -/
theorem C16_write_read_round_trip_witness :
    (refOfIndex exampleConst (exampleVolume 8).dzone (getI (exampleVolume 8).itable 0) 1
        = NULL_CLUSTER ∧
      (soWriteFileCluster exampleConst exampleEnv (exampleVolume 8) 0 1
        { ref := [0, 0], data := [1, 2, 3, 4, 5, 6, 7, 8] }).1 = 0) ∧
    (soReadFileCluster exampleConst exampleEnv
      (soWriteFileCluster exampleConst exampleEnv (exampleVolume 8) 0 1
        { ref := [0, 0], data := [1, 2, 3, 4, 5, 6, 7, 8] }).2 0 1 default).2.2
      = { ref := [0, 0], data := [1, 2, 3, 4, 5, 6, 7, 8] } :=
  ⟨by decide,
    ((C16_write_read_round_trip exampleConst exampleEnv (exampleVolume 8) 0 1
      { ref := [0, 0], data := [1, 2, 3, 4, 5, 6, 7, 8] } default
      (IInv_mkfs exampleConst exampleEnv 4 8 8 _ (by decide) (by decide) (by decide))
      (DZInv_mkfs exampleConst exampleEnv 4 8 8 _ (by decide) (by decide) (by decide))
      (by decide) (by decide) (by decide) (by unfold TreeWf; decide) (by decide)).1
        (by decide)).2⟩

/-! ## The system calls and the directory operations on examples -/

/-- C31 (the code diverges): on the volume with the directories `/a` and `/b` and the
directory `/a/d`, which has no sub-directory and the reference count 2,
`soRename ("/a/d", "/b/e")` returns 0; afterwards the entry `e` of `b` refers to `d`, the
entry `..` of `d` refers to `b`, the reference count of `a` has decreased by 1 and that of
`b` has increased by 1, but the reference count of `d` is 1, not 2: the attachment
increments it by 1 (line 204 of `soAddAttDirEntry.c`) and the detachment of an entry that is
a directory decrements it by 2 (line 145 of `soRemDetachDirEntry.c`). -/
theorem C31_move_directory_refcount :
    (getI mvVolume.itable 1).refcount = 3 ∧ (getI mvVolume.itable 2).refcount = 2 ∧
    (getI mvVolume.itable 3).refcount = 2 ∧
    (soRename dirConst exampleEnv mvVolume 0 [SLASH, 97, SLASH, 100]
      [SLASH, 98, SLASH, 101]).1 = 0 ∧
    (soGetDirEntryByName dirConst exampleEnv
      (soRename dirConst exampleEnv mvVolume 0 [SLASH, 97, SLASH, 100]
        [SLASH, 98, SLASH, 101]).2.1 2 [101]).2.2.1 = 3 ∧
    (soGetDirEntryByName dirConst exampleEnv
      (soRename dirConst exampleEnv mvVolume 0 [SLASH, 97, SLASH, 100]
        [SLASH, 98, SLASH, 101]).2.1 3 [DOT, DOT]).2.2.1 = 2 ∧
    (getI (soRename dirConst exampleEnv mvVolume 0 [SLASH, 97, SLASH, 100]
      [SLASH, 98, SLASH, 101]).2.1.itable 1).refcount = 2 ∧
    (getI (soRename dirConst exampleEnv mvVolume 0 [SLASH, 97, SLASH, 100]
      [SLASH, 98, SLASH, 101]).2.1.itable 2).refcount = 3 ∧
    (getI (soRename dirConst exampleEnv mvVolume 0 [SLASH, 97, SLASH, 100]
      [SLASH, 98, SLASH, 101]).2.1.itable 3).refcount = 1 := by
  decide

/-- C32 (the code diverges): on the volume with the regular file `/a` of size 5, whose only
data cluster is the cluster 1 (`clucount = 1`, `d[0] = 1`), `soTruncate ("/a", 0)` returns 0,
`soGetDirEntryByPath ("/a")` still gives the inode 1, the size is 0 and `dzone_free` has
increased by 1, the cluster 1 being among the free references; but `clucount` is still 1
and `d[0]` is still 1: line 107 writes the record of the inode that line 78 read, before
`soHandleFileClusters` freed the cluster and cleared the reference in the table of
inodes. -/
theorem C32_truncate_writes_stale_inode :
    (getI truncVolume.itable 1).size = 5 ∧ (getI truncVolume.itable 1).clucount = 1 ∧
    (getI truncVolume.itable 1).d = [1, NULL_CLUSTER] ∧
    (soAccessGranted dirConst exampleEnv truncVolume 1 W).1 = 0 ∧
    (soTruncate dirConst exampleEnv truncVolume 0 [SLASH, 97] 0).1 = 0 ∧
    (soGetDirEntryByPath dirConst exampleEnv
      (soTruncate dirConst exampleEnv truncVolume 0 [SLASH, 97] 0).2.1 0 [SLASH, 97]).1 = 0 ∧
    (soGetDirEntryByPath dirConst exampleEnv
      (soTruncate dirConst exampleEnv truncVolume 0 [SLASH, 97] 0).2.1 0
      [SLASH, 97]).2.2.2.2 = 1 ∧
    (soTruncate dirConst exampleEnv truncVolume 0 [SLASH, 97] 0).2.1.sb.dzone_free
      = truncVolume.sb.dzone_free + 1 ∧
    1 ∈ freeRefs (soTruncate dirConst exampleEnv truncVolume 0 [SLASH, 97] 0).2.1 ∧
    (getI (soTruncate dirConst exampleEnv truncVolume 0 [SLASH, 97] 0).2.1.itable 1).size
      = 0 ∧
    (getI (soTruncate dirConst exampleEnv truncVolume 0 [SLASH, 97] 0).2.1.itable 1).clucount
      = 1 ∧
    (getI (soTruncate dirConst exampleEnv truncVolume 0 [SLASH, 97] 0).2.1.itable 1).d
      = [1, NULL_CLUSTER] := by
  decide

/-- C33 (the code diverges): on the volume with the directory `/d` that holds the regular
file `x`, where `soCheckDirectoryEmptiness` gives `-ENOTEMPTY` for `/d`, `soRmdir ("/d")`
returns 0, not `-ENOTEMPTY`: the body of the function is `return 0`. The volume is
unchanged. -/
theorem C33_rmdir_returns_zero :
    (soGetDirEntryByPath dirConst exampleEnv nonEmptyDirVolume 0 [SLASH, 100]).1 = 0 ∧
    (soGetDirEntryByPath dirConst exampleEnv nonEmptyDirVolume 0 [SLASH, 100]).2.2.2.2 = 1 ∧
    (getI nonEmptyDirVolume.itable 1).mode &&& dirConst.INODE_DIR = dirConst.INODE_DIR ∧
    (soGetDirEntryByName dirConst exampleEnv nonEmptyDirVolume 1 [120]).1 = 0 ∧
    soCheckDirectoryEmptiness dirConst nonEmptyDirVolume 1 = -ENOTEMPTY ∧
    (soRmdir nonEmptyDirVolume [SLASH, 100]).1 = 0 ∧
    (soRmdir nonEmptyDirVolume [SLASH, 100]).2 = nonEmptyDirVolume := by
  decide

/-- C38 (the code diverges): on the volume with the symbolic link `/l` to `/x`, a path that
names no entry, and the symbolic link `/m` to `/`, `soGetDirEntryByPath ("/l")`, called with
`nSymLinks = 0`, returns `-ENOENT` and leaves `nSymLinks = 1`: line 199 sets it before the
target is resolved and line 204 clears it only when the resolution succeeded. The volume is
unchanged, and the next call, `soGetDirEntryByPath ("/m")`, returns `-ELOOP`, while the same
call with `nSymLinks = 0` returns 0. -/
theorem C38_symlink_counter_left_set :
    (soGetDirEntryByPath dirConst exampleEnv danglingLinkVolume 0 [SLASH, 108]).1 = -ENOENT ∧
    (soGetDirEntryByPath dirConst exampleEnv danglingLinkVolume 0 [SLASH, 108]).2.1
      = danglingLinkVolume ∧
    (soGetDirEntryByPath dirConst exampleEnv danglingLinkVolume 0 [SLASH, 108]).2.2.1 = 1 ∧
    (soGetDirEntryByPath dirConst exampleEnv danglingLinkVolume 1 [SLASH, 109]).1 = -ELOOP ∧
    (soGetDirEntryByPath dirConst exampleEnv danglingLinkVolume 0 [SLASH, 109]).1 = 0 := by
  decide

/-- C39 (the code diverges): on the volume with the directory `/d` (inode 1),
`soRemDetachDirEntry (1, ".", DETACH)` returns 0 and leaves the entry 0 of `d` with the null
name and `NULL_INODE`, and the reference count of `d` at 0; and
`soRemDetachDirEntry (1, "..", DETACH)` returns 0 and leaves the entry 1 of `d` with the null
name and `NULL_INODE`, and the reference counts of `d` and of the root directory decremented.
On the volume with the empty directory `/b` (inode 2), `soRemDetachDirEntry (2, ".", REM)`
returns 0, leaves the entry 0 of `b` with its first byte NUL and frees the inode 2, to which
the entry `b` of the root directory still refers. The function has no test of the names `.`
and `..`, which line 79 of `soRenameDirEntry.c` has. -/
theorem C39_detach_dot_succeeds :
    (getDC nonEmptyDirVolume.dzone 1).de.getD 0 default
      = { name := [DOT, 0, 0, 0], nInode := 1 } ∧
    (getDC nonEmptyDirVolume.dzone 1).de.getD 1 default
      = { name := [DOT, DOT, 0, 0], nInode := 0 } ∧
    (getI nonEmptyDirVolume.itable 0).refcount = 3 ∧
    (getI nonEmptyDirVolume.itable 1).refcount = 2 ∧
    (soRemDetachDirEntry dirConst exampleEnv nonEmptyDirVolume 1 [DOT] DETACH).1 = 0 ∧
    (getDC (soRemDetachDirEntry dirConst exampleEnv nonEmptyDirVolume 1 [DOT] DETACH).2.dzone
      1).de.getD 0 default = { name := [0, 0, 0, 0], nInode := NULL_INODE } ∧
    (getI (soRemDetachDirEntry dirConst exampleEnv nonEmptyDirVolume 1 [DOT]
      DETACH).2.itable 1).refcount = 0 ∧
    (soRemDetachDirEntry dirConst exampleEnv nonEmptyDirVolume 1 [DOT, DOT] DETACH).1 = 0 ∧
    (getDC (soRemDetachDirEntry dirConst exampleEnv nonEmptyDirVolume 1 [DOT, DOT]
      DETACH).2.dzone 1).de.getD 1 default = { name := [0, 0, 0, 0], nInode := NULL_INODE } ∧
    (getI (soRemDetachDirEntry dirConst exampleEnv nonEmptyDirVolume 1 [DOT, DOT]
      DETACH).2.itable 0).refcount = 1 ∧
    (getI (soRemDetachDirEntry dirConst exampleEnv nonEmptyDirVolume 1 [DOT, DOT]
      DETACH).2.itable 1).refcount = 1 ∧
    soCheckDirectoryEmptiness dirConst mvVolume 2 = 0 ∧
    (soRemDetachDirEntry dirConst exampleEnv mvVolume 2 [DOT] REM).1 = 0 ∧
    (getDC (soRemDetachDirEntry dirConst exampleEnv mvVolume 2 [DOT] REM).2.dzone
      2).de.getD 0 default = { name := [0, 0, 0, DOT], nInode := 2 } ∧
    isFreeInode dirConst
      (getI (soRemDetachDirEntry dirConst exampleEnv mvVolume 2 [DOT] REM).2.itable 2) ∧
    (soGetDirEntryByName dirConst exampleEnv
      (soRemDetachDirEntry dirConst exampleEnv mvVolume 2 [DOT] REM).2 0 [98]).2.2.1 = 2 := by
  decide

/-- C40 (the code diverges): with `MAX_NAME = 3`, on the volume with the regular file `/abc`,
`soRenameDirEntry (0, "abc", "x")` returns 0 and leaves the name field `x`, NUL, `c`, NUL:
the third byte, which follows the new name, is not NUL. `strcpy` writes the new name and the
null character, and `memset` fills `MAX_NAME - strlen (newName) - 1` bytes from the position
`strlen (newName)` on, one of which `strcpy` wrote, so that the byte `MAX_NAME - 1` keeps
the character of the old name (line 99). -/
theorem C40_rename_leaves_old_byte :
    (getDC longNameVolume.dzone 0).de.getD 2 default
      = { name := [97, 98, 99, 0], nInode := 1 } ∧
    (soRenameDirEntry dirConst exampleEnv longNameVolume 0 [97, 98, 99] [120]).1 = 0 ∧
    (getDC (soRenameDirEntry dirConst exampleEnv longNameVolume 0 [97, 98, 99] [120]).2.dzone
      0).de.getD 2 default = { name := [120, 0, 99, 0], nInode := 1 } := by
  decide

/-! ## The layout the formatter computes -/

theorem sub32_eq {a b : Nat} (h : b ≤ a) (ha : a < 4294967296) : sub32 a b = a - b := by
  unfold sub32
  omega

theorem blocksFor_eq {x P : Nat} (hx : x < 4294967296) :
    blocksFor x P = if x % P = 0 then x / P else x / P + 1 := by
  unfold blocksFor
  by_cases h : x % P = 0
  · rw [if_pos h, if_pos h]
  · rw [if_neg h, if_neg h]
    have hlt : x / P + 1 < 4294967296 := by
      rcases P with _ | _ | P
      · rw [Nat.div_zero]; omega
      · exact absurd (Nat.mod_one x) h
      · have h2 : x / (P + 1 + 1) ≤ x / 2 := Nat.div_le_div_left (by omega) (by omega)
        omega
    unfold inc32
    exact Nat.mod_eq_of_lt hlt

theorem blocksFor_spec {x P : Nat} (hx : x < 4294967296) (hP : 0 < P) :
    x ≤ blocksFor x P * P ∧ blocksFor x P * P < x + P := by
  rw [blocksFor_eq hx]
  have h1 := Nat.div_add_mod x P
  have h2 := Nat.mod_lt x hP
  have h3 : x / P * P = P * (x / P) := Nat.mul_comm _ _
  by_cases h : x % P = 0
  · rw [if_pos h]
    omega
  · rw [if_neg h, Nat.add_mul, Nat.one_mul]
    omega

theorem blocksFor_mono {x y P : Nat} (hx : x < 4294967296) (hy : y < 4294967296) (hP : 0 < P)
    (h : x ≤ y) : blocksFor x P ≤ blocksFor y P := by
  obtain ⟨-, a2⟩ := blocksFor_spec hx hP
  obtain ⟨b1, -⟩ := blocksFor_spec hy hP
  have : blocksFor x P * P < (blocksFor y P + 1) * P := by
    rw [Nat.add_mul, Nat.one_mul]
    omega
  have := Nat.lt_of_mul_lt_mul_right this
  omega

theorem requestedInodes_lt {ntotal itotal : Nat} (hn : ntotal < 4294967296)
    (hi : itotal < 4294967296) : requestedInodes ntotal itotal < 4294967296 := by
  unfold requestedInodes
  split_ifs
  · rw [Nat.shiftRight_eq_div_pow]
    exact lt_of_le_of_lt (Nat.div_le_self _ _) hn
  · exact hi

/-- What the layout is when no subtraction wraps around: the values of the variables, with
the subtractions and the products those of the natural numbers. -/
theorem mkfsLayout_spec (IPB RPB BPC ntotal itotal : Nat) (hR : 0 < RPB) (hB : 0 < BPC)
    (hn : ntotal < 4294967296)
    (hu : 1 + blocksFor (requestedInodes ntotal itotal) IPB
      + blocksFor ((ntotal - 1 - blocksFor (requestedInodes ntotal itotal) IPB) / BPC) RPB
      ≤ ntotal) :
    ntotal = 1 + (mkfsLayout IPB RPB BPC ntotal itotal).1
      + (mkfsLayout IPB RPB BPC ntotal itotal).2.1
      + (mkfsLayout IPB RPB BPC ntotal itotal).2.2.1 * BPC ∧
    (mkfsLayout IPB RPB BPC ntotal itotal).2.2.1
      ≤ (mkfsLayout IPB RPB BPC ntotal itotal).2.1 * RPB ∧
    (mkfsLayout IPB RPB BPC ntotal itotal).2.1 * RPB
      < (mkfsLayout IPB RPB BPC ntotal itotal).2.2.1 + RPB ∧
    blocksFor (requestedInodes ntotal itotal) IPB ≤ (mkfsLayout IPB RPB BPC ntotal itotal).1 ∧
    (mkfsLayout IPB RPB BPC ntotal itotal).2.2.2
      = ((mkfsLayout IPB RPB BPC ntotal itotal).1 * IPB) % 4294967296 := by
  obtain ⟨I0, hI0⟩ : ∃ I0, I0 = blocksFor (requestedInodes ntotal itotal) IPB := ⟨_, rfl⟩
  rw [← hI0] at hu ⊢
  obtain ⟨tmp, htmp⟩ : ∃ tmp, tmp = (ntotal - 1 - I0) / BPC := ⟨_, rfl⟩
  rw [← htmp] at hu
  obtain ⟨fc1, hfc1⟩ : ∃ fc1, fc1 = blocksFor tmp RPB := ⟨_, rfl⟩
  rw [← hfc1] at hu
  obtain ⟨ncl, hncl⟩ : ∃ ncl, ncl = (ntotal - 1 - I0 - fc1) / BPC := ⟨_, rfl⟩
  obtain ⟨fc, hfc⟩ : ∃ fc, fc = blocksFor ncl RPB := ⟨_, rfl⟩
  have htl : tmp ≤ ntotal := by
    rw [htmp]; exact le_trans (Nat.div_le_self _ _) (by omega)
  have hnt : ncl ≤ tmp := by
    rw [hncl, htmp]; exact Nat.div_le_div_right (by omega)
  have hff : fc ≤ fc1 := by
    rw [hfc, hfc1]; exact blocksFor_mono (by omega) (by omega) hR hnt
  have hmul : ncl * BPC ≤ ntotal - 1 - I0 - fc1 := by
    rw [hncl]; exact Nat.div_mul_le_self _ _
  obtain ⟨c1, c2⟩ := blocksFor_spec (show ncl < 4294967296 by omega) hR
  rw [← hfc] at c1 c2
  have s1 : sub32 ntotal 1 = ntotal - 1 := sub32_eq (by omega) hn
  have s2 : sub32 (ntotal - 1) I0 = ntotal - 1 - I0 := sub32_eq (by omega) (by omega)
  have s3 : sub32 (ntotal - 1 - I0) fc1 = ntotal - 1 - I0 - fc1 :=
    sub32_eq (by omega) (by omega)
  have s4 : sub32 (ntotal - 1 - I0) fc = ntotal - 1 - I0 - fc :=
    sub32_eq (by omega) (by omega)
  have m1 : (ncl * BPC) % 4294967296 = ncl * BPC := Nat.mod_eq_of_lt (by omega)
  have s5 : sub32 (ntotal - 1 - I0 - fc) (ncl * BPC) = ntotal - 1 - I0 - fc - ncl * BPC :=
    sub32_eq (by omega) (by omega)
  have s6 : sub32 (ntotal - 1) fc = ntotal - 1 - fc := sub32_eq (by omega) (by omega)
  by_cases hc : ncl % RPB ≠ 0 ∧ ntotal - 1 - I0 - fc - ncl * BPC ≥ BPC
  · have hsm : (ncl + 1) * BPC = ncl * BPC + BPC := by ring
    have hle : ncl + 1 ≤ (ncl + 1) * BPC := Nat.le_mul_of_pos_right _ hB
    have hinc : inc32 ncl = ncl + 1 := by unfold inc32; omega
    have m2 : ((ncl + 1) * BPC) % 4294967296 = (ncl + 1) * BPC := Nat.mod_eq_of_lt (by omega)
    have s7 : sub32 (ntotal - 1 - fc) ((ncl + 1) * BPC) = ntotal - 1 - fc - (ncl + 1) * BPC :=
      sub32_eq (by omega) (by omega)
    have hL : mkfsLayout IPB RPB BPC ntotal itotal
        = (ntotal - 1 - fc - (ncl + 1) * BPC, fc, ncl + 1,
            ((ntotal - 1 - fc - (ncl + 1) * BPC) * IPB) % 4294967296) := by
      simp only [mkfsLayout, ← hI0, s1, s2, ← htmp, ← hfc1, s3, ← hncl, ← hfc, s4, m1, s5,
        if_pos hc, hinc, m2, s6, s7]
    rw [hL]
    have hd := Nat.div_add_mod ncl RPB
    have hm := Nat.mod_lt ncl hR
    have hfe : fc = ncl / RPB + 1 := by
      rw [hfc, blocksFor_eq (by omega), if_neg hc.1]
    have hfm : fc * RPB = RPB * (ncl / RPB) + RPB := by
      rw [hfe]; ring
    refine ⟨?_, ?_, ?_, ?_, rfl⟩
    · show ntotal = 1 + (ntotal - 1 - fc - (ncl + 1) * BPC) + fc + (ncl + 1) * BPC
      omega
    · show ncl + 1 ≤ fc * RPB
      omega
    · show fc * RPB < ncl + 1 + RPB
      omega
    · show I0 ≤ ntotal - 1 - fc - (ncl + 1) * BPC
      omega
  · have hL : mkfsLayout IPB RPB BPC ntotal itotal
        = (ntotal - 1 - fc - ncl * BPC, fc, ncl,
            ((ntotal - 1 - fc - ncl * BPC) * IPB) % 4294967296) := by
      have s7 : sub32 (ntotal - 1 - fc) (ncl * BPC) = ntotal - 1 - fc - ncl * BPC :=
        sub32_eq (by omega) (by omega)
      simp only [mkfsLayout, ← hI0, s1, s2, ← htmp, ← hfc1, s3, ← hncl, ← hfc, s4, m1, s5,
        if_neg hc, s6, s7]
    rw [hL]
    refine ⟨?_, c1, c2, ?_, rfl⟩
    · show ntotal = 1 + (ntotal - 1 - fc - ncl * BPC) + fc + ncl * BPC
      omega
    · show I0 ≤ ntotal - 1 - fc - ncl * BPC
      omega

/-- C34: for every device of `ntotal` blocks and every value `itotal` of the option `-i`
such that no subtraction of the computation wraps around (the superblock, the blocks the
requested inodes need and the blocks of the table of references of step 1 fit in the device),
the layout `main` of `mkfs_sofs15.c` computes satisfies
`ntotal = 1 + iblktotal + fcblktotal + nclusttotal * BLOCKS_PER_CLUSTER`; `fcblktotal` is the
least integer not below `nclusttotal / RPB`; the final `iblktotal` is at least the number of
blocks the requested inodes need, so that `iblktotal * IPB` is at least the requested number
of inodes; and the final `itotal` is `iblktotal * IPB` when the product fits `uint32_t`. -/
theorem C34_layout_fills_device (IPB RPB BLOCKS_PER_CLUSTER ntotal itotal : Nat)
    (hI : 0 < IPB) (hR : 0 < RPB) (hB : 0 < BLOCKS_PER_CLUSTER)
    (hn : ntotal < 4294967296) (hi : itotal < 4294967296)
    (hu : 1 + blocksFor (requestedInodes ntotal itotal) IPB
      + blocksFor ((ntotal - 1 - blocksFor (requestedInodes ntotal itotal) IPB)
          / BLOCKS_PER_CLUSTER) RPB
      ≤ ntotal) :
    ntotal = 1 + (mkfsLayout IPB RPB BLOCKS_PER_CLUSTER ntotal itotal).1
      + (mkfsLayout IPB RPB BLOCKS_PER_CLUSTER ntotal itotal).2.1
      + (mkfsLayout IPB RPB BLOCKS_PER_CLUSTER ntotal itotal).2.2.1 * BLOCKS_PER_CLUSTER ∧
    ((mkfsLayout IPB RPB BLOCKS_PER_CLUSTER ntotal itotal).2.1 : ℚ)
      = ⌈((mkfsLayout IPB RPB BLOCKS_PER_CLUSTER ntotal itotal).2.2.1 : ℚ) / RPB⌉₊ ∧
    (if requestedInodes ntotal itotal % IPB = 0 then requestedInodes ntotal itotal / IPB
      else requestedInodes ntotal itotal / IPB + 1)
      ≤ (mkfsLayout IPB RPB BLOCKS_PER_CLUSTER ntotal itotal).1 ∧
    requestedInodes ntotal itotal
      ≤ (mkfsLayout IPB RPB BLOCKS_PER_CLUSTER ntotal itotal).1 * IPB ∧
    ((mkfsLayout IPB RPB BLOCKS_PER_CLUSTER ntotal itotal).1 * IPB < 4294967296 →
      (mkfsLayout IPB RPB BLOCKS_PER_CLUSTER ntotal itotal).2.2.2
        = (mkfsLayout IPB RPB BLOCKS_PER_CLUSTER ntotal itotal).1 * IPB) := by
  obtain ⟨h1, h2, h3, h4, h5⟩ :=
    mkfsLayout_spec IPB RPB BLOCKS_PER_CLUSTER ntotal itotal hR hB hn hu
  have hq := requestedInodes_lt hn hi
  obtain ⟨b1, -⟩ := blocksFor_spec hq hI
  refine ⟨h1, ?_, ?_, ?_, ?_⟩
  · have hRq : (0 : ℚ) < (RPB : ℚ) := by exact_mod_cast hR
    symm
    norm_cast
    by_cases hz : (mkfsLayout IPB RPB BLOCKS_PER_CLUSTER ntotal itotal).2.1 = 0
    · rw [hz] at h2 ⊢
      have : (mkfsLayout IPB RPB BLOCKS_PER_CLUSTER ntotal itotal).2.2.1 = 0 := by omega
      rw [this]
      simp
    · rw [Nat.ceil_eq_iff hz]
      constructor
      · rw [lt_div_iff₀ hRq]
        have h3q : (mkfsLayout IPB RPB BLOCKS_PER_CLUSTER ntotal itotal).2.1 * RPB
            < (mkfsLayout IPB RPB BLOCKS_PER_CLUSTER ntotal itotal).2.2.1 + RPB := h3
        have e : (((mkfsLayout IPB RPB BLOCKS_PER_CLUSTER ntotal itotal).2.1 - 1 : Nat) : ℚ)
            = ((mkfsLayout IPB RPB BLOCKS_PER_CLUSTER ntotal itotal).2.1 : ℚ) - 1 := by
          rw [Nat.cast_sub (by omega)]; simp
        rw [e, sub_mul, one_mul, sub_lt_iff_lt_add]
        exact_mod_cast h3q
      · rw [div_le_iff₀ hRq]
        exact_mod_cast h2
  · rw [← blocksFor_eq hq]
    exact h4
  · exact le_trans b1 (Nat.mul_le_mul_right _ h4)
  · intro hlt
    rw [h5, Nat.mod_eq_of_lt hlt]

/-- C34, for a device of 1000 blocks and 100 requested inodes, with 8 inodes and 128
references per block and 4 blocks per cluster. -/
theorem C34_layout_fills_device_witness :
    (1 + blocksFor (requestedInodes 1000 100) 8
      + blocksFor ((1000 - 1 - blocksFor (requestedInodes 1000 100) 8) / 4) 128 ≤ 1000) ∧
    (1000 = 1 + (mkfsLayout 8 128 4 1000 100).1 + (mkfsLayout 8 128 4 1000 100).2.1
      + (mkfsLayout 8 128 4 1000 100).2.2.1 * 4 ∧
    ((mkfsLayout 8 128 4 1000 100).2.1 : ℚ)
      = ⌈((mkfsLayout 8 128 4 1000 100).2.2.1 : ℚ) / (128 : Nat)⌉₊ ∧
    (if requestedInodes 1000 100 % 8 = 0 then requestedInodes 1000 100 / 8
      else requestedInodes 1000 100 / 8 + 1) ≤ (mkfsLayout 8 128 4 1000 100).1 ∧
    requestedInodes 1000 100 ≤ (mkfsLayout 8 128 4 1000 100).1 * 8 ∧
    ((mkfsLayout 8 128 4 1000 100).1 * 8 < 4294967296 →
      (mkfsLayout 8 128 4 1000 100).2.2.2 = (mkfsLayout 8 128 4 1000 100).1 * 8)) :=
  ⟨by decide,
    C34_layout_fills_device 8 128 4 1000 100 (by decide) (by decide) (by decide) (by decide)
      (by decide) (by decide)⟩

/-! ## The table of inodes of the formatted volume -/

theorem fillInINT_root_record (k : SOConst) (env : SOEnv) (sb : SOSuperBlock)
    (h2 : 2 ≤ sb.itotal) :
    getI (fillInINT k env sb) 0
      = { mode := k.INODE_PERM ||| k.INODE_DIR, refcount := 2, owner := env.uid,
          group := env.gid, size := k.CLUSTER_SIZE, clucount := 1, vD1 := env.now,
          vD2 := env.now, d := (List.replicate k.N_DIRECT NULL_CLUSTER).set 0 0,
          i1 := NULL_CLUSTER, i2 := NULL_CLUSTER } := by
  obtain ⟨t0, ht0⟩ : ∃ t0 : List SOInode, t0 = (List.range sb.itotal).map fun n =>
    { mode := k.INODE_FREE, refcount := 0, owner := 0, group := 0, size := 0, clucount := 0
      vD1 := dec32 n, vD2 := inc32 n
      d := List.replicate k.N_DIRECT NULL_CLUSTER, i1 := NULL_CLUSTER, i2 := NULL_CLUSTER } :=
    ⟨_, rfl⟩
  obtain ⟨t1, ht1⟩ : ∃ t1 : List SOInode, t1 = t0.set 0
    { getI t0 0 with
      mode := k.INODE_PERM ||| k.INODE_DIR
      refcount := 2, owner := env.uid, group := env.gid, size := k.CLUSTER_SIZE, clucount := 1
      vD1 := env.now, vD2 := env.now
      d := (getI t0 0).d.set 0 0 } := ⟨_, rfl⟩
  obtain ⟨t2, ht2⟩ : ∃ t2 : List SOInode,
    t2 = t1.set 1 { getI t1 1 with vD1 := dec32 sb.itotal } := ⟨_, rfl⟩
  have hF : fillInINT k env sb
      = t2.set (sb.itotal - 1) { getI t2 (sb.itotal - 1) with vD2 := 1 } := by
    rw [ht2, ht1, ht0]; rfl
  have hl0 : t0.length = sb.itotal := by rw [ht0]; simp
  have g0 : getI t0 0 =
      { mode := k.INODE_FREE, refcount := 0, owner := 0, group := 0, size := 0, clucount := 0
        vD1 := dec32 0, vD2 := inc32 0
        d := List.replicate k.N_DIRECT NULL_CLUSTER, i1 := NULL_CLUSTER, i2 := NULL_CLUSTER } := by
    rw [ht0, getI_map_range _ _ _ (by omega)]
  rw [hF, getI_set_ne _ _ (by omega), ht2, getI_set_ne _ _ (by omega), ht1,
    getI_set_eq _ _ _ (by rw [hl0]; omega), g0]

/-- C35: after the formatting of a volume with `itotal` inodes, `itotal` a positive multiple
of `IPB` (a block holds two inodes at least: the code assigns `iNode[1]`), the inode 0 is in
use, its mode is `INODE_DIR` with the nine permission flags, `refcount = 2`,
`size = CLUSTER_SIZE`, `clucount = 1` and `d[0] = 0`; the inodes `1 .. itotal - 1` are free,
with `next (i) = i + 1` for `1 <= i < itotal - 1`, `next (itotal - 1) = 1`,
`prev (i) = i - 1` for `1 < i <= itotal - 1` and `prev (1) = itotal - 1`; `ihdtl = 1` and
`ifree = itotal - 1`. -/
theorem C35_format_inode_table (k : SOConst) (env : SOEnv) (IPB itotal total nslots : Nat)
    (dz : List SODataClust) (hk : k.Wf) (hd : 0 < k.N_DIRECT) (hIPB : 2 ≤ IPB)
    (hpos : 0 < itotal) (hdiv : IPB ∣ itotal) (hlt : itotal < 4294967296) :
    ¬ isFreeInode k (getI (mkfs k env itotal total nslots dz).itable 0) ∧
    (getI (mkfs k env itotal total nslots dz).itable 0).mode = k.INODE_PERM ||| k.INODE_DIR ∧
    (getI (mkfs k env itotal total nslots dz).itable 0).refcount = 2 ∧
    (getI (mkfs k env itotal total nslots dz).itable 0).size = k.CLUSTER_SIZE ∧
    (getI (mkfs k env itotal total nslots dz).itable 0).clucount = 1 ∧
    (getI (mkfs k env itotal total nslots dz).itable 0).d.getD 0 NULL_CLUSTER = 0 ∧
    (∀ i, 1 ≤ i → i < itotal →
      isFreeInode k (getI (mkfs k env itotal total nslots dz).itable i)) ∧
    (∀ i, 1 ≤ i → i < itotal - 1 →
      (getI (mkfs k env itotal total nslots dz).itable i).vD2 = i + 1) ∧
    (getI (mkfs k env itotal total nslots dz).itable (itotal - 1)).vD2 = 1 ∧
    (∀ i, 1 < i → i ≤ itotal - 1 →
      (getI (mkfs k env itotal total nslots dz).itable i).vD1 = i - 1) ∧
    (getI (mkfs k env itotal total nslots dz).itable 1).vD1 = itotal - 1 ∧
    (mkfs k env itotal total nslots dz).sb.ihdtl = 1 ∧
    (mkfs k env itotal total nslots dz).sb.ifree = itotal - 1 := by
  have h2 : 2 ≤ itotal := le_trans hIPB (Nat.le_of_dvd hpos hdiv)
  have htab : (mkfs k env itotal total nslots dz).itable
      = fillInINT k env (fillInSuperBlock itotal total) := rfl
  have hsi : (fillInSuperBlock itotal total).itotal = itotal := rfl
  have hroot := fillInINT_root_record k env (fillInSuperBlock itotal total) (by rw [hsi]; exact h2)
  have hget : ∀ n, 1 ≤ n → n < itotal →
      (getI (fillInINT k env (fillInSuperBlock itotal total)) n).mode = k.INODE_FREE ∧
      (getI (fillInINT k env (fillInSuperBlock itotal total)) n).vD1
        = (if n = 1 then itotal - 1 else n - 1) ∧
      (getI (fillInINT k env (fillInSuperBlock itotal total)) n).vD2
        = (if n = itotal - 1 then 1 else n + 1) := by
    intro n hn1 hn2
    exact fillInINT_get k env (fillInSuperBlock itotal total) n hn1
      (by rw [hsi]; exact hn2) (by rw [hsi]; exact hlt)
  have hdec : dec32 itotal = itotal - 1 := by simp only [dec32]; omega
  rw [htab, hroot]
  refine ⟨?_, rfl, rfl, rfl, rfl, ?_, ?_, ?_, ?_, ?_, ?_, ?_, ?_⟩
  · unfold isFreeInode
    simp only [ne_eq, not_not]
    exact lor_and_eq_zero hk.2.2.2.2 hk.2.1
  · show ((List.replicate k.N_DIRECT NULL_CLUSTER).set 0 0).getD 0 NULL_CLUSTER = 0
    simp [List.getD_eq_getElem?_getD, List.getElem?_set, hd]
  · intro i hi1 hi2
    unfold isFreeInode
    rw [(hget i hi1 hi2).1, Nat.and_self]
    exact hk.1
  · intro i hi1 hi2
    rw [(hget i hi1 (by omega)).2.2, if_neg (by omega)]
  · rw [(hget (itotal - 1) (by omega) (by omega)).2.2, if_pos rfl]
  · intro i hi1 hi2
    rw [(hget i (by omega) (by omega)).2.1, if_neg (by omega)]
  · rw [(hget 1 (by omega) (by omega)).2.1, if_pos rfl]
  · show (4294967296 + itotal - dec32 itotal) % 4294967296 = 1
    rw [hdec]
    omega
  · exact hdec

/-- C35, on the volume of 8 inodes formatted with `dirConst`, with 4 inodes per block. -/
theorem C35_format_inode_table_witness :
    (dirConst.Wf ∧ 0 < dirConst.N_DIRECT ∧ 2 ≤ 4 ∧ 0 < 8 ∧ 4 ∣ 8 ∧ 8 < 4294967296) ∧
    (getI (dirVolume 8).itable 0).refcount = 2 ∧
    (getI (dirVolume 8).itable 7).vD2 = 1 ∧
    (getI (dirVolume 8).itable 1).vD1 = 8 - 1 ∧
    (dirVolume 8).sb.ihdtl = 1 :=
  ⟨by decide,
    (C35_format_inode_table dirConst exampleEnv 4 8 8 8 _ (by decide) (by decide) (by decide)
      (by decide) (by decide) (by decide)).2.2.1,
    (C35_format_inode_table dirConst exampleEnv 4 8 8 8 _ (by decide) (by decide) (by decide)
      (by decide) (by decide) (by decide)).2.2.2.2.2.2.2.2.1,
    (C35_format_inode_table dirConst exampleEnv 4 8 8 8 _ (by decide) (by decide) (by decide)
      (by decide) (by decide) (by decide)).2.2.2.2.2.2.2.2.2.2.1,
    (C35_format_inode_table dirConst exampleEnv 4 8 8 8 _ (by decide) (by decide) (by decide)
      (by decide) (by decide) (by decide)).2.2.2.2.2.2.2.2.2.2.2.1⟩

theorem mod_ne_of_lt {total a b : Nat} (h1 : a < b) (h2 : b < a + total) :
    a % total ≠ b % total := by
  intro h
  have h3 : (b - a) % total = 0 := Nat.sub_mod_eq_zero_of_mod_eq h.symm
  have h4 := Nat.eq_zero_of_dvd_of_lt (Nat.dvd_of_mod_eq_zero h3) (by omega)
  omega

theorem succ_mod_add (total index i : Nat) :
    ((index + 1) % total + i) % total = (index + (i + 1)) % total := by
  rw [Nat.mod_add_mod]
  congr 1
  omega

theorem replenishTake_fct (total : Nat) :
    ∀ (k n index : Nat) (cache fct : List Nat),
      index < total → k ≤ total → total ≤ fct.length →
      (replenishTake total k n index cache fct).1 = (index + k) % total ∧
      (∀ i, i < k →
        (replenishTake total k n index cache fct).2.2.getD ((index + i) % total) 0
          = NULL_CLUSTER) ∧
      (∀ j, (∀ i, i < k → j ≠ (index + i) % total) →
        (replenishTake total k n index cache fct).2.2.getD j 0 = fct.getD j 0) := by
  intro k
  induction k with
  | zero =>
    intro n index cache fct hi _ _
    refine ⟨?_, ?_, ?_⟩
    · simp only [replenishTake, Nat.add_zero]
      exact (Nat.mod_eq_of_lt hi).symm
    · intro i hi0; omega
    · intro j _; rfl
  | succ k ih =>
    intro n index cache fct hi hk hf
    obtain ⟨h1, h2, h3⟩ := ih (n + 1) ((index + 1) % total)
      (cache.set n (fct.getD index 0)) (fct.set index NULL_CLUSTER) (succ_mod_lt hi)
      (by omega) (by rw [List.length_set]; exact hf)
    simp only [replenishTake]
    have hother : ∀ i, i < k → index ≠ ((index + 1) % total + i) % total := by
      intro i hik
      rw [succ_mod_add]
      have := @mod_ne_of_lt total index (index + (i + 1)) (by omega) (by omega)
      rwa [Nat.mod_eq_of_lt hi] at this
    refine ⟨?_, ?_, ?_⟩
    · rw [h1, Nat.mod_add_mod]
      congr 1
      omega
    · intro i hik
      rcases Nat.eq_zero_or_pos i with rfl | hpos
      · rw [Nat.add_zero index, Nat.mod_eq_of_lt hi, h3 index hother,
          getD_set_eq _ _ (by omega)]
      · have := h2 (i - 1) (by omega)
        rw [succ_mod_add] at this
        have e : i - 1 + 1 = i := by omega
        rwa [e] at this
    · intro j hj
      rw [h3 j ?_, getD_set_ne]
      · have := hj 0 (by omega)
        rw [Nat.add_zero index, Nat.mod_eq_of_lt hi] at this
        exact fun e => this e.symm
      · intro i hik
        rw [succ_mod_add]
        exact hj (i + 1) (by omega)

theorem depleteLoop_fct_other (total : Nat) :
    ∀ (k cycle index : Nat) (cache fct : List Nat), index < total →
      ∀ j, (∀ i, i < k → j ≠ (index + i) % total) →
        (depleteLoop total k cycle index cache fct).2.2.getD j 0 = fct.getD j 0 := by
  intro k
  induction k with
  | zero => intro cycle index cache fct _ j _; rfl
  | succ k ih =>
    intro cycle index cache fct hi j hj
    simp only [depleteLoop]
    rw [ih (cycle + 1) ((index + 1) % total) _ _ (succ_mod_lt hi) j ?_, getD_set_ne]
    · have := hj 0 (by omega)
      rw [Nat.add_zero index, Nat.mod_eq_of_lt hi] at this
      exact fun e => this e.symm
    · intro i hik
      rw [succ_mod_add]
      exact hj (i + 1) (by omega)

theorem head_add_fifoCount {total head tail : Nat} (hh : head < total) (ht : tail < total) :
    (head + fifoCount total head tail) % total = tail := by
  rw [fifoCount_eq hh ht]
  split_ifs with h
  · have e : head + (tail - head) = tail := by omega
    rw [e, Nat.mod_eq_of_lt ht]
  · have e : head + (tail + total - head) = tail + total := by omega
    rw [e, Nat.add_mod_right, Nat.mod_eq_of_lt ht]

theorem soReplenish_refill {v : Volume} (h : DZWf v)
    (hr : v.sb.dzone_retriev.cache_idx = DZONE_CACHE_SIZE)
    (hk : 0 < v.sb.dzone_insert.cache_idx)
    (hf : fifoCount v.sb.dzone_total v.sb.tbfreeclust_head v.sb.tbfreeclust_tail
      < DZONE_CACHE_SIZE) :
    (soReplenish v).2.sb.dzone_retriev.cache_idx
      = DZONE_CACHE_SIZE
        - min (fifoCount v.sb.dzone_total v.sb.tbfreeclust_head v.sb.tbfreeclust_tail
            + v.sb.dzone_insert.cache_idx) DZONE_CACHE_SIZE ∧
    (soReplenish v).2.sb.dzone_insert.cache_idx = 0 ∧
    (∀ i, i < min (fifoCount v.sb.dzone_total v.sb.tbfreeclust_head v.sb.tbfreeclust_tail
          + v.sb.dzone_insert.cache_idx) DZONE_CACHE_SIZE →
      (soReplenish v).2.fct.getD ((v.sb.tbfreeclust_head + i) % v.sb.dzone_total) 0
        = NULL_CLUSTER) := by
  obtain ⟨total_lt, fct_len, rlen, ilen, ridx, iidx, head_lt, tail_lt, free_eq, free_lt⟩ := h
  have hlen := freeRefs_length ⟨total_lt, fct_len, rlen, ilen, ridx, iidx, head_lt, tail_lt,
    free_eq, free_lt⟩
  have htail := head_add_fifoCount head_lt tail_lt
  simp only [DZONE_CACHE_SIZE] at *
  have hw := replenishWalk_eq v.sb.dzone_total v.sb.tbfreeclust_tail
    (if v.sb.dzone_free < 50 then v.sb.dzone_free else 50)
    (50 - (if v.sb.dzone_free < 50 then v.sb.dzone_free else 50))
    v.sb.tbfreeclust_head v.sb.dzone_retriev.cache v.fct head_lt tail_lt
  generalize hnc : (if v.sb.dzone_free < 50 then v.sb.dzone_free else 50) = nc at hw
  generalize hcnt : fifoCount v.sb.dzone_total v.sb.tbfreeclust_head v.sb.tbfreeclust_tail = cnt
    at hw hlen hf htail ⊢
  have hnc1 : nc = min (cnt + v.sb.dzone_insert.cache_idx) 50 := by
    rw [← hnc]; split <;> omega
  have hmin : min nc cnt = cnt := by omega
  rw [hmin] at hw
  obtain ⟨t1, t2, t3, -, t5⟩ := replenishTake_spec v.sb.dzone_total v.sb.tbfreeclust_tail cnt
    (50 - nc) v.sb.tbfreeclust_head
    v.sb.dzone_retriev.cache v.fct head_lt tail_lt (by omega) (by omega) fct_len
  obtain ⟨f1, f2, f3⟩ := replenishTake_fct v.sb.dzone_total cnt (50 - nc)
    v.sb.tbfreeclust_head v.sb.dzone_retriev.cache v.fct head_lt (by omega) fct_len
  generalize replenishTake v.sb.dzone_total cnt (50 - nc) v.sb.tbfreeclust_head
    v.sb.dzone_retriev.cache v.fct = rt at hw t1 t2 t3 t5 f1 f2 f3
  have hrt1 : rt.1 = v.sb.tbfreeclust_tail :=
    (fifoCount_zero_iff t1 tail_lt).1 (by omega)
  have hz : fifoCount v.sb.dzone_total v.sb.tbfreeclust_tail v.sb.tbfreeclust_tail = 0 :=
    (fifoCount_zero_iff tail_lt tail_lt).2 rfl
  obtain ⟨d1, d2, d3, d4, d5⟩ := depleteLoop_spec v.sb.dzone_total v.sb.tbfreeclust_tail
    v.sb.dzone_insert.cache_idx 0 v.sb.tbfreeclust_tail
    v.sb.dzone_insert.cache rt.2.2 tail_lt tail_lt (by omega) (by omega) (by omega)
  have g1 := depleteLoop_fct_other v.sb.dzone_total v.sb.dzone_insert.cache_idx 0
    v.sb.tbfreeclust_tail v.sb.dzone_insert.cache rt.2.2 tail_lt
  generalize hdl : depleteLoop v.sb.dzone_total v.sb.dzone_insert.cache_idx 0
    v.sb.tbfreeclust_tail v.sb.dzone_insert.cache rt.2.2 = dl at d1 d2 d3 d4 d5 g1
  rw [hz] at d2 d3
  simp only [Nat.zero_add, fifoRefs, List.nil_append, List.drop_zero] at d2 d3
  have hrtl : rt.2.1.length = 50 := by
    rw [t3]; simp [fifoRefs_length]; omega
  obtain ⟨u1, u2, u3⟩ := replenishTake_fct v.sb.dzone_total (nc - cnt) (50 - nc + cnt)
    v.sb.tbfreeclust_tail rt.2.1 dl.2.2 tail_lt (by omega) (by omega)
  generalize hrt2 : replenishTake v.sb.dzone_total (nc - cnt) (50 - nc + cnt)
    v.sb.tbfreeclust_tail rt.2.1 dl.2.2 = rt2 at u1 u2 u3
  have hres : soReplenish v = (0, { v with
      sb := { v.sb with
              dzone_retriev := { cache_idx := 50 - nc, cache := rt2.2.1 }
              dzone_insert := { cache_idx := 0, cache := dl.2.1 }
              tbfreeclust_tail := dl.1
              tbfreeclust_head := rt2.1 }
      fct := rt2.2.2 }) := by
    have e : 50 - nc + cnt ≠ 50 := by omega
    have e2 : 50 - (50 - nc + cnt) = nc - cnt := by omega
    simp only [soReplenish, soDeplete, DZONE_CACHE_SIZE, hnc, hw, ne_eq, e, not_false_eq_true,
      if_true, not_true_eq_false, if_false, e2, hrt1, hdl, hrt2]
  rw [hres]
  refine ⟨?_, rfl, ?_⟩
  · show 50 - nc = 50 - min (cnt + v.sb.dzone_insert.cache_idx) 50
    rw [hnc1]
  · intro i hi
    show rt2.2.2.getD ((v.sb.tbfreeclust_head + i) % v.sb.dzone_total) 0 = NULL_CLUSTER
    have htl : ∀ j, (v.sb.tbfreeclust_tail + j) % v.sb.dzone_total
        = (v.sb.tbfreeclust_head + (cnt + j)) % v.sb.dzone_total := by
      intro j
      rw [← Nat.add_assoc, Nat.add_mod (v.sb.tbfreeclust_head + cnt), htail,
        Nat.add_mod v.sb.tbfreeclust_tail, Nat.mod_eq_of_lt tail_lt]
    by_cases hic : i < cnt
    · rw [u3, g1, f2 i hic]
      · intro j hj
        rw [htl]
        exact mod_ne_of_lt (by omega) (by omega)
      · intro j hj
        rw [htl]
        exact mod_ne_of_lt (by omega) (by omega)
    · have := u2 (i - cnt) (by omega)
      rw [htl] at this
      have e : cnt + (i - cnt) = i := by omega
      rwa [e] at this

/-- C37: on every volume whose data-zone metadata are well formed, with the retrieval cache
empty, `f` references in the table between head and tail, `f < DZONE_CACHE_SIZE`, and `k > 0`
references in the insertion cache, `soAllocDataCluster` succeeds. `soReplenish` leaves in the
retrieval cache the `f` references of the table, in the order of the head, followed by the
first `min (k, DZONE_CACHE_SIZE - f)` references of the insertion cache, in the order of
their insertion, and the other references of the insertion cache in the table. Afterwards
`dzone_retriev.cache_idx = DZONE_CACHE_SIZE - min (f + k, DZONE_CACHE_SIZE) + 1`,
`dzone_insert.cache_idx = 0`, every slot of the table that was read (the
`min (f + k, DZONE_CACHE_SIZE)` slots from the head on) holds `NULL_CLUSTER`, and the cluster
returned is the reference at the head of the table or, when `f = 0`, the first reference of
the insertion cache. -/
theorem C37_replenish_through_deplete (v : Volume) (h : DZWf v)
    (hr : v.sb.dzone_retriev.cache_idx = DZONE_CACHE_SIZE)
    (hk : 0 < v.sb.dzone_insert.cache_idx)
    (hf : fifoCount v.sb.dzone_total v.sb.tbfreeclust_head v.sb.tbfreeclust_tail
      < DZONE_CACHE_SIZE) :
    (soAllocDataCluster v).1 = 0 ∧
    retrievLive (soReplenish v).2.sb
      = fifoLive v ++ (insertLive v.sb).take (min v.sb.dzone_insert.cache_idx
          (DZONE_CACHE_SIZE
            - fifoCount v.sb.dzone_total v.sb.tbfreeclust_head v.sb.tbfreeclust_tail)) ∧
    fifoLive (soReplenish v).2
      = (insertLive v.sb).drop (min v.sb.dzone_insert.cache_idx
          (DZONE_CACHE_SIZE
            - fifoCount v.sb.dzone_total v.sb.tbfreeclust_head v.sb.tbfreeclust_tail)) ∧
    (soAllocDataCluster v).2.1.sb.dzone_retriev.cache_idx
      = DZONE_CACHE_SIZE
        - min (fifoCount v.sb.dzone_total v.sb.tbfreeclust_head v.sb.tbfreeclust_tail
            + v.sb.dzone_insert.cache_idx) DZONE_CACHE_SIZE + 1 ∧
    (soAllocDataCluster v).2.1.sb.dzone_insert.cache_idx = 0 ∧
    (∀ i, i < min (fifoCount v.sb.dzone_total v.sb.tbfreeclust_head v.sb.tbfreeclust_tail
          + v.sb.dzone_insert.cache_idx) DZONE_CACHE_SIZE →
      (soAllocDataCluster v).2.1.fct.getD
        ((v.sb.tbfreeclust_head + i) % v.sb.dzone_total) 0 = NULL_CLUSTER) ∧
    (soAllocDataCluster v).2.2
      = (if fifoCount v.sb.dzone_total v.sb.tbfreeclust_head v.sb.tbfreeclust_tail = 0
          then v.sb.dzone_insert.cache.getD 0 0
          else v.fct.getD v.sb.tbfreeclust_head 0) := by
  have hlen := freeRefs_length h
  have hfree : v.sb.dzone_free ≠ 0 := by
    rw [h.free_eq, hlen]; omega
  obtain ⟨r1, r2, r3⟩ := soReplenish_refill h hr hk hf
  obtain ⟨p1, p2, p3, -⟩ := soReplenish_spec h hr hfree
  obtain ⟨a1, -, a3, -⟩ := soAllocDataCluster_spec h hfree
  have hrl : retrievLive v.sb = [] := by
    simp [retrievLive, hr, h.rlen]
  have hil : insertLive (soReplenish v).2.sb = [] := by
    simp [insertLive, r2]
  have hfl := fifoLive_length v
  have hrlen := retrievLive_length p2
  have hsplit : retrievLive (soReplenish v).2.sb ++ fifoLive (soReplenish v).2
      = fifoLive v ++ insertLive v.sb := by
    have := p3
    simp only [freeRefs, hrl, hil, List.nil_append, List.append_nil] at this
    exact this
  have hres : soAllocDataCluster v
      = (0, { (soReplenish v).2 with
              sb := { (soReplenish v).2.sb with
                      dzone_retriev := { (soReplenish v).2.sb.dzone_retriev with
                        cache_idx := inc32 (soReplenish v).2.sb.dzone_retriev.cache_idx }
                      dzone_free := dec32 (soReplenish v).2.sb.dzone_free } },
          (soReplenish v).2.sb.dzone_retriev.cache.getD
            (soReplenish v).2.sb.dzone_retriev.cache_idx 0) := by
    simp only [soAllocDataCluster, if_neg hfree, if_pos hr, p1, ne_eq, not_true_eq_false,
      if_false]
  have hil2 := insertLive_length h
  have hiidx := h.iidx
  simp only [DZONE_CACHE_SIZE] at *
  generalize hcnt : fifoCount v.sb.dzone_total v.sb.tbfreeclust_head v.sb.tbfreeclust_tail = cnt
    at *
  have hnc : min (cnt + v.sb.dzone_insert.cache_idx) 50 - cnt
      = min v.sb.dzone_insert.cache_idx (50 - cnt) := by omega
  have hrl2 : (retrievLive (soReplenish v).2.sb).length
      = min (cnt + v.sb.dzone_insert.cache_idx) 50 := by
    rw [hrlen, r1]; omega
  have htk : retrievLive (soReplenish v).2.sb
      = (fifoLive v ++ insertLive v.sb).take (min (cnt + v.sb.dzone_insert.cache_idx) 50) := by
    rw [← hsplit, ← hrl2, List.take_left]
  have hdr : fifoLive (soReplenish v).2
      = (fifoLive v ++ insertLive v.sb).drop (min (cnt + v.sb.dzone_insert.cache_idx) 50) := by
    rw [← hsplit, ← hrl2, List.drop_left]
  refine ⟨a1, ?_, ?_, ?_, ?_, ?_, ?_⟩
  · rw [htk, List.take_append_eq_append_take, hfl, hnc, List.take_of_length_le (by omega)]
  · rw [hdr, List.drop_append_eq_append_drop, hfl, hnc, List.drop_of_length_le (by omega),
      List.nil_append]
  · rw [hres]
    show inc32 (soReplenish v).2.sb.dzone_retriev.cache_idx = _
    rw [r1]
    unfold inc32
    omega
  · rw [hres]
    exact r2
  · intro i hi
    rw [hres]
    exact r3 i hi
  · have hh : (soAllocDataCluster v).2.2 = (freeRefs v).headD 0 := by
      rw [a3]; rfl
    rw [hh]
    simp only [freeRefs, hrl, List.nil_append]
    by_cases hc0 : cnt = 0
    · rw [if_pos hc0]
      have : fifoLive v = [] := List.eq_nil_of_length_eq_zero (by rw [hfl, hc0])
      rw [this, List.nil_append]
      unfold insertLive
      obtain ⟨m, hm⟩ : ∃ m, v.sb.dzone_insert.cache_idx = m + 1 := ⟨_, (Nat.succ_pred_eq_of_pos hk).symm⟩
      rw [hm]
      cases hcache : v.sb.dzone_insert.cache with
      | nil => rfl
      | cons a l => rfl
    · rw [if_neg hc0]
      obtain ⟨m, hm⟩ : ∃ m, cnt = m + 1 := ⟨cnt - 1, by omega⟩
      unfold fifoLive
      rw [hcnt, hm]
      rfl

/-- C37, on a volume of 6 data clusters whose table holds the references 3 and 4 and whose
insertion cache holds the references 1 and 2. -/
theorem C37_replenish_through_deplete_witness :
    (DZWf drainedVolume ∧
      drainedVolume.sb.dzone_retriev.cache_idx = DZONE_CACHE_SIZE ∧
      0 < drainedVolume.sb.dzone_insert.cache_idx ∧
      fifoCount drainedVolume.sb.dzone_total drainedVolume.sb.tbfreeclust_head
        drainedVolume.sb.tbfreeclust_tail < DZONE_CACHE_SIZE) ∧
    (soAllocDataCluster drainedVolume).1 = 0 ∧
    retrievLive (soReplenish drainedVolume).2.sb
      = fifoLive drainedVolume ++ (insertLive drainedVolume.sb).take
          (min drainedVolume.sb.dzone_insert.cache_idx
            (DZONE_CACHE_SIZE - fifoCount drainedVolume.sb.dzone_total
              drainedVolume.sb.tbfreeclust_head drainedVolume.sb.tbfreeclust_tail)) :=
  ⟨⟨⟨by decide, by decide, by decide, by decide, by decide, by decide, by decide, by decide,
      by decide, by decide⟩, by decide, by decide, by decide⟩,
    (C37_replenish_through_deplete drainedVolume
      ⟨by decide, by decide, by decide, by decide, by decide, by decide, by decide, by decide,
        by decide, by decide⟩ (by decide) (by decide) (by decide)).1,
    (C37_replenish_through_deplete drainedVolume
      ⟨by decide, by decide, by decide, by decide, by decide, by decide, by decide, by decide,
        by decide, by decide⟩ (by decide) (by decide) (by decide)).2.1⟩

/-! ## Volumes that agree but for the times -/

theorem SameButTimes_refl (p : SOInode) : SameButTimes p p :=
  ⟨rfl, rfl, rfl, rfl, rfl, rfl, rfl, rfl, rfl⟩

theorem SameButTimes_trans {p q r : SOInode} (h1 : SameButTimes p q) (h2 : SameButTimes q r) :
    SameButTimes p r := by
  obtain ⟨a1, a2, a3, a4, a5, a6, a7, a8, a9⟩ := h1
  obtain ⟨b1, b2, b3, b4, b5, b6, b7, b8, b9⟩ := h2
  exact ⟨b1.trans a1, b2.trans a2, b3.trans a3, b4.trans a4, b5.trans a5, b6.trans a6,
    b7.trans a7, b8.trans a8, b9.trans a9⟩

theorem isFreeInode_congr {k : SOConst} {p q : SOInode} (h : q.mode = p.mode) :
    isFreeInode k q ↔ isFreeInode k p := by
  unfold isFreeInode
  rw [h]

theorem TimesEq_refl (k : SOConst) (v : Volume) : TimesEq k v v :=
  ⟨rfl, rfl, rfl, rfl, fun _ => ⟨SameButTimes_refl _, fun _ => rfl⟩⟩

theorem TimesEq_trans {k : SOConst} {u v w : Volume} (h1 : TimesEq k u v) (h2 : TimesEq k v w) :
    TimesEq k u w := by
  obtain ⟨a1, a2, a3, a4, a5⟩ := h1
  obtain ⟨b1, b2, b3, b4, b5⟩ := h2
  refine ⟨b1.trans a1, b2.trans a2, b3.trans a3, b4.trans a4, fun m => ?_⟩
  refine ⟨SameButTimes_trans (a5 m).1 (b5 m).1, fun hf => ?_⟩
  have e1 := (a5 m).2 hf
  have hf' : isFreeInode k (getI v.itable m) := by rw [e1]; exact hf
  rw [(b5 m).2 hf', e1]

theorem TimesEq_set {k : SOConst} (v : Volume) (n : Nat) (q : SOInode)
    (hnf : ¬ isFreeInode k (getI v.itable n)) (hs : SameButTimes (getI v.itable n) q) :
    TimesEq k v { v with itable := v.itable.set n q } := by
  refine ⟨rfl, rfl, rfl, by simp, fun m => ?_⟩
  show SameButTimes (getI v.itable m) (getI (v.itable.set n q) m) ∧
    (isFreeInode k (getI v.itable m) → getI (v.itable.set n q) m = getI v.itable m)
  rw [getI_set]
  split_ifs with hc
  · obtain ⟨rfl, _⟩ := hc
    exact ⟨hs, fun hf => absurd hf hnf⟩
  · exact ⟨SameButTimes_refl _, fun _ => rfl⟩

theorem IInv_TimesEq {k : SOConst} {v v' : Volume} (hi : IInv k v) (ht : TimesEq k v v') :
    IInv k v' := by
  obtain ⟨hlen, hN, l, hnd, hmem, hifree, hpath, hcl, hhd⟩ := hi
  obtain ⟨t1, t2, t3, t4, t5⟩ := ht
  have hsame : ∀ x ∈ l, getI v'.itable x = getI v.itable x := fun x hx =>
    (t5 x).2 ((hmem x).1 hx).2
  refine ⟨by rw [t4, t1]; exact hlen, by rw [t1]; exact hN, l, hnd, ?_, by rw [t1]; exact hifree,
    Path_congr_mem l hsame hpath, Closed_congr_mem l hsame hcl, by rw [t1]; exact hhd⟩
  intro x
  rw [t1, hmem x, isFreeInode_congr (t5 x).1.1]

theorem soQCheckDZ_congr {v v' : Volume} (hsb : v'.sb = v.sb) (hfct : v'.fct = v.fct) :
    soQCheckDZ v' = soQCheckDZ v := by
  cases v
  cases v'
  simp only at hsb hfct
  subst hsb hfct
  rfl

theorem refOfIndex_congr (k : SOConst) (dz : List SODataClust) {p q : SOInode} (c : Nat)
    (h : SameButTimes p q) : refOfIndex k dz q c = refOfIndex k dz p c := by
  obtain ⟨-, -, -, -, -, -, h7, h8, h9⟩ := h
  unfold refOfIndex
  rw [h7, h8, h9]

theorem RefsInZone_congr {k : SOConst} {dz : List SODataClust} {p q : SOInode}
    (h : SameButTimes p q) (hz : RefsInZone k dz p) : RefsInZone k dz q := by
  obtain ⟨-, -, -, -, -, -, h7, h8, h9⟩ := h
  unfold RefsInZone at hz ⊢
  rw [h8, h9]
  exact hz

theorem fileCluster_congr (k : SOConst) (dz : List SODataClust) {p q : SOInode} (c : Nat)
    (h : SameButTimes p q) : fileCluster k dz q c = fileCluster k dz p c := by
  unfold fileCluster
  rw [refOfIndex_congr k dz c h]

theorem Good_TimesEq {k : SOConst} {v v' : Volume} {n : Nat} (hg : Good k v n)
    (ht : TimesEq k v v') : Good k v' n := by
  obtain ⟨g1, g2, g3, g4, g5⟩ := hg
  have hi := IInv_TimesEq g1 ht
  obtain ⟨t1, t2, t3, t4, t5⟩ := ht
  refine ⟨hi, (soQCheckDZ_congr t1 t2).trans g2, by rw [t1]; exact g3,
    (soQCheckInodeIU_congr k (t5 n).1.1).trans g4, ?_⟩
  rw [t3]
  exact RefsInZone_congr (t5 n).1 g5

theorem soReadInode_good {k : SOConst} (env : SOEnv) {v : Volume} {n : Nat} (hg : Good k v n) :
    (soReadInode k env v n).1 = 0 ∧ TimesEq k v (soReadInode k env v n).2.1 ∧
    SameButTimes (getI v.itable n) (soReadInode k env v n).2.2 := by
  obtain ⟨g1, g2, g3, g4, g5⟩ := hg
  rw [soReadInode_ok k env v n g3 g4]
  exact ⟨rfl, TimesEq_set v n _ (soQCheckInodeIU_not_free g4)
    ⟨rfl, rfl, rfl, rfl, rfl, rfl, rfl, rfl, rfl⟩, ⟨rfl, rfl, rfl, rfl, rfl, rfl, rfl, rfl, rfl⟩⟩

theorem soReadFileCluster_vol {k : SOConst} (env : SOEnv) {v : Volume} {nInode c : Nat}
    (R : SODataClust) (hi : IInv k v) (hdz : soQCheckDZ v = 0) (hn : nInode < v.sb.itotal)
    (hiu : soQCheckInodeIU k (getI v.itable nInode) = 0)
    (hc : c < MAX_FILE_CLUSTERS k) (hz : RefsInZone k v.dzone (getI v.itable nInode)) :
    ∃ q, SameButTimes (getI v.itable nInode) q ∧
      (soReadFileCluster k env v nInode c R).2.1
        = { v with itable := (v.itable.set nInode (readRecord env v nInode)).set nInode q } := by
  have hlen : nInode < v.itable.length := by rw [hi.1]; exact hn
  have hnf := soQCheckInodeIU_not_free hiu
  have hiu' : soQCheckInodeIU k (readRecord env v nInode) = 0 :=
    (soQCheckInodeIU_congr k (by rfl)).trans hiu
  have hi' : IInv k (readVolume env v nInode) :=
    IInv_set_inuse hi nInode _ hnf (soQCheckInodeIU_not_free hiu')
  have hgetr : getI (readVolume env v nInode).itable nInode = readRecord env v nInode :=
    getI_set_eq _ _ _ hlen
  have hG := @soHandleFileCluster_get k env (readVolume env v nInode) nInode c hi' hdz hn
    (by rw [hgetr]; exact hiu') hc (by rw [hgetr]; exact hz)
  rw [hgetr] at hG
  have hro : soReadInode k env v nInode
      = (0, readVolume env v nInode, readRecord env v nInode) :=
    soReadInode_ok k env v nInode hn hiu
  obtain ⟨q, hq⟩ : ∃ q : SOInode,
    q = { readRecord env v nInode with vD1 := env.now, vD2 := env.now } := ⟨_, rfl⟩
  refine ⟨q, ?_, ?_⟩
  · rw [hq]
    exact ⟨rfl, rfl, rfl, rfl, rfl, rfl, rfl, rfl, rfl⟩
  · unfold soReadFileCluster
    rw [if_neg (by omega)]
    simp only [hro, hG]
    rw [if_neg (by simp), if_neg (by simp), hq]
    unfold soReadCacheCluster
    split_ifs <;> rfl

theorem soReadFileCluster_good {k : SOConst} (env : SOEnv) {v : Volume} {n c : Nat}
    (R : SODataClust) (hg : Good k v n) (hc : c < MAX_FILE_CLUSTERS k)
    (hl : refOfIndex k v.dzone (getI v.itable n) c ≠ NULL_CLUSTER →
      refOfIndex k v.dzone (getI v.itable n) c < v.dzone.length) :
    (soReadFileCluster k env v n c R).1 = 0 ∧
    (soReadFileCluster k env v n c R).2.2 = fileCluster k v.dzone (getI v.itable n) c ∧
    TimesEq k v (soReadFileCluster k env v n c R).2.1 := by
  obtain ⟨g1, g2, g3, g4, g5⟩ := hg
  obtain ⟨e1, e2, -, -, -⟩ := soReadFileCluster_eq env R g1 g2 g3 g4 hc g5
  obtain ⟨q, hq, e3⟩ := soReadFileCluster_vol env R g1 g2 g3 g4 hc g5
  have hnf := soQCheckInodeIU_not_free g4
  refine ⟨?_, ?_, ?_⟩
  · rw [e1]
    by_cases h0 : refOfIndex k v.dzone (getI v.itable n) c = NULL_CLUSTER
    · rw [if_pos h0]
    · rw [if_neg h0, if_pos (hl h0)]
  · rw [e2]
    unfold fileCluster
    by_cases h0 : refOfIndex k v.dzone (getI v.itable n) c = NULL_CLUSTER
    · rw [if_pos h0, if_pos h0]
    · rw [if_neg h0, if_neg h0, if_pos (hl h0)]
  · rw [e3]
    have hlen : n < v.itable.length := by rw [g1.1]; exact g3
    have t1 : TimesEq k v (readVolume env v n) :=
      TimesEq_set v n _ hnf ⟨rfl, rfl, rfl, rfl, rfl, rfl, rfl, rfl, rfl⟩
    have hget : getI (readVolume env v n).itable n = readRecord env v n :=
      getI_set_eq _ _ _ hlen
    have t2 : TimesEq k (readVolume env v n)
        { readVolume env v n with itable := (readVolume env v n).itable.set n q } :=
      TimesEq_set _ n _ (by rw [hget]; exact hnf) (by rw [hget]; exact hq)
    exact TimesEq_trans t1 t2

theorem soAccessGranted_TimesEq {k : SOConst} (env : SOEnv) {v v' : Volume} {n : Nat} (op : Nat)
    (hg : Good k v n) (ht : TimesEq k v v') :
    (soAccessGranted k env v' n op).1 = (soAccessGranted k env v n op).1 ∧
    TimesEq k v (soAccessGranted k env v' n op).2 := by
  have hg' := Good_TimesEq hg ht
  have hro := soReadInode_ok k env v n hg.2.2.1 hg.2.2.2.1
  have hro' := soReadInode_ok k env v' n hg'.2.2.1 hg'.2.2.2.1
  have hts : TimesEq k v (readVolume env v' n) :=
    TimesEq_trans ht (TimesEq_set v' n _ (soQCheckInodeIU_not_free hg'.2.2.2.1)
      ⟨rfl, rfl, rfl, rfl, rfl, rfl, rfl, rfl, rfl⟩)
  have hsb : v'.sb.itotal = v.sb.itotal := by rw [ht.1]
  obtain ⟨hm, -, ho, hgr, -⟩ := (ht.2.2.2.2 n).1
  have e : ∀ (w : Volume) (hw : soReadInode k env w n
        = (0, readVolume env w n, readRecord env w n)),
      soAccessGranted k env w n op =
        if (op ||| (R ||| W ||| X)) ≠ (R ||| W ||| X) ∨ op = 0 then (-EINVAL, w)
        else if n > dec32 w.sb.itotal then (-EINVAL, w)
        else if env.uid = 0 ∧ env.gid = 0 then
          if op = R ∨ op = W then (0, readVolume env w n)
          else if (getI w.itable n).mode &&& (X <<< 6 ||| X <<< 3 ||| X)
              = (X <<< 6 ||| X <<< 3 ||| X) then (0, readVolume env w n)
          else (-EACCES, readVolume env w n)
        else if (getI w.itable n).owner = env.uid then
          if (getI w.itable n).mode &&& (op <<< 6) ≠ op <<< 6 then (-EACCES, readVolume env w n)
          else (0, readVolume env w n)
        else if (getI w.itable n).group = env.gid then
          if (getI w.itable n).mode &&& (op <<< 3) ≠ op <<< 3 then (-EACCES, readVolume env w n)
          else (0, readVolume env w n)
        else
          if (getI w.itable n).mode &&& op ≠ op then (-EACCES, readVolume env w n)
          else (0, readVolume env w n) := by
    intro w hw
    unfold soAccessGranted
    simp only [hw]
    rw [if_neg (show ¬ ((0 : Int) ≠ 0) by simp)]
    rfl
  rw [e v hro, e v' hro', hsb, hm, ho, hgr]
  constructor
  · split_ifs <;> rfl
  · split_ifs <;> first | exact ht | exact hts

/-! ## `soGetDirEntryByName`: the loops -/

theorem cstr_eq_nil_of_head {a : List Nat} (h : a.getD 0 0 = 0) : cstr a = [] := by
  cases a with
  | nil => rfl
  | cons x l =>
    have hx : x = 0 := h
    subst hx
    simp [cstr]

theorem head_ne_zero_of_cstr {a eName : List Nat} (hne : eName ≠ []) (h : cstr a = eName) :
    a.getD 0 0 ≠ 0 := by
  intro h0
  rw [cstr_eq_nil_of_head h0] at h
  exact hne h.symm

/-- What the loop over the entries of a cluster gives: the first entry with the name, when
there is one; otherwise no entry, the count of the entries gone through, and the flag and
the index of the first free entry. -/
theorem dirEntryLoop_spec (k : SOConst) {eName : List Nat} (hne : eName ≠ [])
    (de : List SODirEntry) (trd : Nat) :
    ∀ (n tdir : Nat) (flag : Bool) (ti count : Nat),
      (∀ j, tdir ≤ j → j < tdir + n → cstr (de.getD j default).name = eName →
        (∀ i, tdir ≤ i → i < j → cstr (de.getD i default).name ≠ eName) →
        (dirEntryLoop k eName de trd n tdir flag ti count).1
          = some ((de.getD j default).nInode, k.DPC * trd + j)) ∧
      ((∀ j, tdir ≤ j → j < tdir + n → cstr (de.getD j default).name ≠ eName) →
        (dirEntryLoop k eName de trd n tdir flag ti count).1 = none ∧
        (dirEntryLoop k eName de trd n tdir flag ti count).2.2.2
          = count + n * (k.CLUSTER_SIZE / k.DPC) ∧
        (flag = true →
          (dirEntryLoop k eName de trd n tdir flag ti count).2.1 = true ∧
          (dirEntryLoop k eName de trd n tdir flag ti count).2.2.1 = ti) ∧
        (flag = false →
          (∀ j, tdir ≤ j → j < tdir + n → (de.getD j default).name.getD 0 0 = 0 →
            (∀ i, tdir ≤ i → i < j → (de.getD i default).name.getD 0 0 ≠ 0) →
            (dirEntryLoop k eName de trd n tdir flag ti count).2.1 = true ∧
            (dirEntryLoop k eName de trd n tdir flag ti count).2.2.1 = k.DPC * trd + j) ∧
          ((∀ j, tdir ≤ j → j < tdir + n → (de.getD j default).name.getD 0 0 ≠ 0) →
            (dirEntryLoop k eName de trd n tdir flag ti count).2.1 = false ∧
            (dirEntryLoop k eName de trd n tdir flag ti count).2.2.1 = ti))) := by
  intro n
  induction n with
  | zero =>
    intro tdir flag ti count
    refine ⟨fun j h1 h2 => by omega, fun _ => ⟨rfl, by simp [dirEntryLoop], fun _ => ?_,
      fun hf => ⟨fun j h1 h2 => by omega, fun _ => ⟨?_, rfl⟩⟩⟩⟩
    · rename_i hf
      exact ⟨hf, rfl⟩
    · exact hf
  | succ n ih =>
    intro tdir flag ti count
    by_cases c1 : (de.getD tdir default).name.getD 0 0 = 0 ∧ flag = false
    · obtain ⟨i1, i2⟩ := ih (tdir + 1) true (k.DPC * trd + tdir)
        (count + k.CLUSTER_SIZE / k.DPC)
      have hstep : dirEntryLoop k eName de trd (n + 1) tdir flag ti count
          = dirEntryLoop k eName de trd n (tdir + 1) true (k.DPC * trd + tdir)
              (count + k.CLUSTER_SIZE / k.DPC) := by
        rw [dirEntryLoop, if_pos c1]
      rw [hstep]
      have hnm : cstr (de.getD tdir default).name ≠ eName := fun h =>
        head_ne_zero_of_cstr hne h c1.1
      refine ⟨fun j h1 h2 hj hmin => ?_, fun hno => ?_⟩
      · have hjt : j ≠ tdir := fun e => hnm (e ▸ hj)
        exact i1 j (by omega) (by omega) hj (fun i hi1 hi2 => hmin i (by omega) hi2)
      · obtain ⟨a1, a2, a3, -⟩ := i2 (fun j h1 h2 => hno j (by omega) (by omega))
        obtain ⟨a3, a4⟩ := a3 rfl
        refine ⟨a1, ?_, fun hf => ?_, fun _ => ⟨fun j h1 h2 hj hmin => ?_, fun hnf => ?_⟩⟩
        · rw [a2, Nat.add_mul, Nat.one_mul]; omega
        · rw [c1.2] at hf; exact absurd hf (by simp)
        · have hjt : j = tdir := by
            by_contra hjt
            exact hmin tdir (le_refl _) (by omega) c1.1
          rw [hjt]
          exact ⟨a3, a4⟩
        · exact absurd c1.1 (hnf tdir (le_refl _) (by omega))
    · by_cases c2 : cstr (de.getD tdir default).name = eName
      · have hstep : dirEntryLoop k eName de trd (n + 1) tdir flag ti count
            = (some ((de.getD tdir default).nInode, k.DPC * trd + tdir), flag, ti, count) := by
          rw [dirEntryLoop, if_neg c1, if_pos c2]
        rw [hstep]
        refine ⟨fun j h1 h2 hj hmin => ?_, fun hno => ?_⟩
        · have hjt : j = tdir := by
            by_contra hjt
            exact hmin tdir (le_refl _) (by omega) c2
          rw [hjt]
        · exact absurd c2 (hno tdir (le_refl _) (by omega))
      · obtain ⟨i1, i2⟩ := ih (tdir + 1) flag ti (count + k.CLUSTER_SIZE / k.DPC)
        have hstep : dirEntryLoop k eName de trd (n + 1) tdir flag ti count
            = dirEntryLoop k eName de trd n (tdir + 1) flag ti
                (count + k.CLUSTER_SIZE / k.DPC) := by
          rw [dirEntryLoop, if_neg c1, if_neg c2]
        rw [hstep]
        refine ⟨fun j h1 h2 hj hmin => ?_, fun hno => ?_⟩
        · have hjt : j ≠ tdir := fun e => c2 (e ▸ hj)
          exact i1 j (by omega) (by omega) hj (fun i hi1 hi2 => hmin i (by omega) hi2)
        · obtain ⟨a1, a2, a3, a4⟩ := i2 (fun j h1 h2 => hno j (by omega) (by omega))
          refine ⟨a1, ?_, a3, fun hf => ?_⟩
          · rw [a2, Nat.add_mul, Nat.one_mul]; omega
          · obtain ⟨b1, b2⟩ := a4 hf
            have hnz : (de.getD tdir default).name.getD 0 0 ≠ 0 := fun h0 => c1 ⟨h0, hf⟩
            refine ⟨fun j h1 h2 hj hmin => ?_, fun hnf => ?_⟩
            · have hjt : j ≠ tdir := fun e => hnz (e ▸ hj)
              exact b1 j (by omega) (by omega) hj (fun i hi1 hi2 => hmin i (by omega) hi2)
            · exact b2 (fun j h1 h2 => hnf j (by omega) (by omega))

theorem dirEntry_cluster (k : SOConst) (dz : List SODataClust) (p : SOInode) (trd j : Nat)
    (hj : j < k.DPC) :
    (fileCluster k dz p trd).de.getD j default = dirEntry k dz p (trd * k.DPC + j) := by
  unfold dirEntry
  have h1 : (trd * k.DPC + j) / k.DPC = trd := by
    rw [Nat.add_comm, Nat.add_mul_div_right _ _ (by omega), Nat.div_eq_of_lt hj, Nat.zero_add]
  have h2 : (trd * k.DPC + j) % k.DPC = j := by
    rw [Nat.add_comm, Nat.add_mul_mod_self_right, Nat.mod_eq_of_lt hj]
  rw [h1, h2]

theorem fileCluster_TimesEq {k : SOConst} {v v' : Volume} (ht : TimesEq k v v') (n c : Nat) :
    fileCluster k v'.dzone (getI v'.itable n) c = fileCluster k v.dzone (getI v.itable n) c := by
  rw [ht.2.2.1, fileCluster_congr k v.dzone c (ht.2.2.2.2 n).1]

theorem refOfIndex_TimesEq {k : SOConst} {v v' : Volume} (ht : TimesEq k v v') (n c : Nat) :
    refOfIndex k v'.dzone (getI v'.itable n) c = refOfIndex k v.dzone (getI v.itable n) c := by
  rw [ht.2.2.1, refOfIndex_congr k v.dzone c (ht.2.2.2.2 n).1]

/-- What the loop over the clusters of a directory gives, from a state in which the clusters
before `trd` were gone through without an entry of the name: the first entry with the name,
when there is one among the entries the loop reaches; otherwise `-ENOENT` and the index of
the first free entry, or the index past the last entry when none is free. -/
theorem dirClusterLoop_spec {k : SOConst} (env : SOEnv) {v0 : Volume} {D : Nat}
    {eName : List Nat} (hne : eName ≠ []) (hg : Good k v0 D)
    (hE : 0 < k.DPC * (k.CLUSTER_SIZE / k.DPC))
    (hT : (getI v0.itable D).size / (k.DPC * (k.CLUSTER_SIZE / k.DPC)) + 1
      ≤ MAX_FILE_CLUSTERS k)
    (hl : ∀ c, c < (getI v0.itable D).size / (k.DPC * (k.CLUSTER_SIZE / k.DPC)) + 1 →
      refOfIndex k v0.dzone (getI v0.itable D) c ≠ NULL_CLUSTER →
      refOfIndex k v0.dzone (getI v0.itable D) c < v0.dzone.length) :
    ∀ (fuel trd : Nat) (flag : Bool) (ti count : Nat) (v : Volume),
      TimesEq k v0 v →
      trd ≤ (getI v0.itable D).size / (k.DPC * (k.CLUSTER_SIZE / k.DPC)) + 1 →
      (getI v0.itable D).size / (k.DPC * (k.CLUSTER_SIZE / k.DPC)) + 1 < trd + fuel →
      count = trd * (k.DPC * (k.CLUSTER_SIZE / k.DPC)) →
      (∀ i, i < trd * k.DPC → ¬ entryNamed k v0.dzone (getI v0.itable D) eName i) →
      (flag = false → ∀ i, i < trd * k.DPC → ¬ entryFree k v0.dzone (getI v0.itable D) i) →
      (flag = true → ti < trd * k.DPC ∧ entryFree k v0.dzone (getI v0.itable D) ti ∧
        ∀ i, i < ti → ¬ entryFree k v0.dzone (getI v0.itable D) i) →
      TimesEq k v0
        (dirClusterLoop k env D eName (getI v0.itable D).size fuel trd flag ti count v).2.1 ∧
      (∀ i, i < scanned k (getI v0.itable D) →
        entryNamed k v0.dzone (getI v0.itable D) eName i →
        (∀ j, j < i → ¬ entryNamed k v0.dzone (getI v0.itable D) eName j) →
        (dirClusterLoop k env D eName (getI v0.itable D).size fuel trd flag ti count v).1 = 0 ∧
        (dirClusterLoop k env D eName (getI v0.itable D).size fuel trd flag ti count v).2.2.1
          = (dirEntry k v0.dzone (getI v0.itable D) i).nInode ∧
        (dirClusterLoop k env D eName (getI v0.itable D).size fuel trd flag ti count v).2.2.2
          = i) ∧
      ((∀ i, i < scanned k (getI v0.itable D) →
          ¬ entryNamed k v0.dzone (getI v0.itable D) eName i) →
        (dirClusterLoop k env D eName (getI v0.itable D).size fuel trd flag ti count v).1
          = -ENOENT ∧
        (∀ i, i < scanned k (getI v0.itable D) →
          entryFree k v0.dzone (getI v0.itable D) i →
          (∀ j, j < i → ¬ entryFree k v0.dzone (getI v0.itable D) j) →
          (dirClusterLoop k env D eName (getI v0.itable D).size fuel trd flag ti count v).2.2.2
            = i) ∧
        ((∀ i, i < scanned k (getI v0.itable D) →
            ¬ entryFree k v0.dzone (getI v0.itable D) i) →
          (dirClusterLoop k env D eName (getI v0.itable D).size fuel trd flag ti count v).2.2.2
            = scanned k (getI v0.itable D))) := by
  obtain ⟨p, hp⟩ : ∃ p, p = getI v0.itable D := ⟨_, rfl⟩
  rw [← hp] at hT hl ⊢
  obtain ⟨E, hEd⟩ : ∃ E, E = k.DPC * (k.CLUSTER_SIZE / k.DPC) := ⟨_, rfl⟩
  rw [← hEd] at hE hT hl ⊢
  have hsc : scanned k p = (p.size / E + 1) * k.DPC := by rw [hEd]; rfl
  rw [hsc]
  obtain ⟨T, hTd⟩ : ∃ T, T = p.size / E + 1 := ⟨_, rfl⟩
  rw [← hTd] at hT hl ⊢
  have hDPC : 0 < k.DPC := Nat.pos_of_mul_pos_right (hEd ▸ hE)
  intro fuel
  induction fuel with
  | zero =>
    intro trd flag ti count v _ h1 h2
    omega
  | succ fuel ih =>
    intro trd flag ti count v ht hle hfu hcnt hnoM hF0 hF1
    have hcond : count ≤ p.size ↔ trd < T := by
      rw [hcnt, hTd, ← Nat.le_div_iff_mul_le hE]
      omega
    by_cases hc : count ≤ p.size
    · have hlt : trd < T := hcond.1 hc
      have hgv : Good k v D := Good_TimesEq hg ht
      obtain ⟨r1, r2, r3⟩ := soReadFileCluster_good env default hgv
        (show trd < MAX_FILE_CLUSTERS k by omega)
        (by rw [refOfIndex_TimesEq ht, ← hp, ht.2.2.1]; exact hl trd hlt)
      rw [fileCluster_TimesEq ht, ← hp] at r2
      have ht' : TimesEq k v0 (soReadFileCluster k env v D trd default).2.1 :=
        TimesEq_trans ht r3
      have hde : ∀ j, j < k.DPC →
          (fileCluster k v0.dzone p trd).de.getD j default
            = dirEntry k v0.dzone p (trd * k.DPC + j) := fun j hj =>
        dirEntry_cluster k v0.dzone p trd j hj
      obtain ⟨s1, s2⟩ := dirEntryLoop_spec k hne (fileCluster k v0.dzone p trd).de trd
        k.DPC 0 flag ti count
      have hunf : dirClusterLoop k env D eName p.size (fuel + 1) trd flag ti count v
          = match (dirEntryLoop k eName (fileCluster k v0.dzone p trd).de trd k.DPC 0 flag ti
              count).1 with
            | some e => (0, (soReadFileCluster k env v D trd default).2.1, e.1, e.2)
            | none =>
                dirClusterLoop k env D eName p.size fuel (trd + 1)
                  (dirEntryLoop k eName (fileCluster k v0.dzone p trd).de trd k.DPC 0 flag ti
                    count).2.1
                  (dirEntryLoop k eName (fileCluster k v0.dzone p trd).de trd k.DPC 0 flag ti
                    count).2.2.1
                  (dirEntryLoop k eName (fileCluster k v0.dzone p trd).de trd k.DPC 0 flag ti
                    count).2.2.2
                  (soReadFileCluster k env v D trd default).2.1 := by
        rw [dirClusterLoop, if_pos hc]
        simp only [r1, r2]
        rw [if_neg (show ¬ ((0 : Int) ≠ 0) by simp)]
        try rfl
      by_cases hm : ∃ j, j < k.DPC ∧ entryNamed k v0.dzone p eName (trd * k.DPC + j)
      · -- the name is in this cluster
        classical
        have hj0 := Nat.find_spec hm
        have hmin := fun j => @Nat.find_min _ _ hm j
        generalize Nat.find hm = j0 at hj0 hmin
        have hs := s1 j0 (Nat.zero_le _) (by omega)
          (by rw [hde j0 hj0.1]; exact hj0.2)
          (fun i _ hi => by
            rw [hde i (by omega)]
            exact fun h => hmin i hi ⟨by omega, h⟩)
        rw [hde j0 hj0.1] at hs
        rw [hunf, hs]
        have hlast : trd * k.DPC + j0 < T * k.DPC := by
          have : (trd + 1) * k.DPC ≤ T * k.DPC := Nat.mul_le_mul_right _ hlt
          rw [Nat.add_mul, Nat.one_mul] at this
          omega
        refine ⟨ht', fun i hi hMi hmini => ?_, fun hno => absurd hj0.2 (hno _ hlast)⟩
        have hge : trd * k.DPC ≤ i := by
          by_contra hlt'
          exact hnoM i (by omega) hMi
        have hle' : i ≤ trd * k.DPC + j0 := by
          by_contra hgt
          exact hmini (trd * k.DPC + j0) (by omega) hj0.2
        have hij : i = trd * k.DPC + j0 := by
          by_contra hne'
          have hlt'' : i - trd * k.DPC < j0 := by omega
          have := hmin (i - trd * k.DPC) hlt''
          apply this
          refine ⟨by omega, ?_⟩
          have e : trd * k.DPC + (i - trd * k.DPC) = i := by omega
          rw [e]
          exact hMi
        rw [hij]
        refine ⟨rfl, rfl, ?_⟩
        show k.DPC * trd + j0 = trd * k.DPC + j0
        rw [Nat.mul_comm]
      · -- the name is not in this cluster
        have hno' : ∀ j, 0 ≤ j → j < 0 + k.DPC →
            cstr ((fileCluster k v0.dzone p trd).de.getD j default).name ≠ eName := by
          intro j _ hj
          rw [hde j (by omega)]
          exact fun h => hm ⟨j, by omega, h⟩
        obtain ⟨a1, a2, a3, a4⟩ := s2 hno'
        rw [hunf, a1]
        have hnoM' : ∀ i, i < (trd + 1) * k.DPC → ¬ entryNamed k v0.dzone p eName i := by
          intro i hi hMi
          by_cases hb : i < trd * k.DPC
          · exact hnoM i hb hMi
          · apply hm
            refine ⟨i - trd * k.DPC, ?_, ?_⟩
            · rw [Nat.add_mul, Nat.one_mul] at hi; omega
            · have e : trd * k.DPC + (i - trd * k.DPC) = i := by omega
              rw [e]; exact hMi
        have hcnt' : (dirEntryLoop k eName (fileCluster k v0.dzone p trd).de trd k.DPC 0 flag
            ti count).2.2.2 = (trd + 1) * E := by
          rw [a2, hcnt, hEd, Nat.add_mul, Nat.one_mul]
        have hfree : ∀ j, j < k.DPC →
            (((fileCluster k v0.dzone p trd).de.getD j default).name.getD 0 0 = 0 ↔
              entryFree k v0.dzone p (trd * k.DPC + j)) := by
          intro j hj
          unfold entryFree
          rw [hde j hj]
        have hinv : ((dirEntryLoop k eName (fileCluster k v0.dzone p trd).de trd k.DPC 0 flag
              ti count).2.1 = false →
              ∀ i, i < (trd + 1) * k.DPC → ¬ entryFree k v0.dzone p i) ∧
            ((dirEntryLoop k eName (fileCluster k v0.dzone p trd).de trd k.DPC 0 flag
              ti count).2.1 = true →
              (dirEntryLoop k eName (fileCluster k v0.dzone p trd).de trd k.DPC 0 flag
                ti count).2.2.1 < (trd + 1) * k.DPC ∧
              entryFree k v0.dzone p (dirEntryLoop k eName (fileCluster k v0.dzone p trd).de
                trd k.DPC 0 flag ti count).2.2.1 ∧
              ∀ i, i < (dirEntryLoop k eName (fileCluster k v0.dzone p trd).de trd k.DPC 0
                flag ti count).2.2.1 → ¬ entryFree k v0.dzone p i) := by
          rcases Bool.eq_false_or_eq_true flag with hfl | hfl
          · obtain ⟨b1, b2⟩ := a3 hfl
            obtain ⟨c1, c2, c3⟩ := hF1 hfl
            rw [b1, b2]
            refine ⟨fun h => absurd h (by simp), fun _ => ⟨?_, c2, c3⟩⟩
            rw [Nat.add_mul, Nat.one_mul]; omega
          · obtain ⟨b1, b2⟩ := a4 hfl
            have hF0' := hF0 hfl
            by_cases hfr : ∃ j, j < k.DPC ∧ entryFree k v0.dzone p (trd * k.DPC + j)
            · classical
              have hj0 := Nat.find_spec hfr
              have hmin := fun j => @Nat.find_min _ _ hfr j
              generalize Nat.find hfr = j0 at hj0 hmin
              obtain ⟨d1, d2⟩ := b1 j0 (Nat.zero_le _) (by omega)
                ((hfree j0 hj0.1).2 hj0.2)
                (fun i _ hi h => hmin i hi ⟨by omega, (hfree i (by omega)).1 h⟩)
              rw [d1, d2]
              refine ⟨fun h => absurd h (by simp), fun _ => ⟨?_, ?_, ?_⟩⟩
              · rw [Nat.add_mul, Nat.one_mul, Nat.mul_comm]; omega
              · rw [Nat.mul_comm]; exact hj0.2
              · intro i hi hFi
                rw [Nat.mul_comm] at hi
                by_cases hb : i < trd * k.DPC
                · exact hF0' i hb hFi
                · apply hmin (i - trd * k.DPC) (by omega)
                  refine ⟨by omega, ?_⟩
                  have e : trd * k.DPC + (i - trd * k.DPC) = i := by omega
                  rw [e]; exact hFi
            · obtain ⟨d1, d2⟩ := b2 (fun j _ hj h =>
                hfr ⟨j, by omega, (hfree j (by omega)).1 h⟩)
              rw [d1]
              refine ⟨fun _ i hi hFi => ?_, fun h => absurd h (by simp)⟩
              by_cases hb : i < trd * k.DPC
              · exact hF0' i hb hFi
              · apply hfr
                refine ⟨i - trd * k.DPC, ?_, ?_⟩
                · rw [Nat.add_mul, Nat.one_mul] at hi; omega
                · have e : trd * k.DPC + (i - trd * k.DPC) = i := by omega
                  rw [e]; exact hFi
        exact ih (trd + 1) _ _ _ _ ht' (by omega) (by omega) hcnt' hnoM' hinv.1 hinv.2
    · have hTt : trd = T := by
        have : ¬ trd < T := fun h => hc (hcond.2 h)
        omega
      have hunf : dirClusterLoop k env D eName p.size (fuel + 1) trd flag ti count v
          = (-ENOENT, v, 0, if flag = false then trd * k.DPC else ti) := by
        rw [dirClusterLoop, if_neg hc]
      rw [hunf, ← hTt]
      refine ⟨ht, fun i hi hMi _ => absurd hMi (hnoM i hi), fun _ => ⟨rfl, ?_, ?_⟩⟩
      · intro i hi hFi hmini
        rcases Bool.eq_false_or_eq_true flag with hfl | hfl
        · obtain ⟨c1, c2, c3⟩ := hF1 hfl
          show (if flag = false then trd * k.DPC else ti) = i
          rw [if_neg (by rw [hfl]; simp)]
          by_contra hne'
          rcases Nat.lt_or_gt_of_ne hne' with h | h
          · exact hmini ti h c2
          · exact c3 i h hFi
        · exact absurd hFi (hF0 hfl i hi)
      · intro hnf
        rcases Bool.eq_false_or_eq_true flag with hfl | hfl
        · obtain ⟨c1, c2, c3⟩ := hF1 hfl
          exact absurd c2 (hnf ti c1)
        · show (if flag = false then trd * k.DPC else ti) = trd * k.DPC
          rw [if_pos hfl]

theorem TimesEq_readVolume {k : SOConst} (env : SOEnv) {v : Volume} {n : Nat}
    (hg : Good k v n) : TimesEq k v (readVolume env v n) :=
  TimesEq_set v n _ (soQCheckInodeIU_not_free hg.2.2.2.1)
    ⟨rfl, rfl, rfl, rfl, rfl, rfl, rfl, rfl, rfl⟩

/-- What `soGetDirEntryByName` gives on a directory in use on which the caller has the
permission to execute, for a name that is not empty: the inodes are left as they were but for
the times; the first entry with the name, when there is one among the entries the loop
reaches; otherwise `-ENOENT` and the index of the first free entry, or the index past the
last entry when none is free. -/
theorem soGetDirEntryByName_spec {k : SOConst} (env : SOEnv) {v : Volume} {D : Nat}
    {eName : List Nat} (hne : eName ≠ []) (hg : Good k v D)
    (hdir : (getI v.itable D).mode &&& k.INODE_DIR = k.INODE_DIR)
    (hacc : (soAccessGranted k env v D X).1 = 0)
    (hptr : k.SIZEOF_PTR ≤ k.MAX_NAME + 1)
    (hE : 0 < k.DPC * (k.CLUSTER_SIZE / k.DPC))
    (hT : (getI v.itable D).size / (k.DPC * (k.CLUSTER_SIZE / k.DPC)) + 1
      ≤ MAX_FILE_CLUSTERS k)
    (hl : ∀ c, c < (getI v.itable D).size / (k.DPC * (k.CLUSTER_SIZE / k.DPC)) + 1 →
      refOfIndex k v.dzone (getI v.itable D) c ≠ NULL_CLUSTER →
      refOfIndex k v.dzone (getI v.itable D) c < v.dzone.length) :
    TimesEq k v (soGetDirEntryByName k env v D eName).2.1 ∧
    (∀ i, i < scanned k (getI v.itable D) →
      entryNamed k v.dzone (getI v.itable D) eName i →
      (∀ j, j < i → ¬ entryNamed k v.dzone (getI v.itable D) eName j) →
      (soGetDirEntryByName k env v D eName).1 = 0 ∧
      (soGetDirEntryByName k env v D eName).2.2.1
        = (dirEntry k v.dzone (getI v.itable D) i).nInode ∧
      (soGetDirEntryByName k env v D eName).2.2.2 = i) ∧
    ((∀ i, i < scanned k (getI v.itable D) →
        ¬ entryNamed k v.dzone (getI v.itable D) eName i) →
      (soGetDirEntryByName k env v D eName).1 = -ENOENT ∧
      (∀ i, i < scanned k (getI v.itable D) →
        entryFree k v.dzone (getI v.itable D) i →
        (∀ j, j < i → ¬ entryFree k v.dzone (getI v.itable D) j) →
        (soGetDirEntryByName k env v D eName).2.2.2 = i) ∧
      ((∀ i, i < scanned k (getI v.itable D) → ¬ entryFree k v.dzone (getI v.itable D) i) →
        (soGetDirEntryByName k env v D eName).2.2.2 = scanned k (getI v.itable D))) := by
  have hro : soReadInode k env v D = (0, readVolume env v D, readRecord env v D) :=
    soReadInode_ok k env v D hg.2.2.1 hg.2.2.2.1
  obtain ⟨a1, a2⟩ := soAccessGranted_TimesEq env X hg (TimesEq_readVolume env hg)
  rw [hacc] at a1
  have hmode : (readRecord env v D).mode &&& k.INODE_DIR = k.INODE_DIR := hdir
  have hunf : soGetDirEntryByName k env v D eName
      = dirClusterLoop k env D eName (getI v.itable D).size (MAX_FILE_CLUSTERS k + 1) 0 false
          0 0 (soAccessGranted k env (readVolume env v D) D X).2 := by
    unfold soGetDirEntryByName
    rw [if_neg (by have := hg.2.2.1; omega), if_neg (by omega)]
    simp only [hro]
    rw [if_neg (show ¬ ((0 : Int) ≠ 0) by simp)]
    simp only [a1]
    rw [if_neg (show ¬ ((0 : Int) ≠ 0) by simp), if_neg (by rw [hmode]; simp)]
    rfl
  rw [hunf]
  exact dirClusterLoop_spec env hne hg hE hT hl (MAX_FILE_CLUSTERS k + 1) 0 false 0 0 _ a2
    (Nat.zero_le _) (by omega) (by rw [Nat.zero_mul])
    (fun i hi => by rw [Nat.zero_mul] at hi; omega)
    (fun _ i hi => by rw [Nat.zero_mul] at hi; omega)
    (fun h => absurd h (by simp))

/-- C21: on a volume whose metadata are consistent, for every directory in use on which the
caller has the permission to execute and every name that is not empty and has `MAX_NAME`
characters at most: if an entry has the name, `soGetDirEntryByName` returns 0 with the number
of the inode and the index of the entry of lowest index with the name; otherwise it returns
`-ENOENT` and stores in `*p_idx` the index of the entry of lowest index whose first name
byte is NUL or, if the clusters gone through have no such entry, the index past the last
entry gone through. The entries are those of the clusters the loop reads, `size div
(DPC * (CLUSTER_SIZE div DPC)) + 1` of them, which the file can hold and which lie in the
data zone; a pointer is not larger than the name field. -/
theorem C21_get_dir_entry_by_name (k : SOConst) (env : SOEnv) (v : Volume) (nInodeDir : Nat)
    (eName : List Nat) (hne : eName ≠ []) (_hlen : eName.length ≤ k.MAX_NAME)
    (hg : Good k v nInodeDir)
    (hdir : (getI v.itable nInodeDir).mode &&& k.INODE_DIR = k.INODE_DIR)
    (hacc : (soAccessGranted k env v nInodeDir X).1 = 0)
    (hptr : k.SIZEOF_PTR ≤ k.MAX_NAME + 1)
    (hE : 0 < k.DPC * (k.CLUSTER_SIZE / k.DPC))
    (hT : (getI v.itable nInodeDir).size / (k.DPC * (k.CLUSTER_SIZE / k.DPC)) + 1
      ≤ MAX_FILE_CLUSTERS k)
    (hl : ∀ c, c < (getI v.itable nInodeDir).size / (k.DPC * (k.CLUSTER_SIZE / k.DPC)) + 1 →
      refOfIndex k v.dzone (getI v.itable nInodeDir) c ≠ NULL_CLUSTER →
      refOfIndex k v.dzone (getI v.itable nInodeDir) c < v.dzone.length) :
    (∀ i, i < scanned k (getI v.itable nInodeDir) →
      entryNamed k v.dzone (getI v.itable nInodeDir) eName i →
      (∀ j, j < i → ¬ entryNamed k v.dzone (getI v.itable nInodeDir) eName j) →
      (soGetDirEntryByName k env v nInodeDir eName).1 = 0 ∧
      (soGetDirEntryByName k env v nInodeDir eName).2.2.1
        = (dirEntry k v.dzone (getI v.itable nInodeDir) i).nInode ∧
      (soGetDirEntryByName k env v nInodeDir eName).2.2.2 = i) ∧
    ((∀ i, i < scanned k (getI v.itable nInodeDir) →
        ¬ entryNamed k v.dzone (getI v.itable nInodeDir) eName i) →
      (soGetDirEntryByName k env v nInodeDir eName).1 = -ENOENT ∧
      (∀ i, i < scanned k (getI v.itable nInodeDir) →
        entryFree k v.dzone (getI v.itable nInodeDir) i →
        (∀ j, j < i → ¬ entryFree k v.dzone (getI v.itable nInodeDir) j) →
        (soGetDirEntryByName k env v nInodeDir eName).2.2.2 = i) ∧
      ((∀ i, i < scanned k (getI v.itable nInodeDir) →
          ¬ entryFree k v.dzone (getI v.itable nInodeDir) i) →
        (soGetDirEntryByName k env v nInodeDir eName).2.2.2
          = scanned k (getI v.itable nInodeDir))) :=
  (soGetDirEntryByName_spec env hne hg hdir hacc hptr hE hT hl).2

theorem Good_dirVolume : Good dirConst (dirVolume 8) 0 :=
  ⟨IInv_mkfs dirConst exampleEnv 8 8 8 _ (by decide) (by decide) (by decide), by decide,
    by decide, by decide, by unfold RefsInZone; decide⟩

/-- C21, on the root directory of the formatted volume of 8 data clusters, for the name
`..`, which is the name of the entry 1. -/
theorem C21_get_dir_entry_by_name_witness :
    (([DOT, DOT] : List Nat) ≠ [] ∧ ([DOT, DOT] : List Nat).length ≤ dirConst.MAX_NAME ∧
      Good dirConst (dirVolume 8) 0 ∧
      (getI (dirVolume 8).itable 0).mode &&& dirConst.INODE_DIR = dirConst.INODE_DIR ∧
      (soAccessGranted dirConst exampleEnv (dirVolume 8) 0 X).1 = 0 ∧
      1 < scanned dirConst (getI (dirVolume 8).itable 0) ∧
      entryNamed dirConst (dirVolume 8).dzone (getI (dirVolume 8).itable 0) [DOT, DOT] 1) ∧
    (soGetDirEntryByName dirConst exampleEnv (dirVolume 8) 0 [DOT, DOT]).1 = 0 ∧
    (soGetDirEntryByName dirConst exampleEnv (dirVolume 8) 0 [DOT, DOT]).2.2.1
      = (dirEntry dirConst (dirVolume 8).dzone (getI (dirVolume 8).itable 0) 1).nInode ∧
    (soGetDirEntryByName dirConst exampleEnv (dirVolume 8) 0 [DOT, DOT]).2.2.2 = 1 :=
  ⟨⟨by decide, by decide, Good_dirVolume, by decide, by decide, by decide, by decide⟩,
    (C21_get_dir_entry_by_name dirConst exampleEnv (dirVolume 8) 0 [DOT, DOT] (by decide)
      (by decide) Good_dirVolume (by decide) (by decide) (by decide) (by decide) (by decide)
      (by decide)).1 1 (by decide) (by decide) (by decide)⟩

theorem basename_slash : basename [SLASH] = [SLASH] := by decide

theorem dirname_slash : dirname [SLASH] = [SLASH] := by decide

/-- What `soGetDirEntryByPath ("/")` gives on a volume whose root directory is in use, is a
directory and not a symbolic link, may be executed by the caller and has the entry `.`, with
the inode 0, as its entry 0. -/
theorem soGetDirEntryByPath_root {k : SOConst} (env : SOEnv) {v : Volume} (nSymLinks : Nat)
    (hg : Good k v 0)
    (hdir : (getI v.itable 0).mode &&& k.INODE_DIR = k.INODE_DIR)
    (hns : (getI v.itable 0).mode &&& k.INODE_SYMLINK ≠ k.INODE_SYMLINK)
    (hacc : (soAccessGranted k env v 0 X).1 = 0)
    (hptr : k.SIZEOF_PTR ≤ k.MAX_NAME + 1)
    (hE : 0 < k.DPC * (k.CLUSTER_SIZE / k.DPC))
    (hT : (getI v.itable 0).size / (k.DPC * (k.CLUSTER_SIZE / k.DPC)) + 1
      ≤ MAX_FILE_CLUSTERS k)
    (hl : ∀ c, c < (getI v.itable 0).size / (k.DPC * (k.CLUSTER_SIZE / k.DPC)) + 1 →
      refOfIndex k v.dzone (getI v.itable 0) c ≠ NULL_CLUSTER →
      refOfIndex k v.dzone (getI v.itable 0) c < v.dzone.length)
    (hdot : entryNamed k v.dzone (getI v.itable 0) [DOT] 0)
    (hino : (dirEntry k v.dzone (getI v.itable 0) 0).nInode = 0)
    (hP : 1 ≤ k.MAX_PATH) :
    (soGetDirEntryByPath k env v nSymLinks [SLASH]).1 = 0 ∧
    (soGetDirEntryByPath k env v nSymLinks [SLASH]).2.2.1 = nSymLinks ∧
    (soGetDirEntryByPath k env v nSymLinks [SLASH]).2.2.2.1 = 0 ∧
    (soGetDirEntryByPath k env v nSymLinks [SLASH]).2.2.2.2 = 0 ∧
    TimesEq k v (soGetDirEntryByPath k env v nSymLinks [SLASH]).2.1 := by
  obtain ⟨t, hfound, -⟩ := soGetDirEntryByName_spec env (show ([DOT] : List Nat) ≠ [] by simp)
    hg hdir hacc hptr hE hT hl
  have hsc : 0 < scanned k (getI v.itable 0) := by
    unfold scanned
    exact Nat.mul_pos (Nat.succ_pos _) (Nat.pos_of_mul_pos_right hE)
  obtain ⟨g1, g2, g3⟩ := hfound 0 hsc hdot (fun j hj => by omega)
  rw [hino] at g2
  have hg' : Good k (soGetDirEntryByName k env v 0 [DOT]).2.1 0 := Good_TimesEq hg t
  have hro : soReadInode k env (soGetDirEntryByName k env v 0 [DOT]).2.1 0
      = (0, readVolume env (soGetDirEntryByName k env v 0 [DOT]).2.1 0,
          readRecord env (soGetDirEntryByName k env v 0 [DOT]).2.1 0) :=
    soReadInode_ok k env _ 0 hg'.2.2.1 hg'.2.2.2.1
  have hmode : (readRecord env (soGetDirEntryByName k env v 0 [DOT]).2.1 0).mode
      = (getI v.itable 0).mode := (t.2.2.2.2 0).1.1
  have hunf : soGetDirEntryByPath k env v nSymLinks [SLASH]
      = (0, readVolume env (soGetDirEntryByName k env v 0 [DOT]).2.1 0, nSymLinks, 0, 0) := by
    unfold soGetDirEntryByPath
    rw [if_neg (by simp), if_neg (by simp; omega), if_neg (by simp [SLASH])]
    show soTraversePath k env (4 * k.MAX_PATH + 7 + 1) v nSymLinks [SLASH] = _
    rw [soTraversePath]
    simp only [basename_slash, dirname_slash, if_true, g1, g2, hro]
    rw [if_neg (show ¬ ((0 : Int) ≠ 0) by simp), if_neg (show ¬ ((0 : Int) ≠ 0) by simp),
      if_pos (by rw [hmode]; exact hns)]
  rw [hunf]
  exact ⟨rfl, rfl, rfl, rfl, TimesEq_trans t (TimesEq_readVolume env hg')⟩

/-- C22 (counterexample): with `MAX_PATH = 15`, the path of 16 characters `a`, which is not
empty and does not start with `/`, gives `-ENAMETOOLONG`, not `-ERELPATH`: the length is
tested (line 89) before the first character (line 90). -/
theorem C22_counterexample :
    (List.replicate 16 97).getD 0 0 ≠ SLASH ∧
    (soGetDirEntryByPath dirConst exampleEnv (dirVolume 8) 0 (List.replicate 16 97)).1
      = -ENAMETOOLONG ∧
    (soGetDirEntryByPath dirConst exampleEnv (dirVolume 8) 0 (List.replicate 16 97)).1
      ≠ -ERELPATH := by
  decide

/-- C22 (amended): on a volume whose metadata are consistent and whose root directory is in
use, is a directory, may be executed by the caller and has the entry `.`, with the inode 0,
as its entry 0, `soGetDirEntryByPath ("/")` returns 0 and stores 0 in `*p_nInodeDir` and in
`*p_nInodeEnt`; and on every volume `soGetDirEntryByPath` returns `-EINVAL` for the empty
path, `-ENAMETOOLONG` for every path longer than `MAX_PATH`, and `-ERELPATH` for every path
that is not empty, has `MAX_PATH` characters at most and does not start with `/`. -/
theorem C22_root_path_and_rejected_paths (k : SOConst) (env : SOEnv) (v : Volume)
    (nSymLinks : Nat) (hg : Good k v 0)
    (hdir : (getI v.itable 0).mode &&& k.INODE_DIR = k.INODE_DIR)
    (hns : (getI v.itable 0).mode &&& k.INODE_SYMLINK ≠ k.INODE_SYMLINK)
    (hacc : (soAccessGranted k env v 0 X).1 = 0)
    (hptr : k.SIZEOF_PTR ≤ k.MAX_NAME + 1)
    (hE : 0 < k.DPC * (k.CLUSTER_SIZE / k.DPC))
    (hT : (getI v.itable 0).size / (k.DPC * (k.CLUSTER_SIZE / k.DPC)) + 1
      ≤ MAX_FILE_CLUSTERS k)
    (hl : ∀ c, c < (getI v.itable 0).size / (k.DPC * (k.CLUSTER_SIZE / k.DPC)) + 1 →
      refOfIndex k v.dzone (getI v.itable 0) c ≠ NULL_CLUSTER →
      refOfIndex k v.dzone (getI v.itable 0) c < v.dzone.length)
    (hdot : entryNamed k v.dzone (getI v.itable 0) [DOT] 0)
    (hino : (dirEntry k v.dzone (getI v.itable 0) 0).nInode = 0)
    (hP : 1 ≤ k.MAX_PATH) :
    ((soGetDirEntryByPath k env v nSymLinks [SLASH]).1 = 0 ∧
      (soGetDirEntryByPath k env v nSymLinks [SLASH]).2.2.2.1 = 0 ∧
      (soGetDirEntryByPath k env v nSymLinks [SLASH]).2.2.2.2 = 0) ∧
    (∀ (w : Volume) (n : Nat), (soGetDirEntryByPath k env w n []).1 = -EINVAL) ∧
    (∀ (w : Volume) (n : Nat) (ePath : List Nat), ePath.length > k.MAX_PATH →
      (soGetDirEntryByPath k env w n ePath).1 = -ENAMETOOLONG) ∧
    (∀ (w : Volume) (n : Nat) (ePath : List Nat), ePath ≠ [] → ePath.length ≤ k.MAX_PATH →
      ePath.getD 0 0 ≠ SLASH → (soGetDirEntryByPath k env w n ePath).1 = -ERELPATH) := by
  obtain ⟨r1, -, r3, r4, -⟩ :=
    soGetDirEntryByPath_root env nSymLinks hg hdir hns hacc hptr hE hT hl hdot hino hP
  refine ⟨⟨r1, r3, r4⟩, fun w n => ?_, fun w n ePath h => ?_, fun w n ePath h1 h2 h3 => ?_⟩
  · simp [soGetDirEntryByPath]
  · have h0 : ePath.length ≠ 0 := by omega
    unfold soGetDirEntryByPath
    rw [if_neg h0, if_pos h]
  · have h0 : ePath.length ≠ 0 := fun h => h1 (List.length_eq_zero.1 h)
    unfold soGetDirEntryByPath
    rw [if_neg h0, if_neg (by omega), if_pos h3]

/-- C22 (amended), on the formatted volume of 8 data clusters. -/
theorem C22_root_path_and_rejected_paths_witness :
    (Good dirConst (dirVolume 8) 0 ∧
      (getI (dirVolume 8).itable 0).mode &&& dirConst.INODE_DIR = dirConst.INODE_DIR ∧
      (getI (dirVolume 8).itable 0).mode &&& dirConst.INODE_SYMLINK
        ≠ dirConst.INODE_SYMLINK ∧
      (soAccessGranted dirConst exampleEnv (dirVolume 8) 0 X).1 = 0 ∧
      entryNamed dirConst (dirVolume 8).dzone (getI (dirVolume 8).itable 0) [DOT] 0 ∧
      (dirEntry dirConst (dirVolume 8).dzone (getI (dirVolume 8).itable 0) 0).nInode = 0) ∧
    (soGetDirEntryByPath dirConst exampleEnv (dirVolume 8) 0 [SLASH]).1 = 0 ∧
    (soGetDirEntryByPath dirConst exampleEnv (dirVolume 8) 0 [SLASH]).2.2.2.1 = 0 ∧
    (soGetDirEntryByPath dirConst exampleEnv (dirVolume 8) 0 [SLASH]).2.2.2.2 = 0 :=
  ⟨⟨Good_dirVolume, by decide, by decide, by decide, by decide, by decide⟩,
    (C22_root_path_and_rejected_paths dirConst exampleEnv (dirVolume 8) 0 Good_dirVolume
      (by decide) (by decide) (by decide) (by decide) (by decide) (by decide) (by decide)
      (by decide) (by decide) (by decide)).1⟩

/-! ## `soRemDetachDirEntry`: the operation `DETACH` -/

theorem soReadInode_of_ok {k : SOConst} {env : SOEnv} {v : Volume} {n : Nat}
    (h : (soReadInode k env v n).1 = 0) :
    n < v.sb.itotal ∧ soQCheckInodeIU k (getI v.itable n) = 0 := by
  unfold soReadInode at h
  by_cases h1 : n ≥ v.sb.itotal
  · rw [if_pos h1] at h
    simp [EINVAL] at h
  · rw [if_neg h1] at h
    by_cases h2 : soConvertRefInT v n ≠ 0
    · rw [if_pos h2] at h
      exact absurd h h2
    · rw [if_neg h2] at h
      by_cases h3 : soQCheckInodeIU k (getI v.itable n) ≠ 0
      · rw [if_pos h3] at h
        exact absurd h h3
      · exact ⟨by omega, not_not.1 h3⟩

theorem soWriteInode_of_ok {k : SOConst} {env : SOEnv} {v : Volume} {p : SOInode} {n : Nat}
    (h : (soWriteInode k env v p n).1 = 0) :
    n < v.sb.itotal ∧ soQCheckInodeIU k p = 0 := by
  unfold soWriteInode at h
  by_cases h1 : n ≥ v.sb.itotal
  · rw [if_pos h1] at h
    simp [EINVAL] at h
  · rw [if_neg h1] at h
    by_cases h2 : soConvertRefInT v n ≠ 0
    · rw [if_pos h2] at h
      exact absurd h h2
    · rw [if_neg h2] at h
      by_cases h3 : soQCheckInodeIU k p ≠ 0
      · rw [if_pos h3] at h
        exact absurd h h3
      · exact ⟨by omega, not_not.1 h3⟩

theorem writeCluster_ok {k : SOConst} {env : SOEnv} {u : Volume} {n m : Nat} {B : SODataClust}
    (hn : n < u.sb.itotal) (hiu : soQCheckInodeIU k (getI u.itable n) = 0)
    (hs : (writeCluster k env u n m B).1 = 0) :
    m < u.dzone.length ∧
    writeCluster k env u n m B
      = (0, { u with itable := u.itable.set n { getI u.itable n with vD1 := env.now, vD2 := env.now }, dzone := u.dzone.set m B }) := by
  generalize hp : getI u.itable n = p at *
  have hlen : m < u.dzone.length := by
    by_contra h
    unfold writeCluster soReadCacheCluster at hs
    rw [if_neg h] at hs
    dsimp only at hs
    rw [if_pos (by simp [EINVAL])] at hs
    simp [EINVAL] at hs
  refine ⟨hlen, ?_⟩
  have hiu1 : soQCheckInodeIU k { p with vD1 := env.now } = 0 :=
    (soQCheckInodeIU_congr k (by rfl)).trans hiu
  have hw : soWriteCacheCluster u m B = (0, { u with dzone := u.dzone.set m B }) := by
    unfold soWriteCacheCluster
    rw [if_pos hlen]
  have h1 : soReadInode k env { u with dzone := u.dzone.set m B } n
      = (0, { u with itable := u.itable.set n { p with vD1 := env.now }, dzone := u.dzone.set m B },
          { p with vD1 := env.now }) := by
    have := soReadInode_ok k env { u with dzone := u.dzone.set m B } n hn
      (by show soQCheckInodeIU k (getI u.itable n) = 0
          rw [hp]; exact hiu)
    rw [this]
    show ((0 : Int), ({ u with itable := u.itable.set n { getI u.itable n with vD1 := env.now }, dzone := u.dzone.set m B } : Volume), ({ getI u.itable n with vD1 := env.now } : SOInode)) = _
    rw [hp]
  have h2 : soWriteInode k env
      { u with itable := u.itable.set n { p with vD1 := env.now }, dzone := u.dzone.set m B }
      { p with vD1 := env.now } n
      = (0, { u with itable := u.itable.set n { p with vD1 := env.now, vD2 := env.now }, dzone := u.dzone.set m B }) := by
    have := soWriteInode_ok k env
      { u with itable := u.itable.set n { p with vD1 := env.now }, dzone := u.dzone.set m B }
      { p with vD1 := env.now } n hn hiu1
    rw [this]
    show ((0 : Int), ({ u with itable := (u.itable.set n { p with vD1 := env.now }).set n { p with vD1 := env.now, vD2 := env.now }, dzone := u.dzone.set m B } : Volume)) = _
    rw [List.set_set]
  unfold writeCluster soReadCacheCluster
  rw [if_pos hlen]
  dsimp only
  rw [if_neg (by simp)]
  simp only [hw]
  rw [if_neg (by simp)]
  simp only [h1]
  rw [if_neg (by simp)]
  simp only [h2]
  rw [if_neg (by simp)]

/-- What a successful `soWriteFileCluster` does for an index that has a reference: the buffer
is written to the cluster of the reference and the times of the inode are updated. -/
theorem soWriteFileCluster_existing {k : SOConst} {env : SOEnv} {u : Volume} {n c : Nat}
    {B : SODataClust} (hg : Good k u n) (hc : c < MAX_FILE_CLUSTERS k)
    (hnn : refOfIndex k u.dzone (getI u.itable n) c ≠ NULL_CLUSTER)
    (hs : (soWriteFileCluster k env u n c B).1 = 0) :
    refOfIndex k u.dzone (getI u.itable n) c < u.dzone.length ∧
    (soWriteFileCluster k env u n c B).2
      = { u with itable := u.itable.set n { getI u.itable n with vD1 := env.now, vD2 := env.now }, dzone := u.dzone.set (refOfIndex k u.dzone (getI u.itable n) c) B } := by
  obtain ⟨g1, g2, g3, g4, g5⟩ := hg
  have hlenI : n < u.itable.length := by rw [g1.1]; exact g3
  have hG := soHandleFileCluster_get env g1 g2 g3 g4 hc g5
  generalize hr : refOfIndex k u.dzone (getI u.itable n) c = r at *
  generalize hp : getI u.itable n = p at *
  have hiu2 : soQCheckInodeIU k { p with vD1 := env.now, vD2 := env.now } = 0 :=
    (soQCheckInodeIU_congr k (by rfl)).trans g4
  have hgetg : getI (u.itable.set n { p with vD1 := env.now, vD2 := env.now }) n
      = { p with vD1 := env.now, vD2 := env.now } := getI_set_eq _ _ _ hlenI
  have hW : soWriteFileCluster k env u n c B
      = writeCluster k env
          { u with itable := u.itable.set n { p with vD1 := env.now, vD2 := env.now } } n r B := by
    rw [soWriteFileCluster_eq, if_neg (by omega), hG]
    dsimp only
    rw [if_neg (by simp), if_neg hnn]
  rw [hW] at hs ⊢
  obtain ⟨w1, w2⟩ := @writeCluster_ok k env
    { u with itable := u.itable.set n { p with vD1 := env.now, vD2 := env.now } } n r B g3
    (by show soQCheckInodeIU k (getI (u.itable.set n _) n) = 0
        rw [hgetg]; exact hiu2) hs
  refine ⟨w1, ?_⟩
  rw [w2]
  show ({ u with itable := (u.itable.set n { p with vD1 := env.now, vD2 := env.now }).set n { getI (u.itable.set n { p with vD1 := env.now, vD2 := env.now }) n with vD1 := env.now, vD2 := env.now }, dzone := u.dzone.set r B } : Volume) = _
  rw [hgetg, List.set_set]

theorem soGetDirEntryByName_found {k : SOConst} (env : SOEnv) {v : Volume} {D : Nat}
    {eName : List Nat} (hne : eName ≠ []) (hg : Good k v D)
    (hdir : (getI v.itable D).mode &&& k.INODE_DIR = k.INODE_DIR)
    (hacc : (soAccessGranted k env v D X).1 = 0)
    (hptr : k.SIZEOF_PTR ≤ k.MAX_NAME + 1)
    (hE : 0 < k.DPC * (k.CLUSTER_SIZE / k.DPC))
    (hT : (getI v.itable D).size / (k.DPC * (k.CLUSTER_SIZE / k.DPC)) + 1
      ≤ MAX_FILE_CLUSTERS k)
    (hl : ∀ c, c < (getI v.itable D).size / (k.DPC * (k.CLUSTER_SIZE / k.DPC)) + 1 →
      refOfIndex k v.dzone (getI v.itable D) c ≠ NULL_CLUSTER →
      refOfIndex k v.dzone (getI v.itable D) c < v.dzone.length)
    (hs : (soGetDirEntryByName k env v D eName).1 = 0) :
    ∃ i, i < scanned k (getI v.itable D) ∧
      entryNamed k v.dzone (getI v.itable D) eName i ∧
      (∀ j, j < i → ¬ entryNamed k v.dzone (getI v.itable D) eName j) ∧
      (soGetDirEntryByName k env v D eName).2.2.1
        = (dirEntry k v.dzone (getI v.itable D) i).nInode ∧
      (soGetDirEntryByName k env v D eName).2.2.2 = i := by
  obtain ⟨-, hfound, hnot⟩ := soGetDirEntryByName_spec env hne hg hdir hacc hptr hE hT hl
  have hex : ∃ i, i < scanned k (getI v.itable D) ∧
      entryNamed k v.dzone (getI v.itable D) eName i := by
    by_contra hno
    have := (hnot (fun i hi hM => hno ⟨i, hi, hM⟩)).1
    rw [hs] at this
    simp [ENOENT] at this
  classical
  have h0 := Nat.find_spec hex
  have hmin := fun j => @Nat.find_min _ _ hex j
  generalize Nat.find hex = i0 at h0 hmin
  have hmin' : ∀ j, j < i0 → ¬ entryNamed k v.dzone (getI v.itable D) eName j := by
    intro j hj hM
    exact hmin j hj ⟨by omega, hM⟩
  obtain ⟨-, f2, f3⟩ := hfound i0 h0.1 h0.2 hmin'
  exact ⟨i0, h0.1, h0.2, hmin', f2, f3⟩

theorem entryNamed_allocated {k : SOConst} {dz : List SODataClust} {p : SOInode}
    {eName : List Nat} {i : Nat} (hne : eName ≠ []) (h : entryNamed k dz p eName i) :
    refOfIndex k dz p (i / k.DPC) ≠ NULL_CLUSTER ∧
    i % k.DPC < (getDC dz (refOfIndex k dz p (i / k.DPC))).de.length ∧
    dirEntry k dz p i = (getDC dz (refOfIndex k dz p (i / k.DPC))).de.getD (i % k.DPC) default := by
  unfold entryNamed dirEntry fileCluster at h
  have hnn : refOfIndex k dz p (i / k.DPC) ≠ NULL_CLUSTER := by
    intro h0
    rw [if_pos h0] at h
    apply hne
    rw [← h]
    unfold zeroCluster
    simp only [List.getD_eq_getElem?_getD, List.getElem?_replicate]
    split_ifs <;> simp [cstr, default]
  rw [if_neg hnn] at h
  refine ⟨hnn, ?_, ?_⟩
  · by_contra hlen
    apply hne
    rw [← h, List.getD_eq_getElem?_getD, List.getElem?_eq_none (by omega)]
    rfl
  · unfold dirEntry fileCluster
    rw [if_neg hnn]
theorem soRemDetachDirEntry_eq (k : SOConst) (env : SOEnv) (v : Volume) (nInodeDir : Nat)
    (eName : List Nat) (op : Nat) :
    soRemDetachDirEntry k env v nInodeDir eName op =
      if op ≠ 0 ∧ op ≠ 1 then (-EINVAL, v)
      else if eName.length > k.MAX_NAME then (-ENAMETOOLONG, v)
      else if SLASH ∈ eName then (-EINVAL, v)
      else if (soReadInode k env v nInodeDir).1 ≠ 0 then
        ((soReadInode k env v nInodeDir).1, (soReadInode k env v nInodeDir).2.1)
      else if (soReadInode k env v nInodeDir).2.2.mode &&& k.INODE_DIR ≠ k.INODE_DIR then
        (-ENOTDIR, (soReadInode k env v nInodeDir).2.1)
      else if soQCheckDirCont k (soReadInode k env v nInodeDir).2.1
          (soReadInode k env v nInodeDir).2.2 ≠ 0 then
        (soQCheckDirCont k (soReadInode k env v nInodeDir).2.1
          (soReadInode k env v nInodeDir).2.2, (soReadInode k env v nInodeDir).2.1)
      else if (soAccessGranted k env (soReadInode k env v nInodeDir).2.1 nInodeDir X).1 ≠ 0 then
        (-EACCES, (soAccessGranted k env (soReadInode k env v nInodeDir).2.1 nInodeDir X).2)
      else if (soAccessGranted k env
          (soAccessGranted k env (soReadInode k env v nInodeDir).2.1 nInodeDir X).2
          nInodeDir W).1 ≠ 0 then
        (-EPERM, (soAccessGranted k env
          (soAccessGranted k env (soReadInode k env v nInodeDir).2.1 nInodeDir X).2
          nInodeDir W).2)
      else if (soGetDirEntryByName k env (soAccessGranted k env
          (soAccessGranted k env (soReadInode k env v nInodeDir).2.1 nInodeDir X).2
          nInodeDir W).2 nInodeDir eName).1 ≠ 0 then
        ((soGetDirEntryByName k env (soAccessGranted k env
          (soAccessGranted k env (soReadInode k env v nInodeDir).2.1 nInodeDir X).2
          nInodeDir W).2 nInodeDir eName).1,
         (soGetDirEntryByName k env (soAccessGranted k env
          (soAccessGranted k env (soReadInode k env v nInodeDir).2.1 nInodeDir X).2
          nInodeDir W).2 nInodeDir eName).2.1)
      else
        remDetachEntry k env
          (soGetDirEntryByName k env (soAccessGranted k env
            (soAccessGranted k env (soReadInode k env v nInodeDir).2.1 nInodeDir X).2
            nInodeDir W).2 nInodeDir eName).2.1
          nInodeDir
          (soGetDirEntryByName k env (soAccessGranted k env
            (soAccessGranted k env (soReadInode k env v nInodeDir).2.1 nInodeDir X).2
            nInodeDir W).2 nInodeDir eName).2.2.1
          (soGetDirEntryByName k env (soAccessGranted k env
            (soAccessGranted k env (soReadInode k env v nInodeDir).2.1 nInodeDir X).2
            nInodeDir W).2 nInodeDir eName).2.2.2
          op (soReadInode k env v nInodeDir).2.2 := by
  rfl

theorem remDetachEntry_detach_eq (k : SOConst) (env : SOEnv) (u : Volume) (D E i : Nat)
    (inodeDir : SOInode) :
    remDetachEntry k env u D E i DETACH inodeDir =
      if (soReadInode k env u E).1 ≠ 0 then
        ((soReadInode k env u E).1, (soReadInode k env u E).2.1)
      else if (soReadFileCluster k env (soReadInode k env u E).2.1 D (i / k.DPC) default).1
          ≠ 0 then
        ((soReadFileCluster k env (soReadInode k env u E).2.1 D (i / k.DPC) default).1,
          (soReadFileCluster k env (soReadInode k env u E).2.1 D (i / k.DPC) default).2.1)
      else if (soWriteFileCluster k env
          (soReadFileCluster k env (soReadInode k env u E).2.1 D (i / k.DPC) default).2.1 D
          (i / k.DPC)
          { (soReadFileCluster k env (soReadInode k env u E).2.1 D (i / k.DPC) default).2.2 with
            de := (soReadFileCluster k env (soReadInode k env u E).2.1 D (i / k.DPC)
              default).2.2.de.set (i % k.DPC)
                { name := List.replicate (k.MAX_NAME + 1) 0, nInode := NULL_INODE } }).1
          ≠ 0 then
        soWriteFileCluster k env
          (soReadFileCluster k env (soReadInode k env u E).2.1 D (i / k.DPC) default).2.1 D
          (i / k.DPC)
          { (soReadFileCluster k env (soReadInode k env u E).2.1 D (i / k.DPC) default).2.2 with
            de := (soReadFileCluster k env (soReadInode k env u E).2.1 D (i / k.DPC)
              default).2.2.de.set (i % k.DPC)
                { name := List.replicate (k.MAX_NAME + 1) 0, nInode := NULL_INODE } }
      else
        remDetachCounts k env
          (soWriteFileCluster k env
            (soReadFileCluster k env (soReadInode k env u E).2.1 D (i / k.DPC) default).2.1 D
            (i / k.DPC)
            { (soReadFileCluster k env (soReadInode k env u E).2.1 D (i / k.DPC)
                default).2.2 with
              de := (soReadFileCluster k env (soReadInode k env u E).2.1 D (i / k.DPC)
                default).2.2.de.set (i % k.DPC)
                  { name := List.replicate (k.MAX_NAME + 1) 0, nInode := NULL_INODE } }).2
          D E DETACH inodeDir (soReadInode k env u E).2.2 := by
  rfl

theorem remDetachCounts_detach_file {k : SOConst} {env : SOEnv} {u : Volume} {D E : Nat}
    {inodeDir inodeEntry : SOInode}
    (hnd : ¬ (inodeEntry.mode &&& k.INODE_DIR = k.INODE_DIR))
    (hs : (remDetachCounts k env u D E DETACH inodeDir inodeEntry).1 = 0) :
    E < u.sb.itotal ∧
    (remDetachCounts k env u D E DETACH inodeDir inodeEntry).2
      = { u with itable := u.itable.set E { inodeEntry with refcount := dec16 inodeEntry.refcount, vD1 := env.now, vD2 := env.now } } := by
  have hunf : remDetachCounts k env u D E DETACH inodeDir inodeEntry
      = if (soWriteInode k env u { inodeEntry with refcount := dec16 inodeEntry.refcount } E).1
          ≠ 0 then
          soWriteInode k env u { inodeEntry with refcount := dec16 inodeEntry.refcount } E
        else (0, (soWriteInode k env u
          { inodeEntry with refcount := dec16 inodeEntry.refcount } E).2) := by
    unfold remDetachCounts
    simp only [if_neg hnd, ne_eq, not_true_eq_false, and_false, if_false]
  rw [hunf] at hs ⊢
  by_cases hw : (soWriteInode k env u
      { inodeEntry with refcount := dec16 inodeEntry.refcount } E).1 ≠ 0
  · rw [if_pos hw] at hs
    exact absurd hs hw
  · rw [if_neg hw]
    obtain ⟨w1, w2⟩ := soWriteInode_of_ok (not_not.1 hw)
    rw [soWriteInode_ok k env u _ E w1 w2]
    exact ⟨w1, rfl⟩

theorem remDetachCounts_detach_dir {k : SOConst} {env : SOEnv} {u : Volume} {D E : Nat}
    {inodeDir inodeEntry : SOInode}
    (hd : inodeEntry.mode &&& k.INODE_DIR = k.INODE_DIR)
    (hs : (remDetachCounts k env u D E DETACH inodeDir inodeEntry).1 = 0) :
    D < u.sb.itotal ∧ E < u.sb.itotal ∧
    (remDetachCounts k env u D E DETACH inodeDir inodeEntry).2
      = { u with itable := (u.itable.set D { inodeDir with refcount := dec16 inodeDir.refcount, vD1 := env.now, vD2 := env.now }).set E { inodeEntry with refcount := dec16 (dec16 inodeEntry.refcount), vD1 := env.now, vD2 := env.now } } := by
  have hunf : remDetachCounts k env u D E DETACH inodeDir inodeEntry
      = if (soWriteInode k env u { inodeDir with refcount := dec16 inodeDir.refcount } D).1
          ≠ 0 then
          ((soWriteInode k env u { inodeDir with refcount := dec16 inodeDir.refcount } D).1,
            (soWriteInode k env u { inodeDir with refcount := dec16 inodeDir.refcount } D).2)
        else if (soWriteInode k env
            (soWriteInode k env u { inodeDir with refcount := dec16 inodeDir.refcount } D).2
            { inodeEntry with refcount := dec16 (dec16 inodeEntry.refcount) } E).1 ≠ 0 then
          soWriteInode k env
            (soWriteInode k env u { inodeDir with refcount := dec16 inodeDir.refcount } D).2
            { inodeEntry with refcount := dec16 (dec16 inodeEntry.refcount) } E
        else (0, (soWriteInode k env
            (soWriteInode k env u { inodeDir with refcount := dec16 inodeDir.refcount } D).2
            { inodeEntry with refcount := dec16 (dec16 inodeEntry.refcount) } E).2) := by
    unfold remDetachCounts
    simp only [if_pos hd, ne_eq, not_true_eq_false, and_false, if_false]
  rw [hunf] at hs ⊢
  by_cases hw : (soWriteInode k env u
      { inodeDir with refcount := dec16 inodeDir.refcount } D).1 ≠ 0
  · rw [if_pos hw] at hs
    exact absurd hs hw
  · rw [if_neg hw] at hs ⊢
    obtain ⟨w1, w2⟩ := soWriteInode_of_ok (not_not.1 hw)
    rw [soWriteInode_ok k env u _ D w1 w2] at hs ⊢
    by_cases hw2 : (soWriteInode k env
        { u with itable := u.itable.set D { inodeDir with refcount := dec16 inodeDir.refcount, vD1 := env.now, vD2 := env.now } }
        { inodeEntry with refcount := dec16 (dec16 inodeEntry.refcount) } E).1 ≠ 0
    · rw [if_pos hw2] at hs
      exact absurd hs hw2
    · rw [if_neg hw2]
      obtain ⟨x1, x2⟩ := soWriteInode_of_ok (not_not.1 hw2)
      rw [soWriteInode_ok k env _ _ E x1 x2]
      exact ⟨w1, x1, rfl⟩

theorem refOfIndex_fields (k : SOConst) (dz : List SODataClust) {p q : SOInode} (c : Nat)
    (h1 : q.d = p.d) (h2 : q.i1 = p.i1) (h3 : q.i2 = p.i2) :
    refOfIndex k dz q c = refOfIndex k dz p c := by
  unfold refOfIndex
  rw [h1, h2, h3]

theorem dirEntry_written {k : SOConst} {dz : List SODataClust} {p q : SOInode} {i : Nat}
    (e : SODirEntry) (hc : i / k.DPC < MAX_FILE_CLUSTERS k)
    (h1 : q.d = p.d) (h2 : q.i1 = p.i1) (h3 : q.i2 = p.i2)
    (hnn : refOfIndex k dz p (i / k.DPC) ≠ NULL_CLUSTER)
    (hlen : refOfIndex k dz p (i / k.DPC) < dz.length)
    (hoff : i % k.DPC < (getDC dz (refOfIndex k dz p (i / k.DPC))).de.length)
    (hleaf : refOfIndex k dz p (i / k.DPC) ∉ indClusters k dz p) :
    dirEntry k
      (dz.set (refOfIndex k dz p (i / k.DPC))
        { getDC dz (refOfIndex k dz p (i / k.DPC)) with de := (getDC dz (refOfIndex k dz p (i / k.DPC))).de.set (i % k.DPC) e })
      q i = e := by
  unfold dirEntry fileCluster
  rw [refOfIndex_fields k _ (i / k.DPC) h1 h2 h3, refOfIndex_set_leaf _ hc hleaf, if_neg hnn,
    getDC_set, if_pos ⟨rfl, hlen⟩]
  show ((getDC dz (refOfIndex k dz p (i / k.DPC))).de.set (i % k.DPC) e).getD (i % k.DPC)
    default = e
  rw [List.getD_eq_getElem?_getD, List.getElem?_set_self hoff]
  rfl

/-- What a successful detachment leaves, from the point where the entry was found: `v` is
the volume at the call, `u` the volume after the search, which differs from `v` in the times
of inodes, `i` the index of the entry, `E` its inode and `inodeDir` the record of the
directory that was read at the call. -/
theorem remDetachEntry_detach {k : SOConst} {env : SOEnv} {v u : Volume} {D E i : Nat}
    {inodeDir : SOInode} {eName : List Nat} (hne : eName ≠ [])
    (hg : Good k v D) (ht : TimesEq k v u)
    (hrec : SameButTimes (getI v.itable D) inodeDir)
    (hM : entryNamed k v.dzone (getI v.itable D) eName i)
    (hc : i / k.DPC < MAX_FILE_CLUSTERS k)
    (hlen : refOfIndex k v.dzone (getI v.itable D) (i / k.DPC) < v.dzone.length)
    (hleaf : refOfIndex k v.dzone (getI v.itable D) (i / k.DPC)
      ∉ indClusters k v.dzone (getI v.itable D))
    (hs : (remDetachEntry k env u D E i DETACH inodeDir).1 = 0) :
    (remDetachEntry k env u D E i DETACH inodeDir).2.sb = v.sb ∧
    (remDetachEntry k env u D E i DETACH inodeDir).2.fct = v.fct ∧
    E < v.sb.itotal ∧ ¬ isFreeInode k (getI v.itable E) ∧
    dirEntry k (remDetachEntry k env u D E i DETACH inodeDir).2.dzone
      (getI (remDetachEntry k env u D E i DETACH inodeDir).2.itable D) i
      = { name := List.replicate (k.MAX_NAME + 1) 0, nInode := NULL_INODE } ∧
    (getI (remDetachEntry k env u D E i DETACH inodeDir).2.itable E).mode
      = (getI v.itable E).mode ∧
    (getI (remDetachEntry k env u D E i DETACH inodeDir).2.itable E).refcount
      = (if (getI v.itable E).mode &&& k.INODE_DIR = k.INODE_DIR
          then dec16 (dec16 (getI v.itable E).refcount)
          else dec16 (getI v.itable E).refcount) ∧
    (getI (remDetachEntry k env u D E i DETACH inodeDir).2.itable E).clucount
      = (getI v.itable E).clucount ∧
    (getI (remDetachEntry k env u D E i DETACH inodeDir).2.itable E).d = (getI v.itable E).d ∧
    (getI (remDetachEntry k env u D E i DETACH inodeDir).2.itable E).i1
      = (getI v.itable E).i1 ∧
    (getI (remDetachEntry k env u D E i DETACH inodeDir).2.itable E).i2
      = (getI v.itable E).i2 ∧
    (E ≠ D →
      (getI (remDetachEntry k env u D E i DETACH inodeDir).2.itable D).refcount
        = (if (getI v.itable E).mode &&& k.INODE_DIR = k.INODE_DIR
            then dec16 (getI v.itable D).refcount else (getI v.itable D).refcount)) := by
  obtain ⟨a1, a2, a3⟩ := entryNamed_allocated hne hM
  rw [remDetachEntry_detach_eq] at hs ⊢
  -- the inode of the entry is read
  by_cases h1 : (soReadInode k env u E).1 ≠ 0
  · rw [if_pos h1] at hs
    exact absurd hs h1
  rw [if_neg h1] at hs ⊢
  obtain ⟨e1, e2⟩ := soReadInode_of_ok (not_not.1 h1)
  have hro : soReadInode k env u E = (0, readVolume env u E, readRecord env u E) :=
    soReadInode_ok k env u E e1 e2
  rw [hro] at hs ⊢
  dsimp only at hs ⊢
  have hEv : E < v.sb.itotal := by rw [← ht.1]; exact e1
  have hnfE : ¬ isFreeInode k (getI u.itable E) := soQCheckInodeIU_not_free e2
  have hsE := (ht.2.2.2.2 E).1
  have hlenItab : v.itable.length = v.sb.itotal := hg.1.1
  have t1 : TimesEq k v (readVolume env u E) :=
    TimesEq_trans ht (TimesEq_set u E _ hnfE ⟨rfl, rfl, rfl, rfl, rfl, rfl, rfl, rfl, rfl⟩)
  -- the cluster of the entry is read
  obtain ⟨r1, r2, r3⟩ := soReadFileCluster_good env default (Good_TimesEq hg t1) hc
    (by rw [refOfIndex_TimesEq t1, t1.2.2.1]; exact fun _ => hlen)
  have hfc : fileCluster k v.dzone (getI v.itable D) (i / k.DPC)
      = getDC v.dzone (refOfIndex k v.dzone (getI v.itable D) (i / k.DPC)) := by
    unfold fileCluster
    rw [if_neg a1]
  rw [fileCluster_TimesEq t1, hfc] at r2
  have t2 := TimesEq_trans t1 r3
  generalize soReadFileCluster k env (readVolume env u E) D (i / k.DPC) default = rc
    at hs r1 r2 r3 t2 ⊢
  rw [if_neg (by rw [r1]; simp)] at hs ⊢
  -- the cluster is written
  by_cases h3 : (soWriteFileCluster k env rc.2.1 D (i / k.DPC)
      { rc.2.2 with de := rc.2.2.de.set (i % k.DPC) { name := List.replicate (k.MAX_NAME + 1) 0, nInode := NULL_INODE } }).1 ≠ 0
  · rw [if_pos h3] at hs
    exact absurd hs h3
  rw [if_neg h3] at hs ⊢
  obtain ⟨-, w2⟩ := soWriteFileCluster_existing (Good_TimesEq hg t2) hc
    (by rw [refOfIndex_TimesEq t2]; exact a1) (not_not.1 h3)
  rw [refOfIndex_TimesEq t2, t2.2.2.1] at w2
  rw [w2] at hs ⊢
  rw [r2] at hs ⊢
  have hlen2 : rc.2.1.itable.length = v.itable.length := t2.2.2.2.1
  have hD : D < rc.2.1.itable.length := by rw [hlen2, hlenItab]; exact hg.2.2.1
  have hsD := (t2.2.2.2.2 D).1
  have hmodeE : (readRecord env u E).mode = (getI v.itable E).mode := hsE.1
  -- the reference counts are written
  have key : ∃ (Y : List SOInode) (rE : Nat),
      (remDetachCounts k env
        { rc.2.1 with itable := rc.2.1.itable.set D { getI rc.2.1.itable D with vD1 := env.now, vD2 := env.now }, dzone := v.dzone.set (refOfIndex k v.dzone (getI v.itable D) (i / k.DPC)) { getDC v.dzone (refOfIndex k v.dzone (getI v.itable D) (i / k.DPC)) with de := (getDC v.dzone (refOfIndex k v.dzone (getI v.itable D) (i / k.DPC))).de.set (i % k.DPC) { name := List.replicate (k.MAX_NAME + 1) 0, nInode := NULL_INODE } } }
        D E DETACH inodeDir (readRecord env u E)).2
        = { rc.2.1 with itable := Y.set E { readRecord env u E with refcount := rE, vD1 := env.now, vD2 := env.now }, dzone := v.dzone.set (refOfIndex k v.dzone (getI v.itable D) (i / k.DPC)) { getDC v.dzone (refOfIndex k v.dzone (getI v.itable D) (i / k.DPC)) with de := (getDC v.dzone (refOfIndex k v.dzone (getI v.itable D) (i / k.DPC))).de.set (i % k.DPC) { name := List.replicate (k.MAX_NAME + 1) 0, nInode := NULL_INODE } } } ∧
      Y.length = v.itable.length ∧
      (getI Y D).d = (getI v.itable D).d ∧ (getI Y D).i1 = (getI v.itable D).i1 ∧
      (getI Y D).i2 = (getI v.itable D).i2 ∧
      (getI Y D).refcount = (if (getI v.itable E).mode &&& k.INODE_DIR = k.INODE_DIR
        then dec16 (getI v.itable D).refcount else (getI v.itable D).refcount) ∧
      rE = (if (getI v.itable E).mode &&& k.INODE_DIR = k.INODE_DIR
        then dec16 (dec16 (getI v.itable E).refcount)
        else dec16 (getI v.itable E).refcount) := by
    by_cases hd : (readRecord env u E).mode &&& k.INODE_DIR = k.INODE_DIR
    · obtain ⟨-, -, c3⟩ := remDetachCounts_detach_dir hd hs
      have hd' : (getI v.itable E).mode &&& k.INODE_DIR = k.INODE_DIR := by
        rw [← hmodeE]; exact hd
      refine ⟨_, _, c3, ?_, ?_, ?_, ?_, ?_, ?_⟩
      · rw [List.length_set, List.length_set]; exact hlen2
      · rw [getI_set_eq _ _ _ (by rw [List.length_set]; exact hD)]
        exact hrec.2.2.2.2.2.2.1
      · rw [getI_set_eq _ _ _ (by rw [List.length_set]; exact hD)]
        exact hrec.2.2.2.2.2.2.2.1
      · rw [getI_set_eq _ _ _ (by rw [List.length_set]; exact hD)]
        exact hrec.2.2.2.2.2.2.2.2
      · rw [getI_set_eq _ _ _ (by rw [List.length_set]; exact hD), if_pos hd']
        show dec16 inodeDir.refcount = _
        rw [hrec.2.1]
      · rw [if_pos hd']
        show dec16 (dec16 (getI u.itable E).refcount) = _
        rw [hsE.2.1]
    · obtain ⟨-, c3⟩ := remDetachCounts_detach_file hd hs
      have hd' : ¬ ((getI v.itable E).mode &&& k.INODE_DIR = k.INODE_DIR) := by
        rw [← hmodeE]; exact hd
      refine ⟨_, _, c3, ?_, ?_, ?_, ?_, ?_, ?_⟩
      · rw [List.length_set]; exact hlen2
      · rw [getI_set_eq _ _ _ hD]
        exact hsD.2.2.2.2.2.2.1
      · rw [getI_set_eq _ _ _ hD]
        exact hsD.2.2.2.2.2.2.2.1
      · rw [getI_set_eq _ _ _ hD]
        exact hsD.2.2.2.2.2.2.2.2
      · rw [getI_set_eq _ _ _ hD, if_neg hd']
        exact hsD.2.1
      · rw [if_neg hd']
        show dec16 (getI u.itable E).refcount = _
        rw [hsE.2.1]
  obtain ⟨Y, rE, hvf, hY, hYd, hY1, hY2, hYr, hrE⟩ := key
  rw [hvf]
  have hEY : E < Y.length := by rw [hY, hlenItab]; exact hEv
  have hgetE : getI (Y.set E { readRecord env u E with refcount := rE, vD1 := env.now, vD2 := env.now }) E
      = { readRecord env u E with refcount := rE, vD1 := env.now, vD2 := env.now } :=
    getI_set_eq _ _ _ hEY
  refine ⟨t2.1, t2.2.1, hEv, ?_, ?_, ?_, ?_, ?_, ?_, ?_, ?_, ?_⟩
  · rw [← isFreeInode_congr (show (getI u.itable E).mode = (getI v.itable E).mode from hsE.1)]
    exact hnfE
  · show dirEntry k (v.dzone.set _ _) (getI (Y.set E _) D) i = _
    refine dirEntry_written _ hc ?_ ?_ ?_ a1 hlen a2 hleaf
    · rw [getI_set]
      split_ifs with hcase
      · rw [← hcase.1]; exact hsE.2.2.2.2.2.2.1
      · exact hYd
    · rw [getI_set]
      split_ifs with hcase
      · rw [← hcase.1]; exact hsE.2.2.2.2.2.2.2.1
      · exact hY1
    · rw [getI_set]
      split_ifs with hcase
      · rw [← hcase.1]; exact hsE.2.2.2.2.2.2.2.2
      · exact hY2
  · show (getI (Y.set E _) E).mode = _
    rw [hgetE]; exact hsE.1
  · show (getI (Y.set E _) E).refcount = _
    rw [hgetE]; exact hrE
  · show (getI (Y.set E _) E).clucount = _
    rw [hgetE]; exact hsE.2.2.2.2.2.1
  · show (getI (Y.set E _) E).d = _
    rw [hgetE]; exact hsE.2.2.2.2.2.2.1
  · show (getI (Y.set E _) E).i1 = _
    rw [hgetE]; exact hsE.2.2.2.2.2.2.2.1
  · show (getI (Y.set E _) E).i2 = _
    rw [hgetE]; exact hsE.2.2.2.2.2.2.2.2
  · intro hED
    show (getI (Y.set E _) D).refcount = _
    rw [getI_set_ne _ _ hED]
    exact hYr

theorem div_lt_of_lt_scanned {k : SOConst} {p : SOInode} {i : Nat}
    (hi : i < scanned k p) : i / k.DPC < p.size / (k.DPC * (k.CLUSTER_SIZE / k.DPC)) + 1 := by
  unfold scanned at hi
  have hpos : 0 < k.DPC := by
    rcases Nat.eq_zero_or_pos k.DPC with h | h
    · rw [h, Nat.mul_zero] at hi
      exact absurd hi (Nat.not_lt_zero _)
    · exact h
  exact (Nat.div_lt_iff_lt_mul hpos).2 hi

/-- C28: a successful `soRemDetachDirEntry (D, name, DETACH)` on a directory `D` in use, for a
name that is not empty, whose scanned clusters are in the data zone and are not clusters of
references of `D`: the first entry with the name, of index `i` and inode `E`, is left with a
name field of `MAX_NAME + 1` NUL bytes and `nInode = NULL_INODE`; the superblock, with `ifree`
and `dzone_free`, and the table of the free clusters are as they were; `E` is in use before and
keeps its mode, its `clucount` and its references to clusters, and its `refcount` is
decremented by 1, or by 2 when `E` is a directory, whatever the result; and the `refcount` of
`D`, when `D` is not `E`, is decremented by 1 when `E` is a directory and is as it was
otherwise. -/
theorem C28_detach_clears_entry_frees_nothing (k : SOConst) (env : SOEnv) (v : Volume)
    (D : Nat) (eName : List Nat) (hne : eName ≠ []) (hg : Good k v D)
    (hptr : k.SIZEOF_PTR ≤ k.MAX_NAME + 1)
    (hE : 0 < k.DPC * (k.CLUSTER_SIZE / k.DPC))
    (hT : (getI v.itable D).size / (k.DPC * (k.CLUSTER_SIZE / k.DPC)) + 1
      ≤ MAX_FILE_CLUSTERS k)
    (hl : ∀ c, c < (getI v.itable D).size / (k.DPC * (k.CLUSTER_SIZE / k.DPC)) + 1 →
      refOfIndex k v.dzone (getI v.itable D) c ≠ NULL_CLUSTER →
      refOfIndex k v.dzone (getI v.itable D) c < v.dzone.length)
    (hleaf : ∀ c, c < (getI v.itable D).size / (k.DPC * (k.CLUSTER_SIZE / k.DPC)) + 1 →
      refOfIndex k v.dzone (getI v.itable D) c ∉ indClusters k v.dzone (getI v.itable D))
    (hs : (soRemDetachDirEntry k env v D eName DETACH).1 = 0) :
    ∃ i, i < scanned k (getI v.itable D) ∧
      entryNamed k v.dzone (getI v.itable D) eName i ∧
      (∀ j, j < i → ¬ entryNamed k v.dzone (getI v.itable D) eName j) ∧
      (soRemDetachDirEntry k env v D eName DETACH).2.sb = v.sb ∧
      (soRemDetachDirEntry k env v D eName DETACH).2.fct = v.fct ∧
      (dirEntry k v.dzone (getI v.itable D) i).nInode < v.sb.itotal ∧
      ¬ isFreeInode k (getI v.itable (dirEntry k v.dzone (getI v.itable D) i).nInode) ∧
      dirEntry k (soRemDetachDirEntry k env v D eName DETACH).2.dzone
        (getI (soRemDetachDirEntry k env v D eName DETACH).2.itable D) i
        = { name := List.replicate (k.MAX_NAME + 1) 0, nInode := NULL_INODE } ∧
      (getI (soRemDetachDirEntry k env v D eName DETACH).2.itable
        (dirEntry k v.dzone (getI v.itable D) i).nInode).mode
        = (getI v.itable (dirEntry k v.dzone (getI v.itable D) i).nInode).mode ∧
      (getI (soRemDetachDirEntry k env v D eName DETACH).2.itable
        (dirEntry k v.dzone (getI v.itable D) i).nInode).refcount
        = (if (getI v.itable (dirEntry k v.dzone (getI v.itable D) i).nInode).mode
              &&& k.INODE_DIR = k.INODE_DIR
            then dec16 (dec16
              (getI v.itable (dirEntry k v.dzone (getI v.itable D) i).nInode).refcount)
            else dec16
              (getI v.itable (dirEntry k v.dzone (getI v.itable D) i).nInode).refcount) ∧
      (getI (soRemDetachDirEntry k env v D eName DETACH).2.itable
        (dirEntry k v.dzone (getI v.itable D) i).nInode).clucount
        = (getI v.itable (dirEntry k v.dzone (getI v.itable D) i).nInode).clucount ∧
      (getI (soRemDetachDirEntry k env v D eName DETACH).2.itable
        (dirEntry k v.dzone (getI v.itable D) i).nInode).d
        = (getI v.itable (dirEntry k v.dzone (getI v.itable D) i).nInode).d ∧
      (getI (soRemDetachDirEntry k env v D eName DETACH).2.itable
        (dirEntry k v.dzone (getI v.itable D) i).nInode).i1
        = (getI v.itable (dirEntry k v.dzone (getI v.itable D) i).nInode).i1 ∧
      (getI (soRemDetachDirEntry k env v D eName DETACH).2.itable
        (dirEntry k v.dzone (getI v.itable D) i).nInode).i2
        = (getI v.itable (dirEntry k v.dzone (getI v.itable D) i).nInode).i2 ∧
      ((dirEntry k v.dzone (getI v.itable D) i).nInode ≠ D →
        (getI (soRemDetachDirEntry k env v D eName DETACH).2.itable D).refcount
          = (if (getI v.itable (dirEntry k v.dzone (getI v.itable D) i).nInode).mode
                &&& k.INODE_DIR = k.INODE_DIR
              then dec16 (getI v.itable D).refcount else (getI v.itable D).refcount)) := by
  rw [soRemDetachDirEntry_eq] at hs ⊢
  rw [if_neg (by decide)] at hs ⊢
  by_cases c2 : eName.length > k.MAX_NAME
  · rw [if_pos c2] at hs
    simp [ENAMETOOLONG] at hs
  rw [if_neg c2] at hs ⊢
  by_cases c3 : SLASH ∈ eName
  · rw [if_pos c3] at hs
    simp [EINVAL] at hs
  rw [if_neg c3] at hs ⊢
  -- the inode of the directory is read
  obtain ⟨r1, r2, r3⟩ := soReadInode_good env hg
  generalize soReadInode k env v D = ri at hs r1 r2 r3 ⊢
  rw [if_neg (by rw [r1]; simp)] at hs ⊢
  by_cases c5 : ri.2.2.mode &&& k.INODE_DIR ≠ k.INODE_DIR
  · rw [if_pos c5] at hs
    simp [ENOTDIR] at hs
  rw [if_neg c5] at hs ⊢
  have hdir : (getI v.itable D).mode &&& k.INODE_DIR = k.INODE_DIR := by
    rw [← r3.1]; exact not_not.1 c5
  by_cases c6 : soQCheckDirCont k ri.2.1 ri.2.2 ≠ 0
  · rw [if_pos c6] at hs
    exact absurd hs c6
  rw [if_neg c6] at hs ⊢
  -- the permissions to execute and to write
  obtain ⟨x1, x2⟩ := soAccessGranted_TimesEq env X hg r2
  generalize soAccessGranted k env ri.2.1 D X = ax at hs x1 x2 ⊢
  by_cases c7 : ax.1 ≠ 0
  · rw [if_pos c7] at hs
    simp [EACCES] at hs
  rw [if_neg c7] at hs ⊢
  obtain ⟨-, w2⟩ := soAccessGranted_TimesEq env W hg x2
  generalize soAccessGranted k env ax.2 D W = aw at hs w2 ⊢
  by_cases c8 : aw.1 ≠ 0
  · rw [if_pos c8] at hs
    simp [EPERM] at hs
  rw [if_neg c8] at hs ⊢
  -- the entry is looked for
  by_cases c9 : (soGetDirEntryByName k env aw.2 D eName).1 ≠ 0
  · rw [if_pos c9] at hs
    exact absurd hs c9
  rw [if_neg c9] at hs ⊢
  have hgw := Good_TimesEq hg w2
  have hsz : (getI aw.2.itable D).size = (getI v.itable D).size :=
    (w2.2.2.2.2 D).1.2.2.2.2.1
  have hmd : (getI aw.2.itable D).mode = (getI v.itable D).mode := (w2.2.2.2.2 D).1.1
  have hacc : (soAccessGranted k env aw.2 D X).1 = 0 := by
    rw [(soAccessGranted_TimesEq env X hg w2).1, ← x1]
    exact not_not.1 c7
  have hT' : (getI aw.2.itable D).size / (k.DPC * (k.CLUSTER_SIZE / k.DPC)) + 1
      ≤ MAX_FILE_CLUSTERS k := by rw [hsz]; exact hT
  have hl' : ∀ c, c < (getI aw.2.itable D).size / (k.DPC * (k.CLUSTER_SIZE / k.DPC)) + 1 →
      refOfIndex k aw.2.dzone (getI aw.2.itable D) c ≠ NULL_CLUSTER →
      refOfIndex k aw.2.dzone (getI aw.2.itable D) c < aw.2.dzone.length := by
    intro c hc
    rw [hsz] at hc
    rw [refOfIndex_TimesEq w2, w2.2.2.1]
    exact hl c hc
  have hde : ∀ j, dirEntry k aw.2.dzone (getI aw.2.itable D) j
      = dirEntry k v.dzone (getI v.itable D) j := by
    intro j
    unfold dirEntry
    rw [fileCluster_TimesEq w2]
  have hen : ∀ j, entryNamed k aw.2.dzone (getI aw.2.itable D) eName j
      ↔ entryNamed k v.dzone (getI v.itable D) eName j := by
    intro j
    unfold entryNamed
    rw [hde]
  have hsc : scanned k (getI aw.2.itable D) = scanned k (getI v.itable D) := by
    unfold scanned
    rw [hsz]
  obtain ⟨i, f1, f2, f3, f4, f5⟩ := soGetDirEntryByName_found env hne hgw
    (by rw [hmd]; exact hdir) hacc hptr hE hT' hl' (not_not.1 c9)
  have tg := TimesEq_trans w2
    (soGetDirEntryByName_spec env hne hgw (by rw [hmd]; exact hdir) hacc hptr hE hT' hl').1
  rw [hsc] at f1
  rw [hen] at f2
  rw [hde] at f4
  rw [f4, f5] at hs ⊢
  have hci := div_lt_of_lt_scanned f1
  refine ⟨i, f1, f2, fun j hj => (hen j).not.1 (f3 j hj), ?_⟩
  exact remDetachEntry_detach hne hg tg r3 f2 (Nat.lt_of_lt_of_le hci hT)
    (hl _ hci (entryNamed_allocated hne f2).1) (hleaf _ hci) hs

theorem Good_oneFileVolume : Good dirConst oneFileVolume 0 := by
  refine ⟨⟨by decide, by decide, [2, 3, 4, 5, 6, 7], by decide, ?_, by decide,
    by unfold Path Path Path Path Path Path; decide, by unfold Closed; decide,
    by decide⟩, by decide, by decide, by decide, by unfold RefsInZone; decide⟩
  intro n
  by_cases h : n < 8
  · interval_cases n <;> decide
  · constructor
    · intro hm
      simp only [List.mem_cons, List.mem_singleton, List.not_mem_nil, or_false] at hm
      omega
    · intro hm
      exact absurd hm.1 h

/-- C28, on the volume with the regular file `/a` (inode 1, entry 2 of the root directory),
for the name `a`. -/
theorem C28_detach_clears_entry_frees_nothing_witness :
    ((([97] : List Nat) ≠ [] ∧ Good dirConst oneFileVolume 0 ∧
      (soRemDetachDirEntry dirConst exampleEnv oneFileVolume 0 [97] DETACH).1 = 0) ∧
    ∃ i, i < scanned dirConst (getI oneFileVolume.itable 0) ∧
      entryNamed dirConst oneFileVolume.dzone (getI oneFileVolume.itable 0) [97] i ∧
      (soRemDetachDirEntry dirConst exampleEnv oneFileVolume 0 [97] DETACH).2.sb
        = oneFileVolume.sb ∧
      (soRemDetachDirEntry dirConst exampleEnv oneFileVolume 0 [97] DETACH).2.fct
        = oneFileVolume.fct ∧
      dirEntry dirConst
        (soRemDetachDirEntry dirConst exampleEnv oneFileVolume 0 [97] DETACH).2.dzone
        (getI (soRemDetachDirEntry dirConst exampleEnv oneFileVolume 0 [97] DETACH).2.itable 0) i
        = { name := List.replicate (dirConst.MAX_NAME + 1) 0, nInode := NULL_INODE }) :=
  ⟨⟨by decide, Good_oneFileVolume, by decide⟩,
    (C28_detach_clears_entry_frees_nothing dirConst exampleEnv oneFileVolume 0 [97]
      (by decide) Good_oneFileVolume (by decide) (by decide) (by decide) (by decide)
      (by decide) (by decide)).imp
      fun _ h => ⟨h.1, h.2.1, h.2.2.2.1, h.2.2.2.2.1, h.2.2.2.2.2.2.2.1⟩⟩

/-! ## `soAddAttDirEntry`: the operation `ADD` of a directory -/

theorem soHandleFileCluster_alloc_direct {k : SOConst} (env : SOEnv) {u : Volume} {n c : Nat}
    (hi : IInv k u) (hdz : DZInv u) (hn : n < u.sb.itotal)
    (hiu : soQCheckInodeIU k (getI u.itable n) = 0) (hc : c < k.N_DIRECT)
    (hs : (soHandleFileCluster k env u n c ALLOC).1 = 0) :
    ∃ (w : Volume) (m : Nat),
      soHandleFileCluster k env u n c ALLOC
        = (0, { w with itable := u.itable.set n { getI u.itable n with d := (getI u.itable n).d.set c m, clucount := inc32 (getI u.itable n).clucount, vD1 := env.now, vD2 := env.now } }, m) ∧
      DZInv w ∧ w.dzone = u.dzone ∧ freeRefs u = m :: freeRefs w ∧
      w.sb.dzone_total = u.sb.dzone_total ∧ w.sb.itotal = u.sb.itotal ∧
      w.sb.ifree = u.sb.ifree ∧ w.sb.ihdtl = u.sb.ihdtl ∧
      m < u.sb.dzone_total ∧ m ≠ NULL_CLUSTER := by
  have hcm : c < MAX_FILE_CLUSTERS k := by unfold MAX_FILE_CLUSTERS; omega
  have heq := soHandleFileCluster_eq env c hi (soQCheckDZ_of_DZInv hdz) hn hiu (le_of_lt hcm)
    (Or.inr (Or.inl rfl))
  rw [heq] at hs ⊢
  have h0 := writeBack_fst_eq_zero hs
  have hdz' : DZInv (readVolume env u n) := DZInv_set_itable hdz _
  have hH : handleRef k (readVolume env u n) (readRecord env u n) c ALLOC
      = soHandleDirect (readVolume env u n) (readRecord env u n) c ALLOC := by
    unfold handleRef
    rw [if_pos hc]
  rw [hH, soHandleDirect_ALLOC_eq] at h0 ⊢
  have hL : (readRecord env u n).d.getD c 0 = NULL_CLUSTER := by
    by_contra h
    rw [if_neg h] at h0
    simp [EDCARDYIL] at h0
  rw [if_pos hL] at h0 ⊢
  have hfree : ¬ (readVolume env u n).sb.dzone_free = 0 := by
    intro h
    rw [if_pos h] at h0
    simp [ELIBBAD] at h0
  rw [if_neg hfree] at h0 ⊢
  have ha : (soAllocDataCluster (readVolume env u n)).1 = 0 := alloc_succeeds hdz' hfree
  rw [if_neg (not_not.2 ha)] at h0 ⊢
  obtain ⟨a1, a2, a3, a4, a5, a6, a7, a8, a9⟩ := alloc_ok hdz' ha
  obtain ⟨b1, b2, b3, b4, b5⟩ := alloc_fresh hdz' ha
  generalize soAllocDataCluster (readVolume env u n) = A at *
  have hiu' : soQCheckInodeIU k { readRecord env u n with d := (readRecord env u n).d.set c A.2.2, clucount := inc32 (readRecord env u n).clucount } = 0 :=
    (soQCheckInodeIU_congr k (by rfl)).trans hiu
  refine ⟨A.2.1, A.2.2, ?_, a1, a9, a2, a4, a5, a6, a7, b3, b4⟩
  rw [writeBack_ok rfl (by show n < A.2.1.sb.itotal; rw [a5]; exact hn) hiu']
  show ((0 : Int), ({ A.2.1 with itable := A.2.1.itable.set n _ } : Volume), A.2.2) = _
  rw [a8]
  show ((0 : Int), ({ A.2.1 with itable := (u.itable.set n (readRecord env u n)).set n _ } : Volume), A.2.2) = _
  rw [List.set_set]
  rfl

theorem soWriteFileCluster_new_direct {k : SOConst} (env : SOEnv) {u : Volume} {n c : Nat}
    {B : SODataClust} (hi : IInv k u) (hdz : DZInv u) (hn : n < u.sb.itotal)
    (hiu : soQCheckInodeIU k (getI u.itable n) = 0) (hc : c < k.N_DIRECT)
    (hz : RefsInZone k u.dzone (getI u.itable n))
    (hnull : (getI u.itable n).d.getD c 0 = NULL_CLUSTER)
    (hs : (soWriteFileCluster k env u n c B).1 = 0) :
    ∃ (w : Volume) (m : Nat),
      (soWriteFileCluster k env u n c B).2
        = { w with itable := u.itable.set n { getI u.itable n with d := (getI u.itable n).d.set c m, clucount := inc32 (getI u.itable n).clucount, vD1 := env.now, vD2 := env.now }, dzone := u.dzone.set m B } ∧
      DZInv w ∧ freeRefs u = m :: freeRefs w ∧
      w.sb.dzone_total = u.sb.dzone_total ∧ w.sb.itotal = u.sb.itotal ∧
      w.sb.ifree = u.sb.ifree ∧ w.sb.ihdtl = u.sb.ihdtl ∧
      m < u.dzone.length ∧ m ≠ NULL_CLUSTER := by
  have hcm : c < MAX_FILE_CLUSTERS k := by unfold MAX_FILE_CLUSTERS; omega
  have hlenI : n < u.itable.length := by rw [hi.1]; exact hn
  have hnf := soQCheckInodeIU_not_free hiu
  have hG := soHandleFileCluster_get env hi (soQCheckDZ_of_DZInv hdz) hn hiu hcm hz
  have href : refOfIndex k u.dzone (getI u.itable n) c = NULL_CLUSTER := by
    unfold refOfIndex
    rw [if_pos hc]
    exact hnull
  rw [href] at hG
  generalize hp : getI u.itable n = p at *
  have hiu2 : soQCheckInodeIU k { p with vD1 := env.now, vD2 := env.now } = 0 :=
    (soQCheckInodeIU_congr k (by rfl)).trans hiu
  have hgetg : getI (u.itable.set n { p with vD1 := env.now, vD2 := env.now }) n
      = { p with vD1 := env.now, vD2 := env.now } := getI_set_eq _ _ _ hlenI
  -- the volume the operation `GET` leaves
  have hiG : IInv k { u with itable := u.itable.set n { p with vD1 := env.now, vD2 := env.now } } :=
    IInv_set_inuse hi n _ (by rw [hp]; exact hnf) (soQCheckInodeIU_not_free hiu2)
  have hdG : DZInv { u with itable := u.itable.set n { p with vD1 := env.now, vD2 := env.now } } :=
    DZInv_set_itable hdz _
  have hW : soWriteFileCluster k env u n c B
      = if (soHandleFileCluster k env { u with itable := u.itable.set n { p with vD1 := env.now, vD2 := env.now } } n c ALLOC).1 < 0 then
          ((soHandleFileCluster k env { u with itable := u.itable.set n { p with vD1 := env.now, vD2 := env.now } } n c ALLOC).1,
           (soHandleFileCluster k env { u with itable := u.itable.set n { p with vD1 := env.now, vD2 := env.now } } n c ALLOC).2.1)
        else
          writeCluster k env
            (soHandleFileCluster k env { u with itable := u.itable.set n { p with vD1 := env.now, vD2 := env.now } } n c ALLOC).2.1 n
            (soHandleFileCluster k env { u with itable := u.itable.set n { p with vD1 := env.now, vD2 := env.now } } n c ALLOC).2.2 B := by
    rw [soWriteFileCluster_eq, if_neg (by omega), hG]
    dsimp only
    rw [if_neg (by simp), if_pos rfl]
  rw [hW] at hs ⊢
  by_cases hneg : (soHandleFileCluster k env { u with itable := u.itable.set n { p with vD1 := env.now, vD2 := env.now } } n c ALLOC).1 < 0
  · rw [if_pos hneg] at hs
    dsimp only at hs
    omega
  rw [if_neg hneg] at hs ⊢
  have hA0 : (soHandleFileCluster k env { u with itable := u.itable.set n { p with vD1 := env.now, vD2 := env.now } } n c ALLOC).1 = 0 := by
    have := soHandleFileCluster_ALLOC_nonpos env hiG (soQCheckDZ_of_DZInv hdG) hn
      (by show soQCheckInodeIU k (getI (u.itable.set n _) n) = 0
          rw [hgetg]; exact hiu2) hcm
    omega
  obtain ⟨w, m, e1, e2, e3, e4, e5, e6, e7, e8, e9, e10⟩ :=
    soHandleFileCluster_alloc_direct env hiG hdG hn
      (by show soQCheckInodeIU k (getI (u.itable.set n _) n) = 0
          rw [hgetg]; exact hiu2) hc hA0
  rw [e1] at hs ⊢
  have e1' : ({ u with itable := u.itable.set n { p with vD1 := env.now, vD2 := env.now } } : Volume).itable.set n { getI ({ u with itable := u.itable.set n { p with vD1 := env.now, vD2 := env.now } } : Volume).itable n with d := (getI ({ u with itable := u.itable.set n { p with vD1 := env.now, vD2 := env.now } } : Volume).itable n).d.set c m, clucount := inc32 (getI ({ u with itable := u.itable.set n { p with vD1 := env.now, vD2 := env.now } } : Volume).itable n).clucount, vD1 := env.now, vD2 := env.now }
      = u.itable.set n { p with d := p.d.set c m, clucount := inc32 p.clucount, vD1 := env.now, vD2 := env.now } := by
    show (u.itable.set n _).set n { getI (u.itable.set n { p with vD1 := env.now, vD2 := env.now }) n with d := (getI (u.itable.set n { p with vD1 := env.now, vD2 := env.now }) n).d.set c m, clucount := inc32 (getI (u.itable.set n { p with vD1 := env.now, vD2 := env.now }) n).clucount, vD1 := env.now, vD2 := env.now } = _
    rw [hgetg, List.set_set]
  rw [e1'] at hs ⊢
  have hlen2 : n < (u.itable.set n { p with d := p.d.set c m, clucount := inc32 p.clucount, vD1 := env.now, vD2 := env.now }).length := by
    rw [List.length_set]; exact hlenI
  have hget2 : getI (u.itable.set n { p with d := p.d.set c m, clucount := inc32 p.clucount, vD1 := env.now, vD2 := env.now }) n
      = { p with d := p.d.set c m, clucount := inc32 p.clucount, vD1 := env.now, vD2 := env.now } :=
    getI_set_eq _ _ _ hlenI
  obtain ⟨w1, w2⟩ := @writeCluster_ok k env
    { w with itable := u.itable.set n { p with d := p.d.set c m, clucount := inc32 p.clucount, vD1 := env.now, vD2 := env.now } } n m B
    (by show n < w.sb.itotal
        rw [e6]; exact hn)
    (by show soQCheckInodeIU k (getI (u.itable.set n _) n) = 0
        rw [hget2]
        exact (soQCheckInodeIU_congr k (by rfl)).trans hiu) hs
  refine ⟨w, m, ?_, e2, e4, e5, e6, e7, e8, ?_, e10⟩
  · rw [w2]
    show ({ w with itable := (u.itable.set n _).set n { getI (u.itable.set n { p with d := p.d.set c m, clucount := inc32 p.clucount, vD1 := env.now, vD2 := env.now }) n with vD1 := env.now, vD2 := env.now }, dzone := w.dzone.set m B } : Volume) = _
    rw [hget2, List.set_set, e3]
  · have : m < w.dzone.length := w1
    rw [e3] at this
    exact this

theorem soWriteFileCluster_frame {k : SOConst} (env : SOEnv) {u : Volume} {n c : Nat}
    {B : SODataClust} (hi : IInv k u) (hdz : DZInv u) (hn : n < u.sb.itotal)
    (hiu : soQCheckInodeIU k (getI u.itable n) = 0) (hc : c < MAX_FILE_CLUSTERS k)
    (ht : TreeWf k u (getI u.itable n))
    (hs : (soWriteFileCluster k env u n c B).1 = 0) :
    (getI (soWriteFileCluster k env u n c B).2.itable n).refcount
      = (getI u.itable n).refcount ∧
    (∀ j, j ≠ n → getI (soWriteFileCluster k env u n c B).2.itable j = getI u.itable j) ∧
    (∀ x, x ∉ freeRefs u → x ∉ indClusters k u.dzone (getI u.itable n) →
      x ≠ refOfIndex k u.dzone (getI u.itable n) c →
      getDC (soWriteFileCluster k env u n c B).2.dzone x = getDC u.dzone x) := by
  have hlenI : n < u.itable.length := by rw [hi.1]; exact hn
  have hnf := soQCheckInodeIU_not_free hiu
  have hz := TreeWf_RefsInZone ht
  have hqdz := soQCheckDZ_of_DZInv hdz
  by_cases hnn : refOfIndex k u.dzone (getI u.itable n) c = NULL_CLUSTER
  swap
  · obtain ⟨-, w2⟩ := soWriteFileCluster_existing ⟨hi, hqdz, hn, hiu, hz⟩ hc hnn hs
    rw [w2]
    refine ⟨?_, fun j hj => ?_, fun x _ _ hx => ?_⟩
    · show (getI (u.itable.set n _) n).refcount = _
      rw [getI_set_eq _ _ _ hlenI]
    · show getI (u.itable.set n _) j = _
      rw [getI_set_ne _ _ (Ne.symm hj)]
    · show getDC (u.dzone.set _ _) x = _
      rw [getDC_set, if_neg (fun e => hx e.1.symm)]
  have hG := soHandleFileCluster_get env hi hqdz hn hiu hc hz
  rw [hnn] at hG
  generalize hp : getI u.itable n = p at *
  have hiu2 : soQCheckInodeIU k { p with vD1 := env.now, vD2 := env.now } = 0 :=
    (soQCheckInodeIU_congr k (by rfl)).trans hiu
  have hgetg : getI (u.itable.set n { p with vD1 := env.now, vD2 := env.now }) n
      = { p with vD1 := env.now, vD2 := env.now } := getI_set_eq _ _ _ hlenI
  have hiG : IInv k { u with itable := u.itable.set n { p with vD1 := env.now, vD2 := env.now } } :=
    IInv_set_inuse hi n _ (by rw [hp]; exact hnf) (soQCheckInodeIU_not_free hiu2)
  have hdG : DZInv { u with itable := u.itable.set n { p with vD1 := env.now, vD2 := env.now } } :=
    DZInv_set_itable hdz _
  have hW : soWriteFileCluster k env u n c B
      = if (soHandleFileCluster k env { u with itable := u.itable.set n { p with vD1 := env.now, vD2 := env.now } } n c ALLOC).1 < 0 then
          ((soHandleFileCluster k env { u with itable := u.itable.set n { p with vD1 := env.now, vD2 := env.now } } n c ALLOC).1,
           (soHandleFileCluster k env { u with itable := u.itable.set n { p with vD1 := env.now, vD2 := env.now } } n c ALLOC).2.1)
        else
          writeCluster k env
            (soHandleFileCluster k env { u with itable := u.itable.set n { p with vD1 := env.now, vD2 := env.now } } n c ALLOC).2.1 n
            (soHandleFileCluster k env { u with itable := u.itable.set n { p with vD1 := env.now, vD2 := env.now } } n c ALLOC).2.2 B := by
    rw [soWriteFileCluster_eq, if_neg (by omega), hG]
    dsimp only
    rw [if_neg (by simp), if_pos rfl]
  rw [hW] at hs ⊢
  by_cases hneg : (soHandleFileCluster k env { u with itable := u.itable.set n { p with vD1 := env.now, vD2 := env.now } } n c ALLOC).1 < 0
  · rw [if_pos hneg] at hs
    dsimp only at hs
    omega
  rw [if_neg hneg] at hs ⊢
  have hiuG : soQCheckInodeIU k (getI ({ u with itable := u.itable.set n { p with vD1 := env.now, vD2 := env.now } } : Volume).itable n) = 0 := by
    show soQCheckInodeIU k (getI (u.itable.set n _) n) = 0
    rw [hgetg]; exact hiu2
  have hA0 : (soHandleFileCluster k env { u with itable := u.itable.set n { p with vD1 := env.now, vD2 := env.now } } n c ALLOC).1 = 0 := by
    have := soHandleFileCluster_ALLOC_nonpos env hiG (soQCheckDZ_of_DZInv hdG) hn hiuG hc
    omega
  have htG : TreeWf k { u with itable := u.itable.set n { p with vD1 := env.now, vD2 := env.now } }
      (getI ({ u with itable := u.itable.set n { p with vD1 := env.now, vD2 := env.now } } : Volume).itable n) := by
    show TreeWf k _ (getI (u.itable.set n _) n)
    rw [hgetg]
    exact ht
  obtain ⟨hv, p', m, ho, heq, -, -, hget, hiu'⟩ :=
    soHandleFileCluster_alloc env hiG hdG hn hiuG hc htG hA0
  rw [heq] at hs ⊢
  obtain ⟨o1, o2, o3, o4, o5, o6, o7, o8, o9, o10, o11, o12, o13, o14, o15, o16, o17⟩ := ho
  obtain ⟨-, w2⟩ := @writeCluster_ok k env
    { hv with itable := hv.itable.set n { p' with vD1 := env.now, vD2 := env.now } } n m B
    (by show n < hv.sb.itotal
        rw [o4]; exact hn)
    (by show soQCheckInodeIU k (getI (hv.itable.set n _) n) = 0
        rw [hget]; exact hiu') hs
  rw [w2]
  have hrr : (readRecord env { u with itable := u.itable.set n { p with vD1 := env.now, vD2 := env.now } } n)
      = { p with vD1 := env.now, vD2 := env.now } := by
    show ({ getI (u.itable.set n { p with vD1 := env.now, vD2 := env.now }) n with vD1 := env.now } : SOInode) = _
    rw [hgetg]
  rw [hrr] at o15 o17
  refine ⟨?_, fun j hj => ?_, fun x hx1 hx2 _ => ?_⟩
  · show (getI ((hv.itable.set n _).set n _) n).refcount = _
    rw [getI_set_eq _ _ _ (by
      rw [List.length_set, o3]
      show n < ((u.itable.set n _).set n _).length
      rw [List.length_set, List.length_set]; exact hlenI)]
    show (getI (hv.itable.set n { p' with vD1 := env.now, vD2 := env.now }) n).refcount = _
    rw [hget]
    exact o15
  · show getI ((hv.itable.set n _).set n _) j = _
    rw [getI_set_ne _ _ (Ne.symm hj), getI_set_ne _ _ (Ne.symm hj), o3]
    show getI ((u.itable.set n _).set n _) j = _
    rw [getI_set_ne _ _ (Ne.symm hj), getI_set_ne _ _ (Ne.symm hj)]
  · show getDC (hv.dzone.set m B) x = _
    have hxm : m ≠ x := by
      intro e
      rw [e] at o11
      exact hx1 o11
    rw [getDC_set, if_neg (fun e => hxm e.1)]
    exact o17 x hx1 hx2

theorem freeRefs_congr {v v' : Volume} (hsb : v'.sb = v.sb) (hfct : v'.fct = v.fct) :
    freeRefs v' = freeRefs v := by
  cases v
  cases v'
  simp only at hsb hfct
  subst hsb hfct
  rfl

theorem TreeWf_frame {k : SOConst} {u u' : Volume} {p p' : SOInode} (ht : TreeWf k u p)
    (h1 : p'.d = p.d) (h2 : p'.i1 = p.i1) (h3 : p'.i2 = p.i2)
    (hT : u'.sb.dzone_total = u.sb.dzone_total) (hL : u'.dzone.length = u.dzone.length)
    (hF : ∀ x ∈ freeRefs u', x ∈ freeRefs u)
    (hD : ∀ n ∈ indClusters k u.dzone p, getDC u'.dzone n = getDC u.dzone n) :
    TreeWf k u' p' := by
  have hind : indClusters k u'.dzone p' = indClusters k u.dzone p :=
    indClusters_congr h2 h3 (fun hn => by rw [h3]; exact hD _ (i2_mem_indClusters hn))
  obtain ⟨t1, t2, t3, t4, t5⟩ := ht
  refine ⟨by rw [h1]; exact t1, ?_, by rw [hT, hL]; exact t3, by rw [hind]; exact t4, ?_⟩
  · intro n hn
    rw [hind] at hn
    rw [hD n hn]
    exact t2 n hn
  · intro n hn
    rw [hind] at hn
    exact ⟨by rw [hT]; exact (t5 n hn).1, fun hf => (t5 n hn).2 (hF n hf)⟩

theorem addDirEntry_dir {k : SOConst} {env : SOEnv} {u : Volume} {P E index : Nat}
    {eName : List Nat} {p_dir p_ent : SOInode}
    (hi : IInv k u) (hdz : DZInv u) (hP : P < u.sb.itotal) (hE : E < u.sb.itotal)
    (hPE : P ≠ E)
    (hiuP : soQCheckInodeIU k (getI u.itable P) = 0)
    (hiuE : soQCheckInodeIU k (getI u.itable E) = 0)
    (hpd : SameButTimes (getI u.itable P) p_dir) (hpe : SameButTimes (getI u.itable E) p_ent)
    (htP : TreeWf k u (getI u.itable P))
    (hEd : (getI u.itable E).d = List.replicate k.N_DIRECT NULL_CLUSTER)
    (hE1 : (getI u.itable E).i1 = NULL_CLUSTER) (hE2 : (getI u.itable E).i2 = NULL_CLUSTER)
    (hEc : (getI u.itable E).clucount = 0) (hEr : (getI u.itable E).refcount = 0)
    (hEdir : p_ent.mode &&& k.INODE_DIR ≠ 0) (hN : 0 < k.N_DIRECT)
    (hPr : (getI u.itable P).refcount < 65535)
    (hl : ∀ c, c < MAX_FILE_CLUSTERS k →
      refOfIndex k u.dzone (getI u.itable P) c ≠ NULL_CLUSTER →
      refOfIndex k u.dzone (getI u.itable P) c < u.dzone.length)
    (hPfree : ∀ c, c < MAX_FILE_CLUSTERS k →
      refOfIndex k u.dzone (getI u.itable P) c ∉ freeRefs u)
    (hs : (addDirEntry k env u P eName E p_dir p_ent index).1 = 0) :
    fileCluster k (addDirEntry k env u P eName E p_dir p_ent index).2.dzone
      (getI (addDirEntry k env u P eName E p_dir p_ent index).2.itable E) 0 = vazia k P E ∧
    (getI (addDirEntry k env u P eName E p_dir p_ent index).2.itable E).refcount = 2 ∧
    (getI (addDirEntry k env u P eName E p_dir p_ent index).2.itable E).size
      = k.CLUSTER_SIZE ∧
    (getI (addDirEntry k env u P eName E p_dir p_ent index).2.itable E).clucount = 1 ∧
    (getI (addDirEntry k env u P eName E p_dir p_ent index).2.itable P).refcount
      = (getI u.itable P).refcount + 1 := by
  have hlenI : u.itable.length = u.sb.itotal := hi.1
  have hnfP := soQCheckInodeIU_not_free hiuP
  have hnfE := soQCheckInodeIU_not_free hiuE
  obtain ⟨qE, hqE⟩ : ∃ q : SOInode, q = { p_ent with refcount := inc16 (inc16 p_ent.refcount), size := k.CLUSTER_SIZE, vD1 := env.now, vD2 := env.now } := ⟨_, rfl⟩
  obtain ⟨qP, hqP⟩ : ∃ q : SOInode, q = { p_dir with refcount := inc16 p_dir.refcount, vD1 := env.now, vD2 := env.now } := ⟨_, rfl⟩
  have hiuqE : soQCheckInodeIU k qE = 0 := by
    rw [hqE]
    exact (soQCheckInodeIU_congr k (show _ = (getI u.itable E).mode from hpe.1)).trans hiuE
  have hiuqP : soQCheckInodeIU k qP = 0 := by
    rw [hqP]
    exact (soQCheckInodeIU_congr k (show _ = (getI u.itable P).mode from hpd.1)).trans hiuP
  have hw1 : soWriteInode k env u { p_ent with refcount := inc16 (inc16 p_ent.refcount), size := k.CLUSTER_SIZE } E
      = (0, { u with itable := u.itable.set E qE }) := by
    have h := soWriteInode_ok k env u { p_ent with refcount := inc16 (inc16 p_ent.refcount), size := k.CLUSTER_SIZE } E hE
      ((soQCheckInodeIU_congr k (by rfl)).trans ((soQCheckInodeIU_congr k hpe.1).trans hiuE))
    rw [h, hqE]
  have hw2 : soWriteInode k env { u with itable := u.itable.set E qE } { p_dir with refcount := inc16 p_dir.refcount } P
      = (0, { u with itable := (u.itable.set E qE).set P qP }) := by
    have h := soWriteInode_ok k env { u with itable := u.itable.set E qE } { p_dir with refcount := inc16 p_dir.refcount } P hP
      ((soQCheckInodeIU_congr k (by rfl)).trans ((soQCheckInodeIU_congr k hpd.1).trans hiuP))
    rw [h, hqP]
  unfold addDirEntry at hs ⊢
  dsimp only at hs ⊢
  rw [if_pos hEdir] at hs ⊢
  simp only [hw1] at hs ⊢
  rw [if_neg (show ¬ ((0 : Int) ≠ 0) by simp)] at hs ⊢
  simp only [hw2] at hs ⊢
  rw [if_neg (show ¬ ((0 : Int) ≠ 0) by simp)] at hs ⊢
  -- the volume after the two records were written
  have hgE2 : getI ((u.itable.set E qE).set P qP) E = qE := by
    rw [getI_set_ne _ _ hPE, getI_set_eq _ _ _ (by rw [hlenI]; exact hE)]
  have hgP2 : getI ((u.itable.set E qE).set P qP) P = qP :=
    getI_set_eq _ _ _ (by rw [List.length_set, hlenI]; exact hP)
  have hi1 : IInv k { u with itable := u.itable.set E qE } :=
    IInv_set_inuse hi E qE hnfE (soQCheckInodeIU_not_free hiuqE)
  have hi2 : IInv k { u with itable := (u.itable.set E qE).set P qP } :=
    IInv_set_inuse hi1 P qP (by
      show ¬ isFreeInode k (getI (u.itable.set E qE) P)
      rw [getI_set_ne _ _ (Ne.symm hPE)]
      exact hnfP) (soQCheckInodeIU_not_free hiuqP)
  have hdz2 : DZInv { u with itable := (u.itable.set E qE).set P qP } := DZInv_set_itable hdz _
  have hqEd : qE.d = List.replicate k.N_DIRECT NULL_CLUSTER := by
    rw [hqE]
    show p_ent.d = _
    rw [hpe.2.2.2.2.2.2.1, hEd]
  have hqE1 : qE.i1 = NULL_CLUSTER := by
    rw [hqE]
    show p_ent.i1 = _
    rw [hpe.2.2.2.2.2.2.2.1, hE1]
  have hqE2 : qE.i2 = NULL_CLUSTER := by
    rw [hqE]
    show p_ent.i2 = _
    rw [hpe.2.2.2.2.2.2.2.2, hE2]
  have hqEc : qE.clucount = 0 := by
    rw [hqE]
    show p_ent.clucount = _
    rw [hpe.2.2.2.2.2.1, hEc]
  have hqEr : qE.refcount = 2 := by
    rw [hqE]
    show inc16 (inc16 p_ent.refcount) = _
    rw [hpe.2.1, hEr]
    rfl
  have hqEs : qE.size = k.CLUSTER_SIZE := by rw [hqE]
  have hqPd : qP.d = (getI u.itable P).d := by
    rw [hqP]; exact hpd.2.2.2.2.2.2.1
  have hqP1 : qP.i1 = (getI u.itable P).i1 := by
    rw [hqP]; exact hpd.2.2.2.2.2.2.2.1
  have hqP2 : qP.i2 = (getI u.itable P).i2 := by
    rw [hqP]; exact hpd.2.2.2.2.2.2.2.2
  have hqPr : qP.refcount = (getI u.itable P).refcount + 1 := by
    rw [hqP]
    show inc16 p_dir.refcount = _
    rw [hpd.2.1]
    unfold inc16
    omega
  -- the first cluster of the new directory is written
  by_cases h3 : (soWriteFileCluster k env { u with itable := (u.itable.set E qE).set P qP } E 0 (vazia k P E)).1 ≠ 0
  · rw [if_pos h3] at hs
    exact absurd hs h3
  rw [if_neg h3] at hs ⊢
  obtain ⟨w, m, e1, e2, e3, e4, e5, e6, e7, e8, e9⟩ :=
    soWriteFileCluster_new_direct env hi2 hdz2 hE
      (by show soQCheckInodeIU k (getI ((u.itable.set E qE).set P qP) E) = 0
          rw [hgE2]; exact hiuqE) hN
      (by show RefsInZone k u.dzone (getI ((u.itable.set E qE).set P qP) E)
          rw [hgE2]
          exact ⟨fun h => absurd hqE1 h, fun h => absurd hqE2 h⟩)
      (by show (getI ((u.itable.set E qE).set P qP) E).d.getD 0 0 = NULL_CLUSTER
          rw [hgE2, hqEd, List.getD_eq_getElem?_getD, List.getElem?_replicate, if_pos hN]
          rfl)
      (not_not.1 h3)
  rw [e1] at hs ⊢
  have e1' : ({ w with itable := ({ u with itable := (u.itable.set E qE).set P qP } : Volume).itable.set E { getI ({ u with itable := (u.itable.set E qE).set P qP } : Volume).itable E with d := (getI ({ u with itable := (u.itable.set E qE).set P qP } : Volume).itable E).d.set 0 m, clucount := inc32 (getI ({ u with itable := (u.itable.set E qE).set P qP } : Volume).itable E).clucount, vD1 := env.now, vD2 := env.now }, dzone := ({ u with itable := (u.itable.set E qE).set P qP } : Volume).dzone.set m (vazia k P E) } : Volume)
      = { w with itable := ((u.itable.set E qE).set P qP).set E { qE with d := qE.d.set 0 m, clucount := inc32 qE.clucount, vD1 := env.now, vD2 := env.now }, dzone := u.dzone.set m (vazia k P E) } := by
    show ({ w with itable := ((u.itable.set E qE).set P qP).set E { getI ((u.itable.set E qE).set P qP) E with d := (getI ((u.itable.set E qE).set P qP) E).d.set 0 m, clucount := inc32 (getI ((u.itable.set E qE).set P qP) E).clucount, vD1 := env.now, vD2 := env.now }, dzone := u.dzone.set m (vazia k P E) } : Volume) = _
    rw [hgE2]
  rw [e1'] at hs ⊢
  obtain ⟨q4, hq4⟩ : ∃ q : SOInode, q = { qE with d := qE.d.set 0 m, clucount := inc32 qE.clucount, vD1 := env.now, vD2 := env.now } := ⟨_, rfl⟩
  rw [← hq4] at hs ⊢
  have hfu : freeRefs u = m :: freeRefs w := e3
  have hmfree : m ∈ freeRefs u := by rw [hfu]; exact List.mem_cons_self _ _
  have hmw : m ∉ freeRefs w := by
    have hnd := hdz.2.1
    rw [hfu] at hnd
    exact (List.nodup_cons.1 hnd).1
  have hwsub : ∀ x ∈ freeRefs w, x ∈ freeRefs u := fun x hx => by
    rw [hfu]; exact List.mem_cons_of_mem _ hx
  have hmind : m ∉ indClusters k u.dzone (getI u.itable P) := fun hmem =>
    (htP.2.2.2.2 _ hmem).2 hmfree
  have hgE4 : getI (((u.itable.set E qE).set P qP).set E q4) E = q4 :=
    getI_set_eq _ _ _ (by rw [List.length_set, List.length_set, hlenI]; exact hE)
  have hgP4 : getI (((u.itable.set E qE).set P qP).set E q4) P = qP := by
    rw [getI_set_ne _ _ (Ne.symm hPE)]
    exact hgP2
  have hi4 : IInv k { w with itable := ((u.itable.set E qE).set P qP).set E q4, dzone := u.dzone.set m (vazia k P E) } := by
    have h := IInv_set_inuse hi2 E q4 (by
        show ¬ isFreeInode k (getI ((u.itable.set E qE).set P qP) E)
        rw [hgE2]
        exact soQCheckInodeIU_not_free hiuqE)
      (soQCheckInodeIU_not_free (by
        rw [hq4]
        exact (soQCheckInodeIU_congr k (by rfl)).trans hiuqE))
    exact IInv_congr h rfl e5 e6 e7
  have hdz4 : DZInv { w with itable := ((u.itable.set E qE).set P qP).set E q4, dzone := u.dzone.set m (vazia k P E) } :=
    DZInv_congr e2 rfl rfl
  have hindP : indClusters k u.dzone qP = indClusters k u.dzone (getI u.itable P) :=
    indClusters_congr hqP1 hqP2 (fun _ => by rw [hqP2])
  have hleafP : m ∉ indClusters k u.dzone qP := by rw [hindP]; exact hmind
  have hrefP : ∀ c, c < MAX_FILE_CLUSTERS k →
      refOfIndex k (u.dzone.set m (vazia k P E)) qP c
        = refOfIndex k u.dzone (getI u.itable P) c := fun c hc => by
    rw [refOfIndex_set_leaf _ hc hleafP, refOfIndex_fields k _ c hqPd hqP1 hqP2]
  have hzP4 : RefsInZone k (u.dzone.set m (vazia k P E)) qP :=
    RefsInZone_set_leaf _ (by
      have hz := TreeWf_RefsInZone htP
      unfold RefsInZone at hz ⊢
      rw [hqP1, hqP2]
      exact hz) hleafP
  have hg4 : Good k { w with itable := ((u.itable.set E qE).set P qP).set E q4, dzone := u.dzone.set m (vazia k P E) } P :=
    ⟨hi4, soQCheckDZ_of_DZInv hdz4, by show P < w.sb.itotal; rw [e5]; exact hP,
      by show soQCheckInodeIU k (getI (((u.itable.set E qE).set P qP).set E q4) P) = 0
         rw [hgP4]; exact hiuqP,
      by show RefsInZone k (u.dzone.set m (vazia k P E))
           (getI (((u.itable.set E qE).set P qP).set E q4) P)
         rw [hgP4]; exact hzP4⟩
  -- the cluster of the entry is read
  have hcI : index / k.DPC < MAX_FILE_CLUSTERS k := by
    by_contra hge
    rw [if_pos (by
      unfold soReadFileCluster
      rw [if_pos (Or.inr (by omega))]
      simp [EINVAL])] at hs
    unfold soReadFileCluster at hs
    rw [if_pos (Or.inr (by omega))] at hs
    simp [EINVAL] at hs
  obtain ⟨r1, -, r3⟩ := soReadFileCluster_good env default hg4 hcI (by
    show refOfIndex k (u.dzone.set m (vazia k P E))
        (getI (((u.itable.set E qE).set P qP).set E q4) P) (index / k.DPC) ≠ NULL_CLUSTER →
      refOfIndex k (u.dzone.set m (vazia k P E))
        (getI (((u.itable.set E qE).set P qP).set E q4) P) (index / k.DPC)
        < (u.dzone.set m (vazia k P E)).length
    rw [hgP4, hrefP _ hcI, List.length_set]
    exact hl _ hcI)
  generalize soReadFileCluster k env { w with itable := ((u.itable.set E qE).set P qP).set E q4, dzone := u.dzone.set m (vazia k P E) } P (index / k.DPC) default = rc at hs r1 r3 ⊢
  rw [if_neg (by rw [r1]; simp)] at hs ⊢
  obtain ⟨t1, t2, t3, t4, t5⟩ := r3
  have t3' : rc.2.1.dzone = u.dzone.set m (vazia k P E) := t3
  have hsP := (t5 P).1
  rw [hgP4] at hsP
  have hsE := (t5 E).1
  rw [hgE4] at hsE
  have hg5 := Good_TimesEq hg4 ⟨t1, t2, t3, t4, t5⟩
  have hfr5 : freeRefs rc.2.1 = freeRefs w := freeRefs_congr t1 t2
  have hind5 : indClusters k rc.2.1.dzone (getI rc.2.1.itable P)
      = indClusters k u.dzone (getI u.itable P) := by
    apply indClusters_congr (hsP.2.2.2.2.2.2.2.1.trans hqP1) (hsP.2.2.2.2.2.2.2.2.trans hqP2)
    intro h2
    rw [t3', hsP.2.2.2.2.2.2.2.2, hqP2, getDC_set, if_neg]
    intro e
    exact hmind (e.1 ▸ i2_mem_indClusters h2)
  have hT5 : TreeWf k rc.2.1 (getI rc.2.1.itable P) := by
    apply TreeWf_frame htP (hsP.2.2.2.2.2.2.1.trans hqPd) (hsP.2.2.2.2.2.2.2.1.trans hqP1)
      (hsP.2.2.2.2.2.2.2.2.trans hqP2)
    · rw [t1]; exact e4
    · rw [t3', List.length_set]
    · intro x hx
      rw [hfr5] at hx
      exact hwsub x hx
    · intro n hn
      rw [t3', getDC_set, if_neg]
      intro e
      exact hmind (e.1 ▸ hn)
  have hdz5 : DZInv rc.2.1 := DZInv_congr hdz4 t1 t2
  -- the cluster of the entry is written
  obtain ⟨f1, f2, f3⟩ := soWriteFileCluster_frame env hg5.1 hdz5 hg5.2.2.1 hg5.2.2.2.1 hcI hT5 hs
  have hgetE : getI (soWriteFileCluster k env rc.2.1 P (index / k.DPC) { rc.2.2 with de := rc.2.2.de.set index { name := nameField k eName, nInode := E } }).2.itable E
      = getI rc.2.1.itable E := f2 E (Ne.symm hPE)
  have hmlen : m < u.dzone.length := e8
  have hq4d : q4.d.getD 0 0 = m := by
    rw [hq4]
    show (qE.d.set 0 m).getD 0 0 = m
    rw [List.getD_eq_getElem?_getD, List.getElem?_set_self (by rw [hqEd, List.length_replicate]; exact hN)]
    rfl
  refine ⟨?_, ?_, ?_, ?_, ?_⟩
  · rw [hgetE]
    unfold fileCluster refOfIndex
    rw [if_pos hN, hsE.2.2.2.2.2.2.1, hq4d, if_neg e9]
    rw [f3 m (by rw [hfr5]; exact hmw) (by rw [hind5]; exact hmind) (by
      intro e
      have hr : refOfIndex k rc.2.1.dzone (getI rc.2.1.itable P) (index / k.DPC)
          = refOfIndex k u.dzone (getI u.itable P) (index / k.DPC) := by
        rw [t3', refOfIndex_fields k _ _ hsP.2.2.2.2.2.2.1 hsP.2.2.2.2.2.2.2.1
          hsP.2.2.2.2.2.2.2.2]
        exact hrefP _ hcI
      rw [hr] at e
      exact hPfree _ hcI (e ▸ hmfree))]
    rw [t3', getDC_set, if_pos ⟨rfl, hmlen⟩]
  · rw [hgetE, hsE.2.1, hq4]
    exact hqEr
  · rw [hgetE, hsE.2.2.2.2.1, hq4]
    exact hqEs
  · rw [hgetE, hsE.2.2.2.2.2.1, hq4]
    show inc32 qE.clucount = 1
    rw [hqEc]
    rfl
  · rw [f1, hsP.2.1]
    exact hqPr

theorem vazia_entries (k : SOConst) (P E : Nat) (hD : 2 ≤ k.DPC) :
    (vazia k P E).de.getD 0 default
      = { name := DOT :: List.replicate k.MAX_NAME 0, nInode := E } ∧
    (vazia k P E).de.getD 1 default
      = { name := DOT :: DOT :: List.replicate (k.MAX_NAME - 1) 0, nInode := P } ∧
    ∀ j, 2 ≤ j → j < k.DPC →
      (vazia k P E).de.getD j default
        = { name := List.replicate (k.MAX_NAME + 1) 0, nInode := NULL_INODE } := by
  unfold vazia
  refine ⟨?_, ?_, fun j h2 hj => ?_⟩
  · simp [List.getD_eq_getElem?_getD, List.getElem?_set, show 0 < k.DPC by omega]
  · simp [List.getD_eq_getElem?_getD, List.getElem?_set, show 1 < k.DPC by omega]
  · simp [List.getD_eq_getElem?_getD, List.getElem?_set, List.getElem?_replicate, hj,
      show ¬ (1 = j) by omega, show ¬ (0 = j) by omega]

/-- C25: on a volume whose metadata are consistent, for a directory `P` in use whose clusters of
references are distinct clusters in use and whose data clusters lie in the data zone and are
not free, and an inode `E` in use, other than `P`, that is a directory with `refcount` 0,
`clucount` 0 and no reference to a cluster: if `soAddAttDirEntry (P, name, E, ADD)` returns 0,
the cluster 0 of `E` has the entry 0 named `.` with `nInode = E`, the entry 1 named `..` with
`nInode = P` and every other entry with a name of `MAX_NAME + 1` NUL bytes and
`nInode = NULL_INODE`; the `refcount` of `E` is 2, its `size` is `CLUSTER_SIZE` and its
`clucount` is 1; and the `refcount` of `P` is one more than it was. The array `d[]` has an
entry (`N_DIRECT > 0`) and a cluster holds two directory entries at least. The cluster 0 of
`P` has a free entry: the index `soGetDirEntryByName` gives for the new entry, that of the
first free entry, is then below `DPC`, and the assignment `tmp[index]` of line 180 is inside
the array `tmp` of `DPC` entries (outside of it C leaves the assignment undefined). -/
theorem C25_add_fresh_directory (k : SOConst) (env : SOEnv) (v : Volume) (P E : Nat)
    (eName : List Nat) (hne : eName ≠ [])
    (hi : IInv k v) (hdz : DZInv v) (hP : P < v.sb.itotal) (hE : E < v.sb.itotal)
    (hPE : P ≠ E)
    (hiuP : soQCheckInodeIU k (getI v.itable P) = 0)
    (hiuE : soQCheckInodeIU k (getI v.itable E) = 0)
    (hPdir : (getI v.itable P).mode &&& k.INODE_DIR = k.INODE_DIR)
    (hEdir : (getI v.itable E).mode &&& k.INODE_DIR = k.INODE_DIR)
    (hD0 : k.INODE_DIR ≠ 0)
    (htP : TreeWf k v (getI v.itable P))
    (hEd : (getI v.itable E).d = List.replicate k.N_DIRECT NULL_CLUSTER)
    (hE1 : (getI v.itable E).i1 = NULL_CLUSTER) (hE2 : (getI v.itable E).i2 = NULL_CLUSTER)
    (hEc : (getI v.itable E).clucount = 0) (hEr : (getI v.itable E).refcount = 0)
    (hN : 0 < k.N_DIRECT) (hDPC : 2 ≤ k.DPC)
    (hptr : k.SIZEOF_PTR ≤ k.MAX_NAME + 1)
    (hEE : 0 < k.DPC * (k.CLUSTER_SIZE / k.DPC))
    (hT : (getI v.itable P).size / (k.DPC * (k.CLUSTER_SIZE / k.DPC)) + 1
      ≤ MAX_FILE_CLUSTERS k)
    (hl : ∀ c, c < MAX_FILE_CLUSTERS k →
      refOfIndex k v.dzone (getI v.itable P) c ≠ NULL_CLUSTER →
      refOfIndex k v.dzone (getI v.itable P) c < v.dzone.length)
    (hPfree : ∀ c, c < MAX_FILE_CLUSTERS k →
      refOfIndex k v.dzone (getI v.itable P) c ∉ freeRefs v)
    (hidx : ∃ j, j < k.DPC ∧ entryFree k v.dzone (getI v.itable P) j)
    (hs : (soAddAttDirEntry k env v P eName E ADD).1 = 0) :
    dirEntry k (soAddAttDirEntry k env v P eName E ADD).2.dzone
      (getI (soAddAttDirEntry k env v P eName E ADD).2.itable E) 0
      = { name := DOT :: List.replicate k.MAX_NAME 0, nInode := E } ∧
    dirEntry k (soAddAttDirEntry k env v P eName E ADD).2.dzone
      (getI (soAddAttDirEntry k env v P eName E ADD).2.itable E) 1
      = { name := DOT :: DOT :: List.replicate (k.MAX_NAME - 1) 0, nInode := P } ∧
    (∀ j, 2 ≤ j → j < k.DPC →
      dirEntry k (soAddAttDirEntry k env v P eName E ADD).2.dzone
        (getI (soAddAttDirEntry k env v P eName E ADD).2.itable E) j
        = { name := List.replicate (k.MAX_NAME + 1) 0, nInode := NULL_INODE }) ∧
    (getI (soAddAttDirEntry k env v P eName E ADD).2.itable E).refcount = 2 ∧
    (getI (soAddAttDirEntry k env v P eName E ADD).2.itable E).size = k.CLUSTER_SIZE ∧
    (getI (soAddAttDirEntry k env v P eName E ADD).2.itable E).clucount = 1 ∧
    (getI (soAddAttDirEntry k env v P eName E ADD).2.itable P).refcount
      = (getI v.itable P).refcount + 1 := by
  have hgP : Good k v P := ⟨hi, soQCheckDZ_of_DZInv hdz, hP, hiuP, TreeWf_RefsInZone htP⟩
  obtain ⟨_, _, _⟩ := hidx
  unfold soAddAttDirEntry at hs ⊢
  dsimp only at hs ⊢
  -- the permissions to execute and to write
  obtain ⟨x1, x2⟩ := soAccessGranted_TimesEq env X hgP (TimesEq_refl k v)
  generalize hax : soAccessGranted k env v P X = ax at hs x1 x2 ⊢
  by_cases c1 : ax.1 ≠ 0
  · rw [if_pos c1] at hs
    exact absurd hs c1
  rw [if_neg c1] at hs ⊢
  obtain ⟨-, w2⟩ := soAccessGranted_TimesEq env W hgP x2
  generalize soAccessGranted k env ax.2 P W = aw at hs w2 ⊢
  by_cases c2 : aw.1 ≠ 0
  · rw [if_pos c2] at hs
    exact absurd hs c2
  rw [if_neg c2] at hs ⊢
  -- the two inodes are read
  obtain ⟨r1, r2, r3⟩ := soReadInode_good env (Good_TimesEq hgP w2)
  have tr := TimesEq_trans w2 r2
  have hsd : SameButTimes (getI v.itable P) (soReadInode k env aw.2 P).2.2 :=
    SameButTimes_trans (w2.2.2.2.2 P).1 r3
  generalize soReadInode k env aw.2 P = rd at hs r1 r2 r3 tr hsd ⊢
  rw [if_neg (by rw [r1]; simp)] at hs ⊢
  have hiuE' : soQCheckInodeIU k (getI rd.2.1.itable E) = 0 :=
    (soQCheckInodeIU_congr k (tr.2.2.2.2 E).1.1).trans hiuE
  have hre := soReadInode_ok k env rd.2.1 E (by rw [tr.1]; exact hE) hiuE'
  have te : TimesEq k v (readVolume env rd.2.1 E) :=
    TimesEq_trans tr (TimesEq_set rd.2.1 E _ (soQCheckInodeIU_not_free hiuE')
      ⟨rfl, rfl, rfl, rfl, rfl, rfl, rfl, rfl, rfl⟩)
  have hse : SameButTimes (getI v.itable E) (readRecord env rd.2.1 E) :=
    SameButTimes_trans (tr.2.2.2.2 E).1 ⟨rfl, rfl, rfl, rfl, rfl, rfl, rfl, rfl, rfl⟩
  have hre' : soReadInode k env rd.2.1 E = (0, readVolume env rd.2.1 E, readRecord env rd.2.1 E) :=
    hre
  generalize readVolume env rd.2.1 E = ve at hre' te
  generalize readRecord env rd.2.1 E = pe at hre' hse
  simp only [hre'] at hs ⊢
  rw [if_neg (show ¬ ((0 : Int) ≠ 0) by simp)] at hs ⊢
  by_cases c3 : rd.2.2.mode &&& k.INODE_DIR = 0
  · rw [if_pos c3] at hs
    simp [ENOTDIR] at hs
  rw [if_neg c3] at hs ⊢
  by_cases c4 : rd.2.2.size ≥ MAX_FILE_SIZE k
  · rw [if_pos c4] at hs
    simp [EFBIG] at hs
  rw [if_neg c4] at hs ⊢
  by_cases c5 : rd.2.2.refcount ≥ 65535 ∨ pe.refcount ≥ 65535
  · rw [if_pos c5] at hs
    simp [EMLINK] at hs
  rw [if_neg c5] at hs ⊢
  by_cases c6 : eName.length > k.MAX_NAME
  · rw [if_pos c6] at hs
    simp [ENAMETOOLONG] at hs
  rw [if_neg c6] at hs ⊢
  -- the name is looked for
  have hge := Good_TimesEq hgP te
  have hsz : (getI ve.itable P).size = (getI v.itable P).size := (te.2.2.2.2 P).1.2.2.2.2.1
  have hmd : (getI ve.itable P).mode = (getI v.itable P).mode := (te.2.2.2.2 P).1.1
  have hacc : (soAccessGranted k env ve P X).1 = 0 := by
    rw [(soAccessGranted_TimesEq env X hgP te).1, hax]
    exact not_not.1 c1
  have tg := TimesEq_trans te
    (soGetDirEntryByName_spec env hne hge (by rw [hmd]; exact hPdir) hacc hptr hEE
      (by rw [hsz]; exact hT)
      (fun c hc => by
        rw [hsz] at hc
        rw [refOfIndex_TimesEq te, te.2.2.1]
        exact hl c (Nat.lt_of_lt_of_le hc hT))).1
  generalize soGetDirEntryByName k env ve P eName = g at hs tg ⊢
  by_cases c7 : g.1 = 0
  · rw [if_pos c7] at hs
    simp [EEXIST] at hs
  rw [if_neg c7] at hs ⊢
  by_cases c8 : g.1 ≠ -ENOENT
  · rw [if_pos c8] at hs
    exact absurd hs c7
  rw [if_neg c8, if_pos trivial] at hs ⊢
  -- the entry is added
  obtain ⟨t1, t2, t3, t4, t5⟩ := tg
  have hsP := (t5 P).1
  have hsE := (t5 E).1
  have hfr : freeRefs g.2.1 = freeRefs v := freeRefs_congr t1 t2
  have hrefP : ∀ c, refOfIndex k g.2.1.dzone (getI g.2.1.itable P) c
      = refOfIndex k v.dzone (getI v.itable P) c := fun c =>
    refOfIndex_TimesEq ⟨t1, t2, t3, t4, t5⟩ P c
  obtain ⟨d1, d2, d3, d4, d5⟩ := @addDirEntry_dir k env g.2.1 P E g.2.2.2 eName rd.2.2 pe
    (IInv_TimesEq hi ⟨t1, t2, t3, t4, t5⟩) (DZInv_congr hdz t1 t2)
    (by rw [t1]; exact hP) (by rw [t1]; exact hE) hPE
    ((soQCheckInodeIU_congr k hsP.1).trans hiuP) ((soQCheckInodeIU_congr k hsE.1).trans hiuE)
    ⟨hsd.1.trans hsP.1.symm, hsd.2.1.trans hsP.2.1.symm, hsd.2.2.1.trans hsP.2.2.1.symm,
      hsd.2.2.2.1.trans hsP.2.2.2.1.symm, hsd.2.2.2.2.1.trans hsP.2.2.2.2.1.symm,
      hsd.2.2.2.2.2.1.trans hsP.2.2.2.2.2.1.symm,
      hsd.2.2.2.2.2.2.1.trans hsP.2.2.2.2.2.2.1.symm,
      hsd.2.2.2.2.2.2.2.1.trans hsP.2.2.2.2.2.2.2.1.symm,
      hsd.2.2.2.2.2.2.2.2.trans hsP.2.2.2.2.2.2.2.2.symm⟩
    ⟨hse.1.trans hsE.1.symm, hse.2.1.trans hsE.2.1.symm, hse.2.2.1.trans hsE.2.2.1.symm,
      hse.2.2.2.1.trans hsE.2.2.2.1.symm, hse.2.2.2.2.1.trans hsE.2.2.2.2.1.symm,
      hse.2.2.2.2.2.1.trans hsE.2.2.2.2.2.1.symm,
      hse.2.2.2.2.2.2.1.trans hsE.2.2.2.2.2.2.1.symm,
      hse.2.2.2.2.2.2.2.1.trans hsE.2.2.2.2.2.2.2.1.symm,
      hse.2.2.2.2.2.2.2.2.trans hsE.2.2.2.2.2.2.2.2.symm⟩
    (TreeWf_frame htP hsP.2.2.2.2.2.2.1 hsP.2.2.2.2.2.2.2.1 hsP.2.2.2.2.2.2.2.2
      (by rw [t1]) (by rw [t3]) (fun x hx => by rw [hfr] at hx; exact hx)
      (fun n _ => by rw [t3]))
    (hsE.2.2.2.2.2.2.1.trans hEd) (hsE.2.2.2.2.2.2.2.1.trans hE1)
    (hsE.2.2.2.2.2.2.2.2.trans hE2) (hsE.2.2.2.2.2.1.trans hEc) (hsE.2.1.trans hEr)
    (by rw [hse.1, hEdir]; exact hD0) hN
    (by
      rw [hsP.2.1, ← hsd.2.1]
      omega)
    (fun c hc => by rw [hrefP, t3]; exact hl c hc)
    (fun c hc => by rw [hrefP, hfr]; exact hPfree c hc) hs
  have hq0 : (0 : Nat) / k.DPC = 0 := Nat.zero_div _
  obtain ⟨z0, z1, z2⟩ := vazia_entries k P E hDPC
  refine ⟨?_, ?_, fun j h2 hj => ?_, d2, d3, d4, ?_⟩
  · unfold dirEntry
    rw [Nat.zero_div, Nat.zero_mod, d1]
    exact z0
  · unfold dirEntry
    rw [Nat.div_eq_of_lt (by omega), Nat.mod_eq_of_lt (by omega), d1]
    exact z1
  · unfold dirEntry
    rw [Nat.div_eq_of_lt hj, Nat.mod_eq_of_lt hj, d1]
    exact z2 j h2 hj
  · rw [d5, hsP.2.1]

theorem IInv_freshDirVolume : IInv dirConst freshDirVolume := by
  refine ⟨by decide, by decide, [2, 3, 4, 5, 6, 7], by decide, ?_, by decide,
    by unfold Path Path Path Path Path Path; decide, by unfold Closed; decide, by decide⟩
  intro n
  by_cases h : n < 8
  · interval_cases n <;> decide
  · constructor
    · intro hm
      simp only [List.mem_cons, List.mem_singleton, List.not_mem_nil, or_false] at hm
      omega
    · intro hm
      exact absurd hm.1 h

theorem DZInv_freshDirVolume : DZInv freshDirVolume :=
  ⟨⟨by decide, by decide, by decide, by decide, by decide, by decide, by decide, by decide,
    by decide, by decide⟩, by decide, by decide⟩

/-- C25, on the volume with the inode 1 allocated as a directory, added to the root directory
under the name `d`. -/
theorem C25_add_fresh_directory_witness :
    (IInv dirConst freshDirVolume ∧ DZInv freshDirVolume ∧
      TreeWf dirConst freshDirVolume (getI freshDirVolume.itable 0) ∧
      (getI freshDirVolume.itable 1).refcount = 0 ∧
      (getI freshDirVolume.itable 1).clucount = 0 ∧
      (getI freshDirVolume.itable 0).refcount = 2 ∧
      entryFree dirConst freshDirVolume.dzone (getI freshDirVolume.itable 0) 2 ∧
      (soAddAttDirEntry dirConst exampleEnv freshDirVolume 0 [100] 1 ADD).1 = 0) ∧
    (getI (soAddAttDirEntry dirConst exampleEnv freshDirVolume 0 [100] 1 ADD).2.itable
      1).refcount = 2 ∧
    (getI (soAddAttDirEntry dirConst exampleEnv freshDirVolume 0 [100] 1 ADD).2.itable
      1).size = dirConst.CLUSTER_SIZE ∧
    (getI (soAddAttDirEntry dirConst exampleEnv freshDirVolume 0 [100] 1 ADD).2.itable
      1).clucount = 1 ∧
    (getI (soAddAttDirEntry dirConst exampleEnv freshDirVolume 0 [100] 1 ADD).2.itable
      0).refcount = 3 :=
  ⟨⟨IInv_freshDirVolume, DZInv_freshDirVolume, by unfold TreeWf; decide, by decide, by decide,
      by decide, by decide, by decide⟩,
    (C25_add_fresh_directory dirConst exampleEnv freshDirVolume 0 1 [100] (by decide)
      IInv_freshDirVolume DZInv_freshDirVolume (by decide) (by decide) (by decide) (by decide)
      (by decide) (by decide) (by decide) (by decide) (by unfold TreeWf; decide) (by decide)
      (by decide) (by decide) (by decide) (by decide) (by decide) (by decide) (by decide)
      (by decide) (by decide) (by decide) (by decide) ⟨2, by decide, by decide⟩
      (by decide)).2.2.2⟩

/-! ## `soHandleFileCluster`: what the operation `FREE` leaves untouched -/

theorem mem_indClusters_iff {k : SOConst} {dz : List SODataClust} {p : SOInode} {n : Nat} :
    n ∈ indClusters k dz p ↔
      (p.i1 ≠ NULL_CLUSTER ∧ n = p.i1) ∨
      (p.i2 ≠ NULL_CLUSTER ∧ (n = p.i2 ∨
        ∃ q, q < k.RPC ∧ getRef (getDC dz p.i2) q ≠ NULL_CLUSTER ∧
          n = getRef (getDC dz p.i2) q)) := by
  unfold indClusters sngClusters
  by_cases h1 : p.i1 = NULL_CLUSTER <;> by_cases h2 : p.i2 = NULL_CLUSTER <;>
    simp only [h1, h2, if_true, if_false, List.append_nil, List.nil_append, List.mem_append,
      List.mem_singleton, List.mem_cons, List.mem_filter, List.mem_map, List.mem_range,
      List.not_mem_nil, ne_eq, not_true_eq_false, not_false_eq_true, false_and, true_and,
      false_or, or_false, decide_eq_true_eq]
  · constructor
    · rintro (h | ⟨⟨q, hq, rfl⟩, hn⟩)
      · exact Or.inl h
      · exact Or.inr ⟨q, hq, hn, rfl⟩
    · rintro (h | ⟨q, hq, hn, rfl⟩)
      · exact Or.inl h
      · exact Or.inr ⟨⟨q, hq, rfl⟩, hn⟩
  · constructor
    · rintro (h | h | ⟨⟨q, hq, rfl⟩, hn⟩)
      · exact Or.inl h
      · exact Or.inr (Or.inl h)
      · exact Or.inr (Or.inr ⟨q, hq, hn, rfl⟩)
    · rintro (h | h | ⟨q, hq, hn, rfl⟩)
      · exact Or.inl h
      · exact Or.inr (Or.inl h)
      · exact Or.inr (Or.inr ⟨⟨q, hq, rfl⟩, hn⟩)

theorem null_not_mem_indClusters (k : SOConst) (dz : List SODataClust) (p : SOInode) :
    NULL_CLUSTER ∉ indClusters k dz p := by
  rw [mem_indClusters_iff]
  rintro (⟨h, e⟩ | ⟨h, e | ⟨q, _, hn, e⟩⟩)
  · exact h e.symm
  · exact h e.symm
  · exact hn e.symm

theorem Shrinks_refl (dz : List SODataClust) (p : SOInode) : Shrinks dz p dz p :=
  ⟨rfl, rfl, fun _ => rfl, fun _ _ => Or.inl rfl, Or.inl rfl, Or.inl rfl, fun _ => Or.inl rfl⟩

theorem Shrinks_trans {dz dz1 dz2 : List SODataClust} {p p1 p2 : SOInode}
    (h1 : Shrinks dz p dz1 p1) (h2 : Shrinks dz1 p1 dz2 p2) : Shrinks dz p dz2 p2 := by
  obtain ⟨a1, a2, a3, a4, a5, a6, a7⟩ := h1
  obtain ⟨b1, b2, b3, b4, b5, b6, b7⟩ := h2
  refine ⟨b1.trans a1, b2.trans a2, fun m => (b3 m).trans (a3 m), ?_, ?_, ?_, ?_⟩
  · intro m j
    rcases b4 m j with h | h
    · rw [h]; exact a4 m j
    · exact Or.inr h
  · rcases b5 with h | h
    · rw [h]; exact a5
    · exact Or.inr h
  · rcases b6 with h | h
    · rw [h]; exact a6
    · exact Or.inr h
  · intro j
    rcases b7 j with h | h
    · rw [h]; exact a7 j
    · exact Or.inr h

/-- Storing a cluster whose references are those of the cluster it replaces, or
`NULL_CLUSTER`, shrinks the references. -/
theorem Shrinks_set (dz : List SODataClust) (p : SOInode) (n : Nat) (c : SODataClust)
    (hl : c.ref.length = (getDC dz n).ref.length)
    (hr : ∀ j, getRef c j = getRef (getDC dz n) j ∨ getRef c j = NULL_CLUSTER) :
    Shrinks dz p (dz.set n c) p := by
  refine ⟨List.length_set _ _ _, rfl, ?_, ?_, Or.inl rfl, Or.inl rfl, fun _ => Or.inl rfl⟩
  · intro m
    rw [getDC_set]
    split_ifs with h
    · rw [hl, h.1]
    · rfl
  · intro m j
    rw [getDC_set]
    split_ifs with h
    · rw [← h.1]; exact hr j
    · exact Or.inl rfl

theorem Shrinks_setRef (dz : List SODataClust) (p : SOInode) (n j : Nat) :
    Shrinks dz p (dz.set n (setRef (getDC dz n) j NULL_CLUSTER)) p := by
  apply Shrinks_set
  · exact setRef_length _ _ _
  · intro i
    rw [getRef_setRef]
    split_ifs
    · exact Or.inr rfl
    · exact Or.inl rfl

/-- A change of the record of the inode that clears references shrinks them. -/
theorem Shrinks_record (dz : List SODataClust) {p p' : SOInode}
    (hd : p'.d.length = p.d.length)
    (h1 : p'.i1 = p.i1 ∨ p'.i1 = NULL_CLUSTER) (h2 : p'.i2 = p.i2 ∨ p'.i2 = NULL_CLUSTER)
    (h3 : ∀ j, p'.d.getD j 0 = p.d.getD j 0 ∨ p'.d.getD j 0 = NULL_CLUSTER) :
    Shrinks dz p dz p' :=
  ⟨rfl, hd, fun _ => rfl, fun _ _ => Or.inl rfl, h1, h2, h3⟩

theorem refOfIndex_shrinks {k : SOConst} {dz dz' : List SODataClust} {p p' : SOInode}
    (h : Shrinks dz p dz' p') (c : Nat) :
    refOfIndex k dz' p' c = refOfIndex k dz p c ∨ refOfIndex k dz' p' c = NULL_CLUSTER := by
  obtain ⟨a1, a2, a3, a4, a5, a6, a7⟩ := h
  unfold refOfIndex
  by_cases h1 : c < k.N_DIRECT
  · rw [if_pos h1, if_pos h1]; exact a7 c
  rw [if_neg h1, if_neg h1]
  by_cases h2 : c < k.N_DIRECT + k.RPC
  · rw [if_pos h2, if_pos h2]
    rcases a5 with e | e
    · rw [e]
      by_cases hn : p.i1 = NULL_CLUSTER
      · simp only [if_pos hn]; exact Or.inl trivial
      · simp only [if_neg hn]; exact a4 _ _
    · rw [if_pos e]; exact Or.inr rfl
  rw [if_neg h2, if_neg h2]
  rcases a6 with e | e
  · rw [e]
    by_cases hn : p.i2 = NULL_CLUSTER
    · simp only [if_pos hn]; exact Or.inl trivial
    · simp only [if_neg hn]
      rcases a4 p.i2 ((c - k.N_DIRECT - k.RPC) / k.RPC) with e2 | e2
      · rw [e2]
        by_cases hT : getRef (getDC dz p.i2) ((c - k.N_DIRECT - k.RPC) / k.RPC) = NULL_CLUSTER
        · simp only [if_pos hT]; exact Or.inl trivial
        · simp only [if_neg hT]; exact a4 _ _
      · rw [if_pos e2]; exact Or.inr rfl
  · rw [if_pos e]; exact Or.inr rfl

theorem filter_map_sublist_of_shrinks (f g : Nat → Nat) (l : List Nat)
    (h : ∀ q ∈ l, g q = f q ∨ g q = NULL_CLUSTER) :
    List.Sublist ((l.map g).filter fun n => n ≠ NULL_CLUSTER)
      ((l.map f).filter fun n => n ≠ NULL_CLUSTER) := by
  induction l with
  | nil => exact List.Sublist.refl _
  | cons a t ih =>
    have iht := ih (fun q hq => h q (List.mem_cons_of_mem _ hq))
    simp only [List.map_cons, List.filter_cons]
    rcases h a (List.mem_cons_self _ _) with e | e
    · rw [e]
      split_ifs
      · exact iht.cons₂ _
      · exact iht
    · rw [e]
      simp only [ne_eq, not_true_eq_false, decide_False, Bool.false_eq_true, if_false]
      split_ifs
      · exact iht.cons _
      · exact iht

theorem indClusters_sublist {k : SOConst} {dz dz' : List SODataClust} {p p' : SOInode}
    (h : Shrinks dz p dz' p') :
    List.Sublist (indClusters k dz' p') (indClusters k dz p) := by
  obtain ⟨a1, a2, a3, a4, a5, a6, a7⟩ := h
  unfold indClusters
  apply List.Sublist.append
  · rcases a5 with e | e
    · rw [e]
    · rw [if_pos e]; exact List.nil_sublist _
  · rcases a6 with e | e
    · rw [e]
      by_cases hn : p.i2 = NULL_CLUSTER
      · rw [if_pos hn, if_pos hn]
      · rw [if_neg hn, if_neg hn]
        apply List.Sublist.cons₂
        unfold sngClusters
        rw [e]
        exact filter_map_sublist_of_shrinks _ _ _ (fun q _ => a4 p.i2 q)
    · rw [if_pos e]; exact List.nil_sublist _

theorem Leaves_of_shrinks {k : SOConst} {dz dz' : List SODataClust} {p p' : SOInode}
    (hl : Leaves k dz p) (h : Shrinks dz p dz' p') : Leaves k dz' p' := by
  intro c hc hm
  rcases @refOfIndex_shrinks k _ _ _ _ h c with e | e
  · rw [e] at hm
    exact hl c hc ((indClusters_sublist h).subset hm)
  · rw [e] at hm
    exact null_not_mem_indClusters _ _ _ hm

theorem TreeWf_of_shrinks {k : SOConst} {v v' : Volume} {p p' : SOInode}
    (ht : TreeWf k v p) (h : Shrinks v.dzone p v'.dzone p')
    (hT : v'.sb.dzone_total = v.sb.dzone_total)
    (hF : ∀ n ∈ indClusters k v'.dzone p', n ∉ freeRefs v') : TreeWf k v' p' := by
  have hsub := @indClusters_sublist k _ _ _ _ h
  obtain ⟨a1, a2, a3, a4, a5, a6, a7⟩ := h
  obtain ⟨t1, t2, t3, t4, t5⟩ := ht
  refine ⟨a2.trans t1, ?_, ?_, hsub.nodup t4, ?_⟩
  · intro n hn
    rw [a3]
    exact t2 n (hsub.subset hn)
  · rw [hT, a1]; exact t3
  · intro n hn
    rw [hT]
    exact ⟨(t5 n (hsub.subset hn)).1, hF n hn⟩

theorem dec32_lt (x : Nat) : dec32 x < 4294967296 := by
  unfold dec32; omega

theorem TreeWf_after_free {k : SOConst} {v v' : Volume} {p p' : SOInode}
    (ht : TreeWf k v p) (h : Shrinks v.dzone p v'.dzone p')
    (hT : v'.sb.dzone_total = v.sb.dzone_total) (fr : List Nat)
    (hfr : freeRefs v' = freeRefs v ++ fr)
    (hno : ∀ x ∈ fr, x ∉ indClusters k v'.dzone p') : TreeWf k v' p' := by
  apply TreeWf_of_shrinks ht h hT
  intro n hn hf
  rw [hfr, List.mem_append] at hf
  rcases hf with hf | hf
  · exact (ht.2.2.2.2 n ((indClusters_sublist h).subset hn)).2 hf
  · exact hno n hf hn

theorem Tight_congr {k : SOConst} {dz dz' : List SODataClust} {p p' : SOInode}
    (h : Tight k dz p) (h1 : p'.i1 = p.i1) (h2 : p'.i2 = p.i2)
    (hd : ∀ n ∈ indClusters k dz p, getDC dz' n = getDC dz n) : Tight k dz' p' := by
  obtain ⟨t1, t2⟩ := h
  constructor
  · intro hn
    rw [h1] at hn ⊢
    rw [hd _ (i1_mem_indClusters hn)]
    exact t1 hn
  · intro hn
    rw [h2] at hn ⊢
    rw [hd _ (i2_mem_indClusters hn)]
    refine ⟨(t2 hn).1, ?_⟩
    intro q hq hq2
    rw [hd _ (sng_mem_indClusters hn hq hq2)]
    exact (t2 hn).2 q hq hq2

theorem soHandleDirect_frame {k : SOConst} {v : Volume} {p : SOInode} {c : Nat}
    (hdz : DZInv v) (ht : TreeWf k v p) (hlv : Leaves k v.dzone p) (hti : Tight k v.dzone p)
    (hc : c < k.N_DIRECT) (hs : (soHandleDirect v p c FREE).1 = 0) :
    FreeFrame k v p (soHandleDirect v p c FREE).2.1 (soHandleDirect v p c FREE).2.2.1 := by
  rw [soHandleDirect_FREE_eq] at hs ⊢
  have hL : p.d.getD c 0 ≠ NULL_CLUSTER := by
    intro h
    rw [if_pos h] at hs
    simp [EDCNOTIL] at hs
  rw [if_neg hL] at hs ⊢
  have hf : (soFreeDataCluster v (p.d.getD c 0)).1 = 0 := by
    by_contra h
    rw [if_pos h] at hs
    exact h hs
  rw [if_neg (not_not.2 hf)]
  obtain ⟨f1, f2, f3, f4, f5, f6, f7, f8, f9, f10, f11, f12⟩ := free_ok hdz _ hf
  have hcl : c < p.d.length := by rw [ht.1]; exact hc
  have href : refOfIndex k v.dzone p c = p.d.getD c 0 := by
    unfold refOfIndex; rw [if_pos hc]
  have hsh : Shrinks v.dzone p (soFreeDataCluster v (p.d.getD c 0)).2.dzone
      { p with d := p.d.set c NULL_CLUSTER, clucount := dec32 p.clucount } := by
    rw [f12]
    refine Shrinks_record _ (List.length_set _ _ _) (Or.inl rfl) (Or.inl rfl) ?_
    intro j
    show (p.d.set c NULL_CLUSTER).getD j 0 = _ ∨ (p.d.set c NULL_CLUSTER).getD j 0 = _
    rw [List.getD_eq_getElem?_getD, List.getD_eq_getElem?_getD, List.getElem?_set]
    split_ifs
    · exact Or.inr rfl
    · exact Or.inl rfl
  refine ⟨hsh, ?_, ?_, ?_, rfl, dec32_lt _, ?_, f7⟩
  · intro m _
    show getDC (soFreeDataCluster v (p.d.getD c 0)).2.dzone m = _
    rw [f12]
  · refine TreeWf_after_free ht hsh f7 [p.d.getD c 0] f2 ?_
    intro x hx hm
    rw [List.mem_singleton] at hx
    have := hlv c (by unfold MAX_FILE_CLUSTERS; omega)
    rw [href, ← hx] at this
    exact this ((indClusters_sublist hsh).subset hm)
  · exact Tight_congr hti rfl rfl (fun n _ => by
      show getDC (soFreeDataCluster v (p.d.getD c 0)).2.dzone n = _
      rw [f12])
  · intro hlt heq
    show (soFreeDataCluster v (p.d.getD c 0)).2.sb.dzone_free + dec32 p.clucount = _
    rw [f6]
    have hcnt := countP_set_null p.d c hcl hL
    unfold cluCount at heq
    rw [dec32_pos (by omega) hlt]
    omega

theorem getDC_set_ne (dz : List SODataClust) {n m : Nat} (c : SODataClust) (h : m ≠ n) :
    getDC (dz.set n c) m = getDC dz m := by
  rw [getDC_set, if_neg (fun e => h e.1.symm)]

theorem usedRefs_pos {k : SOConst} {c : SODataClust} {j : Nat} (hj : j < k.RPC)
    (h : getRef c j ≠ NULL_CLUSTER) : 0 < usedRefs k c := by
  by_contra h0
  have h1 : usedRefs k c = 0 := by omega
  rw [usedRefs_eq_zero_iff, allNull_iff] at h1
  exact h (h1 j hj)

theorem allNull_false_of {k : SOConst} {c : SODataClust} (h : ¬ allNull k c = true) :
    allNull k c = false := by
  cases hb : allNull k c
  · rfl
  · exact absurd hb h

theorem soHandleSIndirect_frame {k : SOConst} {v : Volume} {p : SOInode} {c : Nat}
    (hdz : DZInv v) (ht : TreeWf k v p) (hlv : Leaves k v.dzone p) (hti : Tight k v.dzone p)
    (hc1 : k.N_DIRECT ≤ c) (hc2 : c < k.N_DIRECT + k.RPC)
    (hs : (soHandleSIndirect k v p c FREE).1 = 0) :
    FreeFrame k v p (soHandleSIndirect k v p c FREE).2.1
      (soHandleSIndirect k v p c FREE).2.2.1 := by
  have hi1 : p.i1 ≠ NULL_CLUSTER := by
    intro h
    rw [soHandleSIndirect_FREE_null k v p c h] at hs
    simp [EDCNOTIL] at hs
  have hlen := TreeWf_i1_lt ht hi1
  have hrel : c - k.N_DIRECT < k.RPC := by omega
  have hreflen : (getDC v.dzone p.i1).ref.length = k.RPC := ht.2.1 _ (i1_mem_indClusters hi1)
  rw [soHandleSIndirect_FREE_eq k v p c hi1 hlen] at hs ⊢
  have hL : getRef (getDC v.dzone p.i1) (c - k.N_DIRECT) ≠ NULL_CLUSTER := by
    intro h
    rw [if_pos h] at hs
    simp [EDCNOTIL] at hs
  rw [if_neg hL] at hs ⊢
  have hf : (soFreeDataCluster v (getRef (getDC v.dzone p.i1) (c - k.N_DIRECT))).1 = 0 := by
    by_contra h
    rw [if_pos h] at hs
    exact h hs
  rw [if_neg (not_not.2 hf)] at hs ⊢
  obtain ⟨f1, f2, f3, f4, f5, f6, f7, f8, f9, f10, f11, f12⟩ := free_ok hdz _ hf
  have href : refOfIndex k v.dzone p c = getRef (getDC v.dzone p.i1) (c - k.N_DIRECT) := by
    unfold refOfIndex
    rw [if_neg (by omega), if_pos hc2, if_neg hi1]
  have hLno : getRef (getDC v.dzone p.i1) (c - k.N_DIRECT) ∉ indClusters k v.dzone p := by
    rw [← href]
    exact hlv c (by unfold MAX_FILE_CLUSTERS; omega)
  have hne2 : p.i2 ≠ NULL_CLUSTER → p.i2 ≠ p.i1 := fun h2 => (TreeWf_i1_ne_i2 ht hi1 h2).symm
  have hgetS : getDC (v.dzone.set p.i1
      (setRef (getDC v.dzone p.i1) (c - k.N_DIRECT) NULL_CLUSTER)) p.i1
      = setRef (getDC v.dzone p.i1) (c - k.N_DIRECT) NULL_CLUSTER := by
    rw [getDC_set, if_pos ⟨rfl, hlen⟩]
  have hS : cluCountS k v.dzone p.i1 = 1 + usedRefs k (getDC v.dzone p.i1) := by
    unfold cluCountS; rw [if_neg hi1]
  have hup := usedRefs_pos hrel hL
  -- the part of the tree under `i2` is untouched
  have hti2 : ∀ p' : SOInode, p'.i2 = p.i2 → p'.i2 ≠ NULL_CLUSTER →
      allNull k (getDC (v.dzone.set p.i1
        (setRef (getDC v.dzone p.i1) (c - k.N_DIRECT) NULL_CLUSTER)) p'.i2) = false ∧
      ∀ q, q < k.RPC → getRef (getDC (v.dzone.set p.i1
        (setRef (getDC v.dzone p.i1) (c - k.N_DIRECT) NULL_CLUSTER)) p'.i2) q ≠ NULL_CLUSTER →
        allNull k (getDC (v.dzone.set p.i1
          (setRef (getDC v.dzone p.i1) (c - k.N_DIRECT) NULL_CLUSTER))
          (getRef (getDC (v.dzone.set p.i1
            (setRef (getDC v.dzone p.i1) (c - k.N_DIRECT) NULL_CLUSTER)) p'.i2) q)) = false := by
    intro p' e2 h2
    rw [e2] at h2 ⊢
    rw [getDC_set_ne _ _ (hne2 h2)]
    refine ⟨(hti.2 h2).1, ?_⟩
    intro q hq hq2
    rw [getDC_set_ne _ _ (TreeWf_i1_ne_sng ht hi1 h2 hq hq2).symm]
    exact (hti.2 h2).2 q hq hq2
  have hframe : ∀ m, m ∉ indClusters k v.dzone p → getDC (v.dzone.set p.i1
      (setRef (getDC v.dzone p.i1) (c - k.N_DIRECT) NULL_CLUSTER)) m = getDC v.dzone m := by
    intro m hm
    apply getDC_set_ne
    intro e
    exact hm (e ▸ i1_mem_indClusters hi1)
  by_cases hall : allNull k (setRef (getDC v.dzone p.i1) (c - k.N_DIRECT) NULL_CLUSTER) = true
  · rw [if_pos hall] at hs ⊢
    have hdz1 : DZInv (soStoreDirRefClust
        (soFreeDataCluster v (getRef (getDC v.dzone p.i1) (c - k.N_DIRECT))).2 p.i1
        (setRef (getDC v.dzone p.i1) (c - k.N_DIRECT) NULL_CLUSTER)) := DZInv_set_dzone f1 _
    have hf2 : (soFreeDataCluster (soStoreDirRefClust
        (soFreeDataCluster v (getRef (getDC v.dzone p.i1) (c - k.N_DIRECT))).2 p.i1
        (setRef (getDC v.dzone p.i1) (c - k.N_DIRECT) NULL_CLUSTER)) p.i1).1 = 0 := by
      by_contra h
      rw [if_pos h] at hs
      exact h hs
    rw [if_neg (not_not.2 hf2)]
    obtain ⟨g1, g2, g3, g4, g5, g6, g7, g8, g9, g10, g11, g12⟩ := free_ok hdz1 _ hf2
    have hdzeq : (soFreeDataCluster (soStoreDirRefClust
        (soFreeDataCluster v (getRef (getDC v.dzone p.i1) (c - k.N_DIRECT))).2 p.i1
        (setRef (getDC v.dzone p.i1) (c - k.N_DIRECT) NULL_CLUSTER)) p.i1).2.dzone
        = v.dzone.set p.i1 (setRef (getDC v.dzone p.i1) (c - k.N_DIRECT) NULL_CLUSTER) := by
      rw [g12]
      show (soFreeDataCluster v _).2.dzone.set _ _ = _
      rw [f12]
    have hfr : freeRefs (soFreeDataCluster (soStoreDirRefClust
        (soFreeDataCluster v (getRef (getDC v.dzone p.i1) (c - k.N_DIRECT))).2 p.i1
        (setRef (getDC v.dzone p.i1) (c - k.N_DIRECT) NULL_CLUSTER)) p.i1).2
        = freeRefs v ++ [getRef (getDC v.dzone p.i1) (c - k.N_DIRECT), p.i1] := by
      rw [g2]
      show freeRefs (soFreeDataCluster v _).2 ++ _ = _
      rw [f2, List.append_assoc]
      rfl
    have hfree : (soFreeDataCluster (soStoreDirRefClust
        (soFreeDataCluster v (getRef (getDC v.dzone p.i1) (c - k.N_DIRECT))).2 p.i1
        (setRef (getDC v.dzone p.i1) (c - k.N_DIRECT) NULL_CLUSTER)) p.i1).2.sb.dzone_free
        = v.sb.dzone_free + 2 := by
      rw [g6]
      show (soFreeDataCluster v _).2.sb.dzone_free + 1 = _
      rw [f6]
    have htot : (soFreeDataCluster (soStoreDirRefClust
        (soFreeDataCluster v (getRef (getDC v.dzone p.i1) (c - k.N_DIRECT))).2 p.i1
        (setRef (getDC v.dzone p.i1) (c - k.N_DIRECT) NULL_CLUSTER)) p.i1).2.sb.dzone_total
        = v.sb.dzone_total := by
      rw [g7]
      show (soFreeDataCluster v _).2.sb.dzone_total = _
      rw [f7]
    generalize (soFreeDataCluster (soStoreDirRefClust
        (soFreeDataCluster v (getRef (getDC v.dzone p.i1) (c - k.N_DIRECT))).2 p.i1
        (setRef (getDC v.dzone p.i1) (c - k.N_DIRECT) NULL_CLUSTER)) p.i1).2 = v' at *
    have hsh : Shrinks v.dzone p v'.dzone
        { p with i1 := NULL_CLUSTER, clucount := dec32 (dec32 p.clucount) } := by
      rw [hdzeq]
      exact Shrinks_trans (Shrinks_setRef v.dzone p p.i1 (c - k.N_DIRECT))
        (Shrinks_record _ rfl (Or.inr rfl) (Or.inl rfl) (fun _ => Or.inl rfl))
    refine ⟨hsh, ?_, ?_, ?_, rfl, dec32_lt _, ?_, htot⟩
    · intro m hm
      show getDC v'.dzone m = _
      rw [hdzeq]; exact hframe m hm
    · refine TreeWf_after_free ht hsh htot _ hfr ?_
      intro x hx hm
      rcases List.mem_cons.1 hx with e | hx
      · exact hLno (e ▸ (indClusters_sublist hsh).subset hm)
      · rw [List.mem_singleton] at hx
        rw [mem_indClusters_iff, hdzeq] at hm
        rcases hm with ⟨h, _⟩ | ⟨h2, e | ⟨q, hq, hq2, e⟩⟩
        · exact h rfl
        · exact hne2 h2 (e.symm.trans hx)
        · have h2' : p.i2 ≠ NULL_CLUSTER := h2
          rw [show ({ p with i1 := NULL_CLUSTER, clucount := dec32 (dec32 p.clucount) } :
            SOInode).i2 = p.i2 from rfl, getDC_set_ne _ _ (hne2 h2')] at hq2 e
          exact TreeWf_i1_ne_sng ht hi1 h2' hq hq2 (hx.symm.trans e)
    · rw [hdzeq]
      exact ⟨fun h => absurd rfl h, fun h2 => hti2 _ rfl h2⟩
    · intro hlt heq
      show v'.sb.dzone_free + dec32 (dec32 p.clucount) = _
      rw [hfree]
      unfold cluCount at heq
      rw [hS] at heq
      rw [dec32_pos (by omega) hlt, dec32_pos (by omega) (by omega)]
      omega
  · rw [if_neg hall]
    have hsh : Shrinks v.dzone p (soStoreDirRefClust
        (soFreeDataCluster v (getRef (getDC v.dzone p.i1) (c - k.N_DIRECT))).2 p.i1
        (setRef (getDC v.dzone p.i1) (c - k.N_DIRECT) NULL_CLUSTER)).dzone
        { p with clucount := dec32 p.clucount } := by
      show Shrinks v.dzone p ((soFreeDataCluster v _).2.dzone.set _ _) _
      rw [f12]
      exact Shrinks_trans (Shrinks_setRef v.dzone p p.i1 (c - k.N_DIRECT))
        (Shrinks_record _ rfl (Or.inl rfl) (Or.inl rfl) (fun _ => Or.inl rfl))
    refine ⟨hsh, ?_, ?_, ?_, rfl, dec32_lt _, ?_, f7⟩
    · intro m hm
      show getDC ((soFreeDataCluster v _).2.dzone.set _ _) m = _
      rw [f12]; exact hframe m hm
    · refine TreeWf_after_free ht hsh f7 [getRef (getDC v.dzone p.i1) (c - k.N_DIRECT)] f2 ?_
      intro x hx hm
      rw [List.mem_singleton] at hx
      exact hLno (hx ▸ (indClusters_sublist hsh).subset hm)
    · show Tight k ((soFreeDataCluster v _).2.dzone.set _ _) _
      rw [f12]
      refine ⟨fun _ => ?_, fun h2 => hti2 _ rfl h2⟩
      show allNull k (getDC _ p.i1) = false
      rw [hgetS]
      exact allNull_false_of hall
    · intro hlt heq
      show (soFreeDataCluster v _).2.sb.dzone_free + dec32 p.clucount = _
      rw [f6]
      unfold cluCount at heq
      rw [hS] at heq
      rw [dec32_pos (by omega) hlt]
      omega

theorem Shrinks_set_set (dz : List SODataClust) (p : SOInode) (a b r : Nat) (y : SODataClust)
    (hne : b ≠ a) (hl : y.ref.length = (getDC dz b).ref.length)
    (hr : ∀ j, getRef y j = getRef (getDC dz b) j ∨ getRef y j = NULL_CLUSTER) :
    Shrinks dz p ((dz.set a (setRef (getDC dz a) r NULL_CLUSTER)).set b y) p := by
  refine Shrinks_trans (Shrinks_setRef dz p a r) (Shrinks_set _ p b y ?_ ?_)
  · rw [getDC_set_ne _ _ hne]; exact hl
  · rw [getDC_set_ne _ _ hne]; exact hr

theorem getDC_set_set_ne (dz : List SODataClust) {a b m : Nat} (x y : SODataClust)
    (ha : m ≠ a) (hb : m ≠ b) : getDC ((dz.set a x).set b y) m = getDC dz m := by
  rw [getDC_set_ne _ _ hb, getDC_set_ne _ _ ha]

theorem sum_range_ge (f : Nat → Nat) (n i : Nat) (hi : i < n) :
    f i ≤ ((List.range n).map f).sum := by
  have h := sum_range_update_lt f (fun j => if j = i then 0 else f j) n i hi (by
    intro j _ hj
    show (if j = i then 0 else f j) = f j
    rw [if_neg hj])
  simp only [if_true] at h
  omega

theorem dIndirectFree_frame {k : SOConst} {v : Volume} {p : SOInode} {q r : Nat}
    (hdz : DZInv v) (ht : TreeWf k v p) (hti : Tight k v.dzone p)
    (hq : q < k.RPC) (hr : r < k.RPC)
    (hLno : getRef (getDC v.dzone (getRef (getDC v.dzone p.i2) q)) r ∉ indClusters k v.dzone p)
    (hs : (dIndirectFree k v p q r).1 = 0) :
    FreeFrame k v p (dIndirectFree k v p q r).2.1 (dIndirectFree k v p q r).2.2.1 := by
  have hi2 : p.i2 ≠ NULL_CLUSTER := by
    intro h
    rw [dIndirectFree_null2 k v p q r h] at hs
    simp [EDCNOTIL] at hs
  have hz := TreeWf_RefsInZone ht
  have hlen2 := (hz.2 hi2).1
  have hT : getRef (getDC v.dzone p.i2) q ≠ NULL_CLUSTER := by
    intro h
    rw [dIndirectFree_nullT k v p q r hi2 hlen2 h] at hs
    simp [EDCNOTIL] at hs
  have hlenT := (hz.2 hi2).2 q hq hT
  have hne2T := TreeWf_i2_ne_sng ht hi2 hq hT
  have hTother : ∀ q', q' < k.RPC → q' ≠ q →
      getRef (getDC v.dzone p.i2) q' ≠ getRef (getDC v.dzone p.i2) q := fun q' hq' hne =>
    (TreeWf_sng_ne_sng ht hi2 hq hq' (Ne.symm hne) hT).symm
  have h2other : ∀ q', q' < k.RPC → getRef (getDC v.dzone p.i2) q' ≠ NULL_CLUSTER →
      getRef (getDC v.dzone p.i2) q' ≠ p.i2 := fun q' hq' hn =>
    (TreeWf_i2_ne_sng ht hi2 hq' hn).symm
  have hi1ne2 : p.i1 ≠ NULL_CLUSTER → p.i1 ≠ p.i2 := fun h1 => TreeWf_i1_ne_i2 ht h1 hi2
  have hi1neT : p.i1 ≠ NULL_CLUSTER → p.i1 ≠ getRef (getDC v.dzone p.i2) q := fun h1 =>
    TreeWf_i1_ne_sng ht h1 hi2 hq hT
  have hdIlen : (getDC v.dzone p.i2).ref.length = k.RPC := ht.2.1 _ (i2_mem_indClusters hi2)
  have hsIlen : (getDC v.dzone (getRef (getDC v.dzone p.i2) q)).ref.length = k.RPC :=
    ht.2.1 _ (sng_mem_indClusters hi2 hq hT)
  have hTmem : getRef (getDC v.dzone p.i2) q ∈ indClusters k v.dzone p :=
    sng_mem_indClusters hi2 hq hT
  have hti2 := hti.2 hi2
  have hti1 := hti.1
  rw [dIndirectFree_eq k v p q r hi2 hlen2 hT hlenT] at hs ⊢
  have hD0 : cluCountD k v.dzone p.i2 = 1 + ((List.range k.RPC).map fun q' =>
      cluCountS k v.dzone (getRef (getDC v.dzone p.i2) q')).sum := by
    unfold cluCountD; rw [if_neg hi2]
  have hge := sum_range_ge (fun q' => cluCountS k v.dzone (getRef (getDC v.dzone p.i2) q'))
    k.RPC q hq
  have hSq : cluCountS k v.dzone (getRef (getDC v.dzone p.i2) q)
      = 1 + usedRefs k (getDC v.dzone (getRef (getDC v.dzone p.i2) q)) := by
    unfold cluCountS; rw [if_neg hT]
  have hL : getRef (getDC v.dzone (getRef (getDC v.dzone p.i2) q)) r ≠ NULL_CLUSTER := by
    intro h
    rw [if_pos h] at hs
    simp [EDCNOTIL] at hs
  have hup := usedRefs_pos hr hL
  have h3 : 3 ≤ cluCountD k v.dzone p.i2 := by
    rw [hD0]
    dsimp only at hge
    omega
  clear hD0 hge hSq hup
  generalize hdI : getDC v.dzone p.i2 = dI at *
  generalize hTe : getRef dI q = T at *
  generalize hsI : getDC v.dzone T = sI at *
  generalize hLe : getRef sI r = L at *
  rw [if_neg hL] at hs ⊢
  have hf : (soFreeDataCluster v L).1 = 0 := by
    by_contra h
    rw [if_pos h] at hs
    exact h hs
  rw [if_neg (not_not.2 hf)] at hs ⊢
  obtain ⟨f1, f2, f3, f4, f5, f6, f7, f8, f9, f10, f11, f12⟩ := free_ok hdz _ hf
  have hv1inv : DZInv (soStoreDirRefClust (soFreeDataCluster v L).2 T
      (setRef sI r NULL_CLUSTER)) := DZInv_set_dzone f1 _
  have hv1dz : (soStoreDirRefClust (soFreeDataCluster v L).2 T
      (setRef sI r NULL_CLUSTER)).dzone = v.dzone.set T (setRef sI r NULL_CLUSTER) := by
    show (soFreeDataCluster v L).2.dzone.set _ _ = _
    rw [f12]
  have hv1fr : freeRefs (soStoreDirRefClust (soFreeDataCluster v L).2 T
      (setRef sI r NULL_CLUSTER)) = freeRefs v ++ [L] := f2
  have hv1a : (soStoreDirRefClust (soFreeDataCluster v L).2 T
      (setRef sI r NULL_CLUSTER)).sb.dzone_free = v.sb.dzone_free + 1 := f6
  have hv1b : (soStoreDirRefClust (soFreeDataCluster v L).2 T
      (setRef sI r NULL_CLUSTER)).sb.dzone_total = v.sb.dzone_total := f7
  generalize soStoreDirRefClust (soFreeDataCluster v L).2 T (setRef sI r NULL_CLUSTER) = v1 at *
  -- what the three cases share
  have hsh : ∀ y : SODataClust, y.ref.length = dI.ref.length →
      (∀ j, getRef y j = getRef dI j ∨ getRef y j = NULL_CLUSTER) →
      Shrinks v.dzone p ((v.dzone.set T (setRef sI r NULL_CLUSTER)).set p.i2 y) p := by
    intro y h1 h2
    have := Shrinks_set_set v.dzone p T p.i2 r y hne2T (by rw [hdI]; exact h1)
      (by rw [hdI]; exact h2)
    rw [hsI] at this
    exact this
  have hframe : ∀ (y : SODataClust) (m : Nat), m ∉ indClusters k v.dzone p →
      getDC ((v.dzone.set T (setRef sI r NULL_CLUSTER)).set p.i2 y) m = getDC v.dzone m := by
    intro y m hm
    apply getDC_set_set_ne
    · intro e; exact hm (e ▸ hTmem)
    · intro e; exact hm (e ▸ i2_mem_indClusters hi2)
  have hg1 : ∀ y : SODataClust, p.i1 ≠ NULL_CLUSTER →
      getDC ((v.dzone.set T (setRef sI r NULL_CLUSTER)).set p.i2 y) p.i1 = getDC v.dzone p.i1 :=
    fun y h1 => getDC_set_set_ne _ _ _ (hi1neT h1) (hi1ne2 h1)
  have hq' : q < dI.ref.length := by rw [hdIlen]; exact hq
  have hqq : q = q ∧ q < dI.ref.length := ⟨rfl, hq'⟩
  have hshr : ∀ j, getRef (setRef dI q NULL_CLUSTER) j = getRef dI j ∨
      getRef (setRef dI q NULL_CLUSTER) j = NULL_CLUSTER := by
    intro j
    rw [getRef_setRef]
    split_ifs
    · exact Or.inr rfl
    · exact Or.inl rfl
  by_cases hall : allNull k (setRef sI r NULL_CLUSTER) = true
  · rw [if_pos hall] at hs ⊢
    have hf2 : (soFreeDataCluster v1 T).1 = 0 := by
      by_contra h
      rw [if_pos h] at hs
      exact h hs
    rw [if_neg (not_not.2 hf2)] at hs ⊢
    obtain ⟨g1, g2, g3, g4, g5, g6, g7, g8, g9, g10, g11, g12⟩ := free_ok hv1inv _ hf2
    have hv2dz := g12.trans hv1dz
    have hv2fr : freeRefs (soFreeDataCluster v1 T).2 = freeRefs v ++ [L, T] := by
      rw [g2, hv1fr, List.append_assoc]; rfl
    have hv2a : (soFreeDataCluster v1 T).2.sb.dzone_free = v.sb.dzone_free + 2 := by
      rw [g6, hv1a]
    have hv2b := g7.trans hv1b
    clear g2 g3 g4 g5 g6 g7 g8 g9 g10 g11 g12
    generalize (soFreeDataCluster v1 T).2 = v2 at *
    have hlen2' : p.i2 < v2.dzone.length := by
      rw [hv2dz, List.length_set]; exact hlen2
    rw [dIndirectFreeTop_eq k v2 { p with clucount := dec32 (dec32 p.clucount) }
      (setRef dI q NULL_CLUSTER) hlen2'] at hs ⊢
    dsimp only at hs ⊢
    have hv3inv : DZInv (soStoreSngIndRefClust v2 p.i2 (setRef dI q NULL_CLUSTER)) :=
      DZInv_set_dzone g1 _
    have hdz' : (soStoreSngIndRefClust v2 p.i2 (setRef dI q NULL_CLUSTER)).dzone
        = (v.dzone.set T (setRef sI r NULL_CLUSTER)).set p.i2 (setRef dI q NULL_CLUSTER) := by
      show v2.dzone.set _ _ = _
      rw [hv2dz]
    have hfr' : freeRefs (soStoreSngIndRefClust v2 p.i2 (setRef dI q NULL_CLUSTER))
        = freeRefs v ++ [L, T] := hv2fr
    have hv3a : (soStoreSngIndRefClust v2 p.i2 (setRef dI q NULL_CLUSTER)).sb.dzone_free
        = v.sb.dzone_free + 2 := hv2a
    have hv3b : (soStoreSngIndRefClust v2 p.i2 (setRef dI q NULL_CLUSTER)).sb.dzone_total
        = v.sb.dzone_total := hv2b
    generalize soStoreSngIndRefClust v2 p.i2 (setRef dI q NULL_CLUSTER) = v3 at *
    have hg2 : getDC v3.dzone p.i2 = setRef dI q NULL_CLUSTER := by
      rw [hdz']; exact getDC_set_set_snd _ _ _ _ _ hlen2
    by_cases hall2 : allNull k (setRef dI q NULL_CLUSTER) = true
    · rw [if_pos hall2] at hs ⊢
      have hf3 : (soFreeDataCluster v3 p.i2).1 = 0 := by
        by_contra h
        rw [if_pos h] at hs
        exact h hs
      rw [if_neg (not_not.2 hf3)]
      dsimp only
      obtain ⟨e1, e2, e3, e4, e5, e6, e7, e8, e9, e10, e11, e12⟩ := free_ok hv3inv _ hf3
      have hdz3 := e12.trans hdz'
      have hfr3 : freeRefs (soFreeDataCluster v3 p.i2).2 = freeRefs v ++ [L, T, p.i2] := by
        rw [e2, hfr', List.append_assoc]; rfl
      have hfree3 : (soFreeDataCluster v3 p.i2).2.sb.dzone_free = v.sb.dzone_free + 3 := by
        rw [e6, hv3a]
      have htot3 := e7.trans hv3b
      clear e2 e3 e4 e5 e6 e7 e8 e9 e10 e11 e12
      generalize (soFreeDataCluster v3 p.i2).2 = v4 at *
      have hshf : Shrinks v.dzone p v4.dzone
          { p with i2 := NULL_CLUSTER, clucount := dec32 (dec32 (dec32 p.clucount)) } := by
        rw [hdz3]
        exact Shrinks_trans (hsh _ (setRef_length _ _ _) hshr)
          (Shrinks_record _ rfl (Or.inl rfl) (Or.inr rfl) (fun _ => Or.inl rfl))
      refine ⟨hshf, ?_, ?_, ?_, rfl, dec32_lt _, ?_, htot3⟩
      · intro m hm
        show getDC v4.dzone m = _
        rw [hdz3]; exact hframe _ m hm
      · refine TreeWf_after_free ht hshf htot3 _ hfr3 ?_
        intro x hx hm
        have hm0 := (indClusters_sublist hshf).subset hm
        rw [mem_indClusters_iff] at hm
        rcases hm with ⟨h1, e⟩ | ⟨h2, _⟩
        · have h1' : p.i1 ≠ NULL_CLUSTER := h1
          have e' : x = p.i1 := e
          rcases List.mem_cons.1 hx with e0 | hx
          · exact hLno (e0 ▸ hm0)
          · rcases List.mem_cons.1 hx with e0 | hx
            · exact hi1neT h1' (e'.symm.trans e0)
            · rw [List.mem_singleton] at hx
              exact hi1ne2 h1' (e'.symm.trans hx)
        · exact h2 rfl
      · refine ⟨fun h1 => ?_, fun h => absurd rfl h⟩
        show allNull k (getDC v4.dzone p.i1) = false
        rw [hdz3, hg1 _ h1]
        exact hti1 h1
      · intro hlt heq
        show v4.sb.dzone_free + dec32 (dec32 (dec32 p.clucount)) = _
        rw [hfree3]
        unfold cluCount at heq
        have d1 : dec32 p.clucount = p.clucount - 1 := dec32_pos (by omega) hlt
        have d2 : dec32 (p.clucount - 1) = p.clucount - 1 - 1 :=
          dec32_pos (by omega) (by omega)
        have d3 : dec32 (p.clucount - 1 - 1) = p.clucount - 1 - 1 - 1 :=
          dec32_pos (by omega) (by omega)
        rw [d1, d2, d3]
        omega
    · rw [if_neg hall2]
      dsimp only
      have hshf : Shrinks v.dzone p v3.dzone
          { p with clucount := dec32 (dec32 p.clucount) } := by
        rw [hdz']
        exact Shrinks_trans (hsh _ (setRef_length _ _ _) hshr)
          (Shrinks_record _ rfl (Or.inl rfl) (Or.inl rfl) (fun _ => Or.inl rfl))
      refine ⟨hshf, ?_, ?_, ?_, rfl, dec32_lt _, ?_, hv3b⟩
      · intro m hm
        show getDC v3.dzone m = _
        rw [hdz']; exact hframe _ m hm
      · refine TreeWf_after_free ht hshf hv3b _ hfr' ?_
        intro x hx hm
        have hm0 := (indClusters_sublist hshf).subset hm
        rcases List.mem_cons.1 hx with e0 | hx
        · exact hLno (e0 ▸ hm0)
        · rw [List.mem_singleton] at hx
          rw [mem_indClusters_iff] at hm
          rcases hm with ⟨h1, e⟩ | ⟨_, e | ⟨q', hq1, hn, e⟩⟩
          · exact hi1neT h1 ((show x = p.i1 from e).symm.trans hx)
          · exact hne2T ((show x = p.i2 from e).symm.trans hx)
          · have hn' : getRef (getDC v3.dzone p.i2) q' ≠ NULL_CLUSTER := hn
            have e' : x = getRef (getDC v3.dzone p.i2) q' := e
            rw [hg2, getRef_setRef] at hn' e'
            by_cases hc : q = q' ∧ q < dI.ref.length
            · rw [if_pos hc] at hn'; exact hn' rfl
            · rw [if_neg hc] at e'
              have hqne : q' ≠ q := fun e => hc ⟨e.symm, hq'⟩
              exact hTother q' hq1 hqne (e'.symm.trans hx)
      · refine ⟨fun h1 => ?_, fun _ => ⟨?_, ?_⟩⟩
        · show allNull k (getDC v3.dzone p.i1) = false
          rw [hdz', hg1 _ h1]
          exact hti1 h1
        · show allNull k (getDC v3.dzone p.i2) = false
          rw [hg2]; exact allNull_false_of hall2
        · intro q' hq1 hn
          have hn' : getRef (getDC v3.dzone p.i2) q' ≠ NULL_CLUSTER := hn
          show allNull k (getDC v3.dzone (getRef (getDC v3.dzone p.i2) q')) = false
          rw [hg2, getRef_setRef] at hn' ⊢
          by_cases hc : q = q' ∧ q < dI.ref.length
          · rw [if_pos hc] at hn'; exact absurd rfl hn'
          · rw [if_neg hc] at hn' ⊢
            have hqne : q' ≠ q := fun e => hc ⟨e.symm, hq'⟩
            rw [hdz', getDC_set_set_ne _ _ _ (hTe ▸ hTother q' hq1 hqne)
              (h2other q' hq1 hn')]
            exact hti2.2 q' hq1 hn'
      · intro hlt heq
        show v3.sb.dzone_free + dec32 (dec32 p.clucount) = _
        rw [hv3a]
        unfold cluCount at heq
        rw [dec32_pos (by omega) hlt, dec32_pos (by omega) (by omega)]
        omega
  · rw [if_neg hall] at hs ⊢
    have hlen2' : p.i2 < v1.dzone.length := by
      rw [hv1dz, List.length_set]; exact hlen2
    rw [dIndirectFreeTop_eq k v1 { p with clucount := dec32 p.clucount } dI hlen2'] at hs ⊢
    have hnall : ¬ allNull k dI = true := by
      rw [allNull_iff]
      intro h
      exact hT (hTe ▸ h q hq)
    rw [if_neg hnall]
    dsimp only
    have hdz' : (soStoreSngIndRefClust v1 p.i2 dI).dzone
        = (v.dzone.set T (setRef sI r NULL_CLUSTER)).set p.i2 dI := by
      show v1.dzone.set _ _ = _
      rw [hv1dz]
    have hg2 : getDC (soStoreSngIndRefClust v1 p.i2 dI).dzone p.i2 = dI := by
      rw [hdz']; exact getDC_set_set_snd _ _ _ _ _ hlen2
    have hgT : getDC (soStoreSngIndRefClust v1 p.i2 dI).dzone T = setRef sI r NULL_CLUSTER := by
      rw [hdz']; exact getDC_set_set_fst _ _ _ _ _ hlenT hne2T
    have hfr' : freeRefs (soStoreSngIndRefClust v1 p.i2 dI) = freeRefs v ++ [L] := hv1fr
    have hv3a : (soStoreSngIndRefClust v1 p.i2 dI).sb.dzone_free = v.sb.dzone_free + 1 := hv1a
    have hv3b : (soStoreSngIndRefClust v1 p.i2 dI).sb.dzone_total = v.sb.dzone_total := hv1b
    generalize soStoreSngIndRefClust v1 p.i2 dI = v3 at *
    have hshf : Shrinks v.dzone p v3.dzone { p with clucount := dec32 p.clucount } := by
      rw [hdz']
      exact Shrinks_trans (hsh _ rfl (fun _ => Or.inl rfl))
        (Shrinks_record _ rfl (Or.inl rfl) (Or.inl rfl) (fun _ => Or.inl rfl))
    refine ⟨hshf, ?_, ?_, ?_, rfl, dec32_lt _, ?_, hv3b⟩
    · intro m hm
      show getDC v3.dzone m = _
      rw [hdz']; exact hframe _ m hm
    · refine TreeWf_after_free ht hshf hv3b _ hfr' ?_
      intro x hx hm
      rw [List.mem_singleton] at hx
      exact hLno (hx ▸ (indClusters_sublist hshf).subset hm)
    · refine ⟨fun h1 => ?_, fun _ => ⟨?_, ?_⟩⟩
      · show allNull k (getDC v3.dzone p.i1) = false
        rw [hdz', hg1 _ h1]
        exact hti1 h1
      · show allNull k (getDC v3.dzone p.i2) = false
        rw [hg2]; exact hti2.1
      · intro q' hq1 hn
        have hn' : getRef (getDC v3.dzone p.i2) q' ≠ NULL_CLUSTER := hn
        show allNull k (getDC v3.dzone (getRef (getDC v3.dzone p.i2) q')) = false
        rw [hg2] at hn' ⊢
        by_cases hqe : q' = q
        · rw [hqe, hTe, hgT]; exact allNull_false_of hall
        · rw [hdz', getDC_set_set_ne _ _ _ (hTe ▸ hTother q' hq1 hqe) (h2other q' hq1 hn')]
          exact hti2.2 q' hq1 hn'
    · intro hlt heq
      show v3.sb.dzone_free + dec32 p.clucount = _
      rw [hv3a]
      unfold cluCount at heq
      rw [dec32_pos (by omega) hlt]
      omega

theorem handleRef_frame {k : SOConst} {v : Volume} {p : SOInode} {c : Nat}
    (hdz : DZInv v) (ht : TreeWf k v p) (hlv : Leaves k v.dzone p) (hti : Tight k v.dzone p)
    (hc : c < MAX_FILE_CLUSTERS k) (hs : (handleRef k v p c FREE).1 = 0) :
    FreeFrame k v p (handleRef k v p c FREE).2.1 (handleRef k v p c FREE).2.2.1 := by
  have hlc := hlv c hc
  unfold MAX_FILE_CLUSTERS at hc
  unfold handleRef at hs ⊢
  by_cases h1 : c < k.N_DIRECT
  · rw [if_pos h1] at hs ⊢
    exact soHandleDirect_frame hdz ht hlv hti h1 hs
  · rw [if_neg h1] at hs ⊢
    by_cases h2 : c < k.N_DIRECT + k.RPC
    · rw [if_pos h2] at hs ⊢
      exact soHandleSIndirect_frame hdz ht hlv hti (by omega) h2 hs
    · rw [if_neg h2] at hs ⊢
      rw [soHandleDIndirect_FREE_eq] at hs ⊢
      have hpos : 0 < k.RPC := by
        rcases Nat.eq_zero_or_pos k.RPC with h | h
        · rw [h] at hc; omega
        · exact h
      have hq : (c - k.N_DIRECT - k.RPC) / k.RPC < k.RPC := by
        rw [Nat.div_lt_iff_lt_mul hpos]
        omega
      have hr : (c - k.N_DIRECT - k.RPC) % k.RPC < k.RPC := Nat.mod_lt _ hpos
      have hi2 : p.i2 ≠ NULL_CLUSTER := by
        intro h
        rw [dIndirectFree_null2 k v p _ _ h] at hs
        simp [EDCNOTIL] at hs
      have hT : getRef (getDC v.dzone p.i2) ((c - k.N_DIRECT - k.RPC) / k.RPC)
          ≠ NULL_CLUSTER := by
        intro h
        rw [dIndirectFree_nullT k v p _ _ hi2 ((TreeWf_RefsInZone ht).2 hi2).1 h] at hs
        simp [EDCNOTIL] at hs
      apply dIndirectFree_frame hdz ht hti hq hr _ hs
      unfold refOfIndex at hlc
      rw [if_neg h1, if_neg h2, if_neg hi2, if_neg hT] at hlc
      exact hlc

theorem refOfIndex_congr_rec (k : SOConst) (dz : List SODataClust) {p p' : SOInode}
    (h1 : p'.d = p.d) (h2 : p'.i1 = p.i1) (h3 : p'.i2 = p.i2) (c : Nat) :
    refOfIndex k dz p' c = refOfIndex k dz p c := by
  unfold refOfIndex
  rw [h1, h2, h3]

theorem indClusters_congr_rec (k : SOConst) (dz : List SODataClust) {p p' : SOInode}
    (h2 : p'.i1 = p.i1) (h3 : p'.i2 = p.i2) :
    indClusters k dz p' = indClusters k dz p := by
  unfold indClusters sngClusters
  rw [h2, h3]

theorem Leaves_congr_rec {k : SOConst} {dz : List SODataClust} {p p' : SOInode}
    (h : Leaves k dz p) (h1 : p'.d = p.d) (h2 : p'.i1 = p.i1) (h3 : p'.i2 = p.i2) :
    Leaves k dz p' := by
  intro c hc
  rw [refOfIndex_congr_rec k dz h1 h2 h3, indClusters_congr_rec k dz h2 h3]
  exact h c hc

theorem cluCount_congr_rec (k : SOConst) (dz : List SODataClust) {p p' : SOInode}
    (h1 : p'.d = p.d) (h2 : p'.i1 = p.i1) (h3 : p'.i2 = p.i2) :
    cluCount k dz p' = cluCount k dz p := by
  unfold cluCount
  rw [h1, h2, h3]

theorem Shrinks_congr_rec {dz dz' : List SODataClust} {p p' q q' : SOInode}
    (h : Shrinks dz p dz' p') (h1 : q.d = p.d) (h2 : q.i1 = p.i1) (h3 : q.i2 = p.i2)
    (h1' : q'.d = p'.d) (h2' : q'.i1 = p'.i1) (h3' : q'.i2 = p'.i2) :
    Shrinks dz q dz' q' := by
  unfold Shrinks at h ⊢
  rw [h1, h2, h3, h1', h2', h3']
  exact h

/-- A successful `soHandleFileCluster (n, c, FREE)` keeps the invariant of the file and frees
clusters of the inode `n` only; the index `c` is left without a reference. -/
theorem soHandleFileCluster_free_step {k : SOConst} (env : SOEnv) {v : Volume} {n c : Nat}
    (hI : FileInv k v n) (hc : c < MAX_FILE_CLUSTERS k)
    (hs : (soHandleFileCluster k env v n c FREE).1 = 0) :
    FileInv k (soHandleFileCluster k env v n c FREE).2.1 n ∧
    FreedFrom k n v (soHandleFileCluster k env v n c FREE).2.1 ∧
    refOfIndex k (soHandleFileCluster k env v n c FREE).2.1.dzone
      (getI (soHandleFileCluster k env v n c FREE).2.1.itable n) c = NULL_CLUSTER := by
  obtain ⟨hi, hdz, hn, hiu, ht, hlv, hti, hlt, hcnt⟩ := hI
  have heq := soHandleFileCluster_eq env c hi (soQCheckDZ_of_DZInv hdz) hn hiu (le_of_lt hc)
    (Or.inr (Or.inr rfl))
  rw [heq] at hs ⊢
  have h0 := writeBack_fst_eq_zero hs
  have ht' : TreeWf k (readVolume env v n) (readRecord env v n) := ht
  have hlv' : Leaves k (readVolume env v n).dzone (readRecord env v n) := hlv
  have hti' : Tight k (readVolume env v n).dzone (readRecord env v n) := hti
  have hdz' : DZInv (readVolume env v n) := DZInv_set_itable hdz _
  have hF := handleRef_free hdz' ht' hc h0
  have hG := handleRef_frame hdz' ht' hlv' hti' hc h0
  generalize handleRef k (readVolume env v n) (readRecord env v n) c FREE = H at *
  obtain ⟨o1, o2, o3, o4, o5, o6, o7, o8, o9, o10, o11, o12⟩ := hF
  obtain ⟨g1, g2, g3, g4, g5, g6, g7, g8⟩ := hG
  have hiu' : soQCheckInodeIU k H.2.2.1 = 0 :=
    (soQCheckInodeIU_congr k o7).trans ((soQCheckInodeIU_congr k (by rfl)).trans hiu)
  have hiu'' : soQCheckInodeIU k { H.2.2.1 with vD1 := env.now, vD2 := env.now } = 0 :=
    (soQCheckInodeIU_congr k (by rfl)).trans hiu'
  rw [writeBack_ok h0 (by rw [o4]; exact hn) hiu']
  have hnl : n < v.itable.length := by rw [hi.1]; exact hn
  have hget : getI (H.2.1.itable.set n { H.2.2.1 with vD1 := env.now, vD2 := env.now }) n
      = { H.2.2.1 with vD1 := env.now, vD2 := env.now } := by
    apply getI_set_eq
    rw [o3]
    show n < (v.itable.set n _).length
    rw [List.length_set]
    exact hnl
  have hcnt' : ({ H.2.2.1 with vD1 := env.now, vD2 := env.now } : SOInode).clucount
      = cluCount k H.2.1.dzone { H.2.2.1 with vD1 := env.now, vD2 := env.now } :=
    (o12 hlt hcnt).trans (cluCount_congr_rec k _ rfl rfl rfl).symm
  refine ⟨⟨IInv_writeBack hi hiu o3 o4 o5 o6 hiu'', DZInv_set_itable o1 _, ?_, ?_, ?_, ?_, ?_,
    ?_, ?_⟩, ⟨?_, ?_, ?_, ?_, ?_, ?_, ?_, o4, o5, o6, g8⟩, ?_⟩
  · show n < H.2.1.sb.itotal
    rw [o4]; exact hn
  · show soQCheckInodeIU k (getI (H.2.1.itable.set n _) n) = 0
    rw [hget]; exact hiu''
  · show TreeWf k _ (getI (H.2.1.itable.set n _) n)
    rw [hget]
    exact TreeWf_frame g3 rfl rfl rfl rfl rfl (fun x hx => hx) (fun _ _ => rfl)
  · show Leaves k H.2.1.dzone (getI (H.2.1.itable.set n _) n)
    rw [hget]
    exact Leaves_congr_rec (Leaves_of_shrinks hlv' g1) rfl rfl rfl
  · show Tight k H.2.1.dzone (getI (H.2.1.itable.set n _) n)
    rw [hget]
    exact Tight_congr g4 rfl rfl (fun _ _ => rfl)
  · show (getI (H.2.1.itable.set n _) n).clucount < _
    rw [hget]; exact g6
  · show (getI (H.2.1.itable.set n _) n).clucount = cluCount k H.2.1.dzone
      (getI (H.2.1.itable.set n _) n)
    rw [hget]; exact hcnt'
  · show Shrinks v.dzone (getI v.itable n) H.2.1.dzone (getI (H.2.1.itable.set n _) n)
    rw [hget]
    exact Shrinks_congr_rec g1 rfl rfl rfl rfl rfl rfl
  · exact g2
  · show H.2.1.sb.dzone_free + (getI (H.2.1.itable.set n _) n).clucount = _
    rw [hget]
    exact g7 hlt hcnt
  · show (getI (H.2.1.itable.set n _) n).refcount = _
    rw [hget]; exact g5
  · show (getI (H.2.1.itable.set n _) n).mode = _
    rw [hget]; exact o7
  · intro m hm
    show getI (H.2.1.itable.set n _) m = _
    rw [getI_set_ne _ _ (Ne.symm hm), o3]
    show getI (v.itable.set n _) m = _
    rw [getI_set_ne _ _ (Ne.symm hm)]
  · show (H.2.1.itable.set n _).length = _
    rw [List.length_set, o3]
    show (v.itable.set n _).length = _
    rw [List.length_set]
  · show refOfIndex k H.2.1.dzone (getI (H.2.1.itable.set n _) n) c = _
    rw [hget, refOfIndex_congr_rec k _ rfl rfl rfl]
    exact o8

/-! ## `soHandleFileClusters`: all the clusters of a file are freed -/

theorem FreedFrom_refl (k : SOConst) (n : Nat) (v : Volume) : FreedFrom k n v v :=
  ⟨Shrinks_refl _ _, fun _ _ => rfl, rfl, rfl, rfl, fun _ _ => rfl, rfl, rfl, rfl, rfl, rfl⟩

theorem FreedFrom_trans {k : SOConst} {n : Nat} {v v1 v2 : Volume}
    (h1 : FreedFrom k n v v1) (h2 : FreedFrom k n v1 v2) : FreedFrom k n v v2 := by
  obtain ⟨a1, a2, a3, a4, a5, a6, a7, a8, a9, a10, a11⟩ := h1
  obtain ⟨b1, b2, b3, b4, b5, b6, b7, b8, b9, b10, b11⟩ := h2
  refine ⟨Shrinks_trans a1 b1, ?_, b3.trans a3, b4.trans a4, b5.trans a5, ?_, b7.trans a7,
    b8.trans a8, b9.trans a9, b10.trans a10, b11.trans a11⟩
  · intro m hm
    rw [b2 m (fun h => hm ((indClusters_sublist a1).subset h)), a2 m hm]
  · intro m hm
    rw [b6 m hm, a6 m hm]

theorem FreedFrom_null {k : SOConst} {n : Nat} {v v' : Volume} (h : FreedFrom k n v v')
    {c : Nat} (hc : refOfIndex k v.dzone (getI v.itable n) c = NULL_CLUSTER) :
    refOfIndex k v'.dzone (getI v'.itable n) c = NULL_CLUSTER := by
  rcases @refOfIndex_shrinks k _ _ _ _ h.1 c with e | e
  · rw [e]; exact hc
  · exact e

theorem FileInv_readVolume {k : SOConst} (env : SOEnv) {v : Volume} {n : Nat}
    (hI : FileInv k v n) :
    FileInv k (readVolume env v n) n ∧ FreedFrom k n v (readVolume env v n) ∧
    getI (readVolume env v n).itable n = readRecord env v n := by
  obtain ⟨hi, hdz, hn, hiu, ht, hlv, hti, hlt, hcnt⟩ := hI
  have hnl : n < v.itable.length := by rw [hi.1]; exact hn
  have hget : getI (readVolume env v n).itable n = readRecord env v n :=
    getI_set_eq _ _ _ hnl
  have hnf := soQCheckInodeIU_not_free hiu
  have hr : soQCheckInodeIU k (readRecord env v n) = 0 :=
    (soQCheckInodeIU_congr k (by rfl)).trans hiu
  refine ⟨⟨IInv_set_inuse hi n _ hnf (soQCheckInodeIU_not_free hr), DZInv_set_itable hdz _,
    hn, ?_, ?_, ?_, ?_, ?_, ?_⟩, ⟨?_, fun _ _ => rfl, ?_, ?_, ?_, ?_, ?_, rfl, rfl, rfl, rfl⟩, hget⟩
  · rw [hget]; exact hr
  · rw [hget]; exact ht
  · rw [hget]; exact hlv
  · rw [hget]; exact hti
  · rw [hget]; exact hlt
  · rw [hget]; exact hcnt
  · rw [hget]; exact Shrinks_refl _ _
  · rw [hget]; rfl
  · rw [hget]; rfl
  · rw [hget]; rfl
  · intro m hm
    exact getI_set_ne _ _ (Ne.symm hm)
  · exact List.length_set _ _ _

/-- A loop of `soHandleFileClusters` that succeeds leaves no reference at the indices it
goes through whose copied reference is in use. -/
theorem fileClustersLoop_free {k : SOConst} (env : SOEnv) {n base : Nat} (refs : List Nat) :
    ∀ (m j : Nat) (v : Volume), FileInv k v n → base + j + m ≤ MAX_FILE_CLUSTERS k →
      (fileClustersLoop k env n base refs m j v).1 = 0 →
      FileInv k (fileClustersLoop k env n base refs m j v).2 n ∧
      FreedFrom k n v (fileClustersLoop k env n base refs m j v).2 ∧
      ∀ i, j ≤ i → i < j + m → refs.getD i 0 ≠ NULL_CLUSTER →
        refOfIndex k (fileClustersLoop k env n base refs m j v).2.dzone
          (getI (fileClustersLoop k env n base refs m j v).2.itable n) (base + i)
          = NULL_CLUSTER := by
  intro m
  induction m with
  | zero =>
    intro j v hI _ _
    exact ⟨hI, FreedFrom_refl _ _ _, fun i h1 h2 => by omega⟩
  | succ m ih =>
    intro j v hI hb hs
    unfold fileClustersLoop at hs ⊢
    by_cases hr : refs.getD j 0 ≠ NULL_CLUSTER
    · rw [if_pos hr] at hs ⊢
      dsimp only at hs ⊢
      have h0 : (soHandleFileCluster k env v n (base + j) FREE).1 = 0 := by
        by_contra h
        rw [if_pos h] at hs
        exact h hs
      rw [if_neg (not_not.2 h0)] at hs ⊢
      obtain ⟨s1, s2, s3⟩ := soHandleFileCluster_free_step env hI
        (show base + j < MAX_FILE_CLUSTERS k by omega) h0
      obtain ⟨i1, i2, i3⟩ := ih (j + 1) _ s1 (by omega) hs
      refine ⟨i1, FreedFrom_trans s2 i2, ?_⟩
      intro i hi1 hi2 hi3
      by_cases he : i = j
      · rw [he]
        exact FreedFrom_null i2 s3
      · exact i3 i (by omega) (by omega) hi3
    · rw [if_neg hr] at hs ⊢
      obtain ⟨i1, i2, i3⟩ := ih (j + 1) v hI (by omega) hs
      refine ⟨i1, i2, ?_⟩
      intro i hi1 hi2 hi3
      by_cases he : i = j
      · rw [he] at hi3
        exact absurd hi3 hr
      · exact i3 i (by omega) (by omega) hi3

/-- The function `soHandleFileClusters` as the sequence of its three parts. -/
theorem soHandleFileClusters_eq (k : SOConst) (env : SOEnv) (v : Volume) (n c : Nat) :
    soHandleFileClusters k env v n c =
      if n ≥ v.sb.itotal then (-EINVAL, v)
      else if (soReadInode k env v n).1 ≠ 0 then
        ((soReadInode k env v n).1, (soReadInode k env v n).2.1)
      else if c ≥ MAX_FILE_CLUSTERS k then (-EINVAL, (soReadInode k env v n).2.1)
      else if (fileClustersDInd k env n c (soReadInode k env v n).2.2
          (soReadInode k env v n).2.1).1 ≠ 0 then
        fileClustersDInd k env n c (soReadInode k env v n).2.2 (soReadInode k env v n).2.1
      else if (fileClustersSInd k env n c (soReadInode k env v n).2.2
          (fileClustersDInd k env n c (soReadInode k env v n).2.2
            (soReadInode k env v n).2.1).2).1 ≠ 0 then
        fileClustersSInd k env n c (soReadInode k env v n).2.2
          (fileClustersDInd k env n c (soReadInode k env v n).2.2
            (soReadInode k env v n).2.1).2
      else if c < k.N_DIRECT then
        fileClustersLoop k env n 0 (soReadInode k env v n).2.2.d (k.N_DIRECT - c) c
          (fileClustersSInd k env n c (soReadInode k env v n).2.2
            (fileClustersDInd k env n c (soReadInode k env v n).2.2
              (soReadInode k env v n).2.1).2).2
      else
        (0, (fileClustersSInd k env n c (soReadInode k env v n).2.2
          (fileClustersDInd k env n c (soReadInode k env v n).2.2
            (soReadInode k env v n).2.1).2).2) := by
  rfl

theorem refOfIndex_dind (k : SOConst) (dz : List SODataClust) (p : SOInode) (q r : Nat)
    (hr : r < k.RPC) :
    refOfIndex k dz p (k.N_DIRECT + k.RPC * (q + 1) + r) =
      if p.i2 = NULL_CLUSTER then NULL_CLUSTER
      else if getRef (getDC dz p.i2) q = NULL_CLUSTER then NULL_CLUSTER
      else getRef (getDC dz (getRef (getDC dz p.i2) q)) r := by
  have hX : k.RPC * (q + 1) = k.RPC * q + k.RPC := Nat.mul_succ _ _
  have hpos : 0 < k.RPC := by omega
  have e : k.N_DIRECT + k.RPC * (q + 1) + r - k.N_DIRECT - k.RPC = k.RPC * q + r := by
    rw [hX]; omega
  unfold refOfIndex
  rw [if_neg (by omega), if_neg (by rw [hX]; omega), e, Nat.mul_add_div hpos,
    Nat.div_eq_of_lt hr, Nat.add_zero, Nat.mul_add_mod, Nat.mod_eq_of_lt hr]

/-- The references of the cluster `i2` of the inode `n` in `v` are those of `dI`, or
`NULL_CLUSTER`, also after clusters of the inode were freed. -/
theorem sngRel_freed {k : SOConst} {n : Nat} {v v' : Volume} (h : FreedFrom k n v v')
    {dI : SODataClust}
    (hr : ∀ q, (getI v.itable n).i2 ≠ NULL_CLUSTER →
      getRef (getDC v.dzone (getI v.itable n).i2) q = getRef dI q ∨
      getRef (getDC v.dzone (getI v.itable n).i2) q = NULL_CLUSTER) :
    ∀ q, (getI v'.itable n).i2 ≠ NULL_CLUSTER →
      getRef (getDC v'.dzone (getI v'.itable n).i2) q = getRef dI q ∨
      getRef (getDC v'.dzone (getI v'.itable n).i2) q = NULL_CLUSTER := by
  obtain ⟨a1, a2, a3, a4, a5, a6, a7⟩ := h.1
  intro q hn
  rcases a6 with e | e
  · rw [e] at hn ⊢
    rcases a4 (getI v.itable n).i2 q with e2 | e2
    · rw [e2]; exact hr q hn
    · exact Or.inr e2
  · exact absurd e hn

theorem fileClustersSngLoop_free {k : SOConst} (env : SOEnv) {n : Nat} (dI : SODataClust) :
    ∀ (m q : Nat) (v : Volume), FileInv k v n → q + m ≤ k.RPC →
      (∀ q', (getI v.itable n).i2 ≠ NULL_CLUSTER →
        getRef (getDC v.dzone (getI v.itable n).i2) q' = getRef dI q' ∨
        getRef (getDC v.dzone (getI v.itable n).i2) q' = NULL_CLUSTER) →
      (fileClustersSngLoop k env n 0 dI m q v).1 = 0 →
      FileInv k (fileClustersSngLoop k env n 0 dI m q v).2 n ∧
      FreedFrom k n v (fileClustersSngLoop k env n 0 dI m q v).2 ∧
      ∀ q' r, q ≤ q' → q' < q + m → r < k.RPC →
        refOfIndex k (fileClustersSngLoop k env n 0 dI m q v).2.dzone
          (getI (fileClustersSngLoop k env n 0 dI m q v).2.itable n)
          (k.N_DIRECT + k.RPC * (q' + 1) + r) = NULL_CLUSTER := by
  intro m
  induction m with
  | zero =>
    intro q v hI _ _ _
    exact ⟨hI, FreedFrom_refl _ _ _, fun q' r h1 h2 => by omega⟩
  | succ m ih =>
    intro q v hI hb hrel hs
    have hpos : 0 < k.RPC := by omega
    unfold fileClustersSngLoop at hs ⊢
    by_cases hT : getRef dI q ≠ NULL_CLUSTER
    · rw [if_pos hT] at hs ⊢
      dsimp only at hs ⊢
      have hl : getRef dI q < v.dzone.length := by
        by_contra h
        unfold soLoadDirRefClust at hs
        rw [if_neg h] at hs
        simp [EINVAL] at hs
      have hle : soLoadDirRefClust v (getRef dI q) = (0, getDC v.dzone (getRef dI q)) := by
        unfold soLoadDirRefClust; rw [if_pos hl]
      rw [hle] at hs ⊢
      simp only [ne_eq, not_true_eq_false, if_false, if_pos (show 0 < k.N_DIRECT + k.RPC by omega),
        Nat.sub_zero] at hs ⊢
      have h0 : (fileClustersLoop k env n (k.N_DIRECT + k.RPC * (q + 1))
          (getDC v.dzone (getRef dI q)).ref k.RPC 0 v).1 = 0 := by
        by_contra h
        rw [if_pos h] at hs
        exact h hs
      rw [if_neg (not_not.2 h0)] at hs ⊢
      have hbound : k.N_DIRECT + k.RPC * (q + 1) + 0 + k.RPC ≤ MAX_FILE_CLUSTERS k := by
        unfold MAX_FILE_CLUSTERS
        have : k.RPC * (q + 1) ≤ k.RPC * k.RPC := Nat.mul_le_mul_left _ (by omega)
        omega
      obtain ⟨s1, s2, s3⟩ := fileClustersLoop_free env _ k.RPC 0 v hI hbound h0
      have hblock : ∀ r, r < k.RPC →
          refOfIndex k (fileClustersLoop k env n (k.N_DIRECT + k.RPC * (q + 1))
            (getDC v.dzone (getRef dI q)).ref k.RPC 0 v).2.dzone
            (getI (fileClustersLoop k env n (k.N_DIRECT + k.RPC * (q + 1))
              (getDC v.dzone (getRef dI q)).ref k.RPC 0 v).2.itable n)
            (k.N_DIRECT + k.RPC * (q + 1) + r) = NULL_CLUSTER := by
        intro r hr
        by_cases hn : (getDC v.dzone (getRef dI q)).ref.getD r 0 ≠ NULL_CLUSTER
        · exact s3 r (Nat.zero_le _) (by omega) hn
        · apply FreedFrom_null s2
          rw [refOfIndex_dind k _ _ q r hr]
          by_cases h2 : (getI v.itable n).i2 = NULL_CLUSTER
          · rw [if_pos h2]
          · rw [if_neg h2]
            rcases hrel q h2 with e | e
            · rw [e, if_neg hT]
              exact not_not.1 hn
            · rw [if_pos e]
      generalize fileClustersLoop k env n (k.N_DIRECT + k.RPC * (q + 1))
        (getDC v.dzone (getRef dI q)).ref k.RPC 0 v = e at *
      obtain ⟨i1, i2, i3⟩ := ih (q + 1) e.2 s1 (by omega) (sngRel_freed s2 hrel) hs
      refine ⟨i1, FreedFrom_trans s2 i2, ?_⟩
      intro q' r h1 h2 hr
      by_cases he : q' = q
      · rw [he]
        exact FreedFrom_null i2 (hblock r hr)
      · exact i3 q' r (by omega) (by omega) hr
    · rw [if_neg hT] at hs ⊢
      obtain ⟨i1, i2, i3⟩ := ih (q + 1) v hI (by omega) hrel hs
      refine ⟨i1, i2, ?_⟩
      intro q' r h1 h2 hr
      by_cases he : q' = q
      · rw [he]
        apply FreedFrom_null i2
        rw [refOfIndex_dind k _ _ q r hr]
        by_cases h2 : (getI v.itable n).i2 = NULL_CLUSTER
        · rw [if_pos h2]
        · rw [if_neg h2]
          rcases hrel q h2 with e | e
          · rw [e, if_pos (not_not.1 hT)]
          · rw [if_pos e]
      · exact i3 q' r (by omega) (by omega) hr

theorem refOfIndex_dind_eq (k : SOConst) (dz : List SODataClust) (p : SOInode) (c : Nat)
    (h1 : k.N_DIRECT + k.RPC ≤ c) (hpos : 0 < k.RPC) :
    refOfIndex k dz p c =
      refOfIndex k dz p (k.N_DIRECT + k.RPC * ((c - k.N_DIRECT - k.RPC) / k.RPC + 1) +
        (c - k.N_DIRECT - k.RPC) % k.RPC) := by
  rw [refOfIndex_dind k dz p _ _ (Nat.mod_lt _ hpos)]
  unfold refOfIndex
  rw [if_neg (by omega), if_neg (by omega)]

theorem refOfIndex_sind (k : SOConst) (dz : List SODataClust) (p : SOInode) (j : Nat)
    (hj : j < k.RPC) :
    refOfIndex k dz p (k.N_DIRECT + j) =
      if p.i1 = NULL_CLUSTER then NULL_CLUSTER else getRef (getDC dz p.i1) j := by
  unfold refOfIndex
  rw [if_neg (by omega), if_pos (by omega), Nat.add_sub_cancel_left]

theorem fileClustersDInd_free {k : SOConst} (env : SOEnv) {v : Volume} {n : Nat}
    (hI : FileInv k v n) (hpos0 : 0 < k.N_DIRECT + k.RPC)
    (hs : (fileClustersDInd k env n 0 (getI v.itable n) v).1 = 0) :
    FileInv k (fileClustersDInd k env n 0 (getI v.itable n) v).2 n ∧
    FreedFrom k n v (fileClustersDInd k env n 0 (getI v.itable n) v).2 ∧
    ∀ q r, q < k.RPC → r < k.RPC →
      refOfIndex k (fileClustersDInd k env n 0 (getI v.itable n) v).2.dzone
        (getI (fileClustersDInd k env n 0 (getI v.itable n) v).2.itable n)
        (k.N_DIRECT + k.RPC * (q + 1) + r) = NULL_CLUSTER := by
  unfold fileClustersDInd at hs ⊢
  by_cases h2 : (getI v.itable n).i2 ≠ NULL_CLUSTER
  · rw [if_pos h2] at hs ⊢
    dsimp only at hs ⊢
    have hl : (getI v.itable n).i2 < v.dzone.length := by
      by_contra h
      unfold soLoadSngIndRefClust at hs
      rw [if_neg h] at hs
      simp [EINVAL] at hs
    have hle : soLoadSngIndRefClust v (getI v.itable n).i2
        = (0, getDC v.dzone (getI v.itable n).i2) := by
      unfold soLoadSngIndRefClust; rw [if_pos hl]
    rw [hle] at hs ⊢
    simp only [ne_eq, not_true_eq_false, if_false, if_pos hpos0, Nat.sub_zero] at hs ⊢
    obtain ⟨s1, s2, s3⟩ := fileClustersSngLoop_free env _ k.RPC 0 v hI (by omega)
      (fun _ _ => Or.inl rfl) hs
    exact ⟨s1, s2, fun q r hq hr => s3 q r (Nat.zero_le _) (by omega) hr⟩
  · rw [if_neg h2]
    refine ⟨hI, FreedFrom_refl _ _ _, ?_⟩
    intro q r _ hr
    rw [refOfIndex_dind k _ _ q r hr, if_pos (not_not.1 h2)]

theorem fileClustersSInd_free {k : SOConst} (env : SOEnv) {v : Volume} {n : Nat} (p : SOInode)
    (hI : FileInv k v n)
    (hst : (getI v.itable n).i1 = p.i1 ∨ (getI v.itable n).i1 = NULL_CLUSTER)
    (hs : (fileClustersSInd k env n 0 p v).1 = 0) :
    FileInv k (fileClustersSInd k env n 0 p v).2 n ∧
    FreedFrom k n v (fileClustersSInd k env n 0 p v).2 ∧
    ∀ j, j < k.RPC →
      refOfIndex k (fileClustersSInd k env n 0 p v).2.dzone
        (getI (fileClustersSInd k env n 0 p v).2.itable n) (k.N_DIRECT + j) = NULL_CLUSTER := by
  unfold fileClustersSInd at hs ⊢
  by_cases h1 : p.i1 ≠ NULL_CLUSTER ∧ 0 < k.N_DIRECT + k.RPC
  · rw [if_pos h1] at hs ⊢
    dsimp only at hs ⊢
    have hl : p.i1 < v.dzone.length := by
      by_contra h
      unfold soLoadDirRefClust at hs
      rw [if_neg h] at hs
      simp [EINVAL] at hs
    have hle : soLoadDirRefClust v p.i1 = (0, getDC v.dzone p.i1) := by
      unfold soLoadDirRefClust; rw [if_pos hl]
    rw [hle] at hs ⊢
    simp only [ne_eq, not_true_eq_false, if_false, Nat.zero_sub, ite_self, Nat.sub_zero] at hs ⊢
    have hbound : k.N_DIRECT + 0 + k.RPC ≤ MAX_FILE_CLUSTERS k := by
      unfold MAX_FILE_CLUSTERS; omega
    obtain ⟨s1, s2, s3⟩ := fileClustersLoop_free env _ k.RPC 0 v hI hbound hs
    refine ⟨s1, s2, ?_⟩
    intro j hj
    by_cases hn : (getDC v.dzone p.i1).ref.getD j 0 ≠ NULL_CLUSTER
    · exact s3 j (Nat.zero_le _) (by omega) hn
    · apply FreedFrom_null s2
      rw [refOfIndex_sind k _ _ j hj]
      rcases hst with e | e
      · rw [e, if_neg h1.1]
        exact not_not.1 hn
      · rw [if_pos e]
  · rw [if_neg h1]
    refine ⟨hI, FreedFrom_refl _ _ _, ?_⟩
    intro j hj
    rw [refOfIndex_sind k _ _ j hj]
    have hp : p.i1 = NULL_CLUSTER := by
      by_contra h
      exact h1 ⟨h, by omega⟩
    rcases hst with e | e
    · rw [if_pos (e.trans hp)]
    · rw [if_pos e]

/-- A successful `soHandleFileClusters (n, 0)` leaves the file without a reference, and
frees clusters of the inode `n` only. -/
theorem soHandleFileClusters_free_all {k : SOConst} (env : SOEnv) {v : Volume} {n : Nat}
    (hI : FileInv k v n) (hs : (soHandleFileClusters k env v n 0).1 = 0) :
    FileInv k (soHandleFileClusters k env v n 0).2 n ∧
    FreedFrom k n v (soHandleFileClusters k env v n 0).2 ∧
    ∀ c, c < MAX_FILE_CLUSTERS k →
      refOfIndex k (soHandleFileClusters k env v n 0).2.dzone
        (getI (soHandleFileClusters k env v n 0).2.itable n) c = NULL_CLUSTER := by
  have hn := hI.2.2.1
  have hiu := hI.2.2.2.1
  have hro : soReadInode k env v n = (0, readVolume env v n, readRecord env v n) :=
    soReadInode_ok k env v n hn hiu
  obtain ⟨r1, r2, r3⟩ := FileInv_readVolume env hI
  rw [soHandleFileClusters_eq] at hs ⊢
  rw [if_neg (by omega), hro] at hs ⊢
  dsimp only at hs ⊢
  rw [if_neg (by simp)] at hs ⊢
  have hmax : 0 < MAX_FILE_CLUSTERS k := by
    by_contra h
    rw [if_pos (by omega)] at hs
    simp [EINVAL] at hs
  rw [if_neg (by omega)] at hs ⊢
  have hpos0 : 0 < k.N_DIRECT + k.RPC := by
    unfold MAX_FILE_CLUSTERS at hmax
    by_contra h
    have h1 : k.RPC = 0 := by omega
    rw [h1] at hmax
    omega
  rw [← r3] at hs ⊢
  generalize readVolume env v n = v0 at *
  have h2 : (fileClustersDInd k env n 0 (getI v0.itable n) v0).1 = 0 := by
    by_contra h
    rw [if_pos h] at hs
    exact h hs
  rw [if_neg (not_not.2 h2)] at hs ⊢
  obtain ⟨a1, a2, a3⟩ := fileClustersDInd_free env r1 hpos0 h2
  have hshr := a2.1
  generalize fileClustersDInd k env n 0 (getI v0.itable n) v0 = e2 at *
  have h1 : (fileClustersSInd k env n 0 (getI v0.itable n) e2.2).1 = 0 := by
    by_contra h
    rw [if_pos h] at hs
    exact h hs
  rw [if_neg (not_not.2 h1)] at hs ⊢
  obtain ⟨b1, b2, b3⟩ := fileClustersSInd_free env (getI v0.itable n) a1 hshr.2.2.2.2.1 h1
  have hshr1 := (FreedFrom_trans a2 b2).1
  generalize fileClustersSInd k env n 0 (getI v0.itable n) e2.2 = e1 at *
  have hfin : ∀ (w : Volume), FileInv k w n → FreedFrom k n e1.2 w →
      (∀ c, c < k.N_DIRECT →
        refOfIndex k w.dzone (getI w.itable n) c = NULL_CLUSTER) →
      FileInv k w n ∧ FreedFrom k n v w ∧
      ∀ c, c < MAX_FILE_CLUSTERS k → refOfIndex k w.dzone (getI w.itable n) c = NULL_CLUSTER := by
    intro w w1 w2 w3
    refine ⟨w1, FreedFrom_trans r2 (FreedFrom_trans a2 (FreedFrom_trans b2 w2)), ?_⟩
    intro c hc
    unfold MAX_FILE_CLUSTERS at hc
    by_cases c1 : c < k.N_DIRECT
    · exact w3 c c1
    by_cases c2 : c < k.N_DIRECT + k.RPC
    · have := FreedFrom_null w2 (b3 (c - k.N_DIRECT) (by omega))
      rw [show k.N_DIRECT + (c - k.N_DIRECT) = c by omega] at this
      exact this
    · have hpos : 0 < k.RPC := by
        rcases Nat.eq_zero_or_pos k.RPC with h | h
        · rw [h] at hc; omega
        · exact h
      rw [refOfIndex_dind_eq k _ _ c (by omega) hpos]
      apply FreedFrom_null (FreedFrom_trans b2 w2)
      apply a3 _ _ _ (Nat.mod_lt _ hpos)
      rw [Nat.div_lt_iff_lt_mul hpos]
      omega
  by_cases hN : 0 < k.N_DIRECT
  · rw [if_pos hN] at hs ⊢
    rw [Nat.sub_zero] at hs ⊢
    obtain ⟨d1, d2, d3⟩ := fileClustersLoop_free env _ k.N_DIRECT 0 e1.2 b1
      (by unfold MAX_FILE_CLUSTERS; omega) hs
    apply hfin _ d1 d2
    intro c hc
    by_cases hn : (getI v0.itable n).d.getD c 0 ≠ NULL_CLUSTER
    · have := d3 c (Nat.zero_le _) (by omega) hn
      rw [Nat.zero_add] at this
      exact this
    · apply FreedFrom_null d2
      unfold refOfIndex
      rw [if_pos hc]
      rcases hshr1.2.2.2.2.2.2 c with e | e
      · rw [e]; exact not_not.1 hn
      · exact e
  · rw [if_neg hN]
    exact hfin _ b1 (FreedFrom_refl _ _ _) (fun c hc => by omega)

theorem exists_ref_of_not_allNull {k : SOConst} {c : SODataClust} (h : allNull k c = false) :
    ∃ j, j < k.RPC ∧ getRef c j ≠ NULL_CLUSTER := by
  by_contra hno
  have : allNull k c = true := by
    rw [allNull_iff]
    intro j hj
    by_contra hne
    exact hno ⟨j, hj, hne⟩
  rw [h] at this
  exact Bool.false_ne_true this

/-- An inode without an empty cluster of references, none of whose indices has a reference,
has no cluster. -/
theorem cluCount_zero_of_null {k : SOConst} {dz : List SODataClust} {p : SOInode}
    (hall : ∀ c, c < MAX_FILE_CLUSTERS k → refOfIndex k dz p c = NULL_CLUSTER)
    (hti : Tight k dz p) (hd : p.d.length = k.N_DIRECT) : cluCount k dz p = 0 := by
  have h1 : p.i1 = NULL_CLUSTER := by
    by_contra h
    obtain ⟨j, hj, hne⟩ := exists_ref_of_not_allNull (hti.1 h)
    have := hall (k.N_DIRECT + j) (by unfold MAX_FILE_CLUSTERS; omega)
    rw [refOfIndex_sind k _ _ j hj, if_neg h] at this
    exact hne this
  have h2 : p.i2 = NULL_CLUSTER := by
    by_contra h
    obtain ⟨q, hq, hT⟩ := exists_ref_of_not_allNull (hti.2 h).1
    obtain ⟨r, hr, hL⟩ := exists_ref_of_not_allNull ((hti.2 h).2 q hq hT)
    have hb : k.N_DIRECT + k.RPC * (q + 1) + r < MAX_FILE_CLUSTERS k := by
      unfold MAX_FILE_CLUSTERS
      have : k.RPC * (q + 1) + k.RPC ≤ k.RPC * k.RPC + k.RPC := by
        have := Nat.mul_le_mul_left k.RPC (show q + 1 ≤ k.RPC by omega)
        omega
      omega
    have := hall _ hb
    rw [refOfIndex_dind k _ _ q r hr, if_neg h, if_neg hT] at this
    exact hL this
  have h0 : p.d.countP (fun n => decide (n ≠ NULL_CLUSTER)) = 0 := by
    rw [List.countP_eq_zero]
    intro a ha
    obtain ⟨i, hi, e⟩ := List.getElem_of_mem ha
    have := hall i (by unfold MAX_FILE_CLUSTERS; omega)
    unfold refOfIndex at this
    rw [if_pos (by omega), List.getD_eq_getElem?_getD, List.getElem?_eq_getElem hi] at this
    have e2 : a = NULL_CLUSTER := by rw [← e]; exact this
    simp [e2]
  unfold cluCount cluCountS cluCountD
  rw [h0, if_pos h1, if_pos h2]

/-- A successful `soHandleFileClusters (n, 0)` frees the clusters of the inode `n`, and no
other: `clucount` is left at zero and `dzone_free` grows by what `clucount` was. -/
theorem soHandleFileClusters_frees {k : SOConst} (env : SOEnv) {v : Volume} {n : Nat}
    (hI : FileInv k v n) (hs : (soHandleFileClusters k env v n 0).1 = 0) :
    FileInv k (soHandleFileClusters k env v n 0).2 n ∧
    FreedFrom k n v (soHandleFileClusters k env v n 0).2 ∧
    (getI (soHandleFileClusters k env v n 0).2.itable n).clucount = 0 ∧
    (soHandleFileClusters k env v n 0).2.sb.dzone_free
      = v.sb.dzone_free + (getI v.itable n).clucount := by
  obtain ⟨a1, a2, a3⟩ := soHandleFileClusters_free_all env hI hs
  have h0 : (getI (soHandleFileClusters k env v n 0).2.itable n).clucount = 0 := by
    rw [a1.2.2.2.2.2.2.2.2]
    exact cluCount_zero_of_null a3 a1.2.2.2.2.2.2.1 a1.2.2.2.2.1.1
  refine ⟨a1, a2, h0, ?_⟩
  have := a2.2.2.1
  rw [h0] at this
  exact this

/-! ## `soFreeInode`: what it leaves untouched -/

theorem soFreeInode_of_ok {k : SOConst} {v : Volume} {n : Nat}
    (h : (soFreeInode k v n).1 = 0) :
    1 ≤ n ∧ n < v.sb.itotal ∧ (getI v.itable n).refcount = 0 ∧
    (getI v.itable n).mode ≠ k.INODE_FREE ∧ soQCheckInodeIU k (getI v.itable n) = 0 := by
  unfold soFreeInode at h
  by_cases h1 : n < 1 ∨ n ≥ v.sb.itotal
  · rw [if_pos h1] at h
    simp [EINVAL] at h
  rw [if_neg h1] at h
  by_cases h2 : soConvertRefInT v n ≠ 0
  · rw [if_pos h2] at h
    exact absurd h h2
  rw [if_neg h2] at h
  by_cases h3 : (getI v.itable n).refcount ≠ 0
  · rw [if_pos h3] at h
    simp [EINVAL] at h
  rw [if_neg h3] at h
  by_cases h4 : (getI v.itable n).mode = k.INODE_FREE
  · rw [if_pos h4] at h
    simp [EIUININVAL] at h
  rw [if_neg h4] at h
  by_cases h5 : soQCheckInodeIU k (getI v.itable n) ≠ 0
  · rw [if_pos h5] at h
    exact absurd h h5
  exact ⟨by omega, by omega, not_not.1 h3, h4, not_not.1 h5⟩

theorem freeInodeLink_form (v : Volume) (t0 : List SOInode) (n : Nat) :
    ∃ (t : List SOInode) (b : Nat),
      (freeInodeLink v t0 n).2 = { v with itable := t, sb := { v.sb with ihdtl := b } } := by
  unfold freeInodeLink
  by_cases h1 : v.sb.ihdtl = NULL_INODE
  · rw [if_pos h1]; exact ⟨_, _, rfl⟩
  rw [if_neg h1]
  by_cases h2 : soConvertRefInT v v.sb.ihdtl ≠ 0
  · rw [if_pos h2]; exact ⟨_, v.sb.ihdtl, rfl⟩
  rw [if_neg h2]
  by_cases h3 : (getI t0 v.sb.ihdtl).vD1 = v.sb.ihdtl
  · rw [if_pos h3]; exact ⟨_, v.sb.ihdtl, rfl⟩
  rw [if_neg h3]
  dsimp only
  by_cases h4 : soConvertRefInT v (getI t0 v.sb.ihdtl).vD1 ≠ 0
  · rw [if_pos h4]; exact ⟨_, v.sb.ihdtl, rfl⟩
  rw [if_neg h4]; exact ⟨_, v.sb.ihdtl, rfl⟩

theorem soFreeInode_form (k : SOConst) (v : Volume) (n : Nat) :
    ∃ (t : List SOInode) (a b : Nat),
      (soFreeInode k v n).2 = { v with itable := t, sb := { v.sb with ifree := a, ihdtl := b } } := by
  have hv : ∃ (t : List SOInode) (a b : Nat),
      v = { v with itable := t, sb := { v.sb with ifree := a, ihdtl := b } } :=
    ⟨v.itable, v.sb.ifree, v.sb.ihdtl, rfl⟩
  unfold soFreeInode
  by_cases h1 : n < 1 ∨ n ≥ v.sb.itotal
  · rw [if_pos h1]; exact hv
  rw [if_neg h1]
  by_cases h2 : soConvertRefInT v n ≠ 0
  · rw [if_pos h2]; exact hv
  rw [if_neg h2]
  by_cases h3 : (getI v.itable n).refcount ≠ 0
  · rw [if_pos h3]; exact hv
  rw [if_neg h3]
  by_cases h4 : (getI v.itable n).mode = k.INODE_FREE
  · rw [if_pos h4]; exact hv
  rw [if_neg h4]
  by_cases h5 : soQCheckInodeIU k (getI v.itable n) ≠ 0
  · rw [if_pos h5]; exact hv
  rw [if_neg h5]
  dsimp only
  by_cases h6 : n = 0
  · rw [if_pos h6]; exact ⟨_, v.sb.ifree, v.sb.ihdtl, rfl⟩
  rw [if_neg h6]
  obtain ⟨t, b, e⟩ := freeInodeLink_form v (v.itable.set n
    { getI v.itable n with mode := (getI v.itable n).mode ||| k.INODE_FREE }) n
  by_cases h7 : (freeInodeLink v (v.itable.set n
    { getI v.itable n with mode := (getI v.itable n).mode ||| k.INODE_FREE }) n).1 ≠ 0
  · rw [if_pos h7, e]; exact ⟨t, v.sb.ifree, b, rfl⟩
  · rw [if_neg h7, e]; exact ⟨t, _, b, rfl⟩

theorem DZInv_inode_meta {v : Volume} (h : DZInv v) (t : List SOInode) (a b : Nat) :
    DZInv { v with itable := t, sb := { v.sb with ifree := a, ihdtl := b } } := by
  obtain ⟨⟨a1, a2, a3, a4, a5, a6, a7, a8, a9, a10⟩, hn, hr⟩ := h
  exact ⟨⟨a1, a2, a3, a4, a5, a6, a7, a8, a9, a10⟩, hn, hr⟩

theorem soFreeInode_DZInv {k : SOConst} {v : Volume} (h : DZInv v) (n : Nat) :
    DZInv (soFreeInode k v n).2 ∧
    (soFreeInode k v n).2.sb.dzone_free = v.sb.dzone_free := by
  obtain ⟨t, a, b, e⟩ := soFreeInode_form k v n
  rw [e]
  exact ⟨DZInv_inode_meta h t a b, rfl⟩

theorem SameButTimes_set_links (t : List SOInode) (x m a b : Nat) :
    SameButTimes (getI t m) (getI (t.set x { getI t x with vD1 := a, vD2 := b }) m) := by
  rw [getI_set]
  split_ifs with h
  · rw [← h.1]
    exact ⟨rfl, rfl, rfl, rfl, rfl, rfl, rfl, rfl, rfl⟩
  · exact SameButTimes_refl _

theorem SameButTimes_set_vD1 (t : List SOInode) (x m a : Nat) :
    SameButTimes (getI t m) (getI (t.set x { getI t x with vD1 := a }) m) := by
  rw [getI_set]
  split_ifs with h
  · rw [← h.1]
    exact ⟨rfl, rfl, rfl, rfl, rfl, rfl, rfl, rfl, rfl⟩
  · exact SameButTimes_refl _

theorem SameButTimes_set_vD2 (t : List SOInode) (x m a : Nat) :
    SameButTimes (getI t m) (getI (t.set x { getI t x with vD2 := a }) m) := by
  rw [getI_set]
  split_ifs with h
  · rw [← h.1]
    exact ⟨rfl, rfl, rfl, rfl, rfl, rfl, rfl, rfl, rfl⟩
  · exact SameButTimes_refl _

theorem freeInodeLink_others (v : Volume) (t0 : List SOInode) (n m : Nat) :
    SameButTimes (getI t0 m) (getI (freeInodeLink v t0 n).2.itable m) := by
  unfold freeInodeLink
  by_cases h1 : v.sb.ihdtl = NULL_INODE
  · rw [if_pos h1]; exact SameButTimes_set_links _ _ _ _ _
  rw [if_neg h1]
  by_cases h2 : soConvertRefInT v v.sb.ihdtl ≠ 0
  · rw [if_pos h2]; exact SameButTimes_refl _
  rw [if_neg h2]
  by_cases h3 : (getI t0 v.sb.ihdtl).vD1 = v.sb.ihdtl
  · rw [if_pos h3]
    exact SameButTimes_trans (SameButTimes_set_links _ _ _ _ _) (SameButTimes_set_links _ _ _ _ _)
  rw [if_neg h3]
  dsimp only
  by_cases h4 : soConvertRefInT v (getI t0 v.sb.ihdtl).vD1 ≠ 0
  · rw [if_pos h4]; exact SameButTimes_set_vD1 _ _ _ _
  rw [if_neg h4]
  exact SameButTimes_trans (SameButTimes_set_vD1 _ _ _ _)
    (SameButTimes_trans (SameButTimes_set_vD2 _ _ _ _) (SameButTimes_set_links _ _ _ _ _))

/-- The inodes other than the one that is freed are left as they were, but for the links of
the list of free inodes. -/
theorem soFreeInode_others (k : SOConst) (v : Volume) (n : Nat) {m : Nat} (hm : m ≠ n) :
    SameButTimes (getI v.itable m) (getI (soFreeInode k v n).2.itable m) := by
  have h0 : SameButTimes (getI v.itable m) (getI (v.itable.set n
      { getI v.itable n with mode := (getI v.itable n).mode ||| k.INODE_FREE }) m) := by
    rw [getI_set_ne _ _ (Ne.symm hm)]
    exact SameButTimes_refl _
  unfold soFreeInode
  by_cases h1 : n < 1 ∨ n ≥ v.sb.itotal
  · rw [if_pos h1]; exact SameButTimes_refl _
  rw [if_neg h1]
  by_cases h2 : soConvertRefInT v n ≠ 0
  · rw [if_pos h2]; exact SameButTimes_refl _
  rw [if_neg h2]
  by_cases h3 : (getI v.itable n).refcount ≠ 0
  · rw [if_pos h3]; exact SameButTimes_refl _
  rw [if_neg h3]
  by_cases h4 : (getI v.itable n).mode = k.INODE_FREE
  · rw [if_pos h4]; exact SameButTimes_refl _
  rw [if_neg h4]
  by_cases h5 : soQCheckInodeIU k (getI v.itable n) ≠ 0
  · rw [if_pos h5]; exact SameButTimes_refl _
  rw [if_neg h5]
  dsimp only
  by_cases h6 : n = 0
  · rw [if_pos h6]; exact h0
  rw [if_neg h6]
  have h8 := freeInodeLink_others v (v.itable.set n
    { getI v.itable n with mode := (getI v.itable n).mode ||| k.INODE_FREE }) n m
  by_cases h7 : (freeInodeLink v (v.itable.set n
    { getI v.itable n with mode := (getI v.itable n).mode ||| k.INODE_FREE }) n).1 ≠ 0
  · rw [if_pos h7]; exact SameButTimes_trans h0 h8
  · rw [if_neg h7]; exact SameButTimes_trans h0 h8

/-! ## `soRemDetachDirEntry`: the operation `REM` on a file -/

theorem refOfIndex_congr_dz {k : SOConst} {dz dz' : List SODataClust} {p : SOInode}
    (hD : ∀ m ∈ indClusters k dz p, getDC dz' m = getDC dz m) {c : Nat}
    (hc : c < MAX_FILE_CLUSTERS k) :
    refOfIndex k dz' p c = refOfIndex k dz p c := by
  unfold MAX_FILE_CLUSTERS at hc
  unfold refOfIndex
  by_cases h1 : c < k.N_DIRECT
  · rw [if_pos h1, if_pos h1]
  rw [if_neg h1, if_neg h1]
  by_cases h2 : c < k.N_DIRECT + k.RPC
  · rw [if_pos h2, if_pos h2]
    by_cases hn : p.i1 = NULL_CLUSTER
    · rw [if_pos hn, if_pos hn]
    · rw [if_neg hn, if_neg hn, hD _ (i1_mem_indClusters hn)]
  rw [if_neg h2, if_neg h2]
  by_cases hn : p.i2 = NULL_CLUSTER
  · rw [if_pos hn, if_pos hn]
  rw [if_neg hn, if_neg hn, hD _ (i2_mem_indClusters hn)]
  by_cases hT : getRef (getDC dz p.i2) ((c - k.N_DIRECT - k.RPC) / k.RPC) = NULL_CLUSTER
  · rw [if_pos hT, if_pos hT]
  rw [if_neg hT, if_neg hT]
  have hpos : 0 < k.RPC := by
    rcases Nat.eq_zero_or_pos k.RPC with h | h
    · rw [h] at hc; omega
    · exact h
  have hq : (c - k.N_DIRECT - k.RPC) / k.RPC < k.RPC := by
    rw [Nat.div_lt_iff_lt_mul hpos]
    omega
  rw [hD _ (sng_mem_indClusters hn hq hT)]

theorem cluCount_congr_dz {k : SOConst} {dz dz' : List SODataClust} {p : SOInode}
    (hD : ∀ m ∈ indClusters k dz p, getDC dz' m = getDC dz m) :
    cluCount k dz' p = cluCount k dz p := by
  unfold cluCount
  rw [cluCountS_congr k (fun hn => hD _ (i1_mem_indClusters hn))]
  congr 1
  unfold cluCountD
  by_cases hn : p.i2 = NULL_CLUSTER
  · rw [if_pos hn, if_pos hn]
  rw [if_neg hn, if_neg hn, hD _ (i2_mem_indClusters hn)]
  congr 1
  apply sum_range_same
  intro q hq
  exact cluCountS_congr k (fun hT => hD _ (sng_mem_indClusters hn hq hT))

theorem Leaves_congr_dz {k : SOConst} {dz dz' : List SODataClust} {p : SOInode}
    (h : Leaves k dz p) (hD : ∀ m ∈ indClusters k dz p, getDC dz' m = getDC dz m) :
    Leaves k dz' p := by
  intro c hc
  rw [refOfIndex_congr_dz hD hc,
    indClusters_congr rfl rfl (fun hn => hD _ (i2_mem_indClusters hn))]
  exact h c hc

/-- The invariant of a file holds in a volume that differs from one in which it holds in the
records of inodes and in clusters that are not clusters of references of the file, the
references of the file being the same. -/
theorem FileInv_frame {k : SOConst} {v v' : Volume} {n : Nat} (hI : FileInv k v n)
    (hi : IInv k v') (hdz : DZInv v') (hit : v'.sb.itotal = v.sb.itotal)
    (hm : (getI v'.itable n).mode = (getI v.itable n).mode)
    (hcl : (getI v'.itable n).clucount = (getI v.itable n).clucount)
    (hd : (getI v'.itable n).d = (getI v.itable n).d)
    (h1 : (getI v'.itable n).i1 = (getI v.itable n).i1)
    (h2 : (getI v'.itable n).i2 = (getI v.itable n).i2)
    (hT : v'.sb.dzone_total = v.sb.dzone_total) (hL : v'.dzone.length = v.dzone.length)
    (hF : ∀ x ∈ freeRefs v', x ∈ freeRefs v)
    (hD : ∀ m ∈ indClusters k v.dzone (getI v.itable n), getDC v'.dzone m = getDC v.dzone m) :
    FileInv k v' n := by
  obtain ⟨a1, a2, a3, a4, a5, a6, a7, a8, a9⟩ := hI
  refine ⟨hi, hdz, by rw [hit]; exact a3, (soQCheckInodeIU_congr k hm).trans a4,
    TreeWf_frame a5 hd h1 h2 hT hL hF hD, ?_, ?_, by rw [hcl]; exact a8, ?_⟩
  · exact Leaves_congr_rec (Leaves_congr_dz a6 hD) hd h1 h2
  · exact Tight_congr a7 h1 h2 hD
  · rw [hcl, cluCount_congr_rec k _ hd h1 h2, cluCount_congr_dz hD]
    exact a9

/-- Whether `soAccessGranted` grants the access depends on the number of inodes and on the
mode, the owner and the group of the inode. -/
theorem soAccessGranted_fst_congr {k : SOConst} (env : SOEnv) {v v' : Volume} {n : Nat}
    (op : Nat) (hn : n < v.sb.itotal) (hiu : soQCheckInodeIU k (getI v.itable n) = 0)
    (hit : v'.sb.itotal = v.sb.itotal)
    (hm : (getI v'.itable n).mode = (getI v.itable n).mode)
    (ho : (getI v'.itable n).owner = (getI v.itable n).owner)
    (hg : (getI v'.itable n).group = (getI v.itable n).group) :
    (soAccessGranted k env v' n op).1 = (soAccessGranted k env v n op).1 := by
  have hro := soReadInode_ok k env v n hn hiu
  have hro' := soReadInode_ok k env v' n (by rw [hit]; exact hn)
    ((soQCheckInodeIU_congr k hm).trans hiu)
  have e : ∀ (w : Volume) (hw : soReadInode k env w n
        = (0, readVolume env w n, readRecord env w n)),
      soAccessGranted k env w n op =
        if (op ||| (R ||| W ||| X)) ≠ (R ||| W ||| X) ∨ op = 0 then (-EINVAL, w)
        else if n > dec32 w.sb.itotal then (-EINVAL, w)
        else if env.uid = 0 ∧ env.gid = 0 then
          if op = R ∨ op = W then (0, readVolume env w n)
          else if (getI w.itable n).mode &&& (X <<< 6 ||| X <<< 3 ||| X)
              = (X <<< 6 ||| X <<< 3 ||| X) then (0, readVolume env w n)
          else (-EACCES, readVolume env w n)
        else if (getI w.itable n).owner = env.uid then
          if (getI w.itable n).mode &&& (op <<< 6) ≠ op <<< 6 then (-EACCES, readVolume env w n)
          else (0, readVolume env w n)
        else if (getI w.itable n).group = env.gid then
          if (getI w.itable n).mode &&& (op <<< 3) ≠ op <<< 3 then (-EACCES, readVolume env w n)
          else (0, readVolume env w n)
        else
          if (getI w.itable n).mode &&& op ≠ op then (-EACCES, readVolume env w n)
          else (0, readVolume env w n) := by
    intro w hw
    unfold soAccessGranted
    simp only [hw]
    rw [if_neg (show ¬ ((0 : Int) ≠ 0) by simp)]
    rfl
  rw [e v hro, e v' hro', hit, hm, ho, hg]
  split_ifs <;> rfl

/-- The end of `soRemDetachDirEntry` for a removal of an entry that is not a directory: the
record of the inode is written with `refcount` decremented and, when that leaves zero, the
clusters of the file and the inode are freed. -/
theorem remDetachCounts_rem_file {k : SOConst} {env : SOEnv} {u : Volume} {D E : Nat}
    {inodeDir inodeEntry : SOInode}
    (hnd : ¬ (inodeEntry.mode &&& k.INODE_DIR = k.INODE_DIR))
    (hs : (remDetachCounts k env u D E REM inodeDir inodeEntry).1 = 0) :
    E < u.sb.itotal ∧
    (dec16 inodeEntry.refcount ≠ 0 →
      (remDetachCounts k env u D E REM inodeDir inodeEntry).2
        = { u with itable := u.itable.set E { inodeEntry with refcount := dec16 inodeEntry.refcount, vD1 := env.now, vD2 := env.now } }) ∧
    (dec16 inodeEntry.refcount = 0 →
      (soHandleFileClusters k env { u with itable := u.itable.set E { inodeEntry with refcount := dec16 inodeEntry.refcount, vD1 := env.now, vD2 := env.now } } E 0).1 = 0 ∧
      (soFreeInode k (soHandleFileClusters k env { u with itable := u.itable.set E { inodeEntry with refcount := dec16 inodeEntry.refcount, vD1 := env.now, vD2 := env.now } } E 0).2 E).1 = 0 ∧
      (remDetachCounts k env u D E REM inodeDir inodeEntry).2
        = (soFreeInode k (soHandleFileClusters k env { u with itable := u.itable.set E { inodeEntry with refcount := dec16 inodeEntry.refcount, vD1 := env.now, vD2 := env.now } } E 0).2 E).2) := by
  have hunf : remDetachCounts k env u D E REM inodeDir inodeEntry
      = if (soWriteInode k env u { inodeEntry with refcount := dec16 inodeEntry.refcount } E).1
          ≠ 0 then
          soWriteInode k env u { inodeEntry with refcount := dec16 inodeEntry.refcount } E
        else if dec16 inodeEntry.refcount = 0 then
          if (soHandleFileClusters k env (soWriteInode k env u
              { inodeEntry with refcount := dec16 inodeEntry.refcount } E).2 E 0).1 ≠ 0 then
            soHandleFileClusters k env (soWriteInode k env u
              { inodeEntry with refcount := dec16 inodeEntry.refcount } E).2 E 0
          else if (soFreeInode k (soHandleFileClusters k env (soWriteInode k env u
              { inodeEntry with refcount := dec16 inodeEntry.refcount } E).2 E 0).2 E).1 ≠ 0 then
            soFreeInode k (soHandleFileClusters k env (soWriteInode k env u
              { inodeEntry with refcount := dec16 inodeEntry.refcount } E).2 E 0).2 E
          else (0, (soFreeInode k (soHandleFileClusters k env (soWriteInode k env u
              { inodeEntry with refcount := dec16 inodeEntry.refcount } E).2 E 0).2 E).2)
        else (0, (soWriteInode k env u
          { inodeEntry with refcount := dec16 inodeEntry.refcount } E).2) := by
    unfold remDetachCounts
    simp only [if_neg hnd, ne_eq, not_true_eq_false, if_false,
      show (REM = DETACH) = False from by decide, not_false_eq_true, and_true]
  rw [hunf] at hs ⊢
  by_cases hw : (soWriteInode k env u
      { inodeEntry with refcount := dec16 inodeEntry.refcount } E).1 ≠ 0
  · rw [if_pos hw] at hs
    exact absurd hs hw
  rw [if_neg hw] at hs ⊢
  obtain ⟨w1, w2⟩ := soWriteInode_of_ok (not_not.1 hw)
  have hwo := soWriteInode_ok k env u { inodeEntry with refcount := dec16 inodeEntry.refcount }
    E w1 w2
  rw [hwo] at hs ⊢
  refine ⟨w1, ?_, ?_⟩
  · intro h0
    rw [if_neg h0]
  · intro h0
    rw [if_pos h0] at hs ⊢
    by_cases hh : (soHandleFileClusters k env { u with itable := u.itable.set E { inodeEntry with refcount := dec16 inodeEntry.refcount, vD1 := env.now, vD2 := env.now } } E 0).1 ≠ 0
    · rw [if_pos hh] at hs
      exact absurd hs hh
    rw [if_neg hh] at hs ⊢
    by_cases hf : (soFreeInode k (soHandleFileClusters k env { u with itable := u.itable.set E { inodeEntry with refcount := dec16 inodeEntry.refcount, vD1 := env.now, vD2 := env.now } } E 0).2 E).1 ≠ 0
    · rw [if_pos hf] at hs
      exact absurd hs hf
    rw [if_neg hf]
    exact ⟨not_not.1 hh, not_not.1 hf, rfl⟩

theorem remDetachEntry_rem_eq (k : SOConst) (env : SOEnv) (u : Volume) (D E i : Nat)
    (inodeDir : SOInode)
    (hnd : ¬ ((soReadInode k env u E).2.2.mode &&& k.INODE_DIR = k.INODE_DIR)) :
    remDetachEntry k env u D E i REM inodeDir =
      if (soReadInode k env u E).1 ≠ 0 then
        ((soReadInode k env u E).1, (soReadInode k env u E).2.1)
      else if (soReadFileCluster k env (soReadInode k env u E).2.1 D (i / k.DPC) default).1
          ≠ 0 then
        ((soReadFileCluster k env (soReadInode k env u E).2.1 D (i / k.DPC) default).1,
          (soReadFileCluster k env (soReadInode k env u E).2.1 D (i / k.DPC) default).2.1)
      else if (soWriteFileCluster k env
          (soReadFileCluster k env (soReadInode k env u E).2.1 D (i / k.DPC) default).2.1 D
          (i / k.DPC)
          { (soReadFileCluster k env (soReadInode k env u E).2.1 D (i / k.DPC) default).2.2 with
            de := (soReadFileCluster k env (soReadInode k env u E).2.1 D (i / k.DPC)
              default).2.2.de.set (i % k.DPC)
                { ((soReadFileCluster k env (soReadInode k env u E).2.1 D (i / k.DPC)
                    default).2.2.de.getD (i % k.DPC) default) with
                  name := ((((soReadFileCluster k env (soReadInode k env u E).2.1 D (i / k.DPC)
                    default).2.2.de.getD (i % k.DPC) default).name.set k.MAX_NAME
                    ((((soReadFileCluster k env (soReadInode k env u E).2.1 D (i / k.DPC)
                      default).2.2.de.getD (i % k.DPC) default).name.getD 0 0))).set 0 0) } }).1
          ≠ 0 then
        soWriteFileCluster k env
          (soReadFileCluster k env (soReadInode k env u E).2.1 D (i / k.DPC) default).2.1 D
          (i / k.DPC)
          { (soReadFileCluster k env (soReadInode k env u E).2.1 D (i / k.DPC) default).2.2 with
            de := (soReadFileCluster k env (soReadInode k env u E).2.1 D (i / k.DPC)
              default).2.2.de.set (i % k.DPC)
                { ((soReadFileCluster k env (soReadInode k env u E).2.1 D (i / k.DPC)
                    default).2.2.de.getD (i % k.DPC) default) with
                  name := ((((soReadFileCluster k env (soReadInode k env u E).2.1 D (i / k.DPC)
                    default).2.2.de.getD (i % k.DPC) default).name.set k.MAX_NAME
                    ((((soReadFileCluster k env (soReadInode k env u E).2.1 D (i / k.DPC)
                      default).2.2.de.getD (i % k.DPC) default).name.getD 0 0))).set 0 0) } }
      else
        remDetachCounts k env
          (soWriteFileCluster k env
            (soReadFileCluster k env (soReadInode k env u E).2.1 D (i / k.DPC) default).2.1 D
            (i / k.DPC)
            { (soReadFileCluster k env (soReadInode k env u E).2.1 D (i / k.DPC)
                default).2.2 with
              de := (soReadFileCluster k env (soReadInode k env u E).2.1 D (i / k.DPC)
                default).2.2.de.set (i % k.DPC)
                  { ((soReadFileCluster k env (soReadInode k env u E).2.1 D (i / k.DPC)
                      default).2.2.de.getD (i % k.DPC) default) with
                    name := ((((soReadFileCluster k env (soReadInode k env u E).2.1 D
                      (i / k.DPC) default).2.2.de.getD (i % k.DPC) default).name.set k.MAX_NAME
                      ((((soReadFileCluster k env (soReadInode k env u E).2.1 D (i / k.DPC)
                        default).2.2.de.getD (i % k.DPC) default).name.getD 0 0))).set 0 0) } }).2
          D E REM inodeDir (soReadInode k env u E).2.2 := by
  unfold remDetachEntry
  simp only [hnd, false_and, if_false, if_true, ne_eq, not_true_eq_false]

theorem dirEntry_after_write {k : SOConst} {dz : List SODataClust} {p q : SOInode} {n : Nat}
    (B : SODataClust) (off : Nat) (e : SODirEntry)
    (h1 : q.d = p.d) (h2 : q.i1 = p.i1) (h3 : q.i2 = p.i2)
    (hleaf : n ∉ indClusters k dz p) (hB : B = getDC dz n) {j : Nat}
    (hj : j / k.DPC < MAX_FILE_CLUSTERS k) :
    dirEntry k (dz.set n { B with de := B.de.set off e }) q j = e ∨
    dirEntry k (dz.set n { B with de := B.de.set off e }) q j = dirEntry k dz p j := by
  unfold dirEntry fileCluster
  rw [refOfIndex_fields k _ (j / k.DPC) h1 h2 h3, refOfIndex_set_leaf _ hj hleaf]
  by_cases h0 : refOfIndex k dz p (j / k.DPC) = NULL_CLUSTER
  · rw [if_pos h0, if_pos h0]
    exact Or.inr rfl
  · rw [if_neg h0, if_neg h0, getDC_set]
    by_cases hc : n = refOfIndex k dz p (j / k.DPC) ∧ n < dz.length
    · rw [if_pos hc, ← hc.1, ← hB]
      show (B.de.set off e).getD (j % k.DPC) default = e ∨
        (B.de.set off e).getD (j % k.DPC) default = B.de.getD (j % k.DPC) default
      rw [List.getD_eq_getElem?_getD, List.getD_eq_getElem?_getD, List.getElem?_set]
      by_cases ho : off = j % k.DPC
      · rw [if_pos ho]
        by_cases hl : off < B.de.length
        · rw [if_pos hl]
          exact Or.inl rfl
        · rw [if_neg hl, ← ho, List.getElem?_eq_none (by omega)]
          exact Or.inr rfl
      · rw [if_neg ho]
        exact Or.inr rfl
    · rw [if_neg hc]
      exact Or.inr rfl

/-- What a successful removal of an entry that is not a directory does, from the point where
the entry was found: `v` is the volume at the call, `u` the volume after the search, which
differs from `v` in the times of inodes, `i` the index of the entry and `E` its inode. The
entry is marked in its cluster, the record of `E` is written with `refcount` decremented and,
when that leaves zero, `soHandleFileClusters (E, 0)` and `soFreeInode (E)` succeed and leave
the volume of the result. -/
theorem remDetachEntry_rem_file {k : SOConst} {env : SOEnv} {v u : Volume} {D E i : Nat}
    {inodeDir : SOInode} {eName : List Nat} (hne : eName ≠ [])
    (hg : Good k v D) (ht : TimesEq k v u)
    (hM : entryNamed k v.dzone (getI v.itable D) eName i)
    (hc : i / k.DPC < MAX_FILE_CLUSTERS k)
    (hlen : refOfIndex k v.dzone (getI v.itable D) (i / k.DPC) < v.dzone.length)
    (hnd : ¬ ((getI v.itable E).mode &&& k.INODE_DIR = k.INODE_DIR))
    (hs : (remDetachEntry k env u D E i REM inodeDir).1 = 0) :
    ∃ (W : Volume) (recE : SOInode),
      TimesEq k v W ∧ E < v.sb.itotal ∧ soQCheckInodeIU k (getI v.itable E) = 0 ∧
      SameButTimes (getI v.itable E) recE ∧
      (dec16 recE.refcount ≠ 0 →
        (remDetachEntry k env u D E i REM inodeDir).2
          = { W with itable := W.itable.set E { recE with refcount := dec16 recE.refcount, vD1 := env.now, vD2 := env.now }, dzone := v.dzone.set (refOfIndex k v.dzone (getI v.itable D) (i / k.DPC)) { getDC v.dzone (refOfIndex k v.dzone (getI v.itable D) (i / k.DPC)) with de := (getDC v.dzone (refOfIndex k v.dzone (getI v.itable D) (i / k.DPC))).de.set (i % k.DPC) { dirEntry k v.dzone (getI v.itable D) i with name := ((dirEntry k v.dzone (getI v.itable D) i).name.set k.MAX_NAME ((dirEntry k v.dzone (getI v.itable D) i).name.getD 0 0)).set 0 0 } } }) ∧
      (dec16 recE.refcount = 0 →
        (soHandleFileClusters k env { W with itable := W.itable.set E { recE with refcount := dec16 recE.refcount, vD1 := env.now, vD2 := env.now }, dzone := v.dzone.set (refOfIndex k v.dzone (getI v.itable D) (i / k.DPC)) { getDC v.dzone (refOfIndex k v.dzone (getI v.itable D) (i / k.DPC)) with de := (getDC v.dzone (refOfIndex k v.dzone (getI v.itable D) (i / k.DPC))).de.set (i % k.DPC) { dirEntry k v.dzone (getI v.itable D) i with name := ((dirEntry k v.dzone (getI v.itable D) i).name.set k.MAX_NAME ((dirEntry k v.dzone (getI v.itable D) i).name.getD 0 0)).set 0 0 } } } E 0).1 = 0 ∧
        (soFreeInode k (soHandleFileClusters k env { W with itable := W.itable.set E { recE with refcount := dec16 recE.refcount, vD1 := env.now, vD2 := env.now }, dzone := v.dzone.set (refOfIndex k v.dzone (getI v.itable D) (i / k.DPC)) { getDC v.dzone (refOfIndex k v.dzone (getI v.itable D) (i / k.DPC)) with de := (getDC v.dzone (refOfIndex k v.dzone (getI v.itable D) (i / k.DPC))).de.set (i % k.DPC) { dirEntry k v.dzone (getI v.itable D) i with name := ((dirEntry k v.dzone (getI v.itable D) i).name.set k.MAX_NAME ((dirEntry k v.dzone (getI v.itable D) i).name.getD 0 0)).set 0 0 } } } E 0).2 E).1 = 0 ∧
        (remDetachEntry k env u D E i REM inodeDir).2
          = (soFreeInode k (soHandleFileClusters k env { W with itable := W.itable.set E { recE with refcount := dec16 recE.refcount, vD1 := env.now, vD2 := env.now }, dzone := v.dzone.set (refOfIndex k v.dzone (getI v.itable D) (i / k.DPC)) { getDC v.dzone (refOfIndex k v.dzone (getI v.itable D) (i / k.DPC)) with de := (getDC v.dzone (refOfIndex k v.dzone (getI v.itable D) (i / k.DPC))).de.set (i % k.DPC) { dirEntry k v.dzone (getI v.itable D) i with name := ((dirEntry k v.dzone (getI v.itable D) i).name.set k.MAX_NAME ((dirEntry k v.dzone (getI v.itable D) i).name.getD 0 0)).set 0 0 } } } E 0).2 E).2) := by
  obtain ⟨a1, a2, a3⟩ := entryNamed_allocated hne hM
  have hsE := (ht.2.2.2.2 E).1
  have hnd' : ¬ ((soReadInode k env u E).2.2.mode &&& k.INODE_DIR = k.INODE_DIR) := by
    by_cases h1 : (soReadInode k env u E).1 ≠ 0
    · exfalso
      unfold remDetachEntry at hs
      simp only [if_pos h1] at hs
      exact h1 hs
    · obtain ⟨e1, e2⟩ := soReadInode_of_ok (not_not.1 h1)
      rw [soReadInode_ok k env u E e1 e2]
      show ¬ ((getI u.itable E).mode &&& k.INODE_DIR = k.INODE_DIR)
      rw [hsE.1]
      exact hnd
  rw [remDetachEntry_rem_eq k env u D E i inodeDir hnd'] at hs ⊢
  -- the inode of the entry is read
  by_cases h1 : (soReadInode k env u E).1 ≠ 0
  · rw [if_pos h1] at hs
    exact absurd hs h1
  rw [if_neg h1] at hs ⊢
  obtain ⟨e1, e2⟩ := soReadInode_of_ok (not_not.1 h1)
  have hro : soReadInode k env u E = (0, readVolume env u E, readRecord env u E) :=
    soReadInode_ok k env u E e1 e2
  rw [hro] at hs ⊢
  dsimp only at hs ⊢
  have hEv : E < v.sb.itotal := by rw [← ht.1]; exact e1
  have hnfE : ¬ isFreeInode k (getI u.itable E) := soQCheckInodeIU_not_free e2
  have hlenItab : v.itable.length = v.sb.itotal := hg.1.1
  have t1 : TimesEq k v (readVolume env u E) :=
    TimesEq_trans ht (TimesEq_set u E _ hnfE ⟨rfl, rfl, rfl, rfl, rfl, rfl, rfl, rfl, rfl⟩)
  -- the cluster of the entry is read
  obtain ⟨r1, r2, r3⟩ := soReadFileCluster_good env default (Good_TimesEq hg t1) hc
    (by rw [refOfIndex_TimesEq t1, t1.2.2.1]; exact fun _ => hlen)
  have hfc : fileCluster k v.dzone (getI v.itable D) (i / k.DPC)
      = getDC v.dzone (refOfIndex k v.dzone (getI v.itable D) (i / k.DPC)) := by
    unfold fileCluster
    rw [if_neg a1]
  rw [fileCluster_TimesEq t1, hfc] at r2
  have t2 := TimesEq_trans t1 r3
  generalize soReadFileCluster k env (readVolume env u E) D (i / k.DPC) default = rc
    at hs r1 r2 r3 t2 ⊢
  rw [if_neg (by rw [r1]; simp)] at hs ⊢
  rw [r2] at hs ⊢
  rw [← a3] at hs ⊢
  -- the cluster is written
  by_cases h3 : (soWriteFileCluster k env rc.2.1 D (i / k.DPC)
      { getDC v.dzone (refOfIndex k v.dzone (getI v.itable D) (i / k.DPC)) with de := (getDC v.dzone (refOfIndex k v.dzone (getI v.itable D) (i / k.DPC))).de.set (i % k.DPC) { dirEntry k v.dzone (getI v.itable D) i with name := ((dirEntry k v.dzone (getI v.itable D) i).name.set k.MAX_NAME ((dirEntry k v.dzone (getI v.itable D) i).name.getD 0 0)).set 0 0 } }).1 ≠ 0
  · rw [if_pos h3] at hs
    exact absurd hs h3
  rw [if_neg h3] at hs ⊢
  obtain ⟨-, w2⟩ := soWriteFileCluster_existing (Good_TimesEq hg t2) hc
    (by rw [refOfIndex_TimesEq t2]; exact a1) (not_not.1 h3)
  rw [refOfIndex_TimesEq t2, t2.2.2.1] at w2
  rw [w2] at hs ⊢
  have hnfD : ¬ isFreeInode k (getI rc.2.1.itable D) :=
    soQCheckInodeIU_not_free (Good_TimesEq hg t2).2.2.2.1
  have t3 : TimesEq k v { rc.2.1 with itable := rc.2.1.itable.set D { getI rc.2.1.itable D with vD1 := env.now, vD2 := env.now } } :=
    TimesEq_trans t2 (TimesEq_set rc.2.1 D _ hnfD ⟨rfl, rfl, rfl, rfl, rfl, rfl, rfl, rfl, rfl⟩)
  have hnd2 : ¬ ((readRecord env u E).mode &&& k.INODE_DIR = k.INODE_DIR) := by
    show ¬ ((getI u.itable E).mode &&& k.INODE_DIR = k.INODE_DIR)
    rw [hsE.1]
    exact hnd
  obtain ⟨_, c2, c3⟩ := remDetachCounts_rem_file hnd2 hs
  refine ⟨_, readRecord env u E, t3, hEv, ?_, ?_, c2, c3⟩
  · exact (soQCheckInodeIU_congr k hsE.1).symm.trans e2
  · exact SameButTimes_trans hsE ⟨rfl, rfl, rfl, rfl, rfl, rfl, rfl, rfl, rfl⟩

/-! ## The sum of `clucount` and the count of the free data clusters -/

theorem RefsInZone_frame {k : SOConst} {dz dz' : List SODataClust} {p p' : SOInode}
    (h : RefsInZone k dz p) (h1 : p'.i1 = p.i1) (h2 : p'.i2 = p.i2)
    (hL : dz'.length = dz.length)
    (hD : ∀ m ∈ indClusters k dz p, getDC dz' m = getDC dz m) : RefsInZone k dz' p' := by
  unfold RefsInZone
  rw [h1, h2, hL]
  refine ⟨h.1, fun hn => ⟨(h.2 hn).1, fun q hq hne => ?_⟩⟩
  rw [hD _ (i2_mem_indClusters hn)] at hne ⊢
  exact (h.2 hn).2 q hq hne

/-- The entry `j` of a directory is the same in two data zones that agree on the clusters of
references of the directory and on the cluster of the entry. -/
theorem dirEntry_frame {k : SOConst} {dz dz' : List SODataClust} {p p' : SOInode} {j : Nat}
    (hd : p'.d = p.d) (h1 : p'.i1 = p.i1) (h2 : p'.i2 = p.i2)
    (hc : j / k.DPC < MAX_FILE_CLUSTERS k)
    (hD : ∀ m ∈ indClusters k dz p, getDC dz' m = getDC dz m)
    (hdata : refOfIndex k dz p (j / k.DPC) ≠ NULL_CLUSTER →
      getDC dz' (refOfIndex k dz p (j / k.DPC)) = getDC dz (refOfIndex k dz p (j / k.DPC))) :
    dirEntry k dz' p' j = dirEntry k dz p j := by
  unfold dirEntry fileCluster
  rw [refOfIndex_congr_rec k dz' hd h1 h2, refOfIndex_congr_dz hD hc]
  by_cases h0 : refOfIndex k dz p (j / k.DPC) = NULL_CLUSTER
  · rw [if_pos h0, if_pos h0]
  · rw [if_neg h0, if_neg h0, hdata h0]

/-- The search of a name in a directory after the only entry with the name, of index `i`, was
replaced by an entry `e` whose name begins with the null character, in a volume that agrees
with the former one on the record of the directory, but for the times, on its clusters of
references and, but for the entry, on the clusters of its entries: the entry `i` is `e` and
the search returns `-ENOENT`. -/
theorem soGetDirEntryByName_after_mark {k : SOConst} (env : SOEnv) {v V' : Volume}
    {D i : Nat} {eName : List Nat} (e : SODirEntry) (hne : eName ≠ [])
    (hg : Good k v D) (hg' : Good k V' D)
    (hdir : (getI v.itable D).mode &&& k.INODE_DIR = k.INODE_DIR)
    (hacc : (soAccessGranted k env v D X).1 = 0)
    (hptr : k.SIZEOF_PTR ≤ k.MAX_NAME + 1)
    (hE : 0 < k.DPC * (k.CLUSTER_SIZE / k.DPC))
    (hT : (getI v.itable D).size / (k.DPC * (k.CLUSTER_SIZE / k.DPC)) + 1
      ≤ MAX_FILE_CLUSTERS k)
    (hl : ∀ c, c < (getI v.itable D).size / (k.DPC * (k.CLUSTER_SIZE / k.DPC)) + 1 →
      refOfIndex k v.dzone (getI v.itable D) c ≠ NULL_CLUSTER →
      refOfIndex k v.dzone (getI v.itable D) c < v.dzone.length)
    (hleaf : ∀ c, c < (getI v.itable D).size / (k.DPC * (k.CLUSTER_SIZE / k.DPC)) + 1 →
      refOfIndex k v.dzone (getI v.itable D) c ∉ indClusters k v.dzone (getI v.itable D))
    (hi : i < scanned k (getI v.itable D))
    (hM : entryNamed k v.dzone (getI v.itable D) eName i)
    (huniq : ∀ j, j < scanned k (getI v.itable D) →
      entryNamed k v.dzone (getI v.itable D) eName j → j = i)
    (he : e.name.getD 0 0 = 0)
    (hsb : SameButTimes (getI v.itable D) (getI V'.itable D))
    (hit : V'.sb.itotal = v.sb.itotal) (hlen : V'.dzone.length = v.dzone.length)
    (hind : ∀ m ∈ indClusters k v.dzone (getI v.itable D), getDC V'.dzone m = getDC v.dzone m)
    (hdata : ∀ c, c < (getI v.itable D).size / (k.DPC * (k.CLUSTER_SIZE / k.DPC)) + 1 →
      refOfIndex k v.dzone (getI v.itable D) c ≠ NULL_CLUSTER →
      getDC V'.dzone (refOfIndex k v.dzone (getI v.itable D) c)
        = getDC (v.dzone.set (refOfIndex k v.dzone (getI v.itable D) (i / k.DPC))
            { getDC v.dzone (refOfIndex k v.dzone (getI v.itable D) (i / k.DPC)) with de := (getDC v.dzone (refOfIndex k v.dzone (getI v.itable D) (i / k.DPC))).de.set (i % k.DPC) e })
          (refOfIndex k v.dzone (getI v.itable D) c)) :
    dirEntry k V'.dzone (getI V'.itable D) i = e ∧
    (soGetDirEntryByName k env V' D eName).1 = -ENOENT := by
  obtain ⟨a1, a2, a3⟩ := entryNamed_allocated hne hM
  have hci := div_lt_of_lt_scanned hi
  have hleafi := hleaf _ hci
  have hlenD := hl _ hci a1
  obtain ⟨s1, s2, s3, s4, s5, s6, s7, s8, s9⟩ := hsb
  generalize hrD : refOfIndex k v.dzone (getI v.itable D) (i / k.DPC) = refD at *
  generalize hCL : ({ getDC v.dzone refD with de := (getDC v.dzone refD).de.set (i % k.DPC) e } : SODataClust) = CL at *
  have hne_ind : ∀ m ∈ indClusters k v.dzone (getI v.itable D), m ≠ refD :=
    fun m hm e' => hleafi (e' ▸ hm)
  have hW : ∀ m ∈ indClusters k v.dzone (getI v.itable D),
      getDC (v.dzone.set refD CL) m = getDC v.dzone m := by
    intro m hm
    rw [getDC_set, if_neg (fun h => hne_ind m hm h.1.symm)]
  have hindW : indClusters k (v.dzone.set refD CL) (getI v.itable D)
      = indClusters k v.dzone (getI v.itable D) :=
    indClusters_congr rfl rfl (fun hn => hW _ (i2_mem_indClusters hn))
  have hent : ∀ j, j < scanned k (getI v.itable D) →
      dirEntry k V'.dzone (getI V'.itable D) j
        = dirEntry k (v.dzone.set refD CL) (getI v.itable D) j := by
    intro j hj
    have hcj := div_lt_of_lt_scanned hj
    apply dirEntry_frame s7 s8 s9 (Nat.lt_of_lt_of_le hcj hT)
    · intro m hm
      rw [hindW] at hm
      rw [hind m hm, hW m hm]
    · rw [refOfIndex_set_leaf CL (Nat.lt_of_lt_of_le hcj hT) hleafi]
      intro h0
      exact hdata _ hcj h0
  have hei : dirEntry k (v.dzone.set refD CL) (getI v.itable D) i = e := by
    have := @dirEntry_written k v.dzone (getI v.itable D) (getI v.itable D) i e
      (Nat.lt_of_lt_of_le hci hT) rfl rfl rfl (by rw [hrD]; exact a1)
      (by rw [hrD]; exact hlenD) (by rw [hrD]; exact a2)
      (by rw [hrD]; exact hleafi)
    rw [hrD, hCL] at this
    exact this
  have hsc : scanned k (getI V'.itable D) = scanned k (getI v.itable D) := by
    unfold scanned
    rw [s5]
  have hnil : cstr e.name ≠ eName := by
    rw [cstr_eq_nil_of_head he]
    exact fun h => hne h.symm
  have hnot : ∀ j, j < scanned k (getI V'.itable D) →
      ¬ entryNamed k V'.dzone (getI V'.itable D) eName j := by
    intro j hj hn
    rw [hsc] at hj
    unfold entryNamed at hn
    rw [hent j hj] at hn
    rcases @dirEntry_after_write k v.dzone (getI v.itable D) (getI v.itable D) refD
      (getDC v.dzone refD) (i % k.DPC) e rfl rfl rfl hleafi rfl j
      (Nat.lt_of_lt_of_le (div_lt_of_lt_scanned hj) hT) with h | h
    · rw [hCL] at h
      rw [h] at hn
      exact hnil hn
    · rw [hCL] at h
      rw [h] at hn
      have hji := huniq j hj hn
      subst hji
      rw [← h, hei] at hn
      exact hnil hn
  refine ⟨(hent i hi).trans hei, ?_⟩
  have hacc' : (soAccessGranted k env V' D X).1 = 0 :=
    (soAccessGranted_fst_congr env X hg.2.2.1 hg.2.2.2.1 hit s1 s3 s4).trans hacc
  have href : ∀ c, c < MAX_FILE_CLUSTERS k →
      refOfIndex k V'.dzone (getI V'.itable D) c = refOfIndex k v.dzone (getI v.itable D) c :=
    fun c hc => (refOfIndex_congr_rec k V'.dzone s7 s8 s9 c).trans (refOfIndex_congr_dz hind hc)
  exact ((soGetDirEntryByName_spec env hne hg' (by rw [s1]; exact hdir) hacc' hptr hE
    (by rw [s5]; exact hT)
    (fun c hc => by
      rw [s5] at hc
      rw [href c (Nat.lt_of_lt_of_le hc hT), hlen]
      exact hl c hc)).2.2 hnot).1

theorem getD_set_set (l : List Nat) (M x : Nat) (hM : 0 < M) (hl : l.length = M + 1) :
    ((l.set M x).set 0 0).getD 0 0 = 0 ∧ ((l.set M x).set 0 0).getD M 0 = x := by
  constructor
  · rw [List.getD_eq_getElem?_getD, List.getElem?_set, if_pos rfl,
      if_pos (by rw [List.length_set]; omega)]
    rfl
  · rw [List.getD_eq_getElem?_getD, List.getElem?_set, if_neg (by omega), List.getElem?_set,
      if_pos rfl, if_pos (by omega)]
    rfl

/-- The volume `W1` in which the cluster `refD` of the directory `D` was written and the
record `R` of the inode `F` was written, `R` having the mode, the `clucount` and the
references of the record of `F`, in a volume that differs from `v` in the times of inodes:
the invariants hold, and the clusters of references of `D` and of `F` are as in `v`. -/
theorem rem_marked_volume {k : SOConst} {v W W1 : Volume} {D F refD : Nat} {R : SOInode}
    {CL : SODataClust} (hg : Good k v D) (hFI : FileInv k v F) (hDF : D ≠ F)
    (tW : TimesEq k v W)
    (hRm : R.mode = (getI v.itable F).mode) (hRc : R.clucount = (getI v.itable F).clucount)
    (hRd : R.d = (getI v.itable F).d) (hR1 : R.i1 = (getI v.itable F).i1)
    (hR2 : R.i2 = (getI v.itable F).i2)
    (hleafi : refD ∉ indClusters k v.dzone (getI v.itable D))
    (hDFi : refD ∉ indClusters k v.dzone (getI v.itable F))
    (hW1 : W1 = { W with itable := W.itable.set F R, dzone := v.dzone.set refD CL }) :
    W1.sb = v.sb ∧ W1.dzone = v.dzone.set refD CL ∧ getI W1.itable F = R ∧
    (∀ m, m ≠ F → SameButTimes (getI v.itable m) (getI W1.itable m)) ∧
    FileInv k W1 F ∧ Good k W1 D ∧
    indClusters k W1.dzone (getI W1.itable D) = indClusters k v.dzone (getI v.itable D) ∧
    indClusters k W1.dzone (getI W1.itable F) = indClusters k v.dzone (getI v.itable F) ∧
    (∀ m ∈ indClusters k v.dzone (getI v.itable D), getDC W1.dzone m = getDC v.dzone m) := by
  subst hW1
  obtain ⟨t1, t2, t3, t4, t5⟩ := tW
  have hnfF : ¬ isFreeInode k (getI v.itable F) := soQCheckInodeIU_not_free hFI.2.2.2.1
  have hnfW : ¬ isFreeInode k (getI W.itable F) := (isFreeInode_congr (t5 F).1.1).not.2 hnfF
  have hnfR : ¬ isFreeInode k R := (isFreeInode_congr hRm).not.2 hnfF
  have hiW : IInv k W := IInv_TimesEq hg.1 ⟨t1, t2, t3, t4, t5⟩
  have hi1 : IInv k { W with itable := W.itable.set F R, dzone := v.dzone.set refD CL } :=
    IInv_congr (IInv_set_inuse hiW F R hnfW hnfR) rfl rfl rfl rfl
  have hdz1 : DZInv { W with itable := W.itable.set F R, dzone := v.dzone.set refD CL } :=
    DZInv_congr hFI.2.1 t1 t2
  have hFlen : F < W.itable.length := by rw [t4, hg.1.1]; exact hFI.2.2.1
  have hgetF : getI (W.itable.set F R) F = R := getI_set_eq _ _ _ hFlen
  have hgetm : ∀ m, m ≠ F → getI (W.itable.set F R) m = getI W.itable m :=
    fun m hm => getI_set_ne _ _ (Ne.symm hm)
  have hDdz : ∀ m ∈ indClusters k v.dzone (getI v.itable D),
      getDC (v.dzone.set refD CL) m = getDC v.dzone m := by
    intro m hm
    rw [getDC_set, if_neg (fun (h : refD = m ∧ refD < v.dzone.length) => hleafi (h.1 ▸ hm))]
  have hFdz : ∀ m ∈ indClusters k v.dzone (getI v.itable F),
      getDC (v.dzone.set refD CL) m = getDC v.dzone m := by
    intro m hm
    rw [getDC_set, if_neg (fun (h : refD = m ∧ refD < v.dzone.length) => hDFi (h.1 ▸ hm))]
  have hsD := (t5 D).1
  have hfr : freeRefs { W with itable := W.itable.set F R, dzone := v.dzone.set refD CL }
      = freeRefs v := freeRefs_congr t1 t2
  refine ⟨t1, rfl, hgetF, fun m hm => ?_, ?_, ⟨hi1, soQCheckDZ_of_DZInv hdz1, ?_, ?_, ?_⟩,
    ?_, ?_, hDdz⟩
  · show SameButTimes _ (getI (W.itable.set F R) m)
    rw [hgetm m hm]
    exact (t5 m).1
  · refine FileInv_frame hFI hi1 hdz1 (by show W.sb.itotal = _; rw [t1]) ?_ ?_ ?_ ?_ ?_
      (by show W.sb.dzone_total = _; rw [t1]) (List.length_set _ _ _)
      (fun x hx => by rw [hfr] at hx; exact hx) hFdz
    · show (getI (W.itable.set F R) F).mode = _
      rw [hgetF]; exact hRm
    · show (getI (W.itable.set F R) F).clucount = _
      rw [hgetF]; exact hRc
    · show (getI (W.itable.set F R) F).d = _
      rw [hgetF]; exact hRd
    · show (getI (W.itable.set F R) F).i1 = _
      rw [hgetF]; exact hR1
    · show (getI (W.itable.set F R) F).i2 = _
      rw [hgetF]; exact hR2
  · show D < W.sb.itotal
    rw [t1]; exact hg.2.2.1
  · show soQCheckInodeIU k (getI (W.itable.set F R) D) = 0
    rw [hgetm D hDF]
    exact (soQCheckInodeIU_congr k hsD.1).trans hg.2.2.2.1
  · show RefsInZone k (v.dzone.set refD CL) (getI (W.itable.set F R) D)
    rw [hgetm D hDF]
    exact RefsInZone_frame hg.2.2.2.2 hsD.2.2.2.2.2.2.2.1 hsD.2.2.2.2.2.2.2.2
      (List.length_set _ _ _) hDdz
  · show indClusters k (v.dzone.set refD CL) (getI (W.itable.set F R) D) = _
    rw [hgetm D hDF]
    exact indClusters_congr hsD.2.2.2.2.2.2.2.1 hsD.2.2.2.2.2.2.2.2
      (fun hn => by rw [hsD.2.2.2.2.2.2.2.2]; exact hDdz _ (i2_mem_indClusters hn))
  · show indClusters k (v.dzone.set refD CL) (getI (W.itable.set F R) F) = _
    rw [hgetF]
    exact indClusters_congr hR1 hR2
      (fun hn => by rw [hR2]; exact hFdz _ (i2_mem_indClusters hn))

/-- The clusters of a file and its inode are freed: what that leaves of a directory `D` whose
clusters of references are not clusters of references of the file, and of the counters. -/
theorem rem_file_freed {k : SOConst} (hk : k.Wf) (env : SOEnv) {W1 : Volume} {D F : Nat}
    (hFI1 : FileInv k W1 F) (hgD1 : Good k W1 D) (hDF : D ≠ F)
    (hdisj : ∀ m ∈ indClusters k W1.dzone (getI W1.itable D),
      m ∉ indClusters k W1.dzone (getI W1.itable F))
    (hs1 : (soHandleFileClusters k env W1 F 0).1 = 0)
    (hs2 : (soFreeInode k (soHandleFileClusters k env W1 F 0).2 F).1 = 0) :
    Good k (soFreeInode k (soHandleFileClusters k env W1 F 0).2 F).2 D ∧
    SameButTimes (getI W1.itable D)
      (getI (soFreeInode k (soHandleFileClusters k env W1 F 0).2 F).2.itable D) ∧
    (soFreeInode k (soHandleFileClusters k env W1 F 0).2 F).2.sb.itotal = W1.sb.itotal ∧
    (soFreeInode k (soHandleFileClusters k env W1 F 0).2 F).2.dzone.length
      = W1.dzone.length ∧
    (∀ m, m ∉ indClusters k W1.dzone (getI W1.itable F) →
      getDC (soFreeInode k (soHandleFileClusters k env W1 F 0).2 F).2.dzone m
        = getDC W1.dzone m) ∧
    isFreeInode k (getI (soFreeInode k (soHandleFileClusters k env W1 F 0).2 F).2.itable F) ∧
    (soFreeInode k (soHandleFileClusters k env W1 F 0).2 F).2.sb.ifree = W1.sb.ifree + 1 ∧
    (soFreeInode k (soHandleFileClusters k env W1 F 0).2 F).2.sb.dzone_free
      = W1.sb.dzone_free + (getI W1.itable F).clucount := by
  obtain ⟨b1, b2, b3, b4⟩ := soHandleFileClusters_frees env hFI1 hs1
  generalize (soHandleFileClusters k env W1 F 0).2 = V1 at *
  obtain ⟨a1, a2, a3, a4, a5, a6, a7, a8, a9, a10, a11⟩ := b2
  obtain ⟨c1, c2, c3, c4, -, c6⟩ := soFreeInode_spec hk b1.1 F
  obtain ⟨d1, d2, d3⟩ := c6 (soFreeInode_of_ok hs2)
  obtain ⟨e1, e2⟩ := soFreeInode_DZInv b1.2.1 F
  have hoD := soFreeInode_others k V1 F hDF
  generalize (soFreeInode k V1 F).2 = V2 at *
  have hVD : getI V1.itable D = getI W1.itable D := a6 D hDF
  rw [hVD] at hoD
  refine ⟨⟨c1, soQCheckDZ_of_DZInv e1, ?_, ?_, ?_⟩, hoD, c2.trans a8, by rw [c4]; exact a1.1,
    fun m hm => by rw [c4]; exact a2 m hm, ?_, by rw [d2, a9], by rw [e2, b4]⟩
  · rw [c2, a8]; exact hgD1.2.2.1
  · exact (soQCheckInodeIU_congr k hoD.1).trans hgD1.2.2.2.1
  · exact RefsInZone_frame hgD1.2.2.2.2 hoD.2.2.2.2.2.2.2.1 hoD.2.2.2.2.2.2.2.2
      (by rw [c4]; exact a1.1) (fun m hm => by rw [c4]; exact a2 m (hdisj m hm))
  · unfold isFreeInode
    rw [d3]
    exact lor_and_self_ne_zero _ _ hk.1

/-- What the removal of an entry that is not a directory leaves, from the volume `W1` in which
the entry is marked and the record of the inode `F` of the entry is written with `refcount`
decremented: that volume when `refcount` is not zero, and otherwise the volume in which the
clusters of `F` and the inode `F` are freed. -/
theorem rem_file_outcome {k : SOConst} {env : SOEnv} {v W W1 V' : Volume} {D F i refD : Nat}
    {eName : List Nat} {recE R : SOInode} {CL : SODataClust} {e : SODirEntry}
    (hk : k.Wf) (hne : eName ≠ []) (hg : Good k v D)
    (hdir : (getI v.itable D).mode &&& k.INODE_DIR = k.INODE_DIR)
    (hacc : (soAccessGranted k env v D X).1 = 0)
    (hptr : k.SIZEOF_PTR ≤ k.MAX_NAME + 1)
    (hE : 0 < k.DPC * (k.CLUSTER_SIZE / k.DPC))
    (hT : (getI v.itable D).size / (k.DPC * (k.CLUSTER_SIZE / k.DPC)) + 1
      ≤ MAX_FILE_CLUSTERS k)
    (hl : ∀ c, c < (getI v.itable D).size / (k.DPC * (k.CLUSTER_SIZE / k.DPC)) + 1 →
      refOfIndex k v.dzone (getI v.itable D) c ≠ NULL_CLUSTER →
      refOfIndex k v.dzone (getI v.itable D) c < v.dzone.length)
    (hleaf : ∀ c, c < (getI v.itable D).size / (k.DPC * (k.CLUSTER_SIZE / k.DPC)) + 1 →
      refOfIndex k v.dzone (getI v.itable D) c ∉ indClusters k v.dzone (getI v.itable D))
    (hi : i < scanned k (getI v.itable D))
    (hM : entryNamed k v.dzone (getI v.itable D) eName i)
    (huniq : ∀ j, j < scanned k (getI v.itable D) →
      entryNamed k v.dzone (getI v.itable D) eName j → j = i)
    (hFI : FileInv k v F) (hDF : D ≠ F)
    (hDF1 : ∀ c, c < (getI v.itable D).size / (k.DPC * (k.CLUSTER_SIZE / k.DPC)) + 1 →
      refOfIndex k v.dzone (getI v.itable D) c ∉ indClusters k v.dzone (getI v.itable F))
    (hDF2 : ∀ m ∈ indClusters k v.dzone (getI v.itable D),
      m ∉ indClusters k v.dzone (getI v.itable F))
    (tW : TimesEq k v W) (hsE : SameButTimes (getI v.itable F) recE)
    (cA : dec16 recE.refcount ≠ 0 → V' = W1)
    (cB : dec16 recE.refcount = 0 →
      (soHandleFileClusters k env W1 F 0).1 = 0 ∧
      (soFreeInode k (soHandleFileClusters k env W1 F 0).2 F).1 = 0 ∧
      V' = (soFreeInode k (soHandleFileClusters k env W1 F 0).2 F).2)
    (hW1 : W1 = { W with itable := W.itable.set F R, dzone := v.dzone.set refD CL })
    (hR : R = { recE with refcount := dec16 recE.refcount, vD1 := env.now, vD2 := env.now })
    (hrefD : refD = refOfIndex k v.dzone (getI v.itable D) (i / k.DPC))
    (hCL : CL = { getDC v.dzone refD with de := (getDC v.dzone refD).de.set (i % k.DPC) e })
    (he : e.name.getD 0 0 = 0) :
    dirEntry k V'.dzone (getI V'.itable D) i = e ∧
    (soGetDirEntryByName k env V' D eName).1 = -ENOENT ∧
    ((getI v.itable F).refcount = 1 →
      isFreeInode k (getI V'.itable F) ∧ V'.sb.ifree = v.sb.ifree + 1 ∧
      V'.sb.dzone_free = v.sb.dzone_free + (getI v.itable F).clucount) ∧
    (1 < (getI v.itable F).refcount → (getI v.itable F).refcount < 65536 →
      (getI V'.itable F).refcount = (getI v.itable F).refcount - 1 ∧
      ¬ isFreeInode k (getI V'.itable F) ∧ V'.sb.ifree = v.sb.ifree ∧
      V'.sb.dzone_free = v.sb.dzone_free) := by
  have hci := div_lt_of_lt_scanned hi
  subst hrefD
  subst hCL
  obtain ⟨r1, r2, r3, r4, r5, r6, r7, r8, r9⟩ := hsE
  have hRm : R.mode = (getI v.itable F).mode := by rw [hR]; exact r1
  have hRc : R.clucount = (getI v.itable F).clucount := by rw [hR]; exact r6
  have hRd : R.d = (getI v.itable F).d := by rw [hR]; exact r7
  have hR1 : R.i1 = (getI v.itable F).i1 := by rw [hR]; exact r8
  have hR2 : R.i2 = (getI v.itable F).i2 := by rw [hR]; exact r9
  have hRr : R.refcount = dec16 (getI v.itable F).refcount := by rw [hR, ← r2]
  obtain ⟨m1, m2, m3, m4, m5, m6, m7, m8, m9⟩ := rem_marked_volume hg hFI hDF tW hRm hRc hRd
    hR1 hR2 (hleaf _ hci) (hDF1 _ hci) hW1
  by_cases h0 : dec16 recE.refcount = 0
  · obtain ⟨hs1, hs2, hV⟩ := cB h0
    obtain ⟨n1, n2, n3, n4, n5, n6, n7, n8⟩ := rem_file_freed hk env m5 m6 hDF
      (fun m hm => by rw [m7] at hm; rw [m8]; exact hDF2 m hm) hs1 hs2
    rw [← hV] at n1 n2 n3 n4 n5 n6 n7 n8
    obtain ⟨q1, q2⟩ := soGetDirEntryByName_after_mark env e hne hg n1 hdir hacc hptr hE hT hl
      hleaf hi hM huniq he (SameButTimes_trans (m4 D hDF) n2) (n3.trans (by rw [m1]))
      (n4.trans (by rw [m2]; exact List.length_set _ _ _))
      (fun m hm => by rw [n5 m (by rw [m8]; exact hDF2 m hm)]; exact m9 m hm)
      (fun c hc _ => by rw [n5 _ (by rw [m8]; exact hDF1 c hc), m2])
    refine ⟨q1, q2, fun _ => ⟨n6, by rw [n7, m1], by rw [n8, m1, m3, hRc]⟩, fun hr hlt => ?_⟩
    exfalso
    rw [r2] at h0
    unfold dec16 at h0
    omega
  · have hV := cA h0
    rw [hV]
    obtain ⟨q1, q2⟩ := soGetDirEntryByName_after_mark env e hne hg m6 hdir hacc hptr hE hT hl
      hleaf hi hM huniq he (m4 D hDF) (by rw [m1])
      (by rw [m2]; exact List.length_set _ _ _) m9 (fun c hc _ => by rw [m2])
    refine ⟨q1, q2, fun hr1 => ?_, fun hr hlt => ⟨?_, soQCheckInodeIU_not_free m5.2.2.2.1,
      by rw [m1], by rw [m1]⟩⟩
    · exfalso
      rw [r2, hr1] at h0
      exact h0 (by decide)
    · rw [m3, hRr]
      unfold dec16
      omega

/-- C27: on a directory `D` in use, for a name that is not empty and that one entry only has
among the entries `soGetDirEntryByName` goes through, the entry naming an inode `F` that is
not a directory, a successful `soRemDetachDirEntry (D, name, REM)` leaves the entry, of index
`i`, with the first byte of its name null, the former first byte in the last byte of the name
(index `MAX_NAME`) and `nInode = F`; `soGetDirEntryByName (D, name)` then returns `-ENOENT`;
when the `refcount` of `F` was 1, `F` is a free inode, `ifree` is one more than it was and
`dzone_free` has grown by the former `clucount` of `F`; when `refcount` was above 1 it is one
less than it was, `F` is in use and `ifree` and `dzone_free` are as they were. The metadata of
the volume are consistent; the clusters of the entries of `D` are in the data zone and are
not clusters of references of `D` nor of `F`, and no cluster of references of `D` is one of
`F`; the references of `F` are consistent with the data zone and its `clucount` counts them;
the name field holds `MAX_NAME + 1` bytes and `MAX_NAME > 0`. -/
theorem C27_rem_file_entry (k : SOConst) (env : SOEnv) (v : Volume) (D F : Nat)
    (eName : List Nat) (hk : k.Wf) (hne : eName ≠ []) (hg : Good k v D)
    (hptr : k.SIZEOF_PTR ≤ k.MAX_NAME + 1)
    (hE : 0 < k.DPC * (k.CLUSTER_SIZE / k.DPC))
    (hT : (getI v.itable D).size / (k.DPC * (k.CLUSTER_SIZE / k.DPC)) + 1
      ≤ MAX_FILE_CLUSTERS k)
    (hl : ∀ c, c < (getI v.itable D).size / (k.DPC * (k.CLUSTER_SIZE / k.DPC)) + 1 →
      refOfIndex k v.dzone (getI v.itable D) c ≠ NULL_CLUSTER →
      refOfIndex k v.dzone (getI v.itable D) c < v.dzone.length)
    (hleaf : ∀ c, c < (getI v.itable D).size / (k.DPC * (k.CLUSTER_SIZE / k.DPC)) + 1 →
      refOfIndex k v.dzone (getI v.itable D) c ∉ indClusters k v.dzone (getI v.itable D))
    (hMN : 0 < k.MAX_NAME)
    (huniq : ∀ i, i < scanned k (getI v.itable D) → ∀ j, j < scanned k (getI v.itable D) →
      entryNamed k v.dzone (getI v.itable D) eName i →
      entryNamed k v.dzone (getI v.itable D) eName j → j = i)
    (hF : ∀ i, i < scanned k (getI v.itable D) →
      entryNamed k v.dzone (getI v.itable D) eName i →
      (dirEntry k v.dzone (getI v.itable D) i).nInode = F ∧
      (dirEntry k v.dzone (getI v.itable D) i).name.length = k.MAX_NAME + 1)
    (hnd : (getI v.itable F).mode &&& k.INODE_DIR ≠ k.INODE_DIR)
    (hFI : FileInv k v F)
    (hDF1 : ∀ c, c < (getI v.itable D).size / (k.DPC * (k.CLUSTER_SIZE / k.DPC)) + 1 →
      refOfIndex k v.dzone (getI v.itable D) c ∉ indClusters k v.dzone (getI v.itable F))
    (hDF2 : ∀ m ∈ indClusters k v.dzone (getI v.itable D),
      m ∉ indClusters k v.dzone (getI v.itable F))
    (hs : (soRemDetachDirEntry k env v D eName REM).1 = 0) :
    ∃ i, i < scanned k (getI v.itable D) ∧
      entryNamed k v.dzone (getI v.itable D) eName i ∧
      (dirEntry k (soRemDetachDirEntry k env v D eName REM).2.dzone
        (getI (soRemDetachDirEntry k env v D eName REM).2.itable D) i).name.getD 0 0 = 0 ∧
      (dirEntry k (soRemDetachDirEntry k env v D eName REM).2.dzone
        (getI (soRemDetachDirEntry k env v D eName REM).2.itable D) i).name.getD k.MAX_NAME 0
        = (dirEntry k v.dzone (getI v.itable D) i).name.getD 0 0 ∧
      (dirEntry k (soRemDetachDirEntry k env v D eName REM).2.dzone
        (getI (soRemDetachDirEntry k env v D eName REM).2.itable D) i).nInode = F ∧
      (soGetDirEntryByName k env (soRemDetachDirEntry k env v D eName REM).2 D eName).1
        = -ENOENT ∧
      ((getI v.itable F).refcount = 1 →
        isFreeInode k (getI (soRemDetachDirEntry k env v D eName REM).2.itable F) ∧
        (soRemDetachDirEntry k env v D eName REM).2.sb.ifree = v.sb.ifree + 1 ∧
        (soRemDetachDirEntry k env v D eName REM).2.sb.dzone_free
          = v.sb.dzone_free + (getI v.itable F).clucount) ∧
      (1 < (getI v.itable F).refcount → (getI v.itable F).refcount < 65536 →
        (getI (soRemDetachDirEntry k env v D eName REM).2.itable F).refcount
          = (getI v.itable F).refcount - 1 ∧
        ¬ isFreeInode k (getI (soRemDetachDirEntry k env v D eName REM).2.itable F) ∧
        (soRemDetachDirEntry k env v D eName REM).2.sb.ifree = v.sb.ifree ∧
        (soRemDetachDirEntry k env v D eName REM).2.sb.dzone_free = v.sb.dzone_free) := by
  rw [soRemDetachDirEntry_eq] at hs ⊢
  rw [if_neg (by decide)] at hs ⊢
  by_cases c2 : eName.length > k.MAX_NAME
  · rw [if_pos c2] at hs
    simp [ENAMETOOLONG] at hs
  rw [if_neg c2] at hs ⊢
  by_cases c3 : SLASH ∈ eName
  · rw [if_pos c3] at hs
    simp [EINVAL] at hs
  rw [if_neg c3] at hs ⊢
  -- the inode of the directory is read
  obtain ⟨r1, r2, r3⟩ := soReadInode_good env hg
  generalize soReadInode k env v D = ri at hs r1 r2 r3 ⊢
  rw [if_neg (by rw [r1]; simp)] at hs ⊢
  by_cases c5 : ri.2.2.mode &&& k.INODE_DIR ≠ k.INODE_DIR
  · rw [if_pos c5] at hs
    simp [ENOTDIR] at hs
  rw [if_neg c5] at hs ⊢
  have hdir : (getI v.itable D).mode &&& k.INODE_DIR = k.INODE_DIR := by
    rw [← r3.1]; exact not_not.1 c5
  by_cases c6 : soQCheckDirCont k ri.2.1 ri.2.2 ≠ 0
  · rw [if_pos c6] at hs
    exact absurd hs c6
  rw [if_neg c6] at hs ⊢
  -- the permissions to execute and to write
  obtain ⟨x1, x2⟩ := soAccessGranted_TimesEq env X hg r2
  generalize soAccessGranted k env ri.2.1 D X = ax at hs x1 x2 ⊢
  by_cases c7 : ax.1 ≠ 0
  · rw [if_pos c7] at hs
    simp [EACCES] at hs
  rw [if_neg c7] at hs ⊢
  have haccv : (soAccessGranted k env v D X).1 = 0 := by
    rw [← x1]; exact not_not.1 c7
  obtain ⟨-, w2⟩ := soAccessGranted_TimesEq env W hg x2
  generalize soAccessGranted k env ax.2 D W = aw at hs w2 ⊢
  by_cases c8 : aw.1 ≠ 0
  · rw [if_pos c8] at hs
    simp [EPERM] at hs
  rw [if_neg c8] at hs ⊢
  -- the entry is looked for
  by_cases c9 : (soGetDirEntryByName k env aw.2 D eName).1 ≠ 0
  · rw [if_pos c9] at hs
    exact absurd hs c9
  rw [if_neg c9] at hs ⊢
  have hgw := Good_TimesEq hg w2
  have hsz : (getI aw.2.itable D).size = (getI v.itable D).size :=
    (w2.2.2.2.2 D).1.2.2.2.2.1
  have hmd : (getI aw.2.itable D).mode = (getI v.itable D).mode := (w2.2.2.2.2 D).1.1
  have hacc : (soAccessGranted k env aw.2 D X).1 = 0 := by
    rw [(soAccessGranted_TimesEq env X hg w2).1]
    exact haccv
  have hT' : (getI aw.2.itable D).size / (k.DPC * (k.CLUSTER_SIZE / k.DPC)) + 1
      ≤ MAX_FILE_CLUSTERS k := by rw [hsz]; exact hT
  have hl' : ∀ c, c < (getI aw.2.itable D).size / (k.DPC * (k.CLUSTER_SIZE / k.DPC)) + 1 →
      refOfIndex k aw.2.dzone (getI aw.2.itable D) c ≠ NULL_CLUSTER →
      refOfIndex k aw.2.dzone (getI aw.2.itable D) c < aw.2.dzone.length := by
    intro c hc
    rw [hsz] at hc
    rw [refOfIndex_TimesEq w2, w2.2.2.1]
    exact hl c hc
  have hde : ∀ j, dirEntry k aw.2.dzone (getI aw.2.itable D) j
      = dirEntry k v.dzone (getI v.itable D) j := by
    intro j
    unfold dirEntry
    rw [fileCluster_TimesEq w2]
  have hen : ∀ j, entryNamed k aw.2.dzone (getI aw.2.itable D) eName j
      ↔ entryNamed k v.dzone (getI v.itable D) eName j := by
    intro j
    unfold entryNamed
    rw [hde]
  have hsc : scanned k (getI aw.2.itable D) = scanned k (getI v.itable D) := by
    unfold scanned
    rw [hsz]
  obtain ⟨i, f1, f2, f3, f4, f5⟩ := soGetDirEntryByName_found env hne hgw
    (by rw [hmd]; exact hdir) hacc hptr hE hT' hl' (not_not.1 c9)
  have tg := TimesEq_trans w2
    (soGetDirEntryByName_spec env hne hgw (by rw [hmd]; exact hdir) hacc hptr hE hT' hl').1
  rw [hsc] at f1
  rw [hen] at f2
  rw [hde] at f4
  obtain ⟨hFi, hFl⟩ := hF i f1 f2
  rw [f4, f5, hFi] at hs ⊢
  have hci := div_lt_of_lt_scanned f1
  have hDF : D ≠ F := fun e => hnd (e ▸ hdir)
  refine ⟨i, f1, f2, ?_⟩
  obtain ⟨W', recE, tW, -, -, hsE, cA, cB⟩ := remDetachEntry_rem_file hne hg tg f2
    (Nat.lt_of_lt_of_le hci hT) (hl _ hci (entryNamed_allocated hne f2).1) hnd hs
  obtain ⟨z1, z2⟩ := getD_set_set (dirEntry k v.dzone (getI v.itable D) i).name k.MAX_NAME
    ((dirEntry k v.dzone (getI v.itable D) i).name.getD 0 0) hMN hFl
  obtain ⟨q1, q2, q3, q4⟩ := rem_file_outcome hk hne hg hdir haccv hptr hE hT hl hleaf f1 f2
    (fun j hj hn => huniq i f1 j hj f2 hn) hFI hDF hDF1 hDF2 tW hsE cA cB rfl rfl rfl rfl z1
  rw [q1]
  exact ⟨z1, z2, hFi, q2, q3, q4⟩

theorem Good_truncVolume : Good dirConst truncVolume 0 := by
  refine ⟨⟨by decide, by decide, [2, 3, 4, 5, 6, 7], by decide, ?_, by decide,
    by unfold Path Path Path Path Path Path; decide, by unfold Closed; decide,
    by decide⟩, by decide, by decide, by decide, by unfold RefsInZone; decide⟩
  intro n
  by_cases h : n < 8
  · interval_cases n <;> decide
  · constructor
    · intro hm
      simp only [List.mem_cons, List.mem_singleton, List.not_mem_nil, or_false] at hm
      omega
    · intro hm
      exact absurd hm.1 h

theorem FileInv_truncVolume : FileInv dirConst truncVolume 1 :=
  ⟨Good_truncVolume.1,
    ⟨⟨by decide, by decide, by decide, by decide, by decide, by decide, by decide, by decide,
      by decide, by decide⟩, by decide, by decide⟩,
    by decide, by decide, by unfold TreeWf; decide, by unfold Leaves; decide,
    by unfold Tight; decide, by decide, by decide⟩

/-- C27, on the volume with the regular file `/a` (inode 1, entry 2 of the root directory,
`refcount = 1`, one data cluster), for the name `a`. -/
theorem C27_rem_file_entry_witness :
    ((([97] : List Nat) ≠ [] ∧ Good dirConst truncVolume 0 ∧ FileInv dirConst truncVolume 1 ∧
      (getI truncVolume.itable 1).refcount = 1 ∧ (getI truncVolume.itable 1).clucount = 1 ∧
      (soRemDetachDirEntry dirConst exampleEnv truncVolume 0 [97] REM).1 = 0) ∧
    ∃ i, i < scanned dirConst (getI truncVolume.itable 0) ∧
      entryNamed dirConst truncVolume.dzone (getI truncVolume.itable 0) [97] i ∧
      (soGetDirEntryByName dirConst exampleEnv
        (soRemDetachDirEntry dirConst exampleEnv truncVolume 0 [97] REM).2 0 [97]).1
        = -ENOENT ∧
      isFreeInode dirConst
        (getI (soRemDetachDirEntry dirConst exampleEnv truncVolume 0 [97] REM).2.itable 1) ∧
      (soRemDetachDirEntry dirConst exampleEnv truncVolume 0 [97] REM).2.sb.ifree
        = truncVolume.sb.ifree + 1 ∧
      (soRemDetachDirEntry dirConst exampleEnv truncVolume 0 [97] REM).2.sb.dzone_free
        = truncVolume.sb.dzone_free + 1) :=
  ⟨⟨by decide, Good_truncVolume, FileInv_truncVolume, by decide, by decide, by decide⟩,
    (C27_rem_file_entry dirConst exampleEnv truncVolume 0 1 [97] (by decide) (by decide)
      Good_truncVolume (by decide) (by decide) (by decide) (by decide) (by decide) (by decide)
      (by unfold scanned; decide) (by unfold scanned; decide) (by decide) FileInv_truncVolume
      (by decide) (by decide) (by decide)).imp
      fun _ h => ⟨h.1, h.2.1, h.2.2.2.2.2.1, (h.2.2.2.2.2.2.1 (by decide)).1,
        (h.2.2.2.2.2.2.1 (by decide)).2.1, (h.2.2.2.2.2.2.1 (by decide)).2.2⟩⟩

end SOFS15
